import Mathlib

/-! Adaptive tetrahedral bisection (leb3D): a shallow embedding.

The definitions below follow the C++ sources of the repository
(`leb_3d_eval.h`, `leb_3d_cache.cpp`, `leb_volume.cpp`, `volume_generation.cpp`,
`heuristic_cache.cpp`).  Conventions of the embedding:

* `float` values are exact rationals (`ℚ`): every statement about geometry is a
  statement in exact arithmetic;
* `uint32_t` / `uint64_t` values are natural numbers, with an explicit
  `% 2 ^ 32` / `% 2 ^ 64` where the C++ arithmetic can wrap;
* `std::vector` is `List`; `v[i]` is `List.getD` and `v[i] = x` is `List.set`;
* loops and the recursion of `recursive_split_element` are driven by a fuel
  argument and return `Except Fail`, where a failed `assert` is `Fail.assertion`.
-/

set_option autoImplicit false

namespace Leb3D

/-! ## Vector and matrix types (`math/types.h`) -/

structure float3 where
  x : ℚ
  y : ℚ
  z : ℚ
deriving DecidableEq, Repr

structure float4 where
  x : ℚ
  y : ℚ
  z : ℚ
  w : ℚ
deriving DecidableEq, Repr

/-- The matrix type `float4x4`; `r0 .. r3` are the rows `rc[0] .. rc[3]`. -/
structure float4x4 where
  r0 : float4
  r1 : float4
  r2 : float4
  r3 : float4
deriving DecidableEq, Repr

structure uint4 where
  x : Nat
  y : Nat
  z : Nat
  w : Nat
deriving DecidableEq, Repr

structure Tetrahedron where
  p0 : float3
  p1 : float3
  p2 : float3
  p3 : float3
deriving DecidableEq, Repr

instance : Inhabited float3 := ⟨⟨0, 0, 0⟩⟩
instance : Inhabited float4 := ⟨⟨0, 0, 0, 0⟩⟩
instance : Inhabited uint4 := ⟨⟨0, 0, 0, 0⟩⟩
instance : Inhabited Tetrahedron := ⟨⟨default, default, default, default⟩⟩
instance : Inhabited float4x4 := ⟨⟨default, default, default, default⟩⟩

def UINT32_MAX : Nat := 4294967295

def float3.add (a b : float3) : float3 := ⟨a.x + b.x, a.y + b.y, a.z + b.z⟩
def float3.sub (a b : float3) : float3 := ⟨a.x - b.x, a.y - b.y, a.z - b.z⟩
def float3.divScalar (a : float3) (s : ℚ) : float3 := ⟨a.x / s, a.y / s, a.z / s⟩
def float3.mulScalar (a : float3) (s : ℚ) : float3 := ⟨a.x * s, a.y * s, a.z * s⟩

/-- The square of `length(v)`: comparisons of lengths are made on the squares. -/
def float3.lengthSq (a : float3) : ℚ := a.x * a.x + a.y * a.y + a.z * a.z

/-! ## `leb_3d_eval.h` -/

def LEB_CACHE_SIZE : Nat := 9

def leb__FindMSBLoop : Nat → Nat → Nat → Nat
  | 0, _, depth => depth
  | fuel + 1, x, depth =>
    if x > 1 then leb__FindMSBLoop fuel (x >>> 1) (depth + 1) else depth

/-- The loop `while (x > 1u) { ++depth; x >>= 1u; }` on a 64-bit value runs at most 63 times. -/
def leb__FindMSB (x : Nat) : Nat := leb__FindMSBLoop 64 x 0

def leb__GetBitValue (bitField bitID : Nat) : Nat := (bitField >>> bitID) &&& 1

def leb__IdentityMatrix4x4 : float4x4 :=
  ⟨⟨1, 0, 0, 0⟩, ⟨0, 1, 0, 0⟩, ⟨0, 0, 1, 0⟩, ⟨0, 0, 0, 1⟩⟩

def leb__TransposeMatrix4x4 (m : float4x4) : float4x4 :=
  ⟨⟨m.r0.x, m.r1.x, m.r2.x, m.r3.x⟩, ⟨m.r0.y, m.r1.y, m.r2.y, m.r3.y⟩,
   ⟨m.r0.z, m.r1.z, m.r2.z, m.r3.z⟩, ⟨m.r0.w, m.r1.w, m.r2.w, m.r3.w⟩⟩

/-- The accumulation `dp = 0; dp += x[i] * y[i]` for `i = 0 .. 3`. -/
def leb__DotProduct (x y : float4) : ℚ :=
  (((0 + x.x * y.x) + x.y * y.y) + x.z * y.z) + x.w * y.w

/-- One row `out.rc[j][0 .. 3]` of the product, `tra` being the transposed right factor. -/
def productRow (r : float4) (tra : float4x4) : float4 :=
  ⟨leb__DotProduct r tra.r0, leb__DotProduct r tra.r1,
   leb__DotProduct r tra.r2, leb__DotProduct r tra.r3⟩

def leb__Matrix4x4Product (m1 m2 : float4x4) : float4x4 :=
  let tra := leb__TransposeMatrix4x4 m2
  ⟨productRow m1.r0 tra, productRow m1.r1 tra, productRow m1.r2 tra, productRow m1.r3 tra⟩

/-- The constant `splitMatrix` of the branches `type == 0` and `type == 3`. -/
def splitMatrix03 (b c : ℚ) : float4x4 :=
  ⟨⟨0, 1, 0, 0⟩, ⟨0, 0, 1 / 2, 1 / 2⟩, ⟨b, 0, c, 0⟩, ⟨c, 0, 0, b⟩⟩

/-- The constant `splitMatrix` of the branch `type == 1`. -/
def splitMatrix1 (b c : ℚ) : float4x4 :=
  ⟨⟨b, c, 0, 0⟩, ⟨0, 0, 1 / 2, 1 / 2⟩, ⟨0, 0, c, b⟩, ⟨c, b, 0, 0⟩⟩

/-- The constant `splitMatrix` of the branch `type == 2`. -/
def splitMatrix2 (b c : ℚ) : float4x4 :=
  ⟨⟨c, b, 0, 0⟩, ⟨0, 0, 1 / 2, 1 / 2⟩, ⟨b, c, 0, 0⟩, ⟨0, 0, c, b⟩⟩

/-- The function `leb__SplittingMatrix(matrix, bitValue, type)`: an `if (type == 0)` followed by
the chain `if (type == 3) .. else if (type == 1) .. else if (type == 2)`. -/
def leb__SplittingMatrix (matrix : float4x4) (bitValue : Nat) (type : Nat) : float4x4 :=
  let b : ℚ := (bitValue : ℚ)
  let c : ℚ := 1 - b
  let matrix := if type = 0 then leb__Matrix4x4Product (splitMatrix03 b c) matrix else matrix
  if type = 3 then leb__Matrix4x4Product (splitMatrix03 b c) matrix
  else if type = 1 then leb__Matrix4x4Product (splitMatrix1 b c) matrix
  else if type = 2 then leb__Matrix4x4Product (splitMatrix2 b c) matrix
  else matrix

/-- The `switch (currentType)` of `leb__DecodeTransformationMatrix`. -/
def nextType (currentType bitValue : Nat) : Nat :=
  if currentType = 0 then (if bitValue = 0 then 1 else 2)
  else if currentType = 1 ∨ currentType = 2 then 3
  else if currentType = 3 then 0
  else currentType

/-- The loop `for (bitID = depth - 1; bitID >= 0; --bitID)`; the first argument counts the bits
that remain, so the bit read in an iteration is `bitID`. -/
def decodeLoop (heapID : Nat) : Nat → Nat → float4x4 → float4x4
  | 0, _, matrix => matrix
  | bitID + 1, currentType, matrix =>
    let bitValue := leb__GetBitValue heapID bitID
    decodeLoop heapID bitID (nextType currentType bitValue)
      (leb__SplittingMatrix matrix bitValue currentType)

/-- The bit-by-bit `leb__DecodeTransformationMatrix(heapID, currentType, matrix)`. -/
def leb__DecodeTransformationMatrix (heapID : Nat) (currentType : Nat) : float4x4 :=
  decodeLoop heapID (leb__FindMSB heapID) currentType leb__IdentityMatrix4x4

/-- The loop `while (heapID > mask)` of the cached decoder. -/
def cachedLoop (matrixCache : List float4x4) : Nat → Nat → float4x4 → float4x4
  | 0, _, matrix => matrix
  | fuel + 1, heapID, matrix =>
    let msb := 1 <<< LEB_CACHE_SIZE
    let mask := 2 ^ LEB_CACHE_SIZE - 1
    if heapID > mask then
      let index := ((heapID &&& mask) ||| msb) % 2 ^ 32
      cachedLoop matrixCache fuel (heapID >>> LEB_CACHE_SIZE)
        (leb__Matrix4x4Product matrix (matrixCache.getD index default))
    else matrix

/-- The cached `leb__DecodeTransformationMatrix(heapID, type, matrix, matrixCache)`; the type
argument is unnamed and unused in the source. -/
def leb__DecodeTransformationMatrixCached (heapID : Nat) (_type : Nat)
    (matrixCache : List float4x4) : float4x4 :=
  let matrix := leb__IdentityMatrix4x4
  let depth := leb__FindMSB heapID
  let remainder := depth % LEB_CACHE_SIZE
  if remainder ≠ 0 then
    let index := ((heapID &&& ((1 <<< remainder) - 1)) ||| (1 <<< remainder)) % 2 ^ 32
    let matrix := leb__Matrix4x4Product matrix (matrixCache.getD index default)
    cachedLoop matrixCache 64 (heapID >>> remainder) matrix
  else
    cachedLoop matrixCache 64 heapID matrix

/-- The table built by the constructor `Leb3DCache::Leb3DCache`: the identity at index 0 and the
bit-by-bit matrix of `heapID` (from type 0) at every index `1 <= heapID < 2 << 9`. -/
def Leb3DCache : List float4x4 :=
  leb__IdentityMatrix4x4 ::
    (List.range ((2 <<< LEB_CACHE_SIZE) - 1)).map
      (fun i => leb__DecodeTransformationMatrix (i + 1) 0)

/-- The body shared by both `leb_DecodeNodeAttributeArray`: apply the matrix to one attribute. -/
def applyMatrix (m : float4x4) (v : float4) : float4 :=
  ⟨leb__DotProduct m.r0 v, leb__DotProduct m.r1 v, leb__DotProduct m.r2 v, leb__DotProduct m.r3 v⟩

/-- The type reached after the `n` low bits of `heapID` were consumed from the top. -/
def typeLoop (heapID : Nat) : Nat → Nat → Nat
  | 0, t => t
  | bitID + 1, t => typeLoop heapID bitID (nextType t (leb__GetBitValue heapID bitID))

/-! ## `leb_volume.h`: the mesh -/

def ELEMENT_INCLUDED : Nat := 1
def ELEMENT_INVALID_CACHE : Nat := 2
def ELEMENT_REQUESTED : Nat := 4

/-- The debug record `Diamond`; only the entries that the code assigns are kept. -/
structure Diamond where
  heapID : List Nat
  size : Nat
deriving DecidableEq, Repr

structure LEBVolume where
  totalNumElements : Nat
  minimalDepth : Nat
  heapIDArray : List Nat
  typeArray : List Nat
  neighborsArray : List uint4
  basePoints : List float3
  baseTypes : List Nat
  tetraCacheArray : List Tetrahedron
  modifArray : List Nat
  depthArray : List Nat
  diamonds : List Diamond
deriving DecidableEq, Repr

/-- How a call can stop without returning: the fuel of the embedding ran out, an `assert`
failed, or `assert_fail()` / `assert_fail_msg` was reached. -/
inductive Fail where
  | outOfFuel
  | assertion
  | assertFail
deriving DecidableEq, Repr

deriving instance DecidableEq for Except

/-- Modelled from the spec: the macro `assert` of `tools/security.h`, which is not in the
sources; an invariant violation is fatal and aborts. -/
def assert (c : Bool) : Except Fail Unit :=
  if c then pure () else throw Fail.assertion

/-! ## `leb_volume.cpp`: geometry of an element -/

/-- The three attribute rows decoded by `leb_DecodeNodeAttributeArray` and gathered back into
the four vertices; `m` is the matrix given by the decoder in use. -/
def decodeVertices (m : float4x4) (p0 p1 p2 p3 : float3) : Tetrahedron :=
  let a0 := applyMatrix m ⟨p0.x, p1.x, p2.x, p3.x⟩
  let a1 := applyMatrix m ⟨p0.y, p1.y, p2.y, p3.y⟩
  let a2 := applyMatrix m ⟨p0.z, p1.z, p2.z, p3.z⟩
  ⟨⟨a0.x, a1.x, a2.x⟩, ⟨a0.y, a1.y, a2.y⟩, ⟨a0.z, a1.z, a2.z⟩, ⟨a0.w, a1.w, a2.w⟩⟩

/-- The index `primitiveID` of the root of `heapID`. -/
def primitiveID (heapID minDepth : Nat) : Nat :=
  let depth := leb__FindMSB heapID
  let subTreeDepth := (depth + 2 ^ 32 - minDepth) % 2 ^ 32
  let baseHeapID := (1 <<< minDepth) % 2 ^ 64
  ((heapID >>> subTreeDepth) + 2 ^ 64 - baseHeapID) % 2 ^ 64 % 2 ^ 32

/-- The heap index `subHeapID` of `heapID` inside the tree of its root. -/
def subHeapID (heapID minDepth : Nat) : Nat :=
  let depth := leb__FindMSB heapID
  let subTreeDepth := (depth + 2 ^ 32 - minDepth) % 2 ^ 32
  let mask := if subTreeDepth ≠ 0 then (2 ^ 64 - 1) >>> (64 - subTreeDepth) else 0
  let baseHeap := (1 <<< subTreeDepth) % 2 ^ 64
  let baseMask := mask &&& heapID
  (baseMask + baseHeap) % 2 ^ 64

/-- The overload of `evaluate_tetrahedron` without a cache. -/
def evaluate_tetrahedron (heapID minDepth : Nat) (basePoints : List float3)
    (baseTypes : List Nat) : Tetrahedron :=
  let primitiveID := primitiveID heapID minDepth
  let subHeapID := subHeapID heapID minDepth
  let p0 := basePoints.getD (4 * primitiveID) default
  let p1 := basePoints.getD (4 * primitiveID + 1) default
  let p2 := basePoints.getD (4 * primitiveID + 2) default
  let p3 := basePoints.getD (4 * primitiveID + 3) default
  let baseType := baseTypes.getD primitiveID 0
  decodeVertices (leb__DecodeTransformationMatrix subHeapID baseType) p0 p1 p2 p3

/-- The overload of `evaluate_tetrahedron` that reads the table of a `Leb3DCache`. -/
def evaluate_tetrahedron_cached (heapID minDepth : Nat) (basePoints : List float3)
    (baseTypes : List Nat) (cache : List float4x4) : Tetrahedron :=
  let primitiveID := primitiveID heapID minDepth
  let subHeapID := subHeapID heapID minDepth
  let p0 := basePoints.getD (4 * primitiveID) default
  let p1 := basePoints.getD (4 * primitiveID + 1) default
  let p2 := basePoints.getD (4 * primitiveID + 2) default
  let p3 := basePoints.getD (4 * primitiveID + 3) default
  let baseType := baseTypes.getD primitiveID 0
  decodeVertices (leb__DecodeTransformationMatrixCached subHeapID baseType cache) p0 p1 p2 p3

/-- The four face centroids of a tetrahedron, in the order of `evaluate_face_centers`. -/
def faceCentersOf (tetra : Tetrahedron) : List float3 :=
  [((tetra.p0.add tetra.p1).add tetra.p2).divScalar 3,
   ((tetra.p0.add tetra.p3).add tetra.p1).divScalar 3,
   ((tetra.p1.add tetra.p3).add tetra.p2).divScalar 3,
   ((tetra.p0.add tetra.p2).add tetra.p3).divScalar 3]

/-- The function `evaluate_face_centers`: four centroids per element; the entries of an
element whose heapID is 0 keep the value of the resized vector. -/
def evaluate_face_centers (lebVolume : LEBVolume) : List float3 :=
  ((List.range lebVolume.totalNumElements).map (fun elementID =>
    let heapID := lebVolume.heapIDArray.getD elementID 0
    if heapID = 0 then [default, default, default, default]
    else faceCentersOf (evaluate_tetrahedron heapID lebVolume.minimalDepth
      lebVolume.basePoints lebVolume.baseTypes))).flatten

def FLT_MAX : ℚ := (2 ^ 24 - 1) * 2 ^ 104

def uint4.at (n : uint4) (i : Nat) : Nat :=
  if i = 0 then n.x else if i = 1 then n.y else if i = 2 then n.z else n.w

def uint4.setAt (n : uint4) (i : Nat) (v : Nat) : uint4 :=
  if i = 0 then { n with x := v } else if i = 1 then { n with y := v }
  else if i = 2 then { n with z := v } else { n with w := v }

/-- The body of the innermost loop over `nfaceIdx`: the state is the pair `(dist, neighbor)`,
distances being kept squared; the test is `cDist < 0.001 && cDist < dist`. -/
def closestStep (faceCenters : List float3) (faceCenter : float3) (nID : Nat) (st : ℚ × Nat)
    (nfaceIdx : Nat) : ℚ × Nat :=
  let cDist := (faceCenter.sub (faceCenters.getD (4 * nID + nfaceIdx) default)).lengthSq
  if cDist < (1 / 1000) ^ 2 ∧ cDist < st.1 then (cDist, nID) else st

/-- The body of the loop over `nID`: the element itself is skipped. -/
def closestElement (faceCenters : List float3) (currentID : Nat) (faceCenter : float3)
    (st : ℚ × Nat) (nID : Nat) : ℚ × Nat :=
  if nID = currentID then st
  else (List.range 4).foldl (closestStep faceCenters faceCenter nID) st

/-- The two inner loops over `nID` and `nfaceIdx` for one face centre, from `dist = FLT_MAX`
and the neighbor `UINT32_MAX`. -/
def closestFace (faceCenters : List float3) (count currentID : Nat) (faceCenter : float3) :
    ℚ × Nat :=
  (List.range count).foldl (closestElement faceCenters currentID faceCenter)
    (FLT_MAX ^ 2, UINT32_MAX)

/-- The neighbors of one element found by matching face centroids. -/
def matchNeighbors (faceCenters : List float3) (count currentID : Nat) : uint4 :=
  (List.range 4).foldl (fun (neighbors : uint4) faceIdx =>
    neighbors.setAt faceIdx
      (closestFace faceCenters count currentID
        (faceCenters.getD (4 * currentID + faceIdx) default)).2)
    ⟨UINT32_MAX, UINT32_MAX, UINT32_MAX, UINT32_MAX⟩

/-- The function `evaluate_neighbors`. -/
def evaluate_neighbors (volume : LEBVolume) (faceCenters : List float3) : List uint4 :=
  (List.range volume.totalNumElements).map (fun currentID =>
    if volume.heapIDArray.getD currentID 0 = 0 then
      ⟨UINT32_MAX, UINT32_MAX, UINT32_MAX, UINT32_MAX⟩
    else matchNeighbors faceCenters volume.totalNumElements currentID)

def equivalent_types (type0 type1 : Nat) : Bool :=
  (type0 == type1) || (type0 == 1 && type1 == 2) || (type0 == 2 && type1 == 1)

def g_BaseTetraCount : Nat := 24
def g_BaseVertexCount : Nat := g_BaseTetraCount * 4

/-! ## `leb_volume.cpp`: the root decomposition and its validation -/

/-- The coordinates of `g_CubeType0Vertices` counted in halves: every coordinate of the table is
`0`, `0.5` or `-0.5`, written here `0`, `1`, `-1`; one line per root tetrahedron. -/
def g_CubeType0VerticesHalves : List (Int × Int × Int) :=
  [(0, 0, 0), (0, 0, -1), (1, -1, -1), (1, 1, -1),
   (0, 0, 0), (0, 0, -1), (1, 1, -1), (-1, 1, -1),
   (0, 0, 0), (0, 0, -1), (-1, 1, -1), (-1, -1, -1),
   (0, 0, 0), (0, 0, -1), (-1, -1, -1), (1, -1, -1),
   (0, 0, 0), (1, 0, 0), (1, -1, 1), (1, 1, 1),
   (0, 0, 0), (1, 0, 0), (1, 1, 1), (1, 1, -1),
   (0, 0, 0), (1, 0, 0), (1, 1, -1), (1, -1, -1),
   (0, 0, 0), (1, 0, 0), (1, -1, -1), (1, -1, 1),
   (0, 0, 0), (0, 0, 1), (-1, -1, 1), (-1, 1, 1),
   (0, 0, 0), (0, 0, 1), (-1, 1, 1), (1, 1, 1),
   (0, 0, 0), (0, 0, 1), (1, 1, 1), (1, -1, 1),
   (0, 0, 0), (0, 0, 1), (1, -1, 1), (-1, -1, 1),
   (0, 0, 0), (-1, 0, 0), (-1, -1, -1), (-1, 1, -1),
   (0, 0, 0), (-1, 0, 0), (-1, 1, -1), (-1, 1, 1),
   (0, 0, 0), (-1, 0, 0), (-1, 1, 1), (-1, -1, 1),
   (0, 0, 0), (-1, 0, 0), (-1, -1, 1), (-1, -1, -1),
   (0, 0, 0), (0, 1, 0), (1, 1, -1), (1, 1, 1),
   (0, 0, 0), (0, 1, 0), (1, 1, 1), (-1, 1, 1),
   (0, 0, 0), (0, 1, 0), (-1, 1, 1), (-1, 1, -1),
   (0, 0, 0), (0, 1, 0), (-1, 1, -1), (1, 1, -1),
   (0, 0, 0), (0, -1, 0), (1, -1, 1), (1, -1, -1),
   (0, 0, 0), (0, -1, 0), (1, -1, -1), (-1, -1, -1),
   (0, 0, 0), (0, -1, 0), (-1, -1, -1), (-1, -1, 1),
   (0, 0, 0), (0, -1, 0), (-1, -1, 1), (1, -1, 1)]

/-- The table `g_CubeType0Vertices`: four vertices for each of the 24 root tetrahedra. -/
def g_CubeType0Vertices : List float3 :=
  g_CubeType0VerticesHalves.map (fun p => ⟨(p.1 : ℚ) / 2, (p.2.1 : ℚ) / 2, (p.2.2 : ℚ) / 2⟩)

/-- The function `std::vector::resize`: truncate, or pad with value-initialised entries. -/
def resize {α : Type} [Inhabited α] (l : List α) (n : Nat) : List α :=
  l.take n ++ List.replicate (n - l.length) default

/-- The function `create_type0_cube`, applied to the volume passed by reference. -/
def create_type0_cube (lebVolume : LEBVolume) : LEBVolume :=
  let lebVolume := { lebVolume with totalNumElements := g_BaseTetraCount, minimalDepth := 5 }
  let lebVolume := { lebVolume with
    heapIDArray := (List.range g_BaseTetraCount).map (fun idx => 32 + idx)
    typeArray := (List.range g_BaseTetraCount).map (fun _ => 0)
    basePoints := g_CubeType0Vertices
    baseTypes := (List.range g_BaseTetraCount).map (fun _ => 0) }
  let faceCenters := evaluate_face_centers lebVolume
  let lebVolume := { lebVolume with
    neighborsArray := (List.range g_BaseTetraCount).map (fun currentID =>
      if lebVolume.heapIDArray.getD currentID 0 = 0 then
        ⟨UINT32_MAX, UINT32_MAX, UINT32_MAX, UINT32_MAX⟩
      else matchNeighbors faceCenters g_BaseTetraCount currentID) }
  { lebVolume with
    modifArray := resize lebVolume.modifArray lebVolume.totalNumElements
    depthArray := resize lebVolume.depthArray lebVolume.totalNumElements
    tetraCacheArray := resize lebVolume.tetraCacheArray lebVolume.totalNumElements }

/-- A default-constructed `LEBVolume`: no element, empty vectors. -/
def emptyVolume : LEBVolume :=
  { totalNumElements := 0, minimalDepth := 0, heapIDArray := [], typeArray := [],
    neighborsArray := [], basePoints := [], baseTypes := [], tetraCacheArray := [],
    modifArray := [], depthArray := [], diamonds := [] }

def is_on_external_face (pt : float3) : Bool :=
  decide (|pt.x + 1 / 2| < 1 / 100000) || decide (|pt.x - 1 / 2| < 1 / 100000)
    || decide (|pt.y + 1 / 2| < 1 / 100000) || decide (|pt.y - 1 / 2| < 1 / 100000)
    || decide (|pt.z + 1 / 2| < 1 / 100000) || decide (|pt.z - 1 / 2| < 1 / 100000)

/-- The first loop of `validate_cubic_volume` for one element: a face that is not on an
external face of the cube has a geometric neighbor. -/
def validateFaces (faceCenters : List float3) (actualNeighbors : uint4) (eleID : Nat) :
    Except Fail Unit := do
  if !is_on_external_face (faceCenters.getD (eleID * 4 + 0) default) then
    assert (actualNeighbors.x != UINT32_MAX)
  if !is_on_external_face (faceCenters.getD (eleID * 4 + 1) default) then
    assert (actualNeighbors.y != UINT32_MAX)
  if !is_on_external_face (faceCenters.getD (eleID * 4 + 2) default) then
    assert (actualNeighbors.z != UINT32_MAX)
  if !is_on_external_face (faceCenters.getD (eleID * 4 + 3) default) then
    assert (actualNeighbors.w != UINT32_MAX)

/-- The second loop of `validate_cubic_volume` for one element: the stored neighbors are the
recomputed ones, else `assert_fail_msg("Validation failure.")`. -/
def validateStored (actualNeighbors practialNeighobors : uint4) : Except Fail Unit :=
  if practialNeighobors.x ≠ actualNeighbors.x ∨ practialNeighobors.y ≠ actualNeighbors.y
      ∨ practialNeighobors.z ≠ actualNeighbors.z ∨ practialNeighobors.w ≠ actualNeighbors.w then
    throw Fail.assertFail
  else pure ()

/-- A `for` loop over the listed indices whose body may stop the program. -/
def forEach (f : Nat → Except Fail Unit) : List Nat → Except Fail Unit
  | [] => pure ()
  | a :: l => do
    f a
    forEach f l

/-- The function `validate_cubic_volume`: it returns, or stops on the first failed check. -/
def validate_cubic_volume (cpuVolume : LEBVolume) : Except Fail Unit := do
  let faceCenters := evaluate_face_centers cpuVolume
  let neighborsArray := evaluate_neighbors cpuVolume faceCenters
  forEach (fun eleID =>
    if cpuVolume.heapIDArray.getD eleID 0 = 0 then pure ()
    else validateFaces faceCenters (neighborsArray.getD eleID default) eleID)
    (List.range cpuVolume.totalNumElements)
  forEach (fun eleID =>
    if cpuVolume.heapIDArray.getD eleID 0 = 0 then pure ()
    else validateStored (cpuVolume.neighborsArray.getD eleID default)
      (neighborsArray.getD eleID default))
    (List.range cpuVolume.totalNumElements)

/-! ## `volume_generation.cpp`: the split of a diamond -/

/-- The function `allocate_new_elements`; the result is the volume and `prevElementCount`. -/
def allocate_new_elements (volume : LEBVolume) (numElements : Nat) : LEBVolume × Nat :=
  let prevElementCount := volume.totalNumElements
  let newSize := (prevElementCount + numElements) % 2 ^ 32
  ({ volume with
      heapIDArray := resize volume.heapIDArray newSize
      typeArray := resize volume.typeArray newSize
      neighborsArray := resize volume.neighborsArray newSize
      modifArray := resize volume.modifArray newSize
      depthArray := resize volume.depthArray newSize
      tetraCacheArray := resize volume.tetraCacheArray newSize
      totalNumElements := (volume.totalNumElements + numElements) % 2 ^ 32 },
   prevElementCount)

def patch_neighbor (cpuVolume : LEBVolume) (target oldRef newRef : Nat) : LEBVolume :=
  let neighbors := cpuVolume.neighborsArray.getD target default
  let neighbors := if neighbors.x = oldRef then { neighbors with x := newRef } else neighbors
  let neighbors := if neighbors.y = oldRef then { neighbors with y := newRef } else neighbors
  let neighbors := if neighbors.z = oldRef then { neighbors with z := newRef } else neighbors
  let neighbors := if neighbors.w = oldRef then { neighbors with w := newRef } else neighbors
  { cpuVolume with neighborsArray := cpuVolume.neighborsArray.set target neighbors }

/-- The read `volume.neighborsArray[i]`. -/
def neighborsOf (volume : LEBVolume) (i : Nat) : uint4 :=
  volume.neighborsArray.getD i default

/-- The read `volume.typeArray[i]`. -/
def typeOf (volume : LEBVolume) (i : Nat) : Nat :=
  volume.typeArray.getD i 0

/-- The statement
`modifArray[i] = (modifArray[i] & ~(ELEMENT_REQUESTED)) | ELEMENT_INVALID_CACHE` on a byte. -/
def flagModified (volume : LEBVolume) (i : Nat) : LEBVolume :=
  let flags := ((volume.modifArray.getD i 0) &&& (255 - ELEMENT_REQUESTED)) ||| ELEMENT_INVALID_CACHE
  { volume with modifArray := volume.modifArray.set i flags }

/-- The statement `modifArray[slot] = modifArray[i]`. -/
def copyModif (volume : LEBVolume) (slot i : Nat) : LEBVolume :=
  { volume with modifArray := volume.modifArray.set slot (volume.modifArray.getD i 0) }

/-- The two statements `heapIDArray[i] = heapIDArray[i] * 2;`
`heapIDArray[slot] = heapIDArray[i] + 1;` on 64-bit values. -/
def splitHeapID (volume : LEBVolume) (i slot : Nat) : LEBVolume :=
  let heapIDArray := volume.heapIDArray.set i ((volume.heapIDArray.getD i 0 * 2) % 2 ^ 64)
  let heapIDArray := heapIDArray.set slot ((heapIDArray.getD i 0 + 1) % 2 ^ 64)
  { volume with heapIDArray := heapIDArray }

/-- The two statements `typeArray[i] = ti; typeArray[slot] = ts;`. -/
def setTypes (volume : LEBVolume) (i slot ti ts : Nat) : LEBVolume :=
  { volume with typeArray := (volume.typeArray.set i ti).set slot ts }

/-- The two statements `neighborsArray[i] = ni; neighborsArray[slot] = ns;`. -/
def setNeighbors (volume : LEBVolume) (i slot : Nat) (ni ns : uint4) : LEBVolume :=
  { volume with neighborsArray := (volume.neighborsArray.set i ni).set slot ns }

/-- The statement `if (nI.y != UINT32_MAX) patch_neighbor(volume, nI.y, i, slot);`. -/
def patchOutward (volume : LEBVolume) (nI : uint4) (i slot : Nat) : LEBVolume :=
  if nI.y ≠ UINT32_MAX then patch_neighbor volume nI.y i slot else volume

/-- The value `heapIDArray[i] / 2` stored in the debug record of a diamond. -/
def parentHeapID (volume : LEBVolume) (i : Nat) : Nat :=
  volume.heapIDArray.getD i 0 / 2

/-- The successor `slot + 1` of a 32-bit slot index. -/
def nextSlot (slot : Nat) : Nat := (slot + 1) % 2 ^ 32

/-- The branch `currentType == 0` of `diamond_split`: eight elements. -/
def diamond_split0 (volume : LEBVolume) (targetElement : Nat) : Except Fail LEBVolume := do
  let i0 := targetElement
  let i1 := (neighborsOf volume targetElement).z
  let i2 := (neighborsOf volume i1).w
  let i3 := (neighborsOf volume i2).z
  let i4 := (neighborsOf volume i3).w
  let i5 := (neighborsOf volume i4).z
  let i6 := (neighborsOf volume i5).w
  let i7 := (neighborsOf volume i6).z
  assert ((neighborsOf volume i0).w == i7)
  assert (typeOf volume i0 == 0)
  assert (typeOf volume i1 == 0)
  assert (typeOf volume i2 == 0)
  assert (typeOf volume i3 == 0)
  assert (typeOf volume i4 == 0)
  assert (typeOf volume i5 == 0)
  assert (typeOf volume i6 == 0)
  assert (typeOf volume i7 == 0)
  let (volume, slot0) := allocate_new_elements volume 8
  let slot1 := nextSlot slot0
  let slot2 := nextSlot slot1
  let slot3 := nextSlot slot2
  let slot4 := nextSlot slot3
  let slot5 := nextSlot slot4
  let slot6 := nextSlot slot5
  let slot7 := nextSlot slot6
  let volume := flagModified volume i0
  let volume := flagModified volume i1
  let volume := flagModified volume i2
  let volume := flagModified volume i3
  let volume := flagModified volume i4
  let volume := flagModified volume i5
  let volume := flagModified volume i6
  let volume := flagModified volume i7
  let volume := copyModif volume slot0 i0
  let volume := copyModif volume slot1 i1
  let volume := copyModif volume slot2 i2
  let volume := copyModif volume slot3 i3
  let volume := copyModif volume slot4 i4
  let volume := copyModif volume slot5 i5
  let volume := copyModif volume slot6 i6
  let volume := copyModif volume slot7 i7
  let volume := splitHeapID volume i0 slot0
  let volume := splitHeapID volume i1 slot1
  let volume := splitHeapID volume i2 slot2
  let volume := splitHeapID volume i3 slot3
  let volume := splitHeapID volume i4 slot4
  let volume := splitHeapID volume i5 slot5
  let volume := splitHeapID volume i6 slot6
  let volume := splitHeapID volume i7 slot7
  let volume := setTypes volume i0 slot0 1 2
  let volume := setTypes volume i1 slot1 1 2
  let volume := setTypes volume i2 slot2 1 2
  let volume := setTypes volume i3 slot3 1 2
  let volume := setTypes volume i4 slot4 1 2
  let volume := setTypes volume i5 slot5 1 2
  let volume := setTypes volume i6 slot6 1 2
  let volume := setTypes volume i7 slot7 1 2
  let nI0 := neighborsOf volume i0
  let nI1 := neighborsOf volume i1
  let nI2 := neighborsOf volume i2
  let nI3 := neighborsOf volume i3
  let nI4 := neighborsOf volume i4
  let nI5 := neighborsOf volume i5
  let nI6 := neighborsOf volume i6
  let nI7 := neighborsOf volume i7
  let volume := setNeighbors volume i0 slot0 ⟨slot1, slot0, slot7, nI0.x⟩ ⟨i0, i1, i7, nI0.y⟩
  let volume := setNeighbors volume i1 slot1 ⟨slot0, slot1, slot2, nI1.x⟩ ⟨i1, i0, i2, nI1.y⟩
  let volume := setNeighbors volume i2 slot2 ⟨slot3, slot2, slot1, nI2.x⟩ ⟨i2, i3, i1, nI2.y⟩
  let volume := setNeighbors volume i3 slot3 ⟨slot2, slot3, slot4, nI3.x⟩ ⟨i3, i2, i4, nI3.y⟩
  let volume := setNeighbors volume i4 slot4 ⟨slot5, slot4, slot3, nI4.x⟩ ⟨i4, i5, i3, nI4.y⟩
  let volume := setNeighbors volume i5 slot5 ⟨slot4, slot5, slot6, nI5.x⟩ ⟨i5, i4, i6, nI5.y⟩
  let volume := setNeighbors volume i6 slot6 ⟨slot7, slot6, slot5, nI6.x⟩ ⟨i6, i7, i5, nI6.y⟩
  let volume := setNeighbors volume i7 slot7 ⟨slot6, slot7, slot0, nI7.x⟩ ⟨i7, i6, i0, nI7.y⟩
  let volume := patchOutward volume nI0 i0 slot0
  let volume := patchOutward volume nI1 i1 slot1
  let volume := patchOutward volume nI2 i2 slot2
  let volume := patchOutward volume nI3 i3 slot3
  let volume := patchOutward volume nI4 i4 slot4
  let volume := patchOutward volume nI5 i5 slot5
  let volume := patchOutward volume nI6 i6 slot6
  let volume := patchOutward volume nI7 i7 slot7
  let diamond : Diamond :=
    { size := 8
      heapID := [parentHeapID volume i0, parentHeapID volume i1, parentHeapID volume i2,
        parentHeapID volume i3, parentHeapID volume i4, parentHeapID volume i5,
        parentHeapID volume i6, parentHeapID volume i7] }
  pure { volume with diamonds := volume.diamonds ++ [diamond] }

/-- The branch `currentType == 3` of `diamond_split`: four elements. -/
def diamond_split3 (volume : LEBVolume) (targetElement : Nat) : Except Fail LEBVolume := do
  let i0 := targetElement
  let i1 := (neighborsOf volume targetElement).z
  let i2 := (neighborsOf volume i1).w
  let i3 := (neighborsOf volume i2).z
  assert (typeOf volume i0 == 3)
  assert (typeOf volume i1 == 3)
  assert (typeOf volume i2 == 3)
  assert (typeOf volume i3 == 3)
  let (volume, slot0) := allocate_new_elements volume 4
  let slot1 := nextSlot slot0
  let slot2 := nextSlot slot1
  let slot3 := nextSlot slot2
  let volume := flagModified volume i0
  let volume := flagModified volume i1
  let volume := flagModified volume i2
  let volume := flagModified volume i3
  let volume := copyModif volume slot0 i0
  let volume := copyModif volume slot1 i1
  let volume := copyModif volume slot2 i2
  let volume := copyModif volume slot3 i3
  let volume := splitHeapID volume i0 slot0
  let volume := splitHeapID volume i1 slot1
  let volume := splitHeapID volume i2 slot2
  let volume := splitHeapID volume i3 slot3
  let volume := setTypes volume i0 slot0 0 0
  let volume := setTypes volume i1 slot1 0 0
  let volume := setTypes volume i2 slot2 0 0
  let volume := setTypes volume i3 slot3 0 0
  let nI0 := neighborsOf volume i0
  let nI1 := neighborsOf volume i1
  let nI2 := neighborsOf volume i2
  let nI3 := neighborsOf volume i3
  let volume := setNeighbors volume i0 slot0 ⟨slot1, slot0, slot3, nI0.x⟩ ⟨i0, i1, i3, nI0.y⟩
  let volume := setNeighbors volume i1 slot1 ⟨slot0, slot1, slot2, nI1.x⟩ ⟨i1, i0, i2, nI1.y⟩
  let volume := setNeighbors volume i2 slot2 ⟨slot3, slot2, slot1, nI2.x⟩ ⟨i2, i3, i1, nI2.y⟩
  let volume := setNeighbors volume i3 slot3 ⟨slot2, slot3, slot0, nI3.x⟩ ⟨i3, i2, i0, nI3.y⟩
  let volume := patchOutward volume nI0 i0 slot0
  let volume := patchOutward volume nI1 i1 slot1
  let volume := patchOutward volume nI2 i2 slot2
  let volume := patchOutward volume nI3 i3 slot3
  let diamond : Diamond :=
    { size := 4
      heapID := [parentHeapID volume i0, parentHeapID volume i1, parentHeapID volume i2,
        parentHeapID volume i3] }
  pure { volume with diamonds := volume.diamonds ++ [diamond] }

/-- The linking of an even member (`i0`, `i2`, `i4`) of a six-element diamond: `a` is the
member named first in the type-1 pattern of the source (`i5, i0, i1` for `i0`: `a = i5` and
`b = i1`), `sa`, `sb` their slots. -/
def linkEven (volume : LEBVolume) (i slot : Nat) (nI : uint4) (a b sa sb : Nat) : LEBVolume :=
  if typeOf volume i = 1 then
    setNeighbors volume i slot ⟨sb, slot, sa, nI.x⟩ ⟨a, i, b, nI.y⟩
  else
    setNeighbors volume i slot ⟨slot, sa, sb, nI.x⟩ ⟨i, b, a, nI.y⟩

/-- The linking of an odd member (`i1`, `i3`, `i5`) of a six-element diamond, which depends on
the flag `rev`; `p` is the previous member and `n` the next one, `sp`, `sn` their slots. -/
def linkOdd (volume : LEBVolume) (rev : Bool) (i slot : Nat) (nI : uint4) (p n sp sn : Nat) :
    LEBVolume :=
  if rev then
    if typeOf volume i = 1 then
      setNeighbors volume i slot ⟨sp, slot, sn, nI.x⟩ ⟨n, i, p, nI.y⟩
    else
      setNeighbors volume i slot ⟨slot, sn, sp, nI.x⟩ ⟨i, p, n, nI.y⟩
  else
    if typeOf volume i = 1 then
      setNeighbors volume i slot ⟨sn, slot, sp, nI.x⟩ ⟨n, i, p, nI.y⟩
    else
      setNeighbors volume i slot ⟨slot, sp, sn, nI.x⟩ ⟨i, p, n, nI.y⟩

/-- The step `rev ? neighborsArray[i].w : neighborsArray[i].z` of the walk around the ring. -/
def ringNext (volume : LEBVolume) (rev : Bool) (i : Nat) : Nat :=
  if rev then (neighborsOf volume i).w else (neighborsOf volume i).z

/-- The branch `currentType == 1 || currentType == 2` of `diamond_split`: six elements. -/
def diamond_split12 (volume : LEBVolume) (targetElement : Nat) : Except Fail LEBVolume := do
  let i0 := targetElement
  let i1 := (neighborsOf volume i0).z
  let rev1 := decide ((neighborsOf volume i1).z = i0)
  let i2 := ringNext volume rev1 i1
  let rev2 := decide ((neighborsOf volume i2).z = i1)
  let i3 := ringNext volume rev2 i2
  let rev3 := decide ((neighborsOf volume i3).z = i2)
  let i4 := ringNext volume rev3 i3
  let rev4 := decide ((neighborsOf volume i4).z = i3)
  let i5 := ringNext volume rev4 i4
  let rev5 := decide ((neighborsOf volume i5).z = i4)
  assert ((neighborsOf volume i0).w == i5)
  assert (typeOf volume i0 == 1 || typeOf volume i0 == 2)
  assert (typeOf volume i1 == 1 || typeOf volume i1 == 2)
  assert (typeOf volume i2 == 1 || typeOf volume i2 == 2)
  assert (typeOf volume i3 == 1 || typeOf volume i3 == 2)
  assert (typeOf volume i4 == 1 || typeOf volume i4 == 2)
  assert (typeOf volume i5 == 1 || typeOf volume i5 == 2)
  let (volume, slot0) := allocate_new_elements volume 6
  let slot1 := nextSlot slot0
  let slot2 := nextSlot slot1
  let slot3 := nextSlot slot2
  let slot4 := nextSlot slot3
  let slot5 := nextSlot slot4
  let volume := flagModified volume i0
  let volume := flagModified volume i1
  let volume := flagModified volume i2
  let volume := flagModified volume i3
  let volume := flagModified volume i4
  let volume := flagModified volume i5
  let volume := copyModif volume slot0 i0
  let volume := copyModif volume slot1 i1
  let volume := copyModif volume slot2 i2
  let volume := copyModif volume slot3 i3
  let volume := copyModif volume slot4 i4
  let volume := copyModif volume slot5 i5
  let volume := splitHeapID volume i0 slot0
  let volume := splitHeapID volume i1 slot1
  let volume := splitHeapID volume i2 slot2
  let volume := splitHeapID volume i3 slot3
  let volume := splitHeapID volume i4 slot4
  let volume := splitHeapID volume i5 slot5
  let nI0 := neighborsOf volume i0
  let nI1 := neighborsOf volume i1
  let nI2 := neighborsOf volume i2
  let nI3 := neighborsOf volume i3
  let nI4 := neighborsOf volume i4
  let nI5 := neighborsOf volume i5
  let volume := linkEven volume i0 slot0 nI0 i5 i1 slot5 slot1
  let volume := linkOdd volume rev1 i1 slot1 nI1 i0 i2 slot0 slot2
  let volume := linkEven volume i2 slot2 nI2 i1 i3 slot1 slot3
  let volume := linkOdd volume rev3 i3 slot3 nI3 i2 i4 slot2 slot4
  let volume := linkEven volume i4 slot4 nI4 i3 i5 slot3 slot5
  let volume := linkOdd volume rev5 i5 slot5 nI5 i4 i0 slot4 slot0
  let volume := setTypes volume i0 slot0 3 3
  let volume := setTypes volume i1 slot1 3 3
  let volume := setTypes volume i2 slot2 3 3
  let volume := setTypes volume i3 slot3 3 3
  let volume := setTypes volume i4 slot4 3 3
  let volume := setTypes volume i5 slot5 3 3
  let volume := patchOutward volume nI0 i0 slot0
  let volume := patchOutward volume nI1 i1 slot1
  let volume := patchOutward volume nI2 i2 slot2
  let volume := patchOutward volume nI3 i3 slot3
  let volume := patchOutward volume nI4 i4 slot4
  let volume := patchOutward volume nI5 i5 slot5
  let diamond : Diamond :=
    { size := 6
      heapID := [parentHeapID volume i0, parentHeapID volume i1, parentHeapID volume i2,
        parentHeapID volume i3, parentHeapID volume i4, parentHeapID volume i5] }
  pure { volume with diamonds := volume.diamonds ++ [diamond] }

/-- The function `diamond_split`. -/
def diamond_split (volume : LEBVolume) (targetElement : Nat) : Except Fail LEBVolume :=
  let currentType := typeOf volume targetElement
  if currentType = 0 then diamond_split0 volume targetElement
  else if currentType = 1 ∨ currentType = 2 then diamond_split12 volume targetElement
  else if currentType = 3 then diamond_split3 volume targetElement
  else pure volume

/-- The state of the two loops that collect the members of an incomplete diamond. -/
structure Arms where
  volume : LEBVolume
  indices : List Nat
  slots : List Nat
  firstTwin : Bool

/-- The body of the loop over the left arm. -/
def collectLeftStep (elementIndex : Nat) (st : Arms) (eleIdx : Nat) : Arms :=
  let prevIndex := st.indices.getD (elementIndex - eleIdx) UINT32_MAX
  let following := if st.firstTwin then (neighborsOf st.volume prevIndex).w
    else (neighborsOf st.volume prevIndex).z
  let indices := st.indices.set (elementIndex - eleIdx - 1) following
  let (volume, slot) := allocate_new_elements st.volume 1
  { volume := volume, indices := indices,
    slots := st.slots.set (elementIndex - eleIdx - 1) slot, firstTwin := !st.firstTwin }

/-- The loop `for (eleIdx = 0; eleIdx < leftElements; ++eleIdx)`. -/
def collectLeft (elementIndex leftElements : Nat) (st : Arms) : Arms :=
  (List.range leftElements).foldl (collectLeftStep elementIndex) st

/-- The body of the loop over the right arm. -/
def collectRightStep (elementIndex : Nat) (st : Arms) (eleIdx : Nat) : Arms :=
  let prevIndex := st.indices.getD (elementIndex + eleIdx) UINT32_MAX
  let following := if st.firstTwin then (neighborsOf st.volume prevIndex).z
    else (neighborsOf st.volume prevIndex).w
  let indices := st.indices.set (elementIndex + eleIdx + 1) following
  let (volume, slot) := allocate_new_elements st.volume 1
  { volume := volume, indices := indices,
    slots := st.slots.set (elementIndex + eleIdx + 1) slot, firstTwin := !st.firstTwin }

/-- The loop `for (eleIdx = 0; eleIdx < rightElements; ++eleIdx)`. -/
def collectRight (elementIndex rightElements : Nat) (st : Arms) : Arms :=
  (List.range rightElements).foldl (collectRightStep elementIndex) st

/-- The body of the loop "Update the data": heapID, type and flags of one member and of its
slot. -/
def updateMember (indices slots : List Nat) (ti ts : Nat) (volume : LEBVolume) (eleIdx : Nat) :
    LEBVolume :=
  let ind := indices.getD eleIdx UINT32_MAX
  let slot := slots.getD eleIdx UINT32_MAX
  let volume := splitHeapID volume ind slot
  let volume := setTypes volume ind slot ti ts
  let volume := flagModified volume ind
  copyModif volume slot ind

/-- The loop "Update the data" over the `diamondSize` members. -/
def updateMembers (volume : LEBVolume) (indices slots : List Nat) (diamondSize ti ts : Nat) :
    LEBVolume :=
  (List.range diamondSize).foldl (updateMember indices slots ti ts) volume

/-- The body of the loop that links one member and its slot inside an open ring of `ringSize`
places (8 for type 0, 4 for type 3); the state carries `firstTwin`. -/
def linkMember (indices slots : List Nat) (neighborArray : List uint4) (ringSize : Nat)
    (st : LEBVolume × Bool) (eleIdx : Nat) : LEBVolume × Bool :=
  let volume := st.1
  let ind := indices.getD eleIdx UINT32_MAX
  let slot := slots.getD eleIdx UINT32_MAX
  let neighbors := neighborArray.getD eleIdx default
  let nextIdx := indices.getD ((eleIdx + 1) % 2 ^ 32 % ringSize) UINT32_MAX
  let nextSlot := slots.getD ((eleIdx + 1) % 2 ^ 32 % ringSize) UINT32_MAX
  let prevIdx := indices.getD ((eleIdx + 2 ^ 32 - 1 + ringSize) % 2 ^ 32 % ringSize) UINT32_MAX
  let prevSLot := slots.getD ((eleIdx + 2 ^ 32 - 1 + ringSize) % 2 ^ 32 % ringSize) UINT32_MAX
  let volume :=
    if st.2 then
      setNeighbors volume ind slot ⟨nextSlot, slot, prevSLot, neighbors.x⟩
        ⟨ind, nextIdx, prevIdx, neighbors.y⟩
    else
      setNeighbors volume ind slot ⟨prevSLot, slot, nextSlot, neighbors.x⟩
        ⟨ind, prevIdx, nextIdx, neighbors.y⟩
  let volume := flagModified volume ind
  let volume := copyModif volume slot ind
  (volume, !st.2)

/-- The linking loop over the `diamondSize` members. -/
def linkMembers (volume : LEBVolume) (indices slots : List Nat) (neighborArray : List uint4)
    (diamondSize ringSize : Nat) (firstTwin : Bool) : LEBVolume :=
  ((List.range diamondSize).foldl (linkMember indices slots neighborArray ringSize)
    (volume, firstTwin)).1

/-- The body of the loop that patches the outward neighbor of one member. -/
def patchMember (indices slots : List Nat) (neighborArray : List uint4) (volume : LEBVolume)
    (eleIdx : Nat) : LEBVolume :=
  patchOutward volume (neighborArray.getD eleIdx default)
    (indices.getD eleIdx UINT32_MAX) (slots.getD eleIdx UINT32_MAX)

/-- The patching loop over the `diamondSize` members. -/
def patchMembers (volume : LEBVolume) (indices slots : List Nat) (neighborArray : List uint4)
    (diamondSize : Nat) : LEBVolume :=
  (List.range diamondSize).foldl (patchMember indices slots neighborArray) volume

/-- The start of `diamond_split_incomplete`: the buffers `indices` and `slots` of `ringSize`
places, the slot of the target, and the two collecting loops. -/
def collectArms (volume : LEBVolume) (targetElement rightElements leftElements ringSize : Nat) :
    Arms :=
  let elementIndex := leftElements
  let indices := (List.replicate ringSize UINT32_MAX).set elementIndex targetElement
  let (volume, slot) := allocate_new_elements volume 1
  let slots := (List.replicate ringSize UINT32_MAX).set elementIndex slot
  let st := collectLeft elementIndex leftElements ⟨volume, indices, slots, true⟩
  collectRight elementIndex rightElements { st with firstTwin := true }

/-- The part shared by the branches `currentType == 0` and `currentType == 3` of
`diamond_split_incomplete`; the result is the volume and the buffer `indices`. -/
def splitIncompleteRing (volume : LEBVolume) (targetElement rightElements leftElements : Nat)
    (ringSize ti ts : Nat) : LEBVolume × List Nat :=
  let diamondSize := (1 + rightElements + leftElements) % 2 ^ 32
  let elementIndex := leftElements
  let st := collectArms volume targetElement rightElements leftElements ringSize
  let volume := updateMembers st.volume st.indices st.slots diamondSize ti ts
  let neighborArray := (List.range diamondSize).map (fun eleIdx =>
    neighborsOf volume (st.indices.getD eleIdx UINT32_MAX))
  let volume := linkMembers volume st.indices st.slots neighborArray diamondSize ringSize
    (elementIndex % 2 == 0)
  (patchMembers volume st.indices st.slots neighborArray diamondSize, st.indices)

/-- The function `diamond_split_incomplete`; the branch of types 1 and 2 is `assert_fail()`. -/
def diamond_split_incomplete (volume : LEBVolume)
    (targetElement rightElements leftElements : Nat) : Except Fail LEBVolume :=
  let currentType := typeOf volume targetElement
  let diamondSize := (1 + rightElements + leftElements) % 2 ^ 32
  if currentType = 0 then
    pure (splitIncompleteRing volume targetElement rightElements leftElements 8 1 2).1
  else if currentType = 1 ∨ currentType = 2 then
    throw Fail.assertFail
  else if currentType = 3 then
    let (volume, indices) :=
      splitIncompleteRing volume targetElement rightElements leftElements 4 0 0
    let diamond : Diamond :=
      { size := 4
        heapID := (List.range 4).map (fun eleIdx =>
          if eleIdx < diamondSize then parentHeapID volume (indices.getD eleIdx UINT32_MAX)
          else parentHeapID volume (indices.getD 0 UINT32_MAX)) }
    pure { volume with diamonds := volume.diamonds ++ [diamond] }
  else pure volume

/-! ## `volume_generation.cpp`: the conformity walk and the recursive split -/

/-- The state of a walk of `check_diamond`. -/
structure Walk where
  volume : LEBVolume
  prevElement : Nat
  currentElement : Nat
  firstTwin : Bool
  count : Nat

/-- The body shared by the two `while` loops of `check_diamond`: count the element, split it
first when its type is not equivalent to the type of the target, then move on. -/
def walkBody (split : LEBVolume → Nat → Except Fail LEBVolume) (currentType : Nat)
    (st : Walk) : Except Fail Walk := do
  let count := (st.count + 1) % 2 ^ 32
  let type := typeOf st.volume st.currentElement
  let (volume, currentElement) ←
    if !equivalent_types type currentType then do
      let volume ← split st.volume st.currentElement
      let currentElement :=
        if st.firstTwin then (neighborsOf volume st.prevElement).z
        else (neighborsOf volume st.prevElement).w
      assert (currentElement != UINT32_MAX)
      pure (volume, currentElement)
    else pure (st.volume, st.currentElement)
  if (neighborsOf volume currentElement).z = st.prevElement then
    pure { volume := volume, prevElement := currentElement,
           currentElement := (neighborsOf volume currentElement).w,
           firstTwin := false, count := count }
  else
    pure { volume := volume, prevElement := currentElement,
           currentElement := (neighborsOf volume currentElement).z,
           firstTwin := true, count := count }

/-- The loop `while (currentElement != targetElement && currentElement != UINT32_MAX)`. -/
def walkRight (split : LEBVolume → Nat → Except Fail LEBVolume) (targetElement currentType : Nat) :
    Nat → Walk → Except Fail Walk
  | 0, _ => throw Fail.outOfFuel
  | fuel + 1, st =>
    if st.currentElement ≠ targetElement ∧ st.currentElement ≠ UINT32_MAX then do
      let st ← walkBody split currentType st
      walkRight split targetElement currentType fuel st
    else pure st

/-- The loop `while (currentElement != UINT32_MAX)`. -/
def walkLeft (split : LEBVolume → Nat → Except Fail LEBVolume) (currentType : Nat) :
    Nat → Walk → Except Fail Walk
  | 0, _ => throw Fail.outOfFuel
  | fuel + 1, st =>
    if st.currentElement ≠ UINT32_MAX then do
      let st ← walkBody split currentType st
      walkLeft split currentType fuel st
    else pure st

/-- The function `check_diamond`; the result is the volume, the returned flag, and the
counters `rightElements` and `leftElements`.  `split` is `recursive_split_element`. -/
def check_diamond (split : LEBVolume → Nat → Except Fail LEBVolume) (fuel : Nat)
    (volume : LEBVolume) (targetElement : Nat) :
    Except Fail (LEBVolume × Bool × Nat × Nat) := do
  let currentType := typeOf volume targetElement
  let right ← walkRight split targetElement currentType fuel
    { volume := volume, prevElement := targetElement,
      currentElement := (neighborsOf volume targetElement).z, firstTwin := true, count := 0 }
  if right.currentElement ≠ targetElement then
    let left ← walkLeft split currentType fuel
      { volume := right.volume, prevElement := targetElement,
        currentElement := (neighborsOf right.volume targetElement).w,
        firstTwin := false, count := 0 }
    pure (left.volume, false, right.count, left.count)
  else
    pure (right.volume, true, right.count, 0)

/-- The function `recursive_split_element`; `fuel` bounds the depth of the recursion and the
length of each walk. -/
def recursive_split_element : Nat → LEBVolume → Nat → Except Fail LEBVolume
  | 0, _, _ => throw Fail.outOfFuel
  | fuel + 1, volume, targetElement => do
    let (volume, completeDiamond, rightElements, leftElements) ←
      check_diamond (recursive_split_element fuel) fuel volume targetElement
    if completeDiamond then diamond_split volume targetElement
    else diamond_split_incomplete volume targetElement rightElements leftElements

/-- A sequence of calls of `recursive_split_element`, one per listed element, in order. -/
def splitAll (fuel : Nat) : LEBVolume → List Nat → Except Fail LEBVolume
  | volume, [] => pure volume
  | volume, target :: rest => do
    let volume ← recursive_split_element fuel volume target
    splitAll fuel volume rest

/-- The mesh built by `create_type0_cube` on a default-constructed volume. -/
def rootVolume : LEBVolume := create_type0_cube emptyVolume

/-- The stored neighbor table of the root mesh, spelled out. -/
def rootNeighbors : List uint4 :=
  [⟨3, 1, 4294967295, 6⟩, ⟨0, 2, 4294967295, 19⟩, ⟨1, 3, 4294967295, 12⟩, ⟨2, 0, 4294967295, 21⟩,
   ⟨7, 5, 4294967295, 10⟩, ⟨4, 6, 4294967295, 16⟩, ⟨5, 7, 4294967295, 0⟩, ⟨6, 4, 4294967295, 20⟩,
   ⟨11, 9, 4294967295, 14⟩, ⟨8, 10, 4294967295, 17⟩, ⟨9, 11, 4294967295, 4⟩,
   ⟨10, 8, 4294967295, 23⟩, ⟨15, 13, 4294967295, 2⟩, ⟨12, 14, 4294967295, 18⟩,
   ⟨13, 15, 4294967295, 8⟩, ⟨14, 12, 4294967295, 22⟩, ⟨19, 17, 4294967295, 5⟩,
   ⟨16, 18, 4294967295, 9⟩, ⟨17, 19, 4294967295, 13⟩, ⟨18, 16, 4294967295, 1⟩,
   ⟨23, 21, 4294967295, 7⟩, ⟨20, 22, 4294967295, 3⟩, ⟨21, 23, 4294967295, 15⟩,
   ⟨22, 20, 4294967295, 11⟩]

/-- The root mesh with its neighbor table spelled out (equal to `rootVolume`). -/
def rootVolumeExplicit : LEBVolume :=
  { totalNumElements := 24, minimalDepth := 5,
    heapIDArray := (List.range 24).map (fun idx => 32 + idx),
    typeArray := List.replicate 24 0,
    neighborsArray := rootNeighbors,
    basePoints := g_CubeType0Vertices,
    baseTypes := List.replicate 24 0,
    tetraCacheArray := List.replicate 24 default,
    modifArray := List.replicate 24 0,
    depthArray := List.replicate 24 0,
    diamonds := [] }

/-- The volume inside `create_type0_cube` just before the neighbors are evaluated. -/
def rootSeed : LEBVolume :=
  { emptyVolume with
    totalNumElements := g_BaseTetraCount, minimalDepth := 5
    heapIDArray := (List.range g_BaseTetraCount).map (fun idx => 32 + idx)
    typeArray := (List.range g_BaseTetraCount).map (fun _ => 0)
    basePoints := g_CubeType0Vertices
    baseTypes := (List.range g_BaseTetraCount).map (fun _ => 0) }

/-- A point lies on one of the six outer planes `x, y, z = +-0.5` of the cube. -/
def onOuterPlane (pt : float3) : Prop :=
  pt.x = 1 / 2 ∨ pt.x = -(1 / 2) ∨ pt.y = 1 / 2 ∨ pt.y = -(1 / 2) ∨ pt.z = 1 / 2 ∨ pt.z = -(1 / 2)

instance (pt : float3) : Decidable (onOuterPlane pt) := by
  unfold onOuterPlane; infer_instance

/-- The centroid of face `f` of element `e`, as `evaluate_face_centers` stores it. -/
def faceCenter (volume : LEBVolume) (e f : Nat) : float3 :=
  (evaluate_face_centers volume).getD (4 * e + f) default

/-- The outcome of `recursive_split_element` on the root `r` of `volume`: the call returns a
mesh of two more elements in which `r` and its neighbor `n` across face 3 were doubled (`2p`),
the two new elements are their twins (`2p + 1`), and every other heapID is unchanged. -/
def rootSplitOutcome (volume : LEBVolume) (r : Nat) : Prop :=
  let n := (neighborsOf volume r).w
  let count := volume.totalNumElements
  match recursive_split_element 64 volume r with
  | .error _ => False
  | .ok v =>
    v.totalNumElements = count + 2 ∧ v.heapIDArray.length = count + 2 ∧ n < count ∧ n ≠ r ∧
    v.heapIDArray.getD r 0 = 2 * volume.heapIDArray.getD r 0 ∧
    v.heapIDArray.getD count 0 = 2 * volume.heapIDArray.getD r 0 + 1 ∧
    v.heapIDArray.getD n 0 = 2 * volume.heapIDArray.getD n 0 ∧
    v.heapIDArray.getD (count + 1) 0 = 2 * volume.heapIDArray.getD n 0 + 1 ∧
    (∀ e, e < count → e ≠ r → e ≠ n → v.heapIDArray.getD e 0 = volume.heapIDArray.getD e 0)

instance (volume : LEBVolume) (r : Nat) : Decidable (rootSplitOutcome volume r) := by
  unfold rootSplitOutcome
  split <;> infer_instance

/-- The face centroids of the root mesh in sixths, four per element. -/
def rootFaceCenterUnits : List (Int × Int × Int) :=
  [(1, -1, -2), (1, 1, -2), (2, 0, -3), (2, 0, -2), (1, 1, -2), (-1, 1, -2), (0, 2, -3),
   (0, 2, -2), (-1, 1, -2), (-1, -1, -2), (-2, 0, -3), (-2, 0, -2), (-1, -1, -2), (1, -1, -2),
   (0, -2, -3), (0, -2, -2), (2, -1, 1), (2, 1, 1), (3, 0, 2), (2, 0, 2), (2, 1, 1), (2, 1, -1),
   (3, 2, 0), (2, 2, 0), (2, 1, -1), (2, -1, -1), (3, 0, -2), (2, 0, -2), (2, -1, -1),
   (2, -1, 1), (3, -2, 0), (2, -2, 0), (-1, -1, 2), (-1, 1, 2), (-2, 0, 3), (-2, 0, 2),
   (-1, 1, 2), (1, 1, 2), (0, 2, 3), (0, 2, 2), (1, 1, 2), (1, -1, 2), (2, 0, 3), (2, 0, 2),
   (1, -1, 2), (-1, -1, 2), (0, -2, 3), (0, -2, 2), (-2, -1, -1), (-2, 1, -1), (-3, 0, -2),
   (-2, 0, -2), (-2, 1, -1), (-2, 1, 1), (-3, 2, 0), (-2, 2, 0), (-2, 1, 1), (-2, -1, 1),
   (-3, 0, 2), (-2, 0, 2), (-2, -1, 1), (-2, -1, -1), (-3, -2, 0), (-2, -2, 0), (1, 2, -1),
   (1, 2, 1), (2, 3, 0), (2, 2, 0), (1, 2, 1), (-1, 2, 1), (0, 3, 2), (0, 2, 2), (-1, 2, 1),
   (-1, 2, -1), (-2, 3, 0), (-2, 2, 0), (-1, 2, -1), (1, 2, -1), (0, 3, -2), (0, 2, -2),
   (1, -2, 1), (1, -2, -1), (2, -3, 0), (2, -2, 0), (1, -2, -1), (-1, -2, -1), (0, -3, -2),
   (0, -2, -2), (-1, -2, -1), (-1, -2, 1), (-2, -3, 0), (-2, -2, 0), (-1, -2, 1), (1, -2, 1),
   (0, -3, 2), (0, -2, 2)]

/-- The point whose coordinates are the given numbers of sixths. -/
def sixths (u : Int × Int × Int) : float3 := ⟨(u.1 : ℚ) / 6, (u.2.1 : ℚ) / 6, (u.2.2 : ℚ) / 6⟩

/-- The squared distance of two points given in sixths, in units of `1 / 36`. -/
def unitDistSq (a b : Int × Int × Int) : Int :=
  (a.1 - b.1) * (a.1 - b.1) + (a.2.1 - b.2.1) * (a.2.1 - b.2.1)
    + (a.2.2 - b.2.2) * (a.2.2 - b.2.2)

/-- The step `closestStep` on points given in sixths, the distance kept in units of
`1 / 36`. -/
def closestStepU (units : List (Int × Int × Int)) (c : Int × Int × Int) (nID : Nat)
    (st : Int × Nat) (nfaceIdx : Nat) : Int × Nat :=
  let cDist := unitDistSq c (units.getD (4 * nID + nfaceIdx) (0, 0, 0))
  if cDist * 1000000 < 36 ∧ cDist < st.1 then (cDist, nID) else st

/-- The loop `closestElement` on points given in sixths. -/
def closestElementU (units : List (Int × Int × Int)) (currentID : Nat) (c : Int × Int × Int)
    (st : Int × Nat) (nID : Nat) : Int × Nat :=
  if nID = currentID then st
  else (List.range 4).foldl (closestStepU units c nID) st

/-- The loops `closestFace` on points given in sixths. -/
def closestFaceU (units : List (Int × Int × Int)) (count currentID : Nat)
    (c : Int × Int × Int) : Int × Nat :=
  (List.range count).foldl (closestElementU units currentID c)
    (36 * ((2 ^ 24 - 1) * 2 ^ 104) ^ 2, UINT32_MAX)

/-- The search `matchNeighbors` on points given in sixths. -/
def matchNeighborsU (units : List (Int × Int × Int)) (count currentID : Nat) : uint4 :=
  (List.range 4).foldl (fun (neighbors : uint4) faceIdx =>
    neighbors.setAt faceIdx
      (closestFaceU units count currentID (units.getD (4 * currentID + faceIdx) (0, 0, 0))).2)
    ⟨UINT32_MAX, UINT32_MAX, UINT32_MAX, UINT32_MAX⟩

/-! ## The meshes along repeated splits of the root element 0, spelled out -/

/-- The mesh after six calls `recursive_split_element(volume, 0)` on the root mesh,
spelled out: 56 elements. -/
def chainVolume6 : LEBVolume :=
  { totalNumElements := 56, minimalDepth := 5,
    heapIDArray :=
      [2048, 33, 34, 70, 36, 37, 76, 1248, 40, 41, 42, 43, 44, 45, 46, 47, 48, 49, 50, 51, 104,
       1696, 54, 55, 65, 154, 79, 210, 107, 142, 129, 310, 157, 422, 213, 286, 257, 574, 622, 313,
       513, 1246, 846, 425, 625, 1694, 849, 1150, 1025, 1247, 1249, 1695, 1697, 2302, 2049, 2303],
    typeArray :=
      [0, 0, 0, 1, 0, 0, 1, 3, 0, 0, 0, 0, 0, 0, 0, 0, 0, 0, 0, 0, 1, 3, 0, 0, 2, 3, 2, 3, 2, 3,
       3, 0, 3, 0, 3, 0, 0, 1, 1, 0, 2, 3, 1, 0, 2, 3, 2, 3, 3, 3, 3, 3, 3, 0, 0, 0],
    neighborsArray :=
      [uint4.mk 55 54 4294967295 49, uint4.mk 24 2 4294967295 19, uint4.mk 1 3 4294967295 12,
       uint4.mk 4294967295 29 28 2, uint4.mk 26 5 4294967295 10, uint4.mk 4 6 4294967295 16,
       uint4.mk 4294967295 25 24 5, uint4.mk 51 50 49 4294967295, uint4.mk 11 9 4294967295 14,
       uint4.mk 8 10 4294967295 17, uint4.mk 9 11 4294967295 4, uint4.mk 10 8 4294967295 23,
       uint4.mk 15 13 4294967295 2, uint4.mk 12 14 4294967295 18, uint4.mk 13 15 4294967295 8,
       uint4.mk 14 12 4294967295 22, uint4.mk 19 17 4294967295 5, uint4.mk 16 18 4294967295 9,
       uint4.mk 17 19 4294967295 13, uint4.mk 18 16 4294967295 1, uint4.mk 4294967295 27 26 23,
       uint4.mk 55 52 51 4294967295, uint4.mk 28 23 4294967295 15, uint4.mk 22 20 4294967295 11,
       uint4.mk 30 4294967295 6 1, uint4.mk 31 32 30 6, uint4.mk 32 4294967295 20 4,
       uint4.mk 33 34 32 20, uint4.mk 34 4294967295 3 22, uint4.mk 35 30 34 3,
       uint4.mk 29 36 25 24, uint4.mk 39 38 4294967295 25, uint4.mk 25 39 27 26,
       uint4.mk 43 42 4294967295 27, uint4.mk 27 43 29 28, uint4.mk 36 37 4294967295 29,
       uint4.mk 40 35 4294967295 30, uint4.mk 4294967295 47 46 35, uint4.mk 4294967295 41 40 31,
       uint4.mk 44 31 4294967295 32, uint4.mk 48 4294967295 38 36, uint4.mk 49 50 48 38,
       uint4.mk 4294967295 45 44 33, uint4.mk 46 33 4294967295 34, uint4.mk 50 4294967295 42 39,
       uint4.mk 51 52 50 42, uint4.mk 52 4294967295 37 43, uint4.mk 53 48 52 37,
       uint4.mk 47 54 41 40, uint4.mk 41 0 7 4294967295, uint4.mk 41 7 45 44,
       uint4.mk 45 7 21 4294967295, uint4.mk 45 21 47 46, uint4.mk 54 55 4294967295 47,
       uint4.mk 0 53 4294967295 48, uint4.mk 53 0 4294967295 21],
    basePoints := g_CubeType0Vertices,
    baseTypes := List.replicate 24 0,
    tetraCacheArray := List.replicate 56 default,
    modifArray :=
      [2, 0, 0, 2, 0, 0, 2, 2, 0, 0, 0, 0, 0, 0, 0, 0, 0, 0, 0, 0, 2, 2, 0, 0, 2, 2, 2, 2, 2, 2,
       2, 2, 2, 2, 2, 2, 2, 2, 2, 2, 2, 2, 2, 2, 2, 2, 2, 2, 2, 2, 2, 2, 2, 2, 2, 2],
    depthArray := List.replicate 56 0,
    diamonds :=
      [Diamond.mk [64, 77, 78, 105, 106, 71] 6, Diamond.mk [128, 143, 128, 128] 4,
       Diamond.mk [155, 156, 155, 155] 4, Diamond.mk [211, 212, 211, 211] 4,
       Diamond.mk [512, 623, 624, 847, 848, 575] 6, Diamond.mk [1024, 1151, 1024, 1024] 4] }

/-- The mesh after nine calls `recursive_split_element(volume, 0)` on the root mesh,
spelled out: 74 elements. -/
def chainVolume9 : LEBVolume :=
  { totalNumElements := 74, minimalDepth := 5,
    heapIDArray :=
      [16384, 33, 34, 70, 36, 37, 76, 9984, 40, 41, 42, 43, 44, 45, 46, 47, 48, 49, 50, 51, 104,
       13568, 54, 55, 65, 154, 79, 210, 107, 142, 129, 310, 157, 422, 213, 286, 257, 574, 622,
       313, 513, 1246, 846, 425, 625, 1694, 849, 1150, 1025, 2494, 1249, 3390, 1697, 2302, 2049,
       4606, 4990, 2497, 4097, 9982, 6782, 3393, 4993, 13566, 6785, 9214, 8193, 9983, 9985, 13567,
       13569, 18430, 16385, 18431],
    typeArray :=
      [0, 0, 0, 1, 0, 0, 1, 3, 0, 0, 0, 0, 0, 0, 0, 0, 0, 0, 0, 0, 1, 3, 0, 0, 2, 3, 2, 3, 2, 3,
       3, 0, 3, 0, 3, 0, 0, 1, 1, 0, 2, 3, 1, 0, 2, 3, 2, 3, 3, 0, 3, 0, 3, 0, 0, 1, 1, 0, 2, 3,
       1, 0, 2, 3, 2, 3, 3, 3, 3, 3, 3, 0, 0, 0],
    neighborsArray :=
      [uint4.mk 73 72 4294967295 67, uint4.mk 24 2 4294967295 19, uint4.mk 1 3 4294967295 12,
       uint4.mk 4294967295 29 28 2, uint4.mk 26 5 4294967295 10, uint4.mk 4 6 4294967295 16,
       uint4.mk 4294967295 25 24 5, uint4.mk 69 68 67 4294967295, uint4.mk 11 9 4294967295 14,
       uint4.mk 8 10 4294967295 17, uint4.mk 9 11 4294967295 4, uint4.mk 10 8 4294967295 23,
       uint4.mk 15 13 4294967295 2, uint4.mk 12 14 4294967295 18, uint4.mk 13 15 4294967295 8,
       uint4.mk 14 12 4294967295 22, uint4.mk 19 17 4294967295 5, uint4.mk 16 18 4294967295 9,
       uint4.mk 17 19 4294967295 13, uint4.mk 18 16 4294967295 1, uint4.mk 4294967295 27 26 23,
       uint4.mk 73 70 69 4294967295, uint4.mk 28 23 4294967295 15, uint4.mk 22 20 4294967295 11,
       uint4.mk 30 4294967295 6 1, uint4.mk 31 32 30 6, uint4.mk 32 4294967295 20 4,
       uint4.mk 33 34 32 20, uint4.mk 34 4294967295 3 22, uint4.mk 35 30 34 3,
       uint4.mk 29 36 25 24, uint4.mk 39 38 4294967295 25, uint4.mk 25 39 27 26,
       uint4.mk 43 42 4294967295 27, uint4.mk 27 43 29 28, uint4.mk 36 37 4294967295 29,
       uint4.mk 40 35 4294967295 30, uint4.mk 4294967295 47 46 35, uint4.mk 4294967295 41 40 31,
       uint4.mk 44 31 4294967295 32, uint4.mk 48 4294967295 38 36, uint4.mk 49 50 48 38,
       uint4.mk 4294967295 45 44 33, uint4.mk 46 33 4294967295 34, uint4.mk 50 4294967295 42 39,
       uint4.mk 51 52 50 42, uint4.mk 52 4294967295 37 43, uint4.mk 53 48 52 37,
       uint4.mk 47 54 41 40, uint4.mk 57 56 4294967295 41, uint4.mk 41 57 45 44,
       uint4.mk 61 60 4294967295 45, uint4.mk 45 61 47 46, uint4.mk 54 55 4294967295 47,
       uint4.mk 58 53 4294967295 48, uint4.mk 4294967295 65 64 53, uint4.mk 4294967295 59 58 49,
       uint4.mk 62 49 4294967295 50, uint4.mk 66 4294967295 56 54, uint4.mk 67 68 66 56,
       uint4.mk 4294967295 63 62 51, uint4.mk 64 51 4294967295 52, uint4.mk 68 4294967295 60 57,
       uint4.mk 69 70 68 60, uint4.mk 70 4294967295 55 61, uint4.mk 71 66 70 55,
       uint4.mk 65 72 59 58, uint4.mk 59 0 7 4294967295, uint4.mk 59 7 63 62,
       uint4.mk 63 7 21 4294967295, uint4.mk 63 21 65 64, uint4.mk 72 73 4294967295 65,
       uint4.mk 0 71 4294967295 66, uint4.mk 71 0 4294967295 21],
    basePoints := g_CubeType0Vertices,
    baseTypes := List.replicate 24 0,
    tetraCacheArray := List.replicate 74 default,
    modifArray :=
      [2, 0, 0, 2, 0, 0, 2, 2, 0, 0, 0, 0, 0, 0, 0, 0, 0, 0, 0, 0, 2, 2, 0, 0, 2, 2, 2, 2, 2, 2,
       2, 2, 2, 2, 2, 2, 2, 2, 2, 2, 2, 2, 2, 2, 2, 2, 2, 2, 2, 2, 2, 2, 2, 2, 2, 2, 2, 2, 2, 2,
       2, 2, 2, 2, 2, 2, 2, 2, 2, 2, 2, 2, 2, 2],
    depthArray := List.replicate 74 0,
    diamonds :=
      [Diamond.mk [64, 77, 78, 105, 106, 71] 6, Diamond.mk [128, 143, 128, 128] 4,
       Diamond.mk [155, 156, 155, 155] 4, Diamond.mk [211, 212, 211, 211] 4,
       Diamond.mk [512, 623, 624, 847, 848, 575] 6, Diamond.mk [1024, 1151, 1024, 1024] 4,
       Diamond.mk [1247, 1248, 1247, 1247] 4, Diamond.mk [1695, 1696, 1695, 1695] 4,
       Diamond.mk [4096, 4991, 4992, 6783, 6784, 4607] 6, Diamond.mk [8192, 9215, 8192, 8192] 4] }

/-- The mesh after twelve calls `recursive_split_element(volume, 0)` on the root mesh,
spelled out: 92 elements. -/
def chainVolume12 : LEBVolume :=
  { totalNumElements := 92, minimalDepth := 5,
    heapIDArray :=
      [131072, 33, 34, 70, 36, 37, 76, 79872, 40, 41, 42, 43, 44, 45, 46, 47, 48, 49, 50, 51, 104,
       108544, 54, 55, 65, 154, 79, 210, 107, 142, 129, 310, 157, 422, 213, 286, 257, 574, 622,
       313, 513, 1246, 846, 425, 625, 1694, 849, 1150, 1025, 2494, 1249, 3390, 1697, 2302, 2049,
       4606, 4990, 2497, 4097, 9982, 6782, 3393, 4993, 13566, 6785, 9214, 8193, 19966, 9985,
       27134, 13569, 18430, 16385, 36862, 39934, 19969, 32769, 79870, 54270, 27137, 39937, 108542,
       54273, 73726, 65537, 79871, 79873, 108543, 108545, 147454, 131073, 147455],
    typeArray :=
      [0, 0, 0, 1, 0, 0, 1, 3, 0, 0, 0, 0, 0, 0, 0, 0, 0, 0, 0, 0, 1, 3, 0, 0, 2, 3, 2, 3, 2, 3,
       3, 0, 3, 0, 3, 0, 0, 1, 1, 0, 2, 3, 1, 0, 2, 3, 2, 3, 3, 0, 3, 0, 3, 0, 0, 1, 1, 0, 2, 3,
       1, 0, 2, 3, 2, 3, 3, 0, 3, 0, 3, 0, 0, 1, 1, 0, 2, 3, 1, 0, 2, 3, 2, 3, 3, 3, 3, 3, 3, 0,
       0, 0],
    neighborsArray :=
      [uint4.mk 91 90 4294967295 85, uint4.mk 24 2 4294967295 19, uint4.mk 1 3 4294967295 12,
       uint4.mk 4294967295 29 28 2, uint4.mk 26 5 4294967295 10, uint4.mk 4 6 4294967295 16,
       uint4.mk 4294967295 25 24 5, uint4.mk 87 86 85 4294967295, uint4.mk 11 9 4294967295 14,
       uint4.mk 8 10 4294967295 17, uint4.mk 9 11 4294967295 4, uint4.mk 10 8 4294967295 23,
       uint4.mk 15 13 4294967295 2, uint4.mk 12 14 4294967295 18, uint4.mk 13 15 4294967295 8,
       uint4.mk 14 12 4294967295 22, uint4.mk 19 17 4294967295 5, uint4.mk 16 18 4294967295 9,
       uint4.mk 17 19 4294967295 13, uint4.mk 18 16 4294967295 1, uint4.mk 4294967295 27 26 23,
       uint4.mk 91 88 87 4294967295, uint4.mk 28 23 4294967295 15, uint4.mk 22 20 4294967295 11,
       uint4.mk 30 4294967295 6 1, uint4.mk 31 32 30 6, uint4.mk 32 4294967295 20 4,
       uint4.mk 33 34 32 20, uint4.mk 34 4294967295 3 22, uint4.mk 35 30 34 3,
       uint4.mk 29 36 25 24, uint4.mk 39 38 4294967295 25, uint4.mk 25 39 27 26,
       uint4.mk 43 42 4294967295 27, uint4.mk 27 43 29 28, uint4.mk 36 37 4294967295 29,
       uint4.mk 40 35 4294967295 30, uint4.mk 4294967295 47 46 35, uint4.mk 4294967295 41 40 31,
       uint4.mk 44 31 4294967295 32, uint4.mk 48 4294967295 38 36, uint4.mk 49 50 48 38,
       uint4.mk 4294967295 45 44 33, uint4.mk 46 33 4294967295 34, uint4.mk 50 4294967295 42 39,
       uint4.mk 51 52 50 42, uint4.mk 52 4294967295 37 43, uint4.mk 53 48 52 37,
       uint4.mk 47 54 41 40, uint4.mk 57 56 4294967295 41, uint4.mk 41 57 45 44,
       uint4.mk 61 60 4294967295 45, uint4.mk 45 61 47 46, uint4.mk 54 55 4294967295 47,
       uint4.mk 58 53 4294967295 48, uint4.mk 4294967295 65 64 53, uint4.mk 4294967295 59 58 49,
       uint4.mk 62 49 4294967295 50, uint4.mk 66 4294967295 56 54, uint4.mk 67 68 66 56,
       uint4.mk 4294967295 63 62 51, uint4.mk 64 51 4294967295 52, uint4.mk 68 4294967295 60 57,
       uint4.mk 69 70 68 60, uint4.mk 70 4294967295 55 61, uint4.mk 71 66 70 55,
       uint4.mk 65 72 59 58, uint4.mk 75 74 4294967295 59, uint4.mk 59 75 63 62,
       uint4.mk 79 78 4294967295 63, uint4.mk 63 79 65 64, uint4.mk 72 73 4294967295 65,
       uint4.mk 76 71 4294967295 66, uint4.mk 4294967295 83 82 71, uint4.mk 4294967295 77 76 67,
       uint4.mk 80 67 4294967295 68, uint4.mk 84 4294967295 74 72, uint4.mk 85 86 84 74,
       uint4.mk 4294967295 81 80 69, uint4.mk 82 69 4294967295 70, uint4.mk 86 4294967295 78 75,
       uint4.mk 87 88 86 78, uint4.mk 88 4294967295 73 79, uint4.mk 89 84 88 73,
       uint4.mk 83 90 77 76, uint4.mk 77 0 7 4294967295, uint4.mk 77 7 81 80,
       uint4.mk 81 7 21 4294967295, uint4.mk 81 21 83 82, uint4.mk 90 91 4294967295 83,
       uint4.mk 0 89 4294967295 84, uint4.mk 89 0 4294967295 21],
    basePoints := g_CubeType0Vertices,
    baseTypes := List.replicate 24 0,
    tetraCacheArray := List.replicate 92 default,
    modifArray :=
      [2, 0, 0, 2, 0, 0, 2, 2, 0, 0, 0, 0, 0, 0, 0, 0, 0, 0, 0, 0, 2, 2, 0, 0, 2, 2, 2, 2, 2, 2,
       2, 2, 2, 2, 2, 2, 2, 2, 2, 2, 2, 2, 2, 2, 2, 2, 2, 2, 2, 2, 2, 2, 2, 2, 2, 2, 2, 2, 2, 2,
       2, 2, 2, 2, 2, 2, 2, 2, 2, 2, 2, 2, 2, 2, 2, 2, 2, 2, 2, 2, 2, 2, 2, 2, 2, 2, 2, 2, 2, 2,
       2, 2],
    depthArray := List.replicate 92 0,
    diamonds :=
      [Diamond.mk [64, 77, 78, 105, 106, 71] 6, Diamond.mk [128, 143, 128, 128] 4,
       Diamond.mk [155, 156, 155, 155] 4, Diamond.mk [211, 212, 211, 211] 4,
       Diamond.mk [512, 623, 624, 847, 848, 575] 6, Diamond.mk [1024, 1151, 1024, 1024] 4,
       Diamond.mk [1247, 1248, 1247, 1247] 4, Diamond.mk [1695, 1696, 1695, 1695] 4,
       Diamond.mk [4096, 4991, 4992, 6783, 6784, 4607] 6, Diamond.mk [8192, 9215, 8192, 8192] 4,
       Diamond.mk [9983, 9984, 9983, 9983] 4, Diamond.mk [13567, 13568, 13567, 13567] 4,
       Diamond.mk [32768, 39935, 39936, 54271, 54272, 36863] 6,
       Diamond.mk [65536, 73727, 65536, 65536] 4] }

/-- The mesh after fifteen calls `recursive_split_element(volume, 0)` on the root mesh,
spelled out: 110 elements. -/
def chainVolume15 : LEBVolume :=
  { totalNumElements := 110, minimalDepth := 5,
    heapIDArray :=
      [1048576, 33, 34, 70, 36, 37, 76, 638976, 40, 41, 42, 43, 44, 45, 46, 47, 48, 49, 50, 51,
       104, 868352, 54, 55, 65, 154, 79, 210, 107, 142, 129, 310, 157, 422, 213, 286, 257, 574,
       622, 313, 513, 1246, 846, 425, 625, 1694, 849, 1150, 1025, 2494, 1249, 3390, 1697, 2302,
       2049, 4606, 4990, 2497, 4097, 9982, 6782, 3393, 4993, 13566, 6785, 9214, 8193, 19966, 9985,
       27134, 13569, 18430, 16385, 36862, 39934, 19969, 32769, 79870, 54270, 27137, 39937, 108542,
       54273, 73726, 65537, 159742, 79873, 217086, 108545, 147454, 131073, 294910, 319486, 159745,
       262145, 638974, 434174, 217089, 319489, 868350, 434177, 589822, 524289, 638975, 638977,
       868351, 868353, 1179646, 1048577, 1179647],
    typeArray :=
      [0, 0, 0, 1, 0, 0, 1, 3, 0, 0, 0, 0, 0, 0, 0, 0, 0, 0, 0, 0, 1, 3, 0, 0, 2, 3, 2, 3, 2, 3,
       3, 0, 3, 0, 3, 0, 0, 1, 1, 0, 2, 3, 1, 0, 2, 3, 2, 3, 3, 0, 3, 0, 3, 0, 0, 1, 1, 0, 2, 3,
       1, 0, 2, 3, 2, 3, 3, 0, 3, 0, 3, 0, 0, 1, 1, 0, 2, 3, 1, 0, 2, 3, 2, 3, 3, 0, 3, 0, 3, 0,
       0, 1, 1, 0, 2, 3, 1, 0, 2, 3, 2, 3, 3, 3, 3, 3, 3, 0, 0, 0],
    neighborsArray :=
      [uint4.mk 109 108 4294967295 103, uint4.mk 24 2 4294967295 19, uint4.mk 1 3 4294967295 12,
       uint4.mk 4294967295 29 28 2, uint4.mk 26 5 4294967295 10, uint4.mk 4 6 4294967295 16,
       uint4.mk 4294967295 25 24 5, uint4.mk 105 104 103 4294967295, uint4.mk 11 9 4294967295 14,
       uint4.mk 8 10 4294967295 17, uint4.mk 9 11 4294967295 4, uint4.mk 10 8 4294967295 23,
       uint4.mk 15 13 4294967295 2, uint4.mk 12 14 4294967295 18, uint4.mk 13 15 4294967295 8,
       uint4.mk 14 12 4294967295 22, uint4.mk 19 17 4294967295 5, uint4.mk 16 18 4294967295 9,
       uint4.mk 17 19 4294967295 13, uint4.mk 18 16 4294967295 1, uint4.mk 4294967295 27 26 23,
       uint4.mk 109 106 105 4294967295, uint4.mk 28 23 4294967295 15,
       uint4.mk 22 20 4294967295 11, uint4.mk 30 4294967295 6 1, uint4.mk 31 32 30 6,
       uint4.mk 32 4294967295 20 4, uint4.mk 33 34 32 20, uint4.mk 34 4294967295 3 22,
       uint4.mk 35 30 34 3, uint4.mk 29 36 25 24, uint4.mk 39 38 4294967295 25,
       uint4.mk 25 39 27 26, uint4.mk 43 42 4294967295 27, uint4.mk 27 43 29 28,
       uint4.mk 36 37 4294967295 29, uint4.mk 40 35 4294967295 30, uint4.mk 4294967295 47 46 35,
       uint4.mk 4294967295 41 40 31, uint4.mk 44 31 4294967295 32, uint4.mk 48 4294967295 38 36,
       uint4.mk 49 50 48 38, uint4.mk 4294967295 45 44 33, uint4.mk 46 33 4294967295 34,
       uint4.mk 50 4294967295 42 39, uint4.mk 51 52 50 42, uint4.mk 52 4294967295 37 43,
       uint4.mk 53 48 52 37, uint4.mk 47 54 41 40, uint4.mk 57 56 4294967295 41,
       uint4.mk 41 57 45 44, uint4.mk 61 60 4294967295 45, uint4.mk 45 61 47 46,
       uint4.mk 54 55 4294967295 47, uint4.mk 58 53 4294967295 48, uint4.mk 4294967295 65 64 53,
       uint4.mk 4294967295 59 58 49, uint4.mk 62 49 4294967295 50, uint4.mk 66 4294967295 56 54,
       uint4.mk 67 68 66 56, uint4.mk 4294967295 63 62 51, uint4.mk 64 51 4294967295 52,
       uint4.mk 68 4294967295 60 57, uint4.mk 69 70 68 60, uint4.mk 70 4294967295 55 61,
       uint4.mk 71 66 70 55, uint4.mk 65 72 59 58, uint4.mk 75 74 4294967295 59,
       uint4.mk 59 75 63 62, uint4.mk 79 78 4294967295 63, uint4.mk 63 79 65 64,
       uint4.mk 72 73 4294967295 65, uint4.mk 76 71 4294967295 66, uint4.mk 4294967295 83 82 71,
       uint4.mk 4294967295 77 76 67, uint4.mk 80 67 4294967295 68, uint4.mk 84 4294967295 74 72,
       uint4.mk 85 86 84 74, uint4.mk 4294967295 81 80 69, uint4.mk 82 69 4294967295 70,
       uint4.mk 86 4294967295 78 75, uint4.mk 87 88 86 78, uint4.mk 88 4294967295 73 79,
       uint4.mk 89 84 88 73, uint4.mk 83 90 77 76, uint4.mk 93 92 4294967295 77,
       uint4.mk 77 93 81 80, uint4.mk 97 96 4294967295 81, uint4.mk 81 97 83 82,
       uint4.mk 90 91 4294967295 83, uint4.mk 94 89 4294967295 84, uint4.mk 4294967295 101 100 89,
       uint4.mk 4294967295 95 94 85, uint4.mk 98 85 4294967295 86, uint4.mk 102 4294967295 92 90,
       uint4.mk 103 104 102 92, uint4.mk 4294967295 99 98 87, uint4.mk 100 87 4294967295 88,
       uint4.mk 104 4294967295 96 93, uint4.mk 105 106 104 96, uint4.mk 106 4294967295 91 97,
       uint4.mk 107 102 106 91, uint4.mk 101 108 95 94, uint4.mk 95 0 7 4294967295,
       uint4.mk 95 7 99 98, uint4.mk 99 7 21 4294967295, uint4.mk 99 21 101 100,
       uint4.mk 108 109 4294967295 101, uint4.mk 0 107 4294967295 102,
       uint4.mk 107 0 4294967295 21],
    basePoints := g_CubeType0Vertices,
    baseTypes := List.replicate 24 0,
    tetraCacheArray := List.replicate 110 default,
    modifArray :=
      [2, 0, 0, 2, 0, 0, 2, 2, 0, 0, 0, 0, 0, 0, 0, 0, 0, 0, 0, 0, 2, 2, 0, 0, 2, 2, 2, 2, 2, 2,
       2, 2, 2, 2, 2, 2, 2, 2, 2, 2, 2, 2, 2, 2, 2, 2, 2, 2, 2, 2, 2, 2, 2, 2, 2, 2, 2, 2, 2, 2,
       2, 2, 2, 2, 2, 2, 2, 2, 2, 2, 2, 2, 2, 2, 2, 2, 2, 2, 2, 2, 2, 2, 2, 2, 2, 2, 2, 2, 2, 2,
       2, 2, 2, 2, 2, 2, 2, 2, 2, 2, 2, 2, 2, 2, 2, 2, 2, 2, 2, 2],
    depthArray := List.replicate 110 0,
    diamonds :=
      [Diamond.mk [64, 77, 78, 105, 106, 71] 6, Diamond.mk [128, 143, 128, 128] 4,
       Diamond.mk [155, 156, 155, 155] 4, Diamond.mk [211, 212, 211, 211] 4,
       Diamond.mk [512, 623, 624, 847, 848, 575] 6, Diamond.mk [1024, 1151, 1024, 1024] 4,
       Diamond.mk [1247, 1248, 1247, 1247] 4, Diamond.mk [1695, 1696, 1695, 1695] 4,
       Diamond.mk [4096, 4991, 4992, 6783, 6784, 4607] 6, Diamond.mk [8192, 9215, 8192, 8192] 4,
       Diamond.mk [9983, 9984, 9983, 9983] 4, Diamond.mk [13567, 13568, 13567, 13567] 4,
       Diamond.mk [32768, 39935, 39936, 54271, 54272, 36863] 6,
       Diamond.mk [65536, 73727, 65536, 65536] 4, Diamond.mk [79871, 79872, 79871, 79871] 4,
       Diamond.mk [108543, 108544, 108543, 108543] 4,
       Diamond.mk [262144, 319487, 319488, 434175, 434176, 294911] 6,
       Diamond.mk [524288, 589823, 524288, 524288] 4] }

/-- The mesh after eighteen calls `recursive_split_element(volume, 0)` on the root mesh,
spelled out: 128 elements. -/
def chainVolume18 : LEBVolume :=
  { totalNumElements := 128, minimalDepth := 5,
    heapIDArray :=
      [8388608, 33, 34, 70, 36, 37, 76, 5111808, 40, 41, 42, 43, 44, 45, 46, 47, 48, 49, 50, 51,
       104, 6946816, 54, 55, 65, 154, 79, 210, 107, 142, 129, 310, 157, 422, 213, 286, 257, 574,
       622, 313, 513, 1246, 846, 425, 625, 1694, 849, 1150, 1025, 2494, 1249, 3390, 1697, 2302,
       2049, 4606, 4990, 2497, 4097, 9982, 6782, 3393, 4993, 13566, 6785, 9214, 8193, 19966, 9985,
       27134, 13569, 18430, 16385, 36862, 39934, 19969, 32769, 79870, 54270, 27137, 39937, 108542,
       54273, 73726, 65537, 159742, 79873, 217086, 108545, 147454, 131073, 294910, 319486, 159745,
       262145, 638974, 434174, 217089, 319489, 868350, 434177, 589822, 524289, 1277950, 638977,
       1736702, 868353, 1179646, 1048577, 2359294, 2555902, 1277953, 2097153, 5111806, 3473406,
       1736705, 2555905, 6946814, 3473409, 4718590, 4194305, 5111807, 5111809, 6946815, 6946817,
       9437182, 8388609, 9437183],
    typeArray :=
      [0, 0, 0, 1, 0, 0, 1, 3, 0, 0, 0, 0, 0, 0, 0, 0, 0, 0, 0, 0, 1, 3, 0, 0, 2, 3, 2, 3, 2, 3,
       3, 0, 3, 0, 3, 0, 0, 1, 1, 0, 2, 3, 1, 0, 2, 3, 2, 3, 3, 0, 3, 0, 3, 0, 0, 1, 1, 0, 2, 3,
       1, 0, 2, 3, 2, 3, 3, 0, 3, 0, 3, 0, 0, 1, 1, 0, 2, 3, 1, 0, 2, 3, 2, 3, 3, 0, 3, 0, 3, 0,
       0, 1, 1, 0, 2, 3, 1, 0, 2, 3, 2, 3, 3, 0, 3, 0, 3, 0, 0, 1, 1, 0, 2, 3, 1, 0, 2, 3, 2, 3,
       3, 3, 3, 3, 3, 0, 0, 0],
    neighborsArray :=
      [uint4.mk 127 126 4294967295 121, uint4.mk 24 2 4294967295 19, uint4.mk 1 3 4294967295 12,
       uint4.mk 4294967295 29 28 2, uint4.mk 26 5 4294967295 10, uint4.mk 4 6 4294967295 16,
       uint4.mk 4294967295 25 24 5, uint4.mk 123 122 121 4294967295, uint4.mk 11 9 4294967295 14,
       uint4.mk 8 10 4294967295 17, uint4.mk 9 11 4294967295 4, uint4.mk 10 8 4294967295 23,
       uint4.mk 15 13 4294967295 2, uint4.mk 12 14 4294967295 18, uint4.mk 13 15 4294967295 8,
       uint4.mk 14 12 4294967295 22, uint4.mk 19 17 4294967295 5, uint4.mk 16 18 4294967295 9,
       uint4.mk 17 19 4294967295 13, uint4.mk 18 16 4294967295 1, uint4.mk 4294967295 27 26 23,
       uint4.mk 127 124 123 4294967295, uint4.mk 28 23 4294967295 15,
       uint4.mk 22 20 4294967295 11, uint4.mk 30 4294967295 6 1, uint4.mk 31 32 30 6,
       uint4.mk 32 4294967295 20 4, uint4.mk 33 34 32 20, uint4.mk 34 4294967295 3 22,
       uint4.mk 35 30 34 3, uint4.mk 29 36 25 24, uint4.mk 39 38 4294967295 25,
       uint4.mk 25 39 27 26, uint4.mk 43 42 4294967295 27, uint4.mk 27 43 29 28,
       uint4.mk 36 37 4294967295 29, uint4.mk 40 35 4294967295 30, uint4.mk 4294967295 47 46 35,
       uint4.mk 4294967295 41 40 31, uint4.mk 44 31 4294967295 32, uint4.mk 48 4294967295 38 36,
       uint4.mk 49 50 48 38, uint4.mk 4294967295 45 44 33, uint4.mk 46 33 4294967295 34,
       uint4.mk 50 4294967295 42 39, uint4.mk 51 52 50 42, uint4.mk 52 4294967295 37 43,
       uint4.mk 53 48 52 37, uint4.mk 47 54 41 40, uint4.mk 57 56 4294967295 41,
       uint4.mk 41 57 45 44, uint4.mk 61 60 4294967295 45, uint4.mk 45 61 47 46,
       uint4.mk 54 55 4294967295 47, uint4.mk 58 53 4294967295 48, uint4.mk 4294967295 65 64 53,
       uint4.mk 4294967295 59 58 49, uint4.mk 62 49 4294967295 50, uint4.mk 66 4294967295 56 54,
       uint4.mk 67 68 66 56, uint4.mk 4294967295 63 62 51, uint4.mk 64 51 4294967295 52,
       uint4.mk 68 4294967295 60 57, uint4.mk 69 70 68 60, uint4.mk 70 4294967295 55 61,
       uint4.mk 71 66 70 55, uint4.mk 65 72 59 58, uint4.mk 75 74 4294967295 59,
       uint4.mk 59 75 63 62, uint4.mk 79 78 4294967295 63, uint4.mk 63 79 65 64,
       uint4.mk 72 73 4294967295 65, uint4.mk 76 71 4294967295 66, uint4.mk 4294967295 83 82 71,
       uint4.mk 4294967295 77 76 67, uint4.mk 80 67 4294967295 68, uint4.mk 84 4294967295 74 72,
       uint4.mk 85 86 84 74, uint4.mk 4294967295 81 80 69, uint4.mk 82 69 4294967295 70,
       uint4.mk 86 4294967295 78 75, uint4.mk 87 88 86 78, uint4.mk 88 4294967295 73 79,
       uint4.mk 89 84 88 73, uint4.mk 83 90 77 76, uint4.mk 93 92 4294967295 77,
       uint4.mk 77 93 81 80, uint4.mk 97 96 4294967295 81, uint4.mk 81 97 83 82,
       uint4.mk 90 91 4294967295 83, uint4.mk 94 89 4294967295 84, uint4.mk 4294967295 101 100 89,
       uint4.mk 4294967295 95 94 85, uint4.mk 98 85 4294967295 86, uint4.mk 102 4294967295 92 90,
       uint4.mk 103 104 102 92, uint4.mk 4294967295 99 98 87, uint4.mk 100 87 4294967295 88,
       uint4.mk 104 4294967295 96 93, uint4.mk 105 106 104 96, uint4.mk 106 4294967295 91 97,
       uint4.mk 107 102 106 91, uint4.mk 101 108 95 94, uint4.mk 111 110 4294967295 95,
       uint4.mk 95 111 99 98, uint4.mk 115 114 4294967295 99, uint4.mk 99 115 101 100,
       uint4.mk 108 109 4294967295 101, uint4.mk 112 107 4294967295 102,
       uint4.mk 4294967295 119 118 107, uint4.mk 4294967295 113 112 103,
       uint4.mk 116 103 4294967295 104, uint4.mk 120 4294967295 110 108, uint4.mk 121 122 120 110,
       uint4.mk 4294967295 117 116 105, uint4.mk 118 105 4294967295 106,
       uint4.mk 122 4294967295 114 111, uint4.mk 123 124 122 114, uint4.mk 124 4294967295 109 115,
       uint4.mk 125 120 124 109, uint4.mk 119 126 113 112, uint4.mk 113 0 7 4294967295,
       uint4.mk 113 7 117 116, uint4.mk 117 7 21 4294967295, uint4.mk 117 21 119 118,
       uint4.mk 126 127 4294967295 119, uint4.mk 0 125 4294967295 120,
       uint4.mk 125 0 4294967295 21],
    basePoints := g_CubeType0Vertices,
    baseTypes := List.replicate 24 0,
    tetraCacheArray := List.replicate 128 default,
    modifArray :=
      [2, 0, 0, 2, 0, 0, 2, 2, 0, 0, 0, 0, 0, 0, 0, 0, 0, 0, 0, 0, 2, 2, 0, 0, 2, 2, 2, 2, 2, 2,
       2, 2, 2, 2, 2, 2, 2, 2, 2, 2, 2, 2, 2, 2, 2, 2, 2, 2, 2, 2, 2, 2, 2, 2, 2, 2, 2, 2, 2, 2,
       2, 2, 2, 2, 2, 2, 2, 2, 2, 2, 2, 2, 2, 2, 2, 2, 2, 2, 2, 2, 2, 2, 2, 2, 2, 2, 2, 2, 2, 2,
       2, 2, 2, 2, 2, 2, 2, 2, 2, 2, 2, 2, 2, 2, 2, 2, 2, 2, 2, 2, 2, 2, 2, 2, 2, 2, 2, 2, 2, 2,
       2, 2, 2, 2, 2, 2, 2, 2],
    depthArray := List.replicate 128 0,
    diamonds :=
      [Diamond.mk [64, 77, 78, 105, 106, 71] 6, Diamond.mk [128, 143, 128, 128] 4,
       Diamond.mk [155, 156, 155, 155] 4, Diamond.mk [211, 212, 211, 211] 4,
       Diamond.mk [512, 623, 624, 847, 848, 575] 6, Diamond.mk [1024, 1151, 1024, 1024] 4,
       Diamond.mk [1247, 1248, 1247, 1247] 4, Diamond.mk [1695, 1696, 1695, 1695] 4,
       Diamond.mk [4096, 4991, 4992, 6783, 6784, 4607] 6, Diamond.mk [8192, 9215, 8192, 8192] 4,
       Diamond.mk [9983, 9984, 9983, 9983] 4, Diamond.mk [13567, 13568, 13567, 13567] 4,
       Diamond.mk [32768, 39935, 39936, 54271, 54272, 36863] 6,
       Diamond.mk [65536, 73727, 65536, 65536] 4, Diamond.mk [79871, 79872, 79871, 79871] 4,
       Diamond.mk [108543, 108544, 108543, 108543] 4,
       Diamond.mk [262144, 319487, 319488, 434175, 434176, 294911] 6,
       Diamond.mk [524288, 589823, 524288, 524288] 4,
       Diamond.mk [638975, 638976, 638975, 638975] 4,
       Diamond.mk [868351, 868352, 868351, 868351] 4,
       Diamond.mk [2097152, 2555903, 2555904, 3473407, 3473408, 2359295] 6,
       Diamond.mk [4194304, 4718591, 4194304, 4194304] 4] }

/-- The mesh after twenty-one calls `recursive_split_element(volume, 0)` on the root mesh,
spelled out: 146 elements. -/
def chainVolume21 : LEBVolume :=
  { totalNumElements := 146, minimalDepth := 5,
    heapIDArray :=
      [67108864, 33, 34, 70, 36, 37, 76, 40894464, 40, 41, 42, 43, 44, 45, 46, 47, 48, 49, 50, 51,
       104, 55574528, 54, 55, 65, 154, 79, 210, 107, 142, 129, 310, 157, 422, 213, 286, 257, 574,
       622, 313, 513, 1246, 846, 425, 625, 1694, 849, 1150, 1025, 2494, 1249, 3390, 1697, 2302,
       2049, 4606, 4990, 2497, 4097, 9982, 6782, 3393, 4993, 13566, 6785, 9214, 8193, 19966, 9985,
       27134, 13569, 18430, 16385, 36862, 39934, 19969, 32769, 79870, 54270, 27137, 39937, 108542,
       54273, 73726, 65537, 159742, 79873, 217086, 108545, 147454, 131073, 294910, 319486, 159745,
       262145, 638974, 434174, 217089, 319489, 868350, 434177, 589822, 524289, 1277950, 638977,
       1736702, 868353, 1179646, 1048577, 2359294, 2555902, 1277953, 2097153, 5111806, 3473406,
       1736705, 2555905, 6946814, 3473409, 4718590, 4194305, 10223614, 5111809, 13893630, 6946817,
       9437182, 8388609, 18874366, 20447230, 10223617, 16777217, 40894462, 27787262, 13893633,
       20447233, 55574526, 27787265, 37748734, 33554433, 40894463, 40894465, 55574527, 55574529,
       75497470, 67108865, 75497471],
    typeArray :=
      [0, 0, 0, 1, 0, 0, 1, 3, 0, 0, 0, 0, 0, 0, 0, 0, 0, 0, 0, 0, 1, 3, 0, 0, 2, 3, 2, 3, 2, 3,
       3, 0, 3, 0, 3, 0, 0, 1, 1, 0, 2, 3, 1, 0, 2, 3, 2, 3, 3, 0, 3, 0, 3, 0, 0, 1, 1, 0, 2, 3,
       1, 0, 2, 3, 2, 3, 3, 0, 3, 0, 3, 0, 0, 1, 1, 0, 2, 3, 1, 0, 2, 3, 2, 3, 3, 0, 3, 0, 3, 0,
       0, 1, 1, 0, 2, 3, 1, 0, 2, 3, 2, 3, 3, 0, 3, 0, 3, 0, 0, 1, 1, 0, 2, 3, 1, 0, 2, 3, 2, 3,
       3, 0, 3, 0, 3, 0, 0, 1, 1, 0, 2, 3, 1, 0, 2, 3, 2, 3, 3, 3, 3, 3, 3, 0, 0, 0],
    neighborsArray :=
      [uint4.mk 145 144 4294967295 139, uint4.mk 24 2 4294967295 19, uint4.mk 1 3 4294967295 12,
       uint4.mk 4294967295 29 28 2, uint4.mk 26 5 4294967295 10, uint4.mk 4 6 4294967295 16,
       uint4.mk 4294967295 25 24 5, uint4.mk 141 140 139 4294967295, uint4.mk 11 9 4294967295 14,
       uint4.mk 8 10 4294967295 17, uint4.mk 9 11 4294967295 4, uint4.mk 10 8 4294967295 23,
       uint4.mk 15 13 4294967295 2, uint4.mk 12 14 4294967295 18, uint4.mk 13 15 4294967295 8,
       uint4.mk 14 12 4294967295 22, uint4.mk 19 17 4294967295 5, uint4.mk 16 18 4294967295 9,
       uint4.mk 17 19 4294967295 13, uint4.mk 18 16 4294967295 1, uint4.mk 4294967295 27 26 23,
       uint4.mk 145 142 141 4294967295, uint4.mk 28 23 4294967295 15,
       uint4.mk 22 20 4294967295 11, uint4.mk 30 4294967295 6 1, uint4.mk 31 32 30 6,
       uint4.mk 32 4294967295 20 4, uint4.mk 33 34 32 20, uint4.mk 34 4294967295 3 22,
       uint4.mk 35 30 34 3, uint4.mk 29 36 25 24, uint4.mk 39 38 4294967295 25,
       uint4.mk 25 39 27 26, uint4.mk 43 42 4294967295 27, uint4.mk 27 43 29 28,
       uint4.mk 36 37 4294967295 29, uint4.mk 40 35 4294967295 30, uint4.mk 4294967295 47 46 35,
       uint4.mk 4294967295 41 40 31, uint4.mk 44 31 4294967295 32, uint4.mk 48 4294967295 38 36,
       uint4.mk 49 50 48 38, uint4.mk 4294967295 45 44 33, uint4.mk 46 33 4294967295 34,
       uint4.mk 50 4294967295 42 39, uint4.mk 51 52 50 42, uint4.mk 52 4294967295 37 43,
       uint4.mk 53 48 52 37, uint4.mk 47 54 41 40, uint4.mk 57 56 4294967295 41,
       uint4.mk 41 57 45 44, uint4.mk 61 60 4294967295 45, uint4.mk 45 61 47 46,
       uint4.mk 54 55 4294967295 47, uint4.mk 58 53 4294967295 48, uint4.mk 4294967295 65 64 53,
       uint4.mk 4294967295 59 58 49, uint4.mk 62 49 4294967295 50, uint4.mk 66 4294967295 56 54,
       uint4.mk 67 68 66 56, uint4.mk 4294967295 63 62 51, uint4.mk 64 51 4294967295 52,
       uint4.mk 68 4294967295 60 57, uint4.mk 69 70 68 60, uint4.mk 70 4294967295 55 61,
       uint4.mk 71 66 70 55, uint4.mk 65 72 59 58, uint4.mk 75 74 4294967295 59,
       uint4.mk 59 75 63 62, uint4.mk 79 78 4294967295 63, uint4.mk 63 79 65 64,
       uint4.mk 72 73 4294967295 65, uint4.mk 76 71 4294967295 66, uint4.mk 4294967295 83 82 71,
       uint4.mk 4294967295 77 76 67, uint4.mk 80 67 4294967295 68, uint4.mk 84 4294967295 74 72,
       uint4.mk 85 86 84 74, uint4.mk 4294967295 81 80 69, uint4.mk 82 69 4294967295 70,
       uint4.mk 86 4294967295 78 75, uint4.mk 87 88 86 78, uint4.mk 88 4294967295 73 79,
       uint4.mk 89 84 88 73, uint4.mk 83 90 77 76, uint4.mk 93 92 4294967295 77,
       uint4.mk 77 93 81 80, uint4.mk 97 96 4294967295 81, uint4.mk 81 97 83 82,
       uint4.mk 90 91 4294967295 83, uint4.mk 94 89 4294967295 84, uint4.mk 4294967295 101 100 89,
       uint4.mk 4294967295 95 94 85, uint4.mk 98 85 4294967295 86, uint4.mk 102 4294967295 92 90,
       uint4.mk 103 104 102 92, uint4.mk 4294967295 99 98 87, uint4.mk 100 87 4294967295 88,
       uint4.mk 104 4294967295 96 93, uint4.mk 105 106 104 96, uint4.mk 106 4294967295 91 97,
       uint4.mk 107 102 106 91, uint4.mk 101 108 95 94, uint4.mk 111 110 4294967295 95,
       uint4.mk 95 111 99 98, uint4.mk 115 114 4294967295 99, uint4.mk 99 115 101 100,
       uint4.mk 108 109 4294967295 101, uint4.mk 112 107 4294967295 102,
       uint4.mk 4294967295 119 118 107, uint4.mk 4294967295 113 112 103,
       uint4.mk 116 103 4294967295 104, uint4.mk 120 4294967295 110 108, uint4.mk 121 122 120 110,
       uint4.mk 4294967295 117 116 105, uint4.mk 118 105 4294967295 106,
       uint4.mk 122 4294967295 114 111, uint4.mk 123 124 122 114, uint4.mk 124 4294967295 109 115,
       uint4.mk 125 120 124 109, uint4.mk 119 126 113 112, uint4.mk 129 128 4294967295 113,
       uint4.mk 113 129 117 116, uint4.mk 133 132 4294967295 117, uint4.mk 117 133 119 118,
       uint4.mk 126 127 4294967295 119, uint4.mk 130 125 4294967295 120,
       uint4.mk 4294967295 137 136 125, uint4.mk 4294967295 131 130 121,
       uint4.mk 134 121 4294967295 122, uint4.mk 138 4294967295 128 126, uint4.mk 139 140 138 128,
       uint4.mk 4294967295 135 134 123, uint4.mk 136 123 4294967295 124,
       uint4.mk 140 4294967295 132 129, uint4.mk 141 142 140 132, uint4.mk 142 4294967295 127 133,
       uint4.mk 143 138 142 127, uint4.mk 137 144 131 130, uint4.mk 131 0 7 4294967295,
       uint4.mk 131 7 135 134, uint4.mk 135 7 21 4294967295, uint4.mk 135 21 137 136,
       uint4.mk 144 145 4294967295 137, uint4.mk 0 143 4294967295 138,
       uint4.mk 143 0 4294967295 21],
    basePoints := g_CubeType0Vertices,
    baseTypes := List.replicate 24 0,
    tetraCacheArray := List.replicate 146 default,
    modifArray :=
      [2, 0, 0, 2, 0, 0, 2, 2, 0, 0, 0, 0, 0, 0, 0, 0, 0, 0, 0, 0, 2, 2, 0, 0, 2, 2, 2, 2, 2, 2,
       2, 2, 2, 2, 2, 2, 2, 2, 2, 2, 2, 2, 2, 2, 2, 2, 2, 2, 2, 2, 2, 2, 2, 2, 2, 2, 2, 2, 2, 2,
       2, 2, 2, 2, 2, 2, 2, 2, 2, 2, 2, 2, 2, 2, 2, 2, 2, 2, 2, 2, 2, 2, 2, 2, 2, 2, 2, 2, 2, 2,
       2, 2, 2, 2, 2, 2, 2, 2, 2, 2, 2, 2, 2, 2, 2, 2, 2, 2, 2, 2, 2, 2, 2, 2, 2, 2, 2, 2, 2, 2,
       2, 2, 2, 2, 2, 2, 2, 2, 2, 2, 2, 2, 2, 2, 2, 2, 2, 2, 2, 2, 2, 2, 2, 2, 2, 2],
    depthArray := List.replicate 146 0,
    diamonds :=
      [Diamond.mk [64, 77, 78, 105, 106, 71] 6, Diamond.mk [128, 143, 128, 128] 4,
       Diamond.mk [155, 156, 155, 155] 4, Diamond.mk [211, 212, 211, 211] 4,
       Diamond.mk [512, 623, 624, 847, 848, 575] 6, Diamond.mk [1024, 1151, 1024, 1024] 4,
       Diamond.mk [1247, 1248, 1247, 1247] 4, Diamond.mk [1695, 1696, 1695, 1695] 4,
       Diamond.mk [4096, 4991, 4992, 6783, 6784, 4607] 6, Diamond.mk [8192, 9215, 8192, 8192] 4,
       Diamond.mk [9983, 9984, 9983, 9983] 4, Diamond.mk [13567, 13568, 13567, 13567] 4,
       Diamond.mk [32768, 39935, 39936, 54271, 54272, 36863] 6,
       Diamond.mk [65536, 73727, 65536, 65536] 4, Diamond.mk [79871, 79872, 79871, 79871] 4,
       Diamond.mk [108543, 108544, 108543, 108543] 4,
       Diamond.mk [262144, 319487, 319488, 434175, 434176, 294911] 6,
       Diamond.mk [524288, 589823, 524288, 524288] 4,
       Diamond.mk [638975, 638976, 638975, 638975] 4,
       Diamond.mk [868351, 868352, 868351, 868351] 4,
       Diamond.mk [2097152, 2555903, 2555904, 3473407, 3473408, 2359295] 6,
       Diamond.mk [4194304, 4718591, 4194304, 4194304] 4,
       Diamond.mk [5111807, 5111808, 5111807, 5111807] 4,
       Diamond.mk [6946815, 6946816, 6946815, 6946815] 4,
       Diamond.mk [16777216, 20447231, 20447232, 27787263, 27787264, 18874367] 6,
       Diamond.mk [33554432, 37748735, 33554432, 33554432] 4] }

/-- The mesh after twenty-four calls `recursive_split_element(volume, 0)` on the root mesh,
spelled out: 164 elements. -/
def deepVolume : LEBVolume :=
  { totalNumElements := 164, minimalDepth := 5,
    heapIDArray :=
      [536870912, 33, 34, 70, 36, 37, 76, 327155712, 40, 41, 42, 43, 44, 45, 46, 47, 48, 49, 50,
       51, 104, 444596224, 54, 55, 65, 154, 79, 210, 107, 142, 129, 310, 157, 422, 213, 286, 257,
       574, 622, 313, 513, 1246, 846, 425, 625, 1694, 849, 1150, 1025, 2494, 1249, 3390, 1697,
       2302, 2049, 4606, 4990, 2497, 4097, 9982, 6782, 3393, 4993, 13566, 6785, 9214, 8193, 19966,
       9985, 27134, 13569, 18430, 16385, 36862, 39934, 19969, 32769, 79870, 54270, 27137, 39937,
       108542, 54273, 73726, 65537, 159742, 79873, 217086, 108545, 147454, 131073, 294910, 319486,
       159745, 262145, 638974, 434174, 217089, 319489, 868350, 434177, 589822, 524289, 1277950,
       638977, 1736702, 868353, 1179646, 1048577, 2359294, 2555902, 1277953, 2097153, 5111806,
       3473406, 1736705, 2555905, 6946814, 3473409, 4718590, 4194305, 10223614, 5111809, 13893630,
       6946817, 9437182, 8388609, 18874366, 20447230, 10223617, 16777217, 40894462, 27787262,
       13893633, 20447233, 55574526, 27787265, 37748734, 33554433, 81788926, 40894465, 111149054,
       55574529, 75497470, 67108865, 150994942, 163577854, 81788929, 134217729, 327155710,
       222298110, 111149057, 163577857, 444596222, 222298113, 301989886, 268435457, 327155711,
       327155713, 444596223, 444596225, 603979774, 536870913, 603979775],
    typeArray :=
      [0, 0, 0, 1, 0, 0, 1, 3, 0, 0, 0, 0, 0, 0, 0, 0, 0, 0, 0, 0, 1, 3, 0, 0, 2, 3, 2, 3, 2, 3,
       3, 0, 3, 0, 3, 0, 0, 1, 1, 0, 2, 3, 1, 0, 2, 3, 2, 3, 3, 0, 3, 0, 3, 0, 0, 1, 1, 0, 2, 3,
       1, 0, 2, 3, 2, 3, 3, 0, 3, 0, 3, 0, 0, 1, 1, 0, 2, 3, 1, 0, 2, 3, 2, 3, 3, 0, 3, 0, 3, 0,
       0, 1, 1, 0, 2, 3, 1, 0, 2, 3, 2, 3, 3, 0, 3, 0, 3, 0, 0, 1, 1, 0, 2, 3, 1, 0, 2, 3, 2, 3,
       3, 0, 3, 0, 3, 0, 0, 1, 1, 0, 2, 3, 1, 0, 2, 3, 2, 3, 3, 0, 3, 0, 3, 0, 0, 1, 1, 0, 2, 3,
       1, 0, 2, 3, 2, 3, 3, 3, 3, 3, 3, 0, 0, 0],
    neighborsArray :=
      [uint4.mk 163 162 4294967295 157, uint4.mk 24 2 4294967295 19, uint4.mk 1 3 4294967295 12,
       uint4.mk 4294967295 29 28 2, uint4.mk 26 5 4294967295 10, uint4.mk 4 6 4294967295 16,
       uint4.mk 4294967295 25 24 5, uint4.mk 159 158 157 4294967295, uint4.mk 11 9 4294967295 14,
       uint4.mk 8 10 4294967295 17, uint4.mk 9 11 4294967295 4, uint4.mk 10 8 4294967295 23,
       uint4.mk 15 13 4294967295 2, uint4.mk 12 14 4294967295 18, uint4.mk 13 15 4294967295 8,
       uint4.mk 14 12 4294967295 22, uint4.mk 19 17 4294967295 5, uint4.mk 16 18 4294967295 9,
       uint4.mk 17 19 4294967295 13, uint4.mk 18 16 4294967295 1, uint4.mk 4294967295 27 26 23,
       uint4.mk 163 160 159 4294967295, uint4.mk 28 23 4294967295 15,
       uint4.mk 22 20 4294967295 11, uint4.mk 30 4294967295 6 1, uint4.mk 31 32 30 6,
       uint4.mk 32 4294967295 20 4, uint4.mk 33 34 32 20, uint4.mk 34 4294967295 3 22,
       uint4.mk 35 30 34 3, uint4.mk 29 36 25 24, uint4.mk 39 38 4294967295 25,
       uint4.mk 25 39 27 26, uint4.mk 43 42 4294967295 27, uint4.mk 27 43 29 28,
       uint4.mk 36 37 4294967295 29, uint4.mk 40 35 4294967295 30, uint4.mk 4294967295 47 46 35,
       uint4.mk 4294967295 41 40 31, uint4.mk 44 31 4294967295 32, uint4.mk 48 4294967295 38 36,
       uint4.mk 49 50 48 38, uint4.mk 4294967295 45 44 33, uint4.mk 46 33 4294967295 34,
       uint4.mk 50 4294967295 42 39, uint4.mk 51 52 50 42, uint4.mk 52 4294967295 37 43,
       uint4.mk 53 48 52 37, uint4.mk 47 54 41 40, uint4.mk 57 56 4294967295 41,
       uint4.mk 41 57 45 44, uint4.mk 61 60 4294967295 45, uint4.mk 45 61 47 46,
       uint4.mk 54 55 4294967295 47, uint4.mk 58 53 4294967295 48, uint4.mk 4294967295 65 64 53,
       uint4.mk 4294967295 59 58 49, uint4.mk 62 49 4294967295 50, uint4.mk 66 4294967295 56 54,
       uint4.mk 67 68 66 56, uint4.mk 4294967295 63 62 51, uint4.mk 64 51 4294967295 52,
       uint4.mk 68 4294967295 60 57, uint4.mk 69 70 68 60, uint4.mk 70 4294967295 55 61,
       uint4.mk 71 66 70 55, uint4.mk 65 72 59 58, uint4.mk 75 74 4294967295 59,
       uint4.mk 59 75 63 62, uint4.mk 79 78 4294967295 63, uint4.mk 63 79 65 64,
       uint4.mk 72 73 4294967295 65, uint4.mk 76 71 4294967295 66, uint4.mk 4294967295 83 82 71,
       uint4.mk 4294967295 77 76 67, uint4.mk 80 67 4294967295 68, uint4.mk 84 4294967295 74 72,
       uint4.mk 85 86 84 74, uint4.mk 4294967295 81 80 69, uint4.mk 82 69 4294967295 70,
       uint4.mk 86 4294967295 78 75, uint4.mk 87 88 86 78, uint4.mk 88 4294967295 73 79,
       uint4.mk 89 84 88 73, uint4.mk 83 90 77 76, uint4.mk 93 92 4294967295 77,
       uint4.mk 77 93 81 80, uint4.mk 97 96 4294967295 81, uint4.mk 81 97 83 82,
       uint4.mk 90 91 4294967295 83, uint4.mk 94 89 4294967295 84, uint4.mk 4294967295 101 100 89,
       uint4.mk 4294967295 95 94 85, uint4.mk 98 85 4294967295 86, uint4.mk 102 4294967295 92 90,
       uint4.mk 103 104 102 92, uint4.mk 4294967295 99 98 87, uint4.mk 100 87 4294967295 88,
       uint4.mk 104 4294967295 96 93, uint4.mk 105 106 104 96, uint4.mk 106 4294967295 91 97,
       uint4.mk 107 102 106 91, uint4.mk 101 108 95 94, uint4.mk 111 110 4294967295 95,
       uint4.mk 95 111 99 98, uint4.mk 115 114 4294967295 99, uint4.mk 99 115 101 100,
       uint4.mk 108 109 4294967295 101, uint4.mk 112 107 4294967295 102,
       uint4.mk 4294967295 119 118 107, uint4.mk 4294967295 113 112 103,
       uint4.mk 116 103 4294967295 104, uint4.mk 120 4294967295 110 108, uint4.mk 121 122 120 110,
       uint4.mk 4294967295 117 116 105, uint4.mk 118 105 4294967295 106,
       uint4.mk 122 4294967295 114 111, uint4.mk 123 124 122 114, uint4.mk 124 4294967295 109 115,
       uint4.mk 125 120 124 109, uint4.mk 119 126 113 112, uint4.mk 129 128 4294967295 113,
       uint4.mk 113 129 117 116, uint4.mk 133 132 4294967295 117, uint4.mk 117 133 119 118,
       uint4.mk 126 127 4294967295 119, uint4.mk 130 125 4294967295 120,
       uint4.mk 4294967295 137 136 125, uint4.mk 4294967295 131 130 121,
       uint4.mk 134 121 4294967295 122, uint4.mk 138 4294967295 128 126, uint4.mk 139 140 138 128,
       uint4.mk 4294967295 135 134 123, uint4.mk 136 123 4294967295 124,
       uint4.mk 140 4294967295 132 129, uint4.mk 141 142 140 132, uint4.mk 142 4294967295 127 133,
       uint4.mk 143 138 142 127, uint4.mk 137 144 131 130, uint4.mk 147 146 4294967295 131,
       uint4.mk 131 147 135 134, uint4.mk 151 150 4294967295 135, uint4.mk 135 151 137 136,
       uint4.mk 144 145 4294967295 137, uint4.mk 148 143 4294967295 138,
       uint4.mk 4294967295 155 154 143, uint4.mk 4294967295 149 148 139,
       uint4.mk 152 139 4294967295 140, uint4.mk 156 4294967295 146 144, uint4.mk 157 158 156 146,
       uint4.mk 4294967295 153 152 141, uint4.mk 154 141 4294967295 142,
       uint4.mk 158 4294967295 150 147, uint4.mk 159 160 158 150, uint4.mk 160 4294967295 145 151,
       uint4.mk 161 156 160 145, uint4.mk 155 162 149 148, uint4.mk 149 0 7 4294967295,
       uint4.mk 149 7 153 152, uint4.mk 153 7 21 4294967295, uint4.mk 153 21 155 154,
       uint4.mk 162 163 4294967295 155, uint4.mk 0 161 4294967295 156,
       uint4.mk 161 0 4294967295 21],
    basePoints := g_CubeType0Vertices,
    baseTypes := List.replicate 24 0,
    tetraCacheArray := List.replicate 164 default,
    modifArray :=
      [2, 0, 0, 2, 0, 0, 2, 2, 0, 0, 0, 0, 0, 0, 0, 0, 0, 0, 0, 0, 2, 2, 0, 0, 2, 2, 2, 2, 2, 2,
       2, 2, 2, 2, 2, 2, 2, 2, 2, 2, 2, 2, 2, 2, 2, 2, 2, 2, 2, 2, 2, 2, 2, 2, 2, 2, 2, 2, 2, 2,
       2, 2, 2, 2, 2, 2, 2, 2, 2, 2, 2, 2, 2, 2, 2, 2, 2, 2, 2, 2, 2, 2, 2, 2, 2, 2, 2, 2, 2, 2,
       2, 2, 2, 2, 2, 2, 2, 2, 2, 2, 2, 2, 2, 2, 2, 2, 2, 2, 2, 2, 2, 2, 2, 2, 2, 2, 2, 2, 2, 2,
       2, 2, 2, 2, 2, 2, 2, 2, 2, 2, 2, 2, 2, 2, 2, 2, 2, 2, 2, 2, 2, 2, 2, 2, 2, 2, 2, 2, 2, 2,
       2, 2, 2, 2, 2, 2, 2, 2, 2, 2, 2, 2, 2, 2],
    depthArray := List.replicate 164 0,
    diamonds :=
      [Diamond.mk [64, 77, 78, 105, 106, 71] 6, Diamond.mk [128, 143, 128, 128] 4,
       Diamond.mk [155, 156, 155, 155] 4, Diamond.mk [211, 212, 211, 211] 4,
       Diamond.mk [512, 623, 624, 847, 848, 575] 6, Diamond.mk [1024, 1151, 1024, 1024] 4,
       Diamond.mk [1247, 1248, 1247, 1247] 4, Diamond.mk [1695, 1696, 1695, 1695] 4,
       Diamond.mk [4096, 4991, 4992, 6783, 6784, 4607] 6, Diamond.mk [8192, 9215, 8192, 8192] 4,
       Diamond.mk [9983, 9984, 9983, 9983] 4, Diamond.mk [13567, 13568, 13567, 13567] 4,
       Diamond.mk [32768, 39935, 39936, 54271, 54272, 36863] 6,
       Diamond.mk [65536, 73727, 65536, 65536] 4, Diamond.mk [79871, 79872, 79871, 79871] 4,
       Diamond.mk [108543, 108544, 108543, 108543] 4,
       Diamond.mk [262144, 319487, 319488, 434175, 434176, 294911] 6,
       Diamond.mk [524288, 589823, 524288, 524288] 4,
       Diamond.mk [638975, 638976, 638975, 638975] 4,
       Diamond.mk [868351, 868352, 868351, 868351] 4,
       Diamond.mk [2097152, 2555903, 2555904, 3473407, 3473408, 2359295] 6,
       Diamond.mk [4194304, 4718591, 4194304, 4194304] 4,
       Diamond.mk [5111807, 5111808, 5111807, 5111807] 4,
       Diamond.mk [6946815, 6946816, 6946815, 6946815] 4,
       Diamond.mk [16777216, 20447231, 20447232, 27787263, 27787264, 18874367] 6,
       Diamond.mk [33554432, 37748735, 33554432, 33554432] 4,
       Diamond.mk [40894463, 40894464, 40894463, 40894463] 4,
       Diamond.mk [55574527, 55574528, 55574527, 55574527] 4,
       Diamond.mk [134217728, 163577855, 163577856, 222298111, 222298112, 150994943] 6,
       Diamond.mk [268435456, 301989887, 268435456, 268435456] 4] }

/-! ## The meshes along the chain, one per diamond split -/

/-- A function that answers the listed calls `(volume, element)` with the listed results and
every other call with `fallback`. -/
def splitTable (entries : List (LEBVolume × Nat × LEBVolume))
    (fallback : LEBVolume → Nat → Except Fail LEBVolume) :
    LEBVolume → Nat → Except Fail LEBVolume :=
  fun volume element =>
    match entries.find? (fun en => decide (en.1 = volume ∧ en.2.1 = element)) with
    | some en => .ok en.2.2
    | none => fallback volume element

/-- The mesh after one call `recursive_split_element(volume, 0)` on the root mesh,
spelled out: 26 elements. -/
def chainVolume1 : LEBVolume :=
  { totalNumElements := 26, minimalDepth := 5,
    heapIDArray :=
      [64, 33, 34, 35, 36, 37, 76, 39, 40, 41, 42, 43, 44, 45, 46, 47, 48, 49, 50, 51, 52, 53, 54,
       55, 65, 77],
    typeArray :=
      [1, 0, 0, 0, 0, 0, 1, 0, 0, 0, 0, 0, 0, 0, 0, 0, 0, 0, 0, 0, 0, 0, 0, 0, 2, 2],
    neighborsArray :=
      [uint4.mk 4294967295 24 25 3, uint4.mk 24 2 4294967295 19, uint4.mk 1 3 4294967295 12,
       uint4.mk 2 0 4294967295 21, uint4.mk 7 5 4294967295 10, uint4.mk 4 6 4294967295 16,
       uint4.mk 4294967295 25 24 5, uint4.mk 25 4 4294967295 20, uint4.mk 11 9 4294967295 14,
       uint4.mk 8 10 4294967295 17, uint4.mk 9 11 4294967295 4, uint4.mk 10 8 4294967295 23,
       uint4.mk 15 13 4294967295 2, uint4.mk 12 14 4294967295 18, uint4.mk 13 15 4294967295 8,
       uint4.mk 14 12 4294967295 22, uint4.mk 19 17 4294967295 5, uint4.mk 16 18 4294967295 9,
       uint4.mk 17 19 4294967295 13, uint4.mk 18 16 4294967295 1, uint4.mk 23 21 4294967295 7,
       uint4.mk 20 22 4294967295 3, uint4.mk 21 23 4294967295 15, uint4.mk 22 20 4294967295 11,
       uint4.mk 0 4294967295 6 1, uint4.mk 6 4294967295 0 7],
    basePoints := g_CubeType0Vertices,
    baseTypes := List.replicate 24 0,
    tetraCacheArray := List.replicate 26 default,
    modifArray :=
      [2, 0, 0, 0, 0, 0, 2, 0, 0, 0, 0, 0, 0, 0, 0, 0, 0, 0, 0, 0, 0, 0, 0, 0, 2, 2],
    depthArray := List.replicate 26 0,
    diamonds :=
      [] }

/-- The mesh after two calls `recursive_split_element(volume, 0)` on the root mesh,
spelled out: 36 elements. -/
def chainVolume2 : LEBVolume :=
  { totalNumElements := 36, minimalDepth := 5,
    heapIDArray :=
      [128, 33, 34, 70, 36, 37, 76, 156, 40, 41, 42, 43, 44, 45, 46, 47, 48, 49, 50, 51, 104, 212,
       54, 55, 65, 154, 79, 210, 107, 142, 129, 155, 157, 211, 213, 143],
    typeArray :=
      [3, 0, 0, 1, 0, 0, 1, 3, 0, 0, 0, 0, 0, 0, 0, 0, 0, 0, 0, 0, 1, 3, 0, 0, 2, 3, 2, 3, 2, 3, 3,
       3, 3, 3, 3, 3],
    neighborsArray :=
      [uint4.mk 31 30 35 4294967295, uint4.mk 24 2 4294967295 19, uint4.mk 1 3 4294967295 12,
       uint4.mk 4294967295 29 28 2, uint4.mk 26 5 4294967295 10, uint4.mk 4 6 4294967295 16,
       uint4.mk 4294967295 25 24 5, uint4.mk 33 32 31 4294967295, uint4.mk 11 9 4294967295 14,
       uint4.mk 8 10 4294967295 17, uint4.mk 9 11 4294967295 4, uint4.mk 10 8 4294967295 23,
       uint4.mk 15 13 4294967295 2, uint4.mk 12 14 4294967295 18, uint4.mk 13 15 4294967295 8,
       uint4.mk 14 12 4294967295 22, uint4.mk 19 17 4294967295 5, uint4.mk 16 18 4294967295 9,
       uint4.mk 17 19 4294967295 13, uint4.mk 18 16 4294967295 1, uint4.mk 4294967295 27 26 23,
       uint4.mk 35 34 33 4294967295, uint4.mk 28 23 4294967295 15, uint4.mk 22 20 4294967295 11,
       uint4.mk 30 4294967295 6 1, uint4.mk 31 32 30 6, uint4.mk 32 4294967295 20 4,
       uint4.mk 33 34 32 20, uint4.mk 34 4294967295 3 22, uint4.mk 35 30 34 3, uint4.mk 29 0 25 24,
       uint4.mk 25 0 7 4294967295, uint4.mk 25 7 27 26, uint4.mk 27 7 21 4294967295,
       uint4.mk 27 21 29 28, uint4.mk 29 21 0 4294967295],
    basePoints := g_CubeType0Vertices,
    baseTypes := List.replicate 24 0,
    tetraCacheArray := List.replicate 36 default,
    modifArray :=
      [2, 0, 0, 2, 0, 0, 2, 2, 0, 0, 0, 0, 0, 0, 0, 0, 0, 0, 0, 0, 2, 2, 0, 0, 2, 2, 2, 2, 2, 2, 2,
       2, 2, 2, 2, 2],
    depthArray := List.replicate 36 0,
    diamonds :=
      [Diamond.mk [64, 77, 78, 105, 106, 71] 6] }

/-- The mesh after three calls `recursive_split_element(volume, 0)` on the root mesh,
spelled out: 38 elements. -/
def chainVolume3 : LEBVolume :=
  { totalNumElements := 38, minimalDepth := 5,
    heapIDArray :=
      [256, 33, 34, 70, 36, 37, 76, 156, 40, 41, 42, 43, 44, 45, 46, 47, 48, 49, 50, 51, 104, 212,
       54, 55, 65, 154, 79, 210, 107, 142, 129, 155, 157, 211, 213, 286, 257, 287],
    typeArray :=
      [0, 0, 0, 1, 0, 0, 1, 3, 0, 0, 0, 0, 0, 0, 0, 0, 0, 0, 0, 0, 1, 3, 0, 0, 2, 3, 2, 3, 2, 3, 3,
       3, 3, 3, 3, 0, 0, 0],
    neighborsArray :=
      [uint4.mk 37 36 4294967295 31, uint4.mk 24 2 4294967295 19, uint4.mk 1 3 4294967295 12,
       uint4.mk 4294967295 29 28 2, uint4.mk 26 5 4294967295 10, uint4.mk 4 6 4294967295 16,
       uint4.mk 4294967295 25 24 5, uint4.mk 33 32 31 4294967295, uint4.mk 11 9 4294967295 14,
       uint4.mk 8 10 4294967295 17, uint4.mk 9 11 4294967295 4, uint4.mk 10 8 4294967295 23,
       uint4.mk 15 13 4294967295 2, uint4.mk 12 14 4294967295 18, uint4.mk 13 15 4294967295 8,
       uint4.mk 14 12 4294967295 22, uint4.mk 19 17 4294967295 5, uint4.mk 16 18 4294967295 9,
       uint4.mk 17 19 4294967295 13, uint4.mk 18 16 4294967295 1, uint4.mk 4294967295 27 26 23,
       uint4.mk 37 34 33 4294967295, uint4.mk 28 23 4294967295 15, uint4.mk 22 20 4294967295 11,
       uint4.mk 30 4294967295 6 1, uint4.mk 31 32 30 6, uint4.mk 32 4294967295 20 4,
       uint4.mk 33 34 32 20, uint4.mk 34 4294967295 3 22, uint4.mk 35 30 34 3,
       uint4.mk 29 36 25 24, uint4.mk 25 0 7 4294967295, uint4.mk 25 7 27 26,
       uint4.mk 27 7 21 4294967295, uint4.mk 27 21 29 28, uint4.mk 36 37 4294967295 29,
       uint4.mk 0 35 4294967295 30, uint4.mk 35 0 4294967295 21],
    basePoints := g_CubeType0Vertices,
    baseTypes := List.replicate 24 0,
    tetraCacheArray := List.replicate 38 default,
    modifArray :=
      [2, 0, 0, 2, 0, 0, 2, 2, 0, 0, 0, 0, 0, 0, 0, 0, 0, 0, 0, 0, 2, 2, 0, 0, 2, 2, 2, 2, 2, 2, 2,
       2, 2, 2, 2, 2, 2, 2],
    depthArray := List.replicate 38 0,
    diamonds :=
      [Diamond.mk [64, 77, 78, 105, 106, 71] 6, Diamond.mk [128, 143, 128, 128] 4] }

/-- The mesh after four calls `recursive_split_element(volume, 0)` on the root mesh,
spelled out: 42 elements. -/
def chainVolume4 : LEBVolume :=
  { totalNumElements := 42, minimalDepth := 5,
    heapIDArray :=
      [512, 33, 34, 70, 36, 37, 76, 312, 40, 41, 42, 43, 44, 45, 46, 47, 48, 49, 50, 51, 104, 212,
       54, 55, 65, 154, 79, 210, 107, 142, 129, 310, 157, 211, 213, 286, 257, 287, 622, 313, 513,
       623],
    typeArray :=
      [1, 0, 0, 1, 0, 0, 1, 0, 0, 0, 0, 0, 0, 0, 0, 0, 0, 0, 0, 0, 1, 3, 0, 0, 2, 3, 2, 3, 2, 3, 3,
       0, 3, 3, 3, 0, 0, 0, 1, 0, 2, 2],
    neighborsArray :=
      [uint4.mk 4294967295 40 41 37, uint4.mk 24 2 4294967295 19, uint4.mk 1 3 4294967295 12,
       uint4.mk 4294967295 29 28 2, uint4.mk 26 5 4294967295 10, uint4.mk 4 6 4294967295 16,
       uint4.mk 4294967295 25 24 5, uint4.mk 41 39 4294967295 33, uint4.mk 11 9 4294967295 14,
       uint4.mk 8 10 4294967295 17, uint4.mk 9 11 4294967295 4, uint4.mk 10 8 4294967295 23,
       uint4.mk 15 13 4294967295 2, uint4.mk 12 14 4294967295 18, uint4.mk 13 15 4294967295 8,
       uint4.mk 14 12 4294967295 22, uint4.mk 19 17 4294967295 5, uint4.mk 16 18 4294967295 9,
       uint4.mk 17 19 4294967295 13, uint4.mk 18 16 4294967295 1, uint4.mk 4294967295 27 26 23,
       uint4.mk 37 34 33 4294967295, uint4.mk 28 23 4294967295 15, uint4.mk 22 20 4294967295 11,
       uint4.mk 30 4294967295 6 1, uint4.mk 31 32 30 6, uint4.mk 32 4294967295 20 4,
       uint4.mk 33 34 32 20, uint4.mk 34 4294967295 3 22, uint4.mk 35 30 34 3,
       uint4.mk 29 36 25 24, uint4.mk 39 38 4294967295 25, uint4.mk 25 39 27 26,
       uint4.mk 27 7 21 4294967295, uint4.mk 27 21 29 28, uint4.mk 36 37 4294967295 29,
       uint4.mk 40 35 4294967295 30, uint4.mk 35 0 4294967295 21, uint4.mk 4294967295 41 40 31,
       uint4.mk 7 31 4294967295 32, uint4.mk 0 4294967295 38 36, uint4.mk 38 4294967295 0 7],
    basePoints := g_CubeType0Vertices,
    baseTypes := List.replicate 24 0,
    tetraCacheArray := List.replicate 42 default,
    modifArray :=
      [2, 0, 0, 2, 0, 0, 2, 2, 0, 0, 0, 0, 0, 0, 0, 0, 0, 0, 0, 0, 2, 2, 0, 0, 2, 2, 2, 2, 2, 2, 2,
       2, 2, 2, 2, 2, 2, 2, 2, 2, 2, 2],
    depthArray := List.replicate 42 0,
    diamonds :=
      [Diamond.mk [64, 77, 78, 105, 106, 71] 6, Diamond.mk [128, 143, 128, 128] 4,
       Diamond.mk [155, 156, 155, 155] 4] }

/-- The mesh after five calls `recursive_split_element(volume, 0)` on the root mesh,
spelled out: 54 elements. -/
def chainVolume5 : LEBVolume :=
  { totalNumElements := 54, minimalDepth := 5,
    heapIDArray :=
      [1024, 33, 34, 70, 36, 37, 76, 1248, 40, 41, 42, 43, 44, 45, 46, 47, 48, 49, 50, 51, 104,
       1696, 54, 55, 65, 154, 79, 210, 107, 142, 129, 310, 157, 422, 213, 286, 257, 574, 622, 313,
       513, 1246, 846, 425, 625, 1694, 849, 1150, 1025, 1247, 1249, 1695, 1697, 1151],
    typeArray :=
      [3, 0, 0, 1, 0, 0, 1, 3, 0, 0, 0, 0, 0, 0, 0, 0, 0, 0, 0, 0, 1, 3, 0, 0, 2, 3, 2, 3, 2, 3, 3,
       0, 3, 0, 3, 0, 0, 1, 1, 0, 2, 3, 1, 0, 2, 3, 2, 3, 3, 3, 3, 3, 3, 3],
    neighborsArray :=
      [uint4.mk 49 48 53 4294967295, uint4.mk 24 2 4294967295 19, uint4.mk 1 3 4294967295 12,
       uint4.mk 4294967295 29 28 2, uint4.mk 26 5 4294967295 10, uint4.mk 4 6 4294967295 16,
       uint4.mk 4294967295 25 24 5, uint4.mk 51 50 49 4294967295, uint4.mk 11 9 4294967295 14,
       uint4.mk 8 10 4294967295 17, uint4.mk 9 11 4294967295 4, uint4.mk 10 8 4294967295 23,
       uint4.mk 15 13 4294967295 2, uint4.mk 12 14 4294967295 18, uint4.mk 13 15 4294967295 8,
       uint4.mk 14 12 4294967295 22, uint4.mk 19 17 4294967295 5, uint4.mk 16 18 4294967295 9,
       uint4.mk 17 19 4294967295 13, uint4.mk 18 16 4294967295 1, uint4.mk 4294967295 27 26 23,
       uint4.mk 53 52 51 4294967295, uint4.mk 28 23 4294967295 15, uint4.mk 22 20 4294967295 11,
       uint4.mk 30 4294967295 6 1, uint4.mk 31 32 30 6, uint4.mk 32 4294967295 20 4,
       uint4.mk 33 34 32 20, uint4.mk 34 4294967295 3 22, uint4.mk 35 30 34 3,
       uint4.mk 29 36 25 24, uint4.mk 39 38 4294967295 25, uint4.mk 25 39 27 26,
       uint4.mk 43 42 4294967295 27, uint4.mk 27 43 29 28, uint4.mk 36 37 4294967295 29,
       uint4.mk 40 35 4294967295 30, uint4.mk 4294967295 47 46 35, uint4.mk 4294967295 41 40 31,
       uint4.mk 44 31 4294967295 32, uint4.mk 48 4294967295 38 36, uint4.mk 49 50 48 38,
       uint4.mk 4294967295 45 44 33, uint4.mk 46 33 4294967295 34, uint4.mk 50 4294967295 42 39,
       uint4.mk 51 52 50 42, uint4.mk 52 4294967295 37 43, uint4.mk 53 48 52 37,
       uint4.mk 47 0 41 40, uint4.mk 41 0 7 4294967295, uint4.mk 41 7 45 44,
       uint4.mk 45 7 21 4294967295, uint4.mk 45 21 47 46, uint4.mk 47 21 0 4294967295],
    basePoints := g_CubeType0Vertices,
    baseTypes := List.replicate 24 0,
    tetraCacheArray := List.replicate 54 default,
    modifArray :=
      [2, 0, 0, 2, 0, 0, 2, 2, 0, 0, 0, 0, 0, 0, 0, 0, 0, 0, 0, 0, 2, 2, 0, 0, 2, 2, 2, 2, 2, 2, 2,
       2, 2, 2, 2, 2, 2, 2, 2, 2, 2, 2, 2, 2, 2, 2, 2, 2, 2, 2, 2, 2, 2, 2],
    depthArray := List.replicate 54 0,
    diamonds :=
      [Diamond.mk [64, 77, 78, 105, 106, 71] 6, Diamond.mk [128, 143, 128, 128] 4,
       Diamond.mk [155, 156, 155, 155] 4, Diamond.mk [211, 212, 211, 211] 4,
       Diamond.mk [512, 623, 624, 847, 848, 575] 6] }

/-- The mesh after seven calls `recursive_split_element(volume, 0)` on the root mesh,
spelled out: 60 elements. -/
def chainVolume7 : LEBVolume :=
  { totalNumElements := 60, minimalDepth := 5,
    heapIDArray :=
      [4096, 33, 34, 70, 36, 37, 76, 2496, 40, 41, 42, 43, 44, 45, 46, 47, 48, 49, 50, 51, 104,
       1696, 54, 55, 65, 154, 79, 210, 107, 142, 129, 310, 157, 422, 213, 286, 257, 574, 622, 313,
       513, 1246, 846, 425, 625, 1694, 849, 1150, 1025, 2494, 1249, 1695, 1697, 2302, 2049, 2303,
       4990, 2497, 4097, 4991],
    typeArray :=
      [1, 0, 0, 1, 0, 0, 1, 0, 0, 0, 0, 0, 0, 0, 0, 0, 0, 0, 0, 0, 1, 3, 0, 0, 2, 3, 2, 3, 2, 3, 3,
       0, 3, 0, 3, 0, 0, 1, 1, 0, 2, 3, 1, 0, 2, 3, 2, 3, 3, 0, 3, 3, 3, 0, 0, 0, 1, 0, 2, 2],
    neighborsArray :=
      [uint4.mk 4294967295 58 59 55, uint4.mk 24 2 4294967295 19, uint4.mk 1 3 4294967295 12,
       uint4.mk 4294967295 29 28 2, uint4.mk 26 5 4294967295 10, uint4.mk 4 6 4294967295 16,
       uint4.mk 4294967295 25 24 5, uint4.mk 59 57 4294967295 51, uint4.mk 11 9 4294967295 14,
       uint4.mk 8 10 4294967295 17, uint4.mk 9 11 4294967295 4, uint4.mk 10 8 4294967295 23,
       uint4.mk 15 13 4294967295 2, uint4.mk 12 14 4294967295 18, uint4.mk 13 15 4294967295 8,
       uint4.mk 14 12 4294967295 22, uint4.mk 19 17 4294967295 5, uint4.mk 16 18 4294967295 9,
       uint4.mk 17 19 4294967295 13, uint4.mk 18 16 4294967295 1, uint4.mk 4294967295 27 26 23,
       uint4.mk 55 52 51 4294967295, uint4.mk 28 23 4294967295 15, uint4.mk 22 20 4294967295 11,
       uint4.mk 30 4294967295 6 1, uint4.mk 31 32 30 6, uint4.mk 32 4294967295 20 4,
       uint4.mk 33 34 32 20, uint4.mk 34 4294967295 3 22, uint4.mk 35 30 34 3,
       uint4.mk 29 36 25 24, uint4.mk 39 38 4294967295 25, uint4.mk 25 39 27 26,
       uint4.mk 43 42 4294967295 27, uint4.mk 27 43 29 28, uint4.mk 36 37 4294967295 29,
       uint4.mk 40 35 4294967295 30, uint4.mk 4294967295 47 46 35, uint4.mk 4294967295 41 40 31,
       uint4.mk 44 31 4294967295 32, uint4.mk 48 4294967295 38 36, uint4.mk 49 50 48 38,
       uint4.mk 4294967295 45 44 33, uint4.mk 46 33 4294967295 34, uint4.mk 50 4294967295 42 39,
       uint4.mk 51 52 50 42, uint4.mk 52 4294967295 37 43, uint4.mk 53 48 52 37,
       uint4.mk 47 54 41 40, uint4.mk 57 56 4294967295 41, uint4.mk 41 57 45 44,
       uint4.mk 45 7 21 4294967295, uint4.mk 45 21 47 46, uint4.mk 54 55 4294967295 47,
       uint4.mk 58 53 4294967295 48, uint4.mk 53 0 4294967295 21, uint4.mk 4294967295 59 58 49,
       uint4.mk 7 49 4294967295 50, uint4.mk 0 4294967295 56 54, uint4.mk 56 4294967295 0 7],
    basePoints := g_CubeType0Vertices,
    baseTypes := List.replicate 24 0,
    tetraCacheArray := List.replicate 60 default,
    modifArray :=
      [2, 0, 0, 2, 0, 0, 2, 2, 0, 0, 0, 0, 0, 0, 0, 0, 0, 0, 0, 0, 2, 2, 0, 0, 2, 2, 2, 2, 2, 2, 2,
       2, 2, 2, 2, 2, 2, 2, 2, 2, 2, 2, 2, 2, 2, 2, 2, 2, 2, 2, 2, 2, 2, 2, 2, 2, 2, 2, 2, 2],
    depthArray := List.replicate 60 0,
    diamonds :=
      [Diamond.mk [64, 77, 78, 105, 106, 71] 6, Diamond.mk [128, 143, 128, 128] 4,
       Diamond.mk [155, 156, 155, 155] 4, Diamond.mk [211, 212, 211, 211] 4,
       Diamond.mk [512, 623, 624, 847, 848, 575] 6, Diamond.mk [1024, 1151, 1024, 1024] 4,
       Diamond.mk [1247, 1248, 1247, 1247] 4] }

/-- The mesh after eight calls `recursive_split_element(volume, 0)` on the root mesh,
spelled out: 72 elements. -/
def chainVolume8 : LEBVolume :=
  { totalNumElements := 72, minimalDepth := 5,
    heapIDArray :=
      [8192, 33, 34, 70, 36, 37, 76, 9984, 40, 41, 42, 43, 44, 45, 46, 47, 48, 49, 50, 51, 104,
       13568, 54, 55, 65, 154, 79, 210, 107, 142, 129, 310, 157, 422, 213, 286, 257, 574, 622, 313,
       513, 1246, 846, 425, 625, 1694, 849, 1150, 1025, 2494, 1249, 3390, 1697, 2302, 2049, 4606,
       4990, 2497, 4097, 9982, 6782, 3393, 4993, 13566, 6785, 9214, 8193, 9983, 9985, 13567, 13569,
       9215],
    typeArray :=
      [3, 0, 0, 1, 0, 0, 1, 3, 0, 0, 0, 0, 0, 0, 0, 0, 0, 0, 0, 0, 1, 3, 0, 0, 2, 3, 2, 3, 2, 3, 3,
       0, 3, 0, 3, 0, 0, 1, 1, 0, 2, 3, 1, 0, 2, 3, 2, 3, 3, 0, 3, 0, 3, 0, 0, 1, 1, 0, 2, 3, 1, 0,
       2, 3, 2, 3, 3, 3, 3, 3, 3, 3],
    neighborsArray :=
      [uint4.mk 67 66 71 4294967295, uint4.mk 24 2 4294967295 19, uint4.mk 1 3 4294967295 12,
       uint4.mk 4294967295 29 28 2, uint4.mk 26 5 4294967295 10, uint4.mk 4 6 4294967295 16,
       uint4.mk 4294967295 25 24 5, uint4.mk 69 68 67 4294967295, uint4.mk 11 9 4294967295 14,
       uint4.mk 8 10 4294967295 17, uint4.mk 9 11 4294967295 4, uint4.mk 10 8 4294967295 23,
       uint4.mk 15 13 4294967295 2, uint4.mk 12 14 4294967295 18, uint4.mk 13 15 4294967295 8,
       uint4.mk 14 12 4294967295 22, uint4.mk 19 17 4294967295 5, uint4.mk 16 18 4294967295 9,
       uint4.mk 17 19 4294967295 13, uint4.mk 18 16 4294967295 1, uint4.mk 4294967295 27 26 23,
       uint4.mk 71 70 69 4294967295, uint4.mk 28 23 4294967295 15, uint4.mk 22 20 4294967295 11,
       uint4.mk 30 4294967295 6 1, uint4.mk 31 32 30 6, uint4.mk 32 4294967295 20 4,
       uint4.mk 33 34 32 20, uint4.mk 34 4294967295 3 22, uint4.mk 35 30 34 3,
       uint4.mk 29 36 25 24, uint4.mk 39 38 4294967295 25, uint4.mk 25 39 27 26,
       uint4.mk 43 42 4294967295 27, uint4.mk 27 43 29 28, uint4.mk 36 37 4294967295 29,
       uint4.mk 40 35 4294967295 30, uint4.mk 4294967295 47 46 35, uint4.mk 4294967295 41 40 31,
       uint4.mk 44 31 4294967295 32, uint4.mk 48 4294967295 38 36, uint4.mk 49 50 48 38,
       uint4.mk 4294967295 45 44 33, uint4.mk 46 33 4294967295 34, uint4.mk 50 4294967295 42 39,
       uint4.mk 51 52 50 42, uint4.mk 52 4294967295 37 43, uint4.mk 53 48 52 37,
       uint4.mk 47 54 41 40, uint4.mk 57 56 4294967295 41, uint4.mk 41 57 45 44,
       uint4.mk 61 60 4294967295 45, uint4.mk 45 61 47 46, uint4.mk 54 55 4294967295 47,
       uint4.mk 58 53 4294967295 48, uint4.mk 4294967295 65 64 53, uint4.mk 4294967295 59 58 49,
       uint4.mk 62 49 4294967295 50, uint4.mk 66 4294967295 56 54, uint4.mk 67 68 66 56,
       uint4.mk 4294967295 63 62 51, uint4.mk 64 51 4294967295 52, uint4.mk 68 4294967295 60 57,
       uint4.mk 69 70 68 60, uint4.mk 70 4294967295 55 61, uint4.mk 71 66 70 55,
       uint4.mk 65 0 59 58, uint4.mk 59 0 7 4294967295, uint4.mk 59 7 63 62,
       uint4.mk 63 7 21 4294967295, uint4.mk 63 21 65 64, uint4.mk 65 21 0 4294967295],
    basePoints := g_CubeType0Vertices,
    baseTypes := List.replicate 24 0,
    tetraCacheArray := List.replicate 72 default,
    modifArray :=
      [2, 0, 0, 2, 0, 0, 2, 2, 0, 0, 0, 0, 0, 0, 0, 0, 0, 0, 0, 0, 2, 2, 0, 0, 2, 2, 2, 2, 2, 2, 2,
       2, 2, 2, 2, 2, 2, 2, 2, 2, 2, 2, 2, 2, 2, 2, 2, 2, 2, 2, 2, 2, 2, 2, 2, 2, 2, 2, 2, 2, 2, 2,
       2, 2, 2, 2, 2, 2, 2, 2, 2, 2],
    depthArray := List.replicate 72 0,
    diamonds :=
      [Diamond.mk [64, 77, 78, 105, 106, 71] 6, Diamond.mk [128, 143, 128, 128] 4,
       Diamond.mk [155, 156, 155, 155] 4, Diamond.mk [211, 212, 211, 211] 4,
       Diamond.mk [512, 623, 624, 847, 848, 575] 6, Diamond.mk [1024, 1151, 1024, 1024] 4,
       Diamond.mk [1247, 1248, 1247, 1247] 4, Diamond.mk [1695, 1696, 1695, 1695] 4,
       Diamond.mk [4096, 4991, 4992, 6783, 6784, 4607] 6] }

/-- The mesh after ten calls `recursive_split_element(volume, 0)` on the root mesh,
spelled out: 78 elements. -/
def chainVolume10 : LEBVolume :=
  { totalNumElements := 78, minimalDepth := 5,
    heapIDArray :=
      [32768, 33, 34, 70, 36, 37, 76, 19968, 40, 41, 42, 43, 44, 45, 46, 47, 48, 49, 50, 51, 104,
       13568, 54, 55, 65, 154, 79, 210, 107, 142, 129, 310, 157, 422, 213, 286, 257, 574, 622, 313,
       513, 1246, 846, 425, 625, 1694, 849, 1150, 1025, 2494, 1249, 3390, 1697, 2302, 2049, 4606,
       4990, 2497, 4097, 9982, 6782, 3393, 4993, 13566, 6785, 9214, 8193, 19966, 9985, 13567,
       13569, 18430, 16385, 18431, 39934, 19969, 32769, 39935],
    typeArray :=
      [1, 0, 0, 1, 0, 0, 1, 0, 0, 0, 0, 0, 0, 0, 0, 0, 0, 0, 0, 0, 1, 3, 0, 0, 2, 3, 2, 3, 2, 3, 3,
       0, 3, 0, 3, 0, 0, 1, 1, 0, 2, 3, 1, 0, 2, 3, 2, 3, 3, 0, 3, 0, 3, 0, 0, 1, 1, 0, 2, 3, 1, 0,
       2, 3, 2, 3, 3, 0, 3, 3, 3, 0, 0, 0, 1, 0, 2, 2],
    neighborsArray :=
      [uint4.mk 4294967295 76 77 73, uint4.mk 24 2 4294967295 19, uint4.mk 1 3 4294967295 12,
       uint4.mk 4294967295 29 28 2, uint4.mk 26 5 4294967295 10, uint4.mk 4 6 4294967295 16,
       uint4.mk 4294967295 25 24 5, uint4.mk 77 75 4294967295 69, uint4.mk 11 9 4294967295 14,
       uint4.mk 8 10 4294967295 17, uint4.mk 9 11 4294967295 4, uint4.mk 10 8 4294967295 23,
       uint4.mk 15 13 4294967295 2, uint4.mk 12 14 4294967295 18, uint4.mk 13 15 4294967295 8,
       uint4.mk 14 12 4294967295 22, uint4.mk 19 17 4294967295 5, uint4.mk 16 18 4294967295 9,
       uint4.mk 17 19 4294967295 13, uint4.mk 18 16 4294967295 1, uint4.mk 4294967295 27 26 23,
       uint4.mk 73 70 69 4294967295, uint4.mk 28 23 4294967295 15, uint4.mk 22 20 4294967295 11,
       uint4.mk 30 4294967295 6 1, uint4.mk 31 32 30 6, uint4.mk 32 4294967295 20 4,
       uint4.mk 33 34 32 20, uint4.mk 34 4294967295 3 22, uint4.mk 35 30 34 3,
       uint4.mk 29 36 25 24, uint4.mk 39 38 4294967295 25, uint4.mk 25 39 27 26,
       uint4.mk 43 42 4294967295 27, uint4.mk 27 43 29 28, uint4.mk 36 37 4294967295 29,
       uint4.mk 40 35 4294967295 30, uint4.mk 4294967295 47 46 35, uint4.mk 4294967295 41 40 31,
       uint4.mk 44 31 4294967295 32, uint4.mk 48 4294967295 38 36, uint4.mk 49 50 48 38,
       uint4.mk 4294967295 45 44 33, uint4.mk 46 33 4294967295 34, uint4.mk 50 4294967295 42 39,
       uint4.mk 51 52 50 42, uint4.mk 52 4294967295 37 43, uint4.mk 53 48 52 37,
       uint4.mk 47 54 41 40, uint4.mk 57 56 4294967295 41, uint4.mk 41 57 45 44,
       uint4.mk 61 60 4294967295 45, uint4.mk 45 61 47 46, uint4.mk 54 55 4294967295 47,
       uint4.mk 58 53 4294967295 48, uint4.mk 4294967295 65 64 53, uint4.mk 4294967295 59 58 49,
       uint4.mk 62 49 4294967295 50, uint4.mk 66 4294967295 56 54, uint4.mk 67 68 66 56,
       uint4.mk 4294967295 63 62 51, uint4.mk 64 51 4294967295 52, uint4.mk 68 4294967295 60 57,
       uint4.mk 69 70 68 60, uint4.mk 70 4294967295 55 61, uint4.mk 71 66 70 55,
       uint4.mk 65 72 59 58, uint4.mk 75 74 4294967295 59, uint4.mk 59 75 63 62,
       uint4.mk 63 7 21 4294967295, uint4.mk 63 21 65 64, uint4.mk 72 73 4294967295 65,
       uint4.mk 76 71 4294967295 66, uint4.mk 71 0 4294967295 21, uint4.mk 4294967295 77 76 67,
       uint4.mk 7 67 4294967295 68, uint4.mk 0 4294967295 74 72, uint4.mk 74 4294967295 0 7],
    basePoints := g_CubeType0Vertices,
    baseTypes := List.replicate 24 0,
    tetraCacheArray := List.replicate 78 default,
    modifArray :=
      [2, 0, 0, 2, 0, 0, 2, 2, 0, 0, 0, 0, 0, 0, 0, 0, 0, 0, 0, 0, 2, 2, 0, 0, 2, 2, 2, 2, 2, 2, 2,
       2, 2, 2, 2, 2, 2, 2, 2, 2, 2, 2, 2, 2, 2, 2, 2, 2, 2, 2, 2, 2, 2, 2, 2, 2, 2, 2, 2, 2, 2, 2,
       2, 2, 2, 2, 2, 2, 2, 2, 2, 2, 2, 2, 2, 2, 2, 2],
    depthArray := List.replicate 78 0,
    diamonds :=
      [Diamond.mk [64, 77, 78, 105, 106, 71] 6, Diamond.mk [128, 143, 128, 128] 4,
       Diamond.mk [155, 156, 155, 155] 4, Diamond.mk [211, 212, 211, 211] 4,
       Diamond.mk [512, 623, 624, 847, 848, 575] 6, Diamond.mk [1024, 1151, 1024, 1024] 4,
       Diamond.mk [1247, 1248, 1247, 1247] 4, Diamond.mk [1695, 1696, 1695, 1695] 4,
       Diamond.mk [4096, 4991, 4992, 6783, 6784, 4607] 6, Diamond.mk [8192, 9215, 8192, 8192] 4,
       Diamond.mk [9983, 9984, 9983, 9983] 4] }

/-- The mesh after 22 diamond splits along the calls `recursive_split_element(volume, 0)` on
the root mesh, in the course of the call 11, spelled out: 80 elements. -/
def chainStep22 : LEBVolume :=
  { totalNumElements := 80, minimalDepth := 5,
    heapIDArray :=
      [32768, 33, 34, 70, 36, 37, 76, 19968, 40, 41, 42, 43, 44, 45, 46, 47, 48, 49, 50, 51, 104,
       27136, 54, 55, 65, 154, 79, 210, 107, 142, 129, 310, 157, 422, 213, 286, 257, 574, 622, 313,
       513, 1246, 846, 425, 625, 1694, 849, 1150, 1025, 2494, 1249, 3390, 1697, 2302, 2049, 4606,
       4990, 2497, 4097, 9982, 6782, 3393, 4993, 13566, 6785, 9214, 8193, 19966, 9985, 27134,
       13569, 18430, 16385, 18431, 39934, 19969, 32769, 39935, 27135, 27137],
    typeArray :=
      [1, 0, 0, 1, 0, 0, 1, 0, 0, 0, 0, 0, 0, 0, 0, 0, 0, 0, 0, 0, 1, 0, 0, 0, 2, 3, 2, 3, 2, 3, 3,
       0, 3, 0, 3, 0, 0, 1, 1, 0, 2, 3, 1, 0, 2, 3, 2, 3, 3, 0, 3, 0, 3, 0, 0, 1, 1, 0, 2, 3, 1, 0,
       2, 3, 2, 3, 3, 0, 3, 0, 3, 0, 0, 0, 1, 0, 2, 2, 0, 0],
    neighborsArray :=
      [uint4.mk 4294967295 76 77 73, uint4.mk 24 2 4294967295 19, uint4.mk 1 3 4294967295 12,
       uint4.mk 4294967295 29 28 2, uint4.mk 26 5 4294967295 10, uint4.mk 4 6 4294967295 16,
       uint4.mk 4294967295 25 24 5, uint4.mk 77 75 4294967295 78, uint4.mk 11 9 4294967295 14,
       uint4.mk 8 10 4294967295 17, uint4.mk 9 11 4294967295 4, uint4.mk 10 8 4294967295 23,
       uint4.mk 15 13 4294967295 2, uint4.mk 12 14 4294967295 18, uint4.mk 13 15 4294967295 8,
       uint4.mk 14 12 4294967295 22, uint4.mk 19 17 4294967295 5, uint4.mk 16 18 4294967295 9,
       uint4.mk 17 19 4294967295 13, uint4.mk 18 16 4294967295 1, uint4.mk 4294967295 27 26 23,
       uint4.mk 78 79 4294967295 73, uint4.mk 28 23 4294967295 15, uint4.mk 22 20 4294967295 11,
       uint4.mk 30 4294967295 6 1, uint4.mk 31 32 30 6, uint4.mk 32 4294967295 20 4,
       uint4.mk 33 34 32 20, uint4.mk 34 4294967295 3 22, uint4.mk 35 30 34 3,
       uint4.mk 29 36 25 24, uint4.mk 39 38 4294967295 25, uint4.mk 25 39 27 26,
       uint4.mk 43 42 4294967295 27, uint4.mk 27 43 29 28, uint4.mk 36 37 4294967295 29,
       uint4.mk 40 35 4294967295 30, uint4.mk 4294967295 47 46 35, uint4.mk 4294967295 41 40 31,
       uint4.mk 44 31 4294967295 32, uint4.mk 48 4294967295 38 36, uint4.mk 49 50 48 38,
       uint4.mk 4294967295 45 44 33, uint4.mk 46 33 4294967295 34, uint4.mk 50 4294967295 42 39,
       uint4.mk 51 52 50 42, uint4.mk 52 4294967295 37 43, uint4.mk 53 48 52 37,
       uint4.mk 47 54 41 40, uint4.mk 57 56 4294967295 41, uint4.mk 41 57 45 44,
       uint4.mk 61 60 4294967295 45, uint4.mk 45 61 47 46, uint4.mk 54 55 4294967295 47,
       uint4.mk 58 53 4294967295 48, uint4.mk 4294967295 65 64 53, uint4.mk 4294967295 59 58 49,
       uint4.mk 62 49 4294967295 50, uint4.mk 66 4294967295 56 54, uint4.mk 67 68 66 56,
       uint4.mk 4294967295 63 62 51, uint4.mk 64 51 4294967295 52, uint4.mk 68 4294967295 60 57,
       uint4.mk 69 70 68 60, uint4.mk 70 4294967295 55 61, uint4.mk 71 66 70 55,
       uint4.mk 65 72 59 58, uint4.mk 75 74 4294967295 59, uint4.mk 59 75 63 62,
       uint4.mk 79 78 4294967295 63, uint4.mk 63 79 65 64, uint4.mk 72 73 4294967295 65,
       uint4.mk 76 71 4294967295 66, uint4.mk 71 0 4294967295 21, uint4.mk 4294967295 77 76 67,
       uint4.mk 7 67 4294967295 68, uint4.mk 0 4294967295 74 72, uint4.mk 74 4294967295 0 7,
       uint4.mk 69 21 4294967295 7, uint4.mk 21 69 4294967295 70],
    basePoints := g_CubeType0Vertices,
    baseTypes := List.replicate 24 0,
    tetraCacheArray := List.replicate 80 default,
    modifArray :=
      [2, 0, 0, 2, 0, 0, 2, 2, 0, 0, 0, 0, 0, 0, 0, 0, 0, 0, 0, 0, 2, 2, 0, 0, 2, 2, 2, 2, 2, 2, 2,
       2, 2, 2, 2, 2, 2, 2, 2, 2, 2, 2, 2, 2, 2, 2, 2, 2, 2, 2, 2, 2, 2, 2, 2, 2, 2, 2, 2, 2, 2, 2,
       2, 2, 2, 2, 2, 2, 2, 2, 2, 2, 2, 2, 2, 2, 2, 2, 2, 2],
    depthArray := List.replicate 80 0,
    diamonds :=
      [Diamond.mk [64, 77, 78, 105, 106, 71] 6, Diamond.mk [128, 143, 128, 128] 4,
       Diamond.mk [155, 156, 155, 155] 4, Diamond.mk [211, 212, 211, 211] 4,
       Diamond.mk [512, 623, 624, 847, 848, 575] 6, Diamond.mk [1024, 1151, 1024, 1024] 4,
       Diamond.mk [1247, 1248, 1247, 1247] 4, Diamond.mk [1695, 1696, 1695, 1695] 4,
       Diamond.mk [4096, 4991, 4992, 6783, 6784, 4607] 6, Diamond.mk [8192, 9215, 8192, 8192] 4,
       Diamond.mk [9983, 9984, 9983, 9983] 4, Diamond.mk [13567, 13568, 13567, 13567] 4] }

/-- The mesh after 23 diamond splits along the calls `recursive_split_element(volume, 0)` on
the root mesh, in the course of the call 11, spelled out: 82 elements. -/
def chainStep23 : LEBVolume :=
  { totalNumElements := 82, minimalDepth := 5,
    heapIDArray :=
      [32768, 33, 34, 70, 36, 37, 76, 39936, 40, 41, 42, 43, 44, 45, 46, 47, 48, 49, 50, 51, 104,
       27136, 54, 55, 65, 154, 79, 210, 107, 142, 129, 310, 157, 422, 213, 286, 257, 574, 622, 313,
       513, 1246, 846, 425, 625, 1694, 849, 1150, 1025, 2494, 1249, 3390, 1697, 2302, 2049, 4606,
       4990, 2497, 4097, 9982, 6782, 3393, 4993, 13566, 6785, 9214, 8193, 19966, 9985, 27134,
       13569, 18430, 16385, 18431, 39934, 19969, 32769, 39935, 54270, 27137, 39937, 54271],
    typeArray :=
      [1, 0, 0, 1, 0, 0, 1, 1, 0, 0, 0, 0, 0, 0, 0, 0, 0, 0, 0, 0, 1, 0, 0, 0, 2, 3, 2, 3, 2, 3, 3,
       0, 3, 0, 3, 0, 0, 1, 1, 0, 2, 3, 1, 0, 2, 3, 2, 3, 3, 0, 3, 0, 3, 0, 0, 1, 1, 0, 2, 3, 1, 0,
       2, 3, 2, 3, 3, 0, 3, 0, 3, 0, 0, 0, 1, 0, 2, 2, 1, 0, 2, 2],
    neighborsArray :=
      [uint4.mk 4294967295 76 77 73, uint4.mk 24 2 4294967295 19, uint4.mk 1 3 4294967295 12,
       uint4.mk 4294967295 29 28 2, uint4.mk 26 5 4294967295 10, uint4.mk 4 6 4294967295 16,
       uint4.mk 4294967295 25 24 5, uint4.mk 4294967295 80 81 77, uint4.mk 11 9 4294967295 14,
       uint4.mk 8 10 4294967295 17, uint4.mk 9 11 4294967295 4, uint4.mk 10 8 4294967295 23,
       uint4.mk 15 13 4294967295 2, uint4.mk 12 14 4294967295 18, uint4.mk 13 15 4294967295 8,
       uint4.mk 14 12 4294967295 22, uint4.mk 19 17 4294967295 5, uint4.mk 16 18 4294967295 9,
       uint4.mk 17 19 4294967295 13, uint4.mk 18 16 4294967295 1, uint4.mk 4294967295 27 26 23,
       uint4.mk 81 79 4294967295 73, uint4.mk 28 23 4294967295 15, uint4.mk 22 20 4294967295 11,
       uint4.mk 30 4294967295 6 1, uint4.mk 31 32 30 6, uint4.mk 32 4294967295 20 4,
       uint4.mk 33 34 32 20, uint4.mk 34 4294967295 3 22, uint4.mk 35 30 34 3,
       uint4.mk 29 36 25 24, uint4.mk 39 38 4294967295 25, uint4.mk 25 39 27 26,
       uint4.mk 43 42 4294967295 27, uint4.mk 27 43 29 28, uint4.mk 36 37 4294967295 29,
       uint4.mk 40 35 4294967295 30, uint4.mk 4294967295 47 46 35, uint4.mk 4294967295 41 40 31,
       uint4.mk 44 31 4294967295 32, uint4.mk 48 4294967295 38 36, uint4.mk 49 50 48 38,
       uint4.mk 4294967295 45 44 33, uint4.mk 46 33 4294967295 34, uint4.mk 50 4294967295 42 39,
       uint4.mk 51 52 50 42, uint4.mk 52 4294967295 37 43, uint4.mk 53 48 52 37,
       uint4.mk 47 54 41 40, uint4.mk 57 56 4294967295 41, uint4.mk 41 57 45 44,
       uint4.mk 61 60 4294967295 45, uint4.mk 45 61 47 46, uint4.mk 54 55 4294967295 47,
       uint4.mk 58 53 4294967295 48, uint4.mk 4294967295 65 64 53, uint4.mk 4294967295 59 58 49,
       uint4.mk 62 49 4294967295 50, uint4.mk 66 4294967295 56 54, uint4.mk 67 68 66 56,
       uint4.mk 4294967295 63 62 51, uint4.mk 64 51 4294967295 52, uint4.mk 68 4294967295 60 57,
       uint4.mk 69 70 68 60, uint4.mk 70 4294967295 55 61, uint4.mk 71 66 70 55,
       uint4.mk 65 72 59 58, uint4.mk 75 74 4294967295 59, uint4.mk 59 75 63 62,
       uint4.mk 79 78 4294967295 63, uint4.mk 63 79 65 64, uint4.mk 72 73 4294967295 65,
       uint4.mk 76 71 4294967295 66, uint4.mk 71 0 4294967295 21, uint4.mk 4294967295 77 76 67,
       uint4.mk 80 67 4294967295 68, uint4.mk 0 4294967295 74 72, uint4.mk 74 4294967295 0 7,
       uint4.mk 4294967295 81 80 69, uint4.mk 21 69 4294967295 70, uint4.mk 7 4294967295 78 75,
       uint4.mk 78 4294967295 7 21],
    basePoints := g_CubeType0Vertices,
    baseTypes := List.replicate 24 0,
    tetraCacheArray := List.replicate 82 default,
    modifArray :=
      [2, 0, 0, 2, 0, 0, 2, 2, 0, 0, 0, 0, 0, 0, 0, 0, 0, 0, 0, 0, 2, 2, 0, 0, 2, 2, 2, 2, 2, 2, 2,
       2, 2, 2, 2, 2, 2, 2, 2, 2, 2, 2, 2, 2, 2, 2, 2, 2, 2, 2, 2, 2, 2, 2, 2, 2, 2, 2, 2, 2, 2, 2,
       2, 2, 2, 2, 2, 2, 2, 2, 2, 2, 2, 2, 2, 2, 2, 2, 2, 2, 2, 2],
    depthArray := List.replicate 82 0,
    diamonds :=
      [Diamond.mk [64, 77, 78, 105, 106, 71] 6, Diamond.mk [128, 143, 128, 128] 4,
       Diamond.mk [155, 156, 155, 155] 4, Diamond.mk [211, 212, 211, 211] 4,
       Diamond.mk [512, 623, 624, 847, 848, 575] 6, Diamond.mk [1024, 1151, 1024, 1024] 4,
       Diamond.mk [1247, 1248, 1247, 1247] 4, Diamond.mk [1695, 1696, 1695, 1695] 4,
       Diamond.mk [4096, 4991, 4992, 6783, 6784, 4607] 6, Diamond.mk [8192, 9215, 8192, 8192] 4,
       Diamond.mk [9983, 9984, 9983, 9983] 4, Diamond.mk [13567, 13568, 13567, 13567] 4] }

/-- The mesh after 24 diamond splits along the calls `recursive_split_element(volume, 0)` on
the root mesh, in the course of the call 11, spelled out: 84 elements. -/
def chainStep24 : LEBVolume :=
  { totalNumElements := 84, minimalDepth := 5,
    heapIDArray :=
      [32768, 33, 34, 70, 36, 37, 76, 39936, 40, 41, 42, 43, 44, 45, 46, 47, 48, 49, 50, 51, 104,
       54272, 54, 55, 65, 154, 79, 210, 107, 142, 129, 310, 157, 422, 213, 286, 257, 574, 622, 313,
       513, 1246, 846, 425, 625, 1694, 849, 1150, 1025, 2494, 1249, 3390, 1697, 2302, 2049, 4606,
       4990, 2497, 4097, 9982, 6782, 3393, 4993, 13566, 6785, 9214, 8193, 19966, 9985, 27134,
       13569, 18430, 16385, 36862, 39934, 19969, 32769, 39935, 54270, 27137, 39937, 54271, 54273,
       36863],
    typeArray :=
      [1, 0, 0, 1, 0, 0, 1, 1, 0, 0, 0, 0, 0, 0, 0, 0, 0, 0, 0, 0, 1, 1, 0, 0, 2, 3, 2, 3, 2, 3, 3,
       0, 3, 0, 3, 0, 0, 1, 1, 0, 2, 3, 1, 0, 2, 3, 2, 3, 3, 0, 3, 0, 3, 0, 0, 1, 1, 0, 2, 3, 1, 0,
       2, 3, 2, 3, 3, 0, 3, 0, 3, 0, 0, 1, 1, 0, 2, 2, 1, 0, 2, 2, 2, 2],
    neighborsArray :=
      [uint4.mk 4294967295 76 77 83, uint4.mk 24 2 4294967295 19, uint4.mk 1 3 4294967295 12,
       uint4.mk 4294967295 29 28 2, uint4.mk 26 5 4294967295 10, uint4.mk 4 6 4294967295 16,
       uint4.mk 4294967295 25 24 5, uint4.mk 4294967295 80 81 77, uint4.mk 11 9 4294967295 14,
       uint4.mk 8 10 4294967295 17, uint4.mk 9 11 4294967295 4, uint4.mk 10 8 4294967295 23,
       uint4.mk 15 13 4294967295 2, uint4.mk 12 14 4294967295 18, uint4.mk 13 15 4294967295 8,
       uint4.mk 14 12 4294967295 22, uint4.mk 19 17 4294967295 5, uint4.mk 16 18 4294967295 9,
       uint4.mk 17 19 4294967295 13, uint4.mk 18 16 4294967295 1, uint4.mk 4294967295 27 26 23,
       uint4.mk 4294967295 82 83 81, uint4.mk 28 23 4294967295 15, uint4.mk 22 20 4294967295 11,
       uint4.mk 30 4294967295 6 1, uint4.mk 31 32 30 6, uint4.mk 32 4294967295 20 4,
       uint4.mk 33 34 32 20, uint4.mk 34 4294967295 3 22, uint4.mk 35 30 34 3,
       uint4.mk 29 36 25 24, uint4.mk 39 38 4294967295 25, uint4.mk 25 39 27 26,
       uint4.mk 43 42 4294967295 27, uint4.mk 27 43 29 28, uint4.mk 36 37 4294967295 29,
       uint4.mk 40 35 4294967295 30, uint4.mk 4294967295 47 46 35, uint4.mk 4294967295 41 40 31,
       uint4.mk 44 31 4294967295 32, uint4.mk 48 4294967295 38 36, uint4.mk 49 50 48 38,
       uint4.mk 4294967295 45 44 33, uint4.mk 46 33 4294967295 34, uint4.mk 50 4294967295 42 39,
       uint4.mk 51 52 50 42, uint4.mk 52 4294967295 37 43, uint4.mk 53 48 52 37,
       uint4.mk 47 54 41 40, uint4.mk 57 56 4294967295 41, uint4.mk 41 57 45 44,
       uint4.mk 61 60 4294967295 45, uint4.mk 45 61 47 46, uint4.mk 54 55 4294967295 47,
       uint4.mk 58 53 4294967295 48, uint4.mk 4294967295 65 64 53, uint4.mk 4294967295 59 58 49,
       uint4.mk 62 49 4294967295 50, uint4.mk 66 4294967295 56 54, uint4.mk 67 68 66 56,
       uint4.mk 4294967295 63 62 51, uint4.mk 64 51 4294967295 52, uint4.mk 68 4294967295 60 57,
       uint4.mk 69 70 68 60, uint4.mk 70 4294967295 55 61, uint4.mk 71 66 70 55,
       uint4.mk 65 72 59 58, uint4.mk 75 74 4294967295 59, uint4.mk 59 75 63 62,
       uint4.mk 79 78 4294967295 63, uint4.mk 63 79 65 64, uint4.mk 72 73 4294967295 65,
       uint4.mk 76 71 4294967295 66, uint4.mk 4294967295 83 82 71, uint4.mk 4294967295 77 76 67,
       uint4.mk 80 67 4294967295 68, uint4.mk 0 4294967295 74 72, uint4.mk 74 4294967295 0 7,
       uint4.mk 4294967295 81 80 69, uint4.mk 82 69 4294967295 70, uint4.mk 7 4294967295 78 75,
       uint4.mk 78 4294967295 7 21, uint4.mk 21 4294967295 73 79, uint4.mk 73 4294967295 21 0],
    basePoints := g_CubeType0Vertices,
    baseTypes := List.replicate 24 0,
    tetraCacheArray := List.replicate 84 default,
    modifArray :=
      [2, 0, 0, 2, 0, 0, 2, 2, 0, 0, 0, 0, 0, 0, 0, 0, 0, 0, 0, 0, 2, 2, 0, 0, 2, 2, 2, 2, 2, 2, 2,
       2, 2, 2, 2, 2, 2, 2, 2, 2, 2, 2, 2, 2, 2, 2, 2, 2, 2, 2, 2, 2, 2, 2, 2, 2, 2, 2, 2, 2, 2, 2,
       2, 2, 2, 2, 2, 2, 2, 2, 2, 2, 2, 2, 2, 2, 2, 2, 2, 2, 2, 2, 2, 2],
    depthArray := List.replicate 84 0,
    diamonds :=
      [Diamond.mk [64, 77, 78, 105, 106, 71] 6, Diamond.mk [128, 143, 128, 128] 4,
       Diamond.mk [155, 156, 155, 155] 4, Diamond.mk [211, 212, 211, 211] 4,
       Diamond.mk [512, 623, 624, 847, 848, 575] 6, Diamond.mk [1024, 1151, 1024, 1024] 4,
       Diamond.mk [1247, 1248, 1247, 1247] 4, Diamond.mk [1695, 1696, 1695, 1695] 4,
       Diamond.mk [4096, 4991, 4992, 6783, 6784, 4607] 6, Diamond.mk [8192, 9215, 8192, 8192] 4,
       Diamond.mk [9983, 9984, 9983, 9983] 4, Diamond.mk [13567, 13568, 13567, 13567] 4] }

/-- The mesh after eleven calls `recursive_split_element(volume, 0)` on the root mesh,
spelled out: 90 elements. -/
def chainVolume11 : LEBVolume :=
  { totalNumElements := 90, minimalDepth := 5,
    heapIDArray :=
      [65536, 33, 34, 70, 36, 37, 76, 79872, 40, 41, 42, 43, 44, 45, 46, 47, 48, 49, 50, 51, 104,
       108544, 54, 55, 65, 154, 79, 210, 107, 142, 129, 310, 157, 422, 213, 286, 257, 574, 622,
       313, 513, 1246, 846, 425, 625, 1694, 849, 1150, 1025, 2494, 1249, 3390, 1697, 2302, 2049,
       4606, 4990, 2497, 4097, 9982, 6782, 3393, 4993, 13566, 6785, 9214, 8193, 19966, 9985, 27134,
       13569, 18430, 16385, 36862, 39934, 19969, 32769, 79870, 54270, 27137, 39937, 108542, 54273,
       73726, 65537, 79871, 79873, 108543, 108545, 73727],
    typeArray :=
      [3, 0, 0, 1, 0, 0, 1, 3, 0, 0, 0, 0, 0, 0, 0, 0, 0, 0, 0, 0, 1, 3, 0, 0, 2, 3, 2, 3, 2, 3, 3,
       0, 3, 0, 3, 0, 0, 1, 1, 0, 2, 3, 1, 0, 2, 3, 2, 3, 3, 0, 3, 0, 3, 0, 0, 1, 1, 0, 2, 3, 1, 0,
       2, 3, 2, 3, 3, 0, 3, 0, 3, 0, 0, 1, 1, 0, 2, 3, 1, 0, 2, 3, 2, 3, 3, 3, 3, 3, 3, 3],
    neighborsArray :=
      [uint4.mk 85 84 89 4294967295, uint4.mk 24 2 4294967295 19, uint4.mk 1 3 4294967295 12,
       uint4.mk 4294967295 29 28 2, uint4.mk 26 5 4294967295 10, uint4.mk 4 6 4294967295 16,
       uint4.mk 4294967295 25 24 5, uint4.mk 87 86 85 4294967295, uint4.mk 11 9 4294967295 14,
       uint4.mk 8 10 4294967295 17, uint4.mk 9 11 4294967295 4, uint4.mk 10 8 4294967295 23,
       uint4.mk 15 13 4294967295 2, uint4.mk 12 14 4294967295 18, uint4.mk 13 15 4294967295 8,
       uint4.mk 14 12 4294967295 22, uint4.mk 19 17 4294967295 5, uint4.mk 16 18 4294967295 9,
       uint4.mk 17 19 4294967295 13, uint4.mk 18 16 4294967295 1, uint4.mk 4294967295 27 26 23,
       uint4.mk 89 88 87 4294967295, uint4.mk 28 23 4294967295 15, uint4.mk 22 20 4294967295 11,
       uint4.mk 30 4294967295 6 1, uint4.mk 31 32 30 6, uint4.mk 32 4294967295 20 4,
       uint4.mk 33 34 32 20, uint4.mk 34 4294967295 3 22, uint4.mk 35 30 34 3,
       uint4.mk 29 36 25 24, uint4.mk 39 38 4294967295 25, uint4.mk 25 39 27 26,
       uint4.mk 43 42 4294967295 27, uint4.mk 27 43 29 28, uint4.mk 36 37 4294967295 29,
       uint4.mk 40 35 4294967295 30, uint4.mk 4294967295 47 46 35, uint4.mk 4294967295 41 40 31,
       uint4.mk 44 31 4294967295 32, uint4.mk 48 4294967295 38 36, uint4.mk 49 50 48 38,
       uint4.mk 4294967295 45 44 33, uint4.mk 46 33 4294967295 34, uint4.mk 50 4294967295 42 39,
       uint4.mk 51 52 50 42, uint4.mk 52 4294967295 37 43, uint4.mk 53 48 52 37,
       uint4.mk 47 54 41 40, uint4.mk 57 56 4294967295 41, uint4.mk 41 57 45 44,
       uint4.mk 61 60 4294967295 45, uint4.mk 45 61 47 46, uint4.mk 54 55 4294967295 47,
       uint4.mk 58 53 4294967295 48, uint4.mk 4294967295 65 64 53, uint4.mk 4294967295 59 58 49,
       uint4.mk 62 49 4294967295 50, uint4.mk 66 4294967295 56 54, uint4.mk 67 68 66 56,
       uint4.mk 4294967295 63 62 51, uint4.mk 64 51 4294967295 52, uint4.mk 68 4294967295 60 57,
       uint4.mk 69 70 68 60, uint4.mk 70 4294967295 55 61, uint4.mk 71 66 70 55,
       uint4.mk 65 72 59 58, uint4.mk 75 74 4294967295 59, uint4.mk 59 75 63 62,
       uint4.mk 79 78 4294967295 63, uint4.mk 63 79 65 64, uint4.mk 72 73 4294967295 65,
       uint4.mk 76 71 4294967295 66, uint4.mk 4294967295 83 82 71, uint4.mk 4294967295 77 76 67,
       uint4.mk 80 67 4294967295 68, uint4.mk 84 4294967295 74 72, uint4.mk 85 86 84 74,
       uint4.mk 4294967295 81 80 69, uint4.mk 82 69 4294967295 70, uint4.mk 86 4294967295 78 75,
       uint4.mk 87 88 86 78, uint4.mk 88 4294967295 73 79, uint4.mk 89 84 88 73,
       uint4.mk 83 0 77 76, uint4.mk 77 0 7 4294967295, uint4.mk 77 7 81 80,
       uint4.mk 81 7 21 4294967295, uint4.mk 81 21 83 82, uint4.mk 83 21 0 4294967295],
    basePoints := g_CubeType0Vertices,
    baseTypes := List.replicate 24 0,
    tetraCacheArray := List.replicate 90 default,
    modifArray :=
      [2, 0, 0, 2, 0, 0, 2, 2, 0, 0, 0, 0, 0, 0, 0, 0, 0, 0, 0, 0, 2, 2, 0, 0, 2, 2, 2, 2, 2, 2, 2,
       2, 2, 2, 2, 2, 2, 2, 2, 2, 2, 2, 2, 2, 2, 2, 2, 2, 2, 2, 2, 2, 2, 2, 2, 2, 2, 2, 2, 2, 2, 2,
       2, 2, 2, 2, 2, 2, 2, 2, 2, 2, 2, 2, 2, 2, 2, 2, 2, 2, 2, 2, 2, 2, 2, 2, 2, 2, 2, 2],
    depthArray := List.replicate 90 0,
    diamonds :=
      [Diamond.mk [64, 77, 78, 105, 106, 71] 6, Diamond.mk [128, 143, 128, 128] 4,
       Diamond.mk [155, 156, 155, 155] 4, Diamond.mk [211, 212, 211, 211] 4,
       Diamond.mk [512, 623, 624, 847, 848, 575] 6, Diamond.mk [1024, 1151, 1024, 1024] 4,
       Diamond.mk [1247, 1248, 1247, 1247] 4, Diamond.mk [1695, 1696, 1695, 1695] 4,
       Diamond.mk [4096, 4991, 4992, 6783, 6784, 4607] 6, Diamond.mk [8192, 9215, 8192, 8192] 4,
       Diamond.mk [9983, 9984, 9983, 9983] 4, Diamond.mk [13567, 13568, 13567, 13567] 4,
       Diamond.mk [32768, 39935, 39936, 54271, 54272, 36863] 6] }

/-- The mesh after thirteen calls `recursive_split_element(volume, 0)` on the root mesh,
spelled out: 96 elements. -/
def chainVolume13 : LEBVolume :=
  { totalNumElements := 96, minimalDepth := 5,
    heapIDArray :=
      [262144, 33, 34, 70, 36, 37, 76, 159744, 40, 41, 42, 43, 44, 45, 46, 47, 48, 49, 50, 51, 104,
       108544, 54, 55, 65, 154, 79, 210, 107, 142, 129, 310, 157, 422, 213, 286, 257, 574, 622,
       313, 513, 1246, 846, 425, 625, 1694, 849, 1150, 1025, 2494, 1249, 3390, 1697, 2302, 2049,
       4606, 4990, 2497, 4097, 9982, 6782, 3393, 4993, 13566, 6785, 9214, 8193, 19966, 9985, 27134,
       13569, 18430, 16385, 36862, 39934, 19969, 32769, 79870, 54270, 27137, 39937, 108542, 54273,
       73726, 65537, 159742, 79873, 108543, 108545, 147454, 131073, 147455, 319486, 159745, 262145,
       319487],
    typeArray :=
      [1, 0, 0, 1, 0, 0, 1, 0, 0, 0, 0, 0, 0, 0, 0, 0, 0, 0, 0, 0, 1, 3, 0, 0, 2, 3, 2, 3, 2, 3, 3,
       0, 3, 0, 3, 0, 0, 1, 1, 0, 2, 3, 1, 0, 2, 3, 2, 3, 3, 0, 3, 0, 3, 0, 0, 1, 1, 0, 2, 3, 1, 0,
       2, 3, 2, 3, 3, 0, 3, 0, 3, 0, 0, 1, 1, 0, 2, 3, 1, 0, 2, 3, 2, 3, 3, 0, 3, 3, 3, 0, 0, 0, 1,
       0, 2, 2],
    neighborsArray :=
      [uint4.mk 4294967295 94 95 91, uint4.mk 24 2 4294967295 19, uint4.mk 1 3 4294967295 12,
       uint4.mk 4294967295 29 28 2, uint4.mk 26 5 4294967295 10, uint4.mk 4 6 4294967295 16,
       uint4.mk 4294967295 25 24 5, uint4.mk 95 93 4294967295 87, uint4.mk 11 9 4294967295 14,
       uint4.mk 8 10 4294967295 17, uint4.mk 9 11 4294967295 4, uint4.mk 10 8 4294967295 23,
       uint4.mk 15 13 4294967295 2, uint4.mk 12 14 4294967295 18, uint4.mk 13 15 4294967295 8,
       uint4.mk 14 12 4294967295 22, uint4.mk 19 17 4294967295 5, uint4.mk 16 18 4294967295 9,
       uint4.mk 17 19 4294967295 13, uint4.mk 18 16 4294967295 1, uint4.mk 4294967295 27 26 23,
       uint4.mk 91 88 87 4294967295, uint4.mk 28 23 4294967295 15, uint4.mk 22 20 4294967295 11,
       uint4.mk 30 4294967295 6 1, uint4.mk 31 32 30 6, uint4.mk 32 4294967295 20 4,
       uint4.mk 33 34 32 20, uint4.mk 34 4294967295 3 22, uint4.mk 35 30 34 3,
       uint4.mk 29 36 25 24, uint4.mk 39 38 4294967295 25, uint4.mk 25 39 27 26,
       uint4.mk 43 42 4294967295 27, uint4.mk 27 43 29 28, uint4.mk 36 37 4294967295 29,
       uint4.mk 40 35 4294967295 30, uint4.mk 4294967295 47 46 35, uint4.mk 4294967295 41 40 31,
       uint4.mk 44 31 4294967295 32, uint4.mk 48 4294967295 38 36, uint4.mk 49 50 48 38,
       uint4.mk 4294967295 45 44 33, uint4.mk 46 33 4294967295 34, uint4.mk 50 4294967295 42 39,
       uint4.mk 51 52 50 42, uint4.mk 52 4294967295 37 43, uint4.mk 53 48 52 37,
       uint4.mk 47 54 41 40, uint4.mk 57 56 4294967295 41, uint4.mk 41 57 45 44,
       uint4.mk 61 60 4294967295 45, uint4.mk 45 61 47 46, uint4.mk 54 55 4294967295 47,
       uint4.mk 58 53 4294967295 48, uint4.mk 4294967295 65 64 53, uint4.mk 4294967295 59 58 49,
       uint4.mk 62 49 4294967295 50, uint4.mk 66 4294967295 56 54, uint4.mk 67 68 66 56,
       uint4.mk 4294967295 63 62 51, uint4.mk 64 51 4294967295 52, uint4.mk 68 4294967295 60 57,
       uint4.mk 69 70 68 60, uint4.mk 70 4294967295 55 61, uint4.mk 71 66 70 55,
       uint4.mk 65 72 59 58, uint4.mk 75 74 4294967295 59, uint4.mk 59 75 63 62,
       uint4.mk 79 78 4294967295 63, uint4.mk 63 79 65 64, uint4.mk 72 73 4294967295 65,
       uint4.mk 76 71 4294967295 66, uint4.mk 4294967295 83 82 71, uint4.mk 4294967295 77 76 67,
       uint4.mk 80 67 4294967295 68, uint4.mk 84 4294967295 74 72, uint4.mk 85 86 84 74,
       uint4.mk 4294967295 81 80 69, uint4.mk 82 69 4294967295 70, uint4.mk 86 4294967295 78 75,
       uint4.mk 87 88 86 78, uint4.mk 88 4294967295 73 79, uint4.mk 89 84 88 73,
       uint4.mk 83 90 77 76, uint4.mk 93 92 4294967295 77, uint4.mk 77 93 81 80,
       uint4.mk 81 7 21 4294967295, uint4.mk 81 21 83 82, uint4.mk 90 91 4294967295 83,
       uint4.mk 94 89 4294967295 84, uint4.mk 89 0 4294967295 21, uint4.mk 4294967295 95 94 85,
       uint4.mk 7 85 4294967295 86, uint4.mk 0 4294967295 92 90, uint4.mk 92 4294967295 0 7],
    basePoints := g_CubeType0Vertices,
    baseTypes := List.replicate 24 0,
    tetraCacheArray := List.replicate 96 default,
    modifArray :=
      [2, 0, 0, 2, 0, 0, 2, 2, 0, 0, 0, 0, 0, 0, 0, 0, 0, 0, 0, 0, 2, 2, 0, 0, 2, 2, 2, 2, 2, 2, 2,
       2, 2, 2, 2, 2, 2, 2, 2, 2, 2, 2, 2, 2, 2, 2, 2, 2, 2, 2, 2, 2, 2, 2, 2, 2, 2, 2, 2, 2, 2, 2,
       2, 2, 2, 2, 2, 2, 2, 2, 2, 2, 2, 2, 2, 2, 2, 2, 2, 2, 2, 2, 2, 2, 2, 2, 2, 2, 2, 2, 2, 2, 2,
       2, 2, 2],
    depthArray := List.replicate 96 0,
    diamonds :=
      [Diamond.mk [64, 77, 78, 105, 106, 71] 6, Diamond.mk [128, 143, 128, 128] 4,
       Diamond.mk [155, 156, 155, 155] 4, Diamond.mk [211, 212, 211, 211] 4,
       Diamond.mk [512, 623, 624, 847, 848, 575] 6, Diamond.mk [1024, 1151, 1024, 1024] 4,
       Diamond.mk [1247, 1248, 1247, 1247] 4, Diamond.mk [1695, 1696, 1695, 1695] 4,
       Diamond.mk [4096, 4991, 4992, 6783, 6784, 4607] 6, Diamond.mk [8192, 9215, 8192, 8192] 4,
       Diamond.mk [9983, 9984, 9983, 9983] 4, Diamond.mk [13567, 13568, 13567, 13567] 4,
       Diamond.mk [32768, 39935, 39936, 54271, 54272, 36863] 6,
       Diamond.mk [65536, 73727, 65536, 65536] 4, Diamond.mk [79871, 79872, 79871, 79871] 4] }

/-- The mesh after 29 diamond splits along the calls `recursive_split_element(volume, 0)` on
the root mesh, in the course of the call 14, spelled out: 98 elements. -/
def chainStep29 : LEBVolume :=
  { totalNumElements := 98, minimalDepth := 5,
    heapIDArray :=
      [262144, 33, 34, 70, 36, 37, 76, 159744, 40, 41, 42, 43, 44, 45, 46, 47, 48, 49, 50, 51, 104,
       217088, 54, 55, 65, 154, 79, 210, 107, 142, 129, 310, 157, 422, 213, 286, 257, 574, 622,
       313, 513, 1246, 846, 425, 625, 1694, 849, 1150, 1025, 2494, 1249, 3390, 1697, 2302, 2049,
       4606, 4990, 2497, 4097, 9982, 6782, 3393, 4993, 13566, 6785, 9214, 8193, 19966, 9985, 27134,
       13569, 18430, 16385, 36862, 39934, 19969, 32769, 79870, 54270, 27137, 39937, 108542, 54273,
       73726, 65537, 159742, 79873, 217086, 108545, 147454, 131073, 147455, 319486, 159745, 262145,
       319487, 217087, 217089],
    typeArray :=
      [1, 0, 0, 1, 0, 0, 1, 0, 0, 0, 0, 0, 0, 0, 0, 0, 0, 0, 0, 0, 1, 0, 0, 0, 2, 3, 2, 3, 2, 3, 3,
       0, 3, 0, 3, 0, 0, 1, 1, 0, 2, 3, 1, 0, 2, 3, 2, 3, 3, 0, 3, 0, 3, 0, 0, 1, 1, 0, 2, 3, 1, 0,
       2, 3, 2, 3, 3, 0, 3, 0, 3, 0, 0, 1, 1, 0, 2, 3, 1, 0, 2, 3, 2, 3, 3, 0, 3, 0, 3, 0, 0, 0, 1,
       0, 2, 2, 0, 0],
    neighborsArray :=
      [uint4.mk 4294967295 94 95 91, uint4.mk 24 2 4294967295 19, uint4.mk 1 3 4294967295 12,
       uint4.mk 4294967295 29 28 2, uint4.mk 26 5 4294967295 10, uint4.mk 4 6 4294967295 16,
       uint4.mk 4294967295 25 24 5, uint4.mk 95 93 4294967295 96, uint4.mk 11 9 4294967295 14,
       uint4.mk 8 10 4294967295 17, uint4.mk 9 11 4294967295 4, uint4.mk 10 8 4294967295 23,
       uint4.mk 15 13 4294967295 2, uint4.mk 12 14 4294967295 18, uint4.mk 13 15 4294967295 8,
       uint4.mk 14 12 4294967295 22, uint4.mk 19 17 4294967295 5, uint4.mk 16 18 4294967295 9,
       uint4.mk 17 19 4294967295 13, uint4.mk 18 16 4294967295 1, uint4.mk 4294967295 27 26 23,
       uint4.mk 96 97 4294967295 91, uint4.mk 28 23 4294967295 15, uint4.mk 22 20 4294967295 11,
       uint4.mk 30 4294967295 6 1, uint4.mk 31 32 30 6, uint4.mk 32 4294967295 20 4,
       uint4.mk 33 34 32 20, uint4.mk 34 4294967295 3 22, uint4.mk 35 30 34 3,
       uint4.mk 29 36 25 24, uint4.mk 39 38 4294967295 25, uint4.mk 25 39 27 26,
       uint4.mk 43 42 4294967295 27, uint4.mk 27 43 29 28, uint4.mk 36 37 4294967295 29,
       uint4.mk 40 35 4294967295 30, uint4.mk 4294967295 47 46 35, uint4.mk 4294967295 41 40 31,
       uint4.mk 44 31 4294967295 32, uint4.mk 48 4294967295 38 36, uint4.mk 49 50 48 38,
       uint4.mk 4294967295 45 44 33, uint4.mk 46 33 4294967295 34, uint4.mk 50 4294967295 42 39,
       uint4.mk 51 52 50 42, uint4.mk 52 4294967295 37 43, uint4.mk 53 48 52 37,
       uint4.mk 47 54 41 40, uint4.mk 57 56 4294967295 41, uint4.mk 41 57 45 44,
       uint4.mk 61 60 4294967295 45, uint4.mk 45 61 47 46, uint4.mk 54 55 4294967295 47,
       uint4.mk 58 53 4294967295 48, uint4.mk 4294967295 65 64 53, uint4.mk 4294967295 59 58 49,
       uint4.mk 62 49 4294967295 50, uint4.mk 66 4294967295 56 54, uint4.mk 67 68 66 56,
       uint4.mk 4294967295 63 62 51, uint4.mk 64 51 4294967295 52, uint4.mk 68 4294967295 60 57,
       uint4.mk 69 70 68 60, uint4.mk 70 4294967295 55 61, uint4.mk 71 66 70 55,
       uint4.mk 65 72 59 58, uint4.mk 75 74 4294967295 59, uint4.mk 59 75 63 62,
       uint4.mk 79 78 4294967295 63, uint4.mk 63 79 65 64, uint4.mk 72 73 4294967295 65,
       uint4.mk 76 71 4294967295 66, uint4.mk 4294967295 83 82 71, uint4.mk 4294967295 77 76 67,
       uint4.mk 80 67 4294967295 68, uint4.mk 84 4294967295 74 72, uint4.mk 85 86 84 74,
       uint4.mk 4294967295 81 80 69, uint4.mk 82 69 4294967295 70, uint4.mk 86 4294967295 78 75,
       uint4.mk 87 88 86 78, uint4.mk 88 4294967295 73 79, uint4.mk 89 84 88 73,
       uint4.mk 83 90 77 76, uint4.mk 93 92 4294967295 77, uint4.mk 77 93 81 80,
       uint4.mk 97 96 4294967295 81, uint4.mk 81 97 83 82, uint4.mk 90 91 4294967295 83,
       uint4.mk 94 89 4294967295 84, uint4.mk 89 0 4294967295 21, uint4.mk 4294967295 95 94 85,
       uint4.mk 7 85 4294967295 86, uint4.mk 0 4294967295 92 90, uint4.mk 92 4294967295 0 7,
       uint4.mk 87 21 4294967295 7, uint4.mk 21 87 4294967295 88],
    basePoints := g_CubeType0Vertices,
    baseTypes := List.replicate 24 0,
    tetraCacheArray := List.replicate 98 default,
    modifArray :=
      [2, 0, 0, 2, 0, 0, 2, 2, 0, 0, 0, 0, 0, 0, 0, 0, 0, 0, 0, 0, 2, 2, 0, 0, 2, 2, 2, 2, 2, 2, 2,
       2, 2, 2, 2, 2, 2, 2, 2, 2, 2, 2, 2, 2, 2, 2, 2, 2, 2, 2, 2, 2, 2, 2, 2, 2, 2, 2, 2, 2, 2, 2,
       2, 2, 2, 2, 2, 2, 2, 2, 2, 2, 2, 2, 2, 2, 2, 2, 2, 2, 2, 2, 2, 2, 2, 2, 2, 2, 2, 2, 2, 2, 2,
       2, 2, 2, 2, 2],
    depthArray := List.replicate 98 0,
    diamonds :=
      [Diamond.mk [64, 77, 78, 105, 106, 71] 6, Diamond.mk [128, 143, 128, 128] 4,
       Diamond.mk [155, 156, 155, 155] 4, Diamond.mk [211, 212, 211, 211] 4,
       Diamond.mk [512, 623, 624, 847, 848, 575] 6, Diamond.mk [1024, 1151, 1024, 1024] 4,
       Diamond.mk [1247, 1248, 1247, 1247] 4, Diamond.mk [1695, 1696, 1695, 1695] 4,
       Diamond.mk [4096, 4991, 4992, 6783, 6784, 4607] 6, Diamond.mk [8192, 9215, 8192, 8192] 4,
       Diamond.mk [9983, 9984, 9983, 9983] 4, Diamond.mk [13567, 13568, 13567, 13567] 4,
       Diamond.mk [32768, 39935, 39936, 54271, 54272, 36863] 6,
       Diamond.mk [65536, 73727, 65536, 65536] 4, Diamond.mk [79871, 79872, 79871, 79871] 4,
       Diamond.mk [108543, 108544, 108543, 108543] 4] }

/-- The mesh after 30 diamond splits along the calls `recursive_split_element(volume, 0)` on
the root mesh, in the course of the call 14, spelled out: 100 elements. -/
def chainStep30 : LEBVolume :=
  { totalNumElements := 100, minimalDepth := 5,
    heapIDArray :=
      [262144, 33, 34, 70, 36, 37, 76, 319488, 40, 41, 42, 43, 44, 45, 46, 47, 48, 49, 50, 51, 104,
       217088, 54, 55, 65, 154, 79, 210, 107, 142, 129, 310, 157, 422, 213, 286, 257, 574, 622,
       313, 513, 1246, 846, 425, 625, 1694, 849, 1150, 1025, 2494, 1249, 3390, 1697, 2302, 2049,
       4606, 4990, 2497, 4097, 9982, 6782, 3393, 4993, 13566, 6785, 9214, 8193, 19966, 9985, 27134,
       13569, 18430, 16385, 36862, 39934, 19969, 32769, 79870, 54270, 27137, 39937, 108542, 54273,
       73726, 65537, 159742, 79873, 217086, 108545, 147454, 131073, 147455, 319486, 159745, 262145,
       319487, 434174, 217089, 319489, 434175],
    typeArray :=
      [1, 0, 0, 1, 0, 0, 1, 1, 0, 0, 0, 0, 0, 0, 0, 0, 0, 0, 0, 0, 1, 0, 0, 0, 2, 3, 2, 3, 2, 3, 3,
       0, 3, 0, 3, 0, 0, 1, 1, 0, 2, 3, 1, 0, 2, 3, 2, 3, 3, 0, 3, 0, 3, 0, 0, 1, 1, 0, 2, 3, 1, 0,
       2, 3, 2, 3, 3, 0, 3, 0, 3, 0, 0, 1, 1, 0, 2, 3, 1, 0, 2, 3, 2, 3, 3, 0, 3, 0, 3, 0, 0, 0, 1,
       0, 2, 2, 1, 0, 2, 2],
    neighborsArray :=
      [uint4.mk 4294967295 94 95 91, uint4.mk 24 2 4294967295 19, uint4.mk 1 3 4294967295 12,
       uint4.mk 4294967295 29 28 2, uint4.mk 26 5 4294967295 10, uint4.mk 4 6 4294967295 16,
       uint4.mk 4294967295 25 24 5, uint4.mk 4294967295 98 99 95, uint4.mk 11 9 4294967295 14,
       uint4.mk 8 10 4294967295 17, uint4.mk 9 11 4294967295 4, uint4.mk 10 8 4294967295 23,
       uint4.mk 15 13 4294967295 2, uint4.mk 12 14 4294967295 18, uint4.mk 13 15 4294967295 8,
       uint4.mk 14 12 4294967295 22, uint4.mk 19 17 4294967295 5, uint4.mk 16 18 4294967295 9,
       uint4.mk 17 19 4294967295 13, uint4.mk 18 16 4294967295 1, uint4.mk 4294967295 27 26 23,
       uint4.mk 99 97 4294967295 91, uint4.mk 28 23 4294967295 15, uint4.mk 22 20 4294967295 11,
       uint4.mk 30 4294967295 6 1, uint4.mk 31 32 30 6, uint4.mk 32 4294967295 20 4,
       uint4.mk 33 34 32 20, uint4.mk 34 4294967295 3 22, uint4.mk 35 30 34 3,
       uint4.mk 29 36 25 24, uint4.mk 39 38 4294967295 25, uint4.mk 25 39 27 26,
       uint4.mk 43 42 4294967295 27, uint4.mk 27 43 29 28, uint4.mk 36 37 4294967295 29,
       uint4.mk 40 35 4294967295 30, uint4.mk 4294967295 47 46 35, uint4.mk 4294967295 41 40 31,
       uint4.mk 44 31 4294967295 32, uint4.mk 48 4294967295 38 36, uint4.mk 49 50 48 38,
       uint4.mk 4294967295 45 44 33, uint4.mk 46 33 4294967295 34, uint4.mk 50 4294967295 42 39,
       uint4.mk 51 52 50 42, uint4.mk 52 4294967295 37 43, uint4.mk 53 48 52 37,
       uint4.mk 47 54 41 40, uint4.mk 57 56 4294967295 41, uint4.mk 41 57 45 44,
       uint4.mk 61 60 4294967295 45, uint4.mk 45 61 47 46, uint4.mk 54 55 4294967295 47,
       uint4.mk 58 53 4294967295 48, uint4.mk 4294967295 65 64 53, uint4.mk 4294967295 59 58 49,
       uint4.mk 62 49 4294967295 50, uint4.mk 66 4294967295 56 54, uint4.mk 67 68 66 56,
       uint4.mk 4294967295 63 62 51, uint4.mk 64 51 4294967295 52, uint4.mk 68 4294967295 60 57,
       uint4.mk 69 70 68 60, uint4.mk 70 4294967295 55 61, uint4.mk 71 66 70 55,
       uint4.mk 65 72 59 58, uint4.mk 75 74 4294967295 59, uint4.mk 59 75 63 62,
       uint4.mk 79 78 4294967295 63, uint4.mk 63 79 65 64, uint4.mk 72 73 4294967295 65,
       uint4.mk 76 71 4294967295 66, uint4.mk 4294967295 83 82 71, uint4.mk 4294967295 77 76 67,
       uint4.mk 80 67 4294967295 68, uint4.mk 84 4294967295 74 72, uint4.mk 85 86 84 74,
       uint4.mk 4294967295 81 80 69, uint4.mk 82 69 4294967295 70, uint4.mk 86 4294967295 78 75,
       uint4.mk 87 88 86 78, uint4.mk 88 4294967295 73 79, uint4.mk 89 84 88 73,
       uint4.mk 83 90 77 76, uint4.mk 93 92 4294967295 77, uint4.mk 77 93 81 80,
       uint4.mk 97 96 4294967295 81, uint4.mk 81 97 83 82, uint4.mk 90 91 4294967295 83,
       uint4.mk 94 89 4294967295 84, uint4.mk 89 0 4294967295 21, uint4.mk 4294967295 95 94 85,
       uint4.mk 98 85 4294967295 86, uint4.mk 0 4294967295 92 90, uint4.mk 92 4294967295 0 7,
       uint4.mk 4294967295 99 98 87, uint4.mk 21 87 4294967295 88, uint4.mk 7 4294967295 96 93,
       uint4.mk 96 4294967295 7 21],
    basePoints := g_CubeType0Vertices,
    baseTypes := List.replicate 24 0,
    tetraCacheArray := List.replicate 100 default,
    modifArray :=
      [2, 0, 0, 2, 0, 0, 2, 2, 0, 0, 0, 0, 0, 0, 0, 0, 0, 0, 0, 0, 2, 2, 0, 0, 2, 2, 2, 2, 2, 2, 2,
       2, 2, 2, 2, 2, 2, 2, 2, 2, 2, 2, 2, 2, 2, 2, 2, 2, 2, 2, 2, 2, 2, 2, 2, 2, 2, 2, 2, 2, 2, 2,
       2, 2, 2, 2, 2, 2, 2, 2, 2, 2, 2, 2, 2, 2, 2, 2, 2, 2, 2, 2, 2, 2, 2, 2, 2, 2, 2, 2, 2, 2, 2,
       2, 2, 2, 2, 2, 2, 2],
    depthArray := List.replicate 100 0,
    diamonds :=
      [Diamond.mk [64, 77, 78, 105, 106, 71] 6, Diamond.mk [128, 143, 128, 128] 4,
       Diamond.mk [155, 156, 155, 155] 4, Diamond.mk [211, 212, 211, 211] 4,
       Diamond.mk [512, 623, 624, 847, 848, 575] 6, Diamond.mk [1024, 1151, 1024, 1024] 4,
       Diamond.mk [1247, 1248, 1247, 1247] 4, Diamond.mk [1695, 1696, 1695, 1695] 4,
       Diamond.mk [4096, 4991, 4992, 6783, 6784, 4607] 6, Diamond.mk [8192, 9215, 8192, 8192] 4,
       Diamond.mk [9983, 9984, 9983, 9983] 4, Diamond.mk [13567, 13568, 13567, 13567] 4,
       Diamond.mk [32768, 39935, 39936, 54271, 54272, 36863] 6,
       Diamond.mk [65536, 73727, 65536, 65536] 4, Diamond.mk [79871, 79872, 79871, 79871] 4,
       Diamond.mk [108543, 108544, 108543, 108543] 4] }

/-- The mesh after 31 diamond splits along the calls `recursive_split_element(volume, 0)` on
the root mesh, in the course of the call 14, spelled out: 102 elements. -/
def chainStep31 : LEBVolume :=
  { totalNumElements := 102, minimalDepth := 5,
    heapIDArray :=
      [262144, 33, 34, 70, 36, 37, 76, 319488, 40, 41, 42, 43, 44, 45, 46, 47, 48, 49, 50, 51, 104,
       434176, 54, 55, 65, 154, 79, 210, 107, 142, 129, 310, 157, 422, 213, 286, 257, 574, 622,
       313, 513, 1246, 846, 425, 625, 1694, 849, 1150, 1025, 2494, 1249, 3390, 1697, 2302, 2049,
       4606, 4990, 2497, 4097, 9982, 6782, 3393, 4993, 13566, 6785, 9214, 8193, 19966, 9985, 27134,
       13569, 18430, 16385, 36862, 39934, 19969, 32769, 79870, 54270, 27137, 39937, 108542, 54273,
       73726, 65537, 159742, 79873, 217086, 108545, 147454, 131073, 294910, 319486, 159745, 262145,
       319487, 434174, 217089, 319489, 434175, 434177, 294911],
    typeArray :=
      [1, 0, 0, 1, 0, 0, 1, 1, 0, 0, 0, 0, 0, 0, 0, 0, 0, 0, 0, 0, 1, 1, 0, 0, 2, 3, 2, 3, 2, 3, 3,
       0, 3, 0, 3, 0, 0, 1, 1, 0, 2, 3, 1, 0, 2, 3, 2, 3, 3, 0, 3, 0, 3, 0, 0, 1, 1, 0, 2, 3, 1, 0,
       2, 3, 2, 3, 3, 0, 3, 0, 3, 0, 0, 1, 1, 0, 2, 3, 1, 0, 2, 3, 2, 3, 3, 0, 3, 0, 3, 0, 0, 1, 1,
       0, 2, 2, 1, 0, 2, 2, 2, 2],
    neighborsArray :=
      [uint4.mk 4294967295 94 95 101, uint4.mk 24 2 4294967295 19, uint4.mk 1 3 4294967295 12,
       uint4.mk 4294967295 29 28 2, uint4.mk 26 5 4294967295 10, uint4.mk 4 6 4294967295 16,
       uint4.mk 4294967295 25 24 5, uint4.mk 4294967295 98 99 95, uint4.mk 11 9 4294967295 14,
       uint4.mk 8 10 4294967295 17, uint4.mk 9 11 4294967295 4, uint4.mk 10 8 4294967295 23,
       uint4.mk 15 13 4294967295 2, uint4.mk 12 14 4294967295 18, uint4.mk 13 15 4294967295 8,
       uint4.mk 14 12 4294967295 22, uint4.mk 19 17 4294967295 5, uint4.mk 16 18 4294967295 9,
       uint4.mk 17 19 4294967295 13, uint4.mk 18 16 4294967295 1, uint4.mk 4294967295 27 26 23,
       uint4.mk 4294967295 100 101 99, uint4.mk 28 23 4294967295 15, uint4.mk 22 20 4294967295 11,
       uint4.mk 30 4294967295 6 1, uint4.mk 31 32 30 6, uint4.mk 32 4294967295 20 4,
       uint4.mk 33 34 32 20, uint4.mk 34 4294967295 3 22, uint4.mk 35 30 34 3,
       uint4.mk 29 36 25 24, uint4.mk 39 38 4294967295 25, uint4.mk 25 39 27 26,
       uint4.mk 43 42 4294967295 27, uint4.mk 27 43 29 28, uint4.mk 36 37 4294967295 29,
       uint4.mk 40 35 4294967295 30, uint4.mk 4294967295 47 46 35, uint4.mk 4294967295 41 40 31,
       uint4.mk 44 31 4294967295 32, uint4.mk 48 4294967295 38 36, uint4.mk 49 50 48 38,
       uint4.mk 4294967295 45 44 33, uint4.mk 46 33 4294967295 34, uint4.mk 50 4294967295 42 39,
       uint4.mk 51 52 50 42, uint4.mk 52 4294967295 37 43, uint4.mk 53 48 52 37,
       uint4.mk 47 54 41 40, uint4.mk 57 56 4294967295 41, uint4.mk 41 57 45 44,
       uint4.mk 61 60 4294967295 45, uint4.mk 45 61 47 46, uint4.mk 54 55 4294967295 47,
       uint4.mk 58 53 4294967295 48, uint4.mk 4294967295 65 64 53, uint4.mk 4294967295 59 58 49,
       uint4.mk 62 49 4294967295 50, uint4.mk 66 4294967295 56 54, uint4.mk 67 68 66 56,
       uint4.mk 4294967295 63 62 51, uint4.mk 64 51 4294967295 52, uint4.mk 68 4294967295 60 57,
       uint4.mk 69 70 68 60, uint4.mk 70 4294967295 55 61, uint4.mk 71 66 70 55,
       uint4.mk 65 72 59 58, uint4.mk 75 74 4294967295 59, uint4.mk 59 75 63 62,
       uint4.mk 79 78 4294967295 63, uint4.mk 63 79 65 64, uint4.mk 72 73 4294967295 65,
       uint4.mk 76 71 4294967295 66, uint4.mk 4294967295 83 82 71, uint4.mk 4294967295 77 76 67,
       uint4.mk 80 67 4294967295 68, uint4.mk 84 4294967295 74 72, uint4.mk 85 86 84 74,
       uint4.mk 4294967295 81 80 69, uint4.mk 82 69 4294967295 70, uint4.mk 86 4294967295 78 75,
       uint4.mk 87 88 86 78, uint4.mk 88 4294967295 73 79, uint4.mk 89 84 88 73,
       uint4.mk 83 90 77 76, uint4.mk 93 92 4294967295 77, uint4.mk 77 93 81 80,
       uint4.mk 97 96 4294967295 81, uint4.mk 81 97 83 82, uint4.mk 90 91 4294967295 83,
       uint4.mk 94 89 4294967295 84, uint4.mk 4294967295 101 100 89, uint4.mk 4294967295 95 94 85,
       uint4.mk 98 85 4294967295 86, uint4.mk 0 4294967295 92 90, uint4.mk 92 4294967295 0 7,
       uint4.mk 4294967295 99 98 87, uint4.mk 100 87 4294967295 88, uint4.mk 7 4294967295 96 93,
       uint4.mk 96 4294967295 7 21, uint4.mk 21 4294967295 91 97, uint4.mk 91 4294967295 21 0],
    basePoints := g_CubeType0Vertices,
    baseTypes := List.replicate 24 0,
    tetraCacheArray := List.replicate 102 default,
    modifArray :=
      [2, 0, 0, 2, 0, 0, 2, 2, 0, 0, 0, 0, 0, 0, 0, 0, 0, 0, 0, 0, 2, 2, 0, 0, 2, 2, 2, 2, 2, 2, 2,
       2, 2, 2, 2, 2, 2, 2, 2, 2, 2, 2, 2, 2, 2, 2, 2, 2, 2, 2, 2, 2, 2, 2, 2, 2, 2, 2, 2, 2, 2, 2,
       2, 2, 2, 2, 2, 2, 2, 2, 2, 2, 2, 2, 2, 2, 2, 2, 2, 2, 2, 2, 2, 2, 2, 2, 2, 2, 2, 2, 2, 2, 2,
       2, 2, 2, 2, 2, 2, 2, 2, 2],
    depthArray := List.replicate 102 0,
    diamonds :=
      [Diamond.mk [64, 77, 78, 105, 106, 71] 6, Diamond.mk [128, 143, 128, 128] 4,
       Diamond.mk [155, 156, 155, 155] 4, Diamond.mk [211, 212, 211, 211] 4,
       Diamond.mk [512, 623, 624, 847, 848, 575] 6, Diamond.mk [1024, 1151, 1024, 1024] 4,
       Diamond.mk [1247, 1248, 1247, 1247] 4, Diamond.mk [1695, 1696, 1695, 1695] 4,
       Diamond.mk [4096, 4991, 4992, 6783, 6784, 4607] 6, Diamond.mk [8192, 9215, 8192, 8192] 4,
       Diamond.mk [9983, 9984, 9983, 9983] 4, Diamond.mk [13567, 13568, 13567, 13567] 4,
       Diamond.mk [32768, 39935, 39936, 54271, 54272, 36863] 6,
       Diamond.mk [65536, 73727, 65536, 65536] 4, Diamond.mk [79871, 79872, 79871, 79871] 4,
       Diamond.mk [108543, 108544, 108543, 108543] 4] }

/-- The mesh after fourteen calls `recursive_split_element(volume, 0)` on the root mesh,
spelled out: 108 elements. -/
def chainVolume14 : LEBVolume :=
  { totalNumElements := 108, minimalDepth := 5,
    heapIDArray :=
      [524288, 33, 34, 70, 36, 37, 76, 638976, 40, 41, 42, 43, 44, 45, 46, 47, 48, 49, 50, 51, 104,
       868352, 54, 55, 65, 154, 79, 210, 107, 142, 129, 310, 157, 422, 213, 286, 257, 574, 622,
       313, 513, 1246, 846, 425, 625, 1694, 849, 1150, 1025, 2494, 1249, 3390, 1697, 2302, 2049,
       4606, 4990, 2497, 4097, 9982, 6782, 3393, 4993, 13566, 6785, 9214, 8193, 19966, 9985, 27134,
       13569, 18430, 16385, 36862, 39934, 19969, 32769, 79870, 54270, 27137, 39937, 108542, 54273,
       73726, 65537, 159742, 79873, 217086, 108545, 147454, 131073, 294910, 319486, 159745, 262145,
       638974, 434174, 217089, 319489, 868350, 434177, 589822, 524289, 638975, 638977, 868351,
       868353, 589823],
    typeArray :=
      [3, 0, 0, 1, 0, 0, 1, 3, 0, 0, 0, 0, 0, 0, 0, 0, 0, 0, 0, 0, 1, 3, 0, 0, 2, 3, 2, 3, 2, 3, 3,
       0, 3, 0, 3, 0, 0, 1, 1, 0, 2, 3, 1, 0, 2, 3, 2, 3, 3, 0, 3, 0, 3, 0, 0, 1, 1, 0, 2, 3, 1, 0,
       2, 3, 2, 3, 3, 0, 3, 0, 3, 0, 0, 1, 1, 0, 2, 3, 1, 0, 2, 3, 2, 3, 3, 0, 3, 0, 3, 0, 0, 1, 1,
       0, 2, 3, 1, 0, 2, 3, 2, 3, 3, 3, 3, 3, 3, 3],
    neighborsArray :=
      [uint4.mk 103 102 107 4294967295, uint4.mk 24 2 4294967295 19, uint4.mk 1 3 4294967295 12,
       uint4.mk 4294967295 29 28 2, uint4.mk 26 5 4294967295 10, uint4.mk 4 6 4294967295 16,
       uint4.mk 4294967295 25 24 5, uint4.mk 105 104 103 4294967295, uint4.mk 11 9 4294967295 14,
       uint4.mk 8 10 4294967295 17, uint4.mk 9 11 4294967295 4, uint4.mk 10 8 4294967295 23,
       uint4.mk 15 13 4294967295 2, uint4.mk 12 14 4294967295 18, uint4.mk 13 15 4294967295 8,
       uint4.mk 14 12 4294967295 22, uint4.mk 19 17 4294967295 5, uint4.mk 16 18 4294967295 9,
       uint4.mk 17 19 4294967295 13, uint4.mk 18 16 4294967295 1, uint4.mk 4294967295 27 26 23,
       uint4.mk 107 106 105 4294967295, uint4.mk 28 23 4294967295 15, uint4.mk 22 20 4294967295 11,
       uint4.mk 30 4294967295 6 1, uint4.mk 31 32 30 6, uint4.mk 32 4294967295 20 4,
       uint4.mk 33 34 32 20, uint4.mk 34 4294967295 3 22, uint4.mk 35 30 34 3,
       uint4.mk 29 36 25 24, uint4.mk 39 38 4294967295 25, uint4.mk 25 39 27 26,
       uint4.mk 43 42 4294967295 27, uint4.mk 27 43 29 28, uint4.mk 36 37 4294967295 29,
       uint4.mk 40 35 4294967295 30, uint4.mk 4294967295 47 46 35, uint4.mk 4294967295 41 40 31,
       uint4.mk 44 31 4294967295 32, uint4.mk 48 4294967295 38 36, uint4.mk 49 50 48 38,
       uint4.mk 4294967295 45 44 33, uint4.mk 46 33 4294967295 34, uint4.mk 50 4294967295 42 39,
       uint4.mk 51 52 50 42, uint4.mk 52 4294967295 37 43, uint4.mk 53 48 52 37,
       uint4.mk 47 54 41 40, uint4.mk 57 56 4294967295 41, uint4.mk 41 57 45 44,
       uint4.mk 61 60 4294967295 45, uint4.mk 45 61 47 46, uint4.mk 54 55 4294967295 47,
       uint4.mk 58 53 4294967295 48, uint4.mk 4294967295 65 64 53, uint4.mk 4294967295 59 58 49,
       uint4.mk 62 49 4294967295 50, uint4.mk 66 4294967295 56 54, uint4.mk 67 68 66 56,
       uint4.mk 4294967295 63 62 51, uint4.mk 64 51 4294967295 52, uint4.mk 68 4294967295 60 57,
       uint4.mk 69 70 68 60, uint4.mk 70 4294967295 55 61, uint4.mk 71 66 70 55,
       uint4.mk 65 72 59 58, uint4.mk 75 74 4294967295 59, uint4.mk 59 75 63 62,
       uint4.mk 79 78 4294967295 63, uint4.mk 63 79 65 64, uint4.mk 72 73 4294967295 65,
       uint4.mk 76 71 4294967295 66, uint4.mk 4294967295 83 82 71, uint4.mk 4294967295 77 76 67,
       uint4.mk 80 67 4294967295 68, uint4.mk 84 4294967295 74 72, uint4.mk 85 86 84 74,
       uint4.mk 4294967295 81 80 69, uint4.mk 82 69 4294967295 70, uint4.mk 86 4294967295 78 75,
       uint4.mk 87 88 86 78, uint4.mk 88 4294967295 73 79, uint4.mk 89 84 88 73,
       uint4.mk 83 90 77 76, uint4.mk 93 92 4294967295 77, uint4.mk 77 93 81 80,
       uint4.mk 97 96 4294967295 81, uint4.mk 81 97 83 82, uint4.mk 90 91 4294967295 83,
       uint4.mk 94 89 4294967295 84, uint4.mk 4294967295 101 100 89, uint4.mk 4294967295 95 94 85,
       uint4.mk 98 85 4294967295 86, uint4.mk 102 4294967295 92 90, uint4.mk 103 104 102 92,
       uint4.mk 4294967295 99 98 87, uint4.mk 100 87 4294967295 88, uint4.mk 104 4294967295 96 93,
       uint4.mk 105 106 104 96, uint4.mk 106 4294967295 91 97, uint4.mk 107 102 106 91,
       uint4.mk 101 0 95 94, uint4.mk 95 0 7 4294967295, uint4.mk 95 7 99 98,
       uint4.mk 99 7 21 4294967295, uint4.mk 99 21 101 100, uint4.mk 101 21 0 4294967295],
    basePoints := g_CubeType0Vertices,
    baseTypes := List.replicate 24 0,
    tetraCacheArray := List.replicate 108 default,
    modifArray :=
      [2, 0, 0, 2, 0, 0, 2, 2, 0, 0, 0, 0, 0, 0, 0, 0, 0, 0, 0, 0, 2, 2, 0, 0, 2, 2, 2, 2, 2, 2, 2,
       2, 2, 2, 2, 2, 2, 2, 2, 2, 2, 2, 2, 2, 2, 2, 2, 2, 2, 2, 2, 2, 2, 2, 2, 2, 2, 2, 2, 2, 2, 2,
       2, 2, 2, 2, 2, 2, 2, 2, 2, 2, 2, 2, 2, 2, 2, 2, 2, 2, 2, 2, 2, 2, 2, 2, 2, 2, 2, 2, 2, 2, 2,
       2, 2, 2, 2, 2, 2, 2, 2, 2, 2, 2, 2, 2, 2, 2],
    depthArray := List.replicate 108 0,
    diamonds :=
      [Diamond.mk [64, 77, 78, 105, 106, 71] 6, Diamond.mk [128, 143, 128, 128] 4,
       Diamond.mk [155, 156, 155, 155] 4, Diamond.mk [211, 212, 211, 211] 4,
       Diamond.mk [512, 623, 624, 847, 848, 575] 6, Diamond.mk [1024, 1151, 1024, 1024] 4,
       Diamond.mk [1247, 1248, 1247, 1247] 4, Diamond.mk [1695, 1696, 1695, 1695] 4,
       Diamond.mk [4096, 4991, 4992, 6783, 6784, 4607] 6, Diamond.mk [8192, 9215, 8192, 8192] 4,
       Diamond.mk [9983, 9984, 9983, 9983] 4, Diamond.mk [13567, 13568, 13567, 13567] 4,
       Diamond.mk [32768, 39935, 39936, 54271, 54272, 36863] 6,
       Diamond.mk [65536, 73727, 65536, 65536] 4, Diamond.mk [79871, 79872, 79871, 79871] 4,
       Diamond.mk [108543, 108544, 108543, 108543] 4,
       Diamond.mk [262144, 319487, 319488, 434175, 434176, 294911] 6] }

/-- The mesh after sixteen calls `recursive_split_element(volume, 0)` on the root mesh,
spelled out: 114 elements. -/
def chainVolume16 : LEBVolume :=
  { totalNumElements := 114, minimalDepth := 5,
    heapIDArray :=
      [2097152, 33, 34, 70, 36, 37, 76, 1277952, 40, 41, 42, 43, 44, 45, 46, 47, 48, 49, 50, 51,
       104, 868352, 54, 55, 65, 154, 79, 210, 107, 142, 129, 310, 157, 422, 213, 286, 257, 574,
       622, 313, 513, 1246, 846, 425, 625, 1694, 849, 1150, 1025, 2494, 1249, 3390, 1697, 2302,
       2049, 4606, 4990, 2497, 4097, 9982, 6782, 3393, 4993, 13566, 6785, 9214, 8193, 19966, 9985,
       27134, 13569, 18430, 16385, 36862, 39934, 19969, 32769, 79870, 54270, 27137, 39937, 108542,
       54273, 73726, 65537, 159742, 79873, 217086, 108545, 147454, 131073, 294910, 319486, 159745,
       262145, 638974, 434174, 217089, 319489, 868350, 434177, 589822, 524289, 1277950, 638977,
       868351, 868353, 1179646, 1048577, 1179647, 2555902, 1277953, 2097153, 2555903],
    typeArray :=
      [1, 0, 0, 1, 0, 0, 1, 0, 0, 0, 0, 0, 0, 0, 0, 0, 0, 0, 0, 0, 1, 3, 0, 0, 2, 3, 2, 3, 2, 3, 3,
       0, 3, 0, 3, 0, 0, 1, 1, 0, 2, 3, 1, 0, 2, 3, 2, 3, 3, 0, 3, 0, 3, 0, 0, 1, 1, 0, 2, 3, 1, 0,
       2, 3, 2, 3, 3, 0, 3, 0, 3, 0, 0, 1, 1, 0, 2, 3, 1, 0, 2, 3, 2, 3, 3, 0, 3, 0, 3, 0, 0, 1, 1,
       0, 2, 3, 1, 0, 2, 3, 2, 3, 3, 0, 3, 3, 3, 0, 0, 0, 1, 0, 2, 2],
    neighborsArray :=
      [uint4.mk 4294967295 112 113 109, uint4.mk 24 2 4294967295 19, uint4.mk 1 3 4294967295 12,
       uint4.mk 4294967295 29 28 2, uint4.mk 26 5 4294967295 10, uint4.mk 4 6 4294967295 16,
       uint4.mk 4294967295 25 24 5, uint4.mk 113 111 4294967295 105, uint4.mk 11 9 4294967295 14,
       uint4.mk 8 10 4294967295 17, uint4.mk 9 11 4294967295 4, uint4.mk 10 8 4294967295 23,
       uint4.mk 15 13 4294967295 2, uint4.mk 12 14 4294967295 18, uint4.mk 13 15 4294967295 8,
       uint4.mk 14 12 4294967295 22, uint4.mk 19 17 4294967295 5, uint4.mk 16 18 4294967295 9,
       uint4.mk 17 19 4294967295 13, uint4.mk 18 16 4294967295 1, uint4.mk 4294967295 27 26 23,
       uint4.mk 109 106 105 4294967295, uint4.mk 28 23 4294967295 15, uint4.mk 22 20 4294967295 11,
       uint4.mk 30 4294967295 6 1, uint4.mk 31 32 30 6, uint4.mk 32 4294967295 20 4,
       uint4.mk 33 34 32 20, uint4.mk 34 4294967295 3 22, uint4.mk 35 30 34 3,
       uint4.mk 29 36 25 24, uint4.mk 39 38 4294967295 25, uint4.mk 25 39 27 26,
       uint4.mk 43 42 4294967295 27, uint4.mk 27 43 29 28, uint4.mk 36 37 4294967295 29,
       uint4.mk 40 35 4294967295 30, uint4.mk 4294967295 47 46 35, uint4.mk 4294967295 41 40 31,
       uint4.mk 44 31 4294967295 32, uint4.mk 48 4294967295 38 36, uint4.mk 49 50 48 38,
       uint4.mk 4294967295 45 44 33, uint4.mk 46 33 4294967295 34, uint4.mk 50 4294967295 42 39,
       uint4.mk 51 52 50 42, uint4.mk 52 4294967295 37 43, uint4.mk 53 48 52 37,
       uint4.mk 47 54 41 40, uint4.mk 57 56 4294967295 41, uint4.mk 41 57 45 44,
       uint4.mk 61 60 4294967295 45, uint4.mk 45 61 47 46, uint4.mk 54 55 4294967295 47,
       uint4.mk 58 53 4294967295 48, uint4.mk 4294967295 65 64 53, uint4.mk 4294967295 59 58 49,
       uint4.mk 62 49 4294967295 50, uint4.mk 66 4294967295 56 54, uint4.mk 67 68 66 56,
       uint4.mk 4294967295 63 62 51, uint4.mk 64 51 4294967295 52, uint4.mk 68 4294967295 60 57,
       uint4.mk 69 70 68 60, uint4.mk 70 4294967295 55 61, uint4.mk 71 66 70 55,
       uint4.mk 65 72 59 58, uint4.mk 75 74 4294967295 59, uint4.mk 59 75 63 62,
       uint4.mk 79 78 4294967295 63, uint4.mk 63 79 65 64, uint4.mk 72 73 4294967295 65,
       uint4.mk 76 71 4294967295 66, uint4.mk 4294967295 83 82 71, uint4.mk 4294967295 77 76 67,
       uint4.mk 80 67 4294967295 68, uint4.mk 84 4294967295 74 72, uint4.mk 85 86 84 74,
       uint4.mk 4294967295 81 80 69, uint4.mk 82 69 4294967295 70, uint4.mk 86 4294967295 78 75,
       uint4.mk 87 88 86 78, uint4.mk 88 4294967295 73 79, uint4.mk 89 84 88 73,
       uint4.mk 83 90 77 76, uint4.mk 93 92 4294967295 77, uint4.mk 77 93 81 80,
       uint4.mk 97 96 4294967295 81, uint4.mk 81 97 83 82, uint4.mk 90 91 4294967295 83,
       uint4.mk 94 89 4294967295 84, uint4.mk 4294967295 101 100 89, uint4.mk 4294967295 95 94 85,
       uint4.mk 98 85 4294967295 86, uint4.mk 102 4294967295 92 90, uint4.mk 103 104 102 92,
       uint4.mk 4294967295 99 98 87, uint4.mk 100 87 4294967295 88, uint4.mk 104 4294967295 96 93,
       uint4.mk 105 106 104 96, uint4.mk 106 4294967295 91 97, uint4.mk 107 102 106 91,
       uint4.mk 101 108 95 94, uint4.mk 111 110 4294967295 95, uint4.mk 95 111 99 98,
       uint4.mk 99 7 21 4294967295, uint4.mk 99 21 101 100, uint4.mk 108 109 4294967295 101,
       uint4.mk 112 107 4294967295 102, uint4.mk 107 0 4294967295 21,
       uint4.mk 4294967295 113 112 103, uint4.mk 7 103 4294967295 104,
       uint4.mk 0 4294967295 110 108, uint4.mk 110 4294967295 0 7],
    basePoints := g_CubeType0Vertices,
    baseTypes := List.replicate 24 0,
    tetraCacheArray := List.replicate 114 default,
    modifArray :=
      [2, 0, 0, 2, 0, 0, 2, 2, 0, 0, 0, 0, 0, 0, 0, 0, 0, 0, 0, 0, 2, 2, 0, 0, 2, 2, 2, 2, 2, 2, 2,
       2, 2, 2, 2, 2, 2, 2, 2, 2, 2, 2, 2, 2, 2, 2, 2, 2, 2, 2, 2, 2, 2, 2, 2, 2, 2, 2, 2, 2, 2, 2,
       2, 2, 2, 2, 2, 2, 2, 2, 2, 2, 2, 2, 2, 2, 2, 2, 2, 2, 2, 2, 2, 2, 2, 2, 2, 2, 2, 2, 2, 2, 2,
       2, 2, 2, 2, 2, 2, 2, 2, 2, 2, 2, 2, 2, 2, 2, 2, 2, 2, 2, 2, 2],
    depthArray := List.replicate 114 0,
    diamonds :=
      [Diamond.mk [64, 77, 78, 105, 106, 71] 6, Diamond.mk [128, 143, 128, 128] 4,
       Diamond.mk [155, 156, 155, 155] 4, Diamond.mk [211, 212, 211, 211] 4,
       Diamond.mk [512, 623, 624, 847, 848, 575] 6, Diamond.mk [1024, 1151, 1024, 1024] 4,
       Diamond.mk [1247, 1248, 1247, 1247] 4, Diamond.mk [1695, 1696, 1695, 1695] 4,
       Diamond.mk [4096, 4991, 4992, 6783, 6784, 4607] 6, Diamond.mk [8192, 9215, 8192, 8192] 4,
       Diamond.mk [9983, 9984, 9983, 9983] 4, Diamond.mk [13567, 13568, 13567, 13567] 4,
       Diamond.mk [32768, 39935, 39936, 54271, 54272, 36863] 6,
       Diamond.mk [65536, 73727, 65536, 65536] 4, Diamond.mk [79871, 79872, 79871, 79871] 4,
       Diamond.mk [108543, 108544, 108543, 108543] 4,
       Diamond.mk [262144, 319487, 319488, 434175, 434176, 294911] 6,
       Diamond.mk [524288, 589823, 524288, 524288] 4,
       Diamond.mk [638975, 638976, 638975, 638975] 4] }

/-- The mesh after 36 diamond splits along the calls `recursive_split_element(volume, 0)` on
the root mesh, in the course of the call 17, spelled out: 116 elements. -/
def chainStep36 : LEBVolume :=
  { totalNumElements := 116, minimalDepth := 5,
    heapIDArray :=
      [2097152, 33, 34, 70, 36, 37, 76, 1277952, 40, 41, 42, 43, 44, 45, 46, 47, 48, 49, 50, 51,
       104, 1736704, 54, 55, 65, 154, 79, 210, 107, 142, 129, 310, 157, 422, 213, 286, 257, 574,
       622, 313, 513, 1246, 846, 425, 625, 1694, 849, 1150, 1025, 2494, 1249, 3390, 1697, 2302,
       2049, 4606, 4990, 2497, 4097, 9982, 6782, 3393, 4993, 13566, 6785, 9214, 8193, 19966, 9985,
       27134, 13569, 18430, 16385, 36862, 39934, 19969, 32769, 79870, 54270, 27137, 39937, 108542,
       54273, 73726, 65537, 159742, 79873, 217086, 108545, 147454, 131073, 294910, 319486, 159745,
       262145, 638974, 434174, 217089, 319489, 868350, 434177, 589822, 524289, 1277950, 638977,
       1736702, 868353, 1179646, 1048577, 1179647, 2555902, 1277953, 2097153, 2555903, 1736703,
       1736705],
    typeArray :=
      [1, 0, 0, 1, 0, 0, 1, 0, 0, 0, 0, 0, 0, 0, 0, 0, 0, 0, 0, 0, 1, 0, 0, 0, 2, 3, 2, 3, 2, 3, 3,
       0, 3, 0, 3, 0, 0, 1, 1, 0, 2, 3, 1, 0, 2, 3, 2, 3, 3, 0, 3, 0, 3, 0, 0, 1, 1, 0, 2, 3, 1, 0,
       2, 3, 2, 3, 3, 0, 3, 0, 3, 0, 0, 1, 1, 0, 2, 3, 1, 0, 2, 3, 2, 3, 3, 0, 3, 0, 3, 0, 0, 1, 1,
       0, 2, 3, 1, 0, 2, 3, 2, 3, 3, 0, 3, 0, 3, 0, 0, 0, 1, 0, 2, 2, 0, 0],
    neighborsArray :=
      [uint4.mk 4294967295 112 113 109, uint4.mk 24 2 4294967295 19, uint4.mk 1 3 4294967295 12,
       uint4.mk 4294967295 29 28 2, uint4.mk 26 5 4294967295 10, uint4.mk 4 6 4294967295 16,
       uint4.mk 4294967295 25 24 5, uint4.mk 113 111 4294967295 114, uint4.mk 11 9 4294967295 14,
       uint4.mk 8 10 4294967295 17, uint4.mk 9 11 4294967295 4, uint4.mk 10 8 4294967295 23,
       uint4.mk 15 13 4294967295 2, uint4.mk 12 14 4294967295 18, uint4.mk 13 15 4294967295 8,
       uint4.mk 14 12 4294967295 22, uint4.mk 19 17 4294967295 5, uint4.mk 16 18 4294967295 9,
       uint4.mk 17 19 4294967295 13, uint4.mk 18 16 4294967295 1, uint4.mk 4294967295 27 26 23,
       uint4.mk 114 115 4294967295 109, uint4.mk 28 23 4294967295 15, uint4.mk 22 20 4294967295 11,
       uint4.mk 30 4294967295 6 1, uint4.mk 31 32 30 6, uint4.mk 32 4294967295 20 4,
       uint4.mk 33 34 32 20, uint4.mk 34 4294967295 3 22, uint4.mk 35 30 34 3,
       uint4.mk 29 36 25 24, uint4.mk 39 38 4294967295 25, uint4.mk 25 39 27 26,
       uint4.mk 43 42 4294967295 27, uint4.mk 27 43 29 28, uint4.mk 36 37 4294967295 29,
       uint4.mk 40 35 4294967295 30, uint4.mk 4294967295 47 46 35, uint4.mk 4294967295 41 40 31,
       uint4.mk 44 31 4294967295 32, uint4.mk 48 4294967295 38 36, uint4.mk 49 50 48 38,
       uint4.mk 4294967295 45 44 33, uint4.mk 46 33 4294967295 34, uint4.mk 50 4294967295 42 39,
       uint4.mk 51 52 50 42, uint4.mk 52 4294967295 37 43, uint4.mk 53 48 52 37,
       uint4.mk 47 54 41 40, uint4.mk 57 56 4294967295 41, uint4.mk 41 57 45 44,
       uint4.mk 61 60 4294967295 45, uint4.mk 45 61 47 46, uint4.mk 54 55 4294967295 47,
       uint4.mk 58 53 4294967295 48, uint4.mk 4294967295 65 64 53, uint4.mk 4294967295 59 58 49,
       uint4.mk 62 49 4294967295 50, uint4.mk 66 4294967295 56 54, uint4.mk 67 68 66 56,
       uint4.mk 4294967295 63 62 51, uint4.mk 64 51 4294967295 52, uint4.mk 68 4294967295 60 57,
       uint4.mk 69 70 68 60, uint4.mk 70 4294967295 55 61, uint4.mk 71 66 70 55,
       uint4.mk 65 72 59 58, uint4.mk 75 74 4294967295 59, uint4.mk 59 75 63 62,
       uint4.mk 79 78 4294967295 63, uint4.mk 63 79 65 64, uint4.mk 72 73 4294967295 65,
       uint4.mk 76 71 4294967295 66, uint4.mk 4294967295 83 82 71, uint4.mk 4294967295 77 76 67,
       uint4.mk 80 67 4294967295 68, uint4.mk 84 4294967295 74 72, uint4.mk 85 86 84 74,
       uint4.mk 4294967295 81 80 69, uint4.mk 82 69 4294967295 70, uint4.mk 86 4294967295 78 75,
       uint4.mk 87 88 86 78, uint4.mk 88 4294967295 73 79, uint4.mk 89 84 88 73,
       uint4.mk 83 90 77 76, uint4.mk 93 92 4294967295 77, uint4.mk 77 93 81 80,
       uint4.mk 97 96 4294967295 81, uint4.mk 81 97 83 82, uint4.mk 90 91 4294967295 83,
       uint4.mk 94 89 4294967295 84, uint4.mk 4294967295 101 100 89, uint4.mk 4294967295 95 94 85,
       uint4.mk 98 85 4294967295 86, uint4.mk 102 4294967295 92 90, uint4.mk 103 104 102 92,
       uint4.mk 4294967295 99 98 87, uint4.mk 100 87 4294967295 88, uint4.mk 104 4294967295 96 93,
       uint4.mk 105 106 104 96, uint4.mk 106 4294967295 91 97, uint4.mk 107 102 106 91,
       uint4.mk 101 108 95 94, uint4.mk 111 110 4294967295 95, uint4.mk 95 111 99 98,
       uint4.mk 115 114 4294967295 99, uint4.mk 99 115 101 100, uint4.mk 108 109 4294967295 101,
       uint4.mk 112 107 4294967295 102, uint4.mk 107 0 4294967295 21,
       uint4.mk 4294967295 113 112 103, uint4.mk 7 103 4294967295 104,
       uint4.mk 0 4294967295 110 108, uint4.mk 110 4294967295 0 7, uint4.mk 105 21 4294967295 7,
       uint4.mk 21 105 4294967295 106],
    basePoints := g_CubeType0Vertices,
    baseTypes := List.replicate 24 0,
    tetraCacheArray := List.replicate 116 default,
    modifArray :=
      [2, 0, 0, 2, 0, 0, 2, 2, 0, 0, 0, 0, 0, 0, 0, 0, 0, 0, 0, 0, 2, 2, 0, 0, 2, 2, 2, 2, 2, 2, 2,
       2, 2, 2, 2, 2, 2, 2, 2, 2, 2, 2, 2, 2, 2, 2, 2, 2, 2, 2, 2, 2, 2, 2, 2, 2, 2, 2, 2, 2, 2, 2,
       2, 2, 2, 2, 2, 2, 2, 2, 2, 2, 2, 2, 2, 2, 2, 2, 2, 2, 2, 2, 2, 2, 2, 2, 2, 2, 2, 2, 2, 2, 2,
       2, 2, 2, 2, 2, 2, 2, 2, 2, 2, 2, 2, 2, 2, 2, 2, 2, 2, 2, 2, 2, 2, 2],
    depthArray := List.replicate 116 0,
    diamonds :=
      [Diamond.mk [64, 77, 78, 105, 106, 71] 6, Diamond.mk [128, 143, 128, 128] 4,
       Diamond.mk [155, 156, 155, 155] 4, Diamond.mk [211, 212, 211, 211] 4,
       Diamond.mk [512, 623, 624, 847, 848, 575] 6, Diamond.mk [1024, 1151, 1024, 1024] 4,
       Diamond.mk [1247, 1248, 1247, 1247] 4, Diamond.mk [1695, 1696, 1695, 1695] 4,
       Diamond.mk [4096, 4991, 4992, 6783, 6784, 4607] 6, Diamond.mk [8192, 9215, 8192, 8192] 4,
       Diamond.mk [9983, 9984, 9983, 9983] 4, Diamond.mk [13567, 13568, 13567, 13567] 4,
       Diamond.mk [32768, 39935, 39936, 54271, 54272, 36863] 6,
       Diamond.mk [65536, 73727, 65536, 65536] 4, Diamond.mk [79871, 79872, 79871, 79871] 4,
       Diamond.mk [108543, 108544, 108543, 108543] 4,
       Diamond.mk [262144, 319487, 319488, 434175, 434176, 294911] 6,
       Diamond.mk [524288, 589823, 524288, 524288] 4,
       Diamond.mk [638975, 638976, 638975, 638975] 4,
       Diamond.mk [868351, 868352, 868351, 868351] 4] }

/-- The mesh after 37 diamond splits along the calls `recursive_split_element(volume, 0)` on
the root mesh, in the course of the call 17, spelled out: 118 elements. -/
def chainStep37 : LEBVolume :=
  { totalNumElements := 118, minimalDepth := 5,
    heapIDArray :=
      [2097152, 33, 34, 70, 36, 37, 76, 2555904, 40, 41, 42, 43, 44, 45, 46, 47, 48, 49, 50, 51,
       104, 1736704, 54, 55, 65, 154, 79, 210, 107, 142, 129, 310, 157, 422, 213, 286, 257, 574,
       622, 313, 513, 1246, 846, 425, 625, 1694, 849, 1150, 1025, 2494, 1249, 3390, 1697, 2302,
       2049, 4606, 4990, 2497, 4097, 9982, 6782, 3393, 4993, 13566, 6785, 9214, 8193, 19966, 9985,
       27134, 13569, 18430, 16385, 36862, 39934, 19969, 32769, 79870, 54270, 27137, 39937, 108542,
       54273, 73726, 65537, 159742, 79873, 217086, 108545, 147454, 131073, 294910, 319486, 159745,
       262145, 638974, 434174, 217089, 319489, 868350, 434177, 589822, 524289, 1277950, 638977,
       1736702, 868353, 1179646, 1048577, 1179647, 2555902, 1277953, 2097153, 2555903, 3473406,
       1736705, 2555905, 3473407],
    typeArray :=
      [1, 0, 0, 1, 0, 0, 1, 1, 0, 0, 0, 0, 0, 0, 0, 0, 0, 0, 0, 0, 1, 0, 0, 0, 2, 3, 2, 3, 2, 3, 3,
       0, 3, 0, 3, 0, 0, 1, 1, 0, 2, 3, 1, 0, 2, 3, 2, 3, 3, 0, 3, 0, 3, 0, 0, 1, 1, 0, 2, 3, 1, 0,
       2, 3, 2, 3, 3, 0, 3, 0, 3, 0, 0, 1, 1, 0, 2, 3, 1, 0, 2, 3, 2, 3, 3, 0, 3, 0, 3, 0, 0, 1, 1,
       0, 2, 3, 1, 0, 2, 3, 2, 3, 3, 0, 3, 0, 3, 0, 0, 0, 1, 0, 2, 2, 1, 0, 2, 2],
    neighborsArray :=
      [uint4.mk 4294967295 112 113 109, uint4.mk 24 2 4294967295 19, uint4.mk 1 3 4294967295 12,
       uint4.mk 4294967295 29 28 2, uint4.mk 26 5 4294967295 10, uint4.mk 4 6 4294967295 16,
       uint4.mk 4294967295 25 24 5, uint4.mk 4294967295 116 117 113, uint4.mk 11 9 4294967295 14,
       uint4.mk 8 10 4294967295 17, uint4.mk 9 11 4294967295 4, uint4.mk 10 8 4294967295 23,
       uint4.mk 15 13 4294967295 2, uint4.mk 12 14 4294967295 18, uint4.mk 13 15 4294967295 8,
       uint4.mk 14 12 4294967295 22, uint4.mk 19 17 4294967295 5, uint4.mk 16 18 4294967295 9,
       uint4.mk 17 19 4294967295 13, uint4.mk 18 16 4294967295 1, uint4.mk 4294967295 27 26 23,
       uint4.mk 117 115 4294967295 109, uint4.mk 28 23 4294967295 15, uint4.mk 22 20 4294967295 11,
       uint4.mk 30 4294967295 6 1, uint4.mk 31 32 30 6, uint4.mk 32 4294967295 20 4,
       uint4.mk 33 34 32 20, uint4.mk 34 4294967295 3 22, uint4.mk 35 30 34 3,
       uint4.mk 29 36 25 24, uint4.mk 39 38 4294967295 25, uint4.mk 25 39 27 26,
       uint4.mk 43 42 4294967295 27, uint4.mk 27 43 29 28, uint4.mk 36 37 4294967295 29,
       uint4.mk 40 35 4294967295 30, uint4.mk 4294967295 47 46 35, uint4.mk 4294967295 41 40 31,
       uint4.mk 44 31 4294967295 32, uint4.mk 48 4294967295 38 36, uint4.mk 49 50 48 38,
       uint4.mk 4294967295 45 44 33, uint4.mk 46 33 4294967295 34, uint4.mk 50 4294967295 42 39,
       uint4.mk 51 52 50 42, uint4.mk 52 4294967295 37 43, uint4.mk 53 48 52 37,
       uint4.mk 47 54 41 40, uint4.mk 57 56 4294967295 41, uint4.mk 41 57 45 44,
       uint4.mk 61 60 4294967295 45, uint4.mk 45 61 47 46, uint4.mk 54 55 4294967295 47,
       uint4.mk 58 53 4294967295 48, uint4.mk 4294967295 65 64 53, uint4.mk 4294967295 59 58 49,
       uint4.mk 62 49 4294967295 50, uint4.mk 66 4294967295 56 54, uint4.mk 67 68 66 56,
       uint4.mk 4294967295 63 62 51, uint4.mk 64 51 4294967295 52, uint4.mk 68 4294967295 60 57,
       uint4.mk 69 70 68 60, uint4.mk 70 4294967295 55 61, uint4.mk 71 66 70 55,
       uint4.mk 65 72 59 58, uint4.mk 75 74 4294967295 59, uint4.mk 59 75 63 62,
       uint4.mk 79 78 4294967295 63, uint4.mk 63 79 65 64, uint4.mk 72 73 4294967295 65,
       uint4.mk 76 71 4294967295 66, uint4.mk 4294967295 83 82 71, uint4.mk 4294967295 77 76 67,
       uint4.mk 80 67 4294967295 68, uint4.mk 84 4294967295 74 72, uint4.mk 85 86 84 74,
       uint4.mk 4294967295 81 80 69, uint4.mk 82 69 4294967295 70, uint4.mk 86 4294967295 78 75,
       uint4.mk 87 88 86 78, uint4.mk 88 4294967295 73 79, uint4.mk 89 84 88 73,
       uint4.mk 83 90 77 76, uint4.mk 93 92 4294967295 77, uint4.mk 77 93 81 80,
       uint4.mk 97 96 4294967295 81, uint4.mk 81 97 83 82, uint4.mk 90 91 4294967295 83,
       uint4.mk 94 89 4294967295 84, uint4.mk 4294967295 101 100 89, uint4.mk 4294967295 95 94 85,
       uint4.mk 98 85 4294967295 86, uint4.mk 102 4294967295 92 90, uint4.mk 103 104 102 92,
       uint4.mk 4294967295 99 98 87, uint4.mk 100 87 4294967295 88, uint4.mk 104 4294967295 96 93,
       uint4.mk 105 106 104 96, uint4.mk 106 4294967295 91 97, uint4.mk 107 102 106 91,
       uint4.mk 101 108 95 94, uint4.mk 111 110 4294967295 95, uint4.mk 95 111 99 98,
       uint4.mk 115 114 4294967295 99, uint4.mk 99 115 101 100, uint4.mk 108 109 4294967295 101,
       uint4.mk 112 107 4294967295 102, uint4.mk 107 0 4294967295 21,
       uint4.mk 4294967295 113 112 103, uint4.mk 116 103 4294967295 104,
       uint4.mk 0 4294967295 110 108, uint4.mk 110 4294967295 0 7, uint4.mk 4294967295 117 116 105,
       uint4.mk 21 105 4294967295 106, uint4.mk 7 4294967295 114 111, uint4.mk 114 4294967295 7 21],
    basePoints := g_CubeType0Vertices,
    baseTypes := List.replicate 24 0,
    tetraCacheArray := List.replicate 118 default,
    modifArray :=
      [2, 0, 0, 2, 0, 0, 2, 2, 0, 0, 0, 0, 0, 0, 0, 0, 0, 0, 0, 0, 2, 2, 0, 0, 2, 2, 2, 2, 2, 2, 2,
       2, 2, 2, 2, 2, 2, 2, 2, 2, 2, 2, 2, 2, 2, 2, 2, 2, 2, 2, 2, 2, 2, 2, 2, 2, 2, 2, 2, 2, 2, 2,
       2, 2, 2, 2, 2, 2, 2, 2, 2, 2, 2, 2, 2, 2, 2, 2, 2, 2, 2, 2, 2, 2, 2, 2, 2, 2, 2, 2, 2, 2, 2,
       2, 2, 2, 2, 2, 2, 2, 2, 2, 2, 2, 2, 2, 2, 2, 2, 2, 2, 2, 2, 2, 2, 2, 2, 2],
    depthArray := List.replicate 118 0,
    diamonds :=
      [Diamond.mk [64, 77, 78, 105, 106, 71] 6, Diamond.mk [128, 143, 128, 128] 4,
       Diamond.mk [155, 156, 155, 155] 4, Diamond.mk [211, 212, 211, 211] 4,
       Diamond.mk [512, 623, 624, 847, 848, 575] 6, Diamond.mk [1024, 1151, 1024, 1024] 4,
       Diamond.mk [1247, 1248, 1247, 1247] 4, Diamond.mk [1695, 1696, 1695, 1695] 4,
       Diamond.mk [4096, 4991, 4992, 6783, 6784, 4607] 6, Diamond.mk [8192, 9215, 8192, 8192] 4,
       Diamond.mk [9983, 9984, 9983, 9983] 4, Diamond.mk [13567, 13568, 13567, 13567] 4,
       Diamond.mk [32768, 39935, 39936, 54271, 54272, 36863] 6,
       Diamond.mk [65536, 73727, 65536, 65536] 4, Diamond.mk [79871, 79872, 79871, 79871] 4,
       Diamond.mk [108543, 108544, 108543, 108543] 4,
       Diamond.mk [262144, 319487, 319488, 434175, 434176, 294911] 6,
       Diamond.mk [524288, 589823, 524288, 524288] 4,
       Diamond.mk [638975, 638976, 638975, 638975] 4,
       Diamond.mk [868351, 868352, 868351, 868351] 4] }

/-- The mesh after 38 diamond splits along the calls `recursive_split_element(volume, 0)` on
the root mesh, in the course of the call 17, spelled out: 120 elements. -/
def chainStep38 : LEBVolume :=
  { totalNumElements := 120, minimalDepth := 5,
    heapIDArray :=
      [2097152, 33, 34, 70, 36, 37, 76, 2555904, 40, 41, 42, 43, 44, 45, 46, 47, 48, 49, 50, 51,
       104, 3473408, 54, 55, 65, 154, 79, 210, 107, 142, 129, 310, 157, 422, 213, 286, 257, 574,
       622, 313, 513, 1246, 846, 425, 625, 1694, 849, 1150, 1025, 2494, 1249, 3390, 1697, 2302,
       2049, 4606, 4990, 2497, 4097, 9982, 6782, 3393, 4993, 13566, 6785, 9214, 8193, 19966, 9985,
       27134, 13569, 18430, 16385, 36862, 39934, 19969, 32769, 79870, 54270, 27137, 39937, 108542,
       54273, 73726, 65537, 159742, 79873, 217086, 108545, 147454, 131073, 294910, 319486, 159745,
       262145, 638974, 434174, 217089, 319489, 868350, 434177, 589822, 524289, 1277950, 638977,
       1736702, 868353, 1179646, 1048577, 2359294, 2555902, 1277953, 2097153, 2555903, 3473406,
       1736705, 2555905, 3473407, 3473409, 2359295],
    typeArray :=
      [1, 0, 0, 1, 0, 0, 1, 1, 0, 0, 0, 0, 0, 0, 0, 0, 0, 0, 0, 0, 1, 1, 0, 0, 2, 3, 2, 3, 2, 3, 3,
       0, 3, 0, 3, 0, 0, 1, 1, 0, 2, 3, 1, 0, 2, 3, 2, 3, 3, 0, 3, 0, 3, 0, 0, 1, 1, 0, 2, 3, 1, 0,
       2, 3, 2, 3, 3, 0, 3, 0, 3, 0, 0, 1, 1, 0, 2, 3, 1, 0, 2, 3, 2, 3, 3, 0, 3, 0, 3, 0, 0, 1, 1,
       0, 2, 3, 1, 0, 2, 3, 2, 3, 3, 0, 3, 0, 3, 0, 0, 1, 1, 0, 2, 2, 1, 0, 2, 2, 2, 2],
    neighborsArray :=
      [uint4.mk 4294967295 112 113 119, uint4.mk 24 2 4294967295 19, uint4.mk 1 3 4294967295 12,
       uint4.mk 4294967295 29 28 2, uint4.mk 26 5 4294967295 10, uint4.mk 4 6 4294967295 16,
       uint4.mk 4294967295 25 24 5, uint4.mk 4294967295 116 117 113, uint4.mk 11 9 4294967295 14,
       uint4.mk 8 10 4294967295 17, uint4.mk 9 11 4294967295 4, uint4.mk 10 8 4294967295 23,
       uint4.mk 15 13 4294967295 2, uint4.mk 12 14 4294967295 18, uint4.mk 13 15 4294967295 8,
       uint4.mk 14 12 4294967295 22, uint4.mk 19 17 4294967295 5, uint4.mk 16 18 4294967295 9,
       uint4.mk 17 19 4294967295 13, uint4.mk 18 16 4294967295 1, uint4.mk 4294967295 27 26 23,
       uint4.mk 4294967295 118 119 117, uint4.mk 28 23 4294967295 15, uint4.mk 22 20 4294967295 11,
       uint4.mk 30 4294967295 6 1, uint4.mk 31 32 30 6, uint4.mk 32 4294967295 20 4,
       uint4.mk 33 34 32 20, uint4.mk 34 4294967295 3 22, uint4.mk 35 30 34 3,
       uint4.mk 29 36 25 24, uint4.mk 39 38 4294967295 25, uint4.mk 25 39 27 26,
       uint4.mk 43 42 4294967295 27, uint4.mk 27 43 29 28, uint4.mk 36 37 4294967295 29,
       uint4.mk 40 35 4294967295 30, uint4.mk 4294967295 47 46 35, uint4.mk 4294967295 41 40 31,
       uint4.mk 44 31 4294967295 32, uint4.mk 48 4294967295 38 36, uint4.mk 49 50 48 38,
       uint4.mk 4294967295 45 44 33, uint4.mk 46 33 4294967295 34, uint4.mk 50 4294967295 42 39,
       uint4.mk 51 52 50 42, uint4.mk 52 4294967295 37 43, uint4.mk 53 48 52 37,
       uint4.mk 47 54 41 40, uint4.mk 57 56 4294967295 41, uint4.mk 41 57 45 44,
       uint4.mk 61 60 4294967295 45, uint4.mk 45 61 47 46, uint4.mk 54 55 4294967295 47,
       uint4.mk 58 53 4294967295 48, uint4.mk 4294967295 65 64 53, uint4.mk 4294967295 59 58 49,
       uint4.mk 62 49 4294967295 50, uint4.mk 66 4294967295 56 54, uint4.mk 67 68 66 56,
       uint4.mk 4294967295 63 62 51, uint4.mk 64 51 4294967295 52, uint4.mk 68 4294967295 60 57,
       uint4.mk 69 70 68 60, uint4.mk 70 4294967295 55 61, uint4.mk 71 66 70 55,
       uint4.mk 65 72 59 58, uint4.mk 75 74 4294967295 59, uint4.mk 59 75 63 62,
       uint4.mk 79 78 4294967295 63, uint4.mk 63 79 65 64, uint4.mk 72 73 4294967295 65,
       uint4.mk 76 71 4294967295 66, uint4.mk 4294967295 83 82 71, uint4.mk 4294967295 77 76 67,
       uint4.mk 80 67 4294967295 68, uint4.mk 84 4294967295 74 72, uint4.mk 85 86 84 74,
       uint4.mk 4294967295 81 80 69, uint4.mk 82 69 4294967295 70, uint4.mk 86 4294967295 78 75,
       uint4.mk 87 88 86 78, uint4.mk 88 4294967295 73 79, uint4.mk 89 84 88 73,
       uint4.mk 83 90 77 76, uint4.mk 93 92 4294967295 77, uint4.mk 77 93 81 80,
       uint4.mk 97 96 4294967295 81, uint4.mk 81 97 83 82, uint4.mk 90 91 4294967295 83,
       uint4.mk 94 89 4294967295 84, uint4.mk 4294967295 101 100 89, uint4.mk 4294967295 95 94 85,
       uint4.mk 98 85 4294967295 86, uint4.mk 102 4294967295 92 90, uint4.mk 103 104 102 92,
       uint4.mk 4294967295 99 98 87, uint4.mk 100 87 4294967295 88, uint4.mk 104 4294967295 96 93,
       uint4.mk 105 106 104 96, uint4.mk 106 4294967295 91 97, uint4.mk 107 102 106 91,
       uint4.mk 101 108 95 94, uint4.mk 111 110 4294967295 95, uint4.mk 95 111 99 98,
       uint4.mk 115 114 4294967295 99, uint4.mk 99 115 101 100, uint4.mk 108 109 4294967295 101,
       uint4.mk 112 107 4294967295 102, uint4.mk 4294967295 119 118 107,
       uint4.mk 4294967295 113 112 103, uint4.mk 116 103 4294967295 104,
       uint4.mk 0 4294967295 110 108, uint4.mk 110 4294967295 0 7, uint4.mk 4294967295 117 116 105,
       uint4.mk 118 105 4294967295 106, uint4.mk 7 4294967295 114 111,
       uint4.mk 114 4294967295 7 21, uint4.mk 21 4294967295 109 115, uint4.mk 109 4294967295 21 0],
    basePoints := g_CubeType0Vertices,
    baseTypes := List.replicate 24 0,
    tetraCacheArray := List.replicate 120 default,
    modifArray :=
      [2, 0, 0, 2, 0, 0, 2, 2, 0, 0, 0, 0, 0, 0, 0, 0, 0, 0, 0, 0, 2, 2, 0, 0, 2, 2, 2, 2, 2, 2, 2,
       2, 2, 2, 2, 2, 2, 2, 2, 2, 2, 2, 2, 2, 2, 2, 2, 2, 2, 2, 2, 2, 2, 2, 2, 2, 2, 2, 2, 2, 2, 2,
       2, 2, 2, 2, 2, 2, 2, 2, 2, 2, 2, 2, 2, 2, 2, 2, 2, 2, 2, 2, 2, 2, 2, 2, 2, 2, 2, 2, 2, 2, 2,
       2, 2, 2, 2, 2, 2, 2, 2, 2, 2, 2, 2, 2, 2, 2, 2, 2, 2, 2, 2, 2, 2, 2, 2, 2, 2, 2],
    depthArray := List.replicate 120 0,
    diamonds :=
      [Diamond.mk [64, 77, 78, 105, 106, 71] 6, Diamond.mk [128, 143, 128, 128] 4,
       Diamond.mk [155, 156, 155, 155] 4, Diamond.mk [211, 212, 211, 211] 4,
       Diamond.mk [512, 623, 624, 847, 848, 575] 6, Diamond.mk [1024, 1151, 1024, 1024] 4,
       Diamond.mk [1247, 1248, 1247, 1247] 4, Diamond.mk [1695, 1696, 1695, 1695] 4,
       Diamond.mk [4096, 4991, 4992, 6783, 6784, 4607] 6, Diamond.mk [8192, 9215, 8192, 8192] 4,
       Diamond.mk [9983, 9984, 9983, 9983] 4, Diamond.mk [13567, 13568, 13567, 13567] 4,
       Diamond.mk [32768, 39935, 39936, 54271, 54272, 36863] 6,
       Diamond.mk [65536, 73727, 65536, 65536] 4, Diamond.mk [79871, 79872, 79871, 79871] 4,
       Diamond.mk [108543, 108544, 108543, 108543] 4,
       Diamond.mk [262144, 319487, 319488, 434175, 434176, 294911] 6,
       Diamond.mk [524288, 589823, 524288, 524288] 4,
       Diamond.mk [638975, 638976, 638975, 638975] 4,
       Diamond.mk [868351, 868352, 868351, 868351] 4] }

/-- The mesh after seventeen calls `recursive_split_element(volume, 0)` on the root mesh,
spelled out: 126 elements. -/
def chainVolume17 : LEBVolume :=
  { totalNumElements := 126, minimalDepth := 5,
    heapIDArray :=
      [4194304, 33, 34, 70, 36, 37, 76, 5111808, 40, 41, 42, 43, 44, 45, 46, 47, 48, 49, 50, 51,
       104, 6946816, 54, 55, 65, 154, 79, 210, 107, 142, 129, 310, 157, 422, 213, 286, 257, 574,
       622, 313, 513, 1246, 846, 425, 625, 1694, 849, 1150, 1025, 2494, 1249, 3390, 1697, 2302,
       2049, 4606, 4990, 2497, 4097, 9982, 6782, 3393, 4993, 13566, 6785, 9214, 8193, 19966, 9985,
       27134, 13569, 18430, 16385, 36862, 39934, 19969, 32769, 79870, 54270, 27137, 39937, 108542,
       54273, 73726, 65537, 159742, 79873, 217086, 108545, 147454, 131073, 294910, 319486, 159745,
       262145, 638974, 434174, 217089, 319489, 868350, 434177, 589822, 524289, 1277950, 638977,
       1736702, 868353, 1179646, 1048577, 2359294, 2555902, 1277953, 2097153, 5111806, 3473406,
       1736705, 2555905, 6946814, 3473409, 4718590, 4194305, 5111807, 5111809, 6946815, 6946817,
       4718591],
    typeArray :=
      [3, 0, 0, 1, 0, 0, 1, 3, 0, 0, 0, 0, 0, 0, 0, 0, 0, 0, 0, 0, 1, 3, 0, 0, 2, 3, 2, 3, 2, 3, 3,
       0, 3, 0, 3, 0, 0, 1, 1, 0, 2, 3, 1, 0, 2, 3, 2, 3, 3, 0, 3, 0, 3, 0, 0, 1, 1, 0, 2, 3, 1, 0,
       2, 3, 2, 3, 3, 0, 3, 0, 3, 0, 0, 1, 1, 0, 2, 3, 1, 0, 2, 3, 2, 3, 3, 0, 3, 0, 3, 0, 0, 1, 1,
       0, 2, 3, 1, 0, 2, 3, 2, 3, 3, 0, 3, 0, 3, 0, 0, 1, 1, 0, 2, 3, 1, 0, 2, 3, 2, 3, 3, 3, 3, 3,
       3, 3],
    neighborsArray :=
      [uint4.mk 121 120 125 4294967295, uint4.mk 24 2 4294967295 19, uint4.mk 1 3 4294967295 12,
       uint4.mk 4294967295 29 28 2, uint4.mk 26 5 4294967295 10, uint4.mk 4 6 4294967295 16,
       uint4.mk 4294967295 25 24 5, uint4.mk 123 122 121 4294967295, uint4.mk 11 9 4294967295 14,
       uint4.mk 8 10 4294967295 17, uint4.mk 9 11 4294967295 4, uint4.mk 10 8 4294967295 23,
       uint4.mk 15 13 4294967295 2, uint4.mk 12 14 4294967295 18, uint4.mk 13 15 4294967295 8,
       uint4.mk 14 12 4294967295 22, uint4.mk 19 17 4294967295 5, uint4.mk 16 18 4294967295 9,
       uint4.mk 17 19 4294967295 13, uint4.mk 18 16 4294967295 1, uint4.mk 4294967295 27 26 23,
       uint4.mk 125 124 123 4294967295, uint4.mk 28 23 4294967295 15, uint4.mk 22 20 4294967295 11,
       uint4.mk 30 4294967295 6 1, uint4.mk 31 32 30 6, uint4.mk 32 4294967295 20 4,
       uint4.mk 33 34 32 20, uint4.mk 34 4294967295 3 22, uint4.mk 35 30 34 3,
       uint4.mk 29 36 25 24, uint4.mk 39 38 4294967295 25, uint4.mk 25 39 27 26,
       uint4.mk 43 42 4294967295 27, uint4.mk 27 43 29 28, uint4.mk 36 37 4294967295 29,
       uint4.mk 40 35 4294967295 30, uint4.mk 4294967295 47 46 35, uint4.mk 4294967295 41 40 31,
       uint4.mk 44 31 4294967295 32, uint4.mk 48 4294967295 38 36, uint4.mk 49 50 48 38,
       uint4.mk 4294967295 45 44 33, uint4.mk 46 33 4294967295 34, uint4.mk 50 4294967295 42 39,
       uint4.mk 51 52 50 42, uint4.mk 52 4294967295 37 43, uint4.mk 53 48 52 37,
       uint4.mk 47 54 41 40, uint4.mk 57 56 4294967295 41, uint4.mk 41 57 45 44,
       uint4.mk 61 60 4294967295 45, uint4.mk 45 61 47 46, uint4.mk 54 55 4294967295 47,
       uint4.mk 58 53 4294967295 48, uint4.mk 4294967295 65 64 53, uint4.mk 4294967295 59 58 49,
       uint4.mk 62 49 4294967295 50, uint4.mk 66 4294967295 56 54, uint4.mk 67 68 66 56,
       uint4.mk 4294967295 63 62 51, uint4.mk 64 51 4294967295 52, uint4.mk 68 4294967295 60 57,
       uint4.mk 69 70 68 60, uint4.mk 70 4294967295 55 61, uint4.mk 71 66 70 55,
       uint4.mk 65 72 59 58, uint4.mk 75 74 4294967295 59, uint4.mk 59 75 63 62,
       uint4.mk 79 78 4294967295 63, uint4.mk 63 79 65 64, uint4.mk 72 73 4294967295 65,
       uint4.mk 76 71 4294967295 66, uint4.mk 4294967295 83 82 71, uint4.mk 4294967295 77 76 67,
       uint4.mk 80 67 4294967295 68, uint4.mk 84 4294967295 74 72, uint4.mk 85 86 84 74,
       uint4.mk 4294967295 81 80 69, uint4.mk 82 69 4294967295 70, uint4.mk 86 4294967295 78 75,
       uint4.mk 87 88 86 78, uint4.mk 88 4294967295 73 79, uint4.mk 89 84 88 73,
       uint4.mk 83 90 77 76, uint4.mk 93 92 4294967295 77, uint4.mk 77 93 81 80,
       uint4.mk 97 96 4294967295 81, uint4.mk 81 97 83 82, uint4.mk 90 91 4294967295 83,
       uint4.mk 94 89 4294967295 84, uint4.mk 4294967295 101 100 89, uint4.mk 4294967295 95 94 85,
       uint4.mk 98 85 4294967295 86, uint4.mk 102 4294967295 92 90, uint4.mk 103 104 102 92,
       uint4.mk 4294967295 99 98 87, uint4.mk 100 87 4294967295 88, uint4.mk 104 4294967295 96 93,
       uint4.mk 105 106 104 96, uint4.mk 106 4294967295 91 97, uint4.mk 107 102 106 91,
       uint4.mk 101 108 95 94, uint4.mk 111 110 4294967295 95, uint4.mk 95 111 99 98,
       uint4.mk 115 114 4294967295 99, uint4.mk 99 115 101 100, uint4.mk 108 109 4294967295 101,
       uint4.mk 112 107 4294967295 102, uint4.mk 4294967295 119 118 107,
       uint4.mk 4294967295 113 112 103, uint4.mk 116 103 4294967295 104,
       uint4.mk 120 4294967295 110 108, uint4.mk 121 122 120 110, uint4.mk 4294967295 117 116 105,
       uint4.mk 118 105 4294967295 106, uint4.mk 122 4294967295 114 111, uint4.mk 123 124 122 114,
       uint4.mk 124 4294967295 109 115, uint4.mk 125 120 124 109, uint4.mk 119 0 113 112,
       uint4.mk 113 0 7 4294967295, uint4.mk 113 7 117 116, uint4.mk 117 7 21 4294967295,
       uint4.mk 117 21 119 118, uint4.mk 119 21 0 4294967295],
    basePoints := g_CubeType0Vertices,
    baseTypes := List.replicate 24 0,
    tetraCacheArray := List.replicate 126 default,
    modifArray :=
      [2, 0, 0, 2, 0, 0, 2, 2, 0, 0, 0, 0, 0, 0, 0, 0, 0, 0, 0, 0, 2, 2, 0, 0, 2, 2, 2, 2, 2, 2, 2,
       2, 2, 2, 2, 2, 2, 2, 2, 2, 2, 2, 2, 2, 2, 2, 2, 2, 2, 2, 2, 2, 2, 2, 2, 2, 2, 2, 2, 2, 2, 2,
       2, 2, 2, 2, 2, 2, 2, 2, 2, 2, 2, 2, 2, 2, 2, 2, 2, 2, 2, 2, 2, 2, 2, 2, 2, 2, 2, 2, 2, 2, 2,
       2, 2, 2, 2, 2, 2, 2, 2, 2, 2, 2, 2, 2, 2, 2, 2, 2, 2, 2, 2, 2, 2, 2, 2, 2, 2, 2, 2, 2, 2, 2,
       2, 2],
    depthArray := List.replicate 126 0,
    diamonds :=
      [Diamond.mk [64, 77, 78, 105, 106, 71] 6, Diamond.mk [128, 143, 128, 128] 4,
       Diamond.mk [155, 156, 155, 155] 4, Diamond.mk [211, 212, 211, 211] 4,
       Diamond.mk [512, 623, 624, 847, 848, 575] 6, Diamond.mk [1024, 1151, 1024, 1024] 4,
       Diamond.mk [1247, 1248, 1247, 1247] 4, Diamond.mk [1695, 1696, 1695, 1695] 4,
       Diamond.mk [4096, 4991, 4992, 6783, 6784, 4607] 6, Diamond.mk [8192, 9215, 8192, 8192] 4,
       Diamond.mk [9983, 9984, 9983, 9983] 4, Diamond.mk [13567, 13568, 13567, 13567] 4,
       Diamond.mk [32768, 39935, 39936, 54271, 54272, 36863] 6,
       Diamond.mk [65536, 73727, 65536, 65536] 4, Diamond.mk [79871, 79872, 79871, 79871] 4,
       Diamond.mk [108543, 108544, 108543, 108543] 4,
       Diamond.mk [262144, 319487, 319488, 434175, 434176, 294911] 6,
       Diamond.mk [524288, 589823, 524288, 524288] 4,
       Diamond.mk [638975, 638976, 638975, 638975] 4,
       Diamond.mk [868351, 868352, 868351, 868351] 4,
       Diamond.mk [2097152, 2555903, 2555904, 3473407, 3473408, 2359295] 6] }

/-- The mesh after nineteen calls `recursive_split_element(volume, 0)` on the root mesh,
spelled out: 132 elements. -/
def chainVolume19 : LEBVolume :=
  { totalNumElements := 132, minimalDepth := 5,
    heapIDArray :=
      [16777216, 33, 34, 70, 36, 37, 76, 10223616, 40, 41, 42, 43, 44, 45, 46, 47, 48, 49, 50, 51,
       104, 6946816, 54, 55, 65, 154, 79, 210, 107, 142, 129, 310, 157, 422, 213, 286, 257, 574,
       622, 313, 513, 1246, 846, 425, 625, 1694, 849, 1150, 1025, 2494, 1249, 3390, 1697, 2302,
       2049, 4606, 4990, 2497, 4097, 9982, 6782, 3393, 4993, 13566, 6785, 9214, 8193, 19966, 9985,
       27134, 13569, 18430, 16385, 36862, 39934, 19969, 32769, 79870, 54270, 27137, 39937, 108542,
       54273, 73726, 65537, 159742, 79873, 217086, 108545, 147454, 131073, 294910, 319486, 159745,
       262145, 638974, 434174, 217089, 319489, 868350, 434177, 589822, 524289, 1277950, 638977,
       1736702, 868353, 1179646, 1048577, 2359294, 2555902, 1277953, 2097153, 5111806, 3473406,
       1736705, 2555905, 6946814, 3473409, 4718590, 4194305, 10223614, 5111809, 6946815, 6946817,
       9437182, 8388609, 9437183, 20447230, 10223617, 16777217, 20447231],
    typeArray :=
      [1, 0, 0, 1, 0, 0, 1, 0, 0, 0, 0, 0, 0, 0, 0, 0, 0, 0, 0, 0, 1, 3, 0, 0, 2, 3, 2, 3, 2, 3, 3,
       0, 3, 0, 3, 0, 0, 1, 1, 0, 2, 3, 1, 0, 2, 3, 2, 3, 3, 0, 3, 0, 3, 0, 0, 1, 1, 0, 2, 3, 1, 0,
       2, 3, 2, 3, 3, 0, 3, 0, 3, 0, 0, 1, 1, 0, 2, 3, 1, 0, 2, 3, 2, 3, 3, 0, 3, 0, 3, 0, 0, 1, 1,
       0, 2, 3, 1, 0, 2, 3, 2, 3, 3, 0, 3, 0, 3, 0, 0, 1, 1, 0, 2, 3, 1, 0, 2, 3, 2, 3, 3, 0, 3, 3,
       3, 0, 0, 0, 1, 0, 2, 2],
    neighborsArray :=
      [uint4.mk 4294967295 130 131 127, uint4.mk 24 2 4294967295 19, uint4.mk 1 3 4294967295 12,
       uint4.mk 4294967295 29 28 2, uint4.mk 26 5 4294967295 10, uint4.mk 4 6 4294967295 16,
       uint4.mk 4294967295 25 24 5, uint4.mk 131 129 4294967295 123, uint4.mk 11 9 4294967295 14,
       uint4.mk 8 10 4294967295 17, uint4.mk 9 11 4294967295 4, uint4.mk 10 8 4294967295 23,
       uint4.mk 15 13 4294967295 2, uint4.mk 12 14 4294967295 18, uint4.mk 13 15 4294967295 8,
       uint4.mk 14 12 4294967295 22, uint4.mk 19 17 4294967295 5, uint4.mk 16 18 4294967295 9,
       uint4.mk 17 19 4294967295 13, uint4.mk 18 16 4294967295 1, uint4.mk 4294967295 27 26 23,
       uint4.mk 127 124 123 4294967295, uint4.mk 28 23 4294967295 15, uint4.mk 22 20 4294967295 11,
       uint4.mk 30 4294967295 6 1, uint4.mk 31 32 30 6, uint4.mk 32 4294967295 20 4,
       uint4.mk 33 34 32 20, uint4.mk 34 4294967295 3 22, uint4.mk 35 30 34 3,
       uint4.mk 29 36 25 24, uint4.mk 39 38 4294967295 25, uint4.mk 25 39 27 26,
       uint4.mk 43 42 4294967295 27, uint4.mk 27 43 29 28, uint4.mk 36 37 4294967295 29,
       uint4.mk 40 35 4294967295 30, uint4.mk 4294967295 47 46 35, uint4.mk 4294967295 41 40 31,
       uint4.mk 44 31 4294967295 32, uint4.mk 48 4294967295 38 36, uint4.mk 49 50 48 38,
       uint4.mk 4294967295 45 44 33, uint4.mk 46 33 4294967295 34, uint4.mk 50 4294967295 42 39,
       uint4.mk 51 52 50 42, uint4.mk 52 4294967295 37 43, uint4.mk 53 48 52 37,
       uint4.mk 47 54 41 40, uint4.mk 57 56 4294967295 41, uint4.mk 41 57 45 44,
       uint4.mk 61 60 4294967295 45, uint4.mk 45 61 47 46, uint4.mk 54 55 4294967295 47,
       uint4.mk 58 53 4294967295 48, uint4.mk 4294967295 65 64 53, uint4.mk 4294967295 59 58 49,
       uint4.mk 62 49 4294967295 50, uint4.mk 66 4294967295 56 54, uint4.mk 67 68 66 56,
       uint4.mk 4294967295 63 62 51, uint4.mk 64 51 4294967295 52, uint4.mk 68 4294967295 60 57,
       uint4.mk 69 70 68 60, uint4.mk 70 4294967295 55 61, uint4.mk 71 66 70 55,
       uint4.mk 65 72 59 58, uint4.mk 75 74 4294967295 59, uint4.mk 59 75 63 62,
       uint4.mk 79 78 4294967295 63, uint4.mk 63 79 65 64, uint4.mk 72 73 4294967295 65,
       uint4.mk 76 71 4294967295 66, uint4.mk 4294967295 83 82 71, uint4.mk 4294967295 77 76 67,
       uint4.mk 80 67 4294967295 68, uint4.mk 84 4294967295 74 72, uint4.mk 85 86 84 74,
       uint4.mk 4294967295 81 80 69, uint4.mk 82 69 4294967295 70, uint4.mk 86 4294967295 78 75,
       uint4.mk 87 88 86 78, uint4.mk 88 4294967295 73 79, uint4.mk 89 84 88 73,
       uint4.mk 83 90 77 76, uint4.mk 93 92 4294967295 77, uint4.mk 77 93 81 80,
       uint4.mk 97 96 4294967295 81, uint4.mk 81 97 83 82, uint4.mk 90 91 4294967295 83,
       uint4.mk 94 89 4294967295 84, uint4.mk 4294967295 101 100 89, uint4.mk 4294967295 95 94 85,
       uint4.mk 98 85 4294967295 86, uint4.mk 102 4294967295 92 90, uint4.mk 103 104 102 92,
       uint4.mk 4294967295 99 98 87, uint4.mk 100 87 4294967295 88, uint4.mk 104 4294967295 96 93,
       uint4.mk 105 106 104 96, uint4.mk 106 4294967295 91 97, uint4.mk 107 102 106 91,
       uint4.mk 101 108 95 94, uint4.mk 111 110 4294967295 95, uint4.mk 95 111 99 98,
       uint4.mk 115 114 4294967295 99, uint4.mk 99 115 101 100, uint4.mk 108 109 4294967295 101,
       uint4.mk 112 107 4294967295 102, uint4.mk 4294967295 119 118 107,
       uint4.mk 4294967295 113 112 103, uint4.mk 116 103 4294967295 104,
       uint4.mk 120 4294967295 110 108, uint4.mk 121 122 120 110, uint4.mk 4294967295 117 116 105,
       uint4.mk 118 105 4294967295 106, uint4.mk 122 4294967295 114 111, uint4.mk 123 124 122 114,
       uint4.mk 124 4294967295 109 115, uint4.mk 125 120 124 109, uint4.mk 119 126 113 112,
       uint4.mk 129 128 4294967295 113, uint4.mk 113 129 117 116, uint4.mk 117 7 21 4294967295,
       uint4.mk 117 21 119 118, uint4.mk 126 127 4294967295 119, uint4.mk 130 125 4294967295 120,
       uint4.mk 125 0 4294967295 21, uint4.mk 4294967295 131 130 121,
       uint4.mk 7 121 4294967295 122, uint4.mk 0 4294967295 128 126, uint4.mk 128 4294967295 0 7],
    basePoints := g_CubeType0Vertices,
    baseTypes := List.replicate 24 0,
    tetraCacheArray := List.replicate 132 default,
    modifArray :=
      [2, 0, 0, 2, 0, 0, 2, 2, 0, 0, 0, 0, 0, 0, 0, 0, 0, 0, 0, 0, 2, 2, 0, 0, 2, 2, 2, 2, 2, 2, 2,
       2, 2, 2, 2, 2, 2, 2, 2, 2, 2, 2, 2, 2, 2, 2, 2, 2, 2, 2, 2, 2, 2, 2, 2, 2, 2, 2, 2, 2, 2, 2,
       2, 2, 2, 2, 2, 2, 2, 2, 2, 2, 2, 2, 2, 2, 2, 2, 2, 2, 2, 2, 2, 2, 2, 2, 2, 2, 2, 2, 2, 2, 2,
       2, 2, 2, 2, 2, 2, 2, 2, 2, 2, 2, 2, 2, 2, 2, 2, 2, 2, 2, 2, 2, 2, 2, 2, 2, 2, 2, 2, 2, 2, 2,
       2, 2, 2, 2, 2, 2, 2, 2],
    depthArray := List.replicate 132 0,
    diamonds :=
      [Diamond.mk [64, 77, 78, 105, 106, 71] 6, Diamond.mk [128, 143, 128, 128] 4,
       Diamond.mk [155, 156, 155, 155] 4, Diamond.mk [211, 212, 211, 211] 4,
       Diamond.mk [512, 623, 624, 847, 848, 575] 6, Diamond.mk [1024, 1151, 1024, 1024] 4,
       Diamond.mk [1247, 1248, 1247, 1247] 4, Diamond.mk [1695, 1696, 1695, 1695] 4,
       Diamond.mk [4096, 4991, 4992, 6783, 6784, 4607] 6, Diamond.mk [8192, 9215, 8192, 8192] 4,
       Diamond.mk [9983, 9984, 9983, 9983] 4, Diamond.mk [13567, 13568, 13567, 13567] 4,
       Diamond.mk [32768, 39935, 39936, 54271, 54272, 36863] 6,
       Diamond.mk [65536, 73727, 65536, 65536] 4, Diamond.mk [79871, 79872, 79871, 79871] 4,
       Diamond.mk [108543, 108544, 108543, 108543] 4,
       Diamond.mk [262144, 319487, 319488, 434175, 434176, 294911] 6,
       Diamond.mk [524288, 589823, 524288, 524288] 4,
       Diamond.mk [638975, 638976, 638975, 638975] 4,
       Diamond.mk [868351, 868352, 868351, 868351] 4,
       Diamond.mk [2097152, 2555903, 2555904, 3473407, 3473408, 2359295] 6,
       Diamond.mk [4194304, 4718591, 4194304, 4194304] 4,
       Diamond.mk [5111807, 5111808, 5111807, 5111807] 4] }

/-- The mesh after 43 diamond splits along the calls `recursive_split_element(volume, 0)` on
the root mesh, in the course of the call 20, spelled out: 134 elements. -/
def chainStep43 : LEBVolume :=
  { totalNumElements := 134, minimalDepth := 5,
    heapIDArray :=
      [16777216, 33, 34, 70, 36, 37, 76, 10223616, 40, 41, 42, 43, 44, 45, 46, 47, 48, 49, 50, 51,
       104, 13893632, 54, 55, 65, 154, 79, 210, 107, 142, 129, 310, 157, 422, 213, 286, 257, 574,
       622, 313, 513, 1246, 846, 425, 625, 1694, 849, 1150, 1025, 2494, 1249, 3390, 1697, 2302,
       2049, 4606, 4990, 2497, 4097, 9982, 6782, 3393, 4993, 13566, 6785, 9214, 8193, 19966, 9985,
       27134, 13569, 18430, 16385, 36862, 39934, 19969, 32769, 79870, 54270, 27137, 39937, 108542,
       54273, 73726, 65537, 159742, 79873, 217086, 108545, 147454, 131073, 294910, 319486, 159745,
       262145, 638974, 434174, 217089, 319489, 868350, 434177, 589822, 524289, 1277950, 638977,
       1736702, 868353, 1179646, 1048577, 2359294, 2555902, 1277953, 2097153, 5111806, 3473406,
       1736705, 2555905, 6946814, 3473409, 4718590, 4194305, 10223614, 5111809, 13893630, 6946817,
       9437182, 8388609, 9437183, 20447230, 10223617, 16777217, 20447231, 13893631, 13893633],
    typeArray :=
      [1, 0, 0, 1, 0, 0, 1, 0, 0, 0, 0, 0, 0, 0, 0, 0, 0, 0, 0, 0, 1, 0, 0, 0, 2, 3, 2, 3, 2, 3, 3,
       0, 3, 0, 3, 0, 0, 1, 1, 0, 2, 3, 1, 0, 2, 3, 2, 3, 3, 0, 3, 0, 3, 0, 0, 1, 1, 0, 2, 3, 1, 0,
       2, 3, 2, 3, 3, 0, 3, 0, 3, 0, 0, 1, 1, 0, 2, 3, 1, 0, 2, 3, 2, 3, 3, 0, 3, 0, 3, 0, 0, 1, 1,
       0, 2, 3, 1, 0, 2, 3, 2, 3, 3, 0, 3, 0, 3, 0, 0, 1, 1, 0, 2, 3, 1, 0, 2, 3, 2, 3, 3, 0, 3, 0,
       3, 0, 0, 0, 1, 0, 2, 2, 0, 0],
    neighborsArray :=
      [uint4.mk 4294967295 130 131 127, uint4.mk 24 2 4294967295 19, uint4.mk 1 3 4294967295 12,
       uint4.mk 4294967295 29 28 2, uint4.mk 26 5 4294967295 10, uint4.mk 4 6 4294967295 16,
       uint4.mk 4294967295 25 24 5, uint4.mk 131 129 4294967295 132, uint4.mk 11 9 4294967295 14,
       uint4.mk 8 10 4294967295 17, uint4.mk 9 11 4294967295 4, uint4.mk 10 8 4294967295 23,
       uint4.mk 15 13 4294967295 2, uint4.mk 12 14 4294967295 18, uint4.mk 13 15 4294967295 8,
       uint4.mk 14 12 4294967295 22, uint4.mk 19 17 4294967295 5, uint4.mk 16 18 4294967295 9,
       uint4.mk 17 19 4294967295 13, uint4.mk 18 16 4294967295 1, uint4.mk 4294967295 27 26 23,
       uint4.mk 132 133 4294967295 127, uint4.mk 28 23 4294967295 15, uint4.mk 22 20 4294967295 11,
       uint4.mk 30 4294967295 6 1, uint4.mk 31 32 30 6, uint4.mk 32 4294967295 20 4,
       uint4.mk 33 34 32 20, uint4.mk 34 4294967295 3 22, uint4.mk 35 30 34 3,
       uint4.mk 29 36 25 24, uint4.mk 39 38 4294967295 25, uint4.mk 25 39 27 26,
       uint4.mk 43 42 4294967295 27, uint4.mk 27 43 29 28, uint4.mk 36 37 4294967295 29,
       uint4.mk 40 35 4294967295 30, uint4.mk 4294967295 47 46 35, uint4.mk 4294967295 41 40 31,
       uint4.mk 44 31 4294967295 32, uint4.mk 48 4294967295 38 36, uint4.mk 49 50 48 38,
       uint4.mk 4294967295 45 44 33, uint4.mk 46 33 4294967295 34, uint4.mk 50 4294967295 42 39,
       uint4.mk 51 52 50 42, uint4.mk 52 4294967295 37 43, uint4.mk 53 48 52 37,
       uint4.mk 47 54 41 40, uint4.mk 57 56 4294967295 41, uint4.mk 41 57 45 44,
       uint4.mk 61 60 4294967295 45, uint4.mk 45 61 47 46, uint4.mk 54 55 4294967295 47,
       uint4.mk 58 53 4294967295 48, uint4.mk 4294967295 65 64 53, uint4.mk 4294967295 59 58 49,
       uint4.mk 62 49 4294967295 50, uint4.mk 66 4294967295 56 54, uint4.mk 67 68 66 56,
       uint4.mk 4294967295 63 62 51, uint4.mk 64 51 4294967295 52, uint4.mk 68 4294967295 60 57,
       uint4.mk 69 70 68 60, uint4.mk 70 4294967295 55 61, uint4.mk 71 66 70 55,
       uint4.mk 65 72 59 58, uint4.mk 75 74 4294967295 59, uint4.mk 59 75 63 62,
       uint4.mk 79 78 4294967295 63, uint4.mk 63 79 65 64, uint4.mk 72 73 4294967295 65,
       uint4.mk 76 71 4294967295 66, uint4.mk 4294967295 83 82 71, uint4.mk 4294967295 77 76 67,
       uint4.mk 80 67 4294967295 68, uint4.mk 84 4294967295 74 72, uint4.mk 85 86 84 74,
       uint4.mk 4294967295 81 80 69, uint4.mk 82 69 4294967295 70, uint4.mk 86 4294967295 78 75,
       uint4.mk 87 88 86 78, uint4.mk 88 4294967295 73 79, uint4.mk 89 84 88 73,
       uint4.mk 83 90 77 76, uint4.mk 93 92 4294967295 77, uint4.mk 77 93 81 80,
       uint4.mk 97 96 4294967295 81, uint4.mk 81 97 83 82, uint4.mk 90 91 4294967295 83,
       uint4.mk 94 89 4294967295 84, uint4.mk 4294967295 101 100 89, uint4.mk 4294967295 95 94 85,
       uint4.mk 98 85 4294967295 86, uint4.mk 102 4294967295 92 90, uint4.mk 103 104 102 92,
       uint4.mk 4294967295 99 98 87, uint4.mk 100 87 4294967295 88, uint4.mk 104 4294967295 96 93,
       uint4.mk 105 106 104 96, uint4.mk 106 4294967295 91 97, uint4.mk 107 102 106 91,
       uint4.mk 101 108 95 94, uint4.mk 111 110 4294967295 95, uint4.mk 95 111 99 98,
       uint4.mk 115 114 4294967295 99, uint4.mk 99 115 101 100, uint4.mk 108 109 4294967295 101,
       uint4.mk 112 107 4294967295 102, uint4.mk 4294967295 119 118 107,
       uint4.mk 4294967295 113 112 103, uint4.mk 116 103 4294967295 104,
       uint4.mk 120 4294967295 110 108, uint4.mk 121 122 120 110, uint4.mk 4294967295 117 116 105,
       uint4.mk 118 105 4294967295 106, uint4.mk 122 4294967295 114 111, uint4.mk 123 124 122 114,
       uint4.mk 124 4294967295 109 115, uint4.mk 125 120 124 109, uint4.mk 119 126 113 112,
       uint4.mk 129 128 4294967295 113, uint4.mk 113 129 117 116, uint4.mk 133 132 4294967295 117,
       uint4.mk 117 133 119 118, uint4.mk 126 127 4294967295 119, uint4.mk 130 125 4294967295 120,
       uint4.mk 125 0 4294967295 21, uint4.mk 4294967295 131 130 121,
       uint4.mk 7 121 4294967295 122, uint4.mk 0 4294967295 128 126, uint4.mk 128 4294967295 0 7,
       uint4.mk 123 21 4294967295 7, uint4.mk 21 123 4294967295 124],
    basePoints := g_CubeType0Vertices,
    baseTypes := List.replicate 24 0,
    tetraCacheArray := List.replicate 134 default,
    modifArray :=
      [2, 0, 0, 2, 0, 0, 2, 2, 0, 0, 0, 0, 0, 0, 0, 0, 0, 0, 0, 0, 2, 2, 0, 0, 2, 2, 2, 2, 2, 2, 2,
       2, 2, 2, 2, 2, 2, 2, 2, 2, 2, 2, 2, 2, 2, 2, 2, 2, 2, 2, 2, 2, 2, 2, 2, 2, 2, 2, 2, 2, 2, 2,
       2, 2, 2, 2, 2, 2, 2, 2, 2, 2, 2, 2, 2, 2, 2, 2, 2, 2, 2, 2, 2, 2, 2, 2, 2, 2, 2, 2, 2, 2, 2,
       2, 2, 2, 2, 2, 2, 2, 2, 2, 2, 2, 2, 2, 2, 2, 2, 2, 2, 2, 2, 2, 2, 2, 2, 2, 2, 2, 2, 2, 2, 2,
       2, 2, 2, 2, 2, 2, 2, 2, 2, 2],
    depthArray := List.replicate 134 0,
    diamonds :=
      [Diamond.mk [64, 77, 78, 105, 106, 71] 6, Diamond.mk [128, 143, 128, 128] 4,
       Diamond.mk [155, 156, 155, 155] 4, Diamond.mk [211, 212, 211, 211] 4,
       Diamond.mk [512, 623, 624, 847, 848, 575] 6, Diamond.mk [1024, 1151, 1024, 1024] 4,
       Diamond.mk [1247, 1248, 1247, 1247] 4, Diamond.mk [1695, 1696, 1695, 1695] 4,
       Diamond.mk [4096, 4991, 4992, 6783, 6784, 4607] 6, Diamond.mk [8192, 9215, 8192, 8192] 4,
       Diamond.mk [9983, 9984, 9983, 9983] 4, Diamond.mk [13567, 13568, 13567, 13567] 4,
       Diamond.mk [32768, 39935, 39936, 54271, 54272, 36863] 6,
       Diamond.mk [65536, 73727, 65536, 65536] 4, Diamond.mk [79871, 79872, 79871, 79871] 4,
       Diamond.mk [108543, 108544, 108543, 108543] 4,
       Diamond.mk [262144, 319487, 319488, 434175, 434176, 294911] 6,
       Diamond.mk [524288, 589823, 524288, 524288] 4,
       Diamond.mk [638975, 638976, 638975, 638975] 4,
       Diamond.mk [868351, 868352, 868351, 868351] 4,
       Diamond.mk [2097152, 2555903, 2555904, 3473407, 3473408, 2359295] 6,
       Diamond.mk [4194304, 4718591, 4194304, 4194304] 4,
       Diamond.mk [5111807, 5111808, 5111807, 5111807] 4,
       Diamond.mk [6946815, 6946816, 6946815, 6946815] 4] }

/-- The mesh after 44 diamond splits along the calls `recursive_split_element(volume, 0)` on
the root mesh, in the course of the call 20, spelled out: 136 elements. -/
def chainStep44 : LEBVolume :=
  { totalNumElements := 136, minimalDepth := 5,
    heapIDArray :=
      [16777216, 33, 34, 70, 36, 37, 76, 20447232, 40, 41, 42, 43, 44, 45, 46, 47, 48, 49, 50, 51,
       104, 13893632, 54, 55, 65, 154, 79, 210, 107, 142, 129, 310, 157, 422, 213, 286, 257, 574,
       622, 313, 513, 1246, 846, 425, 625, 1694, 849, 1150, 1025, 2494, 1249, 3390, 1697, 2302,
       2049, 4606, 4990, 2497, 4097, 9982, 6782, 3393, 4993, 13566, 6785, 9214, 8193, 19966, 9985,
       27134, 13569, 18430, 16385, 36862, 39934, 19969, 32769, 79870, 54270, 27137, 39937, 108542,
       54273, 73726, 65537, 159742, 79873, 217086, 108545, 147454, 131073, 294910, 319486, 159745,
       262145, 638974, 434174, 217089, 319489, 868350, 434177, 589822, 524289, 1277950, 638977,
       1736702, 868353, 1179646, 1048577, 2359294, 2555902, 1277953, 2097153, 5111806, 3473406,
       1736705, 2555905, 6946814, 3473409, 4718590, 4194305, 10223614, 5111809, 13893630, 6946817,
       9437182, 8388609, 9437183, 20447230, 10223617, 16777217, 20447231, 27787262, 13893633,
       20447233, 27787263],
    typeArray :=
      [1, 0, 0, 1, 0, 0, 1, 1, 0, 0, 0, 0, 0, 0, 0, 0, 0, 0, 0, 0, 1, 0, 0, 0, 2, 3, 2, 3, 2, 3, 3,
       0, 3, 0, 3, 0, 0, 1, 1, 0, 2, 3, 1, 0, 2, 3, 2, 3, 3, 0, 3, 0, 3, 0, 0, 1, 1, 0, 2, 3, 1, 0,
       2, 3, 2, 3, 3, 0, 3, 0, 3, 0, 0, 1, 1, 0, 2, 3, 1, 0, 2, 3, 2, 3, 3, 0, 3, 0, 3, 0, 0, 1, 1,
       0, 2, 3, 1, 0, 2, 3, 2, 3, 3, 0, 3, 0, 3, 0, 0, 1, 1, 0, 2, 3, 1, 0, 2, 3, 2, 3, 3, 0, 3, 0,
       3, 0, 0, 0, 1, 0, 2, 2, 1, 0, 2, 2],
    neighborsArray :=
      [uint4.mk 4294967295 130 131 127, uint4.mk 24 2 4294967295 19, uint4.mk 1 3 4294967295 12,
       uint4.mk 4294967295 29 28 2, uint4.mk 26 5 4294967295 10, uint4.mk 4 6 4294967295 16,
       uint4.mk 4294967295 25 24 5, uint4.mk 4294967295 134 135 131, uint4.mk 11 9 4294967295 14,
       uint4.mk 8 10 4294967295 17, uint4.mk 9 11 4294967295 4, uint4.mk 10 8 4294967295 23,
       uint4.mk 15 13 4294967295 2, uint4.mk 12 14 4294967295 18, uint4.mk 13 15 4294967295 8,
       uint4.mk 14 12 4294967295 22, uint4.mk 19 17 4294967295 5, uint4.mk 16 18 4294967295 9,
       uint4.mk 17 19 4294967295 13, uint4.mk 18 16 4294967295 1, uint4.mk 4294967295 27 26 23,
       uint4.mk 135 133 4294967295 127, uint4.mk 28 23 4294967295 15, uint4.mk 22 20 4294967295 11,
       uint4.mk 30 4294967295 6 1, uint4.mk 31 32 30 6, uint4.mk 32 4294967295 20 4,
       uint4.mk 33 34 32 20, uint4.mk 34 4294967295 3 22, uint4.mk 35 30 34 3,
       uint4.mk 29 36 25 24, uint4.mk 39 38 4294967295 25, uint4.mk 25 39 27 26,
       uint4.mk 43 42 4294967295 27, uint4.mk 27 43 29 28, uint4.mk 36 37 4294967295 29,
       uint4.mk 40 35 4294967295 30, uint4.mk 4294967295 47 46 35, uint4.mk 4294967295 41 40 31,
       uint4.mk 44 31 4294967295 32, uint4.mk 48 4294967295 38 36, uint4.mk 49 50 48 38,
       uint4.mk 4294967295 45 44 33, uint4.mk 46 33 4294967295 34, uint4.mk 50 4294967295 42 39,
       uint4.mk 51 52 50 42, uint4.mk 52 4294967295 37 43, uint4.mk 53 48 52 37,
       uint4.mk 47 54 41 40, uint4.mk 57 56 4294967295 41, uint4.mk 41 57 45 44,
       uint4.mk 61 60 4294967295 45, uint4.mk 45 61 47 46, uint4.mk 54 55 4294967295 47,
       uint4.mk 58 53 4294967295 48, uint4.mk 4294967295 65 64 53, uint4.mk 4294967295 59 58 49,
       uint4.mk 62 49 4294967295 50, uint4.mk 66 4294967295 56 54, uint4.mk 67 68 66 56,
       uint4.mk 4294967295 63 62 51, uint4.mk 64 51 4294967295 52, uint4.mk 68 4294967295 60 57,
       uint4.mk 69 70 68 60, uint4.mk 70 4294967295 55 61, uint4.mk 71 66 70 55,
       uint4.mk 65 72 59 58, uint4.mk 75 74 4294967295 59, uint4.mk 59 75 63 62,
       uint4.mk 79 78 4294967295 63, uint4.mk 63 79 65 64, uint4.mk 72 73 4294967295 65,
       uint4.mk 76 71 4294967295 66, uint4.mk 4294967295 83 82 71, uint4.mk 4294967295 77 76 67,
       uint4.mk 80 67 4294967295 68, uint4.mk 84 4294967295 74 72, uint4.mk 85 86 84 74,
       uint4.mk 4294967295 81 80 69, uint4.mk 82 69 4294967295 70, uint4.mk 86 4294967295 78 75,
       uint4.mk 87 88 86 78, uint4.mk 88 4294967295 73 79, uint4.mk 89 84 88 73,
       uint4.mk 83 90 77 76, uint4.mk 93 92 4294967295 77, uint4.mk 77 93 81 80,
       uint4.mk 97 96 4294967295 81, uint4.mk 81 97 83 82, uint4.mk 90 91 4294967295 83,
       uint4.mk 94 89 4294967295 84, uint4.mk 4294967295 101 100 89, uint4.mk 4294967295 95 94 85,
       uint4.mk 98 85 4294967295 86, uint4.mk 102 4294967295 92 90, uint4.mk 103 104 102 92,
       uint4.mk 4294967295 99 98 87, uint4.mk 100 87 4294967295 88, uint4.mk 104 4294967295 96 93,
       uint4.mk 105 106 104 96, uint4.mk 106 4294967295 91 97, uint4.mk 107 102 106 91,
       uint4.mk 101 108 95 94, uint4.mk 111 110 4294967295 95, uint4.mk 95 111 99 98,
       uint4.mk 115 114 4294967295 99, uint4.mk 99 115 101 100, uint4.mk 108 109 4294967295 101,
       uint4.mk 112 107 4294967295 102, uint4.mk 4294967295 119 118 107,
       uint4.mk 4294967295 113 112 103, uint4.mk 116 103 4294967295 104,
       uint4.mk 120 4294967295 110 108, uint4.mk 121 122 120 110, uint4.mk 4294967295 117 116 105,
       uint4.mk 118 105 4294967295 106, uint4.mk 122 4294967295 114 111, uint4.mk 123 124 122 114,
       uint4.mk 124 4294967295 109 115, uint4.mk 125 120 124 109, uint4.mk 119 126 113 112,
       uint4.mk 129 128 4294967295 113, uint4.mk 113 129 117 116, uint4.mk 133 132 4294967295 117,
       uint4.mk 117 133 119 118, uint4.mk 126 127 4294967295 119, uint4.mk 130 125 4294967295 120,
       uint4.mk 125 0 4294967295 21, uint4.mk 4294967295 131 130 121,
       uint4.mk 134 121 4294967295 122, uint4.mk 0 4294967295 128 126, uint4.mk 128 4294967295 0 7,
       uint4.mk 4294967295 135 134 123, uint4.mk 21 123 4294967295 124,
       uint4.mk 7 4294967295 132 129, uint4.mk 132 4294967295 7 21],
    basePoints := g_CubeType0Vertices,
    baseTypes := List.replicate 24 0,
    tetraCacheArray := List.replicate 136 default,
    modifArray :=
      [2, 0, 0, 2, 0, 0, 2, 2, 0, 0, 0, 0, 0, 0, 0, 0, 0, 0, 0, 0, 2, 2, 0, 0, 2, 2, 2, 2, 2, 2, 2,
       2, 2, 2, 2, 2, 2, 2, 2, 2, 2, 2, 2, 2, 2, 2, 2, 2, 2, 2, 2, 2, 2, 2, 2, 2, 2, 2, 2, 2, 2, 2,
       2, 2, 2, 2, 2, 2, 2, 2, 2, 2, 2, 2, 2, 2, 2, 2, 2, 2, 2, 2, 2, 2, 2, 2, 2, 2, 2, 2, 2, 2, 2,
       2, 2, 2, 2, 2, 2, 2, 2, 2, 2, 2, 2, 2, 2, 2, 2, 2, 2, 2, 2, 2, 2, 2, 2, 2, 2, 2, 2, 2, 2, 2,
       2, 2, 2, 2, 2, 2, 2, 2, 2, 2, 2, 2],
    depthArray := List.replicate 136 0,
    diamonds :=
      [Diamond.mk [64, 77, 78, 105, 106, 71] 6, Diamond.mk [128, 143, 128, 128] 4,
       Diamond.mk [155, 156, 155, 155] 4, Diamond.mk [211, 212, 211, 211] 4,
       Diamond.mk [512, 623, 624, 847, 848, 575] 6, Diamond.mk [1024, 1151, 1024, 1024] 4,
       Diamond.mk [1247, 1248, 1247, 1247] 4, Diamond.mk [1695, 1696, 1695, 1695] 4,
       Diamond.mk [4096, 4991, 4992, 6783, 6784, 4607] 6, Diamond.mk [8192, 9215, 8192, 8192] 4,
       Diamond.mk [9983, 9984, 9983, 9983] 4, Diamond.mk [13567, 13568, 13567, 13567] 4,
       Diamond.mk [32768, 39935, 39936, 54271, 54272, 36863] 6,
       Diamond.mk [65536, 73727, 65536, 65536] 4, Diamond.mk [79871, 79872, 79871, 79871] 4,
       Diamond.mk [108543, 108544, 108543, 108543] 4,
       Diamond.mk [262144, 319487, 319488, 434175, 434176, 294911] 6,
       Diamond.mk [524288, 589823, 524288, 524288] 4,
       Diamond.mk [638975, 638976, 638975, 638975] 4,
       Diamond.mk [868351, 868352, 868351, 868351] 4,
       Diamond.mk [2097152, 2555903, 2555904, 3473407, 3473408, 2359295] 6,
       Diamond.mk [4194304, 4718591, 4194304, 4194304] 4,
       Diamond.mk [5111807, 5111808, 5111807, 5111807] 4,
       Diamond.mk [6946815, 6946816, 6946815, 6946815] 4] }

/-- The mesh after 45 diamond splits along the calls `recursive_split_element(volume, 0)` on
the root mesh, in the course of the call 20, spelled out: 138 elements. -/
def chainStep45 : LEBVolume :=
  { totalNumElements := 138, minimalDepth := 5,
    heapIDArray :=
      [16777216, 33, 34, 70, 36, 37, 76, 20447232, 40, 41, 42, 43, 44, 45, 46, 47, 48, 49, 50, 51,
       104, 27787264, 54, 55, 65, 154, 79, 210, 107, 142, 129, 310, 157, 422, 213, 286, 257, 574,
       622, 313, 513, 1246, 846, 425, 625, 1694, 849, 1150, 1025, 2494, 1249, 3390, 1697, 2302,
       2049, 4606, 4990, 2497, 4097, 9982, 6782, 3393, 4993, 13566, 6785, 9214, 8193, 19966, 9985,
       27134, 13569, 18430, 16385, 36862, 39934, 19969, 32769, 79870, 54270, 27137, 39937, 108542,
       54273, 73726, 65537, 159742, 79873, 217086, 108545, 147454, 131073, 294910, 319486, 159745,
       262145, 638974, 434174, 217089, 319489, 868350, 434177, 589822, 524289, 1277950, 638977,
       1736702, 868353, 1179646, 1048577, 2359294, 2555902, 1277953, 2097153, 5111806, 3473406,
       1736705, 2555905, 6946814, 3473409, 4718590, 4194305, 10223614, 5111809, 13893630, 6946817,
       9437182, 8388609, 18874366, 20447230, 10223617, 16777217, 20447231, 27787262, 13893633,
       20447233, 27787263, 27787265, 18874367],
    typeArray :=
      [1, 0, 0, 1, 0, 0, 1, 1, 0, 0, 0, 0, 0, 0, 0, 0, 0, 0, 0, 0, 1, 1, 0, 0, 2, 3, 2, 3, 2, 3, 3,
       0, 3, 0, 3, 0, 0, 1, 1, 0, 2, 3, 1, 0, 2, 3, 2, 3, 3, 0, 3, 0, 3, 0, 0, 1, 1, 0, 2, 3, 1, 0,
       2, 3, 2, 3, 3, 0, 3, 0, 3, 0, 0, 1, 1, 0, 2, 3, 1, 0, 2, 3, 2, 3, 3, 0, 3, 0, 3, 0, 0, 1, 1,
       0, 2, 3, 1, 0, 2, 3, 2, 3, 3, 0, 3, 0, 3, 0, 0, 1, 1, 0, 2, 3, 1, 0, 2, 3, 2, 3, 3, 0, 3, 0,
       3, 0, 0, 1, 1, 0, 2, 2, 1, 0, 2, 2, 2, 2],
    neighborsArray :=
      [uint4.mk 4294967295 130 131 137, uint4.mk 24 2 4294967295 19, uint4.mk 1 3 4294967295 12,
       uint4.mk 4294967295 29 28 2, uint4.mk 26 5 4294967295 10, uint4.mk 4 6 4294967295 16,
       uint4.mk 4294967295 25 24 5, uint4.mk 4294967295 134 135 131, uint4.mk 11 9 4294967295 14,
       uint4.mk 8 10 4294967295 17, uint4.mk 9 11 4294967295 4, uint4.mk 10 8 4294967295 23,
       uint4.mk 15 13 4294967295 2, uint4.mk 12 14 4294967295 18, uint4.mk 13 15 4294967295 8,
       uint4.mk 14 12 4294967295 22, uint4.mk 19 17 4294967295 5, uint4.mk 16 18 4294967295 9,
       uint4.mk 17 19 4294967295 13, uint4.mk 18 16 4294967295 1, uint4.mk 4294967295 27 26 23,
       uint4.mk 4294967295 136 137 135, uint4.mk 28 23 4294967295 15, uint4.mk 22 20 4294967295 11,
       uint4.mk 30 4294967295 6 1, uint4.mk 31 32 30 6, uint4.mk 32 4294967295 20 4,
       uint4.mk 33 34 32 20, uint4.mk 34 4294967295 3 22, uint4.mk 35 30 34 3,
       uint4.mk 29 36 25 24, uint4.mk 39 38 4294967295 25, uint4.mk 25 39 27 26,
       uint4.mk 43 42 4294967295 27, uint4.mk 27 43 29 28, uint4.mk 36 37 4294967295 29,
       uint4.mk 40 35 4294967295 30, uint4.mk 4294967295 47 46 35, uint4.mk 4294967295 41 40 31,
       uint4.mk 44 31 4294967295 32, uint4.mk 48 4294967295 38 36, uint4.mk 49 50 48 38,
       uint4.mk 4294967295 45 44 33, uint4.mk 46 33 4294967295 34, uint4.mk 50 4294967295 42 39,
       uint4.mk 51 52 50 42, uint4.mk 52 4294967295 37 43, uint4.mk 53 48 52 37,
       uint4.mk 47 54 41 40, uint4.mk 57 56 4294967295 41, uint4.mk 41 57 45 44,
       uint4.mk 61 60 4294967295 45, uint4.mk 45 61 47 46, uint4.mk 54 55 4294967295 47,
       uint4.mk 58 53 4294967295 48, uint4.mk 4294967295 65 64 53, uint4.mk 4294967295 59 58 49,
       uint4.mk 62 49 4294967295 50, uint4.mk 66 4294967295 56 54, uint4.mk 67 68 66 56,
       uint4.mk 4294967295 63 62 51, uint4.mk 64 51 4294967295 52, uint4.mk 68 4294967295 60 57,
       uint4.mk 69 70 68 60, uint4.mk 70 4294967295 55 61, uint4.mk 71 66 70 55,
       uint4.mk 65 72 59 58, uint4.mk 75 74 4294967295 59, uint4.mk 59 75 63 62,
       uint4.mk 79 78 4294967295 63, uint4.mk 63 79 65 64, uint4.mk 72 73 4294967295 65,
       uint4.mk 76 71 4294967295 66, uint4.mk 4294967295 83 82 71, uint4.mk 4294967295 77 76 67,
       uint4.mk 80 67 4294967295 68, uint4.mk 84 4294967295 74 72, uint4.mk 85 86 84 74,
       uint4.mk 4294967295 81 80 69, uint4.mk 82 69 4294967295 70, uint4.mk 86 4294967295 78 75,
       uint4.mk 87 88 86 78, uint4.mk 88 4294967295 73 79, uint4.mk 89 84 88 73,
       uint4.mk 83 90 77 76, uint4.mk 93 92 4294967295 77, uint4.mk 77 93 81 80,
       uint4.mk 97 96 4294967295 81, uint4.mk 81 97 83 82, uint4.mk 90 91 4294967295 83,
       uint4.mk 94 89 4294967295 84, uint4.mk 4294967295 101 100 89, uint4.mk 4294967295 95 94 85,
       uint4.mk 98 85 4294967295 86, uint4.mk 102 4294967295 92 90, uint4.mk 103 104 102 92,
       uint4.mk 4294967295 99 98 87, uint4.mk 100 87 4294967295 88, uint4.mk 104 4294967295 96 93,
       uint4.mk 105 106 104 96, uint4.mk 106 4294967295 91 97, uint4.mk 107 102 106 91,
       uint4.mk 101 108 95 94, uint4.mk 111 110 4294967295 95, uint4.mk 95 111 99 98,
       uint4.mk 115 114 4294967295 99, uint4.mk 99 115 101 100, uint4.mk 108 109 4294967295 101,
       uint4.mk 112 107 4294967295 102, uint4.mk 4294967295 119 118 107,
       uint4.mk 4294967295 113 112 103, uint4.mk 116 103 4294967295 104,
       uint4.mk 120 4294967295 110 108, uint4.mk 121 122 120 110, uint4.mk 4294967295 117 116 105,
       uint4.mk 118 105 4294967295 106, uint4.mk 122 4294967295 114 111, uint4.mk 123 124 122 114,
       uint4.mk 124 4294967295 109 115, uint4.mk 125 120 124 109, uint4.mk 119 126 113 112,
       uint4.mk 129 128 4294967295 113, uint4.mk 113 129 117 116, uint4.mk 133 132 4294967295 117,
       uint4.mk 117 133 119 118, uint4.mk 126 127 4294967295 119, uint4.mk 130 125 4294967295 120,
       uint4.mk 4294967295 137 136 125, uint4.mk 4294967295 131 130 121,
       uint4.mk 134 121 4294967295 122, uint4.mk 0 4294967295 128 126, uint4.mk 128 4294967295 0 7,
       uint4.mk 4294967295 135 134 123, uint4.mk 136 123 4294967295 124,
       uint4.mk 7 4294967295 132 129, uint4.mk 132 4294967295 7 21, uint4.mk 21 4294967295 127 133,
       uint4.mk 127 4294967295 21 0],
    basePoints := g_CubeType0Vertices,
    baseTypes := List.replicate 24 0,
    tetraCacheArray := List.replicate 138 default,
    modifArray :=
      [2, 0, 0, 2, 0, 0, 2, 2, 0, 0, 0, 0, 0, 0, 0, 0, 0, 0, 0, 0, 2, 2, 0, 0, 2, 2, 2, 2, 2, 2, 2,
       2, 2, 2, 2, 2, 2, 2, 2, 2, 2, 2, 2, 2, 2, 2, 2, 2, 2, 2, 2, 2, 2, 2, 2, 2, 2, 2, 2, 2, 2, 2,
       2, 2, 2, 2, 2, 2, 2, 2, 2, 2, 2, 2, 2, 2, 2, 2, 2, 2, 2, 2, 2, 2, 2, 2, 2, 2, 2, 2, 2, 2, 2,
       2, 2, 2, 2, 2, 2, 2, 2, 2, 2, 2, 2, 2, 2, 2, 2, 2, 2, 2, 2, 2, 2, 2, 2, 2, 2, 2, 2, 2, 2, 2,
       2, 2, 2, 2, 2, 2, 2, 2, 2, 2, 2, 2, 2, 2],
    depthArray := List.replicate 138 0,
    diamonds :=
      [Diamond.mk [64, 77, 78, 105, 106, 71] 6, Diamond.mk [128, 143, 128, 128] 4,
       Diamond.mk [155, 156, 155, 155] 4, Diamond.mk [211, 212, 211, 211] 4,
       Diamond.mk [512, 623, 624, 847, 848, 575] 6, Diamond.mk [1024, 1151, 1024, 1024] 4,
       Diamond.mk [1247, 1248, 1247, 1247] 4, Diamond.mk [1695, 1696, 1695, 1695] 4,
       Diamond.mk [4096, 4991, 4992, 6783, 6784, 4607] 6, Diamond.mk [8192, 9215, 8192, 8192] 4,
       Diamond.mk [9983, 9984, 9983, 9983] 4, Diamond.mk [13567, 13568, 13567, 13567] 4,
       Diamond.mk [32768, 39935, 39936, 54271, 54272, 36863] 6,
       Diamond.mk [65536, 73727, 65536, 65536] 4, Diamond.mk [79871, 79872, 79871, 79871] 4,
       Diamond.mk [108543, 108544, 108543, 108543] 4,
       Diamond.mk [262144, 319487, 319488, 434175, 434176, 294911] 6,
       Diamond.mk [524288, 589823, 524288, 524288] 4,
       Diamond.mk [638975, 638976, 638975, 638975] 4,
       Diamond.mk [868351, 868352, 868351, 868351] 4,
       Diamond.mk [2097152, 2555903, 2555904, 3473407, 3473408, 2359295] 6,
       Diamond.mk [4194304, 4718591, 4194304, 4194304] 4,
       Diamond.mk [5111807, 5111808, 5111807, 5111807] 4,
       Diamond.mk [6946815, 6946816, 6946815, 6946815] 4] }

/-- The mesh after twenty calls `recursive_split_element(volume, 0)` on the root mesh,
spelled out: 144 elements. -/
def chainVolume20 : LEBVolume :=
  { totalNumElements := 144, minimalDepth := 5,
    heapIDArray :=
      [33554432, 33, 34, 70, 36, 37, 76, 40894464, 40, 41, 42, 43, 44, 45, 46, 47, 48, 49, 50, 51,
       104, 55574528, 54, 55, 65, 154, 79, 210, 107, 142, 129, 310, 157, 422, 213, 286, 257, 574,
       622, 313, 513, 1246, 846, 425, 625, 1694, 849, 1150, 1025, 2494, 1249, 3390, 1697, 2302,
       2049, 4606, 4990, 2497, 4097, 9982, 6782, 3393, 4993, 13566, 6785, 9214, 8193, 19966, 9985,
       27134, 13569, 18430, 16385, 36862, 39934, 19969, 32769, 79870, 54270, 27137, 39937, 108542,
       54273, 73726, 65537, 159742, 79873, 217086, 108545, 147454, 131073, 294910, 319486, 159745,
       262145, 638974, 434174, 217089, 319489, 868350, 434177, 589822, 524289, 1277950, 638977,
       1736702, 868353, 1179646, 1048577, 2359294, 2555902, 1277953, 2097153, 5111806, 3473406,
       1736705, 2555905, 6946814, 3473409, 4718590, 4194305, 10223614, 5111809, 13893630, 6946817,
       9437182, 8388609, 18874366, 20447230, 10223617, 16777217, 40894462, 27787262, 13893633,
       20447233, 55574526, 27787265, 37748734, 33554433, 40894463, 40894465, 55574527, 55574529,
       37748735],
    typeArray :=
      [3, 0, 0, 1, 0, 0, 1, 3, 0, 0, 0, 0, 0, 0, 0, 0, 0, 0, 0, 0, 1, 3, 0, 0, 2, 3, 2, 3, 2, 3, 3,
       0, 3, 0, 3, 0, 0, 1, 1, 0, 2, 3, 1, 0, 2, 3, 2, 3, 3, 0, 3, 0, 3, 0, 0, 1, 1, 0, 2, 3, 1, 0,
       2, 3, 2, 3, 3, 0, 3, 0, 3, 0, 0, 1, 1, 0, 2, 3, 1, 0, 2, 3, 2, 3, 3, 0, 3, 0, 3, 0, 0, 1, 1,
       0, 2, 3, 1, 0, 2, 3, 2, 3, 3, 0, 3, 0, 3, 0, 0, 1, 1, 0, 2, 3, 1, 0, 2, 3, 2, 3, 3, 0, 3, 0,
       3, 0, 0, 1, 1, 0, 2, 3, 1, 0, 2, 3, 2, 3, 3, 3, 3, 3, 3, 3],
    neighborsArray :=
      [uint4.mk 139 138 143 4294967295, uint4.mk 24 2 4294967295 19, uint4.mk 1 3 4294967295 12,
       uint4.mk 4294967295 29 28 2, uint4.mk 26 5 4294967295 10, uint4.mk 4 6 4294967295 16,
       uint4.mk 4294967295 25 24 5, uint4.mk 141 140 139 4294967295, uint4.mk 11 9 4294967295 14,
       uint4.mk 8 10 4294967295 17, uint4.mk 9 11 4294967295 4, uint4.mk 10 8 4294967295 23,
       uint4.mk 15 13 4294967295 2, uint4.mk 12 14 4294967295 18, uint4.mk 13 15 4294967295 8,
       uint4.mk 14 12 4294967295 22, uint4.mk 19 17 4294967295 5, uint4.mk 16 18 4294967295 9,
       uint4.mk 17 19 4294967295 13, uint4.mk 18 16 4294967295 1, uint4.mk 4294967295 27 26 23,
       uint4.mk 143 142 141 4294967295, uint4.mk 28 23 4294967295 15, uint4.mk 22 20 4294967295 11,
       uint4.mk 30 4294967295 6 1, uint4.mk 31 32 30 6, uint4.mk 32 4294967295 20 4,
       uint4.mk 33 34 32 20, uint4.mk 34 4294967295 3 22, uint4.mk 35 30 34 3,
       uint4.mk 29 36 25 24, uint4.mk 39 38 4294967295 25, uint4.mk 25 39 27 26,
       uint4.mk 43 42 4294967295 27, uint4.mk 27 43 29 28, uint4.mk 36 37 4294967295 29,
       uint4.mk 40 35 4294967295 30, uint4.mk 4294967295 47 46 35, uint4.mk 4294967295 41 40 31,
       uint4.mk 44 31 4294967295 32, uint4.mk 48 4294967295 38 36, uint4.mk 49 50 48 38,
       uint4.mk 4294967295 45 44 33, uint4.mk 46 33 4294967295 34, uint4.mk 50 4294967295 42 39,
       uint4.mk 51 52 50 42, uint4.mk 52 4294967295 37 43, uint4.mk 53 48 52 37,
       uint4.mk 47 54 41 40, uint4.mk 57 56 4294967295 41, uint4.mk 41 57 45 44,
       uint4.mk 61 60 4294967295 45, uint4.mk 45 61 47 46, uint4.mk 54 55 4294967295 47,
       uint4.mk 58 53 4294967295 48, uint4.mk 4294967295 65 64 53, uint4.mk 4294967295 59 58 49,
       uint4.mk 62 49 4294967295 50, uint4.mk 66 4294967295 56 54, uint4.mk 67 68 66 56,
       uint4.mk 4294967295 63 62 51, uint4.mk 64 51 4294967295 52, uint4.mk 68 4294967295 60 57,
       uint4.mk 69 70 68 60, uint4.mk 70 4294967295 55 61, uint4.mk 71 66 70 55,
       uint4.mk 65 72 59 58, uint4.mk 75 74 4294967295 59, uint4.mk 59 75 63 62,
       uint4.mk 79 78 4294967295 63, uint4.mk 63 79 65 64, uint4.mk 72 73 4294967295 65,
       uint4.mk 76 71 4294967295 66, uint4.mk 4294967295 83 82 71, uint4.mk 4294967295 77 76 67,
       uint4.mk 80 67 4294967295 68, uint4.mk 84 4294967295 74 72, uint4.mk 85 86 84 74,
       uint4.mk 4294967295 81 80 69, uint4.mk 82 69 4294967295 70, uint4.mk 86 4294967295 78 75,
       uint4.mk 87 88 86 78, uint4.mk 88 4294967295 73 79, uint4.mk 89 84 88 73,
       uint4.mk 83 90 77 76, uint4.mk 93 92 4294967295 77, uint4.mk 77 93 81 80,
       uint4.mk 97 96 4294967295 81, uint4.mk 81 97 83 82, uint4.mk 90 91 4294967295 83,
       uint4.mk 94 89 4294967295 84, uint4.mk 4294967295 101 100 89, uint4.mk 4294967295 95 94 85,
       uint4.mk 98 85 4294967295 86, uint4.mk 102 4294967295 92 90, uint4.mk 103 104 102 92,
       uint4.mk 4294967295 99 98 87, uint4.mk 100 87 4294967295 88, uint4.mk 104 4294967295 96 93,
       uint4.mk 105 106 104 96, uint4.mk 106 4294967295 91 97, uint4.mk 107 102 106 91,
       uint4.mk 101 108 95 94, uint4.mk 111 110 4294967295 95, uint4.mk 95 111 99 98,
       uint4.mk 115 114 4294967295 99, uint4.mk 99 115 101 100, uint4.mk 108 109 4294967295 101,
       uint4.mk 112 107 4294967295 102, uint4.mk 4294967295 119 118 107,
       uint4.mk 4294967295 113 112 103, uint4.mk 116 103 4294967295 104,
       uint4.mk 120 4294967295 110 108, uint4.mk 121 122 120 110, uint4.mk 4294967295 117 116 105,
       uint4.mk 118 105 4294967295 106, uint4.mk 122 4294967295 114 111, uint4.mk 123 124 122 114,
       uint4.mk 124 4294967295 109 115, uint4.mk 125 120 124 109, uint4.mk 119 126 113 112,
       uint4.mk 129 128 4294967295 113, uint4.mk 113 129 117 116, uint4.mk 133 132 4294967295 117,
       uint4.mk 117 133 119 118, uint4.mk 126 127 4294967295 119, uint4.mk 130 125 4294967295 120,
       uint4.mk 4294967295 137 136 125, uint4.mk 4294967295 131 130 121,
       uint4.mk 134 121 4294967295 122, uint4.mk 138 4294967295 128 126, uint4.mk 139 140 138 128,
       uint4.mk 4294967295 135 134 123, uint4.mk 136 123 4294967295 124,
       uint4.mk 140 4294967295 132 129, uint4.mk 141 142 140 132, uint4.mk 142 4294967295 127 133,
       uint4.mk 143 138 142 127, uint4.mk 137 0 131 130, uint4.mk 131 0 7 4294967295,
       uint4.mk 131 7 135 134, uint4.mk 135 7 21 4294967295, uint4.mk 135 21 137 136,
       uint4.mk 137 21 0 4294967295],
    basePoints := g_CubeType0Vertices,
    baseTypes := List.replicate 24 0,
    tetraCacheArray := List.replicate 144 default,
    modifArray :=
      [2, 0, 0, 2, 0, 0, 2, 2, 0, 0, 0, 0, 0, 0, 0, 0, 0, 0, 0, 0, 2, 2, 0, 0, 2, 2, 2, 2, 2, 2, 2,
       2, 2, 2, 2, 2, 2, 2, 2, 2, 2, 2, 2, 2, 2, 2, 2, 2, 2, 2, 2, 2, 2, 2, 2, 2, 2, 2, 2, 2, 2, 2,
       2, 2, 2, 2, 2, 2, 2, 2, 2, 2, 2, 2, 2, 2, 2, 2, 2, 2, 2, 2, 2, 2, 2, 2, 2, 2, 2, 2, 2, 2, 2,
       2, 2, 2, 2, 2, 2, 2, 2, 2, 2, 2, 2, 2, 2, 2, 2, 2, 2, 2, 2, 2, 2, 2, 2, 2, 2, 2, 2, 2, 2, 2,
       2, 2, 2, 2, 2, 2, 2, 2, 2, 2, 2, 2, 2, 2, 2, 2, 2, 2, 2, 2],
    depthArray := List.replicate 144 0,
    diamonds :=
      [Diamond.mk [64, 77, 78, 105, 106, 71] 6, Diamond.mk [128, 143, 128, 128] 4,
       Diamond.mk [155, 156, 155, 155] 4, Diamond.mk [211, 212, 211, 211] 4,
       Diamond.mk [512, 623, 624, 847, 848, 575] 6, Diamond.mk [1024, 1151, 1024, 1024] 4,
       Diamond.mk [1247, 1248, 1247, 1247] 4, Diamond.mk [1695, 1696, 1695, 1695] 4,
       Diamond.mk [4096, 4991, 4992, 6783, 6784, 4607] 6, Diamond.mk [8192, 9215, 8192, 8192] 4,
       Diamond.mk [9983, 9984, 9983, 9983] 4, Diamond.mk [13567, 13568, 13567, 13567] 4,
       Diamond.mk [32768, 39935, 39936, 54271, 54272, 36863] 6,
       Diamond.mk [65536, 73727, 65536, 65536] 4, Diamond.mk [79871, 79872, 79871, 79871] 4,
       Diamond.mk [108543, 108544, 108543, 108543] 4,
       Diamond.mk [262144, 319487, 319488, 434175, 434176, 294911] 6,
       Diamond.mk [524288, 589823, 524288, 524288] 4,
       Diamond.mk [638975, 638976, 638975, 638975] 4,
       Diamond.mk [868351, 868352, 868351, 868351] 4,
       Diamond.mk [2097152, 2555903, 2555904, 3473407, 3473408, 2359295] 6,
       Diamond.mk [4194304, 4718591, 4194304, 4194304] 4,
       Diamond.mk [5111807, 5111808, 5111807, 5111807] 4,
       Diamond.mk [6946815, 6946816, 6946815, 6946815] 4,
       Diamond.mk [16777216, 20447231, 20447232, 27787263, 27787264, 18874367] 6] }

/-- The mesh after 48 diamond splits along the calls `recursive_split_element(volume, 0)` on
the root mesh, in the course of the call 22, spelled out: 148 elements. -/
def chainStep48 : LEBVolume :=
  { totalNumElements := 148, minimalDepth := 5,
    heapIDArray :=
      [67108864, 33, 34, 70, 36, 37, 76, 81788928, 40, 41, 42, 43, 44, 45, 46, 47, 48, 49, 50, 51,
       104, 55574528, 54, 55, 65, 154, 79, 210, 107, 142, 129, 310, 157, 422, 213, 286, 257, 574,
       622, 313, 513, 1246, 846, 425, 625, 1694, 849, 1150, 1025, 2494, 1249, 3390, 1697, 2302,
       2049, 4606, 4990, 2497, 4097, 9982, 6782, 3393, 4993, 13566, 6785, 9214, 8193, 19966, 9985,
       27134, 13569, 18430, 16385, 36862, 39934, 19969, 32769, 79870, 54270, 27137, 39937, 108542,
       54273, 73726, 65537, 159742, 79873, 217086, 108545, 147454, 131073, 294910, 319486, 159745,
       262145, 638974, 434174, 217089, 319489, 868350, 434177, 589822, 524289, 1277950, 638977,
       1736702, 868353, 1179646, 1048577, 2359294, 2555902, 1277953, 2097153, 5111806, 3473406,
       1736705, 2555905, 6946814, 3473409, 4718590, 4194305, 10223614, 5111809, 13893630, 6946817,
       9437182, 8388609, 18874366, 20447230, 10223617, 16777217, 40894462, 27787262, 13893633,
       20447233, 55574526, 27787265, 37748734, 33554433, 81788926, 40894465, 55574527, 55574529,
       75497470, 67108865, 75497471, 81788927, 81788929],
    typeArray :=
      [0, 0, 0, 1, 0, 0, 1, 0, 0, 0, 0, 0, 0, 0, 0, 0, 0, 0, 0, 0, 1, 3, 0, 0, 2, 3, 2, 3, 2, 3, 3,
       0, 3, 0, 3, 0, 0, 1, 1, 0, 2, 3, 1, 0, 2, 3, 2, 3, 3, 0, 3, 0, 3, 0, 0, 1, 1, 0, 2, 3, 1, 0,
       2, 3, 2, 3, 3, 0, 3, 0, 3, 0, 0, 1, 1, 0, 2, 3, 1, 0, 2, 3, 2, 3, 3, 0, 3, 0, 3, 0, 0, 1, 1,
       0, 2, 3, 1, 0, 2, 3, 2, 3, 3, 0, 3, 0, 3, 0, 0, 1, 1, 0, 2, 3, 1, 0, 2, 3, 2, 3, 3, 0, 3, 0,
       3, 0, 0, 1, 1, 0, 2, 3, 1, 0, 2, 3, 2, 3, 3, 0, 3, 3, 3, 0, 0, 0, 0, 0],
    neighborsArray :=
      [uint4.mk 145 144 4294967295 146, uint4.mk 24 2 4294967295 19, uint4.mk 1 3 4294967295 12,
       uint4.mk 4294967295 29 28 2, uint4.mk 26 5 4294967295 10, uint4.mk 4 6 4294967295 16,
       uint4.mk 4294967295 25 24 5, uint4.mk 146 147 4294967295 141, uint4.mk 11 9 4294967295 14,
       uint4.mk 8 10 4294967295 17, uint4.mk 9 11 4294967295 4, uint4.mk 10 8 4294967295 23,
       uint4.mk 15 13 4294967295 2, uint4.mk 12 14 4294967295 18, uint4.mk 13 15 4294967295 8,
       uint4.mk 14 12 4294967295 22, uint4.mk 19 17 4294967295 5, uint4.mk 16 18 4294967295 9,
       uint4.mk 17 19 4294967295 13, uint4.mk 18 16 4294967295 1, uint4.mk 4294967295 27 26 23,
       uint4.mk 145 142 141 4294967295, uint4.mk 28 23 4294967295 15, uint4.mk 22 20 4294967295 11,
       uint4.mk 30 4294967295 6 1, uint4.mk 31 32 30 6, uint4.mk 32 4294967295 20 4,
       uint4.mk 33 34 32 20, uint4.mk 34 4294967295 3 22, uint4.mk 35 30 34 3,
       uint4.mk 29 36 25 24, uint4.mk 39 38 4294967295 25, uint4.mk 25 39 27 26,
       uint4.mk 43 42 4294967295 27, uint4.mk 27 43 29 28, uint4.mk 36 37 4294967295 29,
       uint4.mk 40 35 4294967295 30, uint4.mk 4294967295 47 46 35, uint4.mk 4294967295 41 40 31,
       uint4.mk 44 31 4294967295 32, uint4.mk 48 4294967295 38 36, uint4.mk 49 50 48 38,
       uint4.mk 4294967295 45 44 33, uint4.mk 46 33 4294967295 34, uint4.mk 50 4294967295 42 39,
       uint4.mk 51 52 50 42, uint4.mk 52 4294967295 37 43, uint4.mk 53 48 52 37,
       uint4.mk 47 54 41 40, uint4.mk 57 56 4294967295 41, uint4.mk 41 57 45 44,
       uint4.mk 61 60 4294967295 45, uint4.mk 45 61 47 46, uint4.mk 54 55 4294967295 47,
       uint4.mk 58 53 4294967295 48, uint4.mk 4294967295 65 64 53, uint4.mk 4294967295 59 58 49,
       uint4.mk 62 49 4294967295 50, uint4.mk 66 4294967295 56 54, uint4.mk 67 68 66 56,
       uint4.mk 4294967295 63 62 51, uint4.mk 64 51 4294967295 52, uint4.mk 68 4294967295 60 57,
       uint4.mk 69 70 68 60, uint4.mk 70 4294967295 55 61, uint4.mk 71 66 70 55,
       uint4.mk 65 72 59 58, uint4.mk 75 74 4294967295 59, uint4.mk 59 75 63 62,
       uint4.mk 79 78 4294967295 63, uint4.mk 63 79 65 64, uint4.mk 72 73 4294967295 65,
       uint4.mk 76 71 4294967295 66, uint4.mk 4294967295 83 82 71, uint4.mk 4294967295 77 76 67,
       uint4.mk 80 67 4294967295 68, uint4.mk 84 4294967295 74 72, uint4.mk 85 86 84 74,
       uint4.mk 4294967295 81 80 69, uint4.mk 82 69 4294967295 70, uint4.mk 86 4294967295 78 75,
       uint4.mk 87 88 86 78, uint4.mk 88 4294967295 73 79, uint4.mk 89 84 88 73,
       uint4.mk 83 90 77 76, uint4.mk 93 92 4294967295 77, uint4.mk 77 93 81 80,
       uint4.mk 97 96 4294967295 81, uint4.mk 81 97 83 82, uint4.mk 90 91 4294967295 83,
       uint4.mk 94 89 4294967295 84, uint4.mk 4294967295 101 100 89, uint4.mk 4294967295 95 94 85,
       uint4.mk 98 85 4294967295 86, uint4.mk 102 4294967295 92 90, uint4.mk 103 104 102 92,
       uint4.mk 4294967295 99 98 87, uint4.mk 100 87 4294967295 88, uint4.mk 104 4294967295 96 93,
       uint4.mk 105 106 104 96, uint4.mk 106 4294967295 91 97, uint4.mk 107 102 106 91,
       uint4.mk 101 108 95 94, uint4.mk 111 110 4294967295 95, uint4.mk 95 111 99 98,
       uint4.mk 115 114 4294967295 99, uint4.mk 99 115 101 100, uint4.mk 108 109 4294967295 101,
       uint4.mk 112 107 4294967295 102, uint4.mk 4294967295 119 118 107,
       uint4.mk 4294967295 113 112 103, uint4.mk 116 103 4294967295 104,
       uint4.mk 120 4294967295 110 108, uint4.mk 121 122 120 110, uint4.mk 4294967295 117 116 105,
       uint4.mk 118 105 4294967295 106, uint4.mk 122 4294967295 114 111, uint4.mk 123 124 122 114,
       uint4.mk 124 4294967295 109 115, uint4.mk 125 120 124 109, uint4.mk 119 126 113 112,
       uint4.mk 129 128 4294967295 113, uint4.mk 113 129 117 116, uint4.mk 133 132 4294967295 117,
       uint4.mk 117 133 119 118, uint4.mk 126 127 4294967295 119, uint4.mk 130 125 4294967295 120,
       uint4.mk 4294967295 137 136 125, uint4.mk 4294967295 131 130 121,
       uint4.mk 134 121 4294967295 122, uint4.mk 138 4294967295 128 126, uint4.mk 139 140 138 128,
       uint4.mk 4294967295 135 134 123, uint4.mk 136 123 4294967295 124,
       uint4.mk 140 4294967295 132 129, uint4.mk 141 142 140 132, uint4.mk 142 4294967295 127 133,
       uint4.mk 143 138 142 127, uint4.mk 137 144 131 130, uint4.mk 147 146 4294967295 131,
       uint4.mk 131 147 135 134, uint4.mk 135 7 21 4294967295, uint4.mk 135 21 137 136,
       uint4.mk 144 145 4294967295 137, uint4.mk 0 143 4294967295 138,
       uint4.mk 143 0 4294967295 21, uint4.mk 139 7 4294967295 0, uint4.mk 7 139 4294967295 140],
    basePoints := g_CubeType0Vertices,
    baseTypes := List.replicate 24 0,
    tetraCacheArray := List.replicate 148 default,
    modifArray :=
      [2, 0, 0, 2, 0, 0, 2, 2, 0, 0, 0, 0, 0, 0, 0, 0, 0, 0, 0, 0, 2, 2, 0, 0, 2, 2, 2, 2, 2, 2, 2,
       2, 2, 2, 2, 2, 2, 2, 2, 2, 2, 2, 2, 2, 2, 2, 2, 2, 2, 2, 2, 2, 2, 2, 2, 2, 2, 2, 2, 2, 2, 2,
       2, 2, 2, 2, 2, 2, 2, 2, 2, 2, 2, 2, 2, 2, 2, 2, 2, 2, 2, 2, 2, 2, 2, 2, 2, 2, 2, 2, 2, 2, 2,
       2, 2, 2, 2, 2, 2, 2, 2, 2, 2, 2, 2, 2, 2, 2, 2, 2, 2, 2, 2, 2, 2, 2, 2, 2, 2, 2, 2, 2, 2, 2,
       2, 2, 2, 2, 2, 2, 2, 2, 2, 2, 2, 2, 2, 2, 2, 2, 2, 2, 2, 2, 2, 2, 2, 2],
    depthArray := List.replicate 148 0,
    diamonds :=
      [Diamond.mk [64, 77, 78, 105, 106, 71] 6, Diamond.mk [128, 143, 128, 128] 4,
       Diamond.mk [155, 156, 155, 155] 4, Diamond.mk [211, 212, 211, 211] 4,
       Diamond.mk [512, 623, 624, 847, 848, 575] 6, Diamond.mk [1024, 1151, 1024, 1024] 4,
       Diamond.mk [1247, 1248, 1247, 1247] 4, Diamond.mk [1695, 1696, 1695, 1695] 4,
       Diamond.mk [4096, 4991, 4992, 6783, 6784, 4607] 6, Diamond.mk [8192, 9215, 8192, 8192] 4,
       Diamond.mk [9983, 9984, 9983, 9983] 4, Diamond.mk [13567, 13568, 13567, 13567] 4,
       Diamond.mk [32768, 39935, 39936, 54271, 54272, 36863] 6,
       Diamond.mk [65536, 73727, 65536, 65536] 4, Diamond.mk [79871, 79872, 79871, 79871] 4,
       Diamond.mk [108543, 108544, 108543, 108543] 4,
       Diamond.mk [262144, 319487, 319488, 434175, 434176, 294911] 6,
       Diamond.mk [524288, 589823, 524288, 524288] 4,
       Diamond.mk [638975, 638976, 638975, 638975] 4,
       Diamond.mk [868351, 868352, 868351, 868351] 4,
       Diamond.mk [2097152, 2555903, 2555904, 3473407, 3473408, 2359295] 6,
       Diamond.mk [4194304, 4718591, 4194304, 4194304] 4,
       Diamond.mk [5111807, 5111808, 5111807, 5111807] 4,
       Diamond.mk [6946815, 6946816, 6946815, 6946815] 4,
       Diamond.mk [16777216, 20447231, 20447232, 27787263, 27787264, 18874367] 6,
       Diamond.mk [33554432, 37748735, 33554432, 33554432] 4,
       Diamond.mk [40894463, 40894464, 40894463, 40894463] 4] }

/-- The mesh after twenty-two calls `recursive_split_element(volume, 0)` on the root mesh,
spelled out: 150 elements. -/
def chainVolume22 : LEBVolume :=
  { totalNumElements := 150, minimalDepth := 5,
    heapIDArray :=
      [134217728, 33, 34, 70, 36, 37, 76, 81788928, 40, 41, 42, 43, 44, 45, 46, 47, 48, 49, 50, 51,
       104, 55574528, 54, 55, 65, 154, 79, 210, 107, 142, 129, 310, 157, 422, 213, 286, 257, 574,
       622, 313, 513, 1246, 846, 425, 625, 1694, 849, 1150, 1025, 2494, 1249, 3390, 1697, 2302,
       2049, 4606, 4990, 2497, 4097, 9982, 6782, 3393, 4993, 13566, 6785, 9214, 8193, 19966, 9985,
       27134, 13569, 18430, 16385, 36862, 39934, 19969, 32769, 79870, 54270, 27137, 39937, 108542,
       54273, 73726, 65537, 159742, 79873, 217086, 108545, 147454, 131073, 294910, 319486, 159745,
       262145, 638974, 434174, 217089, 319489, 868350, 434177, 589822, 524289, 1277950, 638977,
       1736702, 868353, 1179646, 1048577, 2359294, 2555902, 1277953, 2097153, 5111806, 3473406,
       1736705, 2555905, 6946814, 3473409, 4718590, 4194305, 10223614, 5111809, 13893630, 6946817,
       9437182, 8388609, 18874366, 20447230, 10223617, 16777217, 40894462, 27787262, 13893633,
       20447233, 55574526, 27787265, 37748734, 33554433, 81788926, 40894465, 55574527, 55574529,
       75497470, 67108865, 75497471, 163577854, 81788929, 134217729, 163577855],
    typeArray :=
      [1, 0, 0, 1, 0, 0, 1, 0, 0, 0, 0, 0, 0, 0, 0, 0, 0, 0, 0, 0, 1, 3, 0, 0, 2, 3, 2, 3, 2, 3, 3,
       0, 3, 0, 3, 0, 0, 1, 1, 0, 2, 3, 1, 0, 2, 3, 2, 3, 3, 0, 3, 0, 3, 0, 0, 1, 1, 0, 2, 3, 1, 0,
       2, 3, 2, 3, 3, 0, 3, 0, 3, 0, 0, 1, 1, 0, 2, 3, 1, 0, 2, 3, 2, 3, 3, 0, 3, 0, 3, 0, 0, 1, 1,
       0, 2, 3, 1, 0, 2, 3, 2, 3, 3, 0, 3, 0, 3, 0, 0, 1, 1, 0, 2, 3, 1, 0, 2, 3, 2, 3, 3, 0, 3, 0,
       3, 0, 0, 1, 1, 0, 2, 3, 1, 0, 2, 3, 2, 3, 3, 0, 3, 3, 3, 0, 0, 0, 1, 0, 2, 2],
    neighborsArray :=
      [uint4.mk 4294967295 148 149 145, uint4.mk 24 2 4294967295 19, uint4.mk 1 3 4294967295 12,
       uint4.mk 4294967295 29 28 2, uint4.mk 26 5 4294967295 10, uint4.mk 4 6 4294967295 16,
       uint4.mk 4294967295 25 24 5, uint4.mk 149 147 4294967295 141, uint4.mk 11 9 4294967295 14,
       uint4.mk 8 10 4294967295 17, uint4.mk 9 11 4294967295 4, uint4.mk 10 8 4294967295 23,
       uint4.mk 15 13 4294967295 2, uint4.mk 12 14 4294967295 18, uint4.mk 13 15 4294967295 8,
       uint4.mk 14 12 4294967295 22, uint4.mk 19 17 4294967295 5, uint4.mk 16 18 4294967295 9,
       uint4.mk 17 19 4294967295 13, uint4.mk 18 16 4294967295 1, uint4.mk 4294967295 27 26 23,
       uint4.mk 145 142 141 4294967295, uint4.mk 28 23 4294967295 15, uint4.mk 22 20 4294967295 11,
       uint4.mk 30 4294967295 6 1, uint4.mk 31 32 30 6, uint4.mk 32 4294967295 20 4,
       uint4.mk 33 34 32 20, uint4.mk 34 4294967295 3 22, uint4.mk 35 30 34 3,
       uint4.mk 29 36 25 24, uint4.mk 39 38 4294967295 25, uint4.mk 25 39 27 26,
       uint4.mk 43 42 4294967295 27, uint4.mk 27 43 29 28, uint4.mk 36 37 4294967295 29,
       uint4.mk 40 35 4294967295 30, uint4.mk 4294967295 47 46 35, uint4.mk 4294967295 41 40 31,
       uint4.mk 44 31 4294967295 32, uint4.mk 48 4294967295 38 36, uint4.mk 49 50 48 38,
       uint4.mk 4294967295 45 44 33, uint4.mk 46 33 4294967295 34, uint4.mk 50 4294967295 42 39,
       uint4.mk 51 52 50 42, uint4.mk 52 4294967295 37 43, uint4.mk 53 48 52 37,
       uint4.mk 47 54 41 40, uint4.mk 57 56 4294967295 41, uint4.mk 41 57 45 44,
       uint4.mk 61 60 4294967295 45, uint4.mk 45 61 47 46, uint4.mk 54 55 4294967295 47,
       uint4.mk 58 53 4294967295 48, uint4.mk 4294967295 65 64 53, uint4.mk 4294967295 59 58 49,
       uint4.mk 62 49 4294967295 50, uint4.mk 66 4294967295 56 54, uint4.mk 67 68 66 56,
       uint4.mk 4294967295 63 62 51, uint4.mk 64 51 4294967295 52, uint4.mk 68 4294967295 60 57,
       uint4.mk 69 70 68 60, uint4.mk 70 4294967295 55 61, uint4.mk 71 66 70 55,
       uint4.mk 65 72 59 58, uint4.mk 75 74 4294967295 59, uint4.mk 59 75 63 62,
       uint4.mk 79 78 4294967295 63, uint4.mk 63 79 65 64, uint4.mk 72 73 4294967295 65,
       uint4.mk 76 71 4294967295 66, uint4.mk 4294967295 83 82 71, uint4.mk 4294967295 77 76 67,
       uint4.mk 80 67 4294967295 68, uint4.mk 84 4294967295 74 72, uint4.mk 85 86 84 74,
       uint4.mk 4294967295 81 80 69, uint4.mk 82 69 4294967295 70, uint4.mk 86 4294967295 78 75,
       uint4.mk 87 88 86 78, uint4.mk 88 4294967295 73 79, uint4.mk 89 84 88 73,
       uint4.mk 83 90 77 76, uint4.mk 93 92 4294967295 77, uint4.mk 77 93 81 80,
       uint4.mk 97 96 4294967295 81, uint4.mk 81 97 83 82, uint4.mk 90 91 4294967295 83,
       uint4.mk 94 89 4294967295 84, uint4.mk 4294967295 101 100 89, uint4.mk 4294967295 95 94 85,
       uint4.mk 98 85 4294967295 86, uint4.mk 102 4294967295 92 90, uint4.mk 103 104 102 92,
       uint4.mk 4294967295 99 98 87, uint4.mk 100 87 4294967295 88, uint4.mk 104 4294967295 96 93,
       uint4.mk 105 106 104 96, uint4.mk 106 4294967295 91 97, uint4.mk 107 102 106 91,
       uint4.mk 101 108 95 94, uint4.mk 111 110 4294967295 95, uint4.mk 95 111 99 98,
       uint4.mk 115 114 4294967295 99, uint4.mk 99 115 101 100, uint4.mk 108 109 4294967295 101,
       uint4.mk 112 107 4294967295 102, uint4.mk 4294967295 119 118 107,
       uint4.mk 4294967295 113 112 103, uint4.mk 116 103 4294967295 104,
       uint4.mk 120 4294967295 110 108, uint4.mk 121 122 120 110, uint4.mk 4294967295 117 116 105,
       uint4.mk 118 105 4294967295 106, uint4.mk 122 4294967295 114 111, uint4.mk 123 124 122 114,
       uint4.mk 124 4294967295 109 115, uint4.mk 125 120 124 109, uint4.mk 119 126 113 112,
       uint4.mk 129 128 4294967295 113, uint4.mk 113 129 117 116, uint4.mk 133 132 4294967295 117,
       uint4.mk 117 133 119 118, uint4.mk 126 127 4294967295 119, uint4.mk 130 125 4294967295 120,
       uint4.mk 4294967295 137 136 125, uint4.mk 4294967295 131 130 121,
       uint4.mk 134 121 4294967295 122, uint4.mk 138 4294967295 128 126, uint4.mk 139 140 138 128,
       uint4.mk 4294967295 135 134 123, uint4.mk 136 123 4294967295 124,
       uint4.mk 140 4294967295 132 129, uint4.mk 141 142 140 132, uint4.mk 142 4294967295 127 133,
       uint4.mk 143 138 142 127, uint4.mk 137 144 131 130, uint4.mk 147 146 4294967295 131,
       uint4.mk 131 147 135 134, uint4.mk 135 7 21 4294967295, uint4.mk 135 21 137 136,
       uint4.mk 144 145 4294967295 137, uint4.mk 148 143 4294967295 138,
       uint4.mk 143 0 4294967295 21, uint4.mk 4294967295 149 148 139,
       uint4.mk 7 139 4294967295 140, uint4.mk 0 4294967295 146 144, uint4.mk 146 4294967295 0 7],
    basePoints := g_CubeType0Vertices,
    baseTypes := List.replicate 24 0,
    tetraCacheArray := List.replicate 150 default,
    modifArray :=
      [2, 0, 0, 2, 0, 0, 2, 2, 0, 0, 0, 0, 0, 0, 0, 0, 0, 0, 0, 0, 2, 2, 0, 0, 2, 2, 2, 2, 2, 2, 2,
       2, 2, 2, 2, 2, 2, 2, 2, 2, 2, 2, 2, 2, 2, 2, 2, 2, 2, 2, 2, 2, 2, 2, 2, 2, 2, 2, 2, 2, 2, 2,
       2, 2, 2, 2, 2, 2, 2, 2, 2, 2, 2, 2, 2, 2, 2, 2, 2, 2, 2, 2, 2, 2, 2, 2, 2, 2, 2, 2, 2, 2, 2,
       2, 2, 2, 2, 2, 2, 2, 2, 2, 2, 2, 2, 2, 2, 2, 2, 2, 2, 2, 2, 2, 2, 2, 2, 2, 2, 2, 2, 2, 2, 2,
       2, 2, 2, 2, 2, 2, 2, 2, 2, 2, 2, 2, 2, 2, 2, 2, 2, 2, 2, 2, 2, 2, 2, 2, 2, 2],
    depthArray := List.replicate 150 0,
    diamonds :=
      [Diamond.mk [64, 77, 78, 105, 106, 71] 6, Diamond.mk [128, 143, 128, 128] 4,
       Diamond.mk [155, 156, 155, 155] 4, Diamond.mk [211, 212, 211, 211] 4,
       Diamond.mk [512, 623, 624, 847, 848, 575] 6, Diamond.mk [1024, 1151, 1024, 1024] 4,
       Diamond.mk [1247, 1248, 1247, 1247] 4, Diamond.mk [1695, 1696, 1695, 1695] 4,
       Diamond.mk [4096, 4991, 4992, 6783, 6784, 4607] 6, Diamond.mk [8192, 9215, 8192, 8192] 4,
       Diamond.mk [9983, 9984, 9983, 9983] 4, Diamond.mk [13567, 13568, 13567, 13567] 4,
       Diamond.mk [32768, 39935, 39936, 54271, 54272, 36863] 6,
       Diamond.mk [65536, 73727, 65536, 65536] 4, Diamond.mk [79871, 79872, 79871, 79871] 4,
       Diamond.mk [108543, 108544, 108543, 108543] 4,
       Diamond.mk [262144, 319487, 319488, 434175, 434176, 294911] 6,
       Diamond.mk [524288, 589823, 524288, 524288] 4,
       Diamond.mk [638975, 638976, 638975, 638975] 4,
       Diamond.mk [868351, 868352, 868351, 868351] 4,
       Diamond.mk [2097152, 2555903, 2555904, 3473407, 3473408, 2359295] 6,
       Diamond.mk [4194304, 4718591, 4194304, 4194304] 4,
       Diamond.mk [5111807, 5111808, 5111807, 5111807] 4,
       Diamond.mk [6946815, 6946816, 6946815, 6946815] 4,
       Diamond.mk [16777216, 20447231, 20447232, 27787263, 27787264, 18874367] 6,
       Diamond.mk [33554432, 37748735, 33554432, 33554432] 4,
       Diamond.mk [40894463, 40894464, 40894463, 40894463] 4] }

/-- The mesh after 50 diamond splits along the calls `recursive_split_element(volume, 0)` on
the root mesh, in the course of the call 23, spelled out: 152 elements. -/
def chainStep50 : LEBVolume :=
  { totalNumElements := 152, minimalDepth := 5,
    heapIDArray :=
      [134217728, 33, 34, 70, 36, 37, 76, 81788928, 40, 41, 42, 43, 44, 45, 46, 47, 48, 49, 50, 51,
       104, 111149056, 54, 55, 65, 154, 79, 210, 107, 142, 129, 310, 157, 422, 213, 286, 257, 574,
       622, 313, 513, 1246, 846, 425, 625, 1694, 849, 1150, 1025, 2494, 1249, 3390, 1697, 2302,
       2049, 4606, 4990, 2497, 4097, 9982, 6782, 3393, 4993, 13566, 6785, 9214, 8193, 19966, 9985,
       27134, 13569, 18430, 16385, 36862, 39934, 19969, 32769, 79870, 54270, 27137, 39937, 108542,
       54273, 73726, 65537, 159742, 79873, 217086, 108545, 147454, 131073, 294910, 319486, 159745,
       262145, 638974, 434174, 217089, 319489, 868350, 434177, 589822, 524289, 1277950, 638977,
       1736702, 868353, 1179646, 1048577, 2359294, 2555902, 1277953, 2097153, 5111806, 3473406,
       1736705, 2555905, 6946814, 3473409, 4718590, 4194305, 10223614, 5111809, 13893630, 6946817,
       9437182, 8388609, 18874366, 20447230, 10223617, 16777217, 40894462, 27787262, 13893633,
       20447233, 55574526, 27787265, 37748734, 33554433, 81788926, 40894465, 111149054, 55574529,
       75497470, 67108865, 75497471, 163577854, 81788929, 134217729, 163577855, 111149055,
       111149057],
    typeArray :=
      [1, 0, 0, 1, 0, 0, 1, 0, 0, 0, 0, 0, 0, 0, 0, 0, 0, 0, 0, 0, 1, 0, 0, 0, 2, 3, 2, 3, 2, 3, 3,
       0, 3, 0, 3, 0, 0, 1, 1, 0, 2, 3, 1, 0, 2, 3, 2, 3, 3, 0, 3, 0, 3, 0, 0, 1, 1, 0, 2, 3, 1, 0,
       2, 3, 2, 3, 3, 0, 3, 0, 3, 0, 0, 1, 1, 0, 2, 3, 1, 0, 2, 3, 2, 3, 3, 0, 3, 0, 3, 0, 0, 1, 1,
       0, 2, 3, 1, 0, 2, 3, 2, 3, 3, 0, 3, 0, 3, 0, 0, 1, 1, 0, 2, 3, 1, 0, 2, 3, 2, 3, 3, 0, 3, 0,
       3, 0, 0, 1, 1, 0, 2, 3, 1, 0, 2, 3, 2, 3, 3, 0, 3, 0, 3, 0, 0, 0, 1, 0, 2, 2, 0, 0],
    neighborsArray :=
      [uint4.mk 4294967295 148 149 145, uint4.mk 24 2 4294967295 19, uint4.mk 1 3 4294967295 12,
       uint4.mk 4294967295 29 28 2, uint4.mk 26 5 4294967295 10, uint4.mk 4 6 4294967295 16,
       uint4.mk 4294967295 25 24 5, uint4.mk 149 147 4294967295 150, uint4.mk 11 9 4294967295 14,
       uint4.mk 8 10 4294967295 17, uint4.mk 9 11 4294967295 4, uint4.mk 10 8 4294967295 23,
       uint4.mk 15 13 4294967295 2, uint4.mk 12 14 4294967295 18, uint4.mk 13 15 4294967295 8,
       uint4.mk 14 12 4294967295 22, uint4.mk 19 17 4294967295 5, uint4.mk 16 18 4294967295 9,
       uint4.mk 17 19 4294967295 13, uint4.mk 18 16 4294967295 1, uint4.mk 4294967295 27 26 23,
       uint4.mk 150 151 4294967295 145, uint4.mk 28 23 4294967295 15, uint4.mk 22 20 4294967295 11,
       uint4.mk 30 4294967295 6 1, uint4.mk 31 32 30 6, uint4.mk 32 4294967295 20 4,
       uint4.mk 33 34 32 20, uint4.mk 34 4294967295 3 22, uint4.mk 35 30 34 3,
       uint4.mk 29 36 25 24, uint4.mk 39 38 4294967295 25, uint4.mk 25 39 27 26,
       uint4.mk 43 42 4294967295 27, uint4.mk 27 43 29 28, uint4.mk 36 37 4294967295 29,
       uint4.mk 40 35 4294967295 30, uint4.mk 4294967295 47 46 35, uint4.mk 4294967295 41 40 31,
       uint4.mk 44 31 4294967295 32, uint4.mk 48 4294967295 38 36, uint4.mk 49 50 48 38,
       uint4.mk 4294967295 45 44 33, uint4.mk 46 33 4294967295 34, uint4.mk 50 4294967295 42 39,
       uint4.mk 51 52 50 42, uint4.mk 52 4294967295 37 43, uint4.mk 53 48 52 37,
       uint4.mk 47 54 41 40, uint4.mk 57 56 4294967295 41, uint4.mk 41 57 45 44,
       uint4.mk 61 60 4294967295 45, uint4.mk 45 61 47 46, uint4.mk 54 55 4294967295 47,
       uint4.mk 58 53 4294967295 48, uint4.mk 4294967295 65 64 53, uint4.mk 4294967295 59 58 49,
       uint4.mk 62 49 4294967295 50, uint4.mk 66 4294967295 56 54, uint4.mk 67 68 66 56,
       uint4.mk 4294967295 63 62 51, uint4.mk 64 51 4294967295 52, uint4.mk 68 4294967295 60 57,
       uint4.mk 69 70 68 60, uint4.mk 70 4294967295 55 61, uint4.mk 71 66 70 55,
       uint4.mk 65 72 59 58, uint4.mk 75 74 4294967295 59, uint4.mk 59 75 63 62,
       uint4.mk 79 78 4294967295 63, uint4.mk 63 79 65 64, uint4.mk 72 73 4294967295 65,
       uint4.mk 76 71 4294967295 66, uint4.mk 4294967295 83 82 71, uint4.mk 4294967295 77 76 67,
       uint4.mk 80 67 4294967295 68, uint4.mk 84 4294967295 74 72, uint4.mk 85 86 84 74,
       uint4.mk 4294967295 81 80 69, uint4.mk 82 69 4294967295 70, uint4.mk 86 4294967295 78 75,
       uint4.mk 87 88 86 78, uint4.mk 88 4294967295 73 79, uint4.mk 89 84 88 73,
       uint4.mk 83 90 77 76, uint4.mk 93 92 4294967295 77, uint4.mk 77 93 81 80,
       uint4.mk 97 96 4294967295 81, uint4.mk 81 97 83 82, uint4.mk 90 91 4294967295 83,
       uint4.mk 94 89 4294967295 84, uint4.mk 4294967295 101 100 89, uint4.mk 4294967295 95 94 85,
       uint4.mk 98 85 4294967295 86, uint4.mk 102 4294967295 92 90, uint4.mk 103 104 102 92,
       uint4.mk 4294967295 99 98 87, uint4.mk 100 87 4294967295 88, uint4.mk 104 4294967295 96 93,
       uint4.mk 105 106 104 96, uint4.mk 106 4294967295 91 97, uint4.mk 107 102 106 91,
       uint4.mk 101 108 95 94, uint4.mk 111 110 4294967295 95, uint4.mk 95 111 99 98,
       uint4.mk 115 114 4294967295 99, uint4.mk 99 115 101 100, uint4.mk 108 109 4294967295 101,
       uint4.mk 112 107 4294967295 102, uint4.mk 4294967295 119 118 107,
       uint4.mk 4294967295 113 112 103, uint4.mk 116 103 4294967295 104,
       uint4.mk 120 4294967295 110 108, uint4.mk 121 122 120 110, uint4.mk 4294967295 117 116 105,
       uint4.mk 118 105 4294967295 106, uint4.mk 122 4294967295 114 111, uint4.mk 123 124 122 114,
       uint4.mk 124 4294967295 109 115, uint4.mk 125 120 124 109, uint4.mk 119 126 113 112,
       uint4.mk 129 128 4294967295 113, uint4.mk 113 129 117 116, uint4.mk 133 132 4294967295 117,
       uint4.mk 117 133 119 118, uint4.mk 126 127 4294967295 119, uint4.mk 130 125 4294967295 120,
       uint4.mk 4294967295 137 136 125, uint4.mk 4294967295 131 130 121,
       uint4.mk 134 121 4294967295 122, uint4.mk 138 4294967295 128 126, uint4.mk 139 140 138 128,
       uint4.mk 4294967295 135 134 123, uint4.mk 136 123 4294967295 124,
       uint4.mk 140 4294967295 132 129, uint4.mk 141 142 140 132, uint4.mk 142 4294967295 127 133,
       uint4.mk 143 138 142 127, uint4.mk 137 144 131 130, uint4.mk 147 146 4294967295 131,
       uint4.mk 131 147 135 134, uint4.mk 151 150 4294967295 135, uint4.mk 135 151 137 136,
       uint4.mk 144 145 4294967295 137, uint4.mk 148 143 4294967295 138,
       uint4.mk 143 0 4294967295 21, uint4.mk 4294967295 149 148 139,
       uint4.mk 7 139 4294967295 140, uint4.mk 0 4294967295 146 144, uint4.mk 146 4294967295 0 7,
       uint4.mk 141 21 4294967295 7, uint4.mk 21 141 4294967295 142],
    basePoints := g_CubeType0Vertices,
    baseTypes := List.replicate 24 0,
    tetraCacheArray := List.replicate 152 default,
    modifArray :=
      [2, 0, 0, 2, 0, 0, 2, 2, 0, 0, 0, 0, 0, 0, 0, 0, 0, 0, 0, 0, 2, 2, 0, 0, 2, 2, 2, 2, 2, 2, 2,
       2, 2, 2, 2, 2, 2, 2, 2, 2, 2, 2, 2, 2, 2, 2, 2, 2, 2, 2, 2, 2, 2, 2, 2, 2, 2, 2, 2, 2, 2, 2,
       2, 2, 2, 2, 2, 2, 2, 2, 2, 2, 2, 2, 2, 2, 2, 2, 2, 2, 2, 2, 2, 2, 2, 2, 2, 2, 2, 2, 2, 2, 2,
       2, 2, 2, 2, 2, 2, 2, 2, 2, 2, 2, 2, 2, 2, 2, 2, 2, 2, 2, 2, 2, 2, 2, 2, 2, 2, 2, 2, 2, 2, 2,
       2, 2, 2, 2, 2, 2, 2, 2, 2, 2, 2, 2, 2, 2, 2, 2, 2, 2, 2, 2, 2, 2, 2, 2, 2, 2, 2, 2],
    depthArray := List.replicate 152 0,
    diamonds :=
      [Diamond.mk [64, 77, 78, 105, 106, 71] 6, Diamond.mk [128, 143, 128, 128] 4,
       Diamond.mk [155, 156, 155, 155] 4, Diamond.mk [211, 212, 211, 211] 4,
       Diamond.mk [512, 623, 624, 847, 848, 575] 6, Diamond.mk [1024, 1151, 1024, 1024] 4,
       Diamond.mk [1247, 1248, 1247, 1247] 4, Diamond.mk [1695, 1696, 1695, 1695] 4,
       Diamond.mk [4096, 4991, 4992, 6783, 6784, 4607] 6, Diamond.mk [8192, 9215, 8192, 8192] 4,
       Diamond.mk [9983, 9984, 9983, 9983] 4, Diamond.mk [13567, 13568, 13567, 13567] 4,
       Diamond.mk [32768, 39935, 39936, 54271, 54272, 36863] 6,
       Diamond.mk [65536, 73727, 65536, 65536] 4, Diamond.mk [79871, 79872, 79871, 79871] 4,
       Diamond.mk [108543, 108544, 108543, 108543] 4,
       Diamond.mk [262144, 319487, 319488, 434175, 434176, 294911] 6,
       Diamond.mk [524288, 589823, 524288, 524288] 4,
       Diamond.mk [638975, 638976, 638975, 638975] 4,
       Diamond.mk [868351, 868352, 868351, 868351] 4,
       Diamond.mk [2097152, 2555903, 2555904, 3473407, 3473408, 2359295] 6,
       Diamond.mk [4194304, 4718591, 4194304, 4194304] 4,
       Diamond.mk [5111807, 5111808, 5111807, 5111807] 4,
       Diamond.mk [6946815, 6946816, 6946815, 6946815] 4,
       Diamond.mk [16777216, 20447231, 20447232, 27787263, 27787264, 18874367] 6,
       Diamond.mk [33554432, 37748735, 33554432, 33554432] 4,
       Diamond.mk [40894463, 40894464, 40894463, 40894463] 4,
       Diamond.mk [55574527, 55574528, 55574527, 55574527] 4] }

/-- The mesh after 51 diamond splits along the calls `recursive_split_element(volume, 0)` on
the root mesh, in the course of the call 23, spelled out: 154 elements. -/
def chainStep51 : LEBVolume :=
  { totalNumElements := 154, minimalDepth := 5,
    heapIDArray :=
      [134217728, 33, 34, 70, 36, 37, 76, 163577856, 40, 41, 42, 43, 44, 45, 46, 47, 48, 49, 50,
       51, 104, 111149056, 54, 55, 65, 154, 79, 210, 107, 142, 129, 310, 157, 422, 213, 286, 257,
       574, 622, 313, 513, 1246, 846, 425, 625, 1694, 849, 1150, 1025, 2494, 1249, 3390, 1697,
       2302, 2049, 4606, 4990, 2497, 4097, 9982, 6782, 3393, 4993, 13566, 6785, 9214, 8193, 19966,
       9985, 27134, 13569, 18430, 16385, 36862, 39934, 19969, 32769, 79870, 54270, 27137, 39937,
       108542, 54273, 73726, 65537, 159742, 79873, 217086, 108545, 147454, 131073, 294910, 319486,
       159745, 262145, 638974, 434174, 217089, 319489, 868350, 434177, 589822, 524289, 1277950,
       638977, 1736702, 868353, 1179646, 1048577, 2359294, 2555902, 1277953, 2097153, 5111806,
       3473406, 1736705, 2555905, 6946814, 3473409, 4718590, 4194305, 10223614, 5111809, 13893630,
       6946817, 9437182, 8388609, 18874366, 20447230, 10223617, 16777217, 40894462, 27787262,
       13893633, 20447233, 55574526, 27787265, 37748734, 33554433, 81788926, 40894465, 111149054,
       55574529, 75497470, 67108865, 75497471, 163577854, 81788929, 134217729, 163577855,
       222298110, 111149057, 163577857, 222298111],
    typeArray :=
      [1, 0, 0, 1, 0, 0, 1, 1, 0, 0, 0, 0, 0, 0, 0, 0, 0, 0, 0, 0, 1, 0, 0, 0, 2, 3, 2, 3, 2, 3, 3,
       0, 3, 0, 3, 0, 0, 1, 1, 0, 2, 3, 1, 0, 2, 3, 2, 3, 3, 0, 3, 0, 3, 0, 0, 1, 1, 0, 2, 3, 1, 0,
       2, 3, 2, 3, 3, 0, 3, 0, 3, 0, 0, 1, 1, 0, 2, 3, 1, 0, 2, 3, 2, 3, 3, 0, 3, 0, 3, 0, 0, 1, 1,
       0, 2, 3, 1, 0, 2, 3, 2, 3, 3, 0, 3, 0, 3, 0, 0, 1, 1, 0, 2, 3, 1, 0, 2, 3, 2, 3, 3, 0, 3, 0,
       3, 0, 0, 1, 1, 0, 2, 3, 1, 0, 2, 3, 2, 3, 3, 0, 3, 0, 3, 0, 0, 0, 1, 0, 2, 2, 1, 0, 2, 2],
    neighborsArray :=
      [uint4.mk 4294967295 148 149 145, uint4.mk 24 2 4294967295 19, uint4.mk 1 3 4294967295 12,
       uint4.mk 4294967295 29 28 2, uint4.mk 26 5 4294967295 10, uint4.mk 4 6 4294967295 16,
       uint4.mk 4294967295 25 24 5, uint4.mk 4294967295 152 153 149, uint4.mk 11 9 4294967295 14,
       uint4.mk 8 10 4294967295 17, uint4.mk 9 11 4294967295 4, uint4.mk 10 8 4294967295 23,
       uint4.mk 15 13 4294967295 2, uint4.mk 12 14 4294967295 18, uint4.mk 13 15 4294967295 8,
       uint4.mk 14 12 4294967295 22, uint4.mk 19 17 4294967295 5, uint4.mk 16 18 4294967295 9,
       uint4.mk 17 19 4294967295 13, uint4.mk 18 16 4294967295 1, uint4.mk 4294967295 27 26 23,
       uint4.mk 153 151 4294967295 145, uint4.mk 28 23 4294967295 15, uint4.mk 22 20 4294967295 11,
       uint4.mk 30 4294967295 6 1, uint4.mk 31 32 30 6, uint4.mk 32 4294967295 20 4,
       uint4.mk 33 34 32 20, uint4.mk 34 4294967295 3 22, uint4.mk 35 30 34 3,
       uint4.mk 29 36 25 24, uint4.mk 39 38 4294967295 25, uint4.mk 25 39 27 26,
       uint4.mk 43 42 4294967295 27, uint4.mk 27 43 29 28, uint4.mk 36 37 4294967295 29,
       uint4.mk 40 35 4294967295 30, uint4.mk 4294967295 47 46 35, uint4.mk 4294967295 41 40 31,
       uint4.mk 44 31 4294967295 32, uint4.mk 48 4294967295 38 36, uint4.mk 49 50 48 38,
       uint4.mk 4294967295 45 44 33, uint4.mk 46 33 4294967295 34, uint4.mk 50 4294967295 42 39,
       uint4.mk 51 52 50 42, uint4.mk 52 4294967295 37 43, uint4.mk 53 48 52 37,
       uint4.mk 47 54 41 40, uint4.mk 57 56 4294967295 41, uint4.mk 41 57 45 44,
       uint4.mk 61 60 4294967295 45, uint4.mk 45 61 47 46, uint4.mk 54 55 4294967295 47,
       uint4.mk 58 53 4294967295 48, uint4.mk 4294967295 65 64 53, uint4.mk 4294967295 59 58 49,
       uint4.mk 62 49 4294967295 50, uint4.mk 66 4294967295 56 54, uint4.mk 67 68 66 56,
       uint4.mk 4294967295 63 62 51, uint4.mk 64 51 4294967295 52, uint4.mk 68 4294967295 60 57,
       uint4.mk 69 70 68 60, uint4.mk 70 4294967295 55 61, uint4.mk 71 66 70 55,
       uint4.mk 65 72 59 58, uint4.mk 75 74 4294967295 59, uint4.mk 59 75 63 62,
       uint4.mk 79 78 4294967295 63, uint4.mk 63 79 65 64, uint4.mk 72 73 4294967295 65,
       uint4.mk 76 71 4294967295 66, uint4.mk 4294967295 83 82 71, uint4.mk 4294967295 77 76 67,
       uint4.mk 80 67 4294967295 68, uint4.mk 84 4294967295 74 72, uint4.mk 85 86 84 74,
       uint4.mk 4294967295 81 80 69, uint4.mk 82 69 4294967295 70, uint4.mk 86 4294967295 78 75,
       uint4.mk 87 88 86 78, uint4.mk 88 4294967295 73 79, uint4.mk 89 84 88 73,
       uint4.mk 83 90 77 76, uint4.mk 93 92 4294967295 77, uint4.mk 77 93 81 80,
       uint4.mk 97 96 4294967295 81, uint4.mk 81 97 83 82, uint4.mk 90 91 4294967295 83,
       uint4.mk 94 89 4294967295 84, uint4.mk 4294967295 101 100 89, uint4.mk 4294967295 95 94 85,
       uint4.mk 98 85 4294967295 86, uint4.mk 102 4294967295 92 90, uint4.mk 103 104 102 92,
       uint4.mk 4294967295 99 98 87, uint4.mk 100 87 4294967295 88, uint4.mk 104 4294967295 96 93,
       uint4.mk 105 106 104 96, uint4.mk 106 4294967295 91 97, uint4.mk 107 102 106 91,
       uint4.mk 101 108 95 94, uint4.mk 111 110 4294967295 95, uint4.mk 95 111 99 98,
       uint4.mk 115 114 4294967295 99, uint4.mk 99 115 101 100, uint4.mk 108 109 4294967295 101,
       uint4.mk 112 107 4294967295 102, uint4.mk 4294967295 119 118 107,
       uint4.mk 4294967295 113 112 103, uint4.mk 116 103 4294967295 104,
       uint4.mk 120 4294967295 110 108, uint4.mk 121 122 120 110, uint4.mk 4294967295 117 116 105,
       uint4.mk 118 105 4294967295 106, uint4.mk 122 4294967295 114 111, uint4.mk 123 124 122 114,
       uint4.mk 124 4294967295 109 115, uint4.mk 125 120 124 109, uint4.mk 119 126 113 112,
       uint4.mk 129 128 4294967295 113, uint4.mk 113 129 117 116, uint4.mk 133 132 4294967295 117,
       uint4.mk 117 133 119 118, uint4.mk 126 127 4294967295 119, uint4.mk 130 125 4294967295 120,
       uint4.mk 4294967295 137 136 125, uint4.mk 4294967295 131 130 121,
       uint4.mk 134 121 4294967295 122, uint4.mk 138 4294967295 128 126, uint4.mk 139 140 138 128,
       uint4.mk 4294967295 135 134 123, uint4.mk 136 123 4294967295 124,
       uint4.mk 140 4294967295 132 129, uint4.mk 141 142 140 132, uint4.mk 142 4294967295 127 133,
       uint4.mk 143 138 142 127, uint4.mk 137 144 131 130, uint4.mk 147 146 4294967295 131,
       uint4.mk 131 147 135 134, uint4.mk 151 150 4294967295 135, uint4.mk 135 151 137 136,
       uint4.mk 144 145 4294967295 137, uint4.mk 148 143 4294967295 138,
       uint4.mk 143 0 4294967295 21, uint4.mk 4294967295 149 148 139,
       uint4.mk 152 139 4294967295 140, uint4.mk 0 4294967295 146 144, uint4.mk 146 4294967295 0 7,
       uint4.mk 4294967295 153 152 141, uint4.mk 21 141 4294967295 142,
       uint4.mk 7 4294967295 150 147, uint4.mk 150 4294967295 7 21],
    basePoints := g_CubeType0Vertices,
    baseTypes := List.replicate 24 0,
    tetraCacheArray := List.replicate 154 default,
    modifArray :=
      [2, 0, 0, 2, 0, 0, 2, 2, 0, 0, 0, 0, 0, 0, 0, 0, 0, 0, 0, 0, 2, 2, 0, 0, 2, 2, 2, 2, 2, 2, 2,
       2, 2, 2, 2, 2, 2, 2, 2, 2, 2, 2, 2, 2, 2, 2, 2, 2, 2, 2, 2, 2, 2, 2, 2, 2, 2, 2, 2, 2, 2, 2,
       2, 2, 2, 2, 2, 2, 2, 2, 2, 2, 2, 2, 2, 2, 2, 2, 2, 2, 2, 2, 2, 2, 2, 2, 2, 2, 2, 2, 2, 2, 2,
       2, 2, 2, 2, 2, 2, 2, 2, 2, 2, 2, 2, 2, 2, 2, 2, 2, 2, 2, 2, 2, 2, 2, 2, 2, 2, 2, 2, 2, 2, 2,
       2, 2, 2, 2, 2, 2, 2, 2, 2, 2, 2, 2, 2, 2, 2, 2, 2, 2, 2, 2, 2, 2, 2, 2, 2, 2, 2, 2, 2, 2],
    depthArray := List.replicate 154 0,
    diamonds :=
      [Diamond.mk [64, 77, 78, 105, 106, 71] 6, Diamond.mk [128, 143, 128, 128] 4,
       Diamond.mk [155, 156, 155, 155] 4, Diamond.mk [211, 212, 211, 211] 4,
       Diamond.mk [512, 623, 624, 847, 848, 575] 6, Diamond.mk [1024, 1151, 1024, 1024] 4,
       Diamond.mk [1247, 1248, 1247, 1247] 4, Diamond.mk [1695, 1696, 1695, 1695] 4,
       Diamond.mk [4096, 4991, 4992, 6783, 6784, 4607] 6, Diamond.mk [8192, 9215, 8192, 8192] 4,
       Diamond.mk [9983, 9984, 9983, 9983] 4, Diamond.mk [13567, 13568, 13567, 13567] 4,
       Diamond.mk [32768, 39935, 39936, 54271, 54272, 36863] 6,
       Diamond.mk [65536, 73727, 65536, 65536] 4, Diamond.mk [79871, 79872, 79871, 79871] 4,
       Diamond.mk [108543, 108544, 108543, 108543] 4,
       Diamond.mk [262144, 319487, 319488, 434175, 434176, 294911] 6,
       Diamond.mk [524288, 589823, 524288, 524288] 4,
       Diamond.mk [638975, 638976, 638975, 638975] 4,
       Diamond.mk [868351, 868352, 868351, 868351] 4,
       Diamond.mk [2097152, 2555903, 2555904, 3473407, 3473408, 2359295] 6,
       Diamond.mk [4194304, 4718591, 4194304, 4194304] 4,
       Diamond.mk [5111807, 5111808, 5111807, 5111807] 4,
       Diamond.mk [6946815, 6946816, 6946815, 6946815] 4,
       Diamond.mk [16777216, 20447231, 20447232, 27787263, 27787264, 18874367] 6,
       Diamond.mk [33554432, 37748735, 33554432, 33554432] 4,
       Diamond.mk [40894463, 40894464, 40894463, 40894463] 4,
       Diamond.mk [55574527, 55574528, 55574527, 55574527] 4] }

/-- The mesh after 52 diamond splits along the calls `recursive_split_element(volume, 0)` on
the root mesh, in the course of the call 23, spelled out: 156 elements. -/
def chainStep52 : LEBVolume :=
  { totalNumElements := 156, minimalDepth := 5,
    heapIDArray :=
      [134217728, 33, 34, 70, 36, 37, 76, 163577856, 40, 41, 42, 43, 44, 45, 46, 47, 48, 49, 50,
       51, 104, 222298112, 54, 55, 65, 154, 79, 210, 107, 142, 129, 310, 157, 422, 213, 286, 257,
       574, 622, 313, 513, 1246, 846, 425, 625, 1694, 849, 1150, 1025, 2494, 1249, 3390, 1697,
       2302, 2049, 4606, 4990, 2497, 4097, 9982, 6782, 3393, 4993, 13566, 6785, 9214, 8193, 19966,
       9985, 27134, 13569, 18430, 16385, 36862, 39934, 19969, 32769, 79870, 54270, 27137, 39937,
       108542, 54273, 73726, 65537, 159742, 79873, 217086, 108545, 147454, 131073, 294910, 319486,
       159745, 262145, 638974, 434174, 217089, 319489, 868350, 434177, 589822, 524289, 1277950,
       638977, 1736702, 868353, 1179646, 1048577, 2359294, 2555902, 1277953, 2097153, 5111806,
       3473406, 1736705, 2555905, 6946814, 3473409, 4718590, 4194305, 10223614, 5111809, 13893630,
       6946817, 9437182, 8388609, 18874366, 20447230, 10223617, 16777217, 40894462, 27787262,
       13893633, 20447233, 55574526, 27787265, 37748734, 33554433, 81788926, 40894465, 111149054,
       55574529, 75497470, 67108865, 150994942, 163577854, 81788929, 134217729, 163577855,
       222298110, 111149057, 163577857, 222298111, 222298113, 150994943],
    typeArray :=
      [1, 0, 0, 1, 0, 0, 1, 1, 0, 0, 0, 0, 0, 0, 0, 0, 0, 0, 0, 0, 1, 1, 0, 0, 2, 3, 2, 3, 2, 3, 3,
       0, 3, 0, 3, 0, 0, 1, 1, 0, 2, 3, 1, 0, 2, 3, 2, 3, 3, 0, 3, 0, 3, 0, 0, 1, 1, 0, 2, 3, 1, 0,
       2, 3, 2, 3, 3, 0, 3, 0, 3, 0, 0, 1, 1, 0, 2, 3, 1, 0, 2, 3, 2, 3, 3, 0, 3, 0, 3, 0, 0, 1, 1,
       0, 2, 3, 1, 0, 2, 3, 2, 3, 3, 0, 3, 0, 3, 0, 0, 1, 1, 0, 2, 3, 1, 0, 2, 3, 2, 3, 3, 0, 3, 0,
       3, 0, 0, 1, 1, 0, 2, 3, 1, 0, 2, 3, 2, 3, 3, 0, 3, 0, 3, 0, 0, 1, 1, 0, 2, 2, 1, 0, 2, 2, 2,
       2],
    neighborsArray :=
      [uint4.mk 4294967295 148 149 155, uint4.mk 24 2 4294967295 19, uint4.mk 1 3 4294967295 12,
       uint4.mk 4294967295 29 28 2, uint4.mk 26 5 4294967295 10, uint4.mk 4 6 4294967295 16,
       uint4.mk 4294967295 25 24 5, uint4.mk 4294967295 152 153 149, uint4.mk 11 9 4294967295 14,
       uint4.mk 8 10 4294967295 17, uint4.mk 9 11 4294967295 4, uint4.mk 10 8 4294967295 23,
       uint4.mk 15 13 4294967295 2, uint4.mk 12 14 4294967295 18, uint4.mk 13 15 4294967295 8,
       uint4.mk 14 12 4294967295 22, uint4.mk 19 17 4294967295 5, uint4.mk 16 18 4294967295 9,
       uint4.mk 17 19 4294967295 13, uint4.mk 18 16 4294967295 1, uint4.mk 4294967295 27 26 23,
       uint4.mk 4294967295 154 155 153, uint4.mk 28 23 4294967295 15, uint4.mk 22 20 4294967295 11,
       uint4.mk 30 4294967295 6 1, uint4.mk 31 32 30 6, uint4.mk 32 4294967295 20 4,
       uint4.mk 33 34 32 20, uint4.mk 34 4294967295 3 22, uint4.mk 35 30 34 3,
       uint4.mk 29 36 25 24, uint4.mk 39 38 4294967295 25, uint4.mk 25 39 27 26,
       uint4.mk 43 42 4294967295 27, uint4.mk 27 43 29 28, uint4.mk 36 37 4294967295 29,
       uint4.mk 40 35 4294967295 30, uint4.mk 4294967295 47 46 35, uint4.mk 4294967295 41 40 31,
       uint4.mk 44 31 4294967295 32, uint4.mk 48 4294967295 38 36, uint4.mk 49 50 48 38,
       uint4.mk 4294967295 45 44 33, uint4.mk 46 33 4294967295 34, uint4.mk 50 4294967295 42 39,
       uint4.mk 51 52 50 42, uint4.mk 52 4294967295 37 43, uint4.mk 53 48 52 37,
       uint4.mk 47 54 41 40, uint4.mk 57 56 4294967295 41, uint4.mk 41 57 45 44,
       uint4.mk 61 60 4294967295 45, uint4.mk 45 61 47 46, uint4.mk 54 55 4294967295 47,
       uint4.mk 58 53 4294967295 48, uint4.mk 4294967295 65 64 53, uint4.mk 4294967295 59 58 49,
       uint4.mk 62 49 4294967295 50, uint4.mk 66 4294967295 56 54, uint4.mk 67 68 66 56,
       uint4.mk 4294967295 63 62 51, uint4.mk 64 51 4294967295 52, uint4.mk 68 4294967295 60 57,
       uint4.mk 69 70 68 60, uint4.mk 70 4294967295 55 61, uint4.mk 71 66 70 55,
       uint4.mk 65 72 59 58, uint4.mk 75 74 4294967295 59, uint4.mk 59 75 63 62,
       uint4.mk 79 78 4294967295 63, uint4.mk 63 79 65 64, uint4.mk 72 73 4294967295 65,
       uint4.mk 76 71 4294967295 66, uint4.mk 4294967295 83 82 71, uint4.mk 4294967295 77 76 67,
       uint4.mk 80 67 4294967295 68, uint4.mk 84 4294967295 74 72, uint4.mk 85 86 84 74,
       uint4.mk 4294967295 81 80 69, uint4.mk 82 69 4294967295 70, uint4.mk 86 4294967295 78 75,
       uint4.mk 87 88 86 78, uint4.mk 88 4294967295 73 79, uint4.mk 89 84 88 73,
       uint4.mk 83 90 77 76, uint4.mk 93 92 4294967295 77, uint4.mk 77 93 81 80,
       uint4.mk 97 96 4294967295 81, uint4.mk 81 97 83 82, uint4.mk 90 91 4294967295 83,
       uint4.mk 94 89 4294967295 84, uint4.mk 4294967295 101 100 89, uint4.mk 4294967295 95 94 85,
       uint4.mk 98 85 4294967295 86, uint4.mk 102 4294967295 92 90, uint4.mk 103 104 102 92,
       uint4.mk 4294967295 99 98 87, uint4.mk 100 87 4294967295 88, uint4.mk 104 4294967295 96 93,
       uint4.mk 105 106 104 96, uint4.mk 106 4294967295 91 97, uint4.mk 107 102 106 91,
       uint4.mk 101 108 95 94, uint4.mk 111 110 4294967295 95, uint4.mk 95 111 99 98,
       uint4.mk 115 114 4294967295 99, uint4.mk 99 115 101 100, uint4.mk 108 109 4294967295 101,
       uint4.mk 112 107 4294967295 102, uint4.mk 4294967295 119 118 107,
       uint4.mk 4294967295 113 112 103, uint4.mk 116 103 4294967295 104,
       uint4.mk 120 4294967295 110 108, uint4.mk 121 122 120 110, uint4.mk 4294967295 117 116 105,
       uint4.mk 118 105 4294967295 106, uint4.mk 122 4294967295 114 111, uint4.mk 123 124 122 114,
       uint4.mk 124 4294967295 109 115, uint4.mk 125 120 124 109, uint4.mk 119 126 113 112,
       uint4.mk 129 128 4294967295 113, uint4.mk 113 129 117 116, uint4.mk 133 132 4294967295 117,
       uint4.mk 117 133 119 118, uint4.mk 126 127 4294967295 119, uint4.mk 130 125 4294967295 120,
       uint4.mk 4294967295 137 136 125, uint4.mk 4294967295 131 130 121,
       uint4.mk 134 121 4294967295 122, uint4.mk 138 4294967295 128 126, uint4.mk 139 140 138 128,
       uint4.mk 4294967295 135 134 123, uint4.mk 136 123 4294967295 124,
       uint4.mk 140 4294967295 132 129, uint4.mk 141 142 140 132, uint4.mk 142 4294967295 127 133,
       uint4.mk 143 138 142 127, uint4.mk 137 144 131 130, uint4.mk 147 146 4294967295 131,
       uint4.mk 131 147 135 134, uint4.mk 151 150 4294967295 135, uint4.mk 135 151 137 136,
       uint4.mk 144 145 4294967295 137, uint4.mk 148 143 4294967295 138,
       uint4.mk 4294967295 155 154 143, uint4.mk 4294967295 149 148 139,
       uint4.mk 152 139 4294967295 140, uint4.mk 0 4294967295 146 144, uint4.mk 146 4294967295 0 7,
       uint4.mk 4294967295 153 152 141, uint4.mk 154 141 4294967295 142,
       uint4.mk 7 4294967295 150 147, uint4.mk 150 4294967295 7 21, uint4.mk 21 4294967295 145 151,
       uint4.mk 145 4294967295 21 0],
    basePoints := g_CubeType0Vertices,
    baseTypes := List.replicate 24 0,
    tetraCacheArray := List.replicate 156 default,
    modifArray :=
      [2, 0, 0, 2, 0, 0, 2, 2, 0, 0, 0, 0, 0, 0, 0, 0, 0, 0, 0, 0, 2, 2, 0, 0, 2, 2, 2, 2, 2, 2, 2,
       2, 2, 2, 2, 2, 2, 2, 2, 2, 2, 2, 2, 2, 2, 2, 2, 2, 2, 2, 2, 2, 2, 2, 2, 2, 2, 2, 2, 2, 2, 2,
       2, 2, 2, 2, 2, 2, 2, 2, 2, 2, 2, 2, 2, 2, 2, 2, 2, 2, 2, 2, 2, 2, 2, 2, 2, 2, 2, 2, 2, 2, 2,
       2, 2, 2, 2, 2, 2, 2, 2, 2, 2, 2, 2, 2, 2, 2, 2, 2, 2, 2, 2, 2, 2, 2, 2, 2, 2, 2, 2, 2, 2, 2,
       2, 2, 2, 2, 2, 2, 2, 2, 2, 2, 2, 2, 2, 2, 2, 2, 2, 2, 2, 2, 2, 2, 2, 2, 2, 2, 2, 2, 2, 2, 2,
       2],
    depthArray := List.replicate 156 0,
    diamonds :=
      [Diamond.mk [64, 77, 78, 105, 106, 71] 6, Diamond.mk [128, 143, 128, 128] 4,
       Diamond.mk [155, 156, 155, 155] 4, Diamond.mk [211, 212, 211, 211] 4,
       Diamond.mk [512, 623, 624, 847, 848, 575] 6, Diamond.mk [1024, 1151, 1024, 1024] 4,
       Diamond.mk [1247, 1248, 1247, 1247] 4, Diamond.mk [1695, 1696, 1695, 1695] 4,
       Diamond.mk [4096, 4991, 4992, 6783, 6784, 4607] 6, Diamond.mk [8192, 9215, 8192, 8192] 4,
       Diamond.mk [9983, 9984, 9983, 9983] 4, Diamond.mk [13567, 13568, 13567, 13567] 4,
       Diamond.mk [32768, 39935, 39936, 54271, 54272, 36863] 6,
       Diamond.mk [65536, 73727, 65536, 65536] 4, Diamond.mk [79871, 79872, 79871, 79871] 4,
       Diamond.mk [108543, 108544, 108543, 108543] 4,
       Diamond.mk [262144, 319487, 319488, 434175, 434176, 294911] 6,
       Diamond.mk [524288, 589823, 524288, 524288] 4,
       Diamond.mk [638975, 638976, 638975, 638975] 4,
       Diamond.mk [868351, 868352, 868351, 868351] 4,
       Diamond.mk [2097152, 2555903, 2555904, 3473407, 3473408, 2359295] 6,
       Diamond.mk [4194304, 4718591, 4194304, 4194304] 4,
       Diamond.mk [5111807, 5111808, 5111807, 5111807] 4,
       Diamond.mk [6946815, 6946816, 6946815, 6946815] 4,
       Diamond.mk [16777216, 20447231, 20447232, 27787263, 27787264, 18874367] 6,
       Diamond.mk [33554432, 37748735, 33554432, 33554432] 4,
       Diamond.mk [40894463, 40894464, 40894463, 40894463] 4,
       Diamond.mk [55574527, 55574528, 55574527, 55574527] 4] }

/-- The mesh after twenty-three calls `recursive_split_element(volume, 0)` on the root mesh,
spelled out: 162 elements. -/
def chainVolume23 : LEBVolume :=
  { totalNumElements := 162, minimalDepth := 5,
    heapIDArray :=
      [268435456, 33, 34, 70, 36, 37, 76, 327155712, 40, 41, 42, 43, 44, 45, 46, 47, 48, 49, 50,
       51, 104, 444596224, 54, 55, 65, 154, 79, 210, 107, 142, 129, 310, 157, 422, 213, 286, 257,
       574, 622, 313, 513, 1246, 846, 425, 625, 1694, 849, 1150, 1025, 2494, 1249, 3390, 1697,
       2302, 2049, 4606, 4990, 2497, 4097, 9982, 6782, 3393, 4993, 13566, 6785, 9214, 8193, 19966,
       9985, 27134, 13569, 18430, 16385, 36862, 39934, 19969, 32769, 79870, 54270, 27137, 39937,
       108542, 54273, 73726, 65537, 159742, 79873, 217086, 108545, 147454, 131073, 294910, 319486,
       159745, 262145, 638974, 434174, 217089, 319489, 868350, 434177, 589822, 524289, 1277950,
       638977, 1736702, 868353, 1179646, 1048577, 2359294, 2555902, 1277953, 2097153, 5111806,
       3473406, 1736705, 2555905, 6946814, 3473409, 4718590, 4194305, 10223614, 5111809, 13893630,
       6946817, 9437182, 8388609, 18874366, 20447230, 10223617, 16777217, 40894462, 27787262,
       13893633, 20447233, 55574526, 27787265, 37748734, 33554433, 81788926, 40894465, 111149054,
       55574529, 75497470, 67108865, 150994942, 163577854, 81788929, 134217729, 327155710,
       222298110, 111149057, 163577857, 444596222, 222298113, 301989886, 268435457, 327155711,
       327155713, 444596223, 444596225, 301989887],
    typeArray :=
      [3, 0, 0, 1, 0, 0, 1, 3, 0, 0, 0, 0, 0, 0, 0, 0, 0, 0, 0, 0, 1, 3, 0, 0, 2, 3, 2, 3, 2, 3, 3,
       0, 3, 0, 3, 0, 0, 1, 1, 0, 2, 3, 1, 0, 2, 3, 2, 3, 3, 0, 3, 0, 3, 0, 0, 1, 1, 0, 2, 3, 1, 0,
       2, 3, 2, 3, 3, 0, 3, 0, 3, 0, 0, 1, 1, 0, 2, 3, 1, 0, 2, 3, 2, 3, 3, 0, 3, 0, 3, 0, 0, 1, 1,
       0, 2, 3, 1, 0, 2, 3, 2, 3, 3, 0, 3, 0, 3, 0, 0, 1, 1, 0, 2, 3, 1, 0, 2, 3, 2, 3, 3, 0, 3, 0,
       3, 0, 0, 1, 1, 0, 2, 3, 1, 0, 2, 3, 2, 3, 3, 0, 3, 0, 3, 0, 0, 1, 1, 0, 2, 3, 1, 0, 2, 3, 2,
       3, 3, 3, 3, 3, 3, 3],
    neighborsArray :=
      [uint4.mk 157 156 161 4294967295, uint4.mk 24 2 4294967295 19, uint4.mk 1 3 4294967295 12,
       uint4.mk 4294967295 29 28 2, uint4.mk 26 5 4294967295 10, uint4.mk 4 6 4294967295 16,
       uint4.mk 4294967295 25 24 5, uint4.mk 159 158 157 4294967295, uint4.mk 11 9 4294967295 14,
       uint4.mk 8 10 4294967295 17, uint4.mk 9 11 4294967295 4, uint4.mk 10 8 4294967295 23,
       uint4.mk 15 13 4294967295 2, uint4.mk 12 14 4294967295 18, uint4.mk 13 15 4294967295 8,
       uint4.mk 14 12 4294967295 22, uint4.mk 19 17 4294967295 5, uint4.mk 16 18 4294967295 9,
       uint4.mk 17 19 4294967295 13, uint4.mk 18 16 4294967295 1, uint4.mk 4294967295 27 26 23,
       uint4.mk 161 160 159 4294967295, uint4.mk 28 23 4294967295 15, uint4.mk 22 20 4294967295 11,
       uint4.mk 30 4294967295 6 1, uint4.mk 31 32 30 6, uint4.mk 32 4294967295 20 4,
       uint4.mk 33 34 32 20, uint4.mk 34 4294967295 3 22, uint4.mk 35 30 34 3,
       uint4.mk 29 36 25 24, uint4.mk 39 38 4294967295 25, uint4.mk 25 39 27 26,
       uint4.mk 43 42 4294967295 27, uint4.mk 27 43 29 28, uint4.mk 36 37 4294967295 29,
       uint4.mk 40 35 4294967295 30, uint4.mk 4294967295 47 46 35, uint4.mk 4294967295 41 40 31,
       uint4.mk 44 31 4294967295 32, uint4.mk 48 4294967295 38 36, uint4.mk 49 50 48 38,
       uint4.mk 4294967295 45 44 33, uint4.mk 46 33 4294967295 34, uint4.mk 50 4294967295 42 39,
       uint4.mk 51 52 50 42, uint4.mk 52 4294967295 37 43, uint4.mk 53 48 52 37,
       uint4.mk 47 54 41 40, uint4.mk 57 56 4294967295 41, uint4.mk 41 57 45 44,
       uint4.mk 61 60 4294967295 45, uint4.mk 45 61 47 46, uint4.mk 54 55 4294967295 47,
       uint4.mk 58 53 4294967295 48, uint4.mk 4294967295 65 64 53, uint4.mk 4294967295 59 58 49,
       uint4.mk 62 49 4294967295 50, uint4.mk 66 4294967295 56 54, uint4.mk 67 68 66 56,
       uint4.mk 4294967295 63 62 51, uint4.mk 64 51 4294967295 52, uint4.mk 68 4294967295 60 57,
       uint4.mk 69 70 68 60, uint4.mk 70 4294967295 55 61, uint4.mk 71 66 70 55,
       uint4.mk 65 72 59 58, uint4.mk 75 74 4294967295 59, uint4.mk 59 75 63 62,
       uint4.mk 79 78 4294967295 63, uint4.mk 63 79 65 64, uint4.mk 72 73 4294967295 65,
       uint4.mk 76 71 4294967295 66, uint4.mk 4294967295 83 82 71, uint4.mk 4294967295 77 76 67,
       uint4.mk 80 67 4294967295 68, uint4.mk 84 4294967295 74 72, uint4.mk 85 86 84 74,
       uint4.mk 4294967295 81 80 69, uint4.mk 82 69 4294967295 70, uint4.mk 86 4294967295 78 75,
       uint4.mk 87 88 86 78, uint4.mk 88 4294967295 73 79, uint4.mk 89 84 88 73,
       uint4.mk 83 90 77 76, uint4.mk 93 92 4294967295 77, uint4.mk 77 93 81 80,
       uint4.mk 97 96 4294967295 81, uint4.mk 81 97 83 82, uint4.mk 90 91 4294967295 83,
       uint4.mk 94 89 4294967295 84, uint4.mk 4294967295 101 100 89, uint4.mk 4294967295 95 94 85,
       uint4.mk 98 85 4294967295 86, uint4.mk 102 4294967295 92 90, uint4.mk 103 104 102 92,
       uint4.mk 4294967295 99 98 87, uint4.mk 100 87 4294967295 88, uint4.mk 104 4294967295 96 93,
       uint4.mk 105 106 104 96, uint4.mk 106 4294967295 91 97, uint4.mk 107 102 106 91,
       uint4.mk 101 108 95 94, uint4.mk 111 110 4294967295 95, uint4.mk 95 111 99 98,
       uint4.mk 115 114 4294967295 99, uint4.mk 99 115 101 100, uint4.mk 108 109 4294967295 101,
       uint4.mk 112 107 4294967295 102, uint4.mk 4294967295 119 118 107,
       uint4.mk 4294967295 113 112 103, uint4.mk 116 103 4294967295 104,
       uint4.mk 120 4294967295 110 108, uint4.mk 121 122 120 110, uint4.mk 4294967295 117 116 105,
       uint4.mk 118 105 4294967295 106, uint4.mk 122 4294967295 114 111, uint4.mk 123 124 122 114,
       uint4.mk 124 4294967295 109 115, uint4.mk 125 120 124 109, uint4.mk 119 126 113 112,
       uint4.mk 129 128 4294967295 113, uint4.mk 113 129 117 116, uint4.mk 133 132 4294967295 117,
       uint4.mk 117 133 119 118, uint4.mk 126 127 4294967295 119, uint4.mk 130 125 4294967295 120,
       uint4.mk 4294967295 137 136 125, uint4.mk 4294967295 131 130 121,
       uint4.mk 134 121 4294967295 122, uint4.mk 138 4294967295 128 126, uint4.mk 139 140 138 128,
       uint4.mk 4294967295 135 134 123, uint4.mk 136 123 4294967295 124,
       uint4.mk 140 4294967295 132 129, uint4.mk 141 142 140 132, uint4.mk 142 4294967295 127 133,
       uint4.mk 143 138 142 127, uint4.mk 137 144 131 130, uint4.mk 147 146 4294967295 131,
       uint4.mk 131 147 135 134, uint4.mk 151 150 4294967295 135, uint4.mk 135 151 137 136,
       uint4.mk 144 145 4294967295 137, uint4.mk 148 143 4294967295 138,
       uint4.mk 4294967295 155 154 143, uint4.mk 4294967295 149 148 139,
       uint4.mk 152 139 4294967295 140, uint4.mk 156 4294967295 146 144, uint4.mk 157 158 156 146,
       uint4.mk 4294967295 153 152 141, uint4.mk 154 141 4294967295 142,
       uint4.mk 158 4294967295 150 147, uint4.mk 159 160 158 150, uint4.mk 160 4294967295 145 151,
       uint4.mk 161 156 160 145, uint4.mk 155 0 149 148, uint4.mk 149 0 7 4294967295,
       uint4.mk 149 7 153 152, uint4.mk 153 7 21 4294967295, uint4.mk 153 21 155 154,
       uint4.mk 155 21 0 4294967295],
    basePoints := g_CubeType0Vertices,
    baseTypes := List.replicate 24 0,
    tetraCacheArray := List.replicate 162 default,
    modifArray :=
      [2, 0, 0, 2, 0, 0, 2, 2, 0, 0, 0, 0, 0, 0, 0, 0, 0, 0, 0, 0, 2, 2, 0, 0, 2, 2, 2, 2, 2, 2, 2,
       2, 2, 2, 2, 2, 2, 2, 2, 2, 2, 2, 2, 2, 2, 2, 2, 2, 2, 2, 2, 2, 2, 2, 2, 2, 2, 2, 2, 2, 2, 2,
       2, 2, 2, 2, 2, 2, 2, 2, 2, 2, 2, 2, 2, 2, 2, 2, 2, 2, 2, 2, 2, 2, 2, 2, 2, 2, 2, 2, 2, 2, 2,
       2, 2, 2, 2, 2, 2, 2, 2, 2, 2, 2, 2, 2, 2, 2, 2, 2, 2, 2, 2, 2, 2, 2, 2, 2, 2, 2, 2, 2, 2, 2,
       2, 2, 2, 2, 2, 2, 2, 2, 2, 2, 2, 2, 2, 2, 2, 2, 2, 2, 2, 2, 2, 2, 2, 2, 2, 2, 2, 2, 2, 2, 2,
       2, 2, 2, 2, 2, 2, 2],
    depthArray := List.replicate 162 0,
    diamonds :=
      [Diamond.mk [64, 77, 78, 105, 106, 71] 6, Diamond.mk [128, 143, 128, 128] 4,
       Diamond.mk [155, 156, 155, 155] 4, Diamond.mk [211, 212, 211, 211] 4,
       Diamond.mk [512, 623, 624, 847, 848, 575] 6, Diamond.mk [1024, 1151, 1024, 1024] 4,
       Diamond.mk [1247, 1248, 1247, 1247] 4, Diamond.mk [1695, 1696, 1695, 1695] 4,
       Diamond.mk [4096, 4991, 4992, 6783, 6784, 4607] 6, Diamond.mk [8192, 9215, 8192, 8192] 4,
       Diamond.mk [9983, 9984, 9983, 9983] 4, Diamond.mk [13567, 13568, 13567, 13567] 4,
       Diamond.mk [32768, 39935, 39936, 54271, 54272, 36863] 6,
       Diamond.mk [65536, 73727, 65536, 65536] 4, Diamond.mk [79871, 79872, 79871, 79871] 4,
       Diamond.mk [108543, 108544, 108543, 108543] 4,
       Diamond.mk [262144, 319487, 319488, 434175, 434176, 294911] 6,
       Diamond.mk [524288, 589823, 524288, 524288] 4,
       Diamond.mk [638975, 638976, 638975, 638975] 4,
       Diamond.mk [868351, 868352, 868351, 868351] 4,
       Diamond.mk [2097152, 2555903, 2555904, 3473407, 3473408, 2359295] 6,
       Diamond.mk [4194304, 4718591, 4194304, 4194304] 4,
       Diamond.mk [5111807, 5111808, 5111807, 5111807] 4,
       Diamond.mk [6946815, 6946816, 6946815, 6946815] 4,
       Diamond.mk [16777216, 20447231, 20447232, 27787263, 27787264, 18874367] 6,
       Diamond.mk [33554432, 37748735, 33554432, 33554432] 4,
       Diamond.mk [40894463, 40894464, 40894463, 40894463] 4,
       Diamond.mk [55574527, 55574528, 55574527, 55574527] 4,
       Diamond.mk [134217728, 163577855, 163577856, 222298111, 222298112, 150994943] 6] }

/-! ## The members of a diamond and their twins, as the split collects them -/

/-- The eight members `i0 .. i7` that the branch of type 0 of `diamond_split` walks through. -/
def ring0 (volume : LEBVolume) (targetElement : Nat) : List Nat :=
  let i0 := targetElement
  let i1 := (neighborsOf volume targetElement).z
  let i2 := (neighborsOf volume i1).w
  let i3 := (neighborsOf volume i2).z
  let i4 := (neighborsOf volume i3).w
  let i5 := (neighborsOf volume i4).z
  let i6 := (neighborsOf volume i5).w
  let i7 := (neighborsOf volume i6).z
  [i0, i1, i2, i3, i4, i5, i6, i7]

/-- The six members `i0 .. i5` that the branch of types 1 and 2 of `diamond_split` walks
through. -/
def ring12 (volume : LEBVolume) (targetElement : Nat) : List Nat :=
  let i0 := targetElement
  let i1 := (neighborsOf volume i0).z
  let rev1 := decide ((neighborsOf volume i1).z = i0)
  let i2 := ringNext volume rev1 i1
  let rev2 := decide ((neighborsOf volume i2).z = i1)
  let i3 := ringNext volume rev2 i2
  let rev3 := decide ((neighborsOf volume i3).z = i2)
  let i4 := ringNext volume rev3 i3
  let rev4 := decide ((neighborsOf volume i4).z = i3)
  let i5 := ringNext volume rev4 i4
  [i0, i1, i2, i3, i4, i5]

/-- The four members `i0 .. i3` that the branch of type 3 of `diamond_split` walks through. -/
def ring3 (volume : LEBVolume) (targetElement : Nat) : List Nat :=
  let i0 := targetElement
  let i1 := (neighborsOf volume targetElement).z
  let i2 := (neighborsOf volume i1).w
  let i3 := (neighborsOf volume i2).z
  [i0, i1, i2, i3]

/-- The members of the diamond split by `diamond_split`, each with the slot of its twin: the
`k`-th member gets the slot `totalNumElements + k`. -/
def completePairs (volume : LEBVolume) (targetElement : Nat) : List (Nat × Nat) :=
  let currentType := typeOf volume targetElement
  let members :=
    if currentType = 0 then ring0 volume targetElement
    else if currentType = 1 ∨ currentType = 2 then ring12 volume targetElement
    else if currentType = 3 then ring3 volume targetElement
    else []
  members.zip ((List.range members.length).map (fun k => volume.totalNumElements + k))

/-- The number of places of the buffers of `diamond_split_incomplete`. -/
def ringSizeOf (currentType : Nat) : Nat := if currentType = 0 then 8 else 4

/-- The members of the diamond split by `diamond_split_incomplete`, each with the slot of its
twin, in the order of the buffer `indices`. -/
def incompletePairs (volume : LEBVolume) (targetElement rightElements leftElements : Nat) :
    List (Nat × Nat) :=
  let ringSize := ringSizeOf (typeOf volume targetElement)
  let st := collectArms volume targetElement rightElements leftElements ringSize
  (List.range (1 + rightElements + leftElements)).map (fun eleIdx =>
    (st.indices.getD eleIdx UINT32_MAX, st.slots.getD eleIdx UINT32_MAX))

/-- The read `volume.heapIDArray[i]`. -/
def heapOf (volume : LEBVolume) (i : Nat) : Nat :=
  volume.heapIDArray.getD i 0

/-- The type that a split gives to a member (`twin = false`) or to its twin (`twin = true`),
from the type of the target: the table `0 -> 1 | 2`, `1 -> 3`, `2 -> 3`, `3 -> 0`. -/
def splitType (currentType : Nat) (twin : Bool) : Nat :=
  if currentType = 0 then (if twin then 2 else 1)
  else if currentType = 1 ∨ currentType = 2 then 3
  else 0

/-- The effect of `splitHeapID` on the vector of heapIDs, for the pair (member, slot). -/
def heapStep (h : List Nat) (p : Nat × Nat) : List Nat :=
  let h1 := h.set p.1 ((h.getD p.1 0 * 2) % 2 ^ 64)
  h1.set p.2 ((h1.getD p.1 0 + 1) % 2 ^ 64)

/-- The effect of `setTypes` on the vector of types, for the pair (member, slot). -/
def typeStep (ti ts : Nat) (ty : List Nat) (p : Nat × Nat) : List Nat :=
  (ty.set p.1 ti).set p.2 ts

/-- The pairs (member, slot) of a diamond are well formed for a mesh of `count` elements that
grew to `len`: members are distinct old elements, slots are distinct new ones. -/
structure PairsOK (count len : Nat) (pairs : List (Nat × Nat)) : Prop where
  member_lt : ∀ p ∈ pairs, p.1 < count
  slot_ge : ∀ p ∈ pairs, count ≤ p.2
  slot_lt : ∀ p ∈ pairs, p.2 < len
  members_nodup : (pairs.map Prod.fst).Nodup
  slots_nodup : (pairs.map Prod.snd).Nodup

/-! ## Predicates used by the proofs -/

/-- Once a candidate face within the tolerance was met, the loop holds a neighbor. -/
def Matched (count : Nat) (st : ℚ × Nat) : Prop := st.1 < (1 / 1000) ^ 2 ∧ st.2 < count

/-- As long as the distance is `FLT_MAX` or more, or else a neighbor below `count` is held. -/
def Sound (count : Nat) (st : ℚ × Nat) : Prop := st.1 < (1 / 1000) ^ 2 → st.2 < count

/-- The state of the collecting loops after `n` allocations beyond the slot of the target:
the count, the two vectors, and the length of the buffer `slots`. -/
structure ArmsInv (v : LEBVolume) (ringSize n : Nat) (st : Arms) : Prop where
  total : st.volume.totalNumElements = v.totalNumElements + 1 + n
  heap : st.volume.heapIDArray = resize v.heapIDArray (v.totalNumElements + 1 + n)
  type : st.volume.typeArray = resize v.typeArray (v.totalNumElements + 1 + n)
  slots_len : st.slots.length = ringSize

/-- The heap arithmetic of one split along the pairs (member, slot) of its diamond: a member
with pre-split heapID `p`, `1 <= p < 2 ^ 63`, ends with `2 p`, its twin is a new element and
ends with `2 p + 1`, both are one level deeper, and no other element changes its heapID. -/
def HeapOutcome (v v' : LEBVolume) (pairs : List (Nat × Nat)) : Prop :=
  (∀ p ∈ pairs, 1 ≤ heapOf v p.1 → heapOf v p.1 < 2 ^ 63 →
    heapOf v' p.1 = 2 * heapOf v p.1 ∧ heapOf v' p.2 = 2 * heapOf v p.1 + 1 ∧
    leb__FindMSB (heapOf v' p.1) = leb__FindMSB (heapOf v p.1) + 1 ∧
    leb__FindMSB (heapOf v' p.2) = leb__FindMSB (heapOf v p.1) + 1 ∧
    v.totalNumElements ≤ p.2 ∧ p.2 < v'.totalNumElements) ∧
  (∀ e, e < v.totalNumElements → (∀ p ∈ pairs, e ≠ p.1) → heapOf v' e = heapOf v e)

/-- The types after one split along the pairs (member, slot) of its diamond: a member and its
twin get the types that the table gives for the pre-split type of the member, the member has
the even heapID and the twin the odd one, and no other element changes its type. -/
def TypeOutcome (v v' : LEBVolume) (pairs : List (Nat × Nat)) : Prop :=
  (∀ p ∈ pairs,
    typeOf v' p.1 = splitType (typeOf v p.1) false ∧
    typeOf v' p.2 = splitType (typeOf v p.1) true ∧
    heapOf v' p.1 % 2 = 0 ∧ heapOf v' p.2 % 2 = 1) ∧
  (∀ e, e < v.totalNumElements → (∀ p ∈ pairs, e ≠ p.1) → typeOf v' e = typeOf v e)


/-- Every stored type is one of 0, 1, 2, 3. -/
def TypesOK (volume : LEBVolume) : Prop := ∀ x ∈ volume.typeArray, x ≤ 3

/-! ## Concrete meshes at which the split steps are exercised -/

/-- The mesh after the calls `recursive_split_element` on the elements 0, 7 and 21 of the root
mesh: its element 0 has type 1 and closes a complete diamond of six elements. -/
def completeSample : LEBVolume :=
  match splitAll 64 rootVolumeExplicit [0, 7, 21] with
  | .ok v => v
  | .error _ => emptyVolume

/-- The mesh that `diamond_split` returns on the element 0 of `completeSample`. -/
def completeSampleSplit : LEBVolume :=
  match diamond_split completeSample 0 with
  | .ok v => v
  | .error _ => emptyVolume

/-- The mesh that `diamond_split_incomplete` returns on the element 0 of the root mesh, whose
diamond has no element on the right and one on the left. -/
def incompleteSampleSplit : LEBVolume :=
  match diamond_split_incomplete rootVolumeExplicit 0 0 1 with
  | .ok v => v
  | .error _ => emptyVolume

/-! ## `grid_volume.h`, `heuristic_cache.cpp`: the density grid and its cache of moments -/

structure uint3 where
  x : Nat
  y : Nat
  z : Nat
deriving DecidableEq, Repr

structure GridVolume where
  scale : float3
  resolution : uint3
  densityArray : List ℚ
deriving DecidableEq, Repr

structure HeuristicCache where
  numLevels : Nat
  resolution : Nat
  resolutions : List Nat
  offsets : List Nat
  momentArray : List float4
deriving DecidableEq, Repr

/-- The call `std::min(a, b)`: `b` when `b < a`, else `a`. -/
def stdMin (a b : ℚ) : ℚ := if b < a then b else a

/-- The call `std::max(a, b)`: `b` when `a < b`, else `a`. -/
def stdMax (a b : ℚ) : ℚ := if a < b then b else a

/-- The loop `while (currentRes > 0)` of `build_heuristic_cache`, on 64-bit counters; the
result is the cache and `initialOffset`. -/
def countLevels : Nat → Nat → Nat → HeuristicCache → Except Fail (HeuristicCache × Nat)
  | 0, _, _, _ => throw Fail.outOfFuel
  | fuel + 1, currentRes, initialOffset, cache =>
    if currentRes > 0 then
      let cache := { cache with
        offsets := cache.offsets ++ [initialOffset]
        resolutions := cache.resolutions ++ [currentRes % 2 ^ 32] }
      countLevels fuel (currentRes >>> 1)
        ((initialOffset + currentRes * currentRes * currentRes) % 2 ^ 64) cache
    else pure (cache, initialOffset)

/-- The local variables `minV`, `maxV`, `mean`, `mean2` of the loops over a block of eight
cells. -/
structure Moments where
  minV : ℚ
  maxV : ℚ
  mean : ℚ
  mean2 : ℚ
deriving DecidableEq, Repr

/-- The three loops `lz`, `ly`, `lx` over a block of eight cells; `body` is the innermost
statement list. -/
def blockLoop (body : Moments → Nat → Nat → Nat → Moments) : Moments :=
  (List.range 2).foldl (fun st lz =>
    (List.range 2).foldl (fun st ly =>
      (List.range 2).foldl (fun st lx => body st lx ly lz) st) st)
    { minV := FLT_MAX, maxV := -FLT_MAX, mean := 0, mean2 := 0 }

/-- The record `{ mean * 0.125f, mean2 * 0.125f, minV, maxV }` stored for a block. -/
def momentsOf (st : Moments) : float4 :=
  ⟨st.mean * (1 / 8), st.mean2 * (1 / 8), st.minV, st.maxV⟩

/-- The statistics of the block of the grid under the cell `(x, y, z)` of the lowest level. -/
def gridCell (volume : GridVolume) (x y z : Nat) : float4 :=
  momentsOf (blockLoop (fun st lx ly lz =>
    let offset := (x * 2 + lx + (y * 2 + ly) % 2 ^ 64 * volume.resolution.x
      + (z * 2 + lz) % 2 ^ 64 * volume.resolution.x * volume.resolution.y) % 2 ^ 64
    let density := volume.densityArray.getD offset 0
    { mean := st.mean + density
      mean2 := st.mean2 + density * density
      minV := stdMin st.minV density
      maxV := stdMax st.maxV density }))

/-- The statistics of the block of the level `lvlIdx - 1` under the cell `(x, y, z)` of the
level `lvlIdx`, read from the moments stored so far. -/
def cacheCell (offsets : List Nat) (lvlIdx inputRes : Nat) (momentArray : List float4)
    (x y z : Nat) : float4 :=
  momentsOf (blockLoop (fun st lx ly lz =>
    let offset := (offsets.getD (lvlIdx - 1) 0 + x * 2 + lx + (y * 2 + ly) % 2 ^ 32 * inputRes
      + (z * 2 + lz) % 2 ^ 32 * inputRes * inputRes) % 2 ^ 64
    let data := momentArray.getD offset default
    { mean := st.mean + data.x
      mean2 := st.mean2 + data.y
      minV := stdMin st.minV data.z
      maxV := stdMax st.maxV data.w }))

/-- The three loops `z`, `y`, `x` over the cells of one level of resolution `res` stored from
`base` on; the bound of `z` is the `int32_t` cast of `res`. -/
def fillCells (cell : List float4 → Nat → Nat → Nat → float4) (res base : Nat)
    (momentArray : List float4) : List float4 :=
  let zCount := if res < 2 ^ 31 then res else 0
  (List.range zCount).foldl (fun m z =>
    (List.range res).foldl (fun m y =>
      (List.range res).foldl (fun m x =>
        m.set ((base + x + y * res + z * res * res) % 2 ^ 64) (cell m x y z)) m) m)
    momentArray

/-- The variables `inputRes`, `outputRes` and the moments along the loop over the levels. -/
structure LevelState where
  inputRes : Nat
  outputRes : Nat
  momentArray : List float4

/-- The body of the loop `for (lvlIdx = 1; lvlIdx < cache.offsets.size(); ++lvlIdx)`. -/
def fillLevel (offsets : List Nat) (st : LevelState) (lvlIdx : Nat) : LevelState :=
  { inputRes := st.outputRes
    outputRes := st.outputRes >>> 1
    momentArray := fillCells (cacheCell offsets lvlIdx st.inputRes) st.outputRes
      (offsets.getD lvlIdx 0) st.momentArray }

/-- The function `build_heuristic_cache`, applied to the cache passed by reference. -/
def build_heuristic_cache (volume : GridVolume) (cache : HeuristicCache) :
    Except Fail HeuristicCache := do
  assert (volume.resolution.x == volume.resolution.y
    && volume.resolution.x == volume.resolution.z)
  let resolution := volume.resolution.x >>> 1
  let (cache, initialOffset) ←
    countLevels 64 resolution 0 { cache with resolution := resolution }
  let cache := { cache with
    momentArray := resize cache.momentArray initialOffset
    numLevels := cache.offsets.length % 2 ^ 32 }
  let first := fillCells (fun _ => gridCell volume) cache.resolution 0 cache.momentArray
  let st := (List.range' 1 (cache.offsets.length - 1)).foldl (fillLevel cache.offsets)
    { inputRes := cache.resolution, outputRes := cache.resolution >>> 1, momentArray := first }
  pure { cache with momentArray := st.momentArray }

/-- The conversion of a float to `int64_t`: truncation toward zero. -/
def truncate (q : ℚ) : Int := if 0 ≤ q then ⌊q⌋ else ⌈q⌉

/-- The function `sample_cache`.  `cacheDepth` is computed on `uint32_t`, cast to `int32_t`
and clamped at 0; the index is computed on 64 bits. -/
def sample_cache (cache : HeuristicCache) (position : float3) (depth : Nat) : float4 :=
  let raw := (cache.numLevels + 2 ^ 32 - (depth + 2 ^ 32 - 4) % 2 ^ 32 / 3 + 2 ^ 32 - 1) % 2 ^ 32
  let cacheDepth := if raw < 2 ^ 31 then raw else 0
  let resolution := cache.resolutions.getD cacheDepth 0
  let offset := cache.offsets.getD cacheDepth 0
  let normPos := position.add ⟨1 / 2, 1 / 2, 1 / 2⟩
  let coordX := truncate (normPos.x * resolution)
  let coordY := truncate (normPos.y * resolution)
  let coordZ := truncate (normPos.z * resolution)
  let index := ((offset : Int) + coordX + coordY * (resolution : Int)
    + ((resolution * resolution % 2 ^ 32 : Nat) : Int) * coordZ) % 2 ^ 64
  cache.momentArray.getD index.toNat default

/-! ## `volume_generation.cpp`: fitting the mesh to a grid -/

structure FittingParameters where
  frustumCull : Bool
  pixelCull : Bool
  cameraPosition : float3
  viewProjectionMatrix : float4x4
  screenSize : Nat × Nat
  ratioThreshold : ℚ
  minThreshold : ℚ
  pixelSize : ℚ

/-- The function `should_subdivide_element`.  The tests made under
`if (fittingParams.frustumCull)` (the frustum, then the size in pixels) normalise planes with
`sqrtf`; they are the parameter `keep`, which is `false` when one of them returns early. -/
def should_subdivide_element (keep : FittingParameters → GridVolume → Tetrahedron → Bool)
    (volume : LEBVolume) (eleIdx depth : Nat) (gridVolume : GridVolume)
    (gridCache : HeuristicCache) (fittingParams : FittingParameters) : Bool :=
  let tetra := volume.tetraCacheArray.getD eleIdx default
  if fittingParams.frustumCull && !keep fittingParams gridVolume tetra then false
  else
    let center := (((tetra.p0.add tetra.p1).add tetra.p2).add tetra.p3).mulScalar (1 / 4)
    let stats := sample_cache gridCache center depth
    let range := stats.w - stats.z
    let v := range / stdMax stats.x fittingParams.minThreshold
    decide (v > fittingParams.ratioThreshold)

/-- Modelled from the spec: the helper `find_msb_64`, which is not in the sources; the depth
of an element is the position of the highest set bit of its heapID. -/
def find_msb_64 (x : Nat) : Nat := leb__FindMSB x

/-- The body of the classifying loop of `fit_volume_to_grid` for the element `eleIdx`. -/
def classifyElement (keep : FittingParameters → GridVolume → Tetrahedron → Bool)
    (gridVolume : GridVolume) (heuristicCache : HeuristicCache)
    (parameters : FittingParameters) (maxDepth : Nat) (lebVolume : LEBVolume) (eleIdx : Nat) :
    LEBVolume :=
  if lebVolume.modifArray.getD eleIdx 0 &&& ELEMENT_INCLUDED = 0 then lebVolume
  else
    let lebVolume :=
      if lebVolume.modifArray.getD eleIdx 0 &&& ELEMENT_INVALID_CACHE = ELEMENT_INVALID_CACHE
      then
        let heapID := lebVolume.heapIDArray.getD eleIdx 0
        { lebVolume with
          depthArray := lebVolume.depthArray.set eleIdx (find_msb_64 heapID % 2 ^ 8)
          tetraCacheArray := lebVolume.tetraCacheArray.set eleIdx
            (evaluate_tetrahedron_cached heapID lebVolume.minimalDepth lebVolume.basePoints
              lebVolume.baseTypes Leb3DCache)
          modifArray := lebVolume.modifArray.set eleIdx
            (lebVolume.modifArray.getD eleIdx 0 &&& (255 - ELEMENT_INVALID_CACHE)) }
      else lebVolume
    if lebVolume.depthArray.getD eleIdx 0 ≥ maxDepth then lebVolume
    else if should_subdivide_element keep lebVolume eleIdx (lebVolume.depthArray.getD eleIdx 0)
        gridVolume heuristicCache parameters then
      let flags := lebVolume.modifArray.getD eleIdx 0 ||| ELEMENT_REQUESTED
      { lebVolume with modifArray := lebVolume.modifArray.set eleIdx flags }
    else
      let flags := lebVolume.modifArray.getD eleIdx 0 &&& (255 - ELEMENT_INCLUDED)
      { lebVolume with modifArray := lebVolume.modifArray.set eleIdx flags }

/-- The body of the splitting loop of `fit_volume_to_grid`; the state is the volume and
`splitTriggered`. -/
def splitRequested (fuel : Nat) (st : LEBVolume × Nat) (eleIdx : Nat) :
    Except Fail (LEBVolume × Nat) :=
  if st.1.modifArray.getD eleIdx 0 &&& ELEMENT_REQUESTED = ELEMENT_REQUESTED then do
    let volume ← recursive_split_element fuel st.1 eleIdx
    pure (volume, (st.2 + 1) % 2 ^ 32)
  else pure st

/-- The sequential loop over the elements of a round. -/
def splitLoop (fuel : Nat) : List Nat → LEBVolume × Nat → Except Fail (LEBVolume × Nat)
  | [], st => pure st
  | eleIdx :: rest, st => do
    let st ← splitRequested fuel st eleIdx
    splitLoop fuel rest st

/-- The loop `while (true)` of `fit_volume_to_grid`: classify, split, and stop after a round
without a split.  The bound of the classifying loop is the `int32_t` cast of the count. -/
def fitRounds (keep : FittingParameters → GridVolume → Tetrahedron → Bool)
    (gridVolume : GridVolume) (heuristicCache : HeuristicCache)
    (parameters : FittingParameters) (maxDepth : Nat) :
    Nat → LEBVolume → Except Fail LEBVolume
  | 0, _ => throw Fail.outOfFuel
  | fuel + 1, lebVolume => do
    let elementCount := lebVolume.totalNumElements
    let classified := (List.range (if elementCount < 2 ^ 31 then elementCount else 0)).foldl
      (classifyElement keep gridVolume heuristicCache parameters maxDepth) lebVolume
    let (lebVolume, splitTriggered) ←
      splitLoop (fuel + 1) (List.range elementCount) (classified, 0)
    if splitTriggered = 0 then pure lebVolume
    else fitRounds keep gridVolume heuristicCache parameters maxDepth fuel lebVolume

/-- The function `fit_volume_to_grid`; the result is the volume and the returned `maxDepth`.
`log2f` is the function of the C library, and `keep` stands for the culling tests. -/
def fit_volume_to_grid (log2f : ℚ → ℚ)
    (keep : FittingParameters → GridVolume → Tetrahedron → Bool) (fuel : Nat)
    (lebVolume : LEBVolume) (gridVolume : GridVolume) (heuristicCache : HeuristicCache)
    (parameters : FittingParameters) : Except Fail (LEBVolume × Nat) := do
  let maxDepth := ((truncate (log2f gridVolume.resolution.x * 3 + 6)).toNat % 2 ^ 32
    + 2 ^ 32 - 2) % 2 ^ 32
  let flags := ELEMENT_INCLUDED ||| ELEMENT_INVALID_CACHE
  let lebVolume := (List.range lebVolume.totalNumElements).foldl (fun volume eleIdx =>
    { volume with modifArray := volume.modifArray.set eleIdx flags }) lebVolume
  let lebVolume ← fitRounds keep gridVolume heuristicCache parameters maxDepth fuel lebVolume
  pure (lebVolume, maxDepth)

/-! ## Predicates used by the proofs about the cache -/

/-- The offsets and the resolutions that the loop over the levels appends when it starts at
the resolution `cur` and the offset `off`, and the offset `total` that it ends with. -/
def Chain : Nat → Nat → List Nat → List Nat → Nat → Prop
  | cur, off, [], [], total => cur = 0 ∧ total = off
  | cur, off, o :: offs, r :: ress, total =>
    0 < cur ∧ o = off ∧ r = cur ∧ Chain (cur / 2) (off + cur ^ 3) offs ress total
  | _, _, _ :: _, [], _ => False
  | _, _, [], _ :: _, _ => False

/-- The place of the cell `(x, y, z)` of a level of resolution `res` stored from `base` on. -/
def cellIndex (base res x y z : Nat) : Nat := base + x + y * res + z * res * res

/-- The places of the cells of a level. -/
def LevelCells (base res : Nat) (i : Nat) : Prop :=
  ∃ x y z, x < res ∧ y < res ∧ z < res ∧ i = cellIndex base res x y z

/-- A record whose minimum and maximum are both `c`. -/
def Flat (c : ℚ) (cell : float4) : Prop := cell.z = c ∧ cell.w = c

/-- The moments hold `len` records, and the records at the places `S` are flat. -/
def CellsOK (c : ℚ) (len : Nat) (S : Nat → Prop) (momentArray : List float4) : Prop :=
  momentArray.length = len ∧ ∀ i, S i → Flat c (momentArray.getD i default)

/-- The cache that `build_heuristic_cache` receives: no level yet. -/
def emptyCache : HeuristicCache :=
  { numLevels := 0, resolution := 0, resolutions := [], offsets := [], momentArray := [] }

/-- The centroid of the tetrahedron, as `should_subdivide_element` computes it, lies in the
cell of the coarsest level: each coordinate plus one half is in `[0, 1)`. -/
def centerInside (tetra : Tetrahedron) : Prop :=
  let center := (((tetra.p0.add tetra.p1).add tetra.p2).add tetra.p3).mulScalar (1 / 4)
  (0 ≤ center.x + 1 / 2 ∧ center.x + 1 / 2 < 1) ∧ (0 ≤ center.y + 1 / 2 ∧ center.y + 1 / 2 < 1) ∧
  (0 ≤ center.z + 1 / 2 ∧ center.z + 1 / 2 < 1)

instance (tetra : Tetrahedron) : Decidable (centerInside tetra) := by
  unfold centerInside
  infer_instance

/-- What the fitting needs of the mesh it starts from: the count fits the signed loop counter,
the working vectors hold one entry per element, every element has depth 5 and its centroid
lies in the cell of the coarsest level of the cache. -/
def Fittable (v : LEBVolume) : Prop :=
  v.totalNumElements < 2 ^ 31 ∧
  v.modifArray.length = v.totalNumElements ∧
  v.depthArray.length = v.totalNumElements ∧
  v.tetraCacheArray.length = v.totalNumElements ∧
  ∀ e, e < v.totalNumElements →
    find_msb_64 (v.heapIDArray.getD e 0) % 2 ^ 8 = 5 ∧
    centerInside (evaluate_tetrahedron_cached (v.heapIDArray.getD e 0) v.minimalDepth
      v.basePoints v.baseTypes Leb3DCache)

instance (v : LEBVolume) : Decidable (Fittable v) := by
  unfold Fittable
  infer_instance

/-- The state of the classifying loop of a round over the mesh `v` after the elements below
`k`: only the working vectors changed, the elements from `k` on still carry the flags
`ELEMENT_INCLUDED | ELEMENT_INVALID_CACHE`, and no element below `k` is requested. -/
structure Classified (v : LEBVolume) (k : Nat) (w : LEBVolume) : Prop where
  total : w.totalNumElements = v.totalNumElements
  heap : w.heapIDArray = v.heapIDArray
  type : w.typeArray = v.typeArray
  neighbors : w.neighborsArray = v.neighborsArray
  points : w.basePoints = v.basePoints
  baseTypes : w.baseTypes = v.baseTypes
  minDepth : w.minimalDepth = v.minimalDepth
  modifLen : w.modifArray.length = v.totalNumElements
  depthLen : w.depthArray.length = v.totalNumElements
  tetraLen : w.tetraCacheArray.length = v.totalNumElements
  pending : ∀ j, k ≤ j → j < v.totalNumElements → w.modifArray.getD j 0 = 3
  settled : ∀ j, j < k → w.modifArray.getD j 0 &&& 4 = 0

/-- What the fitting reads of the cache: the coarsest level is one cell, and its record has
the same minimum and maximum. -/
def CoarseFlat (cache : HeuristicCache) : Prop :=
  1 ≤ cache.numLevels ∧ cache.numLevels < 2 ^ 31 ∧
  cache.resolutions.getD (cache.numLevels - 1) 0 = 1 ∧
  cache.offsets.getD (cache.numLevels - 1) 0 < 2 ^ 64 ∧
  (cache.momentArray.getD (cache.offsets.getD (cache.numLevels - 1) 0) default).w =
    (cache.momentArray.getD (cache.offsets.getD (cache.numLevels - 1) 0) default).z

/-- The fitting parameters as `FittingParameters` declares them by default, with the camera at
the origin, the identity as view-projection matrix and a screen of one pixel. -/
def defaultParameters : FittingParameters :=
  { frustumCull := false, pixelCull := false, cameraPosition := ⟨0, 0, 0⟩,
    viewProjectionMatrix := leb__IdentityMatrix4x4, screenSize := (1, 1),
    ratioThreshold := 2, minThreshold := 5, pixelSize := 5 }

/-! ## What the classifying loop reads of an element -/

/-- The flags of the element once the loop has refreshed its caches: the flag
`ELEMENT_INVALID_CACHE` is cleared. -/
def classFlags (v : LEBVolume) (e : Nat) : Nat :=
  if v.modifArray.getD e 0 &&& ELEMENT_INVALID_CACHE = ELEMENT_INVALID_CACHE then
    v.modifArray.getD e 0 &&& (255 - ELEMENT_INVALID_CACHE)
  else v.modifArray.getD e 0

/-- The depth that the loop compares with `maxDepth`: re-evaluated from the heapID when the
caches are flagged invalid, read from `depthArray` otherwise. -/
def classDepth (v : LEBVolume) (e : Nat) : Nat :=
  if v.modifArray.getD e 0 &&& ELEMENT_INVALID_CACHE = ELEMENT_INVALID_CACHE then
    find_msb_64 (v.heapIDArray.getD e 0) % 2 ^ 8
  else v.depthArray.getD e 0

/-- The tetrahedron that `should_subdivide_element` reads: re-evaluated from the heapID when
the caches are flagged invalid, read from `tetraCacheArray` otherwise. -/
def classTetra (v : LEBVolume) (e : Nat) : Tetrahedron :=
  if v.modifArray.getD e 0 &&& ELEMENT_INVALID_CACHE = ELEMENT_INVALID_CACHE then
    evaluate_tetrahedron_cached (v.heapIDArray.getD e 0) v.minimalDepth v.basePoints
      v.baseTypes Leb3DCache
  else v.tetraCacheArray.getD e default

/-- The value `v` of `should_subdivide_element`: range over mean, the mean clamped from
below, with the statistics sampled at the centroid of the tetrahedron. -/
def densityRatio (gridCache : HeuristicCache) (fittingParams : FittingParameters)
    (tetra : Tetrahedron) (depth : Nat) : ℚ :=
  let center := (((tetra.p0.add tetra.p1).add tetra.p2).add tetra.p3).mulScalar (1 / 4)
  let stats := sample_cache gridCache center depth
  (stats.w - stats.z) / stdMax stats.x fittingParams.minThreshold

/-- The flags of the element `e` after the classifying loop of a round that starts from `v`. -/
def classifiedFlags (gridCache : HeuristicCache) (fittingParams : FittingParameters)
    (maxDepth : Nat) (v : LEBVolume) (e : Nat) : Nat :=
  if v.modifArray.getD e 0 &&& ELEMENT_INCLUDED = 0 then v.modifArray.getD e 0
  else if classDepth v e ≥ maxDepth then classFlags v e
  else if densityRatio gridCache fittingParams (classTetra v e) (classDepth v e)
      > fittingParams.ratioThreshold then classFlags v e ||| ELEMENT_REQUESTED
  else classFlags v e &&& (255 - ELEMENT_INCLUDED)

/-- The classifying loop of a round of `fit_volume_to_grid` over the mesh `v`. -/
def classifyAll (keep : FittingParameters → GridVolume → Tetrahedron → Bool)
    (gridVolume : GridVolume) (heuristicCache : HeuristicCache)
    (parameters : FittingParameters) (maxDepth : Nat) (v : LEBVolume) : LEBVolume :=
  (List.range (if v.totalNumElements < 2 ^ 31 then v.totalNumElements else 0)).foldl
    (classifyElement keep gridVolume heuristicCache parameters maxDepth) v

/-- What the body of the classifying loop leaves alone: everything but the working vectors,
their lengths, and their entries of the other elements. -/
structure SameBut (k : Nat) (w u : LEBVolume) : Prop where
  total : u.totalNumElements = w.totalNumElements
  heap : u.heapIDArray = w.heapIDArray
  points : u.basePoints = w.basePoints
  baseTypes : u.baseTypes = w.baseTypes
  minDepth : u.minimalDepth = w.minimalDepth
  modifLen : u.modifArray.length = w.modifArray.length
  depthLen : u.depthArray.length = w.depthArray.length
  tetraLen : u.tetraCacheArray.length = w.tetraCacheArray.length
  modif : ∀ j, j ≠ k → u.modifArray.getD j 0 = w.modifArray.getD j 0
  depth : ∀ j, j ≠ k → u.depthArray.getD j 0 = w.depthArray.getD j 0
  tetra : ∀ j, j ≠ k → u.tetraCacheArray.getD j default = w.tetraCacheArray.getD j default

/-- The root mesh as the first round of the fitting finds it: every element carries the
flags `ELEMENT_INCLUDED | ELEMENT_INVALID_CACHE`. -/
def classifySample : LEBVolume :=
  { rootVolumeExplicit with modifArray := List.replicate 24 3 }

/-- A cache of one level of one cell, with mean 1, minimum 0 and maximum 20. -/
def classifyCache : HeuristicCache :=
  { numLevels := 1, resolution := 2, resolutions := [1], offsets := [0],
    momentArray := [float4.mk 1 1 0 20] }

/-! ## The parts of `sample_cache` -/

/-- The first statement of `sample_cache`: `cacheDepth`, computed on `uint32_t`, cast to
`int32_t` and clamped at 0. -/
def selectLevel (numLevels depth : Nat) : Nat :=
  let raw := (numLevels + 2 ^ 32 - (depth + 2 ^ 32 - 4) % 2 ^ 32 / 3 + 2 ^ 32 - 1) % 2 ^ 32
  if raw < 2 ^ 31 then raw else 0

/-- A lattice coordinate of `sample_cache`: the conversion `int64_t(normPos * resolution)` for
the coordinate `q` of the position. -/
def sampleCoord (q : ℚ) (resolution : Nat) : Int := truncate ((q + 1 / 2) * resolution)

/-- The index that `sample_cache` reads in `momentArray` at the level `cacheDepth`. -/
def sampleIndex (cache : HeuristicCache) (position : float3) (cacheDepth : Nat) : Int :=
  let resolution := cache.resolutions.getD cacheDepth 0
  let offset := cache.offsets.getD cacheDepth 0
  ((offset : Int) + sampleCoord position.x resolution
    + sampleCoord position.y resolution * (resolution : Int)
    + ((resolution * resolution % 2 ^ 32 : Nat) : Int) * sampleCoord position.z resolution)
    % 2 ^ 64

/-- The cache that `build_heuristic_cache` makes of a grid of `2 x 2 x 2` cells of density
7: one level of one cell. -/
def unitCache : HeuristicCache :=
  { numLevels := 1, resolution := 1, resolutions := [1], offsets := [0],
    momentArray := [float4.mk 7 49 7 7] }

/-- The grid of one cell, of density 7. -/
def unitGrid : GridVolume := ⟨⟨1, 1, 1⟩, ⟨1, 1, 1⟩, [7]⟩

/-- A function that agrees with `log2f` at 1, where both are 0. -/
def zeroLog : ℚ → ℚ := fun _ => 0

/-! ## The statistics that the cache should hold -/

/-- The density of the grid cell `(X, Y, Z)`, at the index that `evaluate_grid_value` reads. -/
def densityAt (volume : GridVolume) (X Y Z : Nat) : ℚ :=
  volume.densityArray.getD
    (X + Y * volume.resolution.x + volume.resolution.x * volume.resolution.y * Z) 0

/-- The sum of `f` of the densities over the block of side `s` with corner `(X, Y, Z)`. -/
def blockSum (f : ℚ → ℚ) (volume : GridVolume) (s X Y Z : Nat) : ℚ :=
  ∑ dz ∈ Finset.range s, ∑ dy ∈ Finset.range s, ∑ dx ∈ Finset.range s,
    f (densityAt volume (X + dx) (Y + dy) (Z + dz))

/-- The record `cell` holds the mean, the mean of the squares, the minimum and the maximum of
the densities over the block of side `s` with corner `(X, Y, Z)`. -/
structure BlockStats (volume : GridVolume) (s X Y Z : Nat) (cell : float4) : Prop where
  mean : cell.x = blockSum (fun d => d) volume s X Y Z / (s : ℚ) ^ 3
  mean2 : cell.y = blockSum (fun d => d * d) volume s X Y Z / (s : ℚ) ^ 3
  minLe : ∀ dx dy dz, dx < s → dy < s → dz < s →
    cell.z ≤ densityAt volume (X + dx) (Y + dy) (Z + dz)
  minAt : ∃ dx dy dz, dx < s ∧ dy < s ∧ dz < s ∧
    cell.z = densityAt volume (X + dx) (Y + dy) (Z + dz)
  maxGe : ∀ dx dy dz, dx < s → dy < s → dz < s →
    densityAt volume (X + dx) (Y + dy) (Z + dz) ≤ cell.w
  maxAt : ∃ dx dy dz, dx < s ∧ dy < s ∧ dz < s ∧
    cell.w = densityAt volume (X + dx) (Y + dy) (Z + dz)

/-- The moments hold `len` records, and the record at each place `i` of `S` satisfies
`P i`. -/
def CellsAt (P : Nat → float4 → Prop) (len : Nat) (S : Nat → Prop)
    (momentArray : List float4) : Prop :=
  momentArray.length = len ∧ ∀ i, S i → P i (momentArray.getD i default)

/-- What the place `i` of the moments should hold: if it is the cell `(x, y, z)` of the
level `l`, the statistics of the block of side `2 ^ (l + 1)` with corner
`(x, y, z) * 2 ^ (l + 1)`. -/
def LevelStats (volume : GridVolume) (offs ress : List Nat) (i : Nat) (cell : float4) : Prop :=
  ∀ l x y z, l < ress.length → x < ress.getD l 0 → y < ress.getD l 0 → z < ress.getD l 0 →
    i = cellIndex (offs.getD l 0) (ress.getD l 0) x y z →
    BlockStats volume (2 ^ (l + 1)) (x * 2 ^ (l + 1)) (y * 2 ^ (l + 1)) (z * 2 ^ (l + 1)) cell

/-- A grid of `2 x 2 x 2` cells with the densities 1 to 8. -/
def sampleGrid : GridVolume :=
  { scale := ⟨1, 1, 1⟩, resolution := ⟨2, 2, 2⟩, densityArray := [1, 2, 3, 4, 5, 6, 7, 8] }

/-! ## `morton_cache.cpp`: the table of Morton codes -/

/-- The function `interleave_bits`, on a 64-bit `v`. -/
def interleave_bits (x : Nat) : Nat :=
  let v := x &&& 0x1fffff
  let v := (v ||| (v <<< 16) % 2 ^ 64) &&& 0x0000003F0000FFFF
  let v := (v ||| (v <<< 16) % 2 ^ 64) &&& 0x003F0000FF0000FF
  let v := (v ||| (v <<< 8) % 2 ^ 64) &&& 0x300F00F00F00F00F
  let v := (v ||| (v <<< 4) % 2 ^ 64) &&& 0x30C30C30C30C30C3
  let v := (v ||| (v <<< 2) % 2 ^ 64) &&& 0x9249249249249249
  v

/-- The bit `j` of a word in which the input bit `i < 21` sits at the place
`i + c * (i / w)`: the state of `interleave_bits` between two of its steps. -/
def spreadBit (x w c j : Nat) : Bool :=
  decide (j % (w + c) < w) && decide (j / (w + c) * w + j % (w + c) < 21)
    && x.testBit (j / (w + c) * w + j % (w + c))

def morton_encode_3D (x y z : Nat) : Nat :=
  let xBits := interleave_bits x
  let yBits := interleave_bits y
  let zBits := interleave_bits z
  (xBits <<< 2) % 2 ^ 64 ||| (yBits <<< 1) % 2 ^ 64 ||| zBits

/-- The record `MortonCache::Element`. -/
structure Element where
  code : Nat
  index : Nat
deriving DecidableEq, Repr, Inhabited

/-- The members of the class `MortonCache`. -/
structure MortonCache where
  m_Cache : List Element
  m_NumElements : Nat
  m_MinPosition : float3
  m_MaxPosition : float3
deriving DecidableEq, Repr

/-- A default-constructed `MortonCache`. -/
def emptyMorton : MortonCache :=
  { m_Cache := [], m_NumElements := 0, m_MinPosition := ⟨FLT_MAX, FLT_MAX, FLT_MAX⟩,
    m_MaxPosition := ⟨-FLT_MAX, -FLT_MAX, -FLT_MAX⟩ }

/-- Modelled from the spec: the component-wise `min` of `math/operators.h`, which is not in
the sources. -/
def float3.min (a b : float3) : float3 := ⟨stdMin a.x b.x, stdMin a.y b.y, stdMin a.z b.z⟩

/-- Modelled from the spec: the component-wise `max` of `math/operators.h`, which is not in
the sources. -/
def float3.max (a b : float3) : float3 := ⟨stdMax a.x b.x, stdMax a.y b.y, stdMax a.z b.z⟩

/-- Modelled from the spec: the component-wise quotient of `math/operators.h`, which is not
in the sources. -/
def float3.div (a b : float3) : float3 := ⟨a.x / b.x, a.y / b.y, a.z / b.z⟩

/-- The conversion `(uint32_t)` of a float: truncation, then the low 32 bits. -/
def toUint32 (q : ℚ) : Nat := (truncate q).toNat % 2 ^ 32

def evaluate_morton_code (cache : MortonCache) (targetPosition : float3) : Nat :=
  let normPos := (targetPosition.sub cache.m_MinPosition).div
    (cache.m_MaxPosition.sub cache.m_MinPosition)
  let cx := toUint32 (normPos.x * (1 <<< 21 : Nat))
  let cy := toUint32 (normPos.y * (1 <<< 21 : Nat))
  let cz := toUint32 (normPos.z * (1 <<< 21 : Nat))
  morton_encode_3D cx cy cz

/-- The function `MortonCache::build_cache`; `sort` stands for the call of `std::sort` with
the comparison `ElementLess`. -/
def build_cache (sort : List Element → List Element) (cache : MortonCache)
    (positionArray : List float3) (numPositions : Nat) : MortonCache :=
  let cache := { cache with
    m_NumElements := numPositions
    m_Cache := resize cache.m_Cache numPositions }
  let cache := (List.range cache.m_NumElements).foldl (fun (cache : MortonCache) idx =>
    let currentPos := positionArray.getD idx default
    { cache with
      m_MinPosition := float3.min currentPos cache.m_MinPosition
      m_MaxPosition := float3.max currentPos cache.m_MaxPosition }) cache
  let cache := (List.range cache.m_NumElements).foldl (fun (cache : MortonCache) idx =>
    let currentPos := positionArray.getD idx default
    { cache with
      m_Cache := cache.m_Cache.set idx ⟨evaluate_morton_code cache currentPos, idx⟩ }) cache
  { cache with m_Cache := sort cache.m_Cache }

/-- The loop `while (low <= high)` of `get_closest_element`.  The reference `closest` is the
entry 0 of the table, so the assignment `closest = m_Cache[mid]` writes the table; the result
is the returned index and the table. -/
def searchLoop (target : Nat) : Nat → Int → Int → List Element →
    Except Fail (Nat × List Element)
  | 0, _, _, _ => throw Fail.outOfFuel
  | fuel + 1, low, high, table =>
    if low ≤ high then
      let mid := low + (high - low).tdiv 2
      let leftT :=
        if (table.getD mid.toNat default).code > target
        then (table.getD mid.toNat default).code - target
        else target - (table.getD mid.toNat default).code
      let rightT :=
        if (table.getD 0 default).code > target then (table.getD 0 default).code - target
        else target - (table.getD 0 default).code
      let table := if leftT < rightT then table.set 0 (table.getD mid.toNat default) else table
      if (table.getD mid.toNat default).code = target then
        pure ((table.getD mid.toNat default).index, table)
      else if (table.getD mid.toNat default).code < target then
        searchLoop target fuel (mid + 1) high table
      else searchLoop target fuel low (mid - 1) table
    else pure ((table.getD 0 default).index, table)

/-- The conversion of a `uint32_t` to `int`. -/
def toInt32 (n : Nat) : Int := if n % 2 ^ 32 < 2 ^ 31 then (n % 2 ^ 32 : Nat) else (n % 2 ^ 32 : Nat) - 2 ^ 32

/-- The function `MortonCache::get_closest_element`; the result is the returned index and
the cache after the call. -/
def get_closest_element (fuel : Nat) (cache : MortonCache) (position : float3) :
    Except Fail (Nat × MortonCache) := do
  let target := evaluate_morton_code cache position
  let high := toInt32 (cache.m_NumElements + 2 ^ 32 - 1)
  let (index, table) ← searchLoop target fuel 0 high cache.m_Cache
  pure (index, { cache with m_Cache := table })

/-- The five points of the sample table. -/
def mortonPoints : List float3 :=
  [⟨1 / 2, 1 / 2, -1 / 2⟩, ⟨1 / 2, 0, 1 / 2⟩, ⟨1 / 2, 0, 0⟩, ⟨-1 / 2, 1 / 4, 1 / 4⟩,
   ⟨0, -1 / 2, 0⟩]

/-- The table of the five points, sorted by code. -/
def mortonTable : List Element :=
  [⟨0, 0⟩, ⟨0x2000000000000000, 1⟩, ⟨0x3000000000000000, 2⟩, ⟨0x3600000000000000, 3⟩,
   ⟨0x5000000000000000, 4⟩]

/-- The two opposite corners of the cube. -/
def cornerPoints : List float3 := [⟨-1 / 2, -1 / 2, -1 / 2⟩, ⟨1 / 2, 1 / 2, 1 / 2⟩]

/-- A sorting routine to run `build_cache` with: insertion sort by code. -/
def sortByCode (l : List Element) : List Element :=
  List.insertionSort (fun a b => a.code ≤ b.code) l

/-! ## `leb_volume_gpu.cpp`, `leb_renderer.cpp`: compressed plane equations -/

/-- The table `g_Directions` of `leb_volume_gpu.cpp`, with its decimal constants. -/
def g_Directions : List float3 :=
  [⟨-1, 0, 0⟩,
   ⟨-(707107 / 1000000), -(707107 / 1000000), 0⟩,
   ⟨-(707107 / 1000000), -0, -(707107 / 1000000)⟩,
   ⟨-(707107 / 1000000), 0, 707107 / 1000000⟩,
   ⟨-(707107 / 1000000), 707107 / 1000000, 0⟩,
   ⟨0, -1, 0⟩,
   ⟨0, -(707107 / 1000000), -(707107 / 1000000)⟩,
   ⟨0, -(707107 / 1000000), 707107 / 1000000⟩,
   ⟨0, 0, -1⟩,
   ⟨1, 0, 0⟩,
   ⟨707107 / 1000000, 707107 / 1000000, -0⟩,
   ⟨707107 / 1000000, 0, 707107 / 1000000⟩,
   ⟨707107 / 1000000, 0, -(707107 / 1000000)⟩,
   ⟨707107 / 1000000, -(707107 / 1000000), 0⟩,
   ⟨0, 1, 0⟩,
   ⟨-0, 707107 / 1000000, 707107 / 1000000⟩,
   ⟨0, 707107 / 1000000, -(707107 / 1000000)⟩,
   ⟨0, 0, 1⟩]

/-- The constant `INV_SQRT2` of `leb_renderer.cpp`. -/
def INV_SQRT2 : ℚ := 70710678118 / 100000000000

/-- The table `g_DirectionsRaw` of `leb_renderer.cpp`. -/
def g_DirectionsRaw : List float3 :=
  [⟨-1, 0, 0⟩,
   ⟨-INV_SQRT2, -INV_SQRT2, 0⟩,
   ⟨-INV_SQRT2, -0, -INV_SQRT2⟩,
   ⟨-INV_SQRT2, 0, INV_SQRT2⟩,
   ⟨-INV_SQRT2, INV_SQRT2, 0⟩,
   ⟨0, -1, 0⟩,
   ⟨0, -INV_SQRT2, -INV_SQRT2⟩,
   ⟨0, -INV_SQRT2, INV_SQRT2⟩,
   ⟨0, 0, -1⟩]

/-- The function `compress_plane_equation`; `offsetBits` is the bit pattern of the float
`offsetToOrigin`, which the code reads through `reinterpret_cast`. -/
def compress_plane_equation (planeIdx offsetBits : Nat) : Nat :=
  let signV := planeIdx / 9
  let planeID := planeIdx % 9
  (offsetBits &&& 0xFFFFFFE0) ||| (signV <<< 4) % 2 ^ 32 ||| planeID

/-- The function `decompress_plane_equation`; the result is `planeDir` and the bit pattern of
`offsetToOrigin`. -/
def decompress_plane_equation (cE : Nat) : float3 × Nat :=
  let normIdx := (cE &&& 0xf) % 2 ^ 8
  let planeDir := g_DirectionsRaw.getD normIdx default
  let planeDir := planeDir.mulScalar (if cE &&& 0x10 ≠ 0 then -1 else 1)
  let offset := cE &&& 0xFFFFFFE0
  (planeDir, offset)

/-! ## `leb_volume.cpp`, `leb_volume_gpu.cpp`: the packed volume -/

/-- The function `evaluate_positions`: four vertices per element, re-evaluated from the
heapID when the caches are flagged invalid, read from `tetraCacheArray` otherwise.  The bound
of the loop is the `int32_t` cast of the count. -/
def evaluate_positions (lebVolume : LEBVolume) : List float3 :=
  let vertices := resize ([] : List float3) (4 * lebVolume.totalNumElements % 2 ^ 32)
  (List.range (if lebVolume.totalNumElements < 2 ^ 31 then lebVolume.totalNumElements else 0)).foldl
    (fun vertices elementID =>
      let heapID := lebVolume.heapIDArray.getD elementID 0
      let tetra :=
        if lebVolume.modifArray.getD elementID 0 &&& 2 = 2 then
          evaluate_tetrahedron_cached heapID lebVolume.minimalDepth lebVolume.basePoints
            lebVolume.baseTypes Leb3DCache
        else lebVolume.tetraCacheArray.getD elementID default
      (((vertices.set (4 * elementID) tetra.p0).set (4 * elementID + 1) tetra.p1).set
        (4 * elementID + 2) tetra.p2).set (4 * elementID + 3) tetra.p3)
    vertices

/-- The table `g_TriangleIndices`: the vertices of the faces 0 to 3. -/
def g_TriangleIndices : List uint3 := [⟨0, 1, 2⟩, ⟨3, 1, 0⟩, ⟨1, 3, 2⟩, ⟨3, 0, 2⟩]

instance : Inhabited uint3 := ⟨⟨0, 0, 0⟩⟩

structure TetraData where
  compressedEquations : uint4
  neighbors : uint4
  density : ℚ
deriving DecidableEq, Repr

instance : Inhabited TetraData := ⟨⟨default, default, 0⟩⟩

structure LEBVolumeGPU where
  frustumCull : Bool
  vpMat : float4x4
  cameraPosition : float3
  scale : float3
  tetraData : List TetraData
  centerArray : List float3
  densityArray : List ℚ
  rtasIndexArray : List uint3
  rtasPositionArray : List float3
  outsideElements : List Nat
  positionArray : List float3
deriving DecidableEq, Repr

/-- A default-constructed `LEBVolumeGPU`. -/
def emptyVolumeGPU : LEBVolumeGPU :=
  { frustumCull := false, vpMat := ⟨⟨0, 0, 0, 0⟩, ⟨0, 0, 0, 0⟩, ⟨0, 0, 0, 0⟩, ⟨0, 0, 0, 0⟩⟩,
    cameraPosition := ⟨0, 0, 0⟩, scale := ⟨1, 1, 1⟩, tetraData := [], centerArray := [],
    densityArray := [], rtasIndexArray := [], rtasPositionArray := [], outsideElements := [],
    positionArray := [] }

/-- The vertex `i` of a tetrahedron. -/
def Tetrahedron.p (tetra : Tetrahedron) (i : Nat) : float3 :=
  if i = 0 then tetra.p0 else if i = 1 then tetra.p1 else if i = 2 then tetra.p2 else tetra.p3

/-- The loop over `plIdx` that classifies the direction of a plane: the first of the 18
directions whose dot product with the normal exceeds 0.99, and 0 when there is none. -/
def classifyPlane (normal : float3) : Nat :=
  ((List.range 18).find? (fun plIdx =>
    decide ((g_Directions.getD plIdx default).x * normal.x
      + (g_Directions.getD plIdx default).y * normal.y
      + (g_Directions.getD plIdx default).z * normal.z > 99 / 100))).getD 0

/-- The functions that the packing calls and that are kept abstract: the plane through three
points (it normalises with a square root), the bit pattern of a float, and the two
evaluations of the density. -/
structure PackingOps where
  evaluate_plane_equation : float3 → float3 → float3 → float4
  floatBits : ℚ → Nat
  mean_density_element : GridVolume → Nat → Tetrahedron → ℚ
  evaluate_grid_value : GridVolume → float3 → ℚ

/-- The body of the parallel loop of `convert_to_leb_volume_to_gpu` for the element
`eleID`. -/
def packElement (ops : PackingOps) (lebVolume : LEBVolume) (gridVolume : GridVolume)
    (maxDepth : Nat) (positionArray : List float3) (lebVolumeGPU : LEBVolumeGPU)
    (eleID : Nat) : LEBVolumeGPU :=
  let tetra : Tetrahedron :=
    ⟨positionArray.getD (4 * eleID) default, positionArray.getD (4 * eleID + 1) default,
     positionArray.getD (4 * eleID + 2) default, positionArray.getD (4 * eleID + 3) default⟩
  let center := (((tetra.p0.add tetra.p1).add tetra.p2).add tetra.p3).mulScalar (1 / 4)
  let depth := find_msb_64 (lebVolume.heapIDArray.getD eleID 0) % 2 ^ 32
  let data := lebVolumeGPU.tetraData.getD eleID default
  let density := if depth < maxDepth then ops.mean_density_element gridVolume depth tetra
    else ops.evaluate_grid_value gridVolume center
  let data := { data with
    neighbors := lebVolume.neighborsArray.getD eleID default
    density := density }
  let data := (List.range 4).foldl (fun (data : TetraData) idx =>
    let indices := g_TriangleIndices.getD idx default
    let equation := ops.evaluate_plane_equation (tetra.p indices.x) (tetra.p indices.y)
      (tetra.p indices.z)
    let tarPlane := classifyPlane ⟨equation.x, equation.y, equation.z⟩
    let compressed := compress_plane_equation tarPlane (ops.floatBits equation.w)
    { data with compressedEquations := data.compressedEquations.setAt idx compressed }) data
  { lebVolumeGPU with
    tetraData := lebVolumeGPU.tetraData.set eleID data
    centerArray := lebVolumeGPU.centerArray.set eleID center }

/-- The body of the loop over `faceId` that logs the outside faces of the element `eleID`;
the state is the packed volume and `outsideFaceIndex`. -/
def logFace (positionArray : List float3) (eleID : Nat) (st : LEBVolumeGPU × Nat)
    (faceId : Nat) : LEBVolumeGPU × Nat :=
  let neighbors := (st.1.tetraData.getD eleID default).neighbors
  if neighbors.at faceId = UINT32_MAX then
    let indices := g_TriangleIndices.getD faceId default
    let outsideFaceIndex := st.2
    let triangle : uint3 := ⟨3 * outsideFaceIndex % 2 ^ 32, (3 * outsideFaceIndex + 1) % 2 ^ 32,
      (3 * outsideFaceIndex + 2) % 2 ^ 32⟩
    let positions := [positionArray.getD ((4 * eleID + indices.x) % 2 ^ 32) default,
      positionArray.getD ((4 * eleID + indices.y) % 2 ^ 32) default,
      positionArray.getD ((4 * eleID + indices.z) % 2 ^ 32) default]
    ({ st.1 with
       outsideElements := st.1.outsideElements ++ [eleID]
       rtasIndexArray := st.1.rtasIndexArray ++ [triangle]
       rtasPositionArray := st.1.rtasPositionArray ++ positions },
     (outsideFaceIndex + 1) % 2 ^ 32)
  else st

/-- The function `convert_to_leb_volume_to_gpu`, applied to the packed volume passed by
reference; the result is the packed volume and the returned size. -/
def convert_to_leb_volume_to_gpu (ops : PackingOps) (lebVolume : LEBVolume)
    (gridVolume : GridVolume) (fitParam : FittingParameters) (maxDepth : Nat)
    (lebVolumeGPU : LEBVolumeGPU) : LEBVolumeGPU × Nat :=
  let lebVolumeGPU := { lebVolumeGPU with
    frustumCull := fitParam.frustumCull
    cameraPosition := fitParam.cameraPosition
    vpMat := fitParam.viewProjectionMatrix
    scale := gridVolume.scale }
  let positionArray := evaluate_positions lebVolume
  let lebVolumeGPU := { lebVolumeGPU with
    positionArray := positionArray
    tetraData := resize lebVolumeGPU.tetraData lebVolume.totalNumElements
    centerArray := resize lebVolumeGPU.centerArray lebVolume.totalNumElements
    densityArray := resize lebVolumeGPU.densityArray lebVolume.totalNumElements }
  let lebVolumeGPU :=
    (List.range (if lebVolume.totalNumElements < 2 ^ 31 then lebVolume.totalNumElements
      else 0)).foldl (packElement ops lebVolume gridVolume maxDepth positionArray) lebVolumeGPU
  let st := (List.range lebVolume.totalNumElements).foldl (fun st eleID =>
    (List.range 4).foldl (logFace positionArray eleID) st) (lebVolumeGPU, 0)
  let compressedSize := (lebVolume.totalNumElements * 8) % 2 ^ 64
  let compressedSize := (compressedSize + lebVolume.totalNumElements * 16) % 2 ^ 64
  let compressedSize := (compressedSize + st.1.densityArray.length * 4) % 2 ^ 64
  (st.1, compressedSize)

/-- The pairs (element, face) whose neighbor slot is `UINT32_MAX`, in increasing element
order and then face order. -/
def outsidePairs (lebVolume : LEBVolume) : List (Nat × Nat) :=
  (List.range lebVolume.totalNumElements).flatMap (fun eleID =>
    ((List.range 4).filter (fun faceId =>
      decide ((lebVolume.neighborsArray.getD eleID default).at faceId = UINT32_MAX))).map
        (fun faceId => (eleID, faceId)))

/-- The triangle `(3 k, 3 k + 1, 3 k + 2)` of the outside face `k`. -/
def triangleOf (k : Nat) : uint3 := ⟨3 * k, 3 * k + 1, 3 * k + 2⟩

/-- The three vertices of the face `faceId` of the element `eleID`, in the order of
`g_TriangleIndices`. -/
def facePositions (positionArray : List float3) (eleID faceId : Nat) : List float3 :=
  [positionArray.getD (4 * eleID + (g_TriangleIndices.getD faceId default).x) default,
   positionArray.getD (4 * eleID + (g_TriangleIndices.getD faceId default).y) default,
   positionArray.getD (4 * eleID + (g_TriangleIndices.getD faceId default).z) default]

/-- A mesh of one element without neighbors. -/
def loneVolume : LEBVolume :=
  { emptyVolume with
    totalNumElements := 1, minimalDepth := 5, heapIDArray := [32], typeArray := [0],
    neighborsArray := [⟨UINT32_MAX, UINT32_MAX, UINT32_MAX, UINT32_MAX⟩],
    basePoints := g_CubeType0Vertices, baseTypes := List.replicate 24 0,
    tetraCacheArray := [default], modifArray := [3], depthArray := [0] }

/-- Packing operations to run the packing with. -/
def sampleOps : PackingOps :=
  { evaluate_plane_equation := fun _ _ _ => ⟨-1, 0, 0, 0⟩, floatBits := fun _ => 0,
    mean_density_element := fun _ _ _ => 0, evaluate_grid_value := fun _ _ => 0 }

/-! ## Volumes and normals of the tetrahedra -/

/-- The root tetrahedron `t` of the table `g_CubeType0Vertices`. -/
def rootTetra (t : Nat) : Tetrahedron :=
  ⟨g_CubeType0Vertices.getD (4 * t) default, g_CubeType0Vertices.getD (4 * t + 1) default,
   g_CubeType0Vertices.getD (4 * t + 2) default, g_CubeType0Vertices.getD (4 * t + 3) default⟩

/-- The determinant of three vectors. -/
def det3 (a b c : float3) : ℚ :=
  a.x * (b.y * c.z - b.z * c.y) - a.y * (b.x * c.z - b.z * c.x)
    + a.z * (b.x * c.y - b.y * c.x)

/-- The determinant of the edges `(p1 - p0, p2 - p0, p3 - p0)` of a tetrahedron: six times its
signed volume. -/
def orientation (tetra : Tetrahedron) : ℚ :=
  det3 (tetra.p1.sub tetra.p0) (tetra.p2.sub tetra.p0) (tetra.p3.sub tetra.p0)

/-- The volume of a tetrahedron. -/
def tetraVolume (tetra : Tetrahedron) : ℚ := |orientation tetra| / 6

/-- A point of the closed cube `[-0.5, 0.5]^3`. -/
def inCube (p : float3) : Prop :=
  (-1 / 2 ≤ p.x ∧ p.x ≤ 1 / 2) ∧ (-1 / 2 ≤ p.y ∧ p.y ≤ 1 / 2) ∧ (-1 / 2 ≤ p.z ∧ p.z ≤ 1 / 2)

instance (p : float3) : Decidable (inCube p) := by
  unfold inCube
  infer_instance

/-- The child of a tetrahedron of type `type` for the bit `bitValue`: the rows of
`leb__SplittingMatrix` applied to the four vertices. -/
def splitChild (type bitValue : Nat) (tetra : Tetrahedron) : Tetrahedron :=
  decodeVertices (leb__SplittingMatrix leb__IdentityMatrix4x4 bitValue type)
    tetra.p0 tetra.p1 tetra.p2 tetra.p3

/-- The vertices of the face `f` of a tetrahedron, in the order of `evaluate_face_centers`. -/
def faceVertices (tetra : Tetrahedron) (f : Nat) : List float3 :=
  if f = 0 then [tetra.p0, tetra.p1, tetra.p2]
  else if f = 1 then [tetra.p0, tetra.p3, tetra.p1]
  else if f = 2 then [tetra.p1, tetra.p3, tetra.p2]
  else [tetra.p0, tetra.p2, tetra.p3]

/-- The midpoint of two points. -/
def midpoint3 (a b : float3) : float3 := ⟨(a.x + b.x) / 2, (a.y + b.y) / 2, (a.z + b.z) / 2⟩

/-! ## `volume_generation.cpp`: the sample points of the density -/

/-- The constant `g_MaxNumSamples`. -/
def g_MaxNumSamples : Nat := 64

/-- The first `3 * g_MaxNumSamples` entries of the table `g_randValues`, the only ones that
`precompute_barycentrics` reads, counted in units of `1e-7`: the entry `0.666396` is written
`6663960`. -/
def g_randValuesUnits : List Nat :=
  [6663960, 4857150, 1951090, 6616630, 5140850, 3550280,
   6659800, 3914140, 9755440, 694461, 6924370, 8931240,
   8823940, 370496, 150706, 3640450, 413516, 7582850,
   8170600, 4531000, 2694630, 2707660, 4951980, 8144230,
   3274790, 2516720, 402451, 6814520, 9762030, 3238390,
   4621650, 2857810, 8329380, 1419990, 3601070, 1649710,
   4719350, 2621780, 7379410, 8997340, 8528470, 1190480,
   2035270, 7028580, 5785650, 6118030, 8362350, 6854890,
   2025520, 8110430, 2705500, 8682790, 1648320, 8963150,
   1302120, 9965710, 2964170, 4919360, 4604850, 8977300,
   1091050, 9197920, 4325180, 3870550, 5676890, 5012550,
   7182260, 6699910, 2061150, 1575690, 9281910, 9541220,
   5805450, 5149110, 8983920, 8729360, 800286, 925329,
   8982280, 1654930, 1904340, 4962240, 639763, 4735030,
   6739960, 3416680, 5700150, 7962980, 2778510, 1439670,
   6731570, 6348420, 7921240, 6255000, 9234860, 4756150,
   9753970, 4510660, 6438160, 2322770, 6810690, 7846510,
   9012680, 7762240, 7190790, 8920300, 2193280, 1665170,
   4400350, 3474640, 1078370, 8122120, 1482750, 1682950,
   8103960, 8507020, 4977640, 5447420, 577473, 3601800,
   6980420, 8525070, 7615120, 3251260, 7047780, 2825260,
   9355480, 3162650, 6372230, 3961850, 5353680, 1189320,
   2381180, 2079140, 6596710, 2699600, 8124640, 9447760,
   7726010, 898776, 7411930, 6957680, 439553, 6832050,
   6980590, 9840970, 5257410, 9344140, 8958940, 2096380,
   8916990, 4741090, 1605190, 9739790, 1793180, 1795790,
   4050870, 2815560, 9706040, 1253980, 4584810, 1910750,
   1154310, 4037930, 1088460, 6007580, 1197800, 8126520,
   5867820, 933691, 3241140, 6109990, 2980000, 4210730,
   5602310, 8060340, 5710640, 5862340, 2042200, 4135690,
   1386500, 7793760, 313641, 2583600, 4840060, 5899600,
   230047, 1534140, 210534, 7559710, 5078420, 8514190]

/-- The table `g_randValues`. -/
def g_randValues : List ℚ := g_randValuesUnits.map (fun n => (n : ℚ) / 10000000)

/-- The three statements `if (a > b) std::swap(a, b)` of `precompute_barycentrics`. -/
def sortThree (r1 r2 r3 : ℚ) : ℚ × ℚ × ℚ :=
  let s1 := if r1 > r2 then (r2, r1) else (r1, r2)
  let s2 := if s1.2 > r3 then (r3, s1.2) else (s1.2, r3)
  let s3 := if s1.1 > s2.1 then (s2.1, s1.1) else (s1.1, s2.1)
  (s3.1, s3.2, s2.2)

/-- The four weights `u, t, v, w` that `precompute_barycentrics` stores for a sample, in the
order of the table `g_barycentrics`. -/
def sampleWeights (r1 r2 r3 : ℚ) : List ℚ :=
  let s := sortThree r1 r2 r3
  let u := s.1
  let v := s.2.1 - s.1
  let w := s.2.2 - s.2.1
  let t := 1 - s.2.2
  [u, t, v, w]

/-- The function `precompute_barycentrics`: the table `g_barycentrics`. -/
def precompute_barycentrics : List ℚ :=
  (List.range g_MaxNumSamples).foldl (fun g_barycentrics sampleIdx =>
    let weights := sampleWeights (g_randValues.getD (3 * sampleIdx) 0)
      (g_randValues.getD (3 * sampleIdx + 1) 0) (g_randValues.getD (3 * sampleIdx + 2) 0)
    (((g_barycentrics.set (4 * sampleIdx) (weights.getD 0 0)).set (4 * sampleIdx + 1)
      (weights.getD 1 0)).set (4 * sampleIdx + 2) (weights.getD 2 0)).set (4 * sampleIdx + 3)
      (weights.getD 3 0))
    (List.replicate (64 * 4) 0)

/-- The function `point_in_tetrahedron`, reading the table `g_barycentrics`. -/
def point_in_tetrahedron (g_barycentrics : List ℚ) (tetra : Tetrahedron) (sampleIdx : Nat) :
    float3 :=
  (((tetra.p0.mulScalar (g_barycentrics.getD (4 * sampleIdx) 0)).add
    (tetra.p1.mulScalar (g_barycentrics.getD (4 * sampleIdx + 1) 0))).add
    (tetra.p2.mulScalar (g_barycentrics.getD (4 * sampleIdx + 2) 0))).add
    (tetra.p3.mulScalar (g_barycentrics.getD (4 * sampleIdx + 3) 0))

/-! ## `leb_volume_gpu.cpp`: export and import of the packed volume -/

/-- A pair of helpers of `tools/stream.h` at one type: `pack` gives the bytes that
`pack_bytes` or `pack_vector_bytes` appends to the buffer, `unpack` the value that
`unpack_bytes` or `unpack_vector_bytes` reads and the bytes that follow it. -/
structure Codec (β α : Type) where
  pack : α → List β
  unpack : List β → α × List β

/-- What is read back is what was written. -/
def Codec.RoundTrip {β α : Type} (c : Codec β α) : Prop :=
  ∀ (v : α) (rest : List β), c.unpack (c.pack v ++ rest) = (v, rest)

/-- The helpers of `tools/stream.h` at the types of the fields of `LEBVolumeGPU`. -/
structure StreamOps (β : Type) where
  bool : Codec β Bool
  float3 : Codec β float3
  float4x4 : Codec β float4x4
  tetraVector : Codec β (List TetraData)
  float3Vector : Codec β (List Leb3D.float3)
  floatVector : Codec β (List ℚ)
  uint3Vector : Codec β (List uint3)
  uint32Vector : Codec β (List Nat)

def StreamOps.Lawful {β : Type} (ops : StreamOps β) : Prop :=
  ops.bool.RoundTrip ∧ ops.float3.RoundTrip ∧ ops.float4x4.RoundTrip ∧
  ops.tetraVector.RoundTrip ∧ ops.float3Vector.RoundTrip ∧ ops.floatVector.RoundTrip ∧
  ops.uint3Vector.RoundTrip ∧ ops.uint32Vector.RoundTrip

/-- The function `export_leb_volume_gpu`: the bytes written to the file. -/
def export_leb_volume_gpu {β : Type} (ops : StreamOps β) (lebVolume : LEBVolumeGPU) :
    List β :=
  let binaryFile : List β := []
  let binaryFile := binaryFile ++ ops.bool.pack lebVolume.frustumCull
  let binaryFile := binaryFile ++ ops.float3.pack lebVolume.cameraPosition
  let binaryFile := binaryFile ++ ops.float4x4.pack lebVolume.vpMat
  let binaryFile := binaryFile ++ ops.float3.pack lebVolume.scale
  let binaryFile := binaryFile ++ ops.tetraVector.pack lebVolume.tetraData
  let binaryFile := binaryFile ++ ops.float3Vector.pack lebVolume.centerArray
  let binaryFile := binaryFile ++ ops.floatVector.pack lebVolume.densityArray
  let binaryFile := binaryFile ++ ops.uint3Vector.pack lebVolume.rtasIndexArray
  let binaryFile := binaryFile ++ ops.float3Vector.pack lebVolume.rtasPositionArray
  let binaryFile := binaryFile ++ ops.uint32Vector.pack lebVolume.outsideElements
  let binaryFile := binaryFile ++ ops.float3Vector.pack lebVolume.positionArray
  binaryFile

/-- The function `import_leb_volume_gpu`, applied to the bytes of the file and to the packed
volume passed by reference. -/
def import_leb_volume_gpu {β : Type} (ops : StreamOps β) (binaryFile : List β)
    (lebVolume : LEBVolumeGPU) : LEBVolumeGPU :=
  let binaryPtr := binaryFile
  let r := ops.bool.unpack binaryPtr
  let lebVolume := { lebVolume with frustumCull := r.1 }
  let r := ops.float3.unpack r.2
  let lebVolume := { lebVolume with cameraPosition := r.1 }
  let r := ops.float4x4.unpack r.2
  let lebVolume := { lebVolume with vpMat := r.1 }
  let r := ops.float3.unpack r.2
  let lebVolume := { lebVolume with scale := r.1 }
  let r := ops.tetraVector.unpack r.2
  let lebVolume := { lebVolume with tetraData := r.1 }
  let r := ops.float3Vector.unpack r.2
  let lebVolume := { lebVolume with centerArray := r.1 }
  let r := ops.floatVector.unpack r.2
  let lebVolume := { lebVolume with densityArray := r.1 }
  let r := ops.uint3Vector.unpack r.2
  let lebVolume := { lebVolume with rtasIndexArray := r.1 }
  let r := ops.float3Vector.unpack r.2
  let lebVolume := { lebVolume with rtasPositionArray := r.1 }
  let r := ops.uint32Vector.unpack r.2
  let lebVolume := { lebVolume with outsideElements := r.1 }
  let r := ops.float3Vector.unpack r.2
  { lebVolume with positionArray := r.1 }

/-- A stream of whole values, to run the export and the import with. -/
inductive Chunk where
  | bool (b : Bool)
  | vec (v : float3)
  | mat (m : float4x4)
  | tetras (l : List TetraData)
  | vecs (l : List float3)
  | floats (l : List ℚ)
  | triples (l : List uint3)
  | words (l : List Nat)

def chunkOps : StreamOps Chunk :=
  { bool := ⟨fun b => [Chunk.bool b], fun s =>
      match s with
      | Chunk.bool b :: rest => (b, rest)
      | _ => (false, s)⟩
    float3 := ⟨fun v => [Chunk.vec v], fun s =>
      match s with
      | Chunk.vec v :: rest => (v, rest)
      | _ => (default, s)⟩
    float4x4 := ⟨fun m => [Chunk.mat m], fun s =>
      match s with
      | Chunk.mat m :: rest => (m, rest)
      | _ => (default, s)⟩
    tetraVector := ⟨fun l => [Chunk.tetras l], fun s =>
      match s with
      | Chunk.tetras l :: rest => (l, rest)
      | _ => ([], s)⟩
    float3Vector := ⟨fun l => [Chunk.vecs l], fun s =>
      match s with
      | Chunk.vecs l :: rest => (l, rest)
      | _ => ([], s)⟩
    floatVector := ⟨fun l => [Chunk.floats l], fun s =>
      match s with
      | Chunk.floats l :: rest => (l, rest)
      | _ => ([], s)⟩
    uint3Vector := ⟨fun l => [Chunk.triples l], fun s =>
      match s with
      | Chunk.triples l :: rest => (l, rest)
      | _ => ([], s)⟩
    uint32Vector := ⟨fun l => [Chunk.words l], fun s =>
      match s with
      | Chunk.words l :: rest => (l, rest)
      | _ => ([], s)⟩ }

/-- The packed volume of the mesh `loneVolume`. -/
def samplePacked : LEBVolumeGPU :=
  (convert_to_leb_volume_to_gpu sampleOps loneVolume sampleGrid defaultParameters 7
    emptyVolumeGPU).1

/-! ## The neighbor tuples written by a split, as a list of links -/

/-- One pair of statements `neighborsArray[i] = ni; neighborsArray[slot] = ns;` of a split. -/
structure Link where
  member : Nat
  slot : Nat
  ni : uint4
  ns : uint4

/-- The pair (member, slot) of a link. -/
def Link.pair (l : Link) : Nat × Nat := (l.member, l.slot)

/-- The effect of `setNeighbors` on the vector of neighbors. -/
def linkStep (na : List uint4) (l : Link) : List uint4 :=
  (na.set l.member l.ni).set l.slot l.ns

/-- The four tests of `patch_neighbor` on one tuple. -/
def patchTuple (neighbors : uint4) (oldRef newRef : Nat) : uint4 :=
  let neighbors := if neighbors.x = oldRef then { neighbors with x := newRef } else neighbors
  let neighbors := if neighbors.y = oldRef then { neighbors with y := newRef } else neighbors
  let neighbors := if neighbors.z = oldRef then { neighbors with z := newRef } else neighbors
  let neighbors := if neighbors.w = oldRef then { neighbors with w := newRef } else neighbors
  neighbors

/-- The effect of `patchOutward` on the vector of neighbors: `p` is the triple (outward
neighbor, member, slot). -/
def patchStep (na : List uint4) (p : Nat × Nat × Nat) : List uint4 :=
  if p.1 ≠ UINT32_MAX then na.set p.1 (patchTuple (na.getD p.1 default) p.2.1 p.2.2) else na

/-- The patch that follows a link: the twin stores the outward neighbor `y` of the member in
its component `w`, and that neighbor is the one patched. -/
def Link.patch (l : Link) : Nat × Nat × Nat := (l.ns.w, l.member, l.slot)

/-- The vector of neighbors after the links and then the patches of a split. -/
def splitNeighbors (na : List uint4) (links : List Link) : List uint4 :=
  (links.map Link.patch).foldl patchStep (links.foldl linkStep na)

/-- What the patches targeting the element `y` make of one component `c` of its tuple. -/
def patchComp (patches : List (Nat × Nat × Nat)) (y c : Nat) : Nat :=
  patches.foldl (fun c p => if p.1 ≠ UINT32_MAX ∧ p.1 = y ∧ c = p.2.1 then p.2.2 else c) c

/-- The component in which the specification places the twin of a child: for a parent of
type 0 or 3 the component `y` of the original (bit 0) and the component `x` of the twin
(bit 1), for a parent of type 1 the component `y` of both, for a parent of type 2 the
component `x` of both. -/
def specTwinSlot (type bitValue : Nat) : Nat :=
  if type = 1 then 1 else if type = 2 then 0 else if bitValue = 0 then 1 else 0

/-- A link of a split agrees with the pre-split mesh `v`: the component `w` of the member is
its former neighbor `x`, the component `w` of the twin is its former neighbor `y`, and each of
the two stores the other one in the component that `specTwinSlot` names. -/
def LinkOK (v : LEBVolume) (l : Link) : Prop :=
  l.ni.w = (neighborsOf v l.member).x ∧ l.ns.w = (neighborsOf v l.member).y ∧
  l.ni.at (specTwinSlot (typeOf v l.member) 0) = l.slot ∧
  l.ns.at (specTwinSlot (typeOf v l.member) 1) = l.member

/-- The outward neighbors of the members of a diamond lie outside the diamond: for each
member, its neighbor `y` is none or an element of the mesh that is not a member, and so is its
neighbor `x`, which moreover differs from the neighbor `y`. -/
def OutwardOK (v : LEBVolume) (pairs : List (Nat × Nat)) : Prop :=
  ∀ p ∈ pairs,
    ((neighborsOf v p.1).y = UINT32_MAX ∨
      ((neighborsOf v p.1).y < v.totalNumElements ∧ ∀ q ∈ pairs, (neighborsOf v p.1).y ≠ q.1)) ∧
    ((neighborsOf v p.1).x = UINT32_MAX ∨
      ((neighborsOf v p.1).x < v.totalNumElements ∧ (∀ q ∈ pairs, (neighborsOf v p.1).x ≠ q.1) ∧
        (neighborsOf v p.1).x ≠ (neighborsOf v p.1).y))

/-- The outcome of a split on the neighbor tuples, along the pairs (member, slot) of its
diamond: the member keeps its former neighbor `x` in the component `w` and the twin gets the
former neighbor `y` there; in the tuple of the neighbor `y` every component that held the member
holds the twin and none holds the member; in the tuple of the neighbor `x` every component that
held the member still holds it. -/
def NeighborOutcome (v v' : LEBVolume) (pairs : List (Nat × Nat)) : Prop :=
  ∀ p ∈ pairs,
    (neighborsOf v' p.1).w = (neighborsOf v p.1).x ∧
    (neighborsOf v' p.2).w = (neighborsOf v p.1).y ∧
    ((neighborsOf v p.1).y ≠ UINT32_MAX →
      (∀ k, (neighborsOf v (neighborsOf v p.1).y).at k = p.1 →
        (neighborsOf v' (neighborsOf v p.1).y).at k = p.2) ∧
      (∀ k, (neighborsOf v' (neighborsOf v p.1).y).at k ≠ p.1)) ∧
    ((neighborsOf v p.1).x ≠ UINT32_MAX →
      ∀ k, (neighborsOf v (neighborsOf v p.1).x).at k = p.1 →
        (neighborsOf v' (neighborsOf v p.1).x).at k = p.1)

/-- The twins in the tuples after a split: each member holds its twin, and the twin holds the
member, in the component that `specTwinSlot` names for the pre-split type of the member. -/
def TwinSlots (v v' : LEBVolume) (pairs : List (Nat × Nat)) : Prop :=
  ∀ p ∈ pairs,
    (neighborsOf v' p.1).at (specTwinSlot (typeOf v p.1) 0) = p.2 ∧
    (neighborsOf v' p.2).at (specTwinSlot (typeOf v p.1) 1) = p.1

instance (v : LEBVolume) (pairs : List (Nat × Nat)) : Decidable (OutwardOK v pairs) := by
  unfold OutwardOK
  infer_instance

/-- The components `w` after a split, read as faces: the face 3 of the original is the former
face 0 and the face 3 of the twin is the former face 1 of the member. -/
def InheritedSlots (v v' : LEBVolume) (pairs : List (Nat × Nat)) : Prop :=
  ∀ p ∈ pairs,
    (neighborsOf v' p.1).at 3 = (neighborsOf v p.1).at 0 ∧
    (neighborsOf v' p.2).at 3 = (neighborsOf v p.1).at 1

/-! ## The links of each kind of split -/

/-- The eight links of the branch `currentType == 0` of `diamond_split`. -/
def links0 (v : LEBVolume) (targetElement : Nat) : List Link :=
  let i0 := targetElement
  let i1 := (neighborsOf v targetElement).z
  let i2 := (neighborsOf v i1).w
  let i3 := (neighborsOf v i2).z
  let i4 := (neighborsOf v i3).w
  let i5 := (neighborsOf v i4).z
  let i6 := (neighborsOf v i5).w
  let i7 := (neighborsOf v i6).z
  let slot0 := v.totalNumElements
  let slot1 := slot0 + 1
  let slot2 := slot0 + 2
  let slot3 := slot0 + 3
  let slot4 := slot0 + 4
  let slot5 := slot0 + 5
  let slot6 := slot0 + 6
  let slot7 := slot0 + 7
  let nI0 := neighborsOf v i0
  let nI1 := neighborsOf v i1
  let nI2 := neighborsOf v i2
  let nI3 := neighborsOf v i3
  let nI4 := neighborsOf v i4
  let nI5 := neighborsOf v i5
  let nI6 := neighborsOf v i6
  let nI7 := neighborsOf v i7
  [Link.mk i0 slot0 ⟨slot1, slot0, slot7, nI0.x⟩ ⟨i0, i1, i7, nI0.y⟩,
   Link.mk i1 slot1 ⟨slot0, slot1, slot2, nI1.x⟩ ⟨i1, i0, i2, nI1.y⟩,
   Link.mk i2 slot2 ⟨slot3, slot2, slot1, nI2.x⟩ ⟨i2, i3, i1, nI2.y⟩,
   Link.mk i3 slot3 ⟨slot2, slot3, slot4, nI3.x⟩ ⟨i3, i2, i4, nI3.y⟩,
   Link.mk i4 slot4 ⟨slot5, slot4, slot3, nI4.x⟩ ⟨i4, i5, i3, nI4.y⟩,
   Link.mk i5 slot5 ⟨slot4, slot5, slot6, nI5.x⟩ ⟨i5, i4, i6, nI5.y⟩,
   Link.mk i6 slot6 ⟨slot7, slot6, slot5, nI6.x⟩ ⟨i6, i7, i5, nI6.y⟩,
   Link.mk i7 slot7 ⟨slot6, slot7, slot0, nI7.x⟩ ⟨i7, i6, i0, nI7.y⟩]

/-- The four links of the branch `currentType == 3` of `diamond_split`. -/
def links3 (v : LEBVolume) (targetElement : Nat) : List Link :=
  let i0 := targetElement
  let i1 := (neighborsOf v targetElement).z
  let i2 := (neighborsOf v i1).w
  let i3 := (neighborsOf v i2).z
  let slot0 := v.totalNumElements
  let slot1 := slot0 + 1
  let slot2 := slot0 + 2
  let slot3 := slot0 + 3
  let nI0 := neighborsOf v i0
  let nI1 := neighborsOf v i1
  let nI2 := neighborsOf v i2
  let nI3 := neighborsOf v i3
  [Link.mk i0 slot0 ⟨slot1, slot0, slot3, nI0.x⟩ ⟨i0, i1, i3, nI0.y⟩,
   Link.mk i1 slot1 ⟨slot0, slot1, slot2, nI1.x⟩ ⟨i1, i0, i2, nI1.y⟩,
   Link.mk i2 slot2 ⟨slot3, slot2, slot1, nI2.x⟩ ⟨i2, i3, i1, nI2.y⟩,
   Link.mk i3 slot3 ⟨slot2, slot3, slot0, nI3.x⟩ ⟨i3, i2, i0, nI3.y⟩]

/-- The link that `linkEven` writes for a member of type `ty`. -/
def evenLink (ty i slot : Nat) (nI : uint4) (a b sa sb : Nat) : Link :=
  if ty = 1 then Link.mk i slot ⟨sb, slot, sa, nI.x⟩ ⟨a, i, b, nI.y⟩
  else Link.mk i slot ⟨slot, sa, sb, nI.x⟩ ⟨i, b, a, nI.y⟩

/-- The link that `linkOdd` writes for a member of type `ty`. -/
def oddLink (ty : Nat) (rev : Bool) (i slot : Nat) (nI : uint4) (p n sp sn : Nat) : Link :=
  if rev then
    if ty = 1 then Link.mk i slot ⟨sp, slot, sn, nI.x⟩ ⟨n, i, p, nI.y⟩
    else Link.mk i slot ⟨slot, sn, sp, nI.x⟩ ⟨i, p, n, nI.y⟩
  else
    if ty = 1 then Link.mk i slot ⟨sn, slot, sp, nI.x⟩ ⟨n, i, p, nI.y⟩
    else Link.mk i slot ⟨slot, sp, sn, nI.x⟩ ⟨i, p, n, nI.y⟩

/-- The six links of the branch `currentType == 1 || currentType == 2` of `diamond_split`. -/
def links12 (v : LEBVolume) (targetElement : Nat) : List Link :=
  let i0 := targetElement
  let i1 := (neighborsOf v i0).z
  let rev1 := decide ((neighborsOf v i1).z = i0)
  let i2 := ringNext v rev1 i1
  let rev2 := decide ((neighborsOf v i2).z = i1)
  let i3 := ringNext v rev2 i2
  let rev3 := decide ((neighborsOf v i3).z = i2)
  let i4 := ringNext v rev3 i3
  let rev4 := decide ((neighborsOf v i4).z = i3)
  let i5 := ringNext v rev4 i4
  let rev5 := decide ((neighborsOf v i5).z = i4)
  let slot0 := v.totalNumElements
  let slot1 := slot0 + 1
  let slot2 := slot0 + 2
  let slot3 := slot0 + 3
  let slot4 := slot0 + 4
  let slot5 := slot0 + 5
  [evenLink (typeOf v i0) i0 slot0 (neighborsOf v i0) i5 i1 slot5 slot1,
   oddLink (typeOf v i1) rev1 i1 slot1 (neighborsOf v i1) i0 i2 slot0 slot2,
   evenLink (typeOf v i2) i2 slot2 (neighborsOf v i2) i1 i3 slot1 slot3,
   oddLink (typeOf v i3) rev3 i3 slot3 (neighborsOf v i3) i2 i4 slot2 slot4,
   evenLink (typeOf v i4) i4 slot4 (neighborsOf v i4) i3 i5 slot3 slot5,
   oddLink (typeOf v i5) rev5 i5 slot5 (neighborsOf v i5) i4 i0 slot4 slot0]

/-- The link that `linkMember` writes for the place `eleIdx` of the buffers. -/
def memberLink (indices slots : List Nat) (neighborArray : List uint4) (ringSize : Nat)
    (firstTwin : Bool) (eleIdx : Nat) : Link :=
  let ind := indices.getD eleIdx UINT32_MAX
  let slot := slots.getD eleIdx UINT32_MAX
  let neighbors := neighborArray.getD eleIdx default
  let nextIdx := indices.getD ((eleIdx + 1) % 2 ^ 32 % ringSize) UINT32_MAX
  let nextSlot := slots.getD ((eleIdx + 1) % 2 ^ 32 % ringSize) UINT32_MAX
  let prevIdx := indices.getD ((eleIdx + 2 ^ 32 - 1 + ringSize) % 2 ^ 32 % ringSize) UINT32_MAX
  let prevSLot := slots.getD ((eleIdx + 2 ^ 32 - 1 + ringSize) % 2 ^ 32 % ringSize) UINT32_MAX
  if firstTwin then
    Link.mk ind slot ⟨nextSlot, slot, prevSLot, neighbors.x⟩ ⟨ind, nextIdx, prevIdx, neighbors.y⟩
  else
    Link.mk ind slot ⟨prevSLot, slot, nextSlot, neighbors.x⟩ ⟨ind, prevIdx, nextIdx, neighbors.y⟩

/-- The flag `firstTwin` of the linking loop at its `k`-th round, from its initial value. -/
def twinAt (firstTwin : Bool) (k : Nat) : Bool := if k % 2 = 0 then firstTwin else !firstTwin

/-- The links of `diamond_split_incomplete`, in the order of the buffer `indices`. -/
def linksIncomplete (v : LEBVolume) (targetElement rightElements leftElements : Nat) :
    List Link :=
  let ringSize := ringSizeOf (typeOf v targetElement)
  let st := collectArms v targetElement rightElements leftElements ringSize
  let neighborArray := (List.range (1 + rightElements + leftElements)).map (fun eleIdx =>
    neighborsOf v (st.indices.getD eleIdx UINT32_MAX))
  (List.range (1 + rightElements + leftElements)).map (fun eleIdx =>
    memberLink st.indices st.slots neighborArray ringSize
      (twinAt (leftElements % 2 == 0) eleIdx) eleIdx)

/-! ## The shapes of the tetrahedra of the hierarchy -/

/-- The cross product that `evaluate_plane_equation` computes from three points, before it is
normalised. -/
def planeNormal (p1 p2 p3 : float3) : float3 :=
  let v1x := p2.x - p1.x
  let v1y := p2.y - p1.y
  let v1z := p2.z - p1.z
  let v2x := p3.x - p1.x
  let v2y := p3.y - p1.y
  let v2z := p3.z - p1.z
  ⟨v1y * v2z - v1z * v2y, v1z * v2x - v1x * v2z, v1x * v2y - v1y * v2x⟩

/-- The normal of the face `f` of a tetrahedron as the packing computes it: the cross product
for the three vertices that `g_TriangleIndices` names. -/
def faceNormal (tetra : Tetrahedron) (f : Nat) : float3 :=
  let indices := g_TriangleIndices.getD f default
  planeNormal (tetra.p indices.x) (tetra.p indices.y) (tetra.p indices.z)

/-- Two vectors are parallel: their cross product vanishes. -/
def Parallel (n d : float3) : Prop :=
  n.y * d.z - n.z * d.y = 0 ∧ n.z * d.x - n.x * d.z = 0 ∧ n.x * d.y - n.y * d.x = 0

instance (n d : float3) : Decidable (Parallel n d) := by
  unfold Parallel
  infer_instance

/-- A normal is aligned with a canonical direction: it is not zero and it is parallel to one
of the 9 base directions, the first nine entries of `g_Directions`. -/
def Aligned (n : float3) : Prop :=
  n ≠ ⟨0, 0, 0⟩ ∧ ∃ j, j < 9 ∧ Parallel n (g_Directions.getD j default)

instance (n : float3) : Decidable (Aligned n) := by
  unfold Aligned
  infer_instance

/-- The product `dot(g_Directions[plIdx], normal)` of the classifying loop. -/
def directionDot (plIdx : Nat) (normal : float3) : ℚ :=
  (g_Directions.getD plIdx default).x * normal.x
    + (g_Directions.getD plIdx default).y * normal.y
    + (g_Directions.getD plIdx default).z * normal.z

/-- The three edges of a tetrahedron that leave its vertex 0. -/
structure Edges where
  e1 : float3
  e2 : float3
  e3 : float3
  deriving DecidableEq

/-- The edges of a tetrahedron. -/
def edgesOf (tetra : Tetrahedron) : Edges :=
  ⟨tetra.p1.sub tetra.p0, tetra.p2.sub tetra.p0, tetra.p3.sub tetra.p0⟩

/-- The tetrahedron with the vertex 0 at the origin and the given edges. -/
def tetraOf (E : Edges) : Tetrahedron := ⟨⟨0, 0, 0⟩, E.e1, E.e2, E.e3⟩

/-- The edges scaled by `s`. -/
def Edges.scale (E : Edges) (s : ℚ) : Edges :=
  ⟨E.e1.mulScalar s, E.e2.mulScalar s, E.e3.mulScalar s⟩

/-- The edges given by nine integers. -/
def shapeOf (l : List Int) : Edges :=
  ⟨⟨l.getD 0 0, l.getD 1 0, l.getD 2 0⟩, ⟨l.getD 3 0, l.getD 4 0, l.getD 5 0⟩,
   ⟨l.getD 6 0, l.getD 7 0, l.getD 8 0⟩⟩

/-- The 24 shapes of the tetrahedra of type 0, up to a scale: the coordinates of the three
edges. -/
def shapeInts0 : List (List Int) :=
  [[-1, 0, 0, -1, -1, -1, -1, 1, -1],
   [-1, 0, 0, -1, -1, 1, -1, -1, -1],
   [-1, 0, 0, -1, 1, -1, -1, 1, 1],
   [-1, 0, 0, -1, 1, 1, -1, -1, 1],
   [0, -1, 0, -1, -1, -1, -1, -1, 1],
   [0, -1, 0, -1, -1, 1, 1, -1, 1],
   [0, -1, 0, 1, -1, -1, -1, -1, -1],
   [0, -1, 0, 1, -1, 1, 1, -1, -1],
   [0, 0, -1, -1, -1, -1, 1, -1, -1],
   [0, 0, -1, -1, 1, -1, -1, -1, -1],
   [0, 0, -1, 1, -1, -1, 1, 1, -1],
   [0, 0, -1, 1, 1, -1, -1, 1, -1],
   [0, 0, 1, -1, -1, 1, -1, 1, 1],
   [0, 0, 1, -1, 1, 1, 1, 1, 1],
   [0, 0, 1, 1, -1, 1, -1, -1, 1],
   [0, 0, 1, 1, 1, 1, 1, -1, 1],
   [0, 1, 0, -1, 1, -1, 1, 1, -1],
   [0, 1, 0, -1, 1, 1, -1, 1, -1],
   [0, 1, 0, 1, 1, -1, 1, 1, 1],
   [0, 1, 0, 1, 1, 1, -1, 1, 1],
   [1, 0, 0, 1, -1, -1, 1, -1, 1],
   [1, 0, 0, 1, -1, 1, 1, 1, 1],
   [1, 0, 0, 1, 1, -1, 1, -1, -1],
   [1, 0, 0, 1, 1, 1, 1, 1, -1]]

/-- The 24 shapes of the tetrahedra of type 1, up to a scale: the coordinates of the three
edges. -/
def shapeInts1 : List (List Int) :=
  [[-1, 0, 0, -1, -1, 0, 0, 0, -1],
   [-1, 0, 0, -1, 0, -1, 0, 1, 0],
   [-1, 0, 0, -1, 0, 1, 0, -1, 0],
   [-1, 0, 0, -1, 1, 0, 0, 0, 1],
   [0, -1, 0, -1, -1, 0, 0, 0, 1],
   [0, -1, 0, 0, -1, -1, -1, 0, 0],
   [0, -1, 0, 0, -1, 1, 1, 0, 0],
   [0, -1, 0, 1, -1, 0, 0, 0, -1],
   [0, 0, -1, -1, 0, -1, 0, -1, 0],
   [0, 0, -1, 0, -1, -1, 1, 0, 0],
   [0, 0, -1, 0, 1, -1, -1, 0, 0],
   [0, 0, -1, 1, 0, -1, 0, 1, 0],
   [0, 0, 1, -1, 0, 1, 0, 1, 0],
   [0, 0, 1, 0, -1, 1, -1, 0, 0],
   [0, 0, 1, 0, 1, 1, 1, 0, 0],
   [0, 0, 1, 1, 0, 1, 0, -1, 0],
   [0, 1, 0, -1, 1, 0, 0, 0, -1],
   [0, 1, 0, 0, 1, -1, 1, 0, 0],
   [0, 1, 0, 0, 1, 1, -1, 0, 0],
   [0, 1, 0, 1, 1, 0, 0, 0, 1],
   [1, 0, 0, 1, -1, 0, 0, 0, 1],
   [1, 0, 0, 1, 0, -1, 0, -1, 0],
   [1, 0, 0, 1, 0, 1, 0, 1, 0],
   [1, 0, 0, 1, 1, 0, 0, 0, -1]]

/-- The 24 shapes of the tetrahedra of type 2, up to a scale: the coordinates of the three
edges. -/
def shapeInts2 : List (List Int) :=
  [[-1, 0, 0, 0, -1, 0, -1, 0, -1],
   [-1, 0, 0, 0, 0, -1, -1, 1, 0],
   [-1, 0, 0, 0, 0, 1, -1, -1, 0],
   [-1, 0, 0, 0, 1, 0, -1, 0, 1],
   [0, -1, 0, -1, 0, 0, 0, -1, 1],
   [0, -1, 0, 0, 0, -1, -1, -1, 0],
   [0, -1, 0, 0, 0, 1, 1, -1, 0],
   [0, -1, 0, 1, 0, 0, 0, -1, -1],
   [0, 0, -1, -1, 0, 0, 0, -1, -1],
   [0, 0, -1, 0, -1, 0, 1, 0, -1],
   [0, 0, -1, 0, 1, 0, -1, 0, -1],
   [0, 0, -1, 1, 0, 0, 0, 1, -1],
   [0, 0, 1, -1, 0, 0, 0, 1, 1],
   [0, 0, 1, 0, -1, 0, -1, 0, 1],
   [0, 0, 1, 0, 1, 0, 1, 0, 1],
   [0, 0, 1, 1, 0, 0, 0, -1, 1],
   [0, 1, 0, -1, 0, 0, 0, 1, -1],
   [0, 1, 0, 0, 0, -1, 1, 1, 0],
   [0, 1, 0, 0, 0, 1, -1, 1, 0],
   [0, 1, 0, 1, 0, 0, 0, 1, 1],
   [1, 0, 0, 0, -1, 0, 1, 0, 1],
   [1, 0, 0, 0, 0, -1, 1, -1, 0],
   [1, 0, 0, 0, 0, 1, 1, 1, 0],
   [1, 0, 0, 0, 1, 0, 1, 0, -1]]

/-- The 24 shapes of the tetrahedra of type 3, up to a scale: the coordinates of the three
edges. -/
def shapeInts3 : List (List Int) :=
  [[-1, -1, -1, -2, 0, 0, 0, -2, 0],
   [-1, -1, -1, 0, -2, 0, 0, 0, -2],
   [-1, -1, -1, 0, 0, -2, -2, 0, 0],
   [-1, -1, 1, -2, 0, 0, 0, 0, 2],
   [-1, -1, 1, 0, -2, 0, -2, 0, 0],
   [-1, -1, 1, 0, 0, 2, 0, -2, 0],
   [-1, 1, -1, -2, 0, 0, 0, 0, -2],
   [-1, 1, -1, 0, 0, -2, 0, 2, 0],
   [-1, 1, -1, 0, 2, 0, -2, 0, 0],
   [-1, 1, 1, -2, 0, 0, 0, 2, 0],
   [-1, 1, 1, 0, 0, 2, -2, 0, 0],
   [-1, 1, 1, 0, 2, 0, 0, 0, 2],
   [1, -1, -1, 0, -2, 0, 2, 0, 0],
   [1, -1, -1, 0, 0, -2, 0, -2, 0],
   [1, -1, -1, 2, 0, 0, 0, 0, -2],
   [1, -1, 1, 0, -2, 0, 0, 0, 2],
   [1, -1, 1, 0, 0, 2, 2, 0, 0],
   [1, -1, 1, 2, 0, 0, 0, -2, 0],
   [1, 1, -1, 0, 0, -2, 2, 0, 0],
   [1, 1, -1, 0, 2, 0, 0, 0, -2],
   [1, 1, -1, 2, 0, 0, 0, 2, 0],
   [1, 1, 1, 0, 0, 2, 0, 2, 0],
   [1, 1, 1, 0, 2, 0, 2, 0, 0],
   [1, 1, 1, 2, 0, 0, 0, 0, 2]]

/-- The shapes of the tetrahedra of type `t`. -/
def shapeTable (t : Nat) : List Edges :=
  if t = 0 then shapeInts0.map shapeOf
  else if t = 1 then shapeInts1.map shapeOf
  else if t = 2 then shapeInts2.map shapeOf
  else shapeInts3.map shapeOf

/-- The ratio between the scale of the shapes of a child and the scale of the shapes of its
parent of type `t`. -/
def scaleOf (t : Nat) : ℚ := if t = 1 ∨ t = 2 then 1 / 2 else 1

/-- The tetrahedron has a shape of the type `t`, at the scale `s`. -/
def Similar (s : ℚ) (t : Nat) (tetra : Tetrahedron) : Prop :=
  ∃ E ∈ shapeTable t, edgesOf tetra = E.scale s

instance (s : ℚ) (t : Nat) (tetra : Tetrahedron) : Decidable (Similar s t tetra) := by
  unfold Similar
  infer_instance

/-! ## The stored type against the type that the heapID gives -/

/-- The type that the specification states for a heapID of depth `d = leb__FindMSB(heapID)`:
0 when `(d - 5) mod 3 = 0`, 1 or 2 for the lowest bit 0 or 1 when
`(d - 5) mod 3 = 1`, and 3 when `(d - 5) mod 3 = 2`. -/
def specType (heapID : Nat) : Nat :=
  let d := leb__FindMSB heapID
  if (d - 5) % 3 = 0 then 0
  else if (d - 5) % 3 = 1 then (if heapID % 2 = 0 then 1 else 2)
  else 3

/-- The type that `leb__DecodeTransformationMatrix` reaches for an element of the root mesh:
the bits of the heapID below the depth 5 replayed from the base type 0. -/
def decodedType (heapID : Nat) : Nat :=
  typeLoop (subHeapID heapID 5) (leb__FindMSB (subHeapID heapID 5)) 0

/-- The mesh `completeSample` with the heapID of its element 0, of type 1, replaced by a heapID
of depth 63. -/
def wrapSample : LEBVolume :=
  { completeSample with
    heapIDArray := completeSample.heapIDArray.set 0 (2 ^ 63 + 2 ^ 62) }

/-- The mesh that `diamond_split` returns on the element 0 of `wrapSample`. -/
def wrapSampleSplit : LEBVolume :=
  match diamond_split wrapSample 0 with
  | .ok v => v
  | .error _ => emptyVolume

/-! ## Parameters and tables used by the statements on culling and face numbering -/

/-- The default fitting parameters with the culling by pixel size switched on, the camera
moved, and another view-projection matrix, screen and pixel size. -/
def pixelParameters : FittingParameters :=
  { defaultParameters with
    pixelCull := true, cameraPosition := ⟨1, 2, 3⟩,
    viewProjectionMatrix := ⟨⟨2, 0, 0, 0⟩, ⟨0, 2, 0, 0⟩, ⟨0, 0, 2, 0⟩, ⟨0, 0, 0, 1⟩⟩,
    screenSize := (1920, 1080), pixelSize := 1 }

/-- A culling test that rejects every element. -/
def rejectAll : FittingParameters → GridVolume → Tetrahedron → Bool := fun _ _ _ => false

/-- The sets of vertex indices that the specification gives for the faces 0 to 3. -/
def specFaceIndices : List (List Nat) := [[0, 1, 2], [0, 1, 3], [1, 2, 3], [0, 2, 3]]

/-- The centroid of three points. -/
def centroid3 (a b c : float3) : float3 :=
  ⟨(a.x + b.x + c.x) / 3, (a.y + b.y + c.y) / 3, (a.z + b.z + c.z) / 3⟩

/-- The tetrahedron that the packing reads for the element `eleID` in the vector of
positions. -/
def positionsTetra (positionArray : List float3) (eleID : Nat) : Tetrahedron :=
  ⟨positionArray.getD (4 * eleID) default, positionArray.getD (4 * eleID + 1) default,
   positionArray.getD (4 * eleID + 2) default, positionArray.getD (4 * eleID + 3) default⟩

/-- The compressed equation that the loop over the planes of `convert_to_leb_volume_to_gpu`
stores for the face `idx` of a tetrahedron. -/
def packedPlane (ops : PackingOps) (tetra : Tetrahedron) (idx : Nat) : Nat :=
  let indices := g_TriangleIndices.getD idx default
  let equation := ops.evaluate_plane_equation (tetra.p indices.x) (tetra.p indices.y)
    (tetra.p indices.z)
  let tarPlane := classifyPlane ⟨equation.x, equation.y, equation.z⟩
  compress_plane_equation tarPlane (ops.floatBits equation.w)

/-! ## Determinant and convexity of the splitting matrices -/

/-- The determinant of a 4x4 matrix, expanded along its first row. -/
def det4 (m : float4x4) : ℚ :=
  m.r0.x * det3 ⟨m.r1.y, m.r1.z, m.r1.w⟩ ⟨m.r2.y, m.r2.z, m.r2.w⟩ ⟨m.r3.y, m.r3.z, m.r3.w⟩
  - m.r0.y * det3 ⟨m.r1.x, m.r1.z, m.r1.w⟩ ⟨m.r2.x, m.r2.z, m.r2.w⟩ ⟨m.r3.x, m.r3.z, m.r3.w⟩
  + m.r0.z * det3 ⟨m.r1.x, m.r1.y, m.r1.w⟩ ⟨m.r2.x, m.r2.y, m.r2.w⟩ ⟨m.r3.x, m.r3.y, m.r3.w⟩
  - m.r0.w * det3 ⟨m.r1.x, m.r1.y, m.r1.z⟩ ⟨m.r2.x, m.r2.y, m.r2.z⟩ ⟨m.r3.x, m.r3.y, m.r3.z⟩

/-- The entries of a row are the weights of a convex combination: none is negative and they
sum to 1. -/
def float4.Convex (r : float4) : Prop :=
  0 ≤ r.x ∧ 0 ≤ r.y ∧ 0 ≤ r.z ∧ 0 ≤ r.w ∧ r.x + r.y + r.z + r.w = 1

/-- Every row of the matrix is a convex combination. -/
def Stochastic (m : float4x4) : Prop :=
  m.r0.Convex ∧ m.r1.Convex ∧ m.r2.Convex ∧ m.r3.Convex

/-- The four vertices of a tetrahedron lie in the cube `[-0.5, 0.5]^3`. -/
def Tetrahedron.InCube (tetra : Tetrahedron) : Prop :=
  inCube tetra.p0 ∧ inCube tetra.p1 ∧ inCube tetra.p2 ∧ inCube tetra.p3

instance (tetra : Tetrahedron) : Decidable tetra.InCube := by
  unfold Tetrahedron.InCube
  infer_instance

/-- The centre of a tetrahedron as `should_subdivide_element` passes it to `sample_cache`. -/
def Tetrahedron.center (tetra : Tetrahedron) : float3 :=
  (((tetra.p0.add tetra.p1).add tetra.p2).add tetra.p3).mulScalar (1 / 4)

/-! ## The root and the weight of a leaf of the forest -/

/-- The heapID shifted right by `depth - 5`: the heapID of the root that it descends from,
which is one of `32 .. 55` for a leaf of the forest of the 24 roots. -/
def rootPrefix (heapID : Nat) : Nat := heapID >>> (leb__FindMSB heapID - 5)

/-- The share `2 ^ (5 - depth)` of a root that a leaf of depth `depth` covers. -/
def leafWeight (heapID : Nat) : ℚ := (2 : ℚ) ^ ((5 : ℤ) - (leb__FindMSB heapID : ℤ))

/-- The mesh `completeSample` with the heapID of its element 0, of type 1, replaced by the
heapID `2 ^ 63` that the element 0 of the root mesh has after 58 splits. -/
def deepSample : LEBVolume :=
  { completeSample with heapIDArray := completeSample.heapIDArray.set 0 (2 ^ 63) }

/-- The mesh that `diamond_split` returns on the element 0 of `deepSample`. -/
def deepSampleSplit : LEBVolume :=
  match diamond_split deepSample 0 with
  | .ok v => v
  | .error _ => emptyVolume

/-! ## The caches of the fitting: flags, depths and cached tetrahedra -/

/-- The flag `ELEMENT_INVALID_CACHE` is set on the element `e`. -/
def Flagged (v : LEBVolume) (e : Nat) : Prop :=
  v.modifArray.getD e 0 &&& ELEMENT_INVALID_CACHE = ELEMENT_INVALID_CACHE

instance (v : LEBVolume) (e : Nat) : Decidable (Flagged v e) := by
  unfold Flagged
  infer_instance

/-- The caches of the element `e` hold the tetrahedron and the depth of its current heapID. -/
def CacheValid (v : LEBVolume) (e : Nat) : Prop :=
  v.tetraCacheArray.getD e default =
    evaluate_tetrahedron (heapOf v e) v.minimalDepth v.basePoints v.baseTypes ∧
  v.depthArray.getD e 0 = leb__FindMSB (heapOf v e)

/-- No cache is stale: every element whose flag `ELEMENT_INVALID_CACHE` is clear has valid
caches. -/
def NotStale (v : LEBVolume) : Prop :=
  ∀ e, e < v.totalNumElements → ¬ Flagged v e → CacheValid v e

/-- The vectors of flags, depths and cached tetrahedra have one entry per element. -/
def CacheShape (v : LEBVolume) : Prop :=
  v.modifArray.length = v.totalNumElements ∧ v.depthArray.length = v.totalNumElements ∧
  v.tetraCacheArray.length = v.totalNumElements

/-- Every root of the mesh has the base type 0. -/
def BaseTypeZero (v : LEBVolume) : Prop := ∀ x ∈ v.baseTypes, x = 0

instance (v : LEBVolume) : Decidable (CacheShape v) := by
  unfold CacheShape
  infer_instance

instance (v : LEBVolume) : Decidable (BaseTypeZero v) := by
  unfold BaseTypeZero
  infer_instance

/-- The effect of `flagModified` on the vector of flags. -/
def flagStep (m : List Nat) (i : Nat) : List Nat :=
  m.set i ((m.getD i 0 &&& (255 - ELEMENT_REQUESTED)) ||| ELEMENT_INVALID_CACHE)

/-- The effect of `copyModif` on the vector of flags, for the pair (member, slot). -/
def copyStep (m : List Nat) (p : Nat × Nat) : List Nat := m.set p.2 (m.getD p.1 0)

/-- The effect on the vector of flags of `flagModified` on a member followed by `copyModif`
to its slot, as the loops of `diamond_split_incomplete` run them. -/
def updStep (m : List Nat) (p : Nat × Nat) : List Nat := copyStep (flagStep m p.1) p

/-- The flag `ELEMENT_INVALID_CACHE` is set at the index `e` of a vector of flags. -/
def FlagAt (m : List Nat) (e : Nat) : Prop :=
  m.getD e 0 &&& ELEMENT_INVALID_CACHE = ELEMENT_INVALID_CACHE

/-- What the caches of the fitting read in a volume besides the heapIDs. -/
structure CacheView where
  modif : List Nat
  depth : List Nat
  tetra : List Tetrahedron
  basePoints : List float3
  baseTypes : List Nat
  minimalDepth : Nat

/-- The view of a volume. -/
def cacheView (v : LEBVolume) : CacheView :=
  ⟨v.modifArray, v.depthArray, v.tetraCacheArray, v.basePoints, v.baseTypes, v.minimalDepth⟩

/-- A view whose flags went through `f`. -/
def CacheView.mapModif (c : CacheView) (f : List Nat → List Nat) : CacheView :=
  { c with modif := f c.modif }

/-- A view whose three vectors were resized to `n` entries. -/
def CacheView.grow (c : CacheView) (n : Nat) : CacheView :=
  { c with modif := resize c.modif n, depth := resize c.depth n, tetra := resize c.tetra n }

/-- The caches after a complete split, as a view: the three vectors grown by `n` entries and
the flags set along the pairs. -/
def completeView (v : LEBVolume) (t n : Nat) : CacheView :=
  ((cacheView v).grow (v.totalNumElements + n)).mapModif (fun m =>
    (completePairs v t).foldl copyStep (((completePairs v t).map Prod.fst).foldl flagStep m))

/-- The count and the caches after `n` allocations beyond the slot of the target. -/
def ArmsView (v : LEBVolume) (n : Nat) (st : Arms) : Prop :=
  st.volume.totalNumElements = v.totalNumElements + 1 + n ∧
  cacheView st.volume = (cacheView v).grow (v.totalNumElements + 1 + n)

/-- The loop of `fit_volume_to_grid` that flags every element before the first round. -/
def flagAll (lebVolume : LEBVolume) : LEBVolume :=
  let flags := ELEMENT_INCLUDED ||| ELEMENT_INVALID_CACHE
  (List.range lebVolume.totalNumElements).foldl (fun volume eleIdx =>
    { volume with modifArray := volume.modifArray.set eleIdx flags }) lebVolume

/-- The tetrahedron that `evaluate_positions` writes for the element `elementID`: re-evaluated
from the heapID when the caches are flagged invalid, read from `tetraCacheArray` otherwise. -/
def positionsOf (lebVolume : LEBVolume) (elementID : Nat) : Tetrahedron :=
  if lebVolume.modifArray.getD elementID 0 &&& 2 = 2 then
    evaluate_tetrahedron_cached (lebVolume.heapIDArray.getD elementID 0) lebVolume.minimalDepth
      lebVolume.basePoints lebVolume.baseTypes Leb3DCache
  else lebVolume.tetraCacheArray.getD elementID default

/-- The body of the loop of `evaluate_positions` for a tetrahedron. -/
def writeTetra (vertices : List float3) (elementID : Nat) (tetra : Tetrahedron) : List float3 :=
  (((vertices.set (4 * elementID) tetra.p0).set (4 * elementID + 1) tetra.p1).set
    (4 * elementID + 2) tetra.p2).set (4 * elementID + 3) tetra.p3

/-- The mesh `completeSample` as the fitting finds it before its first round: every element
flagged. -/
def flaggedSample : LEBVolume := flagAll completeSample

/-- The mesh that `diamond_split` returns on the element 0 of `flaggedSample`. -/
def flaggedSampleSplit : LEBVolume :=
  match diamond_split flaggedSample 0 with
  | .ok v => v
  | .error _ => emptyVolume

/-! ## Statements over a finite range, checked piece by piece -/

/-- A property of the elements of a list follows from the property on its consecutive pieces
of `c` elements. -/
theorem forall_mem_of_chunks {α : Type} (P : α → Prop) (l : List α) (c n : Nat)
    (hlen : l.length ≤ c * n)
    (h : ∀ q, q < n → ∀ x ∈ (l.drop (c * q)).take c, P x) : ∀ x ∈ l, P x := by
  intro x hx
  obtain ⟨i, hi, rfl⟩ := List.mem_iff_getElem.1 hx
  have hc : 0 < c := by
    rcases Nat.eq_zero_or_pos c with h0 | h0
    · subst h0; omega
    · exact h0
  have hq : i / c < n := Nat.div_lt_of_lt_mul (by omega)
  have hdm := Nat.div_add_mod i c
  have hm := Nat.mod_lt i hc
  apply h (i / c) hq
  rw [List.mem_iff_getElem]
  refine ⟨i % c, ?_, ?_⟩
  · rw [List.length_take, List.length_drop]
    omega
  · rw [List.getElem_take, List.getElem_drop]
    congr 1

/-- A property of the numbers below `c * n` follows from the property on the `n` consecutive
ranges of `c` numbers. -/
theorem forall_lt_of_chunks (P : Nat → Prop) (c n : Nat)
    (h : ∀ q, q < n → ∀ r, r < c → P (c * q + r)) : ∀ i, i < c * n → P i := by
  intro i hi
  have hc : 0 < c := by
    rcases Nat.eq_zero_or_pos c with h0 | h0
    · subst h0; omega
    · exact h0
  have := h (i / c) (Nat.div_lt_of_lt_mul hi) (i % c) (Nat.mod_lt i hc)
  rwa [Nat.div_add_mod] at this

/-! ## Algebra of the 4x4 product -/

theorem product_assoc (a b c : float4x4) :
    leb__Matrix4x4Product (leb__Matrix4x4Product a b) c =
      leb__Matrix4x4Product a (leb__Matrix4x4Product b c) := by
  simp only [leb__Matrix4x4Product, productRow, leb__DotProduct, leb__TransposeMatrix4x4,
    float4x4.mk.injEq, float4.mk.injEq]
  refine ⟨⟨?_, ?_, ?_, ?_⟩, ⟨?_, ?_, ?_, ?_⟩, ⟨?_, ?_, ?_, ?_⟩, ⟨?_, ?_, ?_, ?_⟩⟩ <;> ring

theorem product_id_left (a : float4x4) :
    leb__Matrix4x4Product leb__IdentityMatrix4x4 a = a := by
  obtain ⟨⟨a00, a01, a02, a03⟩, ⟨a10, a11, a12, a13⟩, ⟨a20, a21, a22, a23⟩,
    ⟨a30, a31, a32, a33⟩⟩ := a
  simp [leb__Matrix4x4Product, productRow, leb__DotProduct, leb__TransposeMatrix4x4,
    leb__IdentityMatrix4x4]

theorem product_id_right (a : float4x4) :
    leb__Matrix4x4Product a leb__IdentityMatrix4x4 = a := by
  obtain ⟨⟨a00, a01, a02, a03⟩, ⟨a10, a11, a12, a13⟩, ⟨a20, a21, a22, a23⟩,
    ⟨a30, a31, a32, a33⟩⟩ := a
  simp [leb__Matrix4x4Product, productRow, leb__DotProduct, leb__TransposeMatrix4x4,
    leb__IdentityMatrix4x4]

/-- The splitting step multiplies on the left by a matrix that depends on type and bit only. -/
theorem splitting_eq_product (m : float4x4) (b t : Nat) :
    leb__SplittingMatrix m b t =
      leb__Matrix4x4Product (leb__SplittingMatrix leb__IdentityMatrix4x4 b t) m := by
  unfold leb__SplittingMatrix
  by_cases h0 : t = 0
  · subst h0; simp [product_id_right]
  · by_cases h3 : t = 3
    · subst h3; simp [product_id_right]
    · by_cases h1 : t = 1
      · subst h1; simp [product_id_right]
      · by_cases h2 : t = 2
        · subst h2; simp [product_id_right]
        · simp [h0, h1, h2, h3, product_id_left]

theorem decodeLoop_product (heapID : Nat) (n t : Nat) (m : float4x4) :
    decodeLoop heapID n t m =
      leb__Matrix4x4Product (decodeLoop heapID n t leb__IdentityMatrix4x4) m := by
  induction n generalizing t m with
  | zero => simp [decodeLoop, product_id_left]
  | succ n ih =>
    simp only [decodeLoop]
    rw [ih, ih _ (leb__SplittingMatrix leb__IdentityMatrix4x4 _ _), splitting_eq_product,
      product_assoc]

theorem getBit_shift (h a b : Nat) :
    leb__GetBitValue h (a + b) = leb__GetBitValue (h >>> b) a := by
  simp [leb__GetBitValue, Nat.shiftRight_add, Nat.add_comm a b]

theorem typeLoop_split (h a b t : Nat) :
    typeLoop h (a + b) t = typeLoop h b (typeLoop (h >>> b) a t) := by
  induction a generalizing t with
  | zero => simp [typeLoop]
  | succ a ih =>
    rw [Nat.add_right_comm]
    simp only [typeLoop]
    rw [ih, getBit_shift]

theorem decodeLoop_split (h a b t : Nat) (m : float4x4) :
    decodeLoop h (a + b) t m =
      decodeLoop h b (typeLoop (h >>> b) a t) (decodeLoop (h >>> b) a t m) := by
  induction a generalizing t m with
  | zero => simp [typeLoop, decodeLoop]
  | succ a ih =>
    rw [Nat.add_right_comm]
    simp only [typeLoop, decodeLoop]
    rw [ih, getBit_shift]

theorem getBit_le_one (h i : Nat) : leb__GetBitValue h i = 0 ∨ leb__GetBitValue h i = 1 := by
  unfold leb__GetBitValue
  rw [Nat.and_one_is_mod]
  omega

theorem typeLoop_three (h : Nat) : typeLoop h 3 0 = 0 := by
  simp only [typeLoop]
  rcases getBit_le_one h 2 with h2 | h2 <;> simp [h2, nextType]

theorem typeLoop_three_mul (q h : Nat) : typeLoop h (3 * q) 0 = 0 := by
  induction q generalizing h with
  | zero => simp [typeLoop]
  | succ q ih =>
    have : 3 * (q + 1) = 3 * q + 3 := by ring
    rw [this, typeLoop_split, ih, typeLoop_three]

theorem typeLoop_nine_mul (q h : Nat) : typeLoop h (9 * q) 0 = 0 := by
  have : 9 * q = 3 * (3 * q) := by ring
  rw [this, typeLoop_three_mul]

/-! ## The most significant bit -/

theorem log2_bounds (x : Nat) (hx : 1 ≤ x) :
    2 ^ Nat.log2 x ≤ x ∧ x < 2 ^ (Nat.log2 x + 1) := by
  constructor
  · exact Nat.log2_self_le (by omega)
  · exact Nat.lt_log2_self

theorem log2_unique (x n : Nat) (h1 : 2 ^ n ≤ x) (h2 : x < 2 ^ (n + 1)) : Nat.log2 x = n := by
  have hx : x ≠ 0 := by
    have := Nat.two_pow_pos n
    omega
  have ha := (Nat.le_log2 hx).2 h1
  have hb := (Nat.log2_lt hx).2 h2
  omega

theorem log2_half (x : Nat) (hx : 2 ≤ x) : Nat.log2 x = Nat.log2 (x / 2) + 1 := by
  have hb := log2_bounds (x / 2) (by omega)
  apply log2_unique
  · rw [pow_succ]; omega
  · rw [pow_succ]; omega

theorem findMSBLoop_eq (fuel x d : Nat) (hx : 1 ≤ x) (hf : x < 2 ^ fuel) :
    leb__FindMSBLoop fuel x d = d + Nat.log2 x := by
  induction fuel generalizing x d with
  | zero => simp at hf; omega
  | succ fuel ih =>
    unfold leb__FindMSBLoop
    by_cases h1 : x > 1
    · have hs : x >>> 1 = x / 2 := by rw [Nat.shiftRight_eq_div_pow, pow_one]
      rw [if_pos h1, hs, ih _ _ (by omega) (by rw [pow_succ] at hf; omega), log2_half x (by omega)]
      omega
    · have : x = 1 := by omega
      subst this
      rw [if_neg h1, log2_unique 1 0 (by simp) (by simp)]; simp

theorem findMSB_eq_log2 (x : Nat) (hx : 1 ≤ x) (hf : x < 2 ^ 64) :
    leb__FindMSB x = Nat.log2 x := by
  unfold leb__FindMSB
  rw [findMSBLoop_eq 64 x 0 hx hf]; simp

/-! ## The low bits decide the decoding -/

theorem decodeLoop_congr (h g : Nat) (n t : Nat) (m : float4x4)
    (hb : ∀ i, i < n → leb__GetBitValue h i = leb__GetBitValue g i) :
    decodeLoop h n t m = decodeLoop g n t m := by
  induction n generalizing t m with
  | zero => simp [decodeLoop]
  | succ n ih =>
    simp only [decodeLoop]
    rw [hb n (by omega)]
    exact ih _ _ (fun i hi => hb i (by omega))

theorem getBit_eq_div (h i : Nat) : leb__GetBitValue h i = h / 2 ^ i % 2 := by
  simp [leb__GetBitValue, Nat.and_one_is_mod, Nat.shiftRight_eq_div_pow]

theorem getBit_window (h r i : Nat) (hi : i < r) :
    leb__GetBitValue (h % 2 ^ r + 2 ^ r) i = leb__GetBitValue h i := by
  rw [getBit_eq_div, getBit_eq_div, ← Nat.toNat_testBit, ← Nat.toNat_testBit]
  congr 1
  rw [Nat.add_comm, Nat.testBit_two_pow_add_gt hi, Nat.testBit_mod_two_pow]
  simp [hi]

theorem window_index (h r : Nat) :
    (h &&& (2 ^ r - 1)) ||| 2 ^ r = h % 2 ^ r + 2 ^ r := by
  rw [Nat.and_pow_two_sub_one_eq_mod, Nat.lor_comm, Nat.add_comm]
  have := Nat.mul_add_lt_is_or (Nat.mod_lt h (Nat.two_pow_pos r)) 1
  simpa using this.symm

theorem window_log2 (h r : Nat) : Nat.log2 (h % 2 ^ r + 2 ^ r) = r := by
  apply log2_unique
  · omega
  · have := Nat.mod_lt h (Nat.two_pow_pos r)
    rw [pow_succ]; omega

/-- Every entry `1 <= index < 1024` of the table is the bit-by-bit matrix of `index`. -/
theorem cache_entry (index : Nat) (h1 : 1 ≤ index) (h2 : index < 1024) :
    Leb3DCache.getD index default = leb__DecodeTransformationMatrix index 0 := by
  obtain ⟨k, rfl⟩ : ∃ k, index = k + 1 := ⟨index - 1, by omega⟩
  unfold Leb3DCache
  rw [List.getD_cons_succ, List.getD_eq_getElem?_getD, List.getElem?_map,
    List.getElem?_range (by simp [LEB_CACHE_SIZE]; omega)]
  rfl

/-- The table entry read for a window of `r <= 9` bits is the decoding of those bits. -/
theorem cache_window (h r : Nat) (hr : r ≤ 9) :
    Leb3DCache.getD (((h &&& (2 ^ r - 1)) ||| 2 ^ r) % 2 ^ 32) default =
      decodeLoop h r 0 leb__IdentityMatrix4x4 := by
  have hm := Nat.mod_lt h (Nat.two_pow_pos r)
  have hp : 2 ^ r ≤ 2 ^ 9 := Nat.pow_le_pow_right (by omega) hr
  have hpos := Nat.two_pow_pos r
  rw [window_index, Nat.mod_eq_of_lt (by omega), cache_entry _ (by omega) (by omega)]
  unfold leb__DecodeTransformationMatrix
  rw [findMSB_eq_log2 _ (by omega) (by omega), window_log2]
  exact decodeLoop_congr _ _ _ _ _ (fun i hi => getBit_window h r i hi)

/-- Decoding `9 * q` bits from type 0 is the product of the `q` window matrices, which is what
the loop of the cached decoder accumulates. -/
theorem cachedLoop_eq (q : Nat) (fuel g : Nat) (m : float4x4) (hf : q < fuel)
    (hg : Nat.log2 g = 9 * q) (hpos : 1 ≤ g) :
    cachedLoop Leb3DCache fuel g m =
      leb__Matrix4x4Product m (decodeLoop g (9 * q) 0 leb__IdentityMatrix4x4) := by
  induction q generalizing fuel g m with
  | zero =>
    obtain ⟨fuel, rfl⟩ : ∃ k, fuel = k + 1 := ⟨fuel - 1, by omega⟩
    have hb := log2_bounds g hpos
    rw [hg] at hb
    have : g = 1 := by simp at hb; omega
    subst this
    simp [cachedLoop, decodeLoop, product_id_right, LEB_CACHE_SIZE]
  | succ q ih =>
    obtain ⟨fuel, rfl⟩ : ∃ k, fuel = k + 1 := ⟨fuel - 1, by omega⟩
    have hb := log2_bounds g hpos
    rw [hg] at hb
    have h9 : 9 * (q + 1) = 9 * q + 9 := by ring
    have hge : 2 ^ 9 * 2 ^ (9 * q) ≤ g := by
      rw [← pow_add, Nat.add_comm, ← h9]; exact hb.1
    have hlt : g < 2 ^ 9 * 2 ^ (9 * q + 1) := by
      rw [← pow_add]
      have : 9 + (9 * q + 1) = 9 * (q + 1) + 1 := by ring
      rw [this]; exact hb.2
    have hq := Nat.two_pow_pos (9 * q)
    have hbig : g > 2 ^ 9 - 1 := by
      have : 2 ^ 9 * 1 ≤ 2 ^ 9 * 2 ^ (9 * q) := Nat.mul_le_mul_left _ hq
      omega
    have hdiv1 : 2 ^ (9 * q) ≤ g / 2 ^ 9 := by
      rw [Nat.le_div_iff_mul_le (by norm_num)]; rw [Nat.mul_comm]; exact hge
    have hdiv2 : g / 2 ^ 9 < 2 ^ (9 * q + 1) := by
      rw [Nat.div_lt_iff_lt_mul (by norm_num)]; rw [Nat.mul_comm]; exact hlt
    have hlog : Nat.log2 (g >>> 9) = 9 * q := by
      rw [Nat.shiftRight_eq_div_pow]
      exact log2_unique _ _ hdiv1 hdiv2
    have hpos2 : 1 ≤ g >>> 9 := by
      rw [Nat.shiftRight_eq_div_pow]; omega
    unfold cachedLoop
    simp only [LEB_CACHE_SIZE]
    rw [if_pos hbig, Nat.one_shiftLeft, cache_window g 9 (by omega),
      ih fuel (g >>> 9) _ (by omega) hlog hpos2, product_assoc, h9, decodeLoop_split,
      typeLoop_nine_mul,
      decodeLoop_product g 9 0 (decodeLoop (g >>> 9) (9 * q) 0 leb__IdentityMatrix4x4)]

theorem decode_cached_eq (h : Nat) (t : Nat) (h1 : 1 ≤ h) (h2 : h < 2 ^ 64) :
    leb__DecodeTransformationMatrixCached h t Leb3DCache = leb__DecodeTransformationMatrix h 0 := by
  have hd := findMSB_eq_log2 h h1 h2
  have hb := log2_bounds h h1
  have hlt : Nat.log2 h < 64 := (Nat.log2_lt (by omega)).2 h2
  set d := Nat.log2 h with hdef
  set r := d % 9 with hr
  set q := d / 9 with hq
  have hdq : d = 9 * q + r := by omega
  have hr9 : r < 9 := by omega
  have hq8 : q < 8 := by omega
  have hpr := Nat.two_pow_pos r
  -- the part of `h` above the remainder window
  have hdiv1 : 2 ^ (9 * q) ≤ h / 2 ^ r := by
    rw [Nat.le_div_iff_mul_le hpr, ← pow_add, ← hdq]; exact hb.1
  have hdiv2 : h / 2 ^ r < 2 ^ (9 * q + 1) := by
    rw [Nat.div_lt_iff_lt_mul hpr, ← pow_add]
    have : 9 * q + 1 + r = d + 1 := by omega
    rw [this]; exact hb.2
  have hlog : Nat.log2 (h >>> r) = 9 * q := by
    rw [Nat.shiftRight_eq_div_pow]; exact log2_unique _ _ hdiv1 hdiv2
  have hpos2 : 1 ≤ h >>> r := by
    rw [Nat.shiftRight_eq_div_pow]
    have := Nat.two_pow_pos (9 * q)
    omega
  have hfull : leb__DecodeTransformationMatrix h 0 =
      leb__Matrix4x4Product (decodeLoop h r 0 leb__IdentityMatrix4x4)
        (decodeLoop (h >>> r) (9 * q) 0 leb__IdentityMatrix4x4) := by
    unfold leb__DecodeTransformationMatrix
    rw [hd, hdq, decodeLoop_split, typeLoop_nine_mul, decodeLoop_product h r 0]
  rw [hfull]
  unfold leb__DecodeTransformationMatrixCached
  simp only [hd, LEB_CACHE_SIZE, ← hr]
  by_cases hr0 : r = 0
  · rw [if_neg (by simpa using hr0)]
    have hh : h >>> r = h := by rw [hr0]; simp
    rw [hh] at hlog hpos2 ⊢
    rw [cachedLoop_eq q 64 h _ (by omega) hlog h1, hr0]
    simp [decodeLoop]
  · rw [if_pos hr0, Nat.one_shiftLeft, cache_window h r (by omega),
      cachedLoop_eq q 64 (h >>> r) _ (by omega) hlog hpos2, product_id_left]

theorem decode_cached_zero (t : Nat) :
    leb__DecodeTransformationMatrixCached 0 t Leb3DCache = leb__DecodeTransformationMatrix 0 0 := by
  show leb__DecodeTransformationMatrixCached 0 0 Leb3DCache = leb__DecodeTransformationMatrix 0 0
  decide!

/-- C3 (chunked and unchunked geometry evaluation agree).  For every 64-bit heapID `h >= 1`
the matrix that the cached decoder composes from the table of `Leb3DCache` (9-bit windows,
remainder window first) is the matrix that the bit-by-bit decoder computes from type 0; hence
for every element whose root has base type 0 the two overloads of `evaluate_tetrahedron`
return the same four vertices (in exact arithmetic). -/
theorem C3_cached_decoding_agrees :
    (∀ h t : Nat, 1 ≤ h → h < 2 ^ 64 →
      leb__DecodeTransformationMatrixCached h t Leb3DCache =
        leb__DecodeTransformationMatrix h 0) ∧
    (∀ (heapID minDepth : Nat) (basePoints : List float3) (baseTypes : List Nat),
      baseTypes.getD (primitiveID heapID minDepth) 0 = 0 →
      evaluate_tetrahedron_cached heapID minDepth basePoints baseTypes Leb3DCache =
        evaluate_tetrahedron heapID minDepth basePoints baseTypes) := by
  refine ⟨fun h t h1 h2 => decode_cached_eq h t h1 h2, ?_⟩
  intro heapID minDepth basePoints baseTypes hbase
  unfold evaluate_tetrahedron_cached evaluate_tetrahedron
  simp only [hbase]
  have hlt : subHeapID heapID minDepth < 2 ^ 64 := by
    unfold subHeapID
    exact Nat.mod_lt _ (by norm_num)
  rcases Nat.eq_zero_or_pos (subHeapID heapID minDepth) with h0 | hpos
  · rw [h0, decode_cached_zero]
  · rw [decode_cached_eq _ _ hpos hlt]

/-- Witness of C3 at the heapID `2 ^ 29 + 12345` (depth 29: a remainder window of 2 bits and
three windows of 9 bits) and at the element `2 ^ 29` of the root mesh. -/
theorem C3_cached_decoding_agrees_witness :
    leb__DecodeTransformationMatrixCached (2 ^ 29 + 12345) 0 Leb3DCache =
        leb__DecodeTransformationMatrix (2 ^ 29 + 12345) 0 ∧
    evaluate_tetrahedron_cached (2 ^ 29) 5 g_CubeType0Vertices (List.replicate 24 0) Leb3DCache =
        evaluate_tetrahedron (2 ^ 29) 5 g_CubeType0Vertices (List.replicate 24 0) :=
  ⟨C3_cached_decoding_agrees.1 (2 ^ 29 + 12345) 0 (by norm_num) (by norm_num),
   C3_cached_decoding_agrees.2 (2 ^ 29) 5 g_CubeType0Vertices (List.replicate 24 0) (by decide!)⟩

/-! ## The root mesh -/

theorem list_eq_of_getD {α : Type} (d : α) (n : Nat) (l1 l2 : List α) (h1 : l1.length = n)
    (h2 : l2.length = n) (h : ∀ i, i < n → l1.getD i d = l2.getD i d) : l1 = l2 := by
  apply List.ext_getElem (by rw [h1, h2])
  intro i hi1 hi2
  have := h i (by omega)
  rwa [List.getD_eq_getElem _ _ hi1, List.getD_eq_getElem _ _ hi2] at this

/-- The function `create_type0_cube` evaluates the neighbors on `rootSeed`. -/
theorem rootVolume_seed : rootVolume =
    { rootSeed with
      neighborsArray := evaluate_neighbors rootSeed (evaluate_face_centers rootSeed)
      modifArray := resize [] 24, depthArray := resize [] 24,
      tetraCacheArray := resize [] 24 } :=
  rfl

/-! ## The search for neighbors on points given in sixths -/

theorem getD_sixths (units : List (Int × Int × Int)) (i : Nat) :
    (units.map sixths).getD i default = sixths (units.getD i (0, 0, 0)) := by
  have h : (default : float3) = sixths (0, 0, 0) := by
    simp [sixths, default, instInhabitedFloat3]
  rw [h, List.getD_map]

theorem distSq_sixths (a b : Int × Int × Int) :
    ((sixths a).sub (sixths b)).lengthSq = (unitDistSq a b : ℚ) / 36 := by
  simp only [sixths, float3.sub, float3.lengthSq, unitDistSq]
  push_cast
  ring

/-- The relation between a state of the search and its counterpart in sixths. -/
theorem closestStep_sixths (units : List (Int × Int × Int)) (c : Int × Int × Int) (nID : Nat)
    (st : ℚ × Nat) (su : Int × Nat) (f : Nat) (h : st = ((su.1 : ℚ) / 36, su.2)) :
    closestStep (units.map sixths) (sixths c) nID st f =
      (((closestStepU units c nID su f).1 : ℚ) / 36, (closestStepU units c nID su f).2) := by
  unfold closestStep closestStepU
  simp only [getD_sixths, distSq_sixths]
  rw [h]
  have e1 : ((unitDistSq c (units.getD (4 * nID + f) (0, 0, 0)) : ℚ) / 36 < (1 / 1000) ^ 2) ↔
      unitDistSq c (units.getD (4 * nID + f) (0, 0, 0)) * 1000000 < 36 := by
    rw [div_lt_iff₀ (by norm_num)]
    constructor
    · intro hq
      have : ((unitDistSq c (units.getD (4 * nID + f) (0, 0, 0)) * 1000000 : Int) : ℚ)
          < ((36 : Int) : ℚ) := by push_cast; linarith
      exact_mod_cast this
    · intro hi
      have : ((unitDistSq c (units.getD (4 * nID + f) (0, 0, 0)) * 1000000 : Int) : ℚ)
          < ((36 : Int) : ℚ) := by exact_mod_cast hi
      push_cast at this
      linarith
  have e2 : ((unitDistSq c (units.getD (4 * nID + f) (0, 0, 0)) : ℚ) / 36 < (su.1 : ℚ) / 36) ↔
      unitDistSq c (units.getD (4 * nID + f) (0, 0, 0)) < su.1 := by
    rw [div_lt_div_iff_of_pos_right (by norm_num)]
    exact Int.cast_lt
  simp only [e1, e2]
  split_ifs <;> rfl

theorem foldl_sixths {α : Type} (F : ℚ × Nat → α → ℚ × Nat) (G : Int × Nat → α → Int × Nat)
    (hstep : ∀ st su a, st = ((su.1 : ℚ) / 36, su.2) →
      F st a = (((G su a).1 : ℚ) / 36, (G su a).2)) :
    ∀ (l : List α) st su, st = ((su.1 : ℚ) / 36, su.2) →
      l.foldl F st = (((l.foldl G su).1 : ℚ) / 36, (l.foldl G su).2) := by
  intro l
  induction l with
  | nil => intro st su h; exact h
  | cons a l ih =>
    intro st su h
    simp only [List.foldl_cons]
    exact ih _ _ (hstep st su a h)

theorem closestFace_sixths (units : List (Int × Int × Int)) (count cur : Nat)
    (c : Int × Int × Int) :
    (closestFace (units.map sixths) count cur (sixths c)).2 =
      (closestFaceU units count cur c).2 := by
  unfold closestFace closestFaceU
  have h := foldl_sixths (closestElement (units.map sixths) cur (sixths c))
    (closestElementU units cur c) (fun st su nID hs => by
      unfold closestElement closestElementU
      split_ifs
      · exact hs
      · exact foldl_sixths _ _ (fun st' su' f hs' =>
          closestStep_sixths units c nID st' su' f hs') _ st su hs)
    (List.range count) (FLT_MAX ^ 2, UINT32_MAX)
    (36 * ((2 ^ 24 - 1) * 2 ^ 104) ^ 2, UINT32_MAX) (by
      simp only [FLT_MAX, Prod.mk.injEq, and_true]
      push_cast
      ring)
  rw [h]

/-- The search for the neighbors of an element among points given in sixths. -/
theorem matchNeighbors_sixths (units : List (Int × Int × Int)) (count cur : Nat) :
    matchNeighbors (units.map sixths) count cur = matchNeighborsU units count cur := by
  unfold matchNeighbors matchNeighborsU
  simp only [getD_sixths, closestFace_sixths]

set_option maxRecDepth 1000000 in
theorem rootFaceCenters_eq :
    evaluate_face_centers rootSeed = rootFaceCenterUnits.map sixths := by decide!

set_option maxRecDepth 1000000 in
theorem rootNeighbors_chunk : ∀ q, q < 6 → ∀ r, r < 4 →
    matchNeighborsU rootFaceCenterUnits 24 (4 * q + r)
      = rootNeighbors.getD (4 * q + r) default := by
  intro q hq
  interval_cases q <;> decide!

theorem rootNeighbors_units :
    (List.range 24).map (matchNeighborsU rootFaceCenterUnits 24) = rootNeighbors := by
  apply list_eq_of_getD (default : uint4) 24 _ _ (by simp) (by decide)
  intro i hi
  rw [List.getD_eq_getElem?_getD, List.getElem?_map, List.getElem?_range hi]
  exact forall_lt_of_chunks
    (fun i => matchNeighborsU rootFaceCenterUnits 24 i = rootNeighbors.getD i default) 4 6
    rootNeighbors_chunk i hi

/-- The neighbors that `evaluate_neighbors` finds in the root mesh are `rootNeighbors`. -/
theorem rootNeighbors_eq :
    evaluate_neighbors rootSeed (evaluate_face_centers rootSeed) = rootNeighbors := by
  rw [rootFaceCenters_eq, ← rootNeighbors_units]
  unfold evaluate_neighbors
  apply List.map_congr_left
  intro i hi
  have hheap : rootSeed.heapIDArray.getD i 0 ≠ 0 := by
    have hi' : i < 24 := List.mem_range.1 hi
    have : rootSeed.heapIDArray.getD i 0 = 32 + i := by
      show ((List.range 24).map (fun idx => 32 + idx)).getD i 0 = 32 + i
      rw [List.getD_eq_getElem?_getD, List.getElem?_map, List.getElem?_range hi']
      rfl
    rw [this]
    omega
  rw [if_neg hheap]
  exact matchNeighbors_sixths rootFaceCenterUnits 24 i

/-- The mesh built by `create_type0_cube`, evaluated: its neighbor table is `rootNeighbors`. -/
theorem rootVolume_eq : rootVolume = rootVolumeExplicit := by
  rw [rootVolume_seed, rootNeighbors_eq]
  rfl

set_option maxRecDepth 1000000 in
/-- C9 (the root decomposition).  The mesh built by `create_type0_cube` has exactly 24
elements, all of type 0, and every face whose centroid does not lie on one of the six planes
`x, y, z = +-0.5` has a neighbor slot different from `UINT32_MAX`. -/
theorem C9_root_mesh :
    rootVolume.totalNumElements = 24 ∧ rootVolume.typeArray.length = 24 ∧
    rootVolume.heapIDArray.length = 24 ∧ rootVolume.neighborsArray.length = 24 ∧
    (∀ e, e < 24 → typeOf rootVolume e = 0) ∧
    (∀ e, e < 24 → ∀ f, f < 4 → ¬ onOuterPlane (faceCenter rootVolume e f) →
      (neighborsOf rootVolume e).at f ≠ UINT32_MAX) := by
  rw [rootVolume_eq]
  refine ⟨by decide!, by decide!, by decide!, by decide!, by decide!, ?_⟩
  refine forall_lt_of_chunks _ 12 2 ?_
  intro q hq
  interval_cases q <;> decide!

set_option maxRecDepth 1000000 in
/-- C5, as stated, fails: splitting the root element 0 of the mesh built by
`create_type0_cube` leaves 26 elements, not 32. -/
theorem C5_counterexample :
    (recursive_split_element 64 rootVolume 0).map (fun v => v.totalNumElements) = .ok 26 ∧
    (recursive_split_element 64 rootVolume 0).map (fun v => v.totalNumElements) ≠ .ok (24 + 8) := by
  rw [rootVolume_eq]
  decide!

set_option maxRecDepth 1000000 in
/-- C5, as amended.  Splitting any one root element `r` of the mesh built by
`create_type0_cube` increases `totalNumElements` by exactly 2 (from 24 to 26): `r` and its
neighbor `n` across face 3 get the heapID `2p` of their pre-split heapID `p`, the new elements
24 and 25 get `2p + 1`, and no other heapID changes. -/
theorem C5_root_split_adds_two :
    ∀ r, r < 24 → rootSplitOutcome rootVolume r := by
  rw [rootVolume_eq]
  refine forall_lt_of_chunks _ 12 2 ?_
  intro q hq
  interval_cases q <;> decide!

/-- Witness of the amended C5 at the root element 0. -/
theorem C5_root_split_adds_two_witness : (0 : Nat) < 24 ∧ rootSplitOutcome rootVolume 0 :=
  ⟨by decide, C5_root_split_adds_two 0 (by decide)⟩

set_option maxRecDepth 1000000 in
/-- Witness of C9 at the root element 0 and its face 3, whose centroid is inside the cube. -/
theorem C9_root_mesh_witness :
    typeOf rootVolume 0 = 0 ∧ (neighborsOf rootVolume 0).at 3 ≠ UINT32_MAX :=
  ⟨C9_root_mesh.2.2.2.2.1 0 (by decide),
   C9_root_mesh.2.2.2.2.2 0 (by decide) 3 (by decide) (by rw [rootVolume_eq]; decide!)⟩

/-! ## Validation of a deep mesh -/

theorem forEach_ok (f : Nat → Except Fail Unit) (l : List Nat)
    (h : forEach f l = .ok ()) : ∀ x ∈ l, f x = .ok () := by
  induction l with
  | nil => intro x hx; cases hx
  | cons a l ih =>
    intro x hx
    unfold forEach at h
    cases hfa : f a with
    | error e => rw [hfa] at h; cases h
    | ok u =>
      rw [hfa] at h
      rcases List.mem_cons.1 hx with rfl | hx
      · exact hfa
      · exact ih h x hx

theorem closestStep_sound (fc : List float3) (c : float3) (count nID : Nat) (st : ℚ × Nat)
    (f : Nat) (hn : nID < count) (hs : Sound count st) :
    Sound count (closestStep fc c nID st f) := by
  unfold closestStep
  simp only
  split
  · intro _; exact hn
  · exact hs

theorem closestStep_matched (fc : List float3) (c : float3) (count nID : Nat) (st : ℚ × Nat)
    (f : Nat) (hn : nID < count) (hs : Matched count st) :
    Matched count (closestStep fc c nID st f) := by
  unfold closestStep
  simp only
  split
  · rename_i h; exact ⟨h.1, hn⟩
  · exact hs

theorem closestStep_hit (fc : List float3) (c : float3) (count nID : Nat) (st : ℚ × Nat)
    (f : Nat) (hn : nID < count) (hs : Sound count st)
    (hd : (c.sub (fc.getD (4 * nID + f) default)).lengthSq < (1 / 1000) ^ 2) :
    Matched count (closestStep fc c nID st f) := by
  unfold closestStep
  simp only
  split
  · exact ⟨hd, hn⟩
  · rename_i h
    have hle : st.1 ≤ (c.sub (fc.getD (4 * nID + f) default)).lengthSq := by
      by_contra hlt
      exact h ⟨hd, not_le.1 hlt⟩
    have hst : st.1 < (1 / 1000) ^ 2 := lt_of_le_of_lt hle hd
    exact ⟨hst, hs hst⟩

theorem foldl_closestStep_sound (fc : List float3) (c : float3) (count nID : Nat)
    (l : List Nat) (st : ℚ × Nat) (hn : nID < count) (hs : Sound count st) :
    Sound count (l.foldl (closestStep fc c nID) st) := by
  induction l generalizing st with
  | nil => exact hs
  | cons a l ih => exact ih _ (closestStep_sound fc c count nID st a hn hs)

theorem foldl_closestStep_matched (fc : List float3) (c : float3) (count nID : Nat)
    (l : List Nat) (st : ℚ × Nat) (hn : nID < count) (hs : Matched count st) :
    Matched count (l.foldl (closestStep fc c nID) st) := by
  induction l generalizing st with
  | nil => exact hs
  | cons a l ih => exact ih _ (closestStep_matched fc c count nID st a hn hs)

theorem foldl_closestStep_hit (fc : List float3) (c : float3) (count nID : Nat)
    (l : List Nat) (st : ℚ × Nat) (f : Nat) (hf : f ∈ l) (hn : nID < count)
    (hs : Sound count st)
    (hd : (c.sub (fc.getD (4 * nID + f) default)).lengthSq < (1 / 1000) ^ 2) :
    Matched count (l.foldl (closestStep fc c nID) st) := by
  induction l generalizing st with
  | nil => cases hf
  | cons a l ih =>
    rcases List.mem_cons.1 hf with rfl | hf
    · exact foldl_closestStep_matched fc c count nID l _ hn
        (closestStep_hit fc c count nID st f hn hs hd)
    · exact ih _ hf (closestStep_sound fc c count nID st a hn hs)

theorem closestElement_sound (fc : List float3) (c : float3) (count cur nID : Nat)
    (st : ℚ × Nat) (hn : nID < count) (hs : Sound count st) :
    Sound count (closestElement fc cur c st nID) := by
  unfold closestElement
  split
  · exact hs
  · exact foldl_closestStep_sound fc c count nID _ st hn hs

theorem closestElement_matched (fc : List float3) (c : float3) (count cur nID : Nat)
    (st : ℚ × Nat) (hn : nID < count) (hs : Matched count st) :
    Matched count (closestElement fc cur c st nID) := by
  unfold closestElement
  split
  · exact hs
  · exact foldl_closestStep_matched fc c count nID _ st hn hs

theorem foldl_closestElement (fc : List float3) (c : float3) (count cur : Nat)
    (l : List Nat) (st : ℚ × Nat) (hl : ∀ x ∈ l, x < count) :
    (Sound count st → Sound count (l.foldl (closestElement fc cur c) st)) ∧
    (Matched count st → Matched count (l.foldl (closestElement fc cur c) st)) ∧
    (∀ nID f, nID ∈ l → nID ≠ cur → f < 4 → Sound count st →
      (c.sub (fc.getD (4 * nID + f) default)).lengthSq < (1 / 1000) ^ 2 →
      Matched count (l.foldl (closestElement fc cur c) st)) := by
  induction l generalizing st with
  | nil =>
    refine ⟨fun h => h, fun h => h, ?_⟩
    intro nID f hmem; cases hmem
  | cons a l ih =>
    have ha : a < count := hl a (List.mem_cons_self a l)
    have hl' : ∀ x ∈ l, x < count := fun x hx => hl x (List.mem_cons_of_mem a hx)
    obtain ⟨ih1, ih2, ih3⟩ := ih (closestElement fc cur c st a) hl'
    refine ⟨fun h => ih1 (closestElement_sound fc c count cur a st ha h),
      fun h => ih2 (closestElement_matched fc c count cur a st ha h), ?_⟩
    intro nID f hmem hne hf hs hd
    rcases List.mem_cons.1 hmem with rfl | hmem
    · apply ih2
      unfold closestElement
      rw [if_neg hne]
      exact foldl_closestStep_hit fc c count nID _ st f (List.mem_range.2 hf) ha hs hd
    · exact ih3 nID f hmem hne hf (closestElement_sound fc c count cur a st ha hs) hd

/-- A face of another element within the tolerance gives a recomputed neighbor. -/
theorem closestFace_found (fc : List float3) (count cur : Nat) (c : float3) (nID f : Nat)
    (hn : nID < count) (hne : nID ≠ cur) (hf : f < 4) (hc : count ≤ UINT32_MAX)
    (hd : (c.sub (fc.getD (4 * nID + f) default)).lengthSq < (1 / 1000) ^ 2) :
    (closestFace fc count cur c).2 ≠ UINT32_MAX := by
  have hinit : Sound count (FLT_MAX ^ 2, UINT32_MAX) := by
    intro h
    exfalso
    have : ((1 : ℚ) / 1000) ^ 2 ≤ FLT_MAX ^ 2 := by unfold FLT_MAX; norm_num
    exact absurd h (not_lt.2 this)
  have h := (foldl_closestElement fc c count cur (List.range count) (FLT_MAX ^ 2, UINT32_MAX)
    (fun x hx => List.mem_range.1 hx)).2.2 nID f (List.mem_range.2 hn) hne hf hinit hd
  unfold closestFace
  have := h.2
  omega

theorem matchNeighbors_z (fc : List float3) (count cur : Nat) :
    (matchNeighbors fc count cur).z = (closestFace fc count cur (fc.getD (4 * cur + 2) default)).2 := by
  rfl

theorem evaluate_neighbors_getD (v : LEBVolume) (fc : List float3) (e : Nat)
    (he : e < v.totalNumElements) (hh : v.heapIDArray.getD e 0 ≠ 0) :
    (evaluate_neighbors v fc).getD e default = matchNeighbors fc v.totalNumElements e := by
  unfold evaluate_neighbors
  rw [List.getD_eq_getElem?_getD, List.getElem?_map, List.getElem?_range he]
  simp only [Option.map, Option.getD]
  rw [if_neg hh]

/-- When `validate_cubic_volume` returns, the stored neighbors of every allocated element are
the recomputed ones. -/
theorem validate_ok_stored (v : LEBVolume) (h : validate_cubic_volume v = .ok ()) (e : Nat)
    (he : e < v.totalNumElements) (hh : v.heapIDArray.getD e 0 ≠ 0) :
    neighborsOf v e = matchNeighbors (evaluate_face_centers v) v.totalNumElements e := by
  unfold validate_cubic_volume at h
  simp only [bind, Except.bind] at h
  split at h
  · cases h
  · have h2 := forEach_ok _ _ h e (List.mem_range.2 he)
    simp only [hh, if_false] at h2
    rw [evaluate_neighbors_getD v _ e he hh] at h2
    unfold validateStored at h2
    split at h2
    · cases h2
    · rename_i hne
      simp only [not_or, not_not] at hne
      obtain ⟨hx, hy, hz, hw⟩ := hne
      unfold neighborsOf
      generalize v.neighborsArray.getD e default = a at *
      generalize matchNeighbors (evaluate_face_centers v) v.totalNumElements e = b at *
      cases a; cases b
      simp_all

theorem splitAll_append (fuel : Nat) (l1 l2 : List Nat) :
    ∀ v, splitAll fuel v (l1 ++ l2) =
      (splitAll fuel v l1).bind (fun v1 => splitAll fuel v1 l2) := by
  induction l1 with
  | nil => intro v; rfl
  | cons t l1 ih =>
    intro v
    rw [List.cons_append]
    unfold splitAll
    simp only [bind]
    cases recursive_split_element fuel v t with
    | error e => rfl
    | ok v1 =>
      simp only [Except.bind]
      rw [ih v1]
      cases splitAll fuel v1 l1 with
      | error e => rfl
      | ok v2 => simp only [Except.bind]; cases l2 <;> rfl

theorem splitAll_step (fuel : Nat) (l1 l2 : List Nat) (v v1 : LEBVolume)
    (h : splitAll fuel v l1 = .ok v1) :
    splitAll fuel v (l1 ++ l2) = splitAll fuel v1 l2 := by
  rw [splitAll_append, h]
  rfl

/-- A table of calls that `fallback` answers as listed is `fallback`. -/
theorem splitTable_eq (entries : List (LEBVolume × Nat × LEBVolume))
    (fallback : LEBVolume → Nat → Except Fail LEBVolume)
    (h : ∀ en ∈ entries, fallback en.1 en.2.1 = .ok en.2.2) :
    splitTable entries fallback = fallback := by
  funext volume element
  unfold splitTable
  cases hf : entries.find? (fun en => decide (en.1 = volume ∧ en.2.1 = element)) with
  | none => rfl
  | some en =>
    have hmem := List.mem_of_find?_eq_some hf
    have hp := List.find?_some hf
    simp only [decide_eq_true_eq] at hp
    simp only
    rw [← hp.1, ← hp.2]
    exact (h en hmem).symm

/-- A call of `recursive_split_element` returns what its body returns when the nested calls
are answered from a table of their results. -/
theorem split_by_table (fuel : Nat) (entries : List (LEBVolume × Nat × LEBVolume))
    (v : LEBVolume) (e : Nat) (w : LEBVolume)
    (hc : ∀ en ∈ entries, recursive_split_element fuel en.1 en.2.1 = .ok en.2.2)
    (h : (do
      let (volume, completeDiamond, rightElements, leftElements) ←
        check_diamond (splitTable entries (recursive_split_element fuel)) fuel v e
      if completeDiamond then diamond_split volume e
      else diamond_split_incomplete volume e rightElements leftElements) = .ok w) :
    recursive_split_element (fuel + 1) v e = .ok w := by
  rw [splitTable_eq _ _ hc] at h
  exact h

theorem splitAll_cons_ok (fuel : Nat) (v w : LEBVolume) (t : Nat) (l : List Nat)
    (h : recursive_split_element fuel v t = .ok w) :
    splitAll fuel v (t :: l) = splitAll fuel w l := by
  unfold splitAll
  simp only [bind, Except.bind, h]
  cases l <;> rfl

set_option maxRecDepth 1000000 in
theorem chain_node1 :
    recursive_split_element 64 rootVolumeExplicit 0 = .ok chainVolume1 := by decide!

set_option maxRecDepth 1000000 in
theorem chain_node4 :
    recursive_split_element 64 chainVolume1 0 = .ok chainVolume2 := by decide!

set_option maxRecDepth 1000000 in
theorem chain_node5 :
    recursive_split_element 64 chainVolume2 0 = .ok chainVolume3 := by decide!

set_option maxRecDepth 1000000 in
theorem chain_node7 :
    recursive_split_element 64 chainVolume3 0 = .ok chainVolume4 := by decide!

set_option maxRecDepth 1000000 in
theorem chain_node11 :
    recursive_split_element 64 chainVolume4 0 = .ok chainVolume5 := by decide!

set_option maxRecDepth 1000000 in
theorem chain_node12 :
    recursive_split_element 64 chainVolume5 0 = .ok chainVolume6 := by decide!

set_option maxRecDepth 1000000 in
theorem chain_node14 :
    recursive_split_element 64 chainVolume6 0 = .ok chainVolume7 := by decide!

set_option maxRecDepth 1000000 in
theorem chain_node18 :
    recursive_split_element 64 chainVolume7 0 = .ok chainVolume8 := by decide!

set_option maxRecDepth 1000000 in
theorem chain_node19 :
    recursive_split_element 64 chainVolume8 0 = .ok chainVolume9 := by decide!

set_option maxRecDepth 1000000 in
theorem chain_node21 :
    recursive_split_element 64 chainVolume9 0 = .ok chainVolume10 := by decide!

set_option maxRecDepth 1000000 in
theorem chain_node22 :
    recursive_split_element 62 chainVolume10 69 = .ok chainStep22 := by decide!

set_option maxRecDepth 1000000 in
theorem chain_node23 :
    recursive_split_element 63 chainVolume10 7 = .ok chainStep23 :=
  split_by_table 62 [(chainVolume10, 69, chainStep22)] _ _ _
    (by
      intro en hen
      simp only [List.mem_cons, List.mem_singleton, List.not_mem_nil, or_false] at hen
      rcases hen with rfl
      exacts [chain_node22])
    (by decide!)

set_option maxRecDepth 1000000 in
theorem chain_node24 :
    recursive_split_element 63 chainStep23 21 = .ok chainStep24 := by decide!

set_option maxRecDepth 1000000 in
theorem chain_node25 :
    recursive_split_element 64 chainVolume10 0 = .ok chainVolume11 :=
  split_by_table 63 [(chainVolume10, 7, chainStep23), (chainStep23, 21, chainStep24)] _ _ _
    (by
      intro en hen
      simp only [List.mem_cons, List.mem_singleton, List.not_mem_nil, or_false] at hen
      rcases hen with rfl | rfl
      exacts [chain_node23, chain_node24])
    (by decide!)

set_option maxRecDepth 1000000 in
theorem chain_node26 :
    recursive_split_element 64 chainVolume11 0 = .ok chainVolume12 := by decide!

set_option maxRecDepth 1000000 in
theorem chain_node28 :
    recursive_split_element 64 chainVolume12 0 = .ok chainVolume13 := by decide!

set_option maxRecDepth 1000000 in
theorem chain_node29 :
    recursive_split_element 62 chainVolume13 87 = .ok chainStep29 := by decide!

set_option maxRecDepth 1000000 in
theorem chain_node30 :
    recursive_split_element 63 chainVolume13 7 = .ok chainStep30 :=
  split_by_table 62 [(chainVolume13, 87, chainStep29)] _ _ _
    (by
      intro en hen
      simp only [List.mem_cons, List.mem_singleton, List.not_mem_nil, or_false] at hen
      rcases hen with rfl
      exacts [chain_node29])
    (by decide!)

set_option maxRecDepth 1000000 in
theorem chain_node31 :
    recursive_split_element 63 chainStep30 21 = .ok chainStep31 := by decide!

set_option maxRecDepth 1000000 in
theorem chain_node32 :
    recursive_split_element 64 chainVolume13 0 = .ok chainVolume14 :=
  split_by_table 63 [(chainVolume13, 7, chainStep30), (chainStep30, 21, chainStep31)] _ _ _
    (by
      intro en hen
      simp only [List.mem_cons, List.mem_singleton, List.not_mem_nil, or_false] at hen
      rcases hen with rfl | rfl
      exacts [chain_node30, chain_node31])
    (by decide!)

set_option maxRecDepth 1000000 in
theorem chain_node33 :
    recursive_split_element 64 chainVolume14 0 = .ok chainVolume15 := by decide!

set_option maxRecDepth 1000000 in
theorem chain_node35 :
    recursive_split_element 64 chainVolume15 0 = .ok chainVolume16 := by decide!

set_option maxRecDepth 1000000 in
theorem chain_node36 :
    recursive_split_element 62 chainVolume16 105 = .ok chainStep36 := by decide!

set_option maxRecDepth 1000000 in
theorem chain_node37 :
    recursive_split_element 63 chainVolume16 7 = .ok chainStep37 :=
  split_by_table 62 [(chainVolume16, 105, chainStep36)] _ _ _
    (by
      intro en hen
      simp only [List.mem_cons, List.mem_singleton, List.not_mem_nil, or_false] at hen
      rcases hen with rfl
      exacts [chain_node36])
    (by decide!)

set_option maxRecDepth 1000000 in
theorem chain_node38 :
    recursive_split_element 63 chainStep37 21 = .ok chainStep38 := by decide!

set_option maxRecDepth 1000000 in
theorem chain_node39 :
    recursive_split_element 64 chainVolume16 0 = .ok chainVolume17 :=
  split_by_table 63 [(chainVolume16, 7, chainStep37), (chainStep37, 21, chainStep38)] _ _ _
    (by
      intro en hen
      simp only [List.mem_cons, List.mem_singleton, List.not_mem_nil, or_false] at hen
      rcases hen with rfl | rfl
      exacts [chain_node37, chain_node38])
    (by decide!)

set_option maxRecDepth 1000000 in
theorem chain_node40 :
    recursive_split_element 64 chainVolume17 0 = .ok chainVolume18 := by decide!

set_option maxRecDepth 1000000 in
theorem chain_node42 :
    recursive_split_element 64 chainVolume18 0 = .ok chainVolume19 := by decide!

set_option maxRecDepth 1000000 in
theorem chain_node43 :
    recursive_split_element 62 chainVolume19 123 = .ok chainStep43 := by decide!

set_option maxRecDepth 1000000 in
theorem chain_node44 :
    recursive_split_element 63 chainVolume19 7 = .ok chainStep44 :=
  split_by_table 62 [(chainVolume19, 123, chainStep43)] _ _ _
    (by
      intro en hen
      simp only [List.mem_cons, List.mem_singleton, List.not_mem_nil, or_false] at hen
      rcases hen with rfl
      exacts [chain_node43])
    (by decide!)

set_option maxRecDepth 1000000 in
theorem chain_node45 :
    recursive_split_element 63 chainStep44 21 = .ok chainStep45 := by decide!

set_option maxRecDepth 1000000 in
theorem chain_node46 :
    recursive_split_element 64 chainVolume19 0 = .ok chainVolume20 :=
  split_by_table 63 [(chainVolume19, 7, chainStep44), (chainStep44, 21, chainStep45)] _ _ _
    (by
      intro en hen
      simp only [List.mem_cons, List.mem_singleton, List.not_mem_nil, or_false] at hen
      rcases hen with rfl | rfl
      exacts [chain_node44, chain_node45])
    (by decide!)

set_option maxRecDepth 1000000 in
theorem chain_node47 :
    recursive_split_element 64 chainVolume20 0 = .ok chainVolume21 := by decide!

set_option maxRecDepth 1000000 in
theorem chain_node48 :
    recursive_split_element 63 chainVolume21 139 = .ok chainStep48 := by decide!

set_option maxRecDepth 1000000 in
theorem chain_node49 :
    recursive_split_element 64 chainVolume21 0 = .ok chainVolume22 :=
  split_by_table 63 [(chainVolume21, 139, chainStep48)] _ _ _
    (by
      intro en hen
      simp only [List.mem_cons, List.mem_singleton, List.not_mem_nil, or_false] at hen
      rcases hen with rfl
      exacts [chain_node48])
    (by decide!)

set_option maxRecDepth 1000000 in
theorem chain_node50 :
    recursive_split_element 62 chainVolume22 141 = .ok chainStep50 := by decide!

set_option maxRecDepth 1000000 in
theorem chain_node51 :
    recursive_split_element 63 chainVolume22 7 = .ok chainStep51 :=
  split_by_table 62 [(chainVolume22, 141, chainStep50)] _ _ _
    (by
      intro en hen
      simp only [List.mem_cons, List.mem_singleton, List.not_mem_nil, or_false] at hen
      rcases hen with rfl
      exacts [chain_node50])
    (by decide!)

set_option maxRecDepth 1000000 in
theorem chain_node52 :
    recursive_split_element 63 chainStep51 21 = .ok chainStep52 := by decide!

set_option maxRecDepth 1000000 in
theorem chain_node53 :
    recursive_split_element 64 chainVolume22 0 = .ok chainVolume23 :=
  split_by_table 63 [(chainVolume22, 7, chainStep51), (chainStep51, 21, chainStep52)] _ _ _
    (by
      intro en hen
      simp only [List.mem_cons, List.mem_singleton, List.not_mem_nil, or_false] at hen
      rcases hen with rfl | rfl
      exacts [chain_node51, chain_node52])
    (by decide!)

set_option maxRecDepth 1000000 in
theorem chain_node54 :
    recursive_split_element 64 chainVolume23 0 = .ok deepVolume := by decide!

/-- The 24 calls `recursive_split_element(volume, 0)` on the root mesh all return, and the
mesh they leave is `deepVolume`. -/
theorem chain_reached :
    splitAll 64 rootVolume (List.replicate 24 0) = .ok deepVolume := by
  have h24 : List.replicate 24 0
      = [0, 0, 0, 0, 0, 0, 0, 0, 0, 0, 0, 0, 0, 0, 0, 0, 0, 0, 0, 0, 0, 0, 0, 0] := by decide
  rw [h24]
  rw [rootVolume_eq, splitAll_cons_ok _ _ _ _ _ chain_node1,
    splitAll_cons_ok _ _ _ _ _ chain_node4, splitAll_cons_ok _ _ _ _ _ chain_node5,
    splitAll_cons_ok _ _ _ _ _ chain_node7, splitAll_cons_ok _ _ _ _ _ chain_node11,
    splitAll_cons_ok _ _ _ _ _ chain_node12, splitAll_cons_ok _ _ _ _ _ chain_node14,
    splitAll_cons_ok _ _ _ _ _ chain_node18, splitAll_cons_ok _ _ _ _ _ chain_node19,
    splitAll_cons_ok _ _ _ _ _ chain_node21, splitAll_cons_ok _ _ _ _ _ chain_node25,
    splitAll_cons_ok _ _ _ _ _ chain_node26, splitAll_cons_ok _ _ _ _ _ chain_node28,
    splitAll_cons_ok _ _ _ _ _ chain_node32, splitAll_cons_ok _ _ _ _ _ chain_node33,
    splitAll_cons_ok _ _ _ _ _ chain_node35, splitAll_cons_ok _ _ _ _ _ chain_node39,
    splitAll_cons_ok _ _ _ _ _ chain_node40, splitAll_cons_ok _ _ _ _ _ chain_node42,
    splitAll_cons_ok _ _ _ _ _ chain_node46, splitAll_cons_ok _ _ _ _ _ chain_node47,
    splitAll_cons_ok _ _ _ _ _ chain_node49, splitAll_cons_ok _ _ _ _ _ chain_node53,
    splitAll_cons_ok _ _ _ _ _ chain_node54]
  rfl

set_option maxRecDepth 1000000 in
/-- The mesh after 24 splits of element 0, evaluated where the validation looks: 164 elements,
the face 2 of element 0 has no stored neighbor, and its centroid is closer than the tolerance
`0.001` to the centroid of face 1 of element 157. -/
theorem deepVolume_facts :
    deepVolume.totalNumElements = 164 ∧ deepVolume.heapIDArray.getD 0 0 = 2 ^ 29 ∧
    (neighborsOf deepVolume 0).z = UINT32_MAX ∧
    ((faceCenter deepVolume 0 2).sub (faceCenter deepVolume 157 1)).lengthSq
      < (1 / 1000) ^ 2 := by
  have h1 : faceCenter deepVolume 0 2 = ⟨767 / 1536, -255 / 512, -1 / 2⟩ := by decide!
  have h2 : faceCenter deepVolume 157 1 = ⟨767 / 1536, -255 / 512, -767 / 1536⟩ := by decide!
  refine ⟨by decide!, by decide!, by decide!, ?_⟩
  rw [h1, h2]
  norm_num [float3.sub, float3.lengthSq]

/-- C2 on the failing input: after 24 calls `recursive_split_element(volume, 0)` on the root
mesh (all of which return), `validate_cubic_volume` does not return: the boundary face 2 of
element 0, whose stored neighbor is `UINT32_MAX`, is matched with face 1 of element 157 because
the two centroids are closer than the fixed tolerance `0.001`. -/
theorem C2_validation_fails_on_deep_mesh :
    splitAll 64 rootVolume (List.replicate 24 0) = .ok deepVolume ∧
    (neighborsOf deepVolume 0).z = UINT32_MAX ∧
    (matchNeighbors (evaluate_face_centers deepVolume) deepVolume.totalNumElements 0).z
      ≠ UINT32_MAX ∧
    validate_cubic_volume deepVolume ≠ .ok () := by
  obtain ⟨htotal, hheap, hstored, hdist⟩ := deepVolume_facts
  have hfound : (matchNeighbors (evaluate_face_centers deepVolume)
      deepVolume.totalNumElements 0).z ≠ UINT32_MAX := by
    rw [matchNeighbors_z]
    apply closestFace_found _ _ _ _ 157 1
    · rw [htotal]; norm_num
    · norm_num
    · norm_num
    · rw [htotal]; unfold UINT32_MAX; norm_num
    · exact hdist
  refine ⟨chain_reached, hstored, hfound, ?_⟩
  intro hok
  have h := validate_ok_stored deepVolume hok 0 (by rw [htotal]; norm_num)
    (by rw [hheap]; norm_num)
  rw [← h] at hfound
  exact hfound hstored

/-! ## Vectors: `resize`, reads and writes -/

theorem length_resize {α : Type} [Inhabited α] (l : List α) (n : Nat) :
    (resize l n).length = n := by
  unfold resize
  simp only [List.length_append, List.length_take, List.length_replicate]
  omega

theorem getD_resize {α : Type} [Inhabited α] (l : List α) (n e : Nat) (d : α)
    (hl : l.length ≤ n) (he : e < l.length) :
    (resize l n).getD e d = l.getD e d := by
  unfold resize
  rw [List.take_of_length_le hl]
  simp only [List.getD_eq_getElem?_getD]
  rw [List.getElem?_append_left he]

theorem getD_resize_new {α : Type} [Inhabited α] (l : List α) (n e : Nat) (d : α)
    (hl : l.length ≤ e) (he : e < n) :
    (resize l n).getD e d = default := by
  unfold resize
  rw [List.take_of_length_le (by omega)]
  simp only [List.getD_eq_getElem?_getD]
  rw [List.getElem?_append_right hl, List.getElem?_replicate]
  simp only [show e - l.length < n - l.length by omega, if_true, Option.getD]

theorem resize_resize {α : Type} [Inhabited α] (l : List α) (n m : Nat)
    (hl : l.length ≤ n) (hn : n ≤ m) :
    resize (resize l n) m = resize l m := by
  unfold resize
  have h1 : (l ++ List.replicate (n - l.length) (default : α)).length = n := by
    simp only [List.length_append, List.length_replicate]; omega
  rw [List.take_of_length_le hl, List.take_of_length_le (by omega),
    List.take_of_length_le (by omega), h1, List.append_assoc, ← List.replicate_add]
  congr 2
  omega

theorem getD_set_eq {α : Type} (l : List α) (i : Nat) (a d : α) (hi : i < l.length) :
    (l.set i a).getD i d = a := by
  simp [List.getD_eq_getElem?_getD, List.getElem?_set_self, hi]

theorem getD_set_ne {α : Type} (l : List α) (i j : Nat) (a d : α) (hij : i ≠ j) :
    (l.set i a).getD j d = l.getD j d := by
  simp [List.getD_eq_getElem?_getD, List.getElem?_set_ne hij]

/-! ## Updates along the pairs (member, slot) of a diamond -/

theorem PairsOK.tail {count len : Nat} {p : Nat × Nat} {ps : List (Nat × Nat)}
    (h : PairsOK count len (p :: ps)) : PairsOK count len ps :=
  { member_lt := fun q hq => h.member_lt q (List.mem_cons_of_mem p hq)
    slot_ge := fun q hq => h.slot_ge q (List.mem_cons_of_mem p hq)
    slot_lt := fun q hq => h.slot_lt q (List.mem_cons_of_mem p hq)
    members_nodup := by
      have := h.members_nodup
      rw [List.map_cons, List.nodup_cons] at this
      exact this.2
    slots_nodup := by
      have := h.slots_nodup
      rw [List.map_cons, List.nodup_cons] at this
      exact this.2 }

theorem PairsOK.head_fst_ne {count len : Nat} {p : Nat × Nat} {ps : List (Nat × Nat)}
    (h : PairsOK count len (p :: ps)) : ∀ q ∈ ps, q.1 ≠ p.1 ∧ q.1 ≠ p.2 ∧ q.2 ≠ p.1 ∧ q.2 ≠ p.2 := by
  intro q hq
  have h1 := h.members_nodup
  have h2 := h.slots_nodup
  rw [List.map_cons, List.nodup_cons] at h1 h2
  have hq1 := h.member_lt q (List.mem_cons_of_mem p hq)
  have hq2 := h.slot_ge q (List.mem_cons_of_mem p hq)
  have hp1 := h.member_lt p (List.mem_cons_self p ps)
  have hp2 := h.slot_ge p (List.mem_cons_self p ps)
  refine ⟨?_, by omega, by omega, ?_⟩
  · intro he
    exact h1.1 (List.mem_map.2 ⟨q, hq, he⟩)
  · intro he
    exact h2.1 (List.mem_map.2 ⟨q, hq, he⟩)

theorem length_heapStep (h : List Nat) (p : Nat × Nat) : (heapStep h p).length = h.length := by
  simp [heapStep]

theorem length_foldl_heapStep (pairs : List (Nat × Nat)) (h : List Nat) :
    (pairs.foldl heapStep h).length = h.length := by
  induction pairs generalizing h with
  | nil => rfl
  | cons p ps ih => rw [List.foldl_cons, ih, length_heapStep]

theorem getD_heapStep_other (h : List Nat) (p : Nat × Nat) (e : Nat) (h1 : e ≠ p.1)
    (h2 : e ≠ p.2) : (heapStep h p).getD e 0 = h.getD e 0 := by
  unfold heapStep
  simp only
  rw [getD_set_ne _ _ _ _ _ (Ne.symm h2), getD_set_ne _ _ _ _ _ (Ne.symm h1)]

theorem getD_heapStep_member (h : List Nat) (p : Nat × Nat) (h1 : p.1 < h.length)
    (h2 : p.1 ≠ p.2) : (heapStep h p).getD p.1 0 = h.getD p.1 0 * 2 % 2 ^ 64 := by
  unfold heapStep
  simp only
  rw [getD_set_ne _ _ _ _ _ (Ne.symm h2), getD_set_eq _ _ _ _ h1]

theorem getD_heapStep_slot (h : List Nat) (p : Nat × Nat) (h1 : p.1 < h.length)
    (h2 : p.2 < h.length) :
    (heapStep h p).getD p.2 0 = (h.getD p.1 0 * 2 % 2 ^ 64 + 1) % 2 ^ 64 := by
  unfold heapStep
  simp only
  rw [getD_set_eq _ _ _ _ (by simpa using h2), getD_set_eq _ _ _ _ h1]

theorem getD_foldl_heapStep_other (pairs : List (Nat × Nat)) (h : List Nat) (e : Nat)
    (he : ∀ p ∈ pairs, e ≠ p.1 ∧ e ≠ p.2) :
    (pairs.foldl heapStep h).getD e 0 = h.getD e 0 := by
  induction pairs generalizing h with
  | nil => rfl
  | cons p ps ih =>
    rw [List.foldl_cons, ih _ (fun q hq => he q (List.mem_cons_of_mem p hq)),
      getD_heapStep_other _ _ _ (he p (List.mem_cons_self p ps)).1
        (he p (List.mem_cons_self p ps)).2]

/-- Along well-formed pairs every member is doubled and every slot gets the successor. -/
theorem getD_foldl_heapStep (count : Nat) (pairs : List (Nat × Nat)) (h : List Nat)
    (hok : PairsOK count h.length pairs) :
    ∀ p ∈ pairs, (pairs.foldl heapStep h).getD p.1 0 = h.getD p.1 0 * 2 % 2 ^ 64 ∧
      (pairs.foldl heapStep h).getD p.2 0 = (h.getD p.1 0 * 2 % 2 ^ 64 + 1) % 2 ^ 64 := by
  induction pairs generalizing h with
  | nil => intro p hp; cases hp
  | cons q qs ih =>
    intro p hp
    have hq1 := hok.member_lt q (List.mem_cons_self q qs)
    have hq2 := hok.slot_ge q (List.mem_cons_self q qs)
    have hq3 := hok.slot_lt q (List.mem_cons_self q qs)
    have hne := hok.head_fst_ne
    rw [List.foldl_cons]
    rcases List.mem_cons.1 hp with rfl | hp
    · rw [getD_foldl_heapStep_other qs _ p.1 (fun r hr => ⟨(hne r hr).1.symm, (hne r hr).2.2.1.symm⟩),
        getD_foldl_heapStep_other qs _ p.2 (fun r hr => ⟨(hne r hr).2.1.symm, (hne r hr).2.2.2.symm⟩),
        getD_heapStep_member _ _ (by omega) (by omega), getD_heapStep_slot _ _ (by omega) hq3]
      exact ⟨rfl, rfl⟩
    · have htail : PairsOK count (heapStep h q).length qs := by
        rw [length_heapStep]; exact hok.tail
      have := ih _ htail p hp
      rw [getD_heapStep_other _ _ _ (hne p hp).1 (hne p hp).2.1] at this
      exact this

theorem length_typeStep (ti ts : Nat) (ty : List Nat) (p : Nat × Nat) :
    (typeStep ti ts ty p).length = ty.length := by
  simp [typeStep]

theorem length_foldl_typeStep (ti ts : Nat) (pairs : List (Nat × Nat)) (ty : List Nat) :
    (pairs.foldl (typeStep ti ts) ty).length = ty.length := by
  induction pairs generalizing ty with
  | nil => rfl
  | cons p ps ih => rw [List.foldl_cons, ih, length_typeStep]

theorem getD_foldl_typeStep_other (ti ts : Nat) (pairs : List (Nat × Nat)) (ty : List Nat)
    (e : Nat) (he : ∀ p ∈ pairs, e ≠ p.1 ∧ e ≠ p.2) :
    (pairs.foldl (typeStep ti ts) ty).getD e 0 = ty.getD e 0 := by
  induction pairs generalizing ty with
  | nil => rfl
  | cons p ps ih =>
    rw [List.foldl_cons, ih _ (fun q hq => he q (List.mem_cons_of_mem p hq))]
    unfold typeStep
    rw [getD_set_ne _ _ _ _ _ (Ne.symm (he p (List.mem_cons_self p ps)).2),
      getD_set_ne _ _ _ _ _ (Ne.symm (he p (List.mem_cons_self p ps)).1)]

/-- Along well-formed pairs every member gets the type `ti` and every slot the type `ts`. -/
theorem getD_foldl_typeStep (ti ts count : Nat) (pairs : List (Nat × Nat)) (ty : List Nat)
    (hok : PairsOK count ty.length pairs) :
    ∀ p ∈ pairs, (pairs.foldl (typeStep ti ts) ty).getD p.1 0 = ti ∧
      (pairs.foldl (typeStep ti ts) ty).getD p.2 0 = ts := by
  induction pairs generalizing ty with
  | nil => intro p hp; cases hp
  | cons q qs ih =>
    intro p hp
    have hq1 := hok.member_lt q (List.mem_cons_self q qs)
    have hq2 := hok.slot_ge q (List.mem_cons_self q qs)
    have hq3 := hok.slot_lt q (List.mem_cons_self q qs)
    have hne := hok.head_fst_ne
    rw [List.foldl_cons]
    rcases List.mem_cons.1 hp with rfl | hp
    · rw [getD_foldl_typeStep_other ti ts qs _ p.1
          (fun r hr => ⟨(hne r hr).1.symm, (hne r hr).2.2.1.symm⟩),
        getD_foldl_typeStep_other ti ts qs _ p.2
          (fun r hr => ⟨(hne r hr).2.1.symm, (hne r hr).2.2.2.symm⟩)]
      unfold typeStep
      constructor
      · rw [getD_set_ne _ _ _ _ _ (by omega), getD_set_eq _ _ _ _ (by omega)]
      · rw [getD_set_eq _ _ _ _ (by simpa using hq3)]
    · have htail : PairsOK count (typeStep ti ts ty q).length qs := by
        rw [length_typeStep]; exact hok.tail
      exact ih _ htail p hp

/-! ## What each statement of a split leaves unchanged -/

@[simp] theorem flagModified_totalNumElements (v : LEBVolume) (i : Nat) :
    (flagModified v i).totalNumElements = v.totalNumElements := rfl

@[simp] theorem flagModified_heapIDArray (v : LEBVolume) (i : Nat) :
    (flagModified v i).heapIDArray = v.heapIDArray := rfl

@[simp] theorem flagModified_typeArray (v : LEBVolume) (i : Nat) :
    (flagModified v i).typeArray = v.typeArray := rfl

@[simp] theorem copyModif_totalNumElements (v : LEBVolume) (s i : Nat) :
    (copyModif v s i).totalNumElements = v.totalNumElements := rfl

@[simp] theorem copyModif_heapIDArray (v : LEBVolume) (s i : Nat) :
    (copyModif v s i).heapIDArray = v.heapIDArray := rfl

@[simp] theorem copyModif_typeArray (v : LEBVolume) (s i : Nat) :
    (copyModif v s i).typeArray = v.typeArray := rfl

@[simp] theorem setNeighbors_totalNumElements (v : LEBVolume) (i s : Nat) (a b : uint4) :
    (setNeighbors v i s a b).totalNumElements = v.totalNumElements := rfl

@[simp] theorem setNeighbors_heapIDArray (v : LEBVolume) (i s : Nat) (a b : uint4) :
    (setNeighbors v i s a b).heapIDArray = v.heapIDArray := rfl

@[simp] theorem setNeighbors_typeArray (v : LEBVolume) (i s : Nat) (a b : uint4) :
    (setNeighbors v i s a b).typeArray = v.typeArray := rfl

@[simp] theorem patch_neighbor_totalNumElements (v : LEBVolume) (t o n : Nat) :
    (patch_neighbor v t o n).totalNumElements = v.totalNumElements := rfl

@[simp] theorem patch_neighbor_heapIDArray (v : LEBVolume) (t o n : Nat) :
    (patch_neighbor v t o n).heapIDArray = v.heapIDArray := rfl

@[simp] theorem patch_neighbor_typeArray (v : LEBVolume) (t o n : Nat) :
    (patch_neighbor v t o n).typeArray = v.typeArray := rfl

@[simp] theorem patchOutward_totalNumElements (v : LEBVolume) (nI : uint4) (i s : Nat) :
    (patchOutward v nI i s).totalNumElements = v.totalNumElements := by
  unfold patchOutward; split <;> rfl

@[simp] theorem linkEven_totalNumElements (v : LEBVolume) (i s : Nat) (nI : uint4) (a b sa sb : Nat) :
    (linkEven v i s nI a b sa sb).totalNumElements = v.totalNumElements := by
  unfold linkEven; split <;> rfl

@[simp] theorem linkOdd_totalNumElements (v : LEBVolume) (rev : Bool) (i s : Nat) (nI : uint4) (a b sa sb : Nat) :
    (linkOdd v rev i s nI a b sa sb).totalNumElements = v.totalNumElements := by
  unfold linkOdd; split <;> split <;> rfl

@[simp] theorem patchOutward_heapIDArray (v : LEBVolume) (nI : uint4) (i s : Nat) :
    (patchOutward v nI i s).heapIDArray = v.heapIDArray := by
  unfold patchOutward; split <;> rfl

@[simp] theorem linkEven_heapIDArray (v : LEBVolume) (i s : Nat) (nI : uint4) (a b sa sb : Nat) :
    (linkEven v i s nI a b sa sb).heapIDArray = v.heapIDArray := by
  unfold linkEven; split <;> rfl

@[simp] theorem linkOdd_heapIDArray (v : LEBVolume) (rev : Bool) (i s : Nat) (nI : uint4) (a b sa sb : Nat) :
    (linkOdd v rev i s nI a b sa sb).heapIDArray = v.heapIDArray := by
  unfold linkOdd; split <;> split <;> rfl

@[simp] theorem patchOutward_typeArray (v : LEBVolume) (nI : uint4) (i s : Nat) :
    (patchOutward v nI i s).typeArray = v.typeArray := by
  unfold patchOutward; split <;> rfl

@[simp] theorem linkEven_typeArray (v : LEBVolume) (i s : Nat) (nI : uint4) (a b sa sb : Nat) :
    (linkEven v i s nI a b sa sb).typeArray = v.typeArray := by
  unfold linkEven; split <;> rfl

@[simp] theorem linkOdd_typeArray (v : LEBVolume) (rev : Bool) (i s : Nat) (nI : uint4) (a b sa sb : Nat) :
    (linkOdd v rev i s nI a b sa sb).typeArray = v.typeArray := by
  unfold linkOdd; split <;> split <;> rfl

@[simp] theorem splitHeapID_totalNumElements (v : LEBVolume) (i s : Nat) :
    (splitHeapID v i s).totalNumElements = v.totalNumElements := rfl

@[simp] theorem splitHeapID_typeArray (v : LEBVolume) (i s : Nat) :
    (splitHeapID v i s).typeArray = v.typeArray := rfl

@[simp] theorem splitHeapID_heapIDArray (v : LEBVolume) (i s : Nat) :
    (splitHeapID v i s).heapIDArray = heapStep v.heapIDArray (i, s) := rfl

@[simp] theorem setTypes_totalNumElements (v : LEBVolume) (i s a b : Nat) :
    (setTypes v i s a b).totalNumElements = v.totalNumElements := rfl

@[simp] theorem setTypes_heapIDArray (v : LEBVolume) (i s a b : Nat) :
    (setTypes v i s a b).heapIDArray = v.heapIDArray := rfl

@[simp] theorem setTypes_typeArray (v : LEBVolume) (i s a b : Nat) :
    (setTypes v i s a b).typeArray = typeStep a b v.typeArray (i, s) := rfl

@[simp] theorem allocate_totalNumElements (v : LEBVolume) (n : Nat) :
    (allocate_new_elements v n).1.totalNumElements = (v.totalNumElements + n) % 2 ^ 32 := rfl

@[simp] theorem allocate_heapIDArray (v : LEBVolume) (n : Nat) :
    (allocate_new_elements v n).1.heapIDArray = resize v.heapIDArray ((v.totalNumElements + n) % 2 ^ 32) := rfl

@[simp] theorem allocate_typeArray (v : LEBVolume) (n : Nat) :
    (allocate_new_elements v n).1.typeArray = resize v.typeArray ((v.totalNumElements + n) % 2 ^ 32) := rfl

@[simp] theorem allocate_snd (v : LEBVolume) (n : Nat) :
    (allocate_new_elements v n).2 = v.totalNumElements := rfl

theorem assert_bind_ok {α : Type} (c : Bool) (f : Unit → Except Fail α) (a : α) :
    (assert c >>= f) = .ok a ↔ c = true ∧ f () = .ok a := by
  cases c <;> simp [assert, bind, Except.bind, pure, Except.pure, throw, throwThe,
    MonadExceptOf.throw]

theorem nextSlot_eq (s : Nat) (h : s + 1 < 2 ^ 32) : nextSlot s = s + 1 := by
  unfold nextSlot
  exact Nat.mod_eq_of_lt h

/-! ## The complete split, field by field -/

/-- What `diamond_split` leaves in the three vectors that the claims on counts, heapIDs and
types speak about, for a target of type 0: the asserted types of the members, and the pairs
(member, slot) along which heapIDs and types were updated. -/
theorem diamond_split0_fields (v v' : LEBVolume) (t : Nat) (h : diamond_split0 v t = .ok v')
    (h0 : typeOf v t = 0) (hw : v.totalNumElements + 8 < 2 ^ 32) :
    v'.totalNumElements = v.totalNumElements + 8 ∧
    v'.heapIDArray = (completePairs v t).foldl heapStep
      (resize v.heapIDArray (v.totalNumElements + 8)) ∧
    v'.typeArray = (completePairs v t).foldl (typeStep 1 2)
      (resize v.typeArray (v.totalNumElements + 8)) ∧
    (∀ p ∈ completePairs v t, typeOf v p.1 = 0) := by
  unfold diamond_split0 at h
  simp only [bind_assoc, assert_bind_ok, pure_bind] at h
  obtain ⟨-, a0, a1, a2, a3, a4, a5, a6, a7, h⟩ := h
  simp only [pure, Except.pure, Except.ok.injEq] at h
  subst h
  have e8 : (v.totalNumElements + 8) % 2 ^ 32 = v.totalNumElements + 8 := Nat.mod_eq_of_lt hw
  have s1 := nextSlot_eq v.totalNumElements (by omega)
  have s2 := nextSlot_eq (v.totalNumElements + 1) (by omega)
  have s3 := nextSlot_eq (v.totalNumElements + 2) (by omega)
  have s4 := nextSlot_eq (v.totalNumElements + 3) (by omega)
  have s5 := nextSlot_eq (v.totalNumElements + 4) (by omega)
  have s6 := nextSlot_eq (v.totalNumElements + 5) (by omega)
  have s7 := nextSlot_eq (v.totalNumElements + 6) (by omega)
  simp only [allocate_snd, s1, s2, s3, s4, s5, s6, s7]
  simp only [patchOutward_totalNumElements, patchOutward_heapIDArray, patchOutward_typeArray,
    setNeighbors_totalNumElements, setNeighbors_heapIDArray, setNeighbors_typeArray,
    setTypes_totalNumElements, setTypes_heapIDArray, setTypes_typeArray,
    splitHeapID_totalNumElements, splitHeapID_heapIDArray, splitHeapID_typeArray,
    copyModif_totalNumElements, copyModif_heapIDArray, copyModif_typeArray,
    flagModified_totalNumElements, flagModified_heapIDArray, flagModified_typeArray,
    allocate_totalNumElements, allocate_heapIDArray, allocate_typeArray, e8]
  have hp : completePairs v t = (ring0 v t).zip
      ((List.range 8).map (fun k => v.totalNumElements + k)) := by
    unfold completePairs
    simp only [h0, if_true]
    rfl
  refine ⟨trivial, ?_, ?_, ?_⟩
  · rw [hp]
    simp only [ring0, List.range, List.range.loop, List.map, List.zip, List.zipWith, List.foldl,
      Nat.add_zero]
  · rw [hp]
    simp only [ring0, List.range, List.range.loop, List.map, List.zip, List.zipWith, List.foldl,
      Nat.add_zero]
  · rw [hp]
    intro p hp
    simp only [ring0, List.range, List.range.loop, List.map, List.zip, List.zipWith,
      List.mem_cons, List.mem_singleton, List.not_mem_nil, or_false] at hp
    simp only [beq_iff_eq] at a0 a1 a2 a3 a4 a5 a6 a7
    rcases hp with rfl | rfl | rfl | rfl | rfl | rfl | rfl | rfl <;> assumption

/-- The same for a target of type 3: four members. -/
theorem diamond_split3_fields (v v' : LEBVolume) (t : Nat) (h : diamond_split3 v t = .ok v')
    (h0 : typeOf v t = 3) (hw : v.totalNumElements + 8 < 2 ^ 32) :
    v'.totalNumElements = v.totalNumElements + 4 ∧
    v'.heapIDArray = (completePairs v t).foldl heapStep
      (resize v.heapIDArray (v.totalNumElements + 4)) ∧
    v'.typeArray = (completePairs v t).foldl (typeStep 0 0)
      (resize v.typeArray (v.totalNumElements + 4)) ∧
    (∀ p ∈ completePairs v t, typeOf v p.1 = 3) := by
  unfold diamond_split3 at h
  simp only [bind_assoc, assert_bind_ok, pure_bind] at h
  obtain ⟨a0, a1, a2, a3, h⟩ := h
  simp only [pure, Except.pure, Except.ok.injEq] at h
  subst h
  have e8 : (v.totalNumElements + 4) % 2 ^ 32 = v.totalNumElements + 4 :=
    Nat.mod_eq_of_lt (by omega)
  have s1 := nextSlot_eq v.totalNumElements (by omega)
  have s2 := nextSlot_eq (v.totalNumElements + 1) (by omega)
  have s3 := nextSlot_eq (v.totalNumElements + 2) (by omega)
  simp only [allocate_snd, s1, s2, s3]
  simp only [patchOutward_totalNumElements, patchOutward_heapIDArray, patchOutward_typeArray,
    setNeighbors_totalNumElements, setNeighbors_heapIDArray, setNeighbors_typeArray,
    setTypes_totalNumElements, setTypes_heapIDArray, setTypes_typeArray,
    splitHeapID_totalNumElements, splitHeapID_heapIDArray, splitHeapID_typeArray,
    copyModif_totalNumElements, copyModif_heapIDArray, copyModif_typeArray,
    flagModified_totalNumElements, flagModified_heapIDArray, flagModified_typeArray,
    allocate_totalNumElements, allocate_heapIDArray, allocate_typeArray, e8]
  have hp : completePairs v t = (ring3 v t).zip
      ((List.range 4).map (fun k => v.totalNumElements + k)) := by
    unfold completePairs
    simp only [h0]
    rfl
  refine ⟨trivial, ?_, ?_, ?_⟩
  · rw [hp]
    simp only [ring3, List.range, List.range.loop, List.map, List.zip, List.zipWith, List.foldl,
      Nat.add_zero]
  · rw [hp]
    simp only [ring3, List.range, List.range.loop, List.map, List.zip, List.zipWith, List.foldl,
      Nat.add_zero]
  · rw [hp]
    intro p hp
    simp only [ring3, List.range, List.range.loop, List.map, List.zip, List.zipWith,
      List.mem_cons, List.mem_singleton, List.not_mem_nil, or_false] at hp
    simp only [beq_iff_eq] at a0 a1 a2 a3
    rcases hp with rfl | rfl | rfl | rfl <;> assumption

/-- The same for a target of type 1 or 2: six members, each of type 1 or 2. -/
theorem diamond_split12_fields (v v' : LEBVolume) (t : Nat) (h : diamond_split12 v t = .ok v')
    (h0 : typeOf v t = 1 ∨ typeOf v t = 2) (hw : v.totalNumElements + 8 < 2 ^ 32) :
    v'.totalNumElements = v.totalNumElements + 6 ∧
    v'.heapIDArray = (completePairs v t).foldl heapStep
      (resize v.heapIDArray (v.totalNumElements + 6)) ∧
    v'.typeArray = (completePairs v t).foldl (typeStep 3 3)
      (resize v.typeArray (v.totalNumElements + 6)) ∧
    (∀ p ∈ completePairs v t, typeOf v p.1 = 1 ∨ typeOf v p.1 = 2) := by
  unfold diamond_split12 at h
  simp only [bind_assoc, assert_bind_ok, pure_bind] at h
  obtain ⟨-, a0, a1, a2, a3, a4, a5, h⟩ := h
  simp only [pure, Except.pure, Except.ok.injEq] at h
  subst h
  have e8 : (v.totalNumElements + 6) % 2 ^ 32 = v.totalNumElements + 6 :=
    Nat.mod_eq_of_lt (by omega)
  have s1 := nextSlot_eq v.totalNumElements (by omega)
  have s2 := nextSlot_eq (v.totalNumElements + 1) (by omega)
  have s3 := nextSlot_eq (v.totalNumElements + 2) (by omega)
  have s4 := nextSlot_eq (v.totalNumElements + 3) (by omega)
  have s5 := nextSlot_eq (v.totalNumElements + 4) (by omega)
  simp only [allocate_snd, s1, s2, s3, s4, s5]
  simp only [patchOutward_totalNumElements, patchOutward_heapIDArray, patchOutward_typeArray,
    linkEven_totalNumElements, linkEven_heapIDArray, linkEven_typeArray,
    linkOdd_totalNumElements, linkOdd_heapIDArray, linkOdd_typeArray,
    setTypes_totalNumElements, setTypes_heapIDArray, setTypes_typeArray,
    splitHeapID_totalNumElements, splitHeapID_heapIDArray, splitHeapID_typeArray,
    copyModif_totalNumElements, copyModif_heapIDArray, copyModif_typeArray,
    flagModified_totalNumElements, flagModified_heapIDArray, flagModified_typeArray,
    allocate_totalNumElements, allocate_heapIDArray, allocate_typeArray, e8]
  have hp : completePairs v t = (ring12 v t).zip
      ((List.range 6).map (fun k => v.totalNumElements + k)) := by
    unfold completePairs
    rcases h0 with h0 | h0 <;> simp only [h0] <;> rfl
  refine ⟨trivial, ?_, ?_, ?_⟩
  · rw [hp]
    simp only [ring12, List.range, List.range.loop, List.map, List.zip, List.zipWith, List.foldl,
      Nat.add_zero]
  · rw [hp]
    simp only [ring12, List.range, List.range.loop, List.map, List.zip, List.zipWith, List.foldl,
      Nat.add_zero]
  · rw [hp]
    intro p hp
    simp only [ring12, List.range, List.range.loop, List.map, List.zip, List.zipWith,
      List.mem_cons, List.mem_singleton, List.not_mem_nil, or_false] at hp
    simp only [Bool.or_eq_true, beq_iff_eq] at a0 a1 a2 a3 a4 a5
    rcases hp with rfl | rfl | rfl | rfl | rfl | rfl <;> assumption

/-! ## The incomplete split, loop by loop -/

theorem foldl_range_succ {α : Type} (f : α → Nat → α) (a : α) (n : Nat) :
    (List.range (n + 1)).foldl f a = f ((List.range n).foldl f a) n := by
  rw [List.range_succ, List.foldl_append]
  rfl

theorem ArmsInv.alloc {v : LEBVolume} {ringSize n : Nat} {st : Arms}
    (h : ArmsInv v ringSize n st) (indices : List Nat) (pos : Nat) (b : Bool)
    (hlen : v.heapIDArray.length = v.totalNumElements)
    (hlen2 : v.typeArray.length = v.totalNumElements)
    (hw : v.totalNumElements + 1 + n + 1 < 2 ^ 32) :
    ArmsInv v ringSize (n + 1)
      { volume := (allocate_new_elements st.volume 1).1, indices := indices,
        slots := st.slots.set pos (allocate_new_elements st.volume 1).2, firstTwin := b } := by
  have hm : (v.totalNumElements + 1 + n + 1) % 2 ^ 32 = v.totalNumElements + 1 + (n + 1) := by
    rw [Nat.mod_eq_of_lt hw]; omega
  refine ⟨?_, ?_, ?_, ?_⟩
  · simp only [allocate_totalNumElements, h.total, hm]
  · simp only [allocate_heapIDArray, h.total, h.heap, hm]
    exact resize_resize _ _ _ (by omega) (by omega)
  · simp only [allocate_typeArray, h.total, h.type, hm]
    exact resize_resize _ _ _ (by omega) (by omega)
  · simp only [List.length_set, h.slots_len]

theorem collectLeft_inv (v : LEBVolume) (ringSize left : Nat) (st0 : Arms) (n0 : Nat)
    (hlen : v.heapIDArray.length = v.totalNumElements)
    (hlen2 : v.typeArray.length = v.totalNumElements)
    (h0 : ArmsInv v ringSize n0 st0) (n : Nat)
    (hw : v.totalNumElements + 1 + n0 + n < 2 ^ 32) :
    ArmsInv v ringSize (n0 + n) (collectLeft left n st0) := by
  induction n with
  | zero => exact h0
  | succ n ih =>
    unfold collectLeft
    rw [foldl_range_succ]
    exact (ih (by omega)).alloc _ _ _ hlen hlen2 (by omega)

theorem collectRight_inv (v : LEBVolume) (ringSize left : Nat) (st0 : Arms) (n0 : Nat)
    (hlen : v.heapIDArray.length = v.totalNumElements)
    (hlen2 : v.typeArray.length = v.totalNumElements)
    (h0 : ArmsInv v ringSize n0 st0) (n : Nat)
    (hw : v.totalNumElements + 1 + n0 + n < 2 ^ 32) :
    ArmsInv v ringSize (n0 + n) (collectRight left n st0) := by
  induction n with
  | zero => exact h0
  | succ n ih =>
    unfold collectRight
    rw [foldl_range_succ]
    exact (ih (by omega)).alloc _ _ _ hlen hlen2 (by omega)

/-- After the two collecting loops the mesh has `1 + leftElements + rightElements` more
elements, all of them value-initialised. -/
theorem collectArms_inv (v : LEBVolume) (t r l ringSize : Nat)
    (hlen : v.heapIDArray.length = v.totalNumElements)
    (hlen2 : v.typeArray.length = v.totalNumElements)
    (hw : v.totalNumElements + 1 + l + r < 2 ^ 32) :
    ArmsInv v ringSize (l + r) (collectArms v t r l ringSize) := by
  unfold collectArms
  have hm : (v.totalNumElements + 1) % 2 ^ 32 = v.totalNumElements + 1 :=
    Nat.mod_eq_of_lt (by omega)
  have h0 : ArmsInv v ringSize 0
      ⟨(allocate_new_elements v 1).1,
        (List.replicate ringSize UINT32_MAX).set l t,
        (List.replicate ringSize UINT32_MAX).set l (allocate_new_elements v 1).2, true⟩ := by
    refine ⟨?_, ?_, ?_, ?_⟩
    · simp only [allocate_totalNumElements, hm, Nat.add_zero]
    · simp only [allocate_heapIDArray, hm, Nat.add_zero]
    · simp only [allocate_typeArray, hm, Nat.add_zero]
    · simp only [List.length_set, List.length_replicate]
  have h1 := collectLeft_inv v ringSize l _ 0 hlen hlen2 h0 l (by omega)
  have h1' : ArmsInv v ringSize (0 + l)
      { (collectLeft l l ⟨(allocate_new_elements v 1).1,
        (List.replicate ringSize UINT32_MAX).set l t,
        (List.replicate ringSize UINT32_MAX).set l (allocate_new_elements v 1).2, true⟩)
        with firstTwin := true } := ⟨h1.total, h1.heap, h1.type, h1.slots_len⟩
  have h2 := collectRight_inv v ringSize l _ (0 + l) hlen hlen2 h1' r (by omega)
  simpa using h2

theorem collectLeftStep_slots (left : Nat) (st : Arms) (e : Nat) :
    (collectLeftStep left st e).slots = st.slots.set (left - e - 1) st.volume.totalNumElements :=
  rfl

theorem collectRightStep_slots (left : Nat) (st : Arms) (e : Nat) :
    (collectRightStep left st e).slots = st.slots.set (left + e + 1) st.volume.totalNumElements :=
  rfl

/-- The slots written by the loop over the left arm. -/
theorem collectLeft_slots (v : LEBVolume) (ringSize l : Nat) (st0 : Arms)
    (hlen : v.heapIDArray.length = v.totalNumElements)
    (hlen2 : v.typeArray.length = v.totalNumElements)
    (h0 : ArmsInv v ringSize 0 st0)
    (hs0 : st0.slots.getD l UINT32_MAX = v.totalNumElements) (hl : l < ringSize)
    (n : Nat) (hn : n ≤ l) (hw : v.totalNumElements + 1 + n < 2 ^ 32) :
    ∀ k, l - n ≤ k → k ≤ l →
      (collectLeft l n st0).slots.getD k UINT32_MAX = v.totalNumElements + (l - k) := by
  induction n with
  | zero =>
    intro k h1 h2
    have : k = l := by omega
    subst this
    simpa [collectLeft] using hs0
  | succ n ih =>
    intro k h1 h2
    have hinv := collectLeft_inv v ringSize l st0 0 hlen hlen2 h0 n (by omega)
    unfold collectLeft
    rw [foldl_range_succ, collectLeftStep_slots]
    change (List.set (collectLeft l n st0).slots (l - n - 1)
        (collectLeft l n st0).volume.totalNumElements).getD k UINT32_MAX = _
    by_cases hk : k = l - n - 1
    · subst hk
      rw [getD_set_eq _ _ _ _ (by rw [hinv.slots_len]; omega), hinv.total]
      omega
    · rw [getD_set_ne _ _ _ _ _ (Ne.symm hk)]
      exact ih (by omega) (by omega) k (by omega) h2

/-- The slots written by the loop over the right arm, the earlier ones being kept. -/
theorem collectRight_slots (v : LEBVolume) (ringSize l : Nat) (st0 : Arms)
    (hlen : v.heapIDArray.length = v.totalNumElements)
    (hlen2 : v.typeArray.length = v.totalNumElements)
    (h0 : ArmsInv v ringSize l st0)
    (hs0 : ∀ k, k ≤ l → st0.slots.getD k UINT32_MAX = v.totalNumElements + (l - k))
    (n : Nat) (hn : l + n < ringSize) (hw : v.totalNumElements + 1 + l + n < 2 ^ 32) :
    (∀ k, k ≤ l →
      (collectRight l n st0).slots.getD k UINT32_MAX = v.totalNumElements + (l - k)) ∧
    (∀ k, l < k → k ≤ l + n →
      (collectRight l n st0).slots.getD k UINT32_MAX = v.totalNumElements + k) := by
  induction n with
  | zero =>
    refine ⟨fun k hk => by simpa [collectRight] using hs0 k hk, fun k h1 h2 => by omega⟩
  | succ n ih =>
    have hinv := collectRight_inv v ringSize l st0 l hlen hlen2 h0 n (by omega)
    obtain ⟨ih1, ih2⟩ := ih (by omega) (by omega)
    have hstep : (collectRight l (n + 1) st0).slots =
        List.set (collectRight l n st0).slots (l + n + 1)
          (collectRight l n st0).volume.totalNumElements := by
      unfold collectRight
      rw [foldl_range_succ, collectRightStep_slots]
    rw [hstep]
    constructor
    · intro k hk
      rw [getD_set_ne _ _ _ _ _ (by omega)]
      exact ih1 k hk
    · intro k h1 h2
      by_cases hk : k = l + n + 1
      · subst hk
        rw [getD_set_eq _ _ _ _ (by rw [hinv.slots_len]; omega), hinv.total]
        omega
      · rw [getD_set_ne _ _ _ _ _ (Ne.symm hk)]
        exact ih2 k h1 (by omega)

/-- The slot of the member in place `k` of the buffer: the target (place `leftElements`) has
the first new slot, then come the left arm outwards and the right arm outwards. -/
theorem collectArms_slots (v : LEBVolume) (t r l ringSize : Nat)
    (hlen : v.heapIDArray.length = v.totalNumElements)
    (hlen2 : v.typeArray.length = v.totalNumElements)
    (hfit : 1 + r + l ≤ ringSize) (hw : v.totalNumElements + 1 + l + r < 2 ^ 32) :
    ∀ k, k < 1 + r + l →
      (collectArms v t r l ringSize).slots.getD k UINT32_MAX =
        if k ≤ l then v.totalNumElements + (l - k) else v.totalNumElements + k := by
  have hm : (v.totalNumElements + 1) % 2 ^ 32 = v.totalNumElements + 1 :=
    Nat.mod_eq_of_lt (by omega)
  have h0 : ArmsInv v ringSize 0
      ⟨(allocate_new_elements v 1).1,
        (List.replicate ringSize UINT32_MAX).set l t,
        (List.replicate ringSize UINT32_MAX).set l (allocate_new_elements v 1).2, true⟩ := by
    refine ⟨?_, ?_, ?_, ?_⟩
    · simp only [allocate_totalNumElements, hm, Nat.add_zero]
    · simp only [allocate_heapIDArray, hm, Nat.add_zero]
    · simp only [allocate_typeArray, hm, Nat.add_zero]
    · simp only [List.length_set, List.length_replicate]
  have hleft := collectLeft_slots v ringSize l _ hlen hlen2 h0
    (by
      simp only [allocate_snd]
      exact getD_set_eq _ _ _ _ (by simp only [List.length_replicate]; omega))
    (by omega) l (le_refl l) (by omega)
  have h1 := collectLeft_inv v ringSize l _ 0 hlen hlen2 h0 l (by omega)
  have h1' : ArmsInv v ringSize l
      { (collectLeft l l ⟨(allocate_new_elements v 1).1,
        (List.replicate ringSize UINT32_MAX).set l t,
        (List.replicate ringSize UINT32_MAX).set l (allocate_new_elements v 1).2, true⟩)
        with firstTwin := true } := by
    have := h1
    rw [Nat.zero_add] at this
    exact ⟨this.total, this.heap, this.type, this.slots_len⟩
  have hright := collectRight_slots v ringSize l _ hlen hlen2 h1'
    (fun k hk => hleft k (by omega) hk) r (by omega) (by omega)
  intro k hk
  unfold collectArms
  by_cases hkl : k ≤ l
  · rw [if_pos hkl]; exact hright.1 k hkl
  · rw [if_neg hkl]; exact hright.2 k (by omega) (by omega)

/-- The pairs (member, slot) read from the two buffers. -/
theorem map_range_succ {α : Type} (f : Nat → α) (n : Nat) :
    (List.range (n + 1)).map f = (List.range n).map f ++ [f n] := by
  rw [List.range_succ, List.map_append]
  rfl

theorem updateMembers_fields (vol : LEBVolume) (ind sl : List Nat) (n ti ts : Nat) :
    (updateMembers vol ind sl n ti ts).totalNumElements = vol.totalNumElements ∧
    (updateMembers vol ind sl n ti ts).heapIDArray =
      ((List.range n).map (fun k => (ind.getD k UINT32_MAX, sl.getD k UINT32_MAX))).foldl
        heapStep vol.heapIDArray ∧
    (updateMembers vol ind sl n ti ts).typeArray =
      ((List.range n).map (fun k => (ind.getD k UINT32_MAX, sl.getD k UINT32_MAX))).foldl
        (typeStep ti ts) vol.typeArray := by
  induction n with
  | zero => exact ⟨rfl, rfl, rfl⟩
  | succ n ih =>
    obtain ⟨ih1, ih2, ih3⟩ := ih
    have hstep : updateMembers vol ind sl (n + 1) ti ts =
        updateMember ind sl ti ts (updateMembers vol ind sl n ti ts) n := by
      unfold updateMembers
      rw [foldl_range_succ]
    rw [hstep, map_range_succ, List.foldl_append, List.foldl_append, ← ih2, ← ih3]
    refine ⟨?_, ?_, ?_⟩
    · unfold updateMember
      simp only [copyModif_totalNumElements, flagModified_totalNumElements,
        setTypes_totalNumElements, splitHeapID_totalNumElements, ih1]
    · unfold updateMember
      simp only [copyModif_heapIDArray, flagModified_heapIDArray, setTypes_heapIDArray,
        splitHeapID_heapIDArray, List.foldl_cons, List.foldl_nil]
    · unfold updateMember
      simp only [copyModif_typeArray, flagModified_typeArray, setTypes_typeArray,
        splitHeapID_typeArray, List.foldl_cons, List.foldl_nil]

theorem linkMember_fields (ind sl : List Nat) (na : List uint4) (rs : Nat)
    (st : LEBVolume × Bool) (e : Nat) :
    (linkMember ind sl na rs st e).1.totalNumElements = st.1.totalNumElements ∧
    (linkMember ind sl na rs st e).1.heapIDArray = st.1.heapIDArray ∧
    (linkMember ind sl na rs st e).1.typeArray = st.1.typeArray := by
  unfold linkMember
  simp only
  split <;> exact ⟨rfl, rfl, rfl⟩

theorem linkMembers_fields (vol : LEBVolume) (ind sl : List Nat) (na : List uint4)
    (n rs : Nat) (b : Bool) :
    (linkMembers vol ind sl na n rs b).totalNumElements = vol.totalNumElements ∧
    (linkMembers vol ind sl na n rs b).heapIDArray = vol.heapIDArray ∧
    (linkMembers vol ind sl na n rs b).typeArray = vol.typeArray := by
  unfold linkMembers
  induction n with
  | zero => exact ⟨rfl, rfl, rfl⟩
  | succ n ih =>
    rw [foldl_range_succ]
    obtain ⟨h1, h2, h3⟩ := linkMember_fields ind sl na rs
      ((List.range n).foldl (linkMember ind sl na rs) (vol, b)) n
    rw [h1, h2, h3]
    exact ih

theorem patchMembers_fields (vol : LEBVolume) (ind sl : List Nat) (na : List uint4) (n : Nat) :
    (patchMembers vol ind sl na n).totalNumElements = vol.totalNumElements ∧
    (patchMembers vol ind sl na n).heapIDArray = vol.heapIDArray ∧
    (patchMembers vol ind sl na n).typeArray = vol.typeArray := by
  unfold patchMembers
  induction n with
  | zero => exact ⟨rfl, rfl, rfl⟩
  | succ n ih =>
    rw [foldl_range_succ]
    unfold patchMember
    simp only [patchOutward_totalNumElements, patchOutward_heapIDArray, patchOutward_typeArray]
    exact ih

/-- What the shared part of `diamond_split_incomplete` leaves in the count and in the vectors
of heapIDs and types. -/
theorem splitIncompleteRing_fields (v : LEBVolume) (t r l rs ti ts : Nat)
    (hlen : v.heapIDArray.length = v.totalNumElements)
    (hlen2 : v.typeArray.length = v.totalNumElements)
    (hw : v.totalNumElements + 1 + l + r < 2 ^ 32) :
    (splitIncompleteRing v t r l rs ti ts).1.totalNumElements = v.totalNumElements + (1 + l + r) ∧
    (splitIncompleteRing v t r l rs ti ts).1.heapIDArray =
      ((List.range (1 + r + l)).map (fun k =>
        ((collectArms v t r l rs).indices.getD k UINT32_MAX,
         (collectArms v t r l rs).slots.getD k UINT32_MAX))).foldl heapStep
        (resize v.heapIDArray (v.totalNumElements + (1 + l + r))) ∧
    (splitIncompleteRing v t r l rs ti ts).1.typeArray =
      ((List.range (1 + r + l)).map (fun k =>
        ((collectArms v t r l rs).indices.getD k UINT32_MAX,
         (collectArms v t r l rs).slots.getD k UINT32_MAX))).foldl (typeStep ti ts)
        (resize v.typeArray (v.totalNumElements + (1 + l + r))) := by
  have hinv := collectArms_inv v t r l rs hlen hlen2 hw
  have hsize : (1 + r + l) % 2 ^ 32 = 1 + r + l := Nat.mod_eq_of_lt (by omega)
  unfold splitIncompleteRing
  simp only [hsize]
  obtain ⟨p1, p2, p3⟩ := patchMembers_fields
    (linkMembers (updateMembers (collectArms v t r l rs).volume (collectArms v t r l rs).indices
      (collectArms v t r l rs).slots (1 + r + l) ti ts) (collectArms v t r l rs).indices
      (collectArms v t r l rs).slots
      ((List.range (1 + r + l)).map (fun eleIdx =>
        neighborsOf (updateMembers (collectArms v t r l rs).volume
          (collectArms v t r l rs).indices (collectArms v t r l rs).slots (1 + r + l) ti ts)
          ((collectArms v t r l rs).indices.getD eleIdx UINT32_MAX)))
      (1 + r + l) rs (l % 2 == 0))
    (collectArms v t r l rs).indices (collectArms v t r l rs).slots
    ((List.range (1 + r + l)).map (fun eleIdx =>
        neighborsOf (updateMembers (collectArms v t r l rs).volume
          (collectArms v t r l rs).indices (collectArms v t r l rs).slots (1 + r + l) ti ts)
          ((collectArms v t r l rs).indices.getD eleIdx UINT32_MAX)))
    (1 + r + l)
  obtain ⟨l1, l2, l3⟩ := linkMembers_fields
    (updateMembers (collectArms v t r l rs).volume (collectArms v t r l rs).indices
      (collectArms v t r l rs).slots (1 + r + l) ti ts) (collectArms v t r l rs).indices
      (collectArms v t r l rs).slots
      ((List.range (1 + r + l)).map (fun eleIdx =>
        neighborsOf (updateMembers (collectArms v t r l rs).volume
          (collectArms v t r l rs).indices (collectArms v t r l rs).slots (1 + r + l) ti ts)
          ((collectArms v t r l rs).indices.getD eleIdx UINT32_MAX)))
      (1 + r + l) rs (l % 2 == 0)
  obtain ⟨u1, u2, u3⟩ := updateMembers_fields (collectArms v t r l rs).volume
    (collectArms v t r l rs).indices (collectArms v t r l rs).slots (1 + r + l) ti ts
  have e1 : v.totalNumElements + 1 + (l + r) = v.totalNumElements + (1 + l + r) := by omega
  refine ⟨?_, ?_, ?_⟩
  · rw [p1, l1, u1, hinv.total, e1]
  · rw [p2, l2, u2, hinv.heap, e1]
  · rw [p3, l3, u3, hinv.type, e1]

/-! ## The outcome of a split on heapIDs and types -/

theorem findMSB_double (p : Nat) (h1 : 1 ≤ p) (h2 : p < 2 ^ 63) :
    leb__FindMSB (2 * p) = leb__FindMSB p + 1 ∧ leb__FindMSB (2 * p + 1) = leb__FindMSB p + 1 := by
  have hp : p < 2 ^ 64 := by omega
  rw [findMSB_eq_log2 p h1 hp, findMSB_eq_log2 (2 * p) (by omega) (by omega),
    findMSB_eq_log2 (2 * p + 1) (by omega) (by omega),
    log2_half (2 * p) (by omega), log2_half (2 * p + 1) (by omega)]
  have e1 : 2 * p / 2 = p := by omega
  have e2 : (2 * p + 1) / 2 = p := by omega
  rw [e1, e2]
  exact ⟨rfl, rfl⟩

theorem zip_slots (members : List Nat) (c : Nat) :
    (members.zip ((List.range members.length).map (fun k => c + k))).map Prod.fst = members ∧
    (members.zip ((List.range members.length).map (fun k => c + k))).map Prod.snd =
      (List.range members.length).map (fun k => c + k) := by
  constructor
  · exact List.map_fst_zip _ _ (by simp)
  · exact List.map_snd_zip _ _ (by simp)

theorem zip_slots_ok (members : List Nat) (c : Nat) (hnd : members.Nodup)
    (hlt : ∀ i ∈ members, i < c) :
    PairsOK c (c + members.length)
      (members.zip ((List.range members.length).map (fun k => c + k))) := by
  obtain ⟨h1, h2⟩ := zip_slots members c
  have hsnd : ∀ p ∈ members.zip ((List.range members.length).map (fun k => c + k)),
      ∃ k, k < members.length ∧ p.2 = c + k := by
    intro p hp
    have : p.2 ∈ (members.zip ((List.range members.length).map (fun k => c + k))).map
        Prod.snd := List.mem_map.2 ⟨p, hp, rfl⟩
    rw [h2] at this
    obtain ⟨k, hk, hke⟩ := List.mem_map.1 this
    exact ⟨k, List.mem_range.1 hk, hke.symm⟩
  refine ⟨?_, ?_, ?_, ?_, ?_⟩
  · intro p hp
    apply hlt
    have : p.1 ∈ (members.zip ((List.range members.length).map (fun k => c + k))).map
        Prod.fst := List.mem_map.2 ⟨p, hp, rfl⟩
    rwa [h1] at this
  · intro p hp
    obtain ⟨k, _, hke⟩ := hsnd p hp
    omega
  · intro p hp
    obtain ⟨k, hk, hke⟩ := hsnd p hp
    omega
  · rw [h1]; exact hnd
  · rw [h2]
    exact List.Nodup.map (fun a b hab => by simpa using hab) (List.nodup_range _)

/-- From the three vectors after a split to its outcome on heapIDs and types. -/
theorem outcome_of_fields (v v' : LEBVolume) (pairs : List (Nat × Nat)) (n ti ts : Nat)
    (hlen : v.heapIDArray.length = v.totalNumElements)
    (hlen2 : v.typeArray.length = v.totalNumElements)
    (htotal : v'.totalNumElements = v.totalNumElements + n)
    (hheap : v'.heapIDArray = pairs.foldl heapStep (resize v.heapIDArray (v.totalNumElements + n)))
    (htype : v'.typeArray =
      pairs.foldl (typeStep ti ts) (resize v.typeArray (v.totalNumElements + n)))
    (hok : PairsOK v.totalNumElements (v.totalNumElements + n) pairs) :
    HeapOutcome v v' pairs ∧
    (∀ p ∈ pairs, typeOf v' p.1 = ti ∧ typeOf v' p.2 = ts ∧
      heapOf v' p.1 % 2 = 0 ∧ heapOf v' p.2 % 2 = 1) ∧
    (∀ e, e < v.totalNumElements → (∀ p ∈ pairs, e ≠ p.1) → typeOf v' e = typeOf v e) := by
  have hokh : PairsOK v.totalNumElements (resize v.heapIDArray (v.totalNumElements + n)).length
      pairs := by rw [length_resize]; exact hok
  have hokt : PairsOK v.totalNumElements (resize v.typeArray (v.totalNumElements + n)).length
      pairs := by rw [length_resize]; exact hok
  have hpow : (2 : Nat) ^ 64 = 2 * 2 ^ 63 := by norm_num
  have hmember : ∀ p ∈ pairs, heapOf v' p.1 = heapOf v p.1 * 2 % 2 ^ 64 ∧
      heapOf v' p.2 = (heapOf v p.1 * 2 % 2 ^ 64 + 1) % 2 ^ 64 := by
    intro p hp
    have := getD_foldl_heapStep v.totalNumElements pairs _ hokh p hp
    rw [getD_resize _ _ _ _ (by omega) (by rw [hlen]; exact hok.member_lt p hp)] at this
    unfold heapOf
    rw [hheap]
    exact this
  have hother : ∀ e, e < v.totalNumElements → (∀ p ∈ pairs, e ≠ p.1) →
      ∀ p ∈ pairs, e ≠ p.1 ∧ e ≠ p.2 := by
    intro e he hne p hp
    have := hok.slot_ge p hp
    exact ⟨hne p hp, by omega⟩
  refine ⟨⟨?_, ?_⟩, ?_, ?_⟩
  · intro p hp h1 h2
    obtain ⟨m1, m2⟩ := hmember p hp
    have e1 : heapOf v p.1 * 2 % 2 ^ 64 = 2 * heapOf v p.1 := by
      rw [Nat.mod_eq_of_lt (by omega)]; omega
    have e2 : (2 * heapOf v p.1 + 1) % 2 ^ 64 = 2 * heapOf v p.1 + 1 :=
      Nat.mod_eq_of_lt (by omega)
    rw [e1] at m1 m2
    rw [e2] at m2
    obtain ⟨f1, f2⟩ := findMSB_double (heapOf v p.1) h1 h2
    refine ⟨m1, m2, ?_, ?_, hok.slot_ge p hp, ?_⟩
    · rw [m1]; exact f1
    · rw [m2]; exact f2
    · rw [htotal]; exact hok.slot_lt p hp
  · intro e he hne
    unfold heapOf
    rw [hheap, getD_foldl_heapStep_other pairs _ e (hother e he hne),
      getD_resize _ _ _ _ (by omega) (by omega)]
  · intro p hp
    obtain ⟨m1, m2⟩ := hmember p hp
    obtain ⟨t1, t2⟩ := getD_foldl_typeStep ti ts v.totalNumElements pairs _ hokt p hp
    refine ⟨?_, ?_, ?_, ?_⟩
    · unfold typeOf; rw [htype]; exact t1
    · unfold typeOf; rw [htype]; exact t2
    · rw [m1]; omega
    · rw [m2]; omega
  · intro e he hne
    unfold typeOf
    rw [htype, getD_foldl_typeStep_other ti ts pairs _ e (hother e he hne),
      getD_resize _ _ _ _ (by omega) (by omega)]

/-! ## Both kinds of split: count, heapIDs and types -/

theorem typeOutcome_of (v v' : LEBVolume) (pairs : List (Nat × Nat)) (ti ts : Nat)
    (h1 : ∀ p ∈ pairs, typeOf v' p.1 = ti ∧ typeOf v' p.2 = ts ∧
      heapOf v' p.1 % 2 = 0 ∧ heapOf v' p.2 % 2 = 1)
    (h2 : ∀ e, e < v.totalNumElements → (∀ p ∈ pairs, e ≠ p.1) → typeOf v' e = typeOf v e)
    (h3 : ∀ p ∈ pairs, splitType (typeOf v p.1) false = ti ∧ splitType (typeOf v p.1) true = ts) :
    TypeOutcome v v' pairs := by
  refine ⟨fun p hp => ?_, h2⟩
  obtain ⟨a, b, c, d⟩ := h1 p hp
  obtain ⟨e, f⟩ := h3 p hp
  exact ⟨by rw [a, e], by rw [b, f], c, d⟩

/-- The outcome of `diamond_split` on a diamond of distinct elements. -/
theorem diamond_split_outcome (v v' : LEBVolume) (t : Nat) (h : diamond_split v t = .ok v')
    (hlen : v.heapIDArray.length = v.totalNumElements)
    (hlen2 : v.typeArray.length = v.totalNumElements)
    (hw : v.totalNumElements + 8 < 2 ^ 32)
    (hnd : ((completePairs v t).map Prod.fst).Nodup)
    (hlt : ∀ p ∈ completePairs v t, p.1 < v.totalNumElements) :
    HeapOutcome v v' (completePairs v t) ∧ TypeOutcome v v' (completePairs v t) := by
  unfold diamond_split at h
  simp only at h
  by_cases h0 : typeOf v t = 0
  · rw [if_pos h0] at h
    obtain ⟨f1, f2, f3, f4⟩ := diamond_split0_fields v v' t h h0 hw
    have hp : completePairs v t = (ring0 v t).zip
        ((List.range (ring0 v t).length).map (fun k => v.totalNumElements + k)) := by
      unfold completePairs
      simp only [h0, if_true]
    have hok : PairsOK v.totalNumElements (v.totalNumElements + 8) (completePairs v t) := by
      have hm := (zip_slots (ring0 v t) v.totalNumElements).1
      rw [← hp] at hm
      have := zip_slots_ok (ring0 v t) v.totalNumElements (by rw [← hm]; exact hnd)
        (fun i hi => by
          rw [← hm] at hi
          obtain ⟨p, hp1, hp2⟩ := List.mem_map.1 hi
          rw [← hp2]; exact hlt p hp1)
      rw [← hp] at this
      exact this
    obtain ⟨o1, o2, o3⟩ := outcome_of_fields v v' _ 8 1 2 hlen hlen2 f1 f2 f3 hok
    exact ⟨o1, typeOutcome_of v v' _ 1 2 o2 o3 (fun p hp => by rw [f4 p hp]; exact ⟨rfl, rfl⟩)⟩
  · rw [if_neg h0] at h
    by_cases h12 : typeOf v t = 1 ∨ typeOf v t = 2
    · rw [if_pos h12] at h
      obtain ⟨f1, f2, f3, f4⟩ := diamond_split12_fields v v' t h h12 hw
      have hp : completePairs v t = (ring12 v t).zip
          ((List.range (ring12 v t).length).map (fun k => v.totalNumElements + k)) := by
        unfold completePairs
        simp only [h0, h12, if_true, if_false]
      have hok : PairsOK v.totalNumElements (v.totalNumElements + 6) (completePairs v t) := by
        have hm := (zip_slots (ring12 v t) v.totalNumElements).1
        rw [← hp] at hm
        have := zip_slots_ok (ring12 v t) v.totalNumElements (by rw [← hm]; exact hnd)
          (fun i hi => by
            rw [← hm] at hi
            obtain ⟨p, hp1, hp2⟩ := List.mem_map.1 hi
            rw [← hp2]; exact hlt p hp1)
        rw [← hp] at this
        exact this
      obtain ⟨o1, o2, o3⟩ := outcome_of_fields v v' _ 6 3 3 hlen hlen2 f1 f2 f3 hok
      refine ⟨o1, typeOutcome_of v v' _ 3 3 o2 o3 (fun p hp => ?_)⟩
      rcases f4 p hp with e | e <;> rw [e] <;> exact ⟨rfl, rfl⟩
    · rw [if_neg h12] at h
      by_cases h3 : typeOf v t = 3
      · rw [if_pos h3] at h
        obtain ⟨f1, f2, f3, f4⟩ := diamond_split3_fields v v' t h h3 hw
        have hp : completePairs v t = (ring3 v t).zip
            ((List.range (ring3 v t).length).map (fun k => v.totalNumElements + k)) := by
          unfold completePairs
          rw [h3]
          rfl
        have hok : PairsOK v.totalNumElements (v.totalNumElements + 4) (completePairs v t) := by
          have hm := (zip_slots (ring3 v t) v.totalNumElements).1
          rw [← hp] at hm
          have := zip_slots_ok (ring3 v t) v.totalNumElements (by rw [← hm]; exact hnd)
            (fun i hi => by
              rw [← hm] at hi
              obtain ⟨p, hp1, hp2⟩ := List.mem_map.1 hi
              rw [← hp2]; exact hlt p hp1)
          rw [← hp] at this
          exact this
        obtain ⟨o1, o2, o3⟩ := outcome_of_fields v v' _ 4 0 0 hlen hlen2 f1 f2 f3 hok
        exact ⟨o1, typeOutcome_of v v' _ 0 0 o2 o3
          (fun p hp => by rw [f4 p hp]; exact ⟨rfl, rfl⟩)⟩
      · rw [if_neg h3] at h
        simp only [pure, Except.pure, Except.ok.injEq] at h
        subst h
        have hp : completePairs v t = [] := by
          unfold completePairs
          simp only [h0, h12, h3, if_false]
          rfl
        rw [hp]
        unfold HeapOutcome TypeOutcome
        refine ⟨⟨?_, fun e _ _ => rfl⟩, ⟨?_, fun e _ _ => rfl⟩⟩
        · intro p hp; cases hp
        · intro p hp; cases hp

/-- The number of elements that `diamond_split` appends. -/
theorem diamond_split_total (v v' : LEBVolume) (t : Nat) (h : diamond_split v t = .ok v')
    (hw : v.totalNumElements + 8 < 2 ^ 32) :
    (typeOf v t = 0 → v'.totalNumElements = v.totalNumElements + 8) ∧
    (typeOf v t = 1 ∨ typeOf v t = 2 → v'.totalNumElements = v.totalNumElements + 6) ∧
    (typeOf v t = 3 → v'.totalNumElements = v.totalNumElements + 4) ∧
    v.totalNumElements ≤ v'.totalNumElements ∧
    (v.heapIDArray.length = v.totalNumElements → v'.heapIDArray.length = v'.totalNumElements) := by
  unfold diamond_split at h
  simp only at h
  by_cases h0 : typeOf v t = 0
  · rw [if_pos h0] at h
    obtain ⟨f1, f2, -, -⟩ := diamond_split0_fields v v' t h h0 hw
    refine ⟨fun _ => f1, fun h' => by omega, fun h' => by omega, by omega, fun _ => ?_⟩
    rw [f2, length_foldl_heapStep, length_resize, f1]
  · rw [if_neg h0] at h
    by_cases h12 : typeOf v t = 1 ∨ typeOf v t = 2
    · rw [if_pos h12] at h
      obtain ⟨f1, f2, -, -⟩ := diamond_split12_fields v v' t h h12 hw
      refine ⟨fun h' => absurd h' h0, fun _ => f1, fun h' => by omega, by omega, fun _ => ?_⟩
      rw [f2, length_foldl_heapStep, length_resize, f1]
    · rw [if_neg h12] at h
      by_cases h3 : typeOf v t = 3
      · rw [if_pos h3] at h
        obtain ⟨f1, f2, -, -⟩ := diamond_split3_fields v v' t h h3 hw
        refine ⟨fun h' => absurd h' h0, fun h' => absurd h' h12, fun _ => f1, by omega,
          fun _ => ?_⟩
        rw [f2, length_foldl_heapStep, length_resize, f1]
      · rw [if_neg h3] at h
        simp only [pure, Except.pure, Except.ok.injEq] at h
        subst h
        exact ⟨fun h' => absurd h' h0, fun h' => absurd h' h12, fun h' => absurd h' h3,
          le_refl _, fun h' => h'⟩

/-- What `diamond_split_incomplete` leaves in the count and in the vectors of heapIDs and types,
for a target of type 0 or 3. -/
theorem diamond_split_incomplete_fields (v v' : LEBVolume) (t r l : Nat)
    (h : diamond_split_incomplete v t r l = .ok v')
    (h03 : typeOf v t = 0 ∨ typeOf v t = 3)
    (hlen : v.heapIDArray.length = v.totalNumElements)
    (hlen2 : v.typeArray.length = v.totalNumElements)
    (hw : v.totalNumElements + 1 + l + r < 2 ^ 32) :
    v'.totalNumElements = v.totalNumElements + (1 + l + r) ∧
    v'.heapIDArray = (incompletePairs v t r l).foldl heapStep
      (resize v.heapIDArray (v.totalNumElements + (1 + l + r))) ∧
    v'.typeArray = (incompletePairs v t r l).foldl
      (typeStep (splitType (typeOf v t) false) (splitType (typeOf v t) true))
      (resize v.typeArray (v.totalNumElements + (1 + l + r))) := by
  unfold diamond_split_incomplete at h
  simp only at h
  rcases h03 with h0 | h3
  · rw [if_pos h0] at h
    simp only [pure, Except.pure, Except.ok.injEq] at h
    subst h
    obtain ⟨f1, f2, f3⟩ := splitIncompleteRing_fields v t r l 8 1 2 hlen hlen2 hw
    unfold incompletePairs
    rw [h0]
    exact ⟨f1, f2, f3⟩
  · rw [if_neg (by omega), if_neg (by omega), if_pos h3] at h
    simp only [pure, Except.pure, Except.ok.injEq] at h
    subst h
    obtain ⟨f1, f2, f3⟩ := splitIncompleteRing_fields v t r l 4 0 0 hlen hlen2 hw
    unfold incompletePairs
    rw [h3]
    exact ⟨f1, f2, f3⟩

/-- The pairs of an incomplete diamond that fits the buffers are well formed as soon as its
members are distinct elements of the mesh. -/
theorem incompletePairs_ok (v : LEBVolume) (t r l : Nat)
    (hlen : v.heapIDArray.length = v.totalNumElements)
    (hlen2 : v.typeArray.length = v.totalNumElements)
    (hw : v.totalNumElements + 1 + l + r < 2 ^ 32)
    (hfit : 1 + r + l ≤ ringSizeOf (typeOf v t))
    (hnd : ((incompletePairs v t r l).map Prod.fst).Nodup)
    (hlt : ∀ p ∈ incompletePairs v t r l, p.1 < v.totalNumElements) :
    PairsOK v.totalNumElements (v.totalNumElements + (1 + l + r)) (incompletePairs v t r l) := by
  have hslots := collectArms_slots v t r l (ringSizeOf (typeOf v t)) hlen hlen2 hfit hw
  have hsnd : ∀ p ∈ incompletePairs v t r l, ∃ k, k < 1 + r + l ∧
      p.2 = if k ≤ l then v.totalNumElements + (l - k) else v.totalNumElements + k := by
    intro p hp
    unfold incompletePairs at hp
    obtain ⟨k, hk, hke⟩ := List.mem_map.1 hp
    refine ⟨k, List.mem_range.1 hk, ?_⟩
    rw [← hke]
    exact hslots k (List.mem_range.1 hk)
  refine ⟨hlt, ?_, ?_, hnd, ?_⟩
  · intro p hp
    obtain ⟨k, hk, hke⟩ := hsnd p hp
    rw [hke]; split <;> omega
  · intro p hp
    obtain ⟨k, hk, hke⟩ := hsnd p hp
    rw [hke]; split <;> omega
  · unfold incompletePairs
    rw [List.map_map]
    apply List.Nodup.map_on _ (List.nodup_range _)
    intro a ha b hb hab
    simp only [Function.comp] at hab
    rw [hslots a (List.mem_range.1 ha), hslots b (List.mem_range.1 hb)] at hab
    have ha' := List.mem_range.1 ha
    have hb' := List.mem_range.1 hb
    split at hab <;> split at hab <;> omega

/-- The outcome of `diamond_split_incomplete` on a diamond of distinct elements that have the
type of the target. -/
theorem diamond_split_incomplete_outcome (v v' : LEBVolume) (t r l : Nat)
    (h : diamond_split_incomplete v t r l = .ok v')
    (h03 : typeOf v t = 0 ∨ typeOf v t = 3)
    (hlen : v.heapIDArray.length = v.totalNumElements)
    (hlen2 : v.typeArray.length = v.totalNumElements)
    (hw : v.totalNumElements + 1 + l + r < 2 ^ 32)
    (hfit : 1 + r + l ≤ ringSizeOf (typeOf v t))
    (hnd : ((incompletePairs v t r l).map Prod.fst).Nodup)
    (hlt : ∀ p ∈ incompletePairs v t r l, p.1 < v.totalNumElements)
    (hty : ∀ p ∈ incompletePairs v t r l, typeOf v p.1 = typeOf v t) :
    HeapOutcome v v' (incompletePairs v t r l) ∧ TypeOutcome v v' (incompletePairs v t r l) := by
  obtain ⟨f1, f2, f3⟩ := diamond_split_incomplete_fields v v' t r l h h03 hlen hlen2 hw
  have hok := incompletePairs_ok v t r l hlen hlen2 hw hfit hnd hlt
  obtain ⟨o1, o2, o3⟩ := outcome_of_fields v v' _ (1 + l + r) _ _ hlen hlen2 f1 f2 f3 hok
  exact ⟨o1, typeOutcome_of v v' _ _ _ o2 o3 (fun p hp => by rw [hty p hp]; exact ⟨rfl, rfl⟩)⟩

/-! ## The types of a reachable mesh -/

theorem mem_resize_nat (l : List Nat) (n x : Nat) (hx : x ∈ resize l n) : x ∈ l ∨ x = 0 := by
  unfold resize at hx
  rcases List.mem_append.1 hx with h | h
  · exact Or.inl (List.mem_of_mem_take h)
  · exact Or.inr (List.eq_of_mem_replicate h)

theorem bounded_resize (l : List Nat) (n : Nat) (h : ∀ x ∈ l, x ≤ 3) :
    ∀ x ∈ resize l n, x ≤ 3 := by
  intro x hx
  rcases mem_resize_nat l n x hx with h1 | h1
  · exact h x h1
  · omega

theorem bounded_set (l : List Nat) (i a : Nat) (ha : a ≤ 3) (h : ∀ x ∈ l, x ≤ 3) :
    ∀ x ∈ l.set i a, x ≤ 3 := by
  intro x hx
  rcases List.mem_or_eq_of_mem_set hx with h1 | h1
  · exact h x h1
  · omega

theorem bounded_typeStep (ti ts : Nat) (ty : List Nat) (p : Nat × Nat) (h1 : ti ≤ 3)
    (h2 : ts ≤ 3) (h : ∀ x ∈ ty, x ≤ 3) : ∀ x ∈ typeStep ti ts ty p, x ≤ 3 := by
  unfold typeStep
  exact bounded_set _ _ _ h2 (bounded_set _ _ _ h1 h)

theorem bounded_foldl_typeStep (ti ts : Nat) (pairs : List (Nat × Nat)) (ty : List Nat)
    (h1 : ti ≤ 3) (h2 : ts ≤ 3) (h : ∀ x ∈ ty, x ≤ 3) :
    ∀ x ∈ pairs.foldl (typeStep ti ts) ty, x ≤ 3 := by
  induction pairs generalizing ty with
  | nil => exact h
  | cons p ps ih => exact ih _ (bounded_typeStep ti ts ty p h1 h2 h)

theorem typesOK_diamond_split0 (v v' : LEBVolume) (t : Nat) (h : diamond_split0 v t = .ok v')
    (hv : TypesOK v) : TypesOK v' := by
  unfold diamond_split0 at h
  simp only [bind_assoc, assert_bind_ok, pure_bind] at h
  obtain ⟨-, -, -, -, -, -, -, -, -, h⟩ := h
  simp only [pure, Except.pure, Except.ok.injEq] at h
  subst h
  unfold TypesOK
  simp only [patchOutward_typeArray, setNeighbors_typeArray, setTypes_typeArray,
    splitHeapID_typeArray, copyModif_typeArray, flagModified_typeArray, allocate_typeArray]
  iterate 8 (apply bounded_typeStep _ _ _ _ (by omega) (by omega))
  exact bounded_resize _ _ hv

theorem typesOK_diamond_split3 (v v' : LEBVolume) (t : Nat) (h : diamond_split3 v t = .ok v')
    (hv : TypesOK v) : TypesOK v' := by
  unfold diamond_split3 at h
  simp only [bind_assoc, assert_bind_ok, pure_bind] at h
  obtain ⟨-, -, -, -, h⟩ := h
  simp only [pure, Except.pure, Except.ok.injEq] at h
  subst h
  unfold TypesOK
  simp only [patchOutward_typeArray, setNeighbors_typeArray, setTypes_typeArray,
    splitHeapID_typeArray, copyModif_typeArray, flagModified_typeArray, allocate_typeArray]
  iterate 4 (apply bounded_typeStep _ _ _ _ (by omega) (by omega))
  exact bounded_resize _ _ hv

theorem typesOK_diamond_split12 (v v' : LEBVolume) (t : Nat) (h : diamond_split12 v t = .ok v')
    (hv : TypesOK v) : TypesOK v' := by
  unfold diamond_split12 at h
  simp only [bind_assoc, assert_bind_ok, pure_bind] at h
  obtain ⟨-, -, -, -, -, -, -, h⟩ := h
  simp only [pure, Except.pure, Except.ok.injEq] at h
  subst h
  unfold TypesOK
  simp only [patchOutward_typeArray, linkEven_typeArray, linkOdd_typeArray, setTypes_typeArray,
    splitHeapID_typeArray, copyModif_typeArray, flagModified_typeArray, allocate_typeArray]
  iterate 6 (apply bounded_typeStep _ _ _ _ (by omega) (by omega))
  exact bounded_resize _ _ hv

theorem typesOK_diamond_split (v v' : LEBVolume) (t : Nat) (h : diamond_split v t = .ok v')
    (hv : TypesOK v) : TypesOK v' := by
  unfold diamond_split at h
  simp only at h
  split at h
  · exact typesOK_diamond_split0 v v' t h hv
  · split at h
    · exact typesOK_diamond_split12 v v' t h hv
    · split at h
      · exact typesOK_diamond_split3 v v' t h hv
      · simp only [pure, Except.pure, Except.ok.injEq] at h
        subst h; exact hv

theorem typesOK_collectLeft (left n : Nat) (st : Arms) (h : TypesOK st.volume) :
    TypesOK (collectLeft left n st).volume := by
  induction n with
  | zero => exact h
  | succ n ih =>
    unfold collectLeft
    rw [foldl_range_succ]
    exact bounded_resize _ _ ih

theorem typesOK_collectRight (left n : Nat) (st : Arms) (h : TypesOK st.volume) :
    TypesOK (collectRight left n st).volume := by
  induction n with
  | zero => exact h
  | succ n ih =>
    unfold collectRight
    rw [foldl_range_succ]
    exact bounded_resize _ _ ih

theorem typesOK_collectArms (v : LEBVolume) (t r l rs : Nat) (h : TypesOK v) :
    TypesOK (collectArms v t r l rs).volume := by
  unfold collectArms
  apply typesOK_collectRight
  apply typesOK_collectLeft
  exact bounded_resize _ _ h

theorem typesOK_splitIncompleteRing (v : LEBVolume) (t r l rs ti ts : Nat) (h : TypesOK v)
    (h1 : ti ≤ 3) (h2 : ts ≤ 3) : TypesOK (splitIncompleteRing v t r l rs ti ts).1 := by
  unfold splitIncompleteRing TypesOK
  simp only
  rw [(patchMembers_fields _ _ _ _ _).2.2, (linkMembers_fields _ _ _ _ _ _ _).2.2,
    (updateMembers_fields _ _ _ _ _ _).2.2]
  exact bounded_foldl_typeStep ti ts _ _ h1 h2 (typesOK_collectArms v t r l rs h)

theorem typesOK_diamond_split_incomplete (v v' : LEBVolume) (t r l : Nat)
    (h : diamond_split_incomplete v t r l = .ok v') (hv : TypesOK v) : TypesOK v' := by
  unfold diamond_split_incomplete at h
  simp only at h
  split at h
  · simp only [pure, Except.pure, Except.ok.injEq] at h
    subst h
    exact typesOK_splitIncompleteRing v t r l 8 1 2 hv (by omega) (by omega)
  · split at h
    · cases h
    · split at h
      · simp only [pure, Except.pure, Except.ok.injEq] at h
        subst h
        exact typesOK_splitIncompleteRing v t r l 4 0 0 hv (by omega) (by omega)
      · simp only [pure, Except.pure, Except.ok.injEq] at h
        subst h; exact hv

/-! ## Invariants through the conformity walk and the recursion -/

theorem walkBody_volume (split : LEBVolume → Nat → Except Fail LEBVolume) (ct : Nat)
    (st st' : Walk) (h : walkBody split ct st = .ok st') :
    st'.volume = st.volume ∨ split st.volume st.currentElement = .ok st'.volume := by
  unfold walkBody at h
  simp only at h
  by_cases hc : (!equivalent_types (typeOf st.volume st.currentElement) ct) = true
  · rw [if_pos hc] at h
    cases hsp : split st.volume st.currentElement with
    | error e => simp [hsp, bind, Except.bind] at h
    | ok v1 =>
      right
      simp only [hsp, bind, Except.bind, assert, pure, Except.pure] at h
      by_cases ha : ((if st.firstTwin = true then (neighborsOf v1 st.prevElement).z
          else (neighborsOf v1 st.prevElement).w) != UINT32_MAX) = true
      · rw [if_pos ha] at h
        simp only at h
        split at h
        · split at h
          · simp only [Except.ok.injEq] at h; subst h; rfl
          · simp only [Except.ok.injEq] at h; subst h; rfl
        · split at h
          · simp only [Except.ok.injEq] at h; subst h; rfl
          · simp only [Except.ok.injEq] at h; subst h; rfl
      · rw [if_neg ha] at h
        simp [throw, throwThe, MonadExceptOf.throw] at h
  · rw [if_neg hc] at h
    left
    simp only [bind, Except.bind, pure, Except.pure] at h
    split at h
    · simp only [Except.ok.injEq] at h; subst h; rfl
    · simp only [Except.ok.injEq] at h; subst h; rfl

theorem walkBody_preserves (P : LEBVolume → Prop)
    (split : LEBVolume → Nat → Except Fail LEBVolume)
    (hs : ∀ v v' e, split v e = .ok v' → P v → P v') (ct : Nat) (st st' : Walk)
    (h : walkBody split ct st = .ok st') (hp : P st.volume) : P st'.volume := by
  rcases walkBody_volume split ct st st' h with h1 | h1
  · rw [h1]; exact hp
  · exact hs _ _ _ h1 hp

theorem walkRight_preserves (P : LEBVolume → Prop)
    (split : LEBVolume → Nat → Except Fail LEBVolume)
    (hs : ∀ v v' e, split v e = .ok v' → P v → P v') (t ct : Nat) :
    ∀ fuel st st', walkRight split t ct fuel st = .ok st' → P st.volume → P st'.volume := by
  intro fuel
  induction fuel with
  | zero => intro st st' h; simp [walkRight, throw, throwThe, MonadExceptOf.throw] at h
  | succ fuel ih =>
    intro st st' h hp
    unfold walkRight at h
    split at h
    · cases hb : walkBody split ct st with
      | error e => simp [hb, bind, Except.bind] at h
      | ok st1 =>
        simp only [hb, bind, Except.bind] at h
        exact ih st1 st' h (walkBody_preserves P split hs ct st st1 hb hp)
    · simp only [pure, Except.pure, Except.ok.injEq] at h; subst h; exact hp

theorem walkLeft_preserves (P : LEBVolume → Prop)
    (split : LEBVolume → Nat → Except Fail LEBVolume)
    (hs : ∀ v v' e, split v e = .ok v' → P v → P v') (ct : Nat) :
    ∀ fuel st st', walkLeft split ct fuel st = .ok st' → P st.volume → P st'.volume := by
  intro fuel
  induction fuel with
  | zero => intro st st' h; simp [walkLeft, throw, throwThe, MonadExceptOf.throw] at h
  | succ fuel ih =>
    intro st st' h hp
    unfold walkLeft at h
    split at h
    · cases hb : walkBody split ct st with
      | error e => simp [hb, bind, Except.bind] at h
      | ok st1 =>
        simp only [hb, bind, Except.bind] at h
        exact ih st1 st' h (walkBody_preserves P split hs ct st st1 hb hp)
    · simp only [pure, Except.pure, Except.ok.injEq] at h; subst h; exact hp

theorem check_diamond_preserves (P : LEBVolume → Prop)
    (split : LEBVolume → Nat → Except Fail LEBVolume)
    (hs : ∀ v v' e, split v e = .ok v' → P v → P v') (fuel : Nat) (v : LEBVolume) (t : Nat)
    (res : LEBVolume × Bool × Nat × Nat)
    (h : check_diamond split fuel v t = .ok res) (hp : P v) : P res.1 := by
  unfold check_diamond at h
  simp only at h
  cases hr : walkRight split t (typeOf v t) fuel
      { volume := v, prevElement := t, currentElement := (neighborsOf v t).z,
        firstTwin := true, count := 0 } with
  | error e => simp [hr, bind, Except.bind] at h
  | ok right =>
    have hpr := walkRight_preserves P split hs t (typeOf v t) fuel _ right hr hp
    simp only [hr, bind, Except.bind] at h
    split at h
    · cases hl : walkLeft split (typeOf v t) fuel
          { volume := right.volume, prevElement := t,
            currentElement := (neighborsOf right.volume t).w, firstTwin := false,
            count := 0 } with
      | error e => simp [hl] at h
      | ok left =>
        have hpl := walkLeft_preserves P split hs (typeOf v t) fuel _ left hl hpr
        simp only [hl, pure, Except.pure, Except.ok.injEq] at h
        subst h; exact hpl
    · simp only [pure, Except.pure, Except.ok.injEq] at h
      subst h; exact hpr

/-- A property of the mesh that both kinds of diamond split keep is kept by
`recursive_split_element`. -/
theorem recursive_split_preserves (P : LEBVolume → Prop)
    (hcomp : ∀ v v' t, diamond_split v t = .ok v' → P v → P v')
    (hinc : ∀ v v' t r l, diamond_split_incomplete v t r l = .ok v' → P v → P v') :
    ∀ fuel v v' t, recursive_split_element fuel v t = .ok v' → P v → P v' := by
  intro fuel
  induction fuel with
  | zero =>
    intro v v' t h
    simp [recursive_split_element, throw, throwThe, MonadExceptOf.throw] at h
  | succ fuel ih =>
    intro v v' t h hp
    unfold recursive_split_element at h
    cases hc : check_diamond (recursive_split_element fuel) fuel v t with
    | error e => simp [hc, bind, Except.bind] at h
    | ok res =>
      have hp1 := check_diamond_preserves P _ (fun a b e => ih a b e) fuel v t res hc hp
      obtain ⟨v1, complete, r, l⟩ := res
      simp only [hc, bind, Except.bind] at h
      split at h
      · exact hcomp _ _ _ h hp1
      · exact hinc _ _ _ _ _ h hp1

theorem splitAll_preserves (P : LEBVolume → Prop)
    (hcomp : ∀ v v' t, diamond_split v t = .ok v' → P v → P v')
    (hinc : ∀ v v' t r l, diamond_split_incomplete v t r l = .ok v' → P v → P v')
    (fuel : Nat) : ∀ targets v v', splitAll fuel v targets = .ok v' → P v → P v' := by
  intro targets
  induction targets with
  | nil =>
    intro v v' h hp
    simp only [splitAll, pure, Except.pure, Except.ok.injEq] at h
    subst h; exact hp
  | cons t ts ih =>
    intro v v' h hp
    unfold splitAll at h
    cases hr : recursive_split_element fuel v t with
    | error e => simp [hr, bind, Except.bind] at h
    | ok v1 =>
      simp only [hr, bind, Except.bind] at h
      exact ih v1 v' h (recursive_split_preserves P hcomp hinc fuel v v1 t hr hp)

theorem typesOK_root : TypesOK rootVolume := by
  rw [rootVolume_eq]
  unfold TypesOK
  decide

/-- Every stored type of a mesh reached from the root mesh by splits is 0, 1, 2 or 3. -/
theorem typesOK_reachable (fuel : Nat) (targets : List Nat) (v : LEBVolume)
    (h : splitAll fuel rootVolume targets = .ok v) : TypesOK v :=
  splitAll_preserves TypesOK typesOK_diamond_split typesOK_diamond_split_incomplete fuel
    targets rootVolume v h typesOK_root

/-! ## The number of elements after an incomplete split -/

theorem collectLeft_total (left : Nat) (st : Arms) :
    ∀ n, st.volume.totalNumElements + n < 2 ^ 32 →
      (collectLeft left n st).volume.totalNumElements = st.volume.totalNumElements + n := by
  intro n
  induction n with
  | zero => intro _; rfl
  | succ n ih =>
    intro hw
    have h1 := ih (by omega)
    unfold collectLeft at h1 ⊢
    rw [foldl_range_succ]
    show (((List.range n).foldl (collectLeftStep left) st).volume.totalNumElements + 1) % 2 ^ 32
      = st.volume.totalNumElements + (n + 1)
    rw [h1]
    exact Nat.mod_eq_of_lt (by omega)

theorem collectRight_total (left : Nat) (st : Arms) :
    ∀ n, st.volume.totalNumElements + n < 2 ^ 32 →
      (collectRight left n st).volume.totalNumElements = st.volume.totalNumElements + n := by
  intro n
  induction n with
  | zero => intro _; rfl
  | succ n ih =>
    intro hw
    have h1 := ih (by omega)
    unfold collectRight at h1 ⊢
    rw [foldl_range_succ]
    show (((List.range n).foldl (collectRightStep left) st).volume.totalNumElements + 1) % 2 ^ 32
      = st.volume.totalNumElements + (n + 1)
    rw [h1]
    exact Nat.mod_eq_of_lt (by omega)

theorem collectArms_total (v : LEBVolume) (t r l ringSize : Nat)
    (hw : v.totalNumElements + 1 + l + r < 2 ^ 32) :
    (collectArms v t r l ringSize).volume.totalNumElements = v.totalNumElements + 1 + l + r := by
  unfold collectArms
  simp only
  have hm : (v.totalNumElements + 1) % 2 ^ 32 = v.totalNumElements + 1 :=
    Nat.mod_eq_of_lt (by omega)
  rw [collectRight_total, collectLeft_total]
  · show (v.totalNumElements + 1) % 2 ^ 32 + l + r = v.totalNumElements + 1 + l + r
    rw [hm]
  · show (v.totalNumElements + 1) % 2 ^ 32 + l < 2 ^ 32
    rw [hm]; omega
  · show (collectLeft l l _).volume.totalNumElements + r < 2 ^ 32
    rw [collectLeft_total]
    · show (v.totalNumElements + 1) % 2 ^ 32 + l + r < 2 ^ 32
      rw [hm]; exact hw
    · show (v.totalNumElements + 1) % 2 ^ 32 + l < 2 ^ 32
      rw [hm]; omega

theorem splitIncompleteRing_total (v : LEBVolume) (t r l rs ti ts : Nat)
    (hw : v.totalNumElements + 1 + l + r < 2 ^ 32) :
    (splitIncompleteRing v t r l rs ti ts).1.totalNumElements =
      v.totalNumElements + (1 + l + r) := by
  unfold splitIncompleteRing
  simp only
  rw [(patchMembers_fields _ _ _ _ _).1, (linkMembers_fields _ _ _ _ _ _ _).1,
    (updateMembers_fields _ _ _ _ _ _).1, collectArms_total v t r l rs hw]
  omega

theorem diamond_split_incomplete_total (v v' : LEBVolume) (t r l : Nat)
    (h : diamond_split_incomplete v t r l = .ok v')
    (h03 : typeOf v t = 0 ∨ typeOf v t = 3)
    (hw : v.totalNumElements + 1 + l + r < 2 ^ 32) :
    v'.totalNumElements = v.totalNumElements + (1 + l + r) := by
  unfold diamond_split_incomplete at h
  simp only at h
  rcases h03 with h0 | h3
  · rw [if_pos h0] at h
    simp only [pure, Except.pure, Except.ok.injEq] at h
    rw [← h]
    exact splitIncompleteRing_total v t r l 8 1 2 hw
  · rw [if_neg (by omega), if_neg (by omega), if_pos h3] at h
    simp only [pure, Except.pure, Except.ok.injEq] at h
    rw [← h]
    exact splitIncompleteRing_total v t r l 4 0 0 hw

/-! ## The split steps: counts, heap arithmetic and types -/

/-- C6.  A diamond split appends a number of elements fixed by the diamond.  `diamond_split`
returns a mesh of exactly 8 more elements when the target has type 0, 6 more when it has
type 1 or 2, and 4 more when it has type 3; `diamond_split_incomplete` on a target of type 0
or 3 returns a mesh of exactly `1 + leftElements + rightElements` more elements.  Neither
decreases `totalNumElements`, and the vector of heapIDs still holds one entry per element.
The count is a `uint32_t`: the statement is for meshes whose new count does not wrap. -/
theorem C6_split_counts :
    (∀ (v v' : LEBVolume) (t : Nat), diamond_split v t = .ok v' →
      v.totalNumElements + 8 < 2 ^ 32 →
      (typeOf v t = 0 → v'.totalNumElements = v.totalNumElements + 8) ∧
      (typeOf v t = 1 ∨ typeOf v t = 2 → v'.totalNumElements = v.totalNumElements + 6) ∧
      (typeOf v t = 3 → v'.totalNumElements = v.totalNumElements + 4) ∧
      v.totalNumElements ≤ v'.totalNumElements ∧
      (v.heapIDArray.length = v.totalNumElements →
        v'.heapIDArray.length = v'.totalNumElements)) ∧
    (∀ (v v' : LEBVolume) (t rightElements leftElements : Nat),
      diamond_split_incomplete v t rightElements leftElements = .ok v' →
      typeOf v t = 0 ∨ typeOf v t = 3 →
      v.totalNumElements + 1 + leftElements + rightElements < 2 ^ 32 →
      v'.totalNumElements = v.totalNumElements + (1 + leftElements + rightElements) ∧
      v.totalNumElements ≤ v'.totalNumElements ∧
      (v.heapIDArray.length = v.totalNumElements → v.typeArray.length = v.totalNumElements →
        v'.heapIDArray.length = v'.totalNumElements)) := by
  refine ⟨fun v v' t h hw => diamond_split_total v v' t h hw, ?_⟩
  intro v v' t r l h h03 hw
  have ht := diamond_split_incomplete_total v v' t r l h h03 hw
  refine ⟨ht, by omega, fun hlen hlen2 => ?_⟩
  obtain ⟨-, f2, -⟩ := diamond_split_incomplete_fields v v' t r l h h03 hlen hlen2 hw
  rw [f2, length_foldl_heapStep, length_resize, ht]

set_option maxRecDepth 1000000 in
/-- Witness of C6: the complete diamond of type 1 around the element 0 of `completeSample`
grows the mesh from 30 to 36 elements, and the incomplete diamond of type 0 around the root
element 0 grows the root mesh from 24 to 26 elements. -/
theorem C6_split_counts_witness :
    completeSampleSplit.totalNumElements = completeSample.totalNumElements + 6 ∧
    incompleteSampleSplit.totalNumElements = rootVolumeExplicit.totalNumElements + (1 + 1 + 0) :=
  ⟨(C6_split_counts.1 completeSample completeSampleSplit 0 (by decide!) (by decide!)).2.1
      (by decide!),
   (C6_split_counts.2 rootVolumeExplicit incompleteSampleSplit 0 0 1 (by decide!) (by decide!)
      (by decide!)).1⟩

/-- C7.  The heap arithmetic of a split step.  For `diamond_split` (any type) and for
`diamond_split_incomplete` (types 0 and 3; the other types abort), on a mesh whose vectors hold
one entry per element and whose diamond consists of distinct elements: every member with
pre-split heapID `p`, `1 <= p < 2 ^ 63`, ends with heapID `2 p`, its twin is a newly allocated
element with heapID `2 p + 1`, `leb__FindMSB` of each is `leb__FindMSB p + 1`, and the heapIDs
of the elements outside the diamond are unchanged (see `HeapOutcome`). -/
theorem C7_heap_arithmetic :
    (∀ (v v' : LEBVolume) (t : Nat), diamond_split v t = .ok v' →
      v.heapIDArray.length = v.totalNumElements →
      v.typeArray.length = v.totalNumElements →
      v.totalNumElements + 8 < 2 ^ 32 →
      ((completePairs v t).map Prod.fst).Nodup →
      (∀ p ∈ completePairs v t, p.1 < v.totalNumElements) →
      HeapOutcome v v' (completePairs v t)) ∧
    (∀ (v v' : LEBVolume) (t rightElements leftElements : Nat),
      diamond_split_incomplete v t rightElements leftElements = .ok v' →
      typeOf v t = 0 ∨ typeOf v t = 3 →
      v.heapIDArray.length = v.totalNumElements →
      v.typeArray.length = v.totalNumElements →
      v.totalNumElements + 1 + leftElements + rightElements < 2 ^ 32 →
      1 + rightElements + leftElements ≤ ringSizeOf (typeOf v t) →
      ((incompletePairs v t rightElements leftElements).map Prod.fst).Nodup →
      (∀ p ∈ incompletePairs v t rightElements leftElements, p.1 < v.totalNumElements) →
      HeapOutcome v v' (incompletePairs v t rightElements leftElements)) := by
  refine ⟨fun v v' t h hlen hlen2 hw hnd hlt =>
    (diamond_split_outcome v v' t h hlen hlen2 hw hnd hlt).1, ?_⟩
  intro v v' t r l h h03 hlen hlen2 hw hfit hnd hlt
  obtain ⟨f1, f2, f3⟩ := diamond_split_incomplete_fields v v' t r l h h03 hlen hlen2 hw
  have hok := incompletePairs_ok v t r l hlen hlen2 hw hfit hnd hlt
  exact (outcome_of_fields v v' _ (1 + l + r) _ _ hlen hlen2 f1 f2 f3 hok).1

set_option maxRecDepth 1000000 in
/-- Witness of C7 at the complete diamond around the element 0 of `completeSample` and at the
incomplete diamond around the root element 0. -/
theorem C7_heap_arithmetic_witness :
    HeapOutcome completeSample completeSampleSplit (completePairs completeSample 0) ∧
    HeapOutcome rootVolumeExplicit incompleteSampleSplit
      (incompletePairs rootVolumeExplicit 0 0 1) :=
  ⟨C7_heap_arithmetic.1 completeSample completeSampleSplit 0 (by decide!) (by decide!)
      (by decide!) (by decide!) (by decide!) (by decide!),
   C7_heap_arithmetic.2 rootVolumeExplicit incompleteSampleSplit 0 0 1 (by decide!)
      (by decide!) (by decide!) (by decide!) (by decide!) (by decide!) (by decide!)
      (by decide!)⟩

/-- C8.  Types evolve only along the fixed table `0 -> 1 | 2`, `1 -> 3`, `2 -> 3`, `3 -> 0`
(the table is `splitType`, spelled out in the first part).  For `diamond_split` and for
`diamond_split_incomplete` (types 0 and 3, all members of the type of the target), on a mesh
whose vectors hold one entry per element and whose diamond consists of distinct elements:
every member gets the type that the table gives for its pre-split type, with the member on
the even heapID and its twin on the odd one, and the types of the elements outside the
diamond are unchanged (see `TypeOutcome`).  Hence every entry of `typeArray` of a mesh reached
from the root mesh by completed calls of `recursive_split_element` is 0, 1, 2 or 3. -/
theorem C8_type_transitions :
    (splitType 0 false = 1 ∧ splitType 0 true = 2 ∧
      ∀ twin, splitType 1 twin = 3 ∧ splitType 2 twin = 3 ∧ splitType 3 twin = 0) ∧
    (∀ (v v' : LEBVolume) (t : Nat), diamond_split v t = .ok v' →
      v.heapIDArray.length = v.totalNumElements →
      v.typeArray.length = v.totalNumElements →
      v.totalNumElements + 8 < 2 ^ 32 →
      ((completePairs v t).map Prod.fst).Nodup →
      (∀ p ∈ completePairs v t, p.1 < v.totalNumElements) →
      TypeOutcome v v' (completePairs v t)) ∧
    (∀ (v v' : LEBVolume) (t rightElements leftElements : Nat),
      diamond_split_incomplete v t rightElements leftElements = .ok v' →
      typeOf v t = 0 ∨ typeOf v t = 3 →
      v.heapIDArray.length = v.totalNumElements →
      v.typeArray.length = v.totalNumElements →
      v.totalNumElements + 1 + leftElements + rightElements < 2 ^ 32 →
      1 + rightElements + leftElements ≤ ringSizeOf (typeOf v t) →
      ((incompletePairs v t rightElements leftElements).map Prod.fst).Nodup →
      (∀ p ∈ incompletePairs v t rightElements leftElements, p.1 < v.totalNumElements) →
      (∀ p ∈ incompletePairs v t rightElements leftElements, typeOf v p.1 = typeOf v t) →
      TypeOutcome v v' (incompletePairs v t rightElements leftElements)) ∧
    (∀ (fuel : Nat) (targets : List Nat) (v : LEBVolume),
      splitAll fuel rootVolume targets = .ok v →
      (∀ x ∈ v.typeArray, x = 0 ∨ x = 1 ∨ x = 2 ∨ x = 3) ∧
      ∀ e, typeOf v e = 0 ∨ typeOf v e = 1 ∨ typeOf v e = 2 ∨ typeOf v e = 3) := by
  refine ⟨⟨rfl, rfl, fun twin => ⟨rfl, rfl, rfl⟩⟩,
    fun v v' t h hlen hlen2 hw hnd hlt =>
      (diamond_split_outcome v v' t h hlen hlen2 hw hnd hlt).2,
    fun v v' t r l h h03 hlen hlen2 hw hfit hnd hlt hty =>
      (diamond_split_incomplete_outcome v v' t r l h h03 hlen hlen2 hw hfit hnd hlt hty).2, ?_⟩
  intro fuel targets v h
  have hok : TypesOK v := typesOK_reachable fuel targets v h
  have hall : ∀ x ∈ v.typeArray, x = 0 ∨ x = 1 ∨ x = 2 ∨ x = 3 := by
    intro x hx
    have := hok x hx
    omega
  refine ⟨hall, fun e => ?_⟩
  unfold typeOf
  by_cases he : e < v.typeArray.length
  · exact hall _ (by
      rw [List.getD_eq_getElem _ _ he]
      exact List.getElem_mem he)
  · rw [List.getD_eq_default _ _ (by omega)]
    exact Or.inl rfl

set_option maxRecDepth 1000000 in
/-- Witness of C8 at the complete diamond around the element 0 of `completeSample`, at the
incomplete diamond around the root element 0, and at the mesh reached from the root mesh by
the splits of the elements 0, 7 and 21. -/
theorem C8_type_transitions_witness :
    TypeOutcome completeSample completeSampleSplit (completePairs completeSample 0) ∧
    TypeOutcome rootVolumeExplicit incompleteSampleSplit
      (incompletePairs rootVolumeExplicit 0 0 1) ∧
    ∀ x ∈ completeSample.typeArray, x = 0 ∨ x = 1 ∨ x = 2 ∨ x = 3 :=
  ⟨C8_type_transitions.2.1 completeSample completeSampleSplit 0 (by decide!) (by decide!)
      (by decide!) (by decide!) (by decide!) (by decide!),
   C8_type_transitions.2.2.1 rootVolumeExplicit incompleteSampleSplit 0 0 1 (by decide!)
      (by decide!) (by decide!) (by decide!) (by decide!) (by decide!) (by decide!)
      (by decide!) (by decide!),
   (C8_type_transitions.2.2.2 64 [0, 7, 21] completeSample
      (by rw [rootVolume_eq]; decide!)).1⟩

/-! ## The levels of the cache -/

theorem half_cube_le (cur : Nat) : 2 * (cur / 2) ^ 3 ≤ cur ^ 3 := by
  have h1 : 2 * (cur / 2) ≤ cur := Nat.mul_div_le cur 2
  have h2 : (2 * (cur / 2)) ^ 3 ≤ cur ^ 3 := Nat.pow_le_pow_left h1 3
  have h3 : (2 * (cur / 2)) ^ 3 = 8 * (cur / 2) ^ 3 := by ring
  omega

theorem countLevels_chain : ∀ (fuel cur off : Nat) (cache : HeuristicCache),
    cur < 2 ^ fuel → cur < 2 ^ 32 → off + 2 * cur ^ 3 < 2 ^ 64 →
    ∃ offs ress total,
      countLevels (fuel + 1) cur off cache =
        .ok ({ cache with offsets := cache.offsets ++ offs,
                          resolutions := cache.resolutions ++ ress }, total) ∧
      Chain cur off offs ress total := by
  intro fuel
  induction fuel with
  | zero =>
    intro cur off cache h1 _ _
    have h0 : cur = 0 := by omega
    subst h0
    refine ⟨[], [], off, ?_, ⟨rfl, rfl⟩⟩
    simp [countLevels, pure, Except.pure]
  | succ fuel ih =>
    intro cur off cache h1 h2 h3
    by_cases h0 : cur = 0
    · subst h0
      refine ⟨[], [], off, ?_, ⟨rfl, rfl⟩⟩
      simp [countLevels, pure, Except.pure]
    · have hpos : 0 < cur := Nat.pos_of_ne_zero h0
      have hhalf : cur >>> 1 = cur / 2 := by rw [Nat.shiftRight_eq_div_pow, pow_one]
      have hc := half_cube_le cur
      have hcube : cur * cur * cur = cur ^ 3 := by ring
      have hmod : (off + cur * cur * cur) % 2 ^ 64 = off + cur ^ 3 := by
        rw [hcube]; exact Nat.mod_eq_of_lt (by omega)
      have hlt : cur / 2 < 2 ^ fuel := by
        rw [Nat.div_lt_iff_lt_mul (by norm_num)]
        rw [pow_succ] at h1; exact h1
      obtain ⟨offs, ress, total, hrun, hchain⟩ := ih (cur / 2) (off + cur ^ 3)
        { cache with offsets := cache.offsets ++ [off],
                     resolutions := cache.resolutions ++ [cur % 2 ^ 32] }
        hlt (by omega) (by omega)
      refine ⟨off :: offs, cur :: ress, total, ?_, ⟨hpos, rfl, rfl, hchain⟩⟩
      rw [countLevels, if_pos hpos, hhalf, hmod, hrun, Nat.mod_eq_of_lt h2]
      simp only [List.append_assoc, List.singleton_append]

/-- What the chain of levels gives at each index. -/
theorem chain_facts : ∀ (offs ress : List Nat) (cur off total : Nat),
    Chain cur off offs ress total →
    offs.length = ress.length ∧ off ≤ total ∧
    (∀ k, k < ress.length → 0 < ress.getD k 0 ∧ ress.getD k 0 ≤ cur ∧
      offs.getD k 0 + ress.getD k 0 ^ 3 ≤ total) ∧
    (∀ k, k + 1 < ress.length → ress.getD (k + 1) 0 = ress.getD k 0 / 2 ∧
      offs.getD (k + 1) 0 = offs.getD k 0 + ress.getD k 0 ^ 3) ∧
    (0 < cur → 0 < ress.length ∧ ress.getD 0 0 = cur ∧ offs.getD 0 0 = off ∧
      ress.getD (ress.length - 1) 0 = 1 ∧ offs.getD (ress.length - 1) 0 + 1 = total) := by
  intro offs
  induction offs with
  | nil =>
    intro ress cur off total h
    cases ress with
    | nil =>
      obtain ⟨h1, h2⟩ := h
      subst h1; subst h2
      refine ⟨rfl, le_refl _, fun k hk => absurd hk (by simp), fun k hk => absurd hk (by simp),
        fun hc => absurd hc (by omega)⟩
    | cons r ress => exact absurd h (by simp [Chain])
  | cons o offs ih =>
    intro ress cur off total h
    cases ress with
    | nil => exact absurd h (by simp [Chain])
    | cons r ress =>
      obtain ⟨hpos, ho, hr, hrest⟩ := h
      subst ho; subst hr
      obtain ⟨i1, i2, i3, i4, i5⟩ := ih ress (r / 2) (o + r ^ 3) total hrest
      have hr1 : 1 ≤ r ^ 3 := Nat.one_le_pow _ _ hpos
      refine ⟨by simp [i1], by omega, ?_, ?_, fun _ => ?_⟩
      · intro k hk
        cases k with
        | zero => simp only [List.getD_cons_zero]; exact ⟨hpos, le_refl _, by omega⟩
        | succ k =>
          simp only [List.getD_cons_succ]
          have hk' : k < ress.length := by simpa using hk
          obtain ⟨a, b, c⟩ := i3 k hk'
          exact ⟨a, le_trans b (Nat.div_le_self _ _), c⟩
      · intro k hk
        have hk' : k < ress.length := by simpa using hk
        cases k with
        | zero =>
          simp only [List.getD_cons_zero, List.getD_cons_succ]
          have hhalf : 0 < r / 2 := by
            by_contra hn
            have hz : r / 2 = 0 := by omega
            rw [hz] at hrest
            cases offs with
            | nil => simp at i1; rw [← i1] at hk'; simp at hk'
            | cons o2 offs2 =>
              cases ress with
              | nil => simp at hk'
              | cons r2 ress2 => exact absurd hrest.1 (by omega)
          obtain ⟨-, j2, j3, -, -⟩ := i5 hhalf
          exact ⟨j2, j3⟩
        | succ k =>
          simp only [List.getD_cons_succ]
          exact i4 k (by omega)
      · refine ⟨by simp, by simp, by simp, ?_, ?_⟩
        · by_cases hhalf : 0 < r / 2
          · obtain ⟨j1, -, -, j4, -⟩ := i5 hhalf
            have : (r :: ress).length - 1 = (ress.length - 1) + 1 := by simp; omega
            rw [this, List.getD_cons_succ]; exact j4
          · have hz : r / 2 = 0 := by omega
            rw [hz] at hrest
            cases offs with
            | nil =>
              cases ress with
              | nil => simp only [List.length_singleton, Nat.sub_self, List.getD_cons_zero]; omega
              | cons r2 ress2 => exact absurd hrest (by simp [Chain])
            | cons o2 offs2 =>
              cases ress with
              | nil => exact absurd hrest (by simp [Chain])
              | cons r2 ress2 => exact absurd hrest.1 (by omega)
        · by_cases hhalf : 0 < r / 2
          · obtain ⟨j1, -, -, -, j5⟩ := i5 hhalf
            have : (r :: ress).length - 1 = (ress.length - 1) + 1 := by simp; omega
            rw [this, List.getD_cons_succ]; exact j5
          · have hz : r / 2 = 0 := by omega
            have hr1 : r = 1 := by omega
            rw [hz] at hrest
            cases offs with
            | nil =>
              cases ress with
              | nil =>
                obtain ⟨-, ht⟩ := hrest
                simp only [List.length_singleton, Nat.sub_self, List.getD_cons_zero]
                rw [ht, hr1]; norm_num
              | cons r2 ress2 => exact absurd hrest (by simp [Chain])
            | cons o2 offs2 =>
              cases ress with
              | nil => exact absurd hrest (by simp [Chain])
              | cons r2 ress2 => exact absurd hrest.1 (by omega)

/-! ## The loops that fill one level -/

theorem cellIndex_lt (base res x y z : Nat) (hx : x < res) (hy : y < res) (hz : z < res) :
    cellIndex base res x y z < base + res ^ 3 := by
  unfold cellIndex
  obtain ⟨s, rfl⟩ : ∃ s, res = s + 1 := ⟨res - 1, by omega⟩
  have h1 : y * (s + 1) ≤ s * (s + 1) := Nat.mul_le_mul_right _ (by omega)
  have h2 : z * (s + 1) * (s + 1) ≤ s * (s + 1) * (s + 1) :=
    Nat.mul_le_mul_right _ (Nat.mul_le_mul_right _ (by omega))
  have h3 : (s + 1) ^ 3 = s * (s + 1) * (s + 1) + s * (s + 1) + s + 1 := by ring
  omega

theorem CellsOK.mono {c : ℚ} {len : Nat} {S S' : Nat → Prop} {m : List float4}
    (h : CellsOK c len S m) (hs : ∀ i, S' i → S i) : CellsOK c len S' m :=
  ⟨h.1, fun i hi => h.2 i (hs i hi)⟩

theorem cellsOK_set {c : ℚ} {len : Nat} {S : Nat → Prop} {m : List float4} (j : Nat)
    (v : float4) (h : CellsOK c len S m) (hj : j < len) (hv : Flat c v) :
    CellsOK c len (fun i => S i ∨ i = j) (m.set j v) := by
  refine ⟨by rw [List.length_set]; exact h.1, fun i hi => ?_⟩
  by_cases hij : i = j
  · subst hij
    rw [getD_set_eq _ _ _ _ (by rw [h.1]; exact hj)]
    exact hv
  · rw [getD_set_ne _ _ _ _ _ (fun e => hij e.symm)]
    rcases hi with hi | hi
    · exact h.2 i hi
    · exact absurd hi hij

/-- A loop over `range n` whose body keeps the flat places flat and makes the places `W k`
flat leaves the places of all `k < n` flat. -/
theorem loop_ok (c : ℚ) (len : Nat) (step : List float4 → Nat → List float4)
    (W : Nat → Nat → Prop) (S : Nat → Prop) (N : Nat)
    (hstep : ∀ k S', (∀ i, S i → S' i) → ∀ m, CellsOK c len S' m → k < N →
      CellsOK c len (fun i => S' i ∨ W k i) (step m k)) :
    ∀ n, n ≤ N → ∀ m, CellsOK c len S m →
      CellsOK c len (fun i => S i ∨ ∃ k, k < n ∧ W k i) ((List.range n).foldl step m) := by
  intro n
  induction n with
  | zero =>
    intro _ m hm
    exact hm.mono (fun i hi => by
      rcases hi with hi | ⟨k, hk, -⟩
      · exact hi
      · exact absurd hk (by omega))
  | succ n ih =>
    intro hn m hm
    rw [foldl_range_succ]
    have h1 := ih (by omega) m hm
    have h2 := hstep n _ (fun i hi => Or.inl hi) _ h1 (by omega)
    exact h2.mono (fun i hi => by
      rcases hi with hi | ⟨k, hk, hw⟩
      · exact Or.inl (Or.inl hi)
      · by_cases hkn : k = n
        · subst hkn; exact Or.inr hw
        · exact Or.inl (Or.inr ⟨k, by omega, hw⟩))

/-- The three loops of `fillCells` leave flat what was flat and make the cells of the level
flat, when every record they compute from such moments is flat. -/
theorem fillCells_ok (c : ℚ) (len : Nat) (cell : List float4 → Nat → Nat → Nat → float4)
    (res base : Nat) (S : Nat → Prop) (hres : res < 2 ^ 31) (hb : base + res ^ 3 ≤ len)
    (hl : len < 2 ^ 64)
    (hcell : ∀ m', CellsOK c len S m' → ∀ x y z, x < res → y < res → z < res →
      Flat c (cell m' x y z))
    (m : List float4) (hm : CellsOK c len S m) :
    CellsOK c len (fun i => S i ∨ LevelCells base res i) (fillCells cell res base m) := by
  unfold fillCells
  simp only [if_pos hres]
  have hz := loop_ok c len
    (fun m z => (List.range res).foldl (fun m y => (List.range res).foldl (fun m x =>
      m.set ((base + x + y * res + z * res * res) % 2 ^ 64) (cell m x y z)) m) m)
    (fun z i => ∃ y, y < res ∧ ∃ x, x < res ∧ i = cellIndex base res x y z) S res
    (fun z S1 hS1 m1 hm1 hzlt =>
      loop_ok c len
        (fun m y => (List.range res).foldl (fun m x =>
          m.set ((base + x + y * res + z * res * res) % 2 ^ 64) (cell m x y z)) m)
        (fun y i => ∃ x, x < res ∧ i = cellIndex base res x y z) S1 res
        (fun y S2 hS2 m2 hm2 hylt =>
          loop_ok c len
            (fun m x => m.set ((base + x + y * res + z * res * res) % 2 ^ 64) (cell m x y z))
            (fun x i => i = cellIndex base res x y z) S2 res
            (fun x S3 hS3 m3 hm3 hxlt => by
              have hlt := cellIndex_lt base res x y z hxlt hylt hzlt
              have hidx : (base + x + y * res + z * res * res) % 2 ^ 64
                  = cellIndex base res x y z := by
                unfold cellIndex at hlt ⊢
                exact Nat.mod_eq_of_lt (by omega)
              show CellsOK c len (fun i => S3 i ∨ i = cellIndex base res x y z)
                (m3.set ((base + x + y * res + z * res * res) % 2 ^ 64) (cell m3 x y z))
              rw [hidx]
              exact cellsOK_set _ _ hm3 (by omega)
                (hcell m3 (hm3.mono (fun i hi => hS3 i (hS2 i (hS1 i hi)))) x y z hxlt hylt hzlt))
            res (le_refl _) m2 hm2)
        res (le_refl _) m1 hm1)
    res (le_refl _) m hm
  exact hz.mono (fun i hi => by
    rcases hi with hi | ⟨x, y, z, hx, hy, hz', he⟩
    · exact Or.inl hi
    · exact Or.inr ⟨z, hz', y, hy, x, hx, he⟩)

/-! ## The statistics of a block of eight cells -/

theorem stdMin_self (c : ℚ) : stdMin c c = c := by
  unfold stdMin; simp

theorem stdMax_self (c : ℚ) : stdMax c c = c := by
  unfold stdMax; simp

theorem stdMin_start (c : ℚ) (h : c ≤ FLT_MAX) : stdMin FLT_MAX c = c := by
  unfold stdMin
  split
  · rfl
  · exact le_antisymm (by linarith) h

theorem stdMax_start (c : ℚ) (h : -FLT_MAX ≤ c) : stdMax (-FLT_MAX) c = c := by
  unfold stdMax
  split
  · rfl
  · exact le_antisymm h (by linarith)

/-- A block whose eight contributions all have the minimum and the maximum `c` yields a flat
record. -/
theorem blockLoop_flat (c : ℚ) (body : Moments → Nat → Nat → Nat → Moments)
    (hc1 : -FLT_MAX ≤ c) (hc2 : c ≤ FLT_MAX)
    (hbody : ∀ st lx ly lz, lx < 2 → ly < 2 → lz < 2 →
      (body st lx ly lz).minV = stdMin st.minV c ∧
      (body st lx ly lz).maxV = stdMax st.maxV c) :
    Flat c (momentsOf (blockLoop body)) := by
  have hr : List.range 2 = [0, 1] := rfl
  have step : ∀ st lx ly lz, lx < 2 → ly < 2 → lz < 2 →
      (st.minV = c ∧ st.maxV = c) →
      ((body st lx ly lz).minV = c ∧ (body st lx ly lz).maxV = c) := by
    intro st lx ly lz h1 h2 h3 hst
    obtain ⟨a, b⟩ := hbody st lx ly lz h1 h2 h3
    rw [a, b, hst.1, hst.2, stdMin_self, stdMax_self]
    exact ⟨rfl, rfl⟩
  have first : (body { minV := FLT_MAX, maxV := -FLT_MAX, mean := 0, mean2 := 0 } 0 0 0).minV = c
      ∧ (body { minV := FLT_MAX, maxV := -FLT_MAX, mean := 0, mean2 := 0 } 0 0 0).maxV = c := by
    obtain ⟨a, b⟩ := hbody { minV := FLT_MAX, maxV := -FLT_MAX, mean := 0, mean2 := 0 } 0 0 0
      (by omega) (by omega) (by omega)
    rw [a, b]
    exact ⟨stdMin_start c hc2, stdMax_start c hc1⟩
  unfold blockLoop
  rw [hr]
  simp only [List.foldl]
  exact step _ 1 1 1 (by omega) (by omega) (by omega)
    (step _ 0 1 1 (by omega) (by omega) (by omega)
    (step _ 1 0 1 (by omega) (by omega) (by omega)
    (step _ 0 0 1 (by omega) (by omega) (by omega)
    (step _ 1 1 0 (by omega) (by omega) (by omega)
    (step _ 0 1 0 (by omega) (by omega) (by omega)
    (step _ 1 0 0 (by omega) (by omega) (by omega) first))))))

theorem getD_replicate_lt (n i : Nat) (c d : ℚ) (h : i < n) :
    (List.replicate n c).getD i d = c := by
  rw [List.getD_eq_getElem _ _ (by rw [List.length_replicate]; exact h)]
  simp

/-- The record of a cell of the lowest level over a grid of constant density is flat. -/
theorem gridCell_flat (volume : GridVolume) (R : Nat) (c : ℚ)
    (hres : volume.resolution = ⟨R, R, R⟩)
    (hd : volume.densityArray = List.replicate (R ^ 3) c)
    (hR : R ^ 3 < 2 ^ 62) (hc1 : -FLT_MAX ≤ c) (hc2 : c ≤ FLT_MAX)
    (x y z : Nat) (hx : x < R / 2) (hy : y < R / 2) (hz : z < R / 2) :
    Flat c (gridCell volume x y z) := by
  have hpos : 0 < R := by omega
  have hR1 : R ≤ R ^ 3 := by
    calc R = R ^ 1 := (pow_one R).symm
      _ ≤ R ^ 3 := Nat.pow_le_pow_right hpos (by norm_num)
  unfold gridCell
  apply blockLoop_flat c _ hc1 hc2
  intro st lx ly lz hlx hly hlz
  have hlt := cellIndex_lt 0 R (x * 2 + lx) (y * 2 + ly) (z * 2 + lz)
    (by omega) (by omega) (by omega)
  unfold cellIndex at hlt
  have h1 : (y * 2 + ly) % 2 ^ 64 = y * 2 + ly := Nat.mod_eq_of_lt (by omega)
  have h2 : (z * 2 + lz) % 2 ^ 64 = z * 2 + lz := Nat.mod_eq_of_lt (by omega)
  have hoff : (x * 2 + lx + (y * 2 + ly) % 2 ^ 64 * volume.resolution.x
      + (z * 2 + lz) % 2 ^ 64 * volume.resolution.x * volume.resolution.y) % 2 ^ 64
      = x * 2 + lx + (y * 2 + ly) * R + (z * 2 + lz) * R * R := by
    rw [hres, h1, h2]
    show (x * 2 + lx + (y * 2 + ly) * R + (z * 2 + lz) * R * R) % 2 ^ 64 = _
    exact Nat.mod_eq_of_lt (by omega)
  simp only [hoff, hd]
  rw [getD_replicate_lt _ _ _ _ (by omega)]
  exact ⟨rfl, rfl⟩

/-- The record of a cell of an upper level is flat when the cells of the level below are. -/
theorem cacheCell_flat (offsets : List Nat) (lvlIdx r len : Nat) (c : ℚ) (S : Nat → Prop)
    (hS : ∀ i, LevelCells (offsets.getD (lvlIdx - 1) 0) r i → S i)
    (hb : offsets.getD (lvlIdx - 1) 0 + r ^ 3 ≤ len) (hl : len < 2 ^ 64) (hr : r < 2 ^ 31)
    (hc1 : -FLT_MAX ≤ c) (hc2 : c ≤ FLT_MAX)
    (m : List float4) (hm : CellsOK c len S m)
    (x y z : Nat) (hx : x < r / 2) (hy : y < r / 2) (hz : z < r / 2) :
    Flat c (cacheCell offsets lvlIdx r m x y z) := by
  unfold cacheCell
  apply blockLoop_flat c _ hc1 hc2
  intro st lx ly lz hlx hly hlz
  have hlt := cellIndex_lt (offsets.getD (lvlIdx - 1) 0) r (x * 2 + lx) (y * 2 + ly)
    (z * 2 + lz) (by omega) (by omega) (by omega)
  have h1 : (y * 2 + ly) % 2 ^ 32 = y * 2 + ly := Nat.mod_eq_of_lt (by omega)
  have h2 : (z * 2 + lz) % 2 ^ 32 = z * 2 + lz := Nat.mod_eq_of_lt (by omega)
  have hoff : (offsets.getD (lvlIdx - 1) 0 + x * 2 + lx + (y * 2 + ly) % 2 ^ 32 * r
      + (z * 2 + lz) % 2 ^ 32 * r * r) % 2 ^ 64
      = cellIndex (offsets.getD (lvlIdx - 1) 0) r (x * 2 + lx) (y * 2 + ly) (z * 2 + lz) := by
    rw [h1, h2]
    unfold cellIndex at hlt ⊢
    rw [Nat.mod_eq_of_lt (by omega)]
    omega
  have hflat := hm.2 _ (hS _ ⟨x * 2 + lx, y * 2 + ly, z * 2 + lz, by omega, by omega, by omega,
    rfl⟩)
  simp only [hoff]
  rw [hflat.1, hflat.2]
  exact ⟨rfl, rfl⟩

/-! ## The cache built over a grid of constant density -/

theorem chain_length : ∀ (offs ress : List Nat) (cur off total : Nat),
    Chain cur off offs ress total → 0 < cur → 2 ^ (ress.length - 1) ≤ cur := by
  intro offs
  induction offs with
  | nil =>
    intro ress cur off total h hc
    cases ress with
    | nil => exact absurd h.1 (by omega)
    | cons r ress => exact absurd h (by simp [Chain])
  | cons o offs ih =>
    intro ress cur off total h hc
    cases ress with
    | nil => exact absurd h (by simp [Chain])
    | cons r ress =>
      obtain ⟨-, -, hr, hrest⟩ := h
      subst hr
      by_cases hhalf : 0 < r / 2
      · have h1 := ih ress (r / 2) _ total hrest hhalf
        have hpos : 0 < ress.length := by
          cases ress with
          | nil =>
            cases offs with
            | nil => exact absurd hrest.1 (by omega)
            | cons o2 offs2 => exact absurd hrest (by simp [Chain])
          | cons r2 ress2 => simp
        have h2 : (r :: ress).length - 1 = (ress.length - 1) + 1 := by simp; omega
        rw [h2, pow_succ]
        have := Nat.mul_div_le r 2
        omega
      · have hz : r / 2 = 0 := by omega
        rw [hz] at hrest
        cases ress with
        | nil => simpa using hc
        | cons r2 ress2 =>
          cases offs with
          | nil => exact absurd hrest (by simp [Chain])
          | cons o2 offs2 => exact absurd hrest.1 (by omega)

/-- Along the loop over the levels, the cells of the level just filled are flat. -/
theorem levels_ok (offs ress : List Nat) (cur total : Nat) (c : ℚ)
    (hchain : Chain cur 0 offs ress total) (hcur : cur < 2 ^ 31) (ht : total < 2 ^ 64)
    (hc1 : -FLT_MAX ≤ c) (hc2 : c ≤ FLT_MAX) (st0 : LevelState)
    (h0 : st0.inputRes = ress.getD 0 0) (h1 : st0.outputRes = ress.getD 0 0 / 2)
    (h2 : CellsOK c total (LevelCells (offs.getD 0 0) (ress.getD 0 0)) st0.momentArray) :
    ∀ j, j + 1 ≤ ress.length →
      ((List.range' 1 j).foldl (fillLevel offs) st0).inputRes = ress.getD j 0 ∧
      ((List.range' 1 j).foldl (fillLevel offs) st0).outputRes = ress.getD j 0 / 2 ∧
      CellsOK c total (LevelCells (offs.getD j 0) (ress.getD j 0))
        ((List.range' 1 j).foldl (fillLevel offs) st0).momentArray := by
  obtain ⟨-, -, f3, f4, -⟩ := chain_facts offs ress cur 0 total hchain
  intro j
  induction j with
  | zero => intro _; exact ⟨h0, h1, h2⟩
  | succ j ih =>
    intro hj
    obtain ⟨i1, i2, i3⟩ := ih (by omega)
    obtain ⟨g1, g2⟩ := f4 j (by omega)
    obtain ⟨a1, a2, a3⟩ := f3 j (by omega)
    obtain ⟨b1, b2, b3⟩ := f3 (j + 1) (by omega)
    rw [List.range'_1_concat, List.foldl_append]
    simp only [List.foldl]
    generalize (List.range' 1 j).foldl (fillLevel offs) st0 = st at i1 i2 i3
    have hidx : 1 + j = j + 1 := by omega
    rw [hidx]
    unfold fillLevel
    simp only
    rw [i1, i2, ← g1]
    refine ⟨rfl, by rw [Nat.shiftRight_eq_div_pow, pow_one], ?_⟩
    have hfill := fillCells_ok c total
      (cacheCell offs (j + 1) (ress.getD j 0)) (ress.getD (j + 1) 0) (offs.getD (j + 1) 0)
      (LevelCells (offs.getD j 0) (ress.getD j 0)) (by omega) b3 ht
      (fun m' hm' x y z hx hy hz =>
        cacheCell_flat offs (j + 1) (ress.getD j 0) total c _ (fun i hi => hi) a3 ht (by omega)
          hc1 hc2 m' hm' x y z (by rw [← g1]; exact hx) (by rw [← g1]; exact hy)
          (by rw [← g1]; exact hz))
      st.momentArray i3
    exact hfill.mono (fun i hi => Or.inr hi)

/-- The function `build_heuristic_cache` returns on a cubic grid of constant density, and the
only cell of the coarsest level of the cache is flat. -/
theorem build_flat (volume : GridVolume) (R : Nat) (c : ℚ)
    (hres : volume.resolution = ⟨R, R, R⟩)
    (hd : volume.densityArray = List.replicate (R ^ 3) c)
    (hR2 : 2 ≤ R) (hR : R ^ 3 < 2 ^ 62) (hc1 : -FLT_MAX ≤ c) (hc2 : c ≤ FLT_MAX) :
    ∃ cache, build_heuristic_cache volume emptyCache = .ok cache ∧
      1 ≤ cache.numLevels ∧ cache.numLevels < 2 ^ 31 ∧
      cache.resolutions.getD (cache.numLevels - 1) 0 = 1 ∧
      cache.offsets.getD (cache.numLevels - 1) 0 < 2 ^ 64 ∧
      Flat c (cache.momentArray.getD (cache.offsets.getD (cache.numLevels - 1) 0) default) := by
  have hR1 : R ≤ R ^ 3 := by
    calc R = R ^ 1 := (pow_one R).symm
      _ ≤ R ^ 3 := Nat.pow_le_pow_right (by omega) (by norm_num)
  have hhalf : R >>> 1 = R / 2 := by rw [Nat.shiftRight_eq_div_pow, pow_one]
  have hcur : 0 < R / 2 := by omega
  have hcube : 2 * (R / 2) ^ 3 ≤ R ^ 3 := half_cube_le R
  have hcur31 : R / 2 < 2 ^ 31 := by
    by_contra hn
    have h1 : 2 ^ 31 ≤ R / 2 := by omega
    have h2 : (2 ^ 31) ^ 3 ≤ (R / 2) ^ 3 := Nat.pow_le_pow_left h1 3
    have h3 : (2 ^ 31) ^ 3 = 2 ^ 93 := by norm_num
    omega
  obtain ⟨offs, ress, total, hrun, hchain⟩ := countLevels_chain 63 (R / 2) 0
    { emptyCache with resolution := R / 2 } (by omega) (by omega) (by omega)
  obtain ⟨f1, f2, f3, f4, f5⟩ := chain_facts offs ress (R / 2) 0 total hchain
  obtain ⟨e1, e2, e3, e4, e5⟩ := f5 hcur
  have hlen := chain_length offs ress (R / 2) 0 total hchain hcur
  have hn31 : ress.length - 1 < 31 := by
    by_contra hn
    have : 2 ^ 31 ≤ 2 ^ (ress.length - 1) := Nat.pow_le_pow_right (by norm_num) (by omega)
    omega
  obtain ⟨a1, a2, a3⟩ := f3 0 e1
  obtain ⟨l1, l2, l3⟩ := f3 (ress.length - 1) (by omega)
  have htot : total < 2 ^ 64 := by
    have hmono : ∀ (offs ress : List Nat) (cur off total : Nat),
        Chain cur off offs ress total → total ≤ off + 2 * cur ^ 3 := by
      intro offs
      induction offs with
      | nil =>
        intro ress cur off total h
        cases ress with
        | nil => obtain ⟨-, h2⟩ := h; omega
        | cons r ress => exact absurd h (by simp [Chain])
      | cons o offs ih =>
        intro ress cur off total h
        cases ress with
        | nil => exact absurd h (by simp [Chain])
        | cons r ress =>
          obtain ⟨-, -, hr, hrest⟩ := h
          have := ih ress _ _ total hrest
          have := half_cube_le cur
          omega
    have := hmono offs ress (R / 2) 0 total hchain
    omega
  have hfirst := fillCells_ok c total (fun _ => gridCell volume) (R / 2) 0
    (fun _ => False) hcur31 (by rw [e2, e3] at a3; omega) htot
    (fun m' _ x y z hx hy hz => gridCell_flat volume R c hres hd hR hc1 hc2 x y z hx hy hz)
    (resize [] total) ⟨length_resize _ _, fun i hi => absurd hi id⟩
  have hlv := levels_ok offs ress (R / 2) total c hchain hcur31 htot hc1 hc2
    { inputRes := R / 2, outputRes := R / 2 / 2,
      momentArray := fillCells (fun _ => gridCell volume) (R / 2) 0 (resize [] total) }
    e2.symm (by rw [e2]) (by
      rw [e2, e3]
      exact hfirst.mono (fun i hi => Or.inr hi))
    (ress.length - 1) (by omega)
  obtain ⟨-, -, hcells⟩ := hlv
  have hlast : LevelCells (offs.getD (ress.length - 1) 0) (ress.getD (ress.length - 1) 0)
      (offs.getD (ress.length - 1) 0) := by
    refine ⟨0, 0, 0, by omega, by omega, by omega, ?_⟩
    unfold cellIndex
    omega
  have hflat := hcells.2 _ hlast
  have hb : build_heuristic_cache volume emptyCache = .ok
      { numLevels := ress.length, resolution := R / 2, resolutions := ress, offsets := offs,
        momentArray := ((List.range' 1 (ress.length - 1)).foldl (fillLevel offs)
          { inputRes := R / 2, outputRes := R / 2 / 2,
            momentArray := fillCells (fun _ => gridCell volume) (R / 2) 0
              (resize [] total) }).momentArray } := by
    unfold build_heuristic_cache
    rw [hres]
    simp only [assert, beq_self_eq_true, Bool.and_self, if_true, bind, Except.bind, pure,
      Except.pure, hhalf, hrun]
    have hnl2 : ress.length % 2 ^ 32 = ress.length := Nat.mod_eq_of_lt (by omega)
    simp only [emptyCache, List.nil_append, hnl2, Nat.shiftRight_eq_div_pow, pow_one, f1]
  refine ⟨_, hb, ?_⟩
  simp only
  exact ⟨by omega, by omega, e4, by omega, hflat⟩

/-! ## Sampling the cache at the depth of the roots -/

theorem truncate_unit (q : ℚ) (h0 : 0 ≤ q) (h1 : q < 1) : truncate (q * ((1 : Nat) : ℚ)) = 0 := by
  unfold truncate
  have hq : q * ((1 : Nat) : ℚ) = q := by simp
  rw [hq, if_pos h0]
  exact Int.floor_eq_zero_iff.2 ⟨h0, h1⟩

/-- At depth 5 and at a point of the unit cube, `sample_cache` reads the cell of the coarsest
level. -/
theorem sample_coarsest (cache : HeuristicCache) (position : float3)
    (hn1 : 1 ≤ cache.numLevels) (hn2 : cache.numLevels < 2 ^ 31)
    (hr : cache.resolutions.getD (cache.numLevels - 1) 0 = 1)
    (ho : cache.offsets.getD (cache.numLevels - 1) 0 < 2 ^ 64)
    (hx : 0 ≤ position.x + 1 / 2 ∧ position.x + 1 / 2 < 1)
    (hy : 0 ≤ position.y + 1 / 2 ∧ position.y + 1 / 2 < 1)
    (hz : 0 ≤ position.z + 1 / 2 ∧ position.z + 1 / 2 < 1) :
    sample_cache cache position 5 =
      cache.momentArray.getD (cache.offsets.getD (cache.numLevels - 1) 0) default := by
  unfold sample_cache
  have hraw : (cache.numLevels + 2 ^ 32 - (5 + 2 ^ 32 - 4) % 2 ^ 32 / 3 + 2 ^ 32 - 1) % 2 ^ 32
      = cache.numLevels - 1 := by omega
  simp only [hraw]
  rw [if_pos (by omega), hr]
  simp only [float3.add]
  rw [truncate_unit _ hx.1 hx.2, truncate_unit _ hy.1 hy.2, truncate_unit _ hz.1 hz.2]
  have hidx : (((cache.offsets.getD (cache.numLevels - 1) 0 : Nat) : Int) + 0
      + 0 * ((1 : Nat) : Int) + ((1 * 1 % 2 ^ 32 : Nat) : Int) * 0) % 2 ^ 64
      = ((cache.offsets.getD (cache.numLevels - 1) 0 : Nat) : Int) := by
    omega
  rw [hidx, Int.toNat_ofNat]

/-- Over a cache whose coarsest cell has equal minimum and maximum, an element of depth 5
whose centroid lies in that cell is not subdivided. -/
theorem should_subdivide_flat (keep : FittingParameters → GridVolume → Tetrahedron → Bool)
    (volume : LEBVolume) (eleIdx : Nat) (gridVolume : GridVolume) (cache : HeuristicCache)
    (params : FittingParameters) (hcull : params.frustumCull = false)
    (hratio : params.ratioThreshold = 2) (hcache : CoarseFlat cache)
    (hin : centerInside (volume.tetraCacheArray.getD eleIdx default)) :
    should_subdivide_element keep volume eleIdx 5 gridVolume cache params = false := by
  obtain ⟨hn1, hn2, hr, ho, hflat⟩ := hcache
  unfold centerInside at hin
  simp only [float3.mulScalar, float3.add] at hin
  obtain ⟨hx, hy, hz⟩ := hin
  unfold should_subdivide_element
  simp only [hcull, Bool.false_and, Bool.false_eq_true, if_false]
  rw [sample_coarsest cache _ hn1 hn2 hr ho
    (by simp only [float3.mulScalar, float3.add]; exact hx)
    (by simp only [float3.mulScalar, float3.add]; exact hy)
    (by simp only [float3.mulScalar, float3.add]; exact hz)]
  rw [hflat, sub_self, zero_div, hratio]
  decide

/-! ## A round of the fitting over a cache that asks for no split -/

/-- The body of the classifying loop on an element that still carries the flags
`ELEMENT_INCLUDED | ELEMENT_INVALID_CACHE`. -/
theorem classify_step (keep : FittingParameters → GridVolume → Tetrahedron → Bool)
    (gridVolume : GridVolume) (cache : HeuristicCache) (params : FittingParameters)
    (maxDepth : Nat) (v w : LEBVolume) (k : Nat)
    (hcull : params.frustumCull = false) (hratio : params.ratioThreshold = 2)
    (hcache : CoarseFlat cache) (hv : Fittable v) (hk : k < v.totalNumElements)
    (hw : Classified v k w) :
    Classified v (k + 1) (classifyElement keep gridVolume cache params maxDepth w k) := by
  obtain ⟨-, -, -, -, hroot⟩ := hv
  obtain ⟨hdepth, hcenter⟩ := hroot k hk
  have hm : w.modifArray.getD k 0 = 3 := hw.pending k (le_refl _) hk
  have hset : ∀ (a : Nat) (j : Nat), j ≠ k →
      (w.modifArray.set k a).getD j 0 = w.modifArray.getD j 0 :=
    fun a j hj => getD_set_ne _ _ _ _ _ (fun e => hj e.symm)
  unfold classifyElement
  have hb1 : ¬ ((3 : Nat) &&& 1 = 0) := by decide
  have hb2 : (3 : Nat) &&& 2 = 2 := by decide
  simp only [hm, ELEMENT_INCLUDED, ELEMENT_INVALID_CACHE, ELEMENT_REQUESTED, if_neg hb1,
    if_pos hb2]
  have hd : (w.depthArray.set k (find_msb_64 (w.heapIDArray.getD k 0) % 2 ^ 8)).getD k 0 = 5 := by
    rw [getD_set_eq _ _ _ _ (by rw [hw.depthLen]; exact hk), hw.heap]
    exact hdepth
  have hmk : (w.modifArray.set k (3 &&& (255 - 2))).getD k 0 = 1 := by
    rw [getD_set_eq _ _ _ _ (by rw [hw.modifLen]; exact hk)]
    rfl
  rw [hd]
  by_cases hmax : 5 ≥ maxDepth
  · rw [if_pos hmax]
    refine ⟨hw.total, hw.heap, hw.type, hw.neighbors, hw.points, hw.baseTypes, hw.minDepth,
      by simp only [List.length_set]; exact hw.modifLen,
      by simp only [List.length_set]; exact hw.depthLen,
      by simp only [List.length_set]; exact hw.tetraLen, ?_, ?_⟩
    · intro j hj1 hj2
      show (w.modifArray.set k (3 &&& (255 - 2))).getD j 0 = 3
      rw [hset _ j (by omega)]
      exact hw.pending j (by omega) hj2
    · intro j hj
      show (w.modifArray.set k (3 &&& (255 - 2))).getD j 0 &&& 4 = 0
      by_cases hjk : j = k
      · subst hjk; rw [hmk]; rfl
      · rw [hset _ j hjk]
        exact hw.settled j (by omega)
  · rw [if_neg hmax]
    have hsub := should_subdivide_flat keep
      { w with
        depthArray := w.depthArray.set k (find_msb_64 (w.heapIDArray.getD k 0) % 2 ^ 8)
        tetraCacheArray := w.tetraCacheArray.set k
          (evaluate_tetrahedron_cached (w.heapIDArray.getD k 0) w.minimalDepth w.basePoints
            w.baseTypes Leb3DCache)
        modifArray := w.modifArray.set k (3 &&& (255 - 2)) }
      k gridVolume cache params hcull hratio hcache (by
        show centerInside ((w.tetraCacheArray.set k _).getD k default)
        rw [getD_set_eq _ _ _ _ (by rw [hw.tetraLen]; exact hk), hw.heap, hw.minDepth,
          hw.points, hw.baseTypes]
        exact hcenter)
    rw [hsub]
    simp only [Bool.false_eq_true, if_false]
    refine ⟨hw.total, hw.heap, hw.type, hw.neighbors, hw.points, hw.baseTypes, hw.minDepth,
      by simp only [List.length_set]; exact hw.modifLen,
      by simp only [List.length_set]; exact hw.depthLen,
      by simp only [List.length_set]; exact hw.tetraLen, ?_, ?_⟩
    · intro j hj1 hj2
      show (((w.modifArray.set k (3 &&& (255 - 2))).set k _).getD j 0) = 3
      rw [getD_set_ne _ _ _ _ _ (by omega), hset _ j (by omega)]
      exact hw.pending j (by omega) hj2
    · intro j hj
      show (((w.modifArray.set k (3 &&& (255 - 2))).set k _).getD j 0) &&& 4 = 0
      by_cases hjk : j = k
      · subst hjk
        rw [getD_set_eq _ _ _ _ (by simp only [List.length_set]; rw [hw.modifLen]; exact hk),
          hmk]
        rfl
      · rw [getD_set_ne _ _ _ _ _ (fun e => hjk e.symm), hset _ j hjk]
        exact hw.settled j (by omega)

/-- The classifying loop of a round requests no element. -/
theorem classify_all (keep : FittingParameters → GridVolume → Tetrahedron → Bool)
    (gridVolume : GridVolume) (cache : HeuristicCache) (params : FittingParameters)
    (maxDepth : Nat) (v w : LEBVolume)
    (hcull : params.frustumCull = false) (hratio : params.ratioThreshold = 2)
    (hcache : CoarseFlat cache) (hv : Fittable v) (hw : Classified v 0 w) :
    ∀ n, n ≤ v.totalNumElements →
      Classified v n ((List.range n).foldl
        (classifyElement keep gridVolume cache params maxDepth) w) := by
  intro n
  induction n with
  | zero => intro _; exact hw
  | succ n ih =>
    intro hn
    rw [foldl_range_succ]
    exact classify_step keep gridVolume cache params maxDepth v _ n hcull hratio hcache hv
      (by omega) (ih (by omega))

/-- The splitting loop of a round does nothing when no element is requested. -/
theorem splitLoop_none (fuel : Nat) (w : LEBVolume) (n : Nat) :
    ∀ (l : List Nat), (∀ e ∈ l, w.modifArray.getD e 0 &&& 4 = 0) →
      splitLoop fuel l (w, n) = .ok (w, n) := by
  intro l
  induction l with
  | nil => intro _; rfl
  | cons e l ih =>
    intro h
    have he : w.modifArray.getD e 0 &&& 4 = 0 := h e (List.mem_cons_self _ _)
    unfold splitLoop
    have hb : ¬ ((0 : Nat) = 4) := by decide
    simp only [splitRequested, ELEMENT_REQUESTED, he, if_neg hb, bind, Except.bind, pure,
      Except.pure]
    exact ih (fun e' he' => h e' (List.mem_cons_of_mem _ he'))

/-- The loop that flags every element before the first round. -/
theorem flagAll_ok (v : LEBVolume) (hlen : v.modifArray.length = v.totalNumElements)
    (hd : v.depthArray.length = v.totalNumElements)
    (ht : v.tetraCacheArray.length = v.totalNumElements) :
    Classified v 0 ((List.range v.totalNumElements).foldl (fun volume eleIdx =>
      { volume with modifArray := volume.modifArray.set eleIdx 3 }) v) := by
  have key : ∀ n, n ≤ v.totalNumElements →
      ∀ w, w = (List.range n).foldl (fun (volume : LEBVolume) eleIdx =>
        { volume with modifArray := volume.modifArray.set eleIdx 3 }) v →
      w.totalNumElements = v.totalNumElements ∧ w.heapIDArray = v.heapIDArray ∧
      w.typeArray = v.typeArray ∧ w.neighborsArray = v.neighborsArray ∧
      w.basePoints = v.basePoints ∧ w.baseTypes = v.baseTypes ∧
      w.minimalDepth = v.minimalDepth ∧ w.modifArray.length = v.totalNumElements ∧
      w.depthArray = v.depthArray ∧ w.tetraCacheArray = v.tetraCacheArray ∧
      ∀ j, j < n → w.modifArray.getD j 0 = 3 := by
    intro n
    induction n with
    | zero =>
      intro _ w hw
      subst hw
      exact ⟨rfl, rfl, rfl, rfl, rfl, rfl, rfl, hlen, rfl, rfl, fun j hj => absurd hj (by omega)⟩
    | succ n ih =>
      intro hn w hw
      rw [foldl_range_succ] at hw
      obtain ⟨a1, a2, a3, a4, a5, a6, a7, a8, a9, a10, a11⟩ := ih (by omega) _ rfl
      subst hw
      refine ⟨a1, a2, a3, a4, a5, a6, a7, by simp only [List.length_set]; exact a8, a9, a10, ?_⟩
      intro j hj
      show (List.set _ n 3).getD j 0 = 3
      by_cases hjn : j = n
      · subst hjn
        exact getD_set_eq _ _ _ _ (by rw [a8]; omega)
      · rw [getD_set_ne _ _ _ _ _ (fun e => hjn e.symm)]
        exact a11 j (by omega)
  obtain ⟨a1, a2, a3, a4, a5, a6, a7, a8, a9, a10, a11⟩ := key v.totalNumElements (le_refl _) _ rfl
  exact ⟨a1, a2, a3, a4, a5, a6, a7, a8, by rw [a9]; exact hd, by rw [a10]; exact ht,
    fun j _ hj => a11 j hj, fun j hj => absurd hj (by omega)⟩

/-- The fitting of a mesh of elements of depth 5 over a cache whose coarsest cell has equal
minimum and maximum returns after one round without a split. -/
theorem fit_no_split (log2f : ℚ → ℚ)
    (keep : FittingParameters → GridVolume → Tetrahedron → Bool) (fuel : Nat)
    (v : LEBVolume) (gridVolume : GridVolume) (cache : HeuristicCache)
    (params : FittingParameters) (hcull : params.frustumCull = false)
    (hratio : params.ratioThreshold = 2) (hcache : CoarseFlat cache) (hv : Fittable v) :
    ∃ w maxDepth, fit_volume_to_grid log2f keep (fuel + 1) v gridVolume cache params
        = .ok (w, maxDepth) ∧
      w.totalNumElements = v.totalNumElements ∧ w.heapIDArray = v.heapIDArray ∧
      w.typeArray = v.typeArray ∧ w.neighborsArray = v.neighborsArray := by
  have h31 := hv.1
  have h0 := flagAll_ok v hv.2.1 hv.2.2.1 hv.2.2.2.1
  generalize hv0 : (List.range v.totalNumElements).foldl (fun (volume : LEBVolume) eleIdx =>
    { volume with modifArray := volume.modifArray.set eleIdx 3 }) v = v0 at h0
  have hcl := classify_all keep gridVolume cache params
    (((truncate (log2f gridVolume.resolution.x * 3 + 6)).toNat % 2 ^ 32 + 2 ^ 32 - 2) % 2 ^ 32)
    v v0 hcull hratio hcache hv h0 v.totalNumElements (le_refl _)
  generalize hw : (List.range v.totalNumElements).foldl (classifyElement keep gridVolume cache
    params (((truncate (log2f gridVolume.resolution.x * 3 + 6)).toNat % 2 ^ 32 + 2 ^ 32 - 2)
      % 2 ^ 32)) v0 = w at hcl
  have hsplit := splitLoop_none (fuel + 1) w 0 (List.range v.totalNumElements)
    (fun e he => hcl.settled e (List.mem_range.1 he))
  refine ⟨w,
    ((truncate (log2f gridVolume.resolution.x * 3 + 6)).toNat % 2 ^ 32 + 2 ^ 32 - 2) % 2 ^ 32,
    ?_, hcl.total, hcl.heap, hcl.type, hcl.neighbors⟩
  unfold fit_volume_to_grid
  have hflags : ELEMENT_INCLUDED ||| ELEMENT_INVALID_CACHE = 3 := rfl
  simp only [hflags, hv0]
  unfold fitRounds
  simp only [h0.total, if_pos h31, hw, hsplit, bind, Except.bind, pure, Except.pure, if_true]

set_option maxRecDepth 1000000 in
theorem fittable_root : Fittable rootVolume := by
  rw [rootVolume_eq]
  decide!

/-- C10.  For every cubic grid of resolution `R >= 2` (of at most `2 ^ 62` cells, so that the
64-bit offsets do not wrap) whose density is one constant finite value `c`, the cache that
`build_heuristic_cache` builds from it, and fitting parameters with `frustumCull = false`,
`ratioThreshold = 2.0` and `minThreshold = 5.0`: `build_heuristic_cache` returns, and
`fit_volume_to_grid` on the root mesh returns without a split, with `totalNumElements = 24`
and `heapIDArray`, `typeArray` and `neighborsArray` unchanged. -/
theorem C10_uniform_grid_no_split (R : Nat) (c : ℚ) (scale : float3)
    (params : FittingParameters) (log2f : ℚ → ℚ)
    (keep : FittingParameters → GridVolume → Tetrahedron → Bool) (fuel : Nat)
    (hR2 : 2 ≤ R) (hR : R ^ 3 < 2 ^ 62) (hc1 : -FLT_MAX ≤ c) (hc2 : c ≤ FLT_MAX)
    (hcull : params.frustumCull = false) (hratio : params.ratioThreshold = 2)
    (_hmin : params.minThreshold = 5) :
    ∃ cache,
      build_heuristic_cache ⟨scale, ⟨R, R, R⟩, List.replicate (R ^ 3) c⟩ emptyCache
        = .ok cache ∧
      ∃ w maxDepth,
        fit_volume_to_grid log2f keep (fuel + 1) rootVolume
          ⟨scale, ⟨R, R, R⟩, List.replicate (R ^ 3) c⟩ cache params = .ok (w, maxDepth) ∧
        w.totalNumElements = 24 ∧ w.heapIDArray = rootVolume.heapIDArray ∧
        w.typeArray = rootVolume.typeArray ∧
        w.neighborsArray = rootVolume.neighborsArray := by
  obtain ⟨cache, hb, h1, h2, h3, h4, h5⟩ :=
    build_flat ⟨scale, ⟨R, R, R⟩, List.replicate (R ^ 3) c⟩ R c rfl rfl hR2 hR hc1 hc2
  refine ⟨cache, hb, ?_⟩
  obtain ⟨w, maxDepth, hfit, g1, g2, g3, g4⟩ := fit_no_split log2f keep fuel rootVolume
    ⟨scale, ⟨R, R, R⟩, List.replicate (R ^ 3) c⟩ cache params hcull hratio
    ⟨h1, h2, h3, h4, by rw [h5.1, h5.2]⟩ fittable_root
  exact ⟨w, maxDepth, hfit, by rw [g1]; rfl, g2, g3, g4⟩

/-- Witness of C10: the grid of resolution 2 and density 7 everywhere, with the default
parameters. -/
theorem C10_uniform_grid_no_split_witness :
    ∃ cache,
      build_heuristic_cache ⟨⟨1, 1, 1⟩, ⟨2, 2, 2⟩, List.replicate (2 ^ 3) 7⟩ emptyCache
        = .ok cache ∧
      ∃ w maxDepth,
        fit_volume_to_grid (fun _ => 1) (fun _ _ _ => true) (0 + 1) rootVolume
          ⟨⟨1, 1, 1⟩, ⟨2, 2, 2⟩, List.replicate (2 ^ 3) 7⟩ cache defaultParameters
            = .ok (w, maxDepth) ∧
        w.totalNumElements = 24 ∧ w.heapIDArray = rootVolume.heapIDArray ∧
        w.typeArray = rootVolume.typeArray ∧
        w.neighborsArray = rootVolume.neighborsArray :=
  C10_uniform_grid_no_split 2 7 ⟨1, 1, 1⟩ defaultParameters (fun _ => 1) (fun _ _ _ => true) 0
    (by decide) (by norm_num) (by norm_num [FLT_MAX]) (by norm_num [FLT_MAX]) rfl rfl rfl

/-! ## The classification rule of a fitting round -/

theorem classify_frame (keep : FittingParameters → GridVolume → Tetrahedron → Bool)
    (gridVolume : GridVolume) (cache : HeuristicCache) (params : FittingParameters)
    (maxDepth : Nat) (w : LEBVolume) (k : Nat) :
    SameBut k w (classifyElement keep gridVolume cache params maxDepth w k) := by
  have hs : ∀ {α : Type} (l : List α) (a d : α) (j : Nat), j ≠ k →
      (l.set k a).getD j d = l.getD j d :=
    fun l a d j hj => getD_set_ne l k j a d (fun e => hj e.symm)
  unfold classifyElement
  dsimp only
  split_ifs <;>
  exact ⟨rfl, rfl, rfl, rfl, rfl, by simp only [List.length_set],
    by simp only [List.length_set], by simp only [List.length_set],
    fun j hj => by simp only [hs _ _ _ j hj], fun j hj => by simp only [hs _ _ _ j hj],
    fun j hj => by simp only [hs _ _ _ j hj]⟩

/-- The flags that the body of the classifying loop leaves on its own element. -/
theorem classify_at (keep : FittingParameters → GridVolume → Tetrahedron → Bool)
    (gridVolume : GridVolume) (cache : HeuristicCache) (params : FittingParameters)
    (maxDepth : Nat) (w : LEBVolume) (k : Nat) (hcull : params.frustumCull = false)
    (hm : k < w.modifArray.length) (hd : k < w.depthArray.length)
    (ht : k < w.tetraCacheArray.length) :
    (classifyElement keep gridVolume cache params maxDepth w k).modifArray.getD k 0 =
      classifiedFlags cache params maxDepth w k := by
  have hss : ∀ (a b : Nat), ((w.modifArray.set k a).set k b).getD k 0 = b :=
    fun a b => getD_set_eq _ _ _ _ (by rw [List.length_set]; exact hm)
  unfold classifyElement classifiedFlags classDepth classTetra classFlags densityRatio
    should_subdivide_element
  simp only [hcull, Bool.false_and, Bool.false_eq_true, if_false, decide_eq_true_eq]
  dsimp only
  by_cases h1 : w.modifArray.getD k 0 &&& ELEMENT_INCLUDED = 0
  · simp only [h1, if_true]
  · simp only [h1, if_false]
    by_cases h2 : w.modifArray.getD k 0 &&& ELEMENT_INVALID_CACHE = ELEMENT_INVALID_CACHE
    · simp only [h2, if_true, getD_set_eq _ _ _ _ hd, getD_set_eq _ _ _ _ hm,
        getD_set_eq _ _ _ _ ht]
      split_ifs <;> first | exact getD_set_eq _ _ _ _ hm | exact hss _ _
    · simp only [h2, if_false]
      split_ifs <;> first | rfl | exact getD_set_eq _ _ _ _ hm

/-- The flags after classification depend only on what the mesh stores for the element. -/
theorem classifiedFlags_congr (cache : HeuristicCache) (params : FittingParameters)
    (maxDepth : Nat) (v w : LEBVolume) (k : Nat)
    (h1 : w.heapIDArray = v.heapIDArray) (h2 : w.basePoints = v.basePoints)
    (h3 : w.baseTypes = v.baseTypes) (h4 : w.minimalDepth = v.minimalDepth)
    (h5 : w.modifArray.getD k 0 = v.modifArray.getD k 0)
    (h6 : w.depthArray.getD k 0 = v.depthArray.getD k 0)
    (h7 : w.tetraCacheArray.getD k default = v.tetraCacheArray.getD k default) :
    classifiedFlags cache params maxDepth w k = classifiedFlags cache params maxDepth v k := by
  unfold classifiedFlags classDepth classTetra classFlags
  rw [h1, h2, h3, h4, h5, h6, h7]

/-- The state of the classifying loop after the elements below `n`. -/
theorem classify_loop (keep : FittingParameters → GridVolume → Tetrahedron → Bool)
    (gridVolume : GridVolume) (cache : HeuristicCache) (params : FittingParameters)
    (maxDepth : Nat) (v : LEBVolume) (hcull : params.frustumCull = false) :
    ∀ n, n ≤ v.modifArray.length → n ≤ v.depthArray.length → n ≤ v.tetraCacheArray.length →
      ∀ w, w = (List.range n).foldl (classifyElement keep gridVolume cache params maxDepth) v →
      (w.heapIDArray = v.heapIDArray ∧ w.basePoints = v.basePoints ∧
        w.baseTypes = v.baseTypes ∧ w.minimalDepth = v.minimalDepth) ∧
      (w.modifArray.length = v.modifArray.length ∧ w.depthArray.length = v.depthArray.length ∧
        w.tetraCacheArray.length = v.tetraCacheArray.length) ∧
      (∀ j, n ≤ j → w.modifArray.getD j 0 = v.modifArray.getD j 0 ∧
        w.depthArray.getD j 0 = v.depthArray.getD j 0 ∧
        w.tetraCacheArray.getD j default = v.tetraCacheArray.getD j default) ∧
      ∀ j, j < n → w.modifArray.getD j 0 = classifiedFlags cache params maxDepth v j := by
  intro n
  induction n with
  | zero =>
    intro _ _ _ w hw
    subst hw
    exact ⟨⟨rfl, rfl, rfl, rfl⟩, ⟨rfl, rfl, rfl⟩, fun j _ => ⟨rfl, rfl, rfl⟩,
      fun j hj => absurd hj (by omega)⟩
  | succ n ih =>
    intro hm hd ht w hw
    rw [foldl_range_succ] at hw
    obtain ⟨⟨a1, a2, a3, a4⟩, ⟨b1, b2, b3⟩, hrest, hdone⟩ :=
      ih (by omega) (by omega) (by omega) _ rfl
    have hf := classify_frame keep gridVolume cache params maxDepth
      ((List.range n).foldl (classifyElement keep gridVolume cache params maxDepth) v) n
    have hat := classify_at keep gridVolume cache params maxDepth
      ((List.range n).foldl (classifyElement keep gridVolume cache params maxDepth) v) n hcull
      (by rw [b1]; omega) (by rw [b2]; omega) (by rw [b3]; omega)
    rw [← hw] at hf hat
    refine ⟨⟨hf.heap.trans a1, hf.points.trans a2, hf.baseTypes.trans a3, hf.minDepth.trans a4⟩,
      ⟨hf.modifLen.trans b1, hf.depthLen.trans b2, hf.tetraLen.trans b3⟩, ?_, ?_⟩
    · intro j hj
      have hjn : j ≠ n := by omega
      obtain ⟨c1, c2, c3⟩ := hrest j (by omega)
      exact ⟨(hf.modif j hjn).trans c1, (hf.depth j hjn).trans c2, (hf.tetra j hjn).trans c3⟩
    · intro j hj
      by_cases hjn : j = n
      · subst hjn
        rw [hat]
        obtain ⟨c1, c2, c3⟩ := hrest j (le_refl _)
        exact classifiedFlags_congr cache params maxDepth v _ j a1 a2 a3 a4 c1 c2 c3
      · rw [hf.modif j hjn]
        exact hdone j (by omega)

/-- The flags of every element after the classifying loop of a round. -/
theorem classifyAll_flags (keep : FittingParameters → GridVolume → Tetrahedron → Bool)
    (gridVolume : GridVolume) (cache : HeuristicCache) (params : FittingParameters)
    (maxDepth : Nat) (v : LEBVolume) (e : Nat) (hcull : params.frustumCull = false)
    (hn : v.totalNumElements < 2 ^ 31)
    (hm : v.modifArray.length = v.totalNumElements)
    (hd : v.depthArray.length = v.totalNumElements)
    (ht : v.tetraCacheArray.length = v.totalNumElements) (he : e < v.totalNumElements) :
    (classifyAll keep gridVolume cache params maxDepth v).modifArray.getD e 0 =
      classifiedFlags cache params maxDepth v e := by
  unfold classifyAll
  rw [if_pos hn]
  exact (classify_loop keep gridVolume cache params maxDepth v hcull v.totalNumElements
    (by omega) (by omega) (by omega) _ rfl).2.2.2 e he

/-- A round of `fitRounds` runs the splitting loop on the result of `classifyAll`. -/
theorem fitRounds_classify (keep : FittingParameters → GridVolume → Tetrahedron → Bool)
    (gridVolume : GridVolume) (cache : HeuristicCache) (params : FittingParameters)
    (maxDepth fuel : Nat) (v : LEBVolume) :
    fitRounds keep gridVolume cache params maxDepth (fuel + 1) v =
      (splitLoop (fuel + 1) (List.range v.totalNumElements)
        (classifyAll keep gridVolume cache params maxDepth v, 0)).bind (fun st =>
          if st.2 = 0 then pure st.1
          else fitRounds keep gridVolume cache params maxDepth fuel st.1) := rfl

theorem or_and_const (x a b : Nat) : (x ||| a) &&& b = (x &&& b) ||| (a &&& b) := by
  apply Nat.eq_of_testBit_eq
  intro i
  simp only [Nat.testBit_and, Nat.testBit_or]
  cases x.testBit i <;> cases a.testBit i <;> cases b.testBit i <;> rfl

theorem and_and_const (x a b c : Nat) (h : a &&& b = c) : (x &&& a) &&& b = x &&& c := by
  rw [Nat.and_assoc, h]

/-- Clearing `ELEMENT_INVALID_CACHE` changes neither of the two other flags. -/
theorem classFlags_bits (v : LEBVolume) (e : Nat) :
    classFlags v e &&& ELEMENT_REQUESTED = v.modifArray.getD e 0 &&& ELEMENT_REQUESTED ∧
    classFlags v e &&& ELEMENT_INCLUDED = v.modifArray.getD e 0 &&& ELEMENT_INCLUDED := by
  unfold classFlags
  split_ifs
  · exact ⟨and_and_const _ _ _ _ (by decide), and_and_const _ _ _ _ (by decide)⟩
  · exact ⟨rfl, rfl⟩

/-- The function `sample_cache` reads the record at `sampleIndex` of the level
`selectLevel`. -/
theorem sample_cache_eq (cache : HeuristicCache) (position : float3) (depth : Nat) :
    sample_cache cache position depth =
      cache.momentArray.getD
        (sampleIndex cache position (selectLevel cache.numLevels depth)).toNat default := rfl

/-- The cache `unitCache` is the one built from the grid of `2 x 2 x 2` cells of density 7. -/
theorem unitCache_built :
    build_heuristic_cache ⟨⟨1, 1, 1⟩, ⟨2, 2, 2⟩, List.replicate 8 7⟩ emptyCache
      = .ok unitCache := by decide!

/-- The loop over the levels returns whenever the fuel exceeds the bit length of the
resolution. -/
theorem countLevels_total : ∀ (fuel cur off : Nat) (cache : HeuristicCache),
    cur < 2 ^ fuel → ∃ r, countLevels (fuel + 1) cur off cache = .ok r := by
  intro fuel
  induction fuel with
  | zero =>
    intro cur off cache h
    have h0 : cur = 0 := by omega
    subst h0
    exact ⟨(cache, off), by simp [countLevels, pure, Except.pure]⟩
  | succ fuel ih =>
    intro cur off cache h
    by_cases h0 : cur = 0
    · subst h0
      exact ⟨(cache, off), by simp [countLevels, pure, Except.pure]⟩
    · have hpos : 0 < cur := Nat.pos_of_ne_zero h0
      have hlt : cur >>> 1 < 2 ^ fuel := by
        rw [Nat.shiftRight_eq_div_pow, pow_one, Nat.div_lt_iff_lt_mul (by norm_num)]
        rw [pow_succ] at h; exact h
      obtain ⟨r, hr⟩ := ih (cur >>> 1) ((off + cur * cur * cur) % 2 ^ 64)
        { cache with offsets := cache.offsets ++ [off],
                     resolutions := cache.resolutions ++ [cur % 2 ^ 32] } hlt
      exact ⟨r, by rw [countLevels, if_pos hpos, hr]⟩

/-- C16: `build_heuristic_cache` rejects a non-cubic grid.  For a grid whose resolution is
a 32-bit value, the function stops at the assertion, with no cache, if and only if
`resolution.x != resolution.y` or `resolution.x != resolution.z`; for a cubic grid it
returns a cache. -/
theorem C16_rejects_non_cubic (volume : GridVolume) (cache : HeuristicCache)
    (hres : volume.resolution.x < 2 ^ 32) :
    (build_heuristic_cache volume cache = .error Fail.assertion ↔
      (volume.resolution.x ≠ volume.resolution.y ∨ volume.resolution.x ≠ volume.resolution.z)) ∧
    (volume.resolution.x = volume.resolution.y ∧ volume.resolution.x = volume.resolution.z →
      ∃ built, build_heuristic_cache volume cache = .ok built) := by
  have hok : volume.resolution.x = volume.resolution.y ∧
      volume.resolution.x = volume.resolution.z →
      ∃ built, build_heuristic_cache volume cache = .ok built := by
    intro hc
    have hlt : volume.resolution.x >>> 1 < 2 ^ 63 := by
      rw [Nat.shiftRight_eq_div_pow, pow_one]; omega
    obtain ⟨r, hr⟩ := countLevels_total 63 (volume.resolution.x >>> 1) 0
      { cache with resolution := volume.resolution.x >>> 1 } hlt
    unfold build_heuristic_cache
    rw [← hc.1, ← hc.2]
    simp only [assert, beq_self_eq_true, Bool.and_self, if_true, bind, Except.bind, pure,
      Except.pure, hr]
    exact ⟨_, rfl⟩
  refine ⟨⟨fun h => ?_, fun h => ?_⟩, hok⟩
  · by_contra hn
    have hc : volume.resolution.x = volume.resolution.y ∧
        volume.resolution.x = volume.resolution.z := by
      constructor
      · by_contra h1; exact hn (Or.inl h1)
      · by_contra h1; exact hn (Or.inr h1)
    obtain ⟨built, hb⟩ := hok hc
    rw [hb] at h
    exact absurd h (by simp)
  · have hb : (volume.resolution.x == volume.resolution.y
        && volume.resolution.x == volume.resolution.z) = false := by
      rcases h with h | h
      · simp [h]
      · simp [h]
    unfold build_heuristic_cache
    simp only [assert, hb, bind, Except.bind]
    rfl

/-- Witness of C16: a grid of `2 x 2 x 3` cells is rejected. -/
theorem C16_rejects_non_cubic_witness :
    build_heuristic_cache ⟨⟨1, 1, 1⟩, ⟨2, 2, 3⟩, List.replicate 12 0⟩ emptyCache
      = .error Fail.assertion :=
  (C16_rejects_non_cubic ⟨⟨1, 1, 1⟩, ⟨2, 2, 3⟩, List.replicate 12 0⟩ emptyCache
    (by decide)).1.2 (Or.inr (by decide))

/-- C15: the level that `sample_cache` selects.  For a cache with
`1 <= numLevels <= 2 ^ 31` and a 32-bit depth `d >= 4`, the unsigned subtraction followed by
the cast to `int32_t` and the clamp selects the level `max(0, numLevels - 1 - (d - 4) / 3)`,
which is smaller than `numLevels`, and `sample_cache` reads its record at that level. -/
theorem C15_level_selection (cache : HeuristicCache) (position : float3) (d : Nat)
    (h1 : 1 ≤ cache.numLevels) (h2 : cache.numLevels ≤ 2 ^ 31) (h3 : 4 ≤ d)
    (h4 : d < 2 ^ 32) :
    selectLevel cache.numLevels d =
      (max 0 ((cache.numLevels : Int) - 1 - ((d : Int) - 4) / 3)).toNat ∧
    selectLevel cache.numLevels d < cache.numLevels ∧
    sample_cache cache position d = cache.momentArray.getD
      (sampleIndex cache position
        (max 0 ((cache.numLevels : Int) - 1 - ((d : Int) - 4) / 3)).toNat).toNat default := by
  have hsel : selectLevel cache.numLevels d =
      (max 0 ((cache.numLevels : Int) - 1 - ((d : Int) - 4) / 3)).toNat := by
    unfold selectLevel
    simp only
    split_ifs <;> omega
  refine ⟨hsel, ?_, ?_⟩
  · rw [hsel]; omega
  · rw [sample_cache_eq, hsel]

/-- Witness of C15: a cache of three levels read at depth 8 selects the level 1. -/
theorem C15_level_selection_witness :
    selectLevel 3 8 = 1 ∧ selectLevel 3 8 < 3 :=
  ⟨(C15_level_selection { unitCache with numLevels := 3 } ⟨0, 0, 0⟩ 8 (by decide) (by decide)
      (by decide) (by decide)).1,
    (C15_level_selection { unitCache with numLevels := 3 } ⟨0, 0, 0⟩ 8 (by decide) (by decide)
      (by decide) (by decide)).2.1⟩

/-- Inside the half-open cube the lattice coordinate of `sample_cache` is a cell of the
level. -/
theorem sampleCoord_inside (q : ℚ) (r : Nat) (h0 : 0 ≤ q + 1 / 2) (h1 : q + 1 / 2 < 1) :
    0 ≤ sampleCoord q r ∧ (0 < r → sampleCoord q r < r) := by
  have hr : (0 : ℚ) ≤ (r : ℚ) := Nat.cast_nonneg r
  have hnn : 0 ≤ (q + 1 / 2) * (r : ℚ) := mul_nonneg h0 hr
  unfold sampleCoord truncate
  rw [if_pos hnn]
  refine ⟨Int.floor_nonneg.mpr hnn, fun hpos => ?_⟩
  rw [Int.floor_lt]
  have hr' : (0 : ℚ) < (r : ℚ) := Nat.cast_pos.mpr hpos
  have : (q + 1 / 2) * (r : ℚ) < 1 * (r : ℚ) := mul_lt_mul_of_pos_right h1 hr'
  simpa using this

/-- C14: on the upper faces of the cube `sample_cache` leaves the level.  A coordinate
`0.5` gives the lattice coordinate `r`, which is not in `0..r-1`, at every resolution `r`;
in the cache of one level and one cell built from the grid of `2 x 2 x 2` cells, the
position `(0.5, 0, 0)` at depth 5 reads the index 1, which is the end `offsets[0] + 1` of
the level and the length of `momentArray`. -/
theorem C14_upper_face_leaves_level :
    (∀ r : Nat, sampleCoord (1 / 2) r = r) ∧
    selectLevel unitCache.numLevels 5 = 0 ∧
    sampleIndex unitCache ⟨1 / 2, 0, 0⟩ (selectLevel unitCache.numLevels 5) = 1 ∧
    unitCache.offsets.getD 0 0 + unitCache.resolutions.getD 0 0 ^ 3 = 1 ∧
    unitCache.momentArray.length = 1 := by
  refine ⟨fun r => ?_, by decide, by decide!, by decide, by decide⟩
  unfold sampleCoord truncate
  have h : ((1 : ℚ) / 2 + 1 / 2) * (r : ℚ) = ((r : Int) : ℚ) := by
    push_cast; ring
  rw [h, if_pos (by exact_mod_cast Int.natCast_nonneg r), Int.floor_intCast]

/-- The resolutions and the offsets of the chain of levels in closed form. -/
theorem chain_closed (offs ress : List Nat) (cur total : Nat)
    (hchain : Chain cur 0 offs ress total) (hcur : 0 < cur) :
    (∀ k, k < ress.length → ress.getD k 0 = cur / 2 ^ k) ∧
    (∀ k, k < ress.length → offs.getD k 0 = ∑ j ∈ Finset.range k, ress.getD j 0 ^ 3) ∧
    total = ∑ j ∈ Finset.range ress.length, ress.getD j 0 ^ 3 ∧
    2 ^ (ress.length - 1) ≤ cur ∧ cur < 2 ^ ress.length := by
  obtain ⟨-, -, f3, f4, f5⟩ := chain_facts offs ress cur 0 total hchain
  obtain ⟨e1, e2, e3, e4, e5⟩ := f5 hcur
  have hres : ∀ k, k < ress.length → ress.getD k 0 = cur / 2 ^ k := by
    intro k
    induction k with
    | zero => intro _; rw [e2]; simp
    | succ k ih =>
      intro hk
      rw [(f4 k hk).1, ih (by omega), Nat.div_div_eq_div_mul, pow_succ]
  have hoff : ∀ k, k < ress.length →
      offs.getD k 0 = ∑ j ∈ Finset.range k, ress.getD j 0 ^ 3 := by
    intro k
    induction k with
    | zero => intro _; rw [e3]; simp
    | succ k ih =>
      intro hk
      rw [(f4 k hk).2, ih (by omega), Finset.sum_range_succ]
  refine ⟨hres, hoff, ?_, chain_length offs ress cur 0 total hchain hcur, ?_⟩
  · have hl : ress.length = (ress.length - 1) + 1 := by omega
    rw [hl, Finset.sum_range_succ, ← hoff _ (by omega), e4]
    omega
  · have h1 := hres (ress.length - 1) (by omega)
    rw [e4] at h1
    have hl : ress.length = (ress.length - 1) + 1 := by omega
    rw [hl, pow_succ]
    have hpos : 0 < 2 ^ (ress.length - 1) := Nat.pos_pow_of_pos _ (by norm_num)
    by_contra hn
    have h2 : 2 ≤ cur / 2 ^ (ress.length - 1) := by
      rw [Nat.le_div_iff_mul_le hpos]
      omega
    omega

theorem length_foldl_keep {α : Type} (step : List α → Nat → List α)
    (hstep : ∀ m k, (step m k).length = m.length) :
    ∀ (l : List Nat) (m : List α), (l.foldl step m).length = m.length := by
  intro l
  induction l with
  | nil => intro m; rfl
  | cons k l ih => intro m; rw [List.foldl_cons, ih, hstep]

/-- Filling a level does not change the length of the moments. -/
theorem length_fillCells (cell : List float4 → Nat → Nat → Nat → float4) (res base : Nat)
    (m : List float4) : (fillCells cell res base m).length = m.length := by
  unfold fillCells
  exact length_foldl_keep _ (fun m z => length_foldl_keep _ (fun m y =>
    length_foldl_keep _ (fun m x => List.length_set _ _ _) _ m) _ m) _ m

theorem length_fillLevels (offs : List Nat) :
    ∀ (l : List Nat) (st : LevelState),
      (l.foldl (fillLevel offs) st).momentArray.length = st.momentArray.length := by
  intro l
  induction l with
  | nil => intro st; rfl
  | cons k l ih =>
    intro st
    rw [List.foldl_cons, ih]
    exact length_fillCells _ _ _ _

/-- The run of `build_heuristic_cache` on a cubic grid that fits 64-bit offsets: the levels
are those of the chain that starts at half the resolution. -/
theorem build_shape (volume : GridVolume) (R : Nat) (hres : volume.resolution = ⟨R, R, R⟩)
    (hR2 : 2 ≤ R) (hR : R ^ 3 < 2 ^ 64) :
    ∃ offs ress total, Chain (R / 2) 0 offs ress total ∧ total < 2 ^ 64 ∧
      build_heuristic_cache volume emptyCache = .ok
        { numLevels := ress.length, resolution := R / 2, resolutions := ress, offsets := offs,
          momentArray := ((List.range' 1 (ress.length - 1)).foldl (fillLevel offs)
            { inputRes := R / 2, outputRes := R / 2 / 2,
              momentArray := fillCells (fun _ => gridCell volume) (R / 2) 0
                (resize [] total) }).momentArray } := by
  have hhalf : R >>> 1 = R / 2 := by rw [Nat.shiftRight_eq_div_pow, pow_one]
  have hcur : 0 < R / 2 := by omega
  have hcube : 2 * (R / 2) ^ 3 ≤ R ^ 3 := half_cube_le R
  have hcur31 : R / 2 < 2 ^ 31 := by
    by_contra hn
    have h1 : 2 ^ 31 ≤ R / 2 := by omega
    have h2 : (2 ^ 31) ^ 3 ≤ (R / 2) ^ 3 := Nat.pow_le_pow_left h1 3
    have h3 : (2 ^ 31) ^ 3 = 2 ^ 93 := by norm_num
    omega
  obtain ⟨offs, ress, total, hrun, hchain⟩ := countLevels_chain 63 (R / 2) 0
    { emptyCache with resolution := R / 2 } (by omega) (by omega) (by omega)
  obtain ⟨f1, -, -, -, -⟩ := chain_facts offs ress (R / 2) 0 total hchain
  obtain ⟨-, -, -, -, hlen⟩ := chain_closed offs ress (R / 2) total hchain hcur
  have hlen2 := chain_length offs ress (R / 2) 0 total hchain hcur
  have hn31 : ress.length - 1 < 31 := by
    by_contra hn
    have : 2 ^ 31 ≤ 2 ^ (ress.length - 1) := Nat.pow_le_pow_right (by norm_num) (by omega)
    omega
  have htot : total < 2 ^ 64 := by
    have hmono : ∀ (offs ress : List Nat) (cur off total : Nat),
        Chain cur off offs ress total → total ≤ off + 2 * cur ^ 3 := by
      intro offs
      induction offs with
      | nil =>
        intro ress cur off total h
        cases ress with
        | nil => obtain ⟨-, h2⟩ := h; omega
        | cons r ress => exact absurd h (by simp [Chain])
      | cons o offs ih =>
        intro ress cur off total h
        cases ress with
        | nil => exact absurd h (by simp [Chain])
        | cons r ress =>
          obtain ⟨-, -, hr, hrest⟩ := h
          have := ih ress _ _ total hrest
          have := half_cube_le cur
          omega
    have := hmono offs ress (R / 2) 0 total hchain
    omega
  refine ⟨offs, ress, total, hchain, htot, ?_⟩
  unfold build_heuristic_cache
  rw [hres]
  simp only [assert, beq_self_eq_true, Bool.and_self, if_true, bind, Except.bind, pure,
    Except.pure, hhalf, hrun]
  have hnl2 : ress.length % 2 ^ 32 = ress.length := Nat.mod_eq_of_lt (by omega)
  simp only [emptyCache, List.nil_append, hnl2, Nat.shiftRight_eq_div_pow, pow_one, f1]

/-- C13: the layout of the cache.  For a cubic grid of resolution `R >= 2` whose `R ^ 3`
cells fit 64-bit offsets, `build_heuristic_cache` returns a cache with
`numLevels = floor(log2 R)` levels, `resolutions[l] = floor(R / 2 ^ (l + 1))`, the last
resolution is 1, `offsets[l]` is the sum of `resolutions[j] ^ 3` over `j < l` (so the level
`l + 1` starts where the level `l` ends), and `momentArray` holds exactly the sum of
`resolutions[l] ^ 3` over all levels. -/
theorem C13_pyramid_layout (volume : GridVolume) (R : Nat)
    (hres : volume.resolution = ⟨R, R, R⟩) (hR2 : 2 ≤ R) (hR : R ^ 3 < 2 ^ 64) :
    ∃ cache, build_heuristic_cache volume emptyCache = .ok cache ∧
      cache.numLevels = Nat.log2 R ∧
      cache.resolutions.length = cache.numLevels ∧ cache.offsets.length = cache.numLevels ∧
      (∀ l, l < cache.numLevels → cache.resolutions.getD l 0 = R / 2 ^ (l + 1)) ∧
      cache.resolutions.getD (cache.numLevels - 1) 0 = 1 ∧
      (∀ l, l < cache.numLevels →
        cache.offsets.getD l 0 = ∑ j ∈ Finset.range l, cache.resolutions.getD j 0 ^ 3) ∧
      (∀ l, l + 1 < cache.numLevels →
        cache.offsets.getD (l + 1) 0 = cache.offsets.getD l 0 + cache.resolutions.getD l 0 ^ 3) ∧
      cache.momentArray.length =
        ∑ j ∈ Finset.range cache.numLevels, cache.resolutions.getD j 0 ^ 3 := by
  obtain ⟨offs, ress, total, hchain, htot, hb⟩ := build_shape volume R hres hR2 hR
  have hcur : 0 < R / 2 := by omega
  obtain ⟨f1, -, -, f4, f5⟩ := chain_facts offs ress (R / 2) 0 total hchain
  obtain ⟨c1, c2, c3, c4, c5⟩ := chain_closed offs ress (R / 2) total hchain hcur
  obtain ⟨e1, -, -, e4, -⟩ := f5 hcur
  refine ⟨_, hb, ?_, rfl, f1, ?_, e4, c2, fun l hl => (f4 l hl).2, ?_⟩
  · show ress.length = Nat.log2 R
    have hlow : 2 ^ ress.length ≤ R := by
      have hl : ress.length = (ress.length - 1) + 1 := by omega
      rw [hl, pow_succ]
      have := Nat.div_mul_le_self R 2
      omega
    have hup : R < 2 ^ (ress.length + 1) := by
      rw [pow_succ]
      have := Nat.lt_succ_iff.mpr (Nat.le_refl (R / 2))
      omega
    have hne : R ≠ 0 := by omega
    have h1 : ress.length ≤ Nat.log2 R := (Nat.le_log2 hne).mpr hlow
    have h2 : Nat.log2 R < ress.length + 1 := (Nat.log2_lt hne).mpr hup
    omega
  · intro l hl
    show ress.getD l 0 = R / 2 ^ (l + 1)
    rw [c1 l hl, Nat.div_div_eq_div_mul, pow_succ, Nat.mul_comm]
  · show (((List.range' 1 (ress.length - 1)).foldl (fillLevel offs) _).momentArray).length = _
    rw [length_fillLevels, length_fillCells, length_resize]
    exact c3

/-- Witness of C13: the grid of `2 x 2 x 2` cells gives one level of one cell. -/
theorem C13_pyramid_layout_witness :
    ∃ cache, build_heuristic_cache ⟨⟨1, 1, 1⟩, ⟨2, 2, 2⟩, List.replicate 8 7⟩ emptyCache
        = .ok cache ∧
      cache.numLevels = Nat.log2 2 ∧
      cache.resolutions.length = cache.numLevels ∧ cache.offsets.length = cache.numLevels ∧
      (∀ l, l < cache.numLevels → cache.resolutions.getD l 0 = 2 / 2 ^ (l + 1)) ∧
      cache.resolutions.getD (cache.numLevels - 1) 0 = 1 ∧
      (∀ l, l < cache.numLevels →
        cache.offsets.getD l 0 = ∑ j ∈ Finset.range l, cache.resolutions.getD j 0 ^ 3) ∧
      (∀ l, l + 1 < cache.numLevels →
        cache.offsets.getD (l + 1) 0 = cache.offsets.getD l 0 + cache.resolutions.getD l 0 ^ 3) ∧
      cache.momentArray.length =
        ∑ j ∈ Finset.range cache.numLevels, cache.resolutions.getD j 0 ^ 3 :=
  C13_pyramid_layout ⟨⟨1, 1, 1⟩, ⟨2, 2, 2⟩, List.replicate 8 7⟩ 2 rfl (by decide) (by decide)

/-! ## The contents of the cache -/

theorem stdMin_le (a b : ℚ) : stdMin a b ≤ a ∧ stdMin a b ≤ b := by
  unfold stdMin
  split_ifs with h
  · exact ⟨le_of_lt h, le_refl _⟩
  · exact ⟨le_refl _, not_lt.mp h⟩

theorem stdMin_mem (a b : ℚ) : stdMin a b = a ∨ stdMin a b = b := by
  unfold stdMin
  split_ifs
  · exact Or.inr rfl
  · exact Or.inl rfl

theorem stdMax_ge (a b : ℚ) : a ≤ stdMax a b ∧ b ≤ stdMax a b := by
  unfold stdMax
  split_ifs with h
  · exact ⟨le_of_lt h, le_refl _⟩
  · exact ⟨le_refl _, not_lt.mp h⟩

theorem stdMax_mem (a b : ℚ) : stdMax a b = a ∨ stdMax a b = b := by
  unfold stdMax
  split_ifs
  · exact Or.inr rfl
  · exact Or.inl rfl

/-- The running minimum over a list of values lies below the start and below every value,
and it is the start or one of the values. -/
theorem foldl_stdMin : ∀ (l : List ℚ) (a : ℚ),
    (l.foldl stdMin a ≤ a ∧ ∀ c ∈ l, l.foldl stdMin a ≤ c) ∧
    (l.foldl stdMin a = a ∨ l.foldl stdMin a ∈ l) := by
  intro l
  induction l with
  | nil => intro a; exact ⟨⟨le_refl _, fun c hc => absurd hc (List.not_mem_nil c)⟩, Or.inl rfl⟩
  | cons b l ih =>
    intro a
    obtain ⟨⟨h1, h2⟩, h3⟩ := ih (stdMin a b)
    obtain ⟨m1, m2⟩ := stdMin_le a b
    rw [List.foldl_cons]
    refine ⟨⟨le_trans h1 m1, fun c hc => ?_⟩, ?_⟩
    · rcases List.mem_cons.mp hc with hc | hc
      · rw [hc]; exact le_trans h1 m2
      · exact h2 c hc
    · rcases h3 with h3 | h3
      · rcases stdMin_mem a b with hm | hm
        · exact Or.inl (h3.trans hm)
        · exact Or.inr (by rw [h3, hm]; exact List.mem_cons_self _ _)
      · exact Or.inr (List.mem_cons_of_mem _ h3)

theorem foldl_stdMax : ∀ (l : List ℚ) (a : ℚ),
    (a ≤ l.foldl stdMax a ∧ ∀ c ∈ l, c ≤ l.foldl stdMax a) ∧
    (l.foldl stdMax a = a ∨ l.foldl stdMax a ∈ l) := by
  intro l
  induction l with
  | nil => intro a; exact ⟨⟨le_refl _, fun c hc => absurd hc (List.not_mem_nil c)⟩, Or.inl rfl⟩
  | cons b l ih =>
    intro a
    obtain ⟨⟨h1, h2⟩, h3⟩ := ih (stdMax a b)
    obtain ⟨m1, m2⟩ := stdMax_ge a b
    rw [List.foldl_cons]
    refine ⟨⟨le_trans m1 h1, fun c hc => ?_⟩, ?_⟩
    · rcases List.mem_cons.mp hc with hc | hc
      · rw [hc]; exact le_trans m2 h1
      · exact h2 c hc
    · rcases h3 with h3 | h3
      · rcases stdMax_mem a b with hm | hm
        · exact Or.inl (h3.trans hm)
        · exact Or.inr (by rw [h3, hm]; exact List.mem_cons_self _ _)
      · exact Or.inr (List.mem_cons_of_mem _ h3)

/-- The eight places of a block in the order of the loops `lz`, `ly`, `lx`. -/
theorem blockLoop_eq (body : Moments → Nat → Nat → Nat → Moments) (A B C D : Nat → Nat → Nat → ℚ)
    (hbody : ∀ st lx ly lz, lx < 2 → ly < 2 → lz < 2 →
      body st lx ly lz = { minV := stdMin st.minV (C lx ly lz),
                           maxV := stdMax st.maxV (D lx ly lz),
                           mean := st.mean + A lx ly lz, mean2 := st.mean2 + B lx ly lz }) :
    blockLoop body =
      { minV := [C 0 0 0, C 1 0 0, C 0 1 0, C 1 1 0, C 0 0 1, C 1 0 1, C 0 1 1, C 1 1 1].foldl
          stdMin FLT_MAX,
        maxV := [D 0 0 0, D 1 0 0, D 0 1 0, D 1 1 0, D 0 0 1, D 1 0 1, D 0 1 1, D 1 1 1].foldl
          stdMax (-FLT_MAX),
        mean := 0 + A 0 0 0 + A 1 0 0 + A 0 1 0 + A 1 1 0 + A 0 0 1 + A 1 0 1 + A 0 1 1
          + A 1 1 1,
        mean2 := 0 + B 0 0 0 + B 1 0 0 + B 0 1 0 + B 1 1 0 + B 0 0 1 + B 1 0 1 + B 0 1 1
          + B 1 1 1 } := by
  have hr : List.range 2 = [0, 1] := rfl
  have h0 : (0 : Nat) < 2 := by omega
  have h1 : (1 : Nat) < 2 := by omega
  unfold blockLoop
  rw [hr]
  simp only [List.foldl]
  rw [hbody _ 0 0 0 h0 h0 h0, hbody _ 1 0 0 h1 h0 h0, hbody _ 0 1 0 h0 h1 h0,
    hbody _ 1 1 0 h1 h1 h0, hbody _ 0 0 1 h0 h0 h1, hbody _ 1 0 1 h1 h0 h1,
    hbody _ 0 1 1 h0 h1 h1, hbody _ 1 1 1 h1 h1 h1]

/-- A block of side `2 s` is made of eight blocks of side `s`. -/
theorem blockSum_split (f : ℚ → ℚ) (volume : GridVolume) (s X Y Z : Nat) :
    blockSum f volume (2 * s) X Y Z =
      0 + blockSum f volume s (X + 0 * s) (Y + 0 * s) (Z + 0 * s)
        + blockSum f volume s (X + 1 * s) (Y + 0 * s) (Z + 0 * s)
        + blockSum f volume s (X + 0 * s) (Y + 1 * s) (Z + 0 * s)
        + blockSum f volume s (X + 1 * s) (Y + 1 * s) (Z + 0 * s)
        + blockSum f volume s (X + 0 * s) (Y + 0 * s) (Z + 1 * s)
        + blockSum f volume s (X + 1 * s) (Y + 0 * s) (Z + 1 * s)
        + blockSum f volume s (X + 0 * s) (Y + 1 * s) (Z + 1 * s)
        + blockSum f volume s (X + 1 * s) (Y + 1 * s) (Z + 1 * s) := by
  unfold blockSum
  simp only [two_mul, Finset.sum_range_add, Finset.sum_add_distrib, Nat.zero_mul, Nat.one_mul,
    Nat.add_zero, Nat.add_assoc]
  ring

/-- A place below `2 s` lies in the lower or in the upper half. -/
theorem split_half (s d : Nat) (hd : d < 2 * s) :
    ∃ l d', l < 2 ∧ d' < s ∧ d = l * s + d' := by
  by_cases h : d < s
  · exact ⟨0, d, by omega, h, by omega⟩
  · exact ⟨1, d - s, by omega, by omega, by omega⟩

theorem mem_eight {α : Type} (c : Nat → Nat → Nat → α) (lx ly lz : Nat) (hx : lx < 2)
    (hy : ly < 2) (hz : lz < 2) :
    c lx ly lz ∈ [c 0 0 0, c 1 0 0, c 0 1 0, c 1 1 0, c 0 0 1, c 1 0 1, c 0 1 1, c 1 1 1] := by
  interval_cases lx <;> interval_cases ly <;> interval_cases lz <;> simp

theorem eight_mem {α : Type} (c : Nat → Nat → Nat → α) (a : α)
    (h : a ∈ [c 0 0 0, c 1 0 0, c 0 1 0, c 1 1 0, c 0 0 1, c 1 0 1, c 0 1 1, c 1 1 1]) :
    ∃ lx ly lz, lx < 2 ∧ ly < 2 ∧ lz < 2 ∧ a = c lx ly lz := by
  simp only [List.mem_cons, List.mem_singleton, List.not_mem_nil, or_false] at h
  rcases h with h | h | h | h | h | h | h | h
  · exact ⟨0, 0, 0, by omega, by omega, by omega, h⟩
  · exact ⟨1, 0, 0, by omega, by omega, by omega, h⟩
  · exact ⟨0, 1, 0, by omega, by omega, by omega, h⟩
  · exact ⟨1, 1, 0, by omega, by omega, by omega, h⟩
  · exact ⟨0, 0, 1, by omega, by omega, by omega, h⟩
  · exact ⟨1, 0, 1, by omega, by omega, by omega, h⟩
  · exact ⟨0, 1, 1, by omega, by omega, by omega, h⟩
  · exact ⟨1, 1, 1, by omega, by omega, by omega, h⟩

theorem mean_merge (a0 a1 a2 a3 a4 a5 a6 a7 s : ℚ) (hs : s ≠ 0) :
    (0 + a0 / s ^ 3 + a1 / s ^ 3 + a2 / s ^ 3 + a3 / s ^ 3 + a4 / s ^ 3 + a5 / s ^ 3
      + a6 / s ^ 3 + a7 / s ^ 3) * (1 / 8) =
    (0 + a0 + a1 + a2 + a3 + a4 + a5 + a6 + a7) / (2 * s) ^ 3 := by
  have h8 : (2 * s) ^ 3 ≠ 0 := pow_ne_zero 3 (mul_ne_zero two_ne_zero hs)
  have h3 : s ^ 3 ≠ 0 := pow_ne_zero 3 hs
  have hi : (s ^ 3)⁻¹ * (2 * s) ^ 3 = 8 := by
    rw [mul_pow, ← mul_assoc, mul_comm _ ((2 : ℚ) ^ 3), mul_assoc, inv_mul_cancel₀ h3]
    norm_num
  rw [eq_div_iff h8]
  simp only [div_eq_mul_inv]
  linear_combination (a0 + a1 + a2 + a3 + a4 + a5 + a6 + a7) * (1 / 8) * hi

/-- The record that the loops over a block of eight cells store, when the eight cells hold
the statistics of the eight blocks of side `s`, holds the statistics of the block of side
`2 s`. -/
theorem merge_stats (volume : GridVolume) (s X Y Z : Nat) (c : Nat → Nat → Nat → float4)
    (hs : 0 < s)
    (hfin : ∀ X Y Z, -FLT_MAX ≤ densityAt volume X Y Z ∧ densityAt volume X Y Z ≤ FLT_MAX)
    (hc : ∀ lx ly lz, lx < 2 → ly < 2 → lz < 2 →
      BlockStats volume s (X + lx * s) (Y + ly * s) (Z + lz * s) (c lx ly lz)) :
    BlockStats volume (2 * s) X Y Z (momentsOf
      { minV := [(c 0 0 0).z, (c 1 0 0).z, (c 0 1 0).z, (c 1 1 0).z, (c 0 0 1).z, (c 1 0 1).z,
          (c 0 1 1).z, (c 1 1 1).z].foldl stdMin FLT_MAX,
        maxV := [(c 0 0 0).w, (c 1 0 0).w, (c 0 1 0).w, (c 1 1 0).w, (c 0 0 1).w, (c 1 0 1).w,
          (c 0 1 1).w, (c 1 1 1).w].foldl stdMax (-FLT_MAX),
        mean := 0 + (c 0 0 0).x + (c 1 0 0).x + (c 0 1 0).x + (c 1 1 0).x + (c 0 0 1).x
          + (c 1 0 1).x + (c 0 1 1).x + (c 1 1 1).x,
        mean2 := 0 + (c 0 0 0).y + (c 1 0 0).y + (c 0 1 0).y + (c 1 1 0).y + (c 0 0 1).y
          + (c 1 0 1).y + (c 0 1 1).y + (c 1 1 1).y }) := by
  have h0 : (0 : Nat) < 2 := by omega
  have h1 : (1 : Nat) < 2 := by omega
  have hsq : (s : ℚ) ≠ 0 := by exact_mod_cast (Nat.pos_iff_ne_zero.mp hs)
  obtain ⟨⟨n1, n2⟩, n3⟩ := foldl_stdMin [(c 0 0 0).z, (c 1 0 0).z, (c 0 1 0).z, (c 1 1 0).z,
    (c 0 0 1).z, (c 1 0 1).z, (c 0 1 1).z, (c 1 1 1).z] FLT_MAX
  obtain ⟨⟨x1, x2⟩, x3⟩ := foldl_stdMax [(c 0 0 0).w, (c 1 0 0).w, (c 0 1 0).w, (c 1 1 0).w,
    (c 0 0 1).w, (c 1 0 1).w, (c 0 1 1).w, (c 1 1 1).w] (-FLT_MAX)
  refine ⟨?_, ?_, ?_, ?_, ?_, ?_⟩
  · show (0 + (c 0 0 0).x + (c 1 0 0).x + (c 0 1 0).x + (c 1 1 0).x + (c 0 0 1).x
      + (c 1 0 1).x + (c 0 1 1).x + (c 1 1 1).x) * (1 / 8) = _
    rw [(hc 0 0 0 h0 h0 h0).mean, (hc 1 0 0 h1 h0 h0).mean, (hc 0 1 0 h0 h1 h0).mean,
      (hc 1 1 0 h1 h1 h0).mean, (hc 0 0 1 h0 h0 h1).mean, (hc 1 0 1 h1 h0 h1).mean,
      (hc 0 1 1 h0 h1 h1).mean, (hc 1 1 1 h1 h1 h1).mean, blockSum_split]
    push_cast
    exact mean_merge _ _ _ _ _ _ _ _ _ hsq
  · show (0 + (c 0 0 0).y + (c 1 0 0).y + (c 0 1 0).y + (c 1 1 0).y + (c 0 0 1).y
      + (c 1 0 1).y + (c 0 1 1).y + (c 1 1 1).y) * (1 / 8) = _
    rw [(hc 0 0 0 h0 h0 h0).mean2, (hc 1 0 0 h1 h0 h0).mean2, (hc 0 1 0 h0 h1 h0).mean2,
      (hc 1 1 0 h1 h1 h0).mean2, (hc 0 0 1 h0 h0 h1).mean2, (hc 1 0 1 h1 h0 h1).mean2,
      (hc 0 1 1 h0 h1 h1).mean2, (hc 1 1 1 h1 h1 h1).mean2, blockSum_split]
    push_cast
    exact mean_merge _ _ _ _ _ _ _ _ _ hsq
  · intro dx dy dz hx hy hz
    obtain ⟨lx, dx', a1, a2, a3⟩ := split_half s dx hx
    obtain ⟨ly, dy', b1, b2, b3⟩ := split_half s dy hy
    obtain ⟨lz, dz', c1, c2, c3⟩ := split_half s dz hz
    have hle := (hc lx ly lz a1 b1 c1).minLe dx' dy' dz' a2 b2 c2
    have hmem := mem_eight (fun lx ly lz => (c lx ly lz).z) lx ly lz a1 b1 c1
    rw [a3, b3, c3, ← Nat.add_assoc, ← Nat.add_assoc, ← Nat.add_assoc]
    exact le_trans (n2 _ hmem) hle
  · have key : ∃ lx ly lz, lx < 2 ∧ ly < 2 ∧ lz < 2 ∧
        [(c 0 0 0).z, (c 1 0 0).z, (c 0 1 0).z, (c 1 1 0).z, (c 0 0 1).z, (c 1 0 1).z,
          (c 0 1 1).z, (c 1 1 1).z].foldl stdMin FLT_MAX = (c lx ly lz).z := by
      rcases n3 with n3 | n3
      · refine ⟨0, 0, 0, h0, h0, h0, ?_⟩
        obtain ⟨dx, dy, dz, -, -, -, he⟩ := (hc 0 0 0 h0 h0 h0).minAt
        have hmem := mem_eight (fun lx ly lz => (c lx ly lz).z) 0 0 0 h0 h0 h0
        have hle := n2 _ hmem
        rw [n3] at hle ⊢
        have hup := (hfin (X + 0 * s + dx) (Y + 0 * s + dy) (Z + 0 * s + dz)).2
        rw [← he] at hup
        exact le_antisymm hle hup
      · exact eight_mem (fun lx ly lz => (c lx ly lz).z) _ n3
    obtain ⟨lx, ly, lz, a1, b1, c1, he⟩ := key
    obtain ⟨dx, dy, dz, a2, b2, c2, hd⟩ := (hc lx ly lz a1 b1 c1).minAt
    refine ⟨lx * s + dx, ly * s + dy, lz * s + dz, ?_, ?_, ?_, ?_⟩
    · interval_cases lx <;> omega
    · interval_cases ly <;> omega
    · interval_cases lz <;> omega
    · show List.foldl stdMin FLT_MAX _ = _
      rw [he, hd, Nat.add_assoc, Nat.add_assoc, Nat.add_assoc]
  · intro dx dy dz hx hy hz
    obtain ⟨lx, dx', a1, a2, a3⟩ := split_half s dx hx
    obtain ⟨ly, dy', b1, b2, b3⟩ := split_half s dy hy
    obtain ⟨lz, dz', c1, c2, c3⟩ := split_half s dz hz
    have hle := (hc lx ly lz a1 b1 c1).maxGe dx' dy' dz' a2 b2 c2
    have hmem := mem_eight (fun lx ly lz => (c lx ly lz).w) lx ly lz a1 b1 c1
    rw [a3, b3, c3, ← Nat.add_assoc, ← Nat.add_assoc, ← Nat.add_assoc]
    exact le_trans hle (x2 _ hmem)
  · have key : ∃ lx ly lz, lx < 2 ∧ ly < 2 ∧ lz < 2 ∧
        [(c 0 0 0).w, (c 1 0 0).w, (c 0 1 0).w, (c 1 1 0).w, (c 0 0 1).w, (c 1 0 1).w,
          (c 0 1 1).w, (c 1 1 1).w].foldl stdMax (-FLT_MAX) = (c lx ly lz).w := by
      rcases x3 with x3 | x3
      · refine ⟨0, 0, 0, h0, h0, h0, ?_⟩
        obtain ⟨dx, dy, dz, -, -, -, he⟩ := (hc 0 0 0 h0 h0 h0).maxAt
        have hmem := mem_eight (fun lx ly lz => (c lx ly lz).w) 0 0 0 h0 h0 h0
        have hle := x2 _ hmem
        rw [x3] at hle ⊢
        have hlow := (hfin (X + 0 * s + dx) (Y + 0 * s + dy) (Z + 0 * s + dz)).1
        rw [← he] at hlow
        exact le_antisymm hlow hle
      · exact eight_mem (fun lx ly lz => (c lx ly lz).w) _ x3
    obtain ⟨lx, ly, lz, a1, b1, c1, he⟩ := key
    obtain ⟨dx, dy, dz, a2, b2, c2, hd⟩ := (hc lx ly lz a1 b1 c1).maxAt
    refine ⟨lx * s + dx, ly * s + dy, lz * s + dz, ?_, ?_, ?_, ?_⟩
    · interval_cases lx <;> omega
    · interval_cases ly <;> omega
    · interval_cases lz <;> omega
    · show List.foldl stdMax (-FLT_MAX) _ = _
      rw [he, hd, Nat.add_assoc, Nat.add_assoc, Nat.add_assoc]

theorem cellsAt_mono {P : Nat → float4 → Prop} {len : Nat} {S S' : Nat → Prop}
    {m : List float4} (h : CellsAt P len S m) (hs : ∀ i, S' i → S i) : CellsAt P len S' m :=
  ⟨h.1, fun i hi => h.2 i (hs i hi)⟩

theorem cellsAt_set {P : Nat → float4 → Prop} {len : Nat} {S : Nat → Prop} {m : List float4}
    (j : Nat) (v : float4) (h : CellsAt P len S m) (hj : j < len) (hv : P j v) :
    CellsAt P len (fun i => S i ∨ i = j) (m.set j v) := by
  refine ⟨by rw [List.length_set]; exact h.1, fun i hi => ?_⟩
  by_cases hij : i = j
  · subst hij
    rw [getD_set_eq _ _ _ _ (by rw [h.1]; exact hj)]
    exact hv
  · rw [getD_set_ne _ _ _ _ _ (fun e => hij e.symm)]
    rcases hi with hi | hi
    · exact h.2 i hi
    · exact absurd hi hij

/-- A loop over `range n` whose body keeps the good places good and makes the places `W k`
good leaves the places of all `k < n` good. -/
theorem loopAt_ok (P : Nat → float4 → Prop) (len : Nat)
    (step : List float4 → Nat → List float4)
    (W : Nat → Nat → Prop) (S : Nat → Prop) (N : Nat)
    (hstep : ∀ k S', (∀ i, S i → S' i) → ∀ m, CellsAt P len S' m → k < N →
      CellsAt P len (fun i => S' i ∨ W k i) (step m k)) :
    ∀ n, n ≤ N → ∀ m, CellsAt P len S m →
      CellsAt P len (fun i => S i ∨ ∃ k, k < n ∧ W k i) ((List.range n).foldl step m) := by
  intro n
  induction n with
  | zero =>
    intro _ m hm
    exact cellsAt_mono hm (fun i hi => by
      rcases hi with hi | ⟨k, hk, -⟩
      · exact hi
      · exact absurd hk (by omega))
  | succ n ih =>
    intro hn m hm
    rw [foldl_range_succ]
    have h1 := ih (by omega) m hm
    have h2 := hstep n _ (fun i hi => Or.inl hi) _ h1 (by omega)
    exact cellsAt_mono h2 (fun i hi => by
      rcases hi with hi | ⟨k, hk, hw⟩
      · exact Or.inl (Or.inl hi)
      · by_cases hkn : k = n
        · subst hkn; exact Or.inr hw
        · exact Or.inl (Or.inr ⟨k, by omega, hw⟩))

/-- The three loops of `fillCells` leave good what was good and make the cells of the level
good, when every record they compute from such moments is the one its place should hold. -/
theorem fillCellsAt_ok (P : Nat → float4 → Prop) (len : Nat)
    (cell : List float4 → Nat → Nat → Nat → float4)
    (res base : Nat) (S : Nat → Prop) (hres : res < 2 ^ 31) (hb : base + res ^ 3 ≤ len)
    (hl : len < 2 ^ 64)
    (hcell : ∀ m', CellsAt P len S m' → ∀ x y z, x < res → y < res → z < res →
      P (cellIndex base res x y z) (cell m' x y z))
    (m : List float4) (hm : CellsAt P len S m) :
    CellsAt P len (fun i => S i ∨ LevelCells base res i) (fillCells cell res base m) := by
  unfold fillCells
  simp only [if_pos hres]
  have hz := loopAt_ok P len
    (fun m z => (List.range res).foldl (fun m y => (List.range res).foldl (fun m x =>
      m.set ((base + x + y * res + z * res * res) % 2 ^ 64) (cell m x y z)) m) m)
    (fun z i => ∃ y, y < res ∧ ∃ x, x < res ∧ i = cellIndex base res x y z) S res
    (fun z S1 hS1 m1 hm1 hzlt =>
      loopAt_ok P len
        (fun m y => (List.range res).foldl (fun m x =>
          m.set ((base + x + y * res + z * res * res) % 2 ^ 64) (cell m x y z)) m)
        (fun y i => ∃ x, x < res ∧ i = cellIndex base res x y z) S1 res
        (fun y S2 hS2 m2 hm2 hylt =>
          loopAt_ok P len
            (fun m x => m.set ((base + x + y * res + z * res * res) % 2 ^ 64) (cell m x y z))
            (fun x i => i = cellIndex base res x y z) S2 res
            (fun x S3 hS3 m3 hm3 hxlt => by
              have hlt := cellIndex_lt base res x y z hxlt hylt hzlt
              have hidx : (base + x + y * res + z * res * res) % 2 ^ 64
                  = cellIndex base res x y z := by
                unfold cellIndex at hlt ⊢
                exact Nat.mod_eq_of_lt (by omega)
              show CellsAt P len (fun i => S3 i ∨ i = cellIndex base res x y z)
                (m3.set ((base + x + y * res + z * res * res) % 2 ^ 64) (cell m3 x y z))
              rw [hidx]
              exact cellsAt_set _ _ hm3 (by omega)
                (hcell m3 (cellsAt_mono hm3 (fun i hi => hS3 i (hS2 i (hS1 i hi)))) x y z hxlt hylt hzlt))
            res (le_refl _) m2 hm2)
        res (le_refl _) m1 hm1)
    res (le_refl _) m hm
  exact cellsAt_mono hz (fun i hi => by
    rcases hi with hi | ⟨x, y, z, hx, hy, hz', he⟩
    · exact Or.inl hi
    · exact Or.inr ⟨z, hz', y, hy, x, hx, he⟩)

/-- A cell of a level has one triple of coordinates. -/
theorem cellIndex_inj (base res x y z x' y' z' : Nat) (hx : x < res) (hy : y < res)
    (hx' : x' < res) (hy' : y' < res)
    (h : cellIndex base res x y z = cellIndex base res x' y' z') :
    x = x' ∧ y = y' ∧ z = z' := by
  unfold cellIndex at h
  have hpos : 0 < res := by omega
  have e : x + res * (y + res * z) = x' + res * (y' + res * z') := by
    have a1 : x + res * (y + res * z) = x + y * res + z * res * res := by ring
    have a2 : x' + res * (y' + res * z') = x' + y' * res + z' * res * res := by ring
    omega
  have ex : x = x' := by
    have := congrArg (· % res) e
    simpa [Nat.add_mul_mod_self_left, Nat.mod_eq_of_lt hx, Nat.mod_eq_of_lt hx'] using this
  subst ex
  have e2 : y + res * z = y' + res * z' := by
    have := Nat.eq_of_mul_eq_mul_left hpos (Nat.add_left_cancel e)
    exact this
  have ey : y = y' := by
    have := congrArg (· % res) e2
    simpa [Nat.add_mul_mod_self_left, Nat.mod_eq_of_lt hy, Nat.mod_eq_of_lt hy'] using this
  subst ey
  exact ⟨rfl, rfl, Nat.eq_of_mul_eq_mul_left hpos (Nat.add_left_cancel e2)⟩

/-- The levels of the chain lie one after the other. -/
theorem chain_ordered (offs ress : List Nat) (cur off total : Nat)
    (hchain : Chain cur off offs ress total) :
    ∀ j, j < ress.length → ∀ l, l < j →
      offs.getD l 0 + ress.getD l 0 ^ 3 ≤ offs.getD j 0 := by
  obtain ⟨-, -, -, f4, -⟩ := chain_facts offs ress cur off total hchain
  intro j
  induction j with
  | zero => intro _ l hl; omega
  | succ j ih =>
    intro hj l hl
    obtain ⟨-, g2⟩ := f4 j hj
    by_cases hlj : l = j
    · subst hlj; omega
    · have := ih (by omega) l (by omega)
      omega

/-- A place of the moments is the cell of one level only, with one triple of coordinates. -/
theorem cell_unique (offs ress : List Nat) (cur off total : Nat)
    (hchain : Chain cur off offs ress total) (l j x y z x' y' z' : Nat)
    (hl : l < ress.length) (hj : j < ress.length)
    (hx : x < ress.getD l 0) (hy : y < ress.getD l 0) (hz : z < ress.getD l 0)
    (hx' : x' < ress.getD j 0) (hy' : y' < ress.getD j 0) (hz' : z' < ress.getD j 0)
    (h : cellIndex (offs.getD l 0) (ress.getD l 0) x y z
      = cellIndex (offs.getD j 0) (ress.getD j 0) x' y' z') :
    l = j ∧ x = x' ∧ y = y' ∧ z = z' := by
  have b1 := cellIndex_lt (offs.getD l 0) (ress.getD l 0) x y z hx hy hz
  have b2 := cellIndex_lt (offs.getD j 0) (ress.getD j 0) x' y' z' hx' hy' hz'
  have c1 : offs.getD l 0 ≤ cellIndex (offs.getD l 0) (ress.getD l 0) x y z := by
    unfold cellIndex; omega
  have c2 : offs.getD j 0 ≤ cellIndex (offs.getD j 0) (ress.getD j 0) x' y' z' := by
    unfold cellIndex; omega
  have hlj : l = j := by
    rcases Nat.lt_trichotomy l j with hlt | heq | hgt
    · have := chain_ordered offs ress cur off total hchain j hj l hlt
      omega
    · exact heq
    · have := chain_ordered offs ress cur off total hchain l hl j hgt
      omega
  subst hlj
  exact ⟨rfl, cellIndex_inj _ _ _ _ _ _ _ _ hx hy hx' hy' h⟩

/-- A single cell is a block of side 1. -/
theorem unit_stats (volume : GridVolume) (X Y Z : Nat) :
    BlockStats volume 1 X Y Z
      ⟨densityAt volume X Y Z, densityAt volume X Y Z * densityAt volume X Y Z,
        densityAt volume X Y Z, densityAt volume X Y Z⟩ := by
  refine ⟨by simp [blockSum], by simp [blockSum], ?_, ⟨0, 0, 0, by omega, by omega, by omega, rfl⟩,
    ?_, ⟨0, 0, 0, by omega, by omega, by omega, rfl⟩⟩
  · intro dx dy dz hx hy hz
    have e1 : dx = 0 := by omega
    have e2 : dy = 0 := by omega
    have e3 : dz = 0 := by omega
    subst e1; subst e2; subst e3
    exact le_refl _
  · intro dx dy dz hx hy hz
    have e1 : dx = 0 := by omega
    have e2 : dy = 0 := by omega
    have e3 : dz = 0 := by omega
    subst e1; subst e2; subst e3
    exact le_refl _

/-- The record of a cell of the lowest level holds the statistics of its block of `2 x 2 x 2`
cells of the grid. -/
theorem gridCell_stats (volume : GridVolume) (R : Nat)
    (hres : volume.resolution = ⟨R, R, R⟩) (hR : R ^ 3 < 2 ^ 64)
    (hfin : ∀ X Y Z, -FLT_MAX ≤ densityAt volume X Y Z ∧ densityAt volume X Y Z ≤ FLT_MAX)
    (x y z : Nat) (hx : x < R / 2) (hy : y < R / 2) (hz : z < R / 2) :
    BlockStats volume (2 * 1) (x * 2) (y * 2) (z * 2) (gridCell volume x y z) := by
  have hpos : 0 < R := by omega
  have hR1 : R ≤ R ^ 3 := by
    calc R = R ^ 1 := (pow_one R).symm
      _ ≤ R ^ 3 := Nat.pow_le_pow_right hpos (by norm_num)
  have hbody : ∀ (st : Moments) lx ly lz, lx < 2 → ly < 2 → lz < 2 →
      (let offset := (x * 2 + lx + (y * 2 + ly) % 2 ^ 64 * volume.resolution.x
          + (z * 2 + lz) % 2 ^ 64 * volume.resolution.x * volume.resolution.y) % 2 ^ 64
        let density := volume.densityArray.getD offset 0
        ({ mean := st.mean + density
           mean2 := st.mean2 + density * density
           minV := stdMin st.minV density
           maxV := stdMax st.maxV density } : Moments)) =
      { minV := stdMin st.minV (densityAt volume (x * 2 + lx * 1) (y * 2 + ly * 1)
          (z * 2 + lz * 1)),
        maxV := stdMax st.maxV (densityAt volume (x * 2 + lx * 1) (y * 2 + ly * 1)
          (z * 2 + lz * 1)),
        mean := st.mean + densityAt volume (x * 2 + lx * 1) (y * 2 + ly * 1) (z * 2 + lz * 1),
        mean2 := st.mean2 + densityAt volume (x * 2 + lx * 1) (y * 2 + ly * 1) (z * 2 + lz * 1)
          * densityAt volume (x * 2 + lx * 1) (y * 2 + ly * 1) (z * 2 + lz * 1) } := by
    intro st lx ly lz hlx hly hlz
    have hlt := cellIndex_lt 0 R (x * 2 + lx) (y * 2 + ly) (z * 2 + lz)
      (by omega) (by omega) (by omega)
    unfold cellIndex at hlt
    have h1 : (y * 2 + ly) % 2 ^ 64 = y * 2 + ly := Nat.mod_eq_of_lt (by omega)
    have h2 : (z * 2 + lz) % 2 ^ 64 = z * 2 + lz := Nat.mod_eq_of_lt (by omega)
    have hoff : (x * 2 + lx + (y * 2 + ly) % 2 ^ 64 * volume.resolution.x
        + (z * 2 + lz) % 2 ^ 64 * volume.resolution.x * volume.resolution.y) % 2 ^ 64
        = x * 2 + lx * 1 + (y * 2 + ly * 1) * volume.resolution.x
          + volume.resolution.x * volume.resolution.y * (z * 2 + lz * 1) := by
      rw [hres, h1, h2]
      show (x * 2 + lx + (y * 2 + ly) * R + (z * 2 + lz) * R * R) % 2 ^ 64 = _
      rw [Nat.mod_eq_of_lt (by omega), Nat.mul_one, Nat.mul_one, Nat.mul_one]
      ring
    simp only [hoff, densityAt]
  unfold gridCell
  rw [blockLoop_eq _
    (fun lx ly lz => densityAt volume (x * 2 + lx * 1) (y * 2 + ly * 1) (z * 2 + lz * 1))
    (fun lx ly lz => densityAt volume (x * 2 + lx * 1) (y * 2 + ly * 1) (z * 2 + lz * 1)
      * densityAt volume (x * 2 + lx * 1) (y * 2 + ly * 1) (z * 2 + lz * 1))
    (fun lx ly lz => densityAt volume (x * 2 + lx * 1) (y * 2 + ly * 1) (z * 2 + lz * 1))
    (fun lx ly lz => densityAt volume (x * 2 + lx * 1) (y * 2 + ly * 1) (z * 2 + lz * 1))
    hbody]
  exact merge_stats volume 1 (x * 2) (y * 2) (z * 2)
    (fun lx ly lz => ⟨densityAt volume (x * 2 + lx * 1) (y * 2 + ly * 1) (z * 2 + lz * 1),
      densityAt volume (x * 2 + lx * 1) (y * 2 + ly * 1) (z * 2 + lz * 1)
        * densityAt volume (x * 2 + lx * 1) (y * 2 + ly * 1) (z * 2 + lz * 1),
      densityAt volume (x * 2 + lx * 1) (y * 2 + ly * 1) (z * 2 + lz * 1),
      densityAt volume (x * 2 + lx * 1) (y * 2 + ly * 1) (z * 2 + lz * 1)⟩)
    (by omega) hfin (fun lx ly lz _ _ _ => unit_stats volume _ _ _)

/-- The record of a cell of an upper level holds the statistics of its block when the cells
of the level below hold theirs. -/
theorem cacheCell_stats (volume : GridVolume) (offs ress : List Nat) (cur total : Nat)
    (hchain : Chain cur 0 offs ress total) (ht : total < 2 ^ 64) (hcur : cur < 2 ^ 31)
    (hfin : ∀ X Y Z, -FLT_MAX ≤ densityAt volume X Y Z ∧ densityAt volume X Y Z ≤ FLT_MAX)
    (j : Nat) (hj : j + 1 < ress.length) (S : Nat → Prop)
    (hS : ∀ i, LevelCells (offs.getD j 0) (ress.getD j 0) i → S i)
    (m : List float4) (hm : CellsAt (LevelStats volume offs ress) total S m)
    (x y z : Nat) (hx : x < ress.getD (j + 1) 0) (hy : y < ress.getD (j + 1) 0)
    (hz : z < ress.getD (j + 1) 0) :
    LevelStats volume offs ress (cellIndex (offs.getD (j + 1) 0) (ress.getD (j + 1) 0) x y z)
      (cacheCell offs (j + 1) (ress.getD j 0) m x y z) := by
  obtain ⟨-, -, f3, f4, -⟩ := chain_facts offs ress cur 0 total hchain
  obtain ⟨g1, -⟩ := f4 j hj
  obtain ⟨a1, a2, a3⟩ := f3 j (by omega)
  rw [g1] at hx hy hz
  have hcell : ∀ lx ly lz, lx < 2 → ly < 2 → lz < 2 →
      BlockStats volume (2 ^ (j + 1)) (x * 2 ^ (j + 1 + 1) + lx * 2 ^ (j + 1))
        (y * 2 ^ (j + 1 + 1) + ly * 2 ^ (j + 1)) (z * 2 ^ (j + 1 + 1) + lz * 2 ^ (j + 1))
        (m.getD (cellIndex (offs.getD j 0) (ress.getD j 0) (x * 2 + lx) (y * 2 + ly)
          (z * 2 + lz)) default) := by
    intro lx ly lz hlx hly hlz
    have hP := hm.2 _ (hS _ ⟨x * 2 + lx, y * 2 + ly, z * 2 + lz, by omega, by omega, by omega,
      rfl⟩) j (x * 2 + lx) (y * 2 + ly) (z * 2 + lz) (by omega) (by omega) (by omega)
      (by omega) rfl
    have e : ∀ u l : Nat, (u * 2 + l) * 2 ^ (j + 1) = u * 2 ^ (j + 1 + 1) + l * 2 ^ (j + 1) := by
      intro u l; ring
    rw [e, e, e] at hP
    exact hP
  have hbody : ∀ (st : Moments) lx ly lz, lx < 2 → ly < 2 → lz < 2 →
      (let offset := (offs.getD (j + 1 - 1) 0 + x * 2 + lx + (y * 2 + ly) % 2 ^ 32 * ress.getD j 0
          + (z * 2 + lz) % 2 ^ 32 * ress.getD j 0 * ress.getD j 0) % 2 ^ 64
        let data := m.getD offset default
        ({ mean := st.mean + data.x
           mean2 := st.mean2 + data.y
           minV := stdMin st.minV data.z
           maxV := stdMax st.maxV data.w } : Moments)) =
      { minV := stdMin st.minV (m.getD (cellIndex (offs.getD j 0) (ress.getD j 0) (x * 2 + lx)
          (y * 2 + ly) (z * 2 + lz)) default).z,
        maxV := stdMax st.maxV (m.getD (cellIndex (offs.getD j 0) (ress.getD j 0) (x * 2 + lx)
          (y * 2 + ly) (z * 2 + lz)) default).w,
        mean := st.mean + (m.getD (cellIndex (offs.getD j 0) (ress.getD j 0) (x * 2 + lx)
          (y * 2 + ly) (z * 2 + lz)) default).x,
        mean2 := st.mean2 + (m.getD (cellIndex (offs.getD j 0) (ress.getD j 0) (x * 2 + lx)
          (y * 2 + ly) (z * 2 + lz)) default).y } := by
    intro st lx ly lz hlx hly hlz
    have hlt := cellIndex_lt (offs.getD j 0) (ress.getD j 0) (x * 2 + lx) (y * 2 + ly)
      (z * 2 + lz) (by omega) (by omega) (by omega)
    have h1 : (y * 2 + ly) % 2 ^ 32 = y * 2 + ly := Nat.mod_eq_of_lt (by omega)
    have h2 : (z * 2 + lz) % 2 ^ 32 = z * 2 + lz := Nat.mod_eq_of_lt (by omega)
    have hoff : (offs.getD (j + 1 - 1) 0 + x * 2 + lx + (y * 2 + ly) % 2 ^ 32 * ress.getD j 0
        + (z * 2 + lz) % 2 ^ 32 * ress.getD j 0 * ress.getD j 0) % 2 ^ 64
        = cellIndex (offs.getD j 0) (ress.getD j 0) (x * 2 + lx) (y * 2 + ly) (z * 2 + lz) := by
      rw [h1, h2, Nat.add_sub_cancel]
      unfold cellIndex at hlt ⊢
      rw [Nat.mod_eq_of_lt (by omega)]
      omega
    simp only [hoff]
  have hmerge := merge_stats volume (2 ^ (j + 1)) (x * 2 ^ (j + 1 + 1)) (y * 2 ^ (j + 1 + 1))
    (z * 2 ^ (j + 1 + 1))
    (fun lx ly lz => m.getD (cellIndex (offs.getD j 0) (ress.getD j 0) (x * 2 + lx)
      (y * 2 + ly) (z * 2 + lz)) default)
    (Nat.pos_pow_of_pos _ (by norm_num)) hfin hcell
  have hpow : 2 * 2 ^ (j + 1) = 2 ^ (j + 1 + 1) := by rw [pow_succ _ (j + 1)]; ring
  rw [hpow] at hmerge
  intro l x' y' z' hl hx' hy' hz' hidx
  rw [← g1] at hx hy hz
  obtain ⟨e0, e1, e2, e3⟩ := cell_unique offs ress cur 0 total hchain (j + 1) l x y z x' y' z'
    hj hl hx hy hz hx' hy' hz' hidx
  subst e0; subst e1; subst e2; subst e3
  unfold cacheCell
  rw [blockLoop_eq _
    (fun lx ly lz => (m.getD (cellIndex (offs.getD j 0) (ress.getD j 0) (x * 2 + lx)
      (y * 2 + ly) (z * 2 + lz)) default).x)
    (fun lx ly lz => (m.getD (cellIndex (offs.getD j 0) (ress.getD j 0) (x * 2 + lx)
      (y * 2 + ly) (z * 2 + lz)) default).y)
    (fun lx ly lz => (m.getD (cellIndex (offs.getD j 0) (ress.getD j 0) (x * 2 + lx)
      (y * 2 + ly) (z * 2 + lz)) default).z)
    (fun lx ly lz => (m.getD (cellIndex (offs.getD j 0) (ress.getD j 0) (x * 2 + lx)
      (y * 2 + ly) (z * 2 + lz)) default).w)
    hbody]
  exact hmerge

/-- Along the loop over the levels, every level filled so far holds the statistics of its
blocks. -/
theorem levels_stats (volume : GridVolume) (offs ress : List Nat) (cur total : Nat)
    (hchain : Chain cur 0 offs ress total) (hcur : cur < 2 ^ 31) (ht : total < 2 ^ 64)
    (hfin : ∀ X Y Z, -FLT_MAX ≤ densityAt volume X Y Z ∧ densityAt volume X Y Z ≤ FLT_MAX)
    (st0 : LevelState)
    (h0 : st0.inputRes = ress.getD 0 0) (h1 : st0.outputRes = ress.getD 0 0 / 2)
    (h2 : CellsAt (LevelStats volume offs ress) total
      (LevelCells (offs.getD 0 0) (ress.getD 0 0)) st0.momentArray) :
    ∀ j, j + 1 ≤ ress.length →
      ((List.range' 1 j).foldl (fillLevel offs) st0).inputRes = ress.getD j 0 ∧
      ((List.range' 1 j).foldl (fillLevel offs) st0).outputRes = ress.getD j 0 / 2 ∧
      CellsAt (LevelStats volume offs ress) total
        (fun i => ∃ l, l ≤ j ∧ LevelCells (offs.getD l 0) (ress.getD l 0) i)
        ((List.range' 1 j).foldl (fillLevel offs) st0).momentArray := by
  obtain ⟨-, -, f3, f4, -⟩ := chain_facts offs ress cur 0 total hchain
  intro j
  induction j with
  | zero =>
    intro _
    refine ⟨h0, h1, cellsAt_mono h2 (fun i hi => ?_)⟩
    obtain ⟨l, hl, hc⟩ := hi
    have hl0 : l = 0 := by omega
    subst hl0
    exact hc
  | succ j ih =>
    intro hj
    obtain ⟨i1, i2, i3⟩ := ih (by omega)
    obtain ⟨g1, g2⟩ := f4 j (by omega)
    obtain ⟨a1, a2, a3⟩ := f3 j (by omega)
    obtain ⟨b1, b2, b3⟩ := f3 (j + 1) (by omega)
    rw [List.range'_1_concat, List.foldl_append]
    simp only [List.foldl]
    generalize (List.range' 1 j).foldl (fillLevel offs) st0 = st at i1 i2 i3
    have hidx : 1 + j = j + 1 := by omega
    rw [hidx]
    unfold fillLevel
    simp only
    rw [i1, i2, ← g1]
    refine ⟨rfl, by rw [Nat.shiftRight_eq_div_pow, pow_one], ?_⟩
    have hfill := fillCellsAt_ok (LevelStats volume offs ress) total
      (cacheCell offs (j + 1) (ress.getD j 0)) (ress.getD (j + 1) 0) (offs.getD (j + 1) 0)
      (fun i => ∃ l, l ≤ j ∧ LevelCells (offs.getD l 0) (ress.getD l 0) i) (by omega) b3 ht
      (fun m' hm' x y z hx hy hz =>
        cacheCell_stats volume offs ress cur total hchain ht hcur hfin j (by omega) _
          (fun i hi => ⟨j, le_refl _, hi⟩) m' hm' x y z hx hy hz)
      st.momentArray i3
    exact cellsAt_mono hfill (fun i hi => by
      obtain ⟨l, hl, hc⟩ := hi
      by_cases hlj : l = j + 1
      · subst hlj; exact Or.inr hc
      · exact Or.inl ⟨l, by omega, hc⟩)

/-- The contents of the cache that `build_heuristic_cache` makes of a cubic grid: every cell
of every level holds the statistics of its block. -/
theorem build_contents (volume : GridVolume) (R : Nat)
    (hres : volume.resolution = ⟨R, R, R⟩) (hR2 : 2 ≤ R) (hR : R ^ 3 < 2 ^ 64)
    (hfin : ∀ X Y Z, -FLT_MAX ≤ densityAt volume X Y Z ∧ densityAt volume X Y Z ≤ FLT_MAX) :
    ∃ cache, build_heuristic_cache volume emptyCache = .ok cache ∧
      cache.resolutions.length = cache.numLevels ∧
      (∀ l, l < cache.numLevels → cache.resolutions.getD l 0 = R / 2 ^ (l + 1)) ∧
      2 ^ cache.numLevels ≤ R ∧ R < 2 ^ (cache.numLevels + 1) ∧
      ∀ l x y z, l < cache.numLevels → x < cache.resolutions.getD l 0 →
        y < cache.resolutions.getD l 0 → z < cache.resolutions.getD l 0 →
        BlockStats volume (2 ^ (l + 1)) (x * 2 ^ (l + 1)) (y * 2 ^ (l + 1)) (z * 2 ^ (l + 1))
          (cache.momentArray.getD (cache.offsets.getD l 0 + x + y * cache.resolutions.getD l 0
            + z * cache.resolutions.getD l 0 * cache.resolutions.getD l 0) default) := by
  obtain ⟨offs, ress, total, hchain, htot, hb⟩ := build_shape volume R hres hR2 hR
  have hcur : 0 < R / 2 := by omega
  have hcube : 2 * (R / 2) ^ 3 ≤ R ^ 3 := half_cube_le R
  have hcur31 : R / 2 < 2 ^ 31 := by
    by_contra hn
    have h1 : 2 ^ 31 ≤ R / 2 := by omega
    have h2 : (2 ^ 31) ^ 3 ≤ (R / 2) ^ 3 := Nat.pow_le_pow_left h1 3
    have h3 : (2 ^ 31) ^ 3 = 2 ^ 93 := by norm_num
    omega
  obtain ⟨f1, f2, f3, f4, f5⟩ := chain_facts offs ress (R / 2) 0 total hchain
  obtain ⟨c1, c2, c3, c4, c5⟩ := chain_closed offs ress (R / 2) total hchain hcur
  obtain ⟨e1, e2, e3, e4, e5⟩ := f5 hcur
  obtain ⟨a1, a2, a3⟩ := f3 0 e1
  have hfirst := fillCellsAt_ok (LevelStats volume offs ress) total (fun _ => gridCell volume)
    (R / 2) 0 (fun _ => False) hcur31 (by rw [e2, e3] at a3; omega) htot
    (fun m' _ x y z hx hy hz => by
      intro l x' y' z' hl hx' hy' hz' hidx
      have hx0 : x < ress.getD 0 0 := by rw [e2]; exact hx
      have hy0 : y < ress.getD 0 0 := by rw [e2]; exact hy
      have hz0 : z < ress.getD 0 0 := by rw [e2]; exact hz
      have hidx' : cellIndex (offs.getD 0 0) (ress.getD 0 0) x y z
          = cellIndex (offs.getD l 0) (ress.getD l 0) x' y' z' := by
        rw [e2, e3]; exact hidx
      obtain ⟨d0, d1, d2, d3⟩ := cell_unique offs ress (R / 2) 0 total hchain 0 l x y z x' y' z'
        e1 hl hx0 hy0 hz0 hx' hy' hz' hidx'
      subst d0; subst d1; subst d2; subst d3
      have hg := gridCell_stats volume R hres hR hfin x y z hx hy hz
      have hp : (2 : Nat) ^ (0 + 1) = 2 * 1 := by norm_num
      rw [hp]
      exact hg)
    (resize [] total) ⟨length_resize _ _, fun i hi => absurd hi id⟩
  have hlv := levels_stats volume offs ress (R / 2) total hchain hcur31 htot hfin
    { inputRes := R / 2, outputRes := R / 2 / 2,
      momentArray := fillCells (fun _ => gridCell volume) (R / 2) 0 (resize [] total) }
    e2.symm (by rw [e2]) (by
      rw [e2, e3]
      exact cellsAt_mono hfirst (fun i hi => Or.inr hi))
    (ress.length - 1) (by omega)
  obtain ⟨-, -, hcells⟩ := hlv
  refine ⟨_, hb, rfl, ?_, ?_, ?_, ?_⟩
  · intro l hl
    show ress.getD l 0 = R / 2 ^ (l + 1)
    rw [c1 l hl, Nat.div_div_eq_div_mul, pow_succ, Nat.mul_comm]
  · show 2 ^ ress.length ≤ R
    have hl : ress.length = (ress.length - 1) + 1 := by omega
    rw [hl, pow_succ]
    have := Nat.div_mul_le_self R 2
    omega
  · show R < 2 ^ (ress.length + 1)
    rw [pow_succ]
    omega
  · intro l x y z hl hx hy hz
    exact hcells.2 _ ⟨l, by show l ≤ ress.length - 1; have : l < ress.length := hl; omega,
      ⟨x, y, z, hx, hy, hz, rfl⟩⟩ l x y z hl hx hy hz rfl

/-- C12: the contents of the cache.  For a cubic grid of resolution `R = 2 ^ n`,
`n >= 1`, whose cells fit 64-bit offsets and whose densities are finite floats,
`build_heuristic_cache` returns a cache of `n` levels in which the cell `(x, y, z)` of every
level `l` holds, in exact arithmetic, the mean, the mean of the squares, the minimum and the
maximum of the densities over the block of side `2 ^ (l + 1)` with corner
`(x, y, z) * 2 ^ (l + 1)`; the only cell of the last level holds those of the whole
grid. -/
theorem C12_pyramid_contents (volume : GridVolume) (n : Nat)
    (hres : volume.resolution = ⟨2 ^ n, 2 ^ n, 2 ^ n⟩) (hn : 1 ≤ n)
    (hR : (2 ^ n) ^ 3 < 2 ^ 64)
    (hfin : ∀ d ∈ volume.densityArray, -FLT_MAX ≤ d ∧ d ≤ FLT_MAX) :
    ∃ cache, build_heuristic_cache volume emptyCache = .ok cache ∧
      cache.numLevels = n ∧
      (∀ l x y z, l < cache.numLevels → x < cache.resolutions.getD l 0 →
        y < cache.resolutions.getD l 0 → z < cache.resolutions.getD l 0 →
        BlockStats volume (2 ^ (l + 1)) (x * 2 ^ (l + 1)) (y * 2 ^ (l + 1)) (z * 2 ^ (l + 1))
          (cache.momentArray.getD (cache.offsets.getD l 0 + x + y * cache.resolutions.getD l 0
            + z * cache.resolutions.getD l 0 * cache.resolutions.getD l 0) default)) ∧
      cache.resolutions.getD (n - 1) 0 = 1 ∧
      BlockStats volume (2 ^ n) 0 0 0
        (cache.momentArray.getD (cache.offsets.getD (n - 1) 0) default) := by
  have hfin' : ∀ X Y Z, -FLT_MAX ≤ densityAt volume X Y Z ∧ densityAt volume X Y Z ≤ FLT_MAX := by
    intro X Y Z
    unfold densityAt
    rw [List.getD_eq_getElem?_getD]
    cases hget : volume.densityArray[X + Y * volume.resolution.x
        + volume.resolution.x * volume.resolution.y * Z]? with
    | none => simp only [Option.getD_none]; constructor <;> norm_num [FLT_MAX]
    | some d =>
      simp only [Option.getD_some]
      exact hfin d (List.getElem?_mem hget)
  have hR2 : 2 ≤ 2 ^ n := by
    calc 2 = 2 ^ 1 := rfl
      _ ≤ 2 ^ n := Nat.pow_le_pow_right (by norm_num) hn
  obtain ⟨cache, hb, h1, h2, h3, h4, h5⟩ := build_contents volume (2 ^ n) hres hR2 hR hfin'
  have hnum : cache.numLevels = n := by
    have a1 : cache.numLevels ≤ n := (Nat.pow_le_pow_iff_right (by norm_num)).mp h3
    have a2 : n < cache.numLevels + 1 := (Nat.pow_lt_pow_iff_right (by norm_num)).mp h4
    omega
  have hlast : cache.resolutions.getD (n - 1) 0 = 1 := by
    rw [h2 (n - 1) (by omega)]
    have hl : n - 1 + 1 = n := by omega
    rw [hl]
    exact Nat.div_self (by omega)
  refine ⟨cache, hb, hnum, h5, hlast, ?_⟩
  have h := h5 (n - 1) 0 0 0 (by omega) (by omega) (by omega) (by omega)
  have hl : n - 1 + 1 = n := by omega
  simp only [hl, Nat.zero_mul, Nat.add_zero] at h
  exact h

/-- Witness of C12: the grid of `2 x 2 x 2` cells with the densities 1 to 8. -/
theorem C12_pyramid_contents_witness :
    ∃ cache, build_heuristic_cache sampleGrid emptyCache = .ok cache ∧
      cache.numLevels = 1 ∧
      (∀ l x y z, l < cache.numLevels → x < cache.resolutions.getD l 0 →
        y < cache.resolutions.getD l 0 → z < cache.resolutions.getD l 0 →
        BlockStats sampleGrid (2 ^ (l + 1)) (x * 2 ^ (l + 1)) (y * 2 ^ (l + 1))
          (z * 2 ^ (l + 1))
          (cache.momentArray.getD (cache.offsets.getD l 0 + x + y * cache.resolutions.getD l 0
            + z * cache.resolutions.getD l 0 * cache.resolutions.getD l 0) default)) ∧
      cache.resolutions.getD (1 - 1) 0 = 1 ∧
      BlockStats sampleGrid (2 ^ 1) 0 0 0
        (cache.momentArray.getD (cache.offsets.getD (1 - 1) 0) default) :=
  C12_pyramid_contents sampleGrid 1 rfl (by decide) (by decide)
    (by
      intro d hd
      simp only [sampleGrid, List.mem_cons, List.mem_singleton, List.not_mem_nil, or_false] at hd
      rcases hd with h | h | h | h | h | h | h | h <;> subst h <;> constructor <;>
        norm_num [FLT_MAX])

/-! ## The Morton codes -/

/-- A bit of one step `(v | (v << k)) & M` of `interleave_bits`. -/
theorem spread_testBit (v k M j : Nat) :
    ((v ||| (v <<< k) % 2 ^ 64) &&& M).testBit j =
      ((v.testBit j || (decide (j < 64) && (decide (k ≤ j) && v.testBit (j - k))))
        && M.testBit j) := by
  simp only [Nat.testBit_and, Nat.testBit_or, Nat.testBit_mod_two_pow, Nat.testBit_shiftLeft,
    ge_iff_le]

theorem mask_high (M j : Nat) (hM : M < 2 ^ 64) (hj : ¬ j < 64) : M.testBit j = false :=
  Nat.testBit_lt_two_pow (lt_of_lt_of_le hM (Nat.pow_le_pow_right (by norm_num) (by omega)))

theorem mask0 : ∀ j, j < 64 → Nat.testBit 0x1fffff j = decide (j < 21) := by decide

theorem mask1 : ∀ j, j < 64 →
    Nat.testBit 0x0000003F0000FFFF j = decide (j % 32 < 16 ∧ j < 38) := by decide

theorem mask2 : ∀ j, j < 64 →
    Nat.testBit 0x003F0000FF0000FF j = decide (j % 24 < 8 ∧ j < 54) := by decide

theorem mask3 : ∀ j, j < 64 →
    Nat.testBit 0x300F00F00F00F00F j = decide (j % 12 < 4 ∧ j < 62) := by decide

theorem mask4 : ∀ j, j < 64 →
    Nat.testBit 0x30C30C30C30C30C3 j = decide (j % 6 < 2 ∧ j < 62) := by decide

theorem mask5 : ∀ j, j < 64 →
    Nat.testBit 0x9249249249249249 j = decide (j % 3 = 0) := by decide

theorem step0 (x j : Nat) : (x &&& 0x1fffff).testBit j = spreadBit x 21 0 j := by
  unfold spreadBit
  rw [Nat.testBit_and]
  by_cases hj : j < 64
  · rw [mask0 j hj]
    interval_cases j <;> simp
  · rw [mask_high 0x1fffff j (by norm_num) hj]
    have h1 : ¬ (j / (21 + 0) * 21 + j % (21 + 0) < 21) := by omega
    simp [h1]

theorem step1 (x v : Nat) (hv : ∀ j, v.testBit j = spreadBit x 21 0 j) (j : Nat) :
    ((v ||| (v <<< 16) % 2 ^ 64) &&& 0x0000003F0000FFFF).testBit j = spreadBit x 16 16 j := by
  rw [spread_testBit, hv, hv]
  unfold spreadBit
  by_cases hj : j < 64
  · rw [mask1 j hj]
    interval_cases j <;> simp
  · rw [mask_high 0x0000003F0000FFFF j (by norm_num) hj]
    have h1 : ¬ (j % (16 + 16) < 16 ∧ j / (16 + 16) * 16 + j % (16 + 16) < 21) := by omega
    have h2 : (decide (j % (16 + 16) < 16) && decide (j / (16 + 16) * 16 + j % (16 + 16) < 21)) = false := by
      rw [← Bool.not_eq_true, Bool.and_eq_true, decide_eq_true_eq, decide_eq_true_eq]
      exact h1
    rw [h2]
    simp only [Bool.and_false, Bool.false_and]

theorem step2 (x v : Nat) (hv : ∀ j, v.testBit j = spreadBit x 16 16 j) (j : Nat) :
    ((v ||| (v <<< 16) % 2 ^ 64) &&& 0x003F0000FF0000FF).testBit j = spreadBit x 8 16 j := by
  rw [spread_testBit, hv, hv]
  unfold spreadBit
  by_cases hj : j < 64
  · rw [mask2 j hj]
    interval_cases j <;> simp
  · rw [mask_high 0x003F0000FF0000FF j (by norm_num) hj]
    have h1 : ¬ (j % (8 + 16) < 8 ∧ j / (8 + 16) * 8 + j % (8 + 16) < 21) := by omega
    have h2 : (decide (j % (8 + 16) < 8) && decide (j / (8 + 16) * 8 + j % (8 + 16) < 21)) = false := by
      rw [← Bool.not_eq_true, Bool.and_eq_true, decide_eq_true_eq, decide_eq_true_eq]
      exact h1
    rw [h2]
    simp only [Bool.and_false, Bool.false_and]

theorem step3 (x v : Nat) (hv : ∀ j, v.testBit j = spreadBit x 8 16 j) (j : Nat) :
    ((v ||| (v <<< 8) % 2 ^ 64) &&& 0x300F00F00F00F00F).testBit j = spreadBit x 4 8 j := by
  rw [spread_testBit, hv, hv]
  unfold spreadBit
  by_cases hj : j < 64
  · rw [mask3 j hj]
    interval_cases j <;> simp
  · rw [mask_high 0x300F00F00F00F00F j (by norm_num) hj]
    have h1 : ¬ (j % (4 + 8) < 4 ∧ j / (4 + 8) * 4 + j % (4 + 8) < 21) := by omega
    have h2 : (decide (j % (4 + 8) < 4) && decide (j / (4 + 8) * 4 + j % (4 + 8) < 21)) = false := by
      rw [← Bool.not_eq_true, Bool.and_eq_true, decide_eq_true_eq, decide_eq_true_eq]
      exact h1
    rw [h2]
    simp only [Bool.and_false, Bool.false_and]

theorem step4 (x v : Nat) (hv : ∀ j, v.testBit j = spreadBit x 4 8 j) (j : Nat) :
    ((v ||| (v <<< 4) % 2 ^ 64) &&& 0x30C30C30C30C30C3).testBit j = spreadBit x 2 4 j := by
  rw [spread_testBit, hv, hv]
  unfold spreadBit
  by_cases hj : j < 64
  · rw [mask4 j hj]
    interval_cases j <;> simp
  · rw [mask_high 0x30C30C30C30C30C3 j (by norm_num) hj]
    have h1 : ¬ (j % (2 + 4) < 2 ∧ j / (2 + 4) * 2 + j % (2 + 4) < 21) := by omega
    have h2 : (decide (j % (2 + 4) < 2) && decide (j / (2 + 4) * 2 + j % (2 + 4) < 21)) = false := by
      rw [← Bool.not_eq_true, Bool.and_eq_true, decide_eq_true_eq, decide_eq_true_eq]
      exact h1
    rw [h2]
    simp only [Bool.and_false, Bool.false_and]

theorem step5 (x v : Nat) (hv : ∀ j, v.testBit j = spreadBit x 2 4 j) (j : Nat) :
    ((v ||| (v <<< 2) % 2 ^ 64) &&& 0x9249249249249249).testBit j = spreadBit x 1 2 j := by
  rw [spread_testBit, hv, hv]
  unfold spreadBit
  by_cases hj : j < 64
  · rw [mask5 j hj]
    interval_cases j <;> simp
  · rw [mask_high 0x9249249249249249 j (by norm_num) hj]
    have h1 : ¬ (j % (1 + 2) < 1 ∧ j / (1 + 2) * 1 + j % (1 + 2) < 21) := by omega
    have h2 : (decide (j % (1 + 2) < 1) && decide (j / (1 + 2) * 1 + j % (1 + 2) < 21)) = false := by
      rw [← Bool.not_eq_true, Bool.and_eq_true, decide_eq_true_eq, decide_eq_true_eq]
      exact h1
    rw [h2]
    simp only [Bool.and_false, Bool.false_and]

/-- The bits of `interleave_bits`: the bit `3 i` is the bit `i` of the input for `i < 21`,
and every other bit is zero. -/
theorem interleave_testBit (x j : Nat) :
    (interleave_bits x).testBit j =
      (decide (j % 3 = 0) && decide (j / 3 < 21) && x.testBit (j / 3)) := by
  have h := step5 x _ (step4 x _ (step3 x _ (step2 x _ (step1 x _ (step0 x))))) j
  unfold interleave_bits
  rw [h]
  unfold spreadBit
  have e1 : j % (1 + 2) = j % 3 := rfl
  have e2 : j / (1 + 2) = j / 3 := rfl
  rw [e1, e2]
  by_cases h0 : j % 3 = 0
  · have hlt : j % 3 < 1 := by omega
    simp [h0]
  · have hlt : ¬ j % 3 < 1 := by omega
    simp [h0, hlt]

theorem morton_testBit (x y z j : Nat) :
    (morton_encode_3D x y z).testBit j =
      ((decide (j < 64) && (decide (2 ≤ j) && (interleave_bits x).testBit (j - 2)))
        || (decide (j < 64) && (decide (1 ≤ j) && (interleave_bits y).testBit (j - 1)))
        || (interleave_bits z).testBit j) := by
  unfold morton_encode_3D
  simp only [Nat.testBit_or, Nat.testBit_mod_two_pow, Nat.testBit_shiftLeft, ge_iff_le]

/-- C18: the layout of the Morton code.  The code `morton_encode_3D(x, y, z)` is smaller
than `2 ^ 63`; for every `i` in `0..20` its bit `3 i + 2` is the bit `i` of `x`, its bit
`3 i + 1` the bit `i` of `y` and its bit `3 i` the bit `i` of `z`; and the bit `j` of
`interleave_bits(x)` is the bit `j / 3` of `x` when `j` is a multiple of 3 below 63, and zero
otherwise (so the input bits above bit 20 are ignored). -/
theorem C18_morton_layout (x y z : Nat) :
    morton_encode_3D x y z < 2 ^ 63 ∧
    (∀ i, i < 21 →
      (morton_encode_3D x y z).testBit (3 * i + 2) = x.testBit i ∧
      (morton_encode_3D x y z).testBit (3 * i + 1) = y.testBit i ∧
      (morton_encode_3D x y z).testBit (3 * i) = z.testBit i) ∧
    (∀ j, (interleave_bits x).testBit j =
      (decide (j % 3 = 0) && decide (j / 3 < 21) && x.testBit (j / 3))) := by
  have hzero : ∀ (u j : Nat), ¬ (j % 3 = 0 ∧ j / 3 < 21) →
      (interleave_bits u).testBit j = false := by
    intro u j h
    rw [interleave_testBit]
    have h2 : (decide (j % 3 = 0) && decide (j / 3 < 21)) = false := by
      rw [← Bool.not_eq_true, Bool.and_eq_true, decide_eq_true_eq, decide_eq_true_eq]
      exact h
    rw [h2, Bool.false_and]
  have hone : ∀ (u i : Nat), i < 21 → (interleave_bits u).testBit (3 * i) = u.testBit i := by
    intro u i hi
    rw [interleave_testBit]
    have e1 : 3 * i % 3 = 0 := by omega
    have e2 : 3 * i / 3 = i := by omega
    rw [e1, e2]
    simp [hi]
  have hshift : ∀ (u j k : Nat), ¬ (k ≤ j ∧ (j - k) % 3 = 0 ∧ (j - k) / 3 < 21) →
      (decide (j < 64) && (decide (k ≤ j) && (interleave_bits u).testBit (j - k))) = false := by
    intro u j k h
    by_cases hk : k ≤ j
    · rw [hzero u (j - k) (fun h2 => h ⟨hk, h2⟩)]
      simp
    · simp [hk]
  refine ⟨?_, fun i hi => ⟨?_, ?_, ?_⟩, interleave_testBit x⟩
  · apply Nat.lt_pow_two_of_testBit
    intro j hj
    have a3 : ¬ (j % 3 = 0 ∧ j / 3 < 21) := by omega
    by_cases h64 : j < 64
    · have a1 : ¬ (2 ≤ j ∧ (j - 2) % 3 = 0 ∧ (j - 2) / 3 < 21) := by omega
      have a2 : ¬ (1 ≤ j ∧ (j - 1) % 3 = 0 ∧ (j - 1) / 3 < 21) := by omega
      rw [morton_testBit, hshift x j 2 a1, hshift y j 1 a2, hzero z j a3]
      rfl
    · rw [morton_testBit, hzero z j a3]
      simp [h64]
  · have a2 : ¬ (1 ≤ 3 * i + 2 ∧ (3 * i + 2 - 1) % 3 = 0 ∧ (3 * i + 2 - 1) / 3 < 21) := by
      omega
    have a3 : ¬ ((3 * i + 2) % 3 = 0 ∧ (3 * i + 2) / 3 < 21) := by omega
    rw [morton_testBit, hshift y (3 * i + 2) 1 a2, hzero z (3 * i + 2) a3]
    have e : 3 * i + 2 - 2 = 3 * i := by omega
    rw [e, hone x i hi]
    have h1 : 3 * i + 2 < 64 := by omega
    simp [h1]
  · have a1 : ¬ (2 ≤ 3 * i + 1 ∧ (3 * i + 1 - 2) % 3 = 0 ∧ (3 * i + 1 - 2) / 3 < 21) := by
      omega
    have a3 : ¬ ((3 * i + 1) % 3 = 0 ∧ (3 * i + 1) / 3 < 21) := by omega
    rw [morton_testBit, hshift x (3 * i + 1) 2 a1, hzero z (3 * i + 1) a3]
    have e : 3 * i + 1 - 1 = 3 * i := by omega
    rw [e, hone y i hi]
    have h1 : 3 * i + 1 < 64 := by omega
    simp [h1]
  · have a1 : ¬ (2 ≤ 3 * i ∧ (3 * i - 2) % 3 = 0 ∧ (3 * i - 2) / 3 < 21) := by omega
    have a2 : ¬ (1 ≤ 3 * i ∧ (3 * i - 1) % 3 = 0 ∧ (3 * i - 1) / 3 < 21) := by omega
    rw [morton_testBit, hshift x (3 * i) 2 a1, hshift y (3 * i) 1 a2, hone z i hi]
    simp

/-! ## Queries of the table of Morton codes -/

/-- The call of `std::sort` is the last statement of `build_cache`. -/
theorem build_cache_sort (sort : List Element → List Element) (cache : MortonCache)
    (positionArray : List float3) (numPositions : Nat) :
    build_cache sort cache positionArray numPositions =
      { build_cache id cache positionArray numPositions with
        m_Cache := sort (build_cache id cache positionArray numPositions).m_Cache } := rfl

/-- More fuel does not change the result of the search. -/
theorem searchLoop_mono (target : Nat) (r : Nat × List Element) :
    ∀ (fuel : Nat) (low high : Int) (table : List Element),
      searchLoop target fuel low high table = .ok r →
      ∀ k, searchLoop target (fuel + k) low high table = .ok r := by
  intro fuel
  induction fuel with
  | zero => intro low high table h; exact absurd h (by simp [searchLoop, throw, throwThe, MonadExceptOf.throw])
  | succ fuel ih =>
    intro low high table h k
    have e : fuel + 1 + k = (fuel + k) + 1 := by omega
    rw [e]
    unfold searchLoop at h ⊢
    dsimp only at h ⊢
    split_ifs at h ⊢ <;> first | exact h | exact ih _ _ _ h k

/-- The search returns: the interval between `low` and `high` shrinks with every round. -/
theorem searchLoop_total (target : Nat) :
    ∀ (fuel : Nat) (low high : Int) (table : List Element), 0 < fuel →
      high - low + 1 < fuel → ∃ r, searchLoop target fuel low high table = .ok r := by
  intro fuel
  induction fuel with
  | zero => intro low high table h0 h; omega
  | succ fuel ih =>
    intro low high table _ h
    by_cases h1 : low ≤ high
    · have hd : (high - low).tdiv 2 = (high - low) / 2 := Int.tdiv_eq_ediv (by omega) (by norm_num)
      unfold searchLoop
      dsimp only
      rw [if_pos h1, hd]
      split_ifs <;> first | exact ⟨_, rfl⟩ | exact ih _ _ _ (by omega) (by omega)
    · unfold searchLoop
      rw [if_neg h1]
      exact ⟨_, rfl⟩

/-- A table whose codes increase strictly has one sorted arrangement. -/
theorem sorted_unique (l l' : List Element) (hp : l'.Perm l)
    (hs' : l'.Pairwise (fun a b => a.code ≤ b.code))
    (hs : l.Pairwise (fun a b => a.code < b.code)) : l' = l := by
  haveI : IsAntisymm Element (fun a b => a.code < b.code) :=
    ⟨fun a b h1 h2 => absurd h1 (by omega)⟩
  have hne : l.Pairwise (fun a b => a.code ≠ b.code) := hs.imp (fun h => by omega)
  have hne' : l'.Pairwise (fun a b => a.code ≠ b.code) :=
    (hp.pairwise_iff (fun {a b} (h : a.code ≠ b.code) => h.symm)).mpr hne
  have hlt : l'.Pairwise (fun a b => a.code < b.code) :=
    (hs'.and hne').imp (fun h => by omega)
  exact List.eq_of_perm_of_sorted hp hlt hs

/-- The table that `build_cache` makes of the five sample points, before the sorting. -/
theorem mortonTable_built :
    build_cache id emptyMorton mortonPoints 5 =
      { m_Cache := mortonTable, m_NumElements := 5, m_MinPosition := ⟨-1 / 2, -1 / 2, -1 / 2⟩,
        m_MaxPosition := ⟨1 / 2, 1 / 2, 1 / 2⟩ } := by decide!

/-- The cache of the five sample points, for every sorting routine. -/
theorem mortonCache_built (sort : List Element → List Element)
    (hperm : ∀ l, (sort l).Perm l)
    (hsorted : ∀ l, (sort l).Pairwise (fun a b => a.code ≤ b.code)) :
    build_cache sort emptyMorton mortonPoints 5 =
      { m_Cache := mortonTable, m_NumElements := 5, m_MinPosition := ⟨-1 / 2, -1 / 2, -1 / 2⟩,
        m_MaxPosition := ⟨1 / 2, 1 / 2, 1 / 2⟩ } := by
  rw [build_cache_sort, mortonTable_built]
  have h := sorted_unique mortonTable (sort mortonTable) (hperm _) (hsorted _) (by decide)
  simp only [h]

/-- The query at the second sample point: three rounds of the search. -/
theorem mortonQuery :
    get_closest_element 3
      { m_Cache := mortonTable, m_NumElements := 5, m_MinPosition := ⟨-1 / 2, -1 / 2, -1 / 2⟩,
        m_MaxPosition := ⟨1 / 2, 1 / 2, 1 / 2⟩ } ⟨1 / 2, 0, 1 / 2⟩ =
      .ok (2, { m_Cache := mortonTable.set 0 ⟨0x3000000000000000, 2⟩, m_NumElements := 5,
                m_MinPosition := ⟨-1 / 2, -1 / 2, -1 / 2⟩,
                m_MaxPosition := ⟨1 / 2, 1 / 2, 1 / 2⟩ }) := by decide!

theorem get_closest_mono (cache : MortonCache) (position : float3) (fuel k : Nat)
    (r : Nat × MortonCache) (h : get_closest_element fuel cache position = .ok r) :
    get_closest_element (fuel + k) cache position = .ok r := by
  unfold get_closest_element at h ⊢
  simp only [bind, Except.bind, pure, Except.pure] at h ⊢
  cases hs : searchLoop (evaluate_morton_code cache position) fuel 0
      (toInt32 (cache.m_NumElements + 2 ^ 32 - 1)) cache.m_Cache with
  | error e => rw [hs] at h; exact absurd h (by simp)
  | ok res =>
    rw [hs] at h
    rw [searchLoop_mono _ _ _ _ _ _ hs k]
    exact h

theorem sortByCode_perm (l : List Element) : (sortByCode l).Perm l :=
  List.perm_insertionSort _ l

theorem sortByCode_sorted (l : List Element) :
    (sortByCode l).Pairwise (fun a b => a.code ≤ b.code) := by
  haveI : IsTotal Element (fun a b => a.code ≤ b.code) := ⟨fun a b => Nat.le_total _ _⟩
  haveI : IsTrans Element (fun a b => a.code ≤ b.code) := ⟨fun a b c h1 h2 => Nat.le_trans h1 h2⟩
  exact List.sorted_insertionSort (fun a b => a.code ≤ b.code) l

/-- C19: an exact match that the lookup misses.  In the table built from the five sample
points, whatever routine sorts it, the point of index 1 has the code `0x2000000000000000`;
the query at that point returns the index 2, whose point has the code
`0x3000000000000000`. -/
theorem C19_exact_match_missed (sort : List Element → List Element)
    (hperm : ∀ l, (sort l).Perm l)
    (hsorted : ∀ l, (sort l).Pairwise (fun a b => a.code ≤ b.code)) (fuel : Nat) :
    evaluate_morton_code (build_cache sort emptyMorton mortonPoints 5) ⟨1 / 2, 0, 1 / 2⟩
      = 0x2000000000000000 ∧
    (build_cache sort emptyMorton mortonPoints 5).m_Cache.getD 1 default
      = ⟨0x2000000000000000, 1⟩ ∧
    (∃ cache, get_closest_element (3 + fuel) (build_cache sort emptyMorton mortonPoints 5)
      ⟨1 / 2, 0, 1 / 2⟩ = .ok (2, cache)) ∧
    ∀ e ∈ (build_cache sort emptyMorton mortonPoints 5).m_Cache,
      e.index = 2 → e.code = 0x3000000000000000 := by
  rw [mortonCache_built sort hperm hsorted]
  refine ⟨by decide!, by decide!, ⟨_, get_closest_mono _ _ 3 fuel _ mortonQuery⟩, by decide⟩

/-- Witness of C19 with insertion sort as the sorting routine. -/
theorem C19_exact_match_missed_witness :
    evaluate_morton_code (build_cache sortByCode emptyMorton mortonPoints 5) ⟨1 / 2, 0, 1 / 2⟩
      = 0x2000000000000000 ∧
    (build_cache sortByCode emptyMorton mortonPoints 5).m_Cache.getD 1 default
      = ⟨0x2000000000000000, 1⟩ ∧
    (∃ cache, get_closest_element (3 + 0) (build_cache sortByCode emptyMorton mortonPoints 5)
      ⟨1 / 2, 0, 1 / 2⟩ = .ok (2, cache)) ∧
    ∀ e ∈ (build_cache sortByCode emptyMorton mortonPoints 5).m_Cache,
      e.index = 2 → e.code = 0x3000000000000000 :=
  C19_exact_match_missed sortByCode sortByCode_perm sortByCode_sorted 0

/-- C21: a query that writes the table.  In the table built from the five sample points,
whatever routine sorts it, the query at the second point leaves a cache whose entry 0 is a
copy of the entry 2: the table is not the one from before the query. -/
theorem C21_query_writes_table (sort : List Element → List Element)
    (hperm : ∀ l, (sort l).Perm l)
    (hsorted : ∀ l, (sort l).Pairwise (fun a b => a.code ≤ b.code)) (fuel : Nat) :
    ∃ index cache, get_closest_element (3 + fuel) (build_cache sort emptyMorton mortonPoints 5)
        ⟨1 / 2, 0, 1 / 2⟩ = .ok (index, cache) ∧
      (build_cache sort emptyMorton mortonPoints 5).m_Cache.getD 0 default = ⟨0, 0⟩ ∧
      cache.m_Cache.getD 0 default = ⟨0x3000000000000000, 2⟩ ∧
      cache.m_Cache ≠ (build_cache sort emptyMorton mortonPoints 5).m_Cache := by
  rw [mortonCache_built sort hperm hsorted]
  exact ⟨_, _, get_closest_mono _ _ 3 fuel _ mortonQuery, by decide, by decide, by decide⟩

/-- Witness of C21 with insertion sort as the sorting routine. -/
theorem C21_query_writes_table_witness :
    ∃ index cache, get_closest_element (3 + 0)
        (build_cache sortByCode emptyMorton mortonPoints 5) ⟨1 / 2, 0, 1 / 2⟩
          = .ok (index, cache) ∧
      (build_cache sortByCode emptyMorton mortonPoints 5).m_Cache.getD 0 default = ⟨0, 0⟩ ∧
      cache.m_Cache.getD 0 default = ⟨0x3000000000000000, 2⟩ ∧
      cache.m_Cache ≠ (build_cache sortByCode emptyMorton mortonPoints 5).m_Cache :=
  C21_query_writes_table sortByCode sortByCode_perm sortByCode_sorted 0

/-- The table that `build_cache` makes of the two corners, before the sorting: both points
have the code 0. -/
theorem cornerTable_built :
    build_cache id emptyMorton cornerPoints 2 =
      { m_Cache := [⟨0, 0⟩, ⟨0, 1⟩], m_NumElements := 2,
        m_MinPosition := ⟨-1 / 2, -1 / 2, -1 / 2⟩, m_MaxPosition := ⟨1 / 2, 1 / 2, 1 / 2⟩ } := by
  decide!

/-- The code of a position does not depend on the table. -/
theorem evaluate_morton_code_table (table : List Element) (n : Nat) (lo hi p : float3) :
    evaluate_morton_code (MortonCache.mk table n lo hi) p =
    evaluate_morton_code (MortonCache.mk [] n lo hi) p := rfl

/-- A query for the code of the first entry of a table of two entries returns at once. -/
theorem search_first (table : List Element) (fuel : Nat)
    (h : (table.getD 0 default).code = 0) :
    searchLoop 0 (fuel + 1) 0 (toInt32 (2 + 2 ^ 32 - 1)) table
      = .ok ((table.getD 0 default).index, table) := by
  have hhigh : toInt32 (2 + 2 ^ 32 - 1) = 1 := by decide
  have hmid : ((0 : Int) + ((1 : Int) - 0).tdiv 2).toNat = 0 := by decide
  unfold searchLoop
  rw [hhigh]
  simp only [hmid, h, if_pos (show (0 : Int) ≤ 1 by decide), lt_irrefl, if_false,
    gt_iff_lt, Nat.sub_self, if_true, pure, Except.pure]

/-- The cache of the two corners, for every routine that arranges the table. -/
theorem cornerCache_built (sort : List Element → List Element) :
    build_cache sort emptyMorton cornerPoints 2 =
      MortonCache.mk (sort [⟨0, 0⟩, ⟨0, 1⟩]) 2 ⟨-1 / 2, -1 / 2, -1 / 2⟩ ⟨1 / 2, 1 / 2, 1 / 2⟩ := by
  rw [build_cache_sort, cornerTable_built]

theorem corner_code0 (table : List Element) :
    evaluate_morton_code
      (MortonCache.mk table 2 ⟨-1 / 2, -1 / 2, -1 / 2⟩ ⟨1 / 2, 1 / 2, 1 / 2⟩)
      ⟨-1 / 2, -1 / 2, -1 / 2⟩ = 0 := by
  rw [evaluate_morton_code_table]
  decide!

theorem corner_code1 (table : List Element) :
    evaluate_morton_code
      (MortonCache.mk table 2 ⟨-1 / 2, -1 / 2, -1 / 2⟩ ⟨1 / 2, 1 / 2, 1 / 2⟩)
      ⟨1 / 2, 1 / 2, 1 / 2⟩ = 0 := by
  rw [evaluate_morton_code_table]
  decide!

/-- The function `get_closest_element` in terms of the result of its loop. -/
theorem get_closest_eq (fuel : Nat) (cache : MortonCache) (position : float3)
    (r : Nat × List Element)
    (h : searchLoop (evaluate_morton_code cache position) fuel 0
      (toInt32 (cache.m_NumElements + 2 ^ 32 - 1)) cache.m_Cache = .ok r) :
    get_closest_element fuel cache position = .ok (r.1, { cache with m_Cache := r.2 }) := by
  unfold get_closest_element
  simp only [bind, Except.bind, pure, Except.pure]
  rw [h]

/-- A query whose code is 0, in a table of two entries whose first code is 0. -/
theorem corner_query (cache : MortonCache) (p : float3) (fuel : Nat)
    (hn : cache.m_NumElements = 2)
    (hcode : (cache.m_Cache.getD 0 default).code = 0)
    (hp : evaluate_morton_code cache p = 0) :
    get_closest_element (fuel + 1) cache p =
      .ok ((cache.m_Cache.getD 0 default).index, cache) := by
  have hs : searchLoop (evaluate_morton_code cache p) (fuel + 1) 0
      (toInt32 (cache.m_NumElements + 2 ^ 32 - 1)) cache.m_Cache
      = .ok ((cache.m_Cache.getD 0 default).index, cache.m_Cache) := by
    rw [hp, hn]
    exact search_first _ fuel hcode
  exact get_closest_eq (fuel + 1) cache p _ hs

/-- C20: the two opposite corners get the same code.  In the table built from the points
`(-0.5, -0.5, -0.5)` and `(0.5, 0.5, 0.5)`, whatever routine arranges it, both points have the
code 0 (the normalised coordinate 1 becomes `2 ^ 21`, which the cap to 21 bits turns into
0), and the queries at the two points return the same index, that of the entry 0 of the
table. -/
theorem C20_corners_share_code (sort : List Element → List Element)
    (hperm : ∀ l, (sort l).Perm l) (fuel : Nat) :
    evaluate_morton_code (build_cache sort emptyMorton cornerPoints 2)
      ⟨-1 / 2, -1 / 2, -1 / 2⟩ = 0 ∧
    evaluate_morton_code (build_cache sort emptyMorton cornerPoints 2) ⟨1 / 2, 1 / 2, 1 / 2⟩ = 0 ∧
    ∃ index,
      get_closest_element (fuel + 1) (build_cache sort emptyMorton cornerPoints 2)
        ⟨-1 / 2, -1 / 2, -1 / 2⟩
        = .ok (index, build_cache sort emptyMorton cornerPoints 2) ∧
      get_closest_element (fuel + 1) (build_cache sort emptyMorton cornerPoints 2)
        ⟨1 / 2, 1 / 2, 1 / 2⟩
        = .ok (index, build_cache sort emptyMorton cornerPoints 2) := by
  rw [cornerCache_built]
  have hcode : ((sort [⟨0, 0⟩, ⟨0, 1⟩]).getD 0 default).code = 0 := by
    have hlen : (sort [⟨0, 0⟩, ⟨0, 1⟩]).length = 2 := (hperm [⟨0, 0⟩, ⟨0, 1⟩]).length_eq
    have hmem : (sort [⟨0, 0⟩, ⟨0, 1⟩]).getD 0 default ∈ sort [⟨0, 0⟩, ⟨0, 1⟩] := by
      rw [List.getD_eq_getElem _ _ (by rw [hlen]; omega)]
      exact List.getElem_mem _
    have hmem2 := (hperm [⟨0, 0⟩, ⟨0, 1⟩]).mem_iff.mp hmem
    simp only [List.mem_cons, List.mem_singleton, List.not_mem_nil, or_false] at hmem2
    rcases hmem2 with h | h <;> rw [h]
  exact ⟨corner_code0 _, corner_code1 _, ((sort [⟨0, 0⟩, ⟨0, 1⟩]).getD 0 default).index,
    corner_query _ _ fuel rfl hcode (corner_code0 _),
    corner_query _ _ fuel rfl hcode (corner_code1 _)⟩

/-- Witness of C20 with insertion sort as the sorting routine: both queries return 0. -/
theorem C20_corners_share_code_witness :
    evaluate_morton_code (build_cache sortByCode emptyMorton cornerPoints 2)
      ⟨-1 / 2, -1 / 2, -1 / 2⟩ = 0 ∧
    evaluate_morton_code (build_cache sortByCode emptyMorton cornerPoints 2)
      ⟨1 / 2, 1 / 2, 1 / 2⟩ = 0 ∧
    ∃ index,
      get_closest_element (0 + 1) (build_cache sortByCode emptyMorton cornerPoints 2)
        ⟨-1 / 2, -1 / 2, -1 / 2⟩
        = .ok (index, build_cache sortByCode emptyMorton cornerPoints 2) ∧
      get_closest_element (0 + 1) (build_cache sortByCode emptyMorton cornerPoints 2)
        ⟨1 / 2, 1 / 2, 1 / 2⟩
        = .ok (index, build_cache sortByCode emptyMorton cornerPoints 2) :=
  C20_corners_share_code sortByCode sortByCode_perm 0

/-! ## The round trip of a compressed plane equation -/

theorem shiftRight_or (x y n : Nat) : (x ||| y) >>> n = x >>> n ||| y >>> n := by
  apply Nat.eq_of_testBit_eq
  intro i
  simp only [Nat.testBit_shiftRight, Nat.testBit_or]

theorem shiftRight_and (x y n : Nat) : (x &&& y) >>> n = x >>> n &&& y >>> n := by
  apply Nat.eq_of_testBit_eq
  intro i
  simp only [Nat.testBit_shiftRight, Nat.testBit_and]

/-- The five low bits of a compressed plane equation: the sign and the index. -/
theorem plane_low_bits : ∀ s, s < 2 → ∀ planeID, planeID < 9 →
    ((s <<< 4) % 2 ^ 32 ||| planeID) &&& 0xF = planeID ∧
    (((s <<< 4) % 2 ^ 32 ||| planeID) >>> 4) &&& 1 = s ∧
    ((s <<< 4) % 2 ^ 32 ||| planeID) &&& 0xFFFFFFE0 = 0 ∧
    ((s <<< 4) % 2 ^ 32 ||| planeID) &&& 0x10 = s * 16 := by decide

/-- The parts of the word that `compress_plane_equation` returns. -/
theorem compress_parts (k b : Nat) (hk : k < 18) :
    compress_plane_equation k b &&& 0xF = k % 9 ∧
    (compress_plane_equation k b >>> 4) &&& 1 = k / 9 ∧
    compress_plane_equation k b &&& 0xFFFFFFE0 = b &&& 0xFFFFFFE0 ∧
    compress_plane_equation k b &&& 0x10 = k / 9 * 16 := by
  obtain ⟨l1, l2, l3, l4⟩ := plane_low_bits (k / 9) (by omega) (k % 9) (by omega)
  unfold compress_plane_equation
  simp only
  rw [Nat.or_assoc]
  refine ⟨?_, ?_, ?_, ?_⟩
  · rw [or_and_const, l1, and_and_const _ _ _ 0 (by decide), Nat.and_zero, Nat.zero_or]
  · rw [shiftRight_or, or_and_const, l2, shiftRight_and,
      and_and_const _ _ _ 0 (by decide), Nat.and_zero, Nat.zero_or]
  · rw [or_and_const, l3, and_and_const _ _ _ 0xFFFFFFE0 (by decide), Nat.or_zero]
  · rw [or_and_const, l4, and_and_const _ _ _ 0 (by decide), Nat.and_zero, Nat.zero_or]

/-- The directions of the two tables agree up to `1e-6` in every component. -/
theorem directions_close : ∀ k, k < 18 →
    |((g_DirectionsRaw.getD (k % 9) default).mulScalar (if k / 9 * 16 ≠ 0 then -1 else 1)).x
      - (g_Directions.getD k default).x| ≤ 1 / 1000000 ∧
    |((g_DirectionsRaw.getD (k % 9) default).mulScalar (if k / 9 * 16 ≠ 0 then -1 else 1)).y
      - (g_Directions.getD k default).y| ≤ 1 / 1000000 ∧
    |((g_DirectionsRaw.getD (k % 9) default).mulScalar (if k / 9 * 16 ≠ 0 then -1 else 1)).z
      - (g_Directions.getD k default).z| ≤ 1 / 1000000 := by decide!

/-- The second half of `g_Directions` is the opposite of the first. -/
theorem directions_opposite : ∀ i, i < 9 →
    g_Directions.getD (i + 9) default = (g_Directions.getD i default).mulScalar (-1) := by
  decide!

/-- C17: the round trip of a plane equation.  For every direction index `k` in `0..17` and
every bit pattern `b`, the word `w = compress_plane_equation(k, b)` satisfies
`w & 0xF = k mod 9`, `(w >> 4) & 1 = k div 9` and `w & 0xFFFFFFE0 = b & 0xFFFFFFE0`;
`decompress_plane_equation(w)` returns the offset pattern `b & 0xFFFFFFE0` and the direction
`g_DirectionsRaw[k mod 9]`, negated when `k >= 9`, which is within `1e-6` of `g_Directions[k]`
in every component; and `g_Directions[i + 9] = -g_Directions[i]` for `i < 9`. -/
theorem C17_plane_round_trip (k b : Nat) (hk : k < 18) :
    compress_plane_equation k b &&& 0xF = k % 9 ∧
    (compress_plane_equation k b >>> 4) &&& 1 = k / 9 ∧
    compress_plane_equation k b &&& 0xFFFFFFE0 = b &&& 0xFFFFFFE0 ∧
    (decompress_plane_equation (compress_plane_equation k b)).2 = b &&& 0xFFFFFFE0 ∧
    (decompress_plane_equation (compress_plane_equation k b)).1 =
      (g_DirectionsRaw.getD (k % 9) default).mulScalar (if 9 ≤ k then -1 else 1) ∧
    |(decompress_plane_equation (compress_plane_equation k b)).1.x
      - (g_Directions.getD k default).x| ≤ 1 / 1000000 ∧
    |(decompress_plane_equation (compress_plane_equation k b)).1.y
      - (g_Directions.getD k default).y| ≤ 1 / 1000000 ∧
    |(decompress_plane_equation (compress_plane_equation k b)).1.z
      - (g_Directions.getD k default).z| ≤ 1 / 1000000 ∧
    ∀ i, i < 9 →
      g_Directions.getD (i + 9) default = (g_Directions.getD i default).mulScalar (-1) := by
  obtain ⟨c1, c2, c3, c4⟩ := compress_parts k b hk
  have hdir : (decompress_plane_equation (compress_plane_equation k b)).1 =
      (g_DirectionsRaw.getD (k % 9) default).mulScalar (if k / 9 * 16 ≠ 0 then -1 else 1) := by
    unfold decompress_plane_equation
    simp only [c1, c4]
    rw [Nat.mod_eq_of_lt (show k % 9 < 2 ^ 8 by omega)]
  have hsign : (if k / 9 * 16 ≠ 0 then (-1 : ℚ) else 1) = (if 9 ≤ k then -1 else 1) := by
    by_cases h9 : 9 ≤ k
    · rw [if_pos h9, if_pos (by omega)]
    · rw [if_neg h9, if_neg (by omega)]
  obtain ⟨d1, d2, d3⟩ := directions_close k hk
  refine ⟨c1, c2, c3, ?_, ?_, ?_, ?_, ?_, directions_opposite⟩
  · unfold decompress_plane_equation
    exact c3
  · rw [hdir, hsign]
  · rw [hdir]; exact d1
  · rw [hdir]; exact d2
  · rw [hdir]; exact d3

/-- Witness of C17 at the direction 13 and the bit pattern of the float `1.5`. -/
theorem C17_plane_round_trip_witness :
    compress_plane_equation 13 0x3FC00000 &&& 0xF = 13 % 9 ∧
    (compress_plane_equation 13 0x3FC00000 >>> 4) &&& 1 = 13 / 9 ∧
    compress_plane_equation 13 0x3FC00000 &&& 0xFFFFFFE0 = 0x3FC00000 &&& 0xFFFFFFE0 ∧
    (decompress_plane_equation (compress_plane_equation 13 0x3FC00000)).2
      = 0x3FC00000 &&& 0xFFFFFFE0 ∧
    (decompress_plane_equation (compress_plane_equation 13 0x3FC00000)).1 =
      (g_DirectionsRaw.getD (13 % 9) default).mulScalar (if 9 ≤ 13 then -1 else 1) ∧
    |(decompress_plane_equation (compress_plane_equation 13 0x3FC00000)).1.x
      - (g_Directions.getD 13 default).x| ≤ 1 / 1000000 ∧
    |(decompress_plane_equation (compress_plane_equation 13 0x3FC00000)).1.y
      - (g_Directions.getD 13 default).y| ≤ 1 / 1000000 ∧
    |(decompress_plane_equation (compress_plane_equation 13 0x3FC00000)).1.z
      - (g_Directions.getD 13 default).z| ≤ 1 / 1000000 ∧
    ∀ i, i < 9 →
      g_Directions.getD (i + 9) default = (g_Directions.getD i default).mulScalar (-1) :=
  C17_plane_round_trip 13 0x3FC00000 (by decide)

/-! ## The list of the outside faces -/

/-- The loop over the four planes of an element keeps its neighbors. -/
theorem planes_neighbors (step : TetraData → Nat → TetraData)
    (hstep : ∀ d i, (step d i).neighbors = d.neighbors) :
    ∀ (l : List Nat) (d : TetraData), (l.foldl step d).neighbors = d.neighbors := by
  intro l
  induction l with
  | nil => intro d; rfl
  | cons i l ih => intro d; rw [List.foldl_cons, ih, hstep]

/-- The body of the parallel loop stores the neighbors of its element and leaves the lists of
the outside faces alone. -/
theorem packElement_spec (ops : PackingOps) (lebVolume : LEBVolume) (gridVolume : GridVolume)
    (maxDepth : Nat) (pos : List float3) (g : LEBVolumeGPU) (e : Nat)
    (he : e < g.tetraData.length) :
    (packElement ops lebVolume gridVolume maxDepth pos g e).tetraData.length
      = g.tetraData.length ∧
    ((packElement ops lebVolume gridVolume maxDepth pos g e).tetraData.getD e default).neighbors
      = lebVolume.neighborsArray.getD e default ∧
    (∀ j, j ≠ e →
      (packElement ops lebVolume gridVolume maxDepth pos g e).tetraData.getD j default
        = g.tetraData.getD j default) ∧
    (packElement ops lebVolume gridVolume maxDepth pos g e).outsideElements
      = g.outsideElements ∧
    (packElement ops lebVolume gridVolume maxDepth pos g e).rtasIndexArray = g.rtasIndexArray ∧
    (packElement ops lebVolume gridVolume maxDepth pos g e).rtasPositionArray
      = g.rtasPositionArray := by
  unfold packElement
  refine ⟨by simp only [List.length_set], ?_, fun j hj => ?_, rfl, rfl, rfl⟩
  · simp only
    rw [getD_set_eq _ _ _ _ he]
    apply planes_neighbors
    intro d i
    rfl
  · simp only
    rw [getD_set_ne _ _ _ _ _ (fun h => hj h.symm)]

/-- The parallel loop of the packing, after the elements below `k`. -/
theorem packLoop_spec (ops : PackingOps) (lebVolume : LEBVolume) (gridVolume : GridVolume)
    (maxDepth : Nat) (pos : List float3) (g0 : LEBVolumeGPU) :
    ∀ k, k ≤ g0.tetraData.length →
      ((List.range k).foldl (packElement ops lebVolume gridVolume maxDepth pos) g0).tetraData.length
        = g0.tetraData.length ∧
      (∀ j, j < k →
        ((((List.range k).foldl (packElement ops lebVolume gridVolume maxDepth pos)
          g0).tetraData.getD j default).neighbors = lebVolume.neighborsArray.getD j default)) ∧
      ((List.range k).foldl (packElement ops lebVolume gridVolume maxDepth pos) g0).outsideElements
        = g0.outsideElements ∧
      ((List.range k).foldl (packElement ops lebVolume gridVolume maxDepth pos) g0).rtasIndexArray
        = g0.rtasIndexArray ∧
      ((List.range k).foldl (packElement ops lebVolume gridVolume maxDepth pos)
        g0).rtasPositionArray = g0.rtasPositionArray := by
  intro k
  induction k with
  | zero => intro _; exact ⟨rfl, fun j hj => absurd hj (by omega), rfl, rfl, rfl⟩
  | succ k ih =>
    intro hk
    obtain ⟨i1, i2, i3, i4, i5⟩ := ih (by omega)
    rw [foldl_range_succ]
    obtain ⟨s1, s2, s3, s4, s5, s6⟩ := packElement_spec ops lebVolume gridVolume maxDepth pos
      ((List.range k).foldl (packElement ops lebVolume gridVolume maxDepth pos) g0) k
      (by rw [i1]; omega)
    refine ⟨s1.trans i1, fun j hj => ?_, s4.trans i3, s5.trans i4, s6.trans i5⟩
    by_cases hjk : j = k
    · subst hjk; exact s2
    · rw [s3 j hjk]; exact i2 j (by omega)

/-- The loop over the faces of an element: the outside faces are appended in face order. -/
theorem logFaces_spec (pos : List float3) (e : Nat) (he : 4 * e + 3 < 2 ^ 32) :
    ∀ (faces : List Nat), (∀ f ∈ faces, f < 4) → ∀ (g : LEBVolumeGPU) (c : Nat),
      3 * (c + faces.length) ≤ 2 ^ 32 →
      (faces.foldl (logFace pos e) (g, c)).1.tetraData = g.tetraData ∧
      (faces.foldl (logFace pos e) (g, c)).2 = c + (faces.filter (fun f =>
        decide (((g.tetraData.getD e default).neighbors).at f = UINT32_MAX))).length ∧
      (faces.foldl (logFace pos e) (g, c)).1.outsideElements = g.outsideElements ++
        (faces.filter (fun f =>
          decide (((g.tetraData.getD e default).neighbors).at f = UINT32_MAX))).map
            (fun _ => e) ∧
      (faces.foldl (logFace pos e) (g, c)).1.rtasIndexArray = g.rtasIndexArray ++
        (List.range (faces.filter (fun f =>
          decide (((g.tetraData.getD e default).neighbors).at f = UINT32_MAX))).length).map
            (fun i => triangleOf (c + i)) ∧
      (faces.foldl (logFace pos e) (g, c)).1.rtasPositionArray = g.rtasPositionArray ++
        (faces.filter (fun f =>
          decide (((g.tetraData.getD e default).neighbors).at f = UINT32_MAX))).flatMap
            (facePositions pos e) := by
  intro faces
  induction faces with
  | nil =>
    intro _ g c _
    simp
  | cons f faces ih =>
    intro hf g c hc
    have hf4 : f < 4 := hf f (List.mem_cons_self _ _)
    have hrest : ∀ f' ∈ faces, f' < 4 := fun f' h => hf f' (List.mem_cons_of_mem _ h)
    simp only [List.length_cons] at hc
    rw [List.foldl_cons]
    by_cases hP : ((g.tetraData.getD e default).neighbors).at f = UINT32_MAX
    · have hidx : (g_TriangleIndices.getD f default).x < 4 ∧
          (g_TriangleIndices.getD f default).y < 4 ∧
          (g_TriangleIndices.getD f default).z < 4 := by
        interval_cases f <;> decide
      have hstep : logFace pos e (g, c) f =
          ({ g with
             outsideElements := g.outsideElements ++ [e]
             rtasIndexArray := g.rtasIndexArray ++ [triangleOf c]
             rtasPositionArray := g.rtasPositionArray ++ facePositions pos e f }, c + 1) := by
        unfold logFace
        simp only [hP, if_true]
        rw [Nat.mod_eq_of_lt (show 3 * c < 2 ^ 32 by omega),
          Nat.mod_eq_of_lt (show 3 * c + 1 < 2 ^ 32 by omega),
          Nat.mod_eq_of_lt (show 3 * c + 2 < 2 ^ 32 by omega),
          Nat.mod_eq_of_lt (show c + 1 < 2 ^ 32 by omega),
          Nat.mod_eq_of_lt (show 4 * e + (g_TriangleIndices.getD f default).x < 2 ^ 32 by omega),
          Nat.mod_eq_of_lt (show 4 * e + (g_TriangleIndices.getD f default).y < 2 ^ 32 by omega),
          Nat.mod_eq_of_lt (show 4 * e + (g_TriangleIndices.getD f default).z < 2 ^ 32 by omega)]
        rfl
      rw [hstep]
      obtain ⟨i1, i2, i3, i4, i5⟩ := ih hrest
        { g with
          outsideElements := g.outsideElements ++ [e]
          rtasIndexArray := g.rtasIndexArray ++ [triangleOf c]
          rtasPositionArray := g.rtasPositionArray ++ facePositions pos e f } (c + 1)
        (by omega)
      simp only at i1 i2 i3 i4 i5
      rw [List.filter_cons_of_pos (by simpa using hP)]
      refine ⟨i1, ?_, ?_, ?_, ?_⟩
      · rw [i2, List.length_cons]; omega
      · rw [i3, List.map_cons, List.append_assoc, List.singleton_append]
      · rw [i4, List.length_cons, List.append_assoc, List.range_succ_eq_map, List.map_cons,
          List.map_map]
        rw [List.singleton_append, Nat.add_zero]
        congr 2
        apply List.map_congr_left
        intro i _
        show triangleOf (c + 1 + i) = triangleOf (c + Nat.succ i)
        congr 1
        omega
      · rw [i5, List.flatMap_cons, List.append_assoc]
    · have hstep : logFace pos e (g, c) f = (g, c) := by
        unfold logFace
        simp only [hP, if_false]
      rw [hstep, List.filter_cons_of_neg (by simpa using hP)]
      exact ih hrest g c (by omega)

/-- The sequential loop of the packing, after the elements below `k`. -/
theorem logLoop_spec (lebVolume : LEBVolume) (pos : List float3) (g1 : LEBVolumeGPU)
    (hn : 12 * lebVolume.totalNumElements ≤ 2 ^ 32)
    (hnb : ∀ j, j < lebVolume.totalNumElements →
      (g1.tetraData.getD j default).neighbors = lebVolume.neighborsArray.getD j default)
    (h1 : g1.outsideElements = []) (h2 : g1.rtasIndexArray = [])
    (h3 : g1.rtasPositionArray = []) :
    ∀ k, k ≤ lebVolume.totalNumElements →
      ∀ st, st = (List.range k).foldl (fun st eleID =>
        (List.range 4).foldl (logFace pos eleID) st) (g1, 0) →
      ∀ pairs, pairs = (List.range k).flatMap (fun eleID =>
        ((List.range 4).filter (fun faceId =>
          decide ((lebVolume.neighborsArray.getD eleID default).at faceId = UINT32_MAX))).map
            (fun faceId => (eleID, faceId))) →
      st.1.tetraData = g1.tetraData ∧ st.2 = pairs.length ∧ pairs.length ≤ 4 * k ∧
      st.1.outsideElements = pairs.map Prod.fst ∧
      st.1.rtasIndexArray = (List.range pairs.length).map triangleOf ∧
      st.1.rtasPositionArray = pairs.flatMap (fun p => facePositions pos p.1 p.2) := by
  intro k
  induction k with
  | zero =>
    intro _ st hst pairs hp
    subst hst; subst hp
    simp [h1, h2, h3]
  | succ k ih =>
    intro hk st hst pairs hp
    obtain ⟨i1, i2, i3, i4, i5, i6⟩ := ih (by omega) _ rfl _ rfl
    rw [foldl_range_succ] at hst
    rw [List.range_succ, List.flatMap_append, List.flatMap_singleton] at hp
    generalize (List.range k).foldl (fun st eleID =>
      (List.range 4).foldl (logFace pos eleID) st) (g1, 0) = sk at hst i1 i2 i4 i5 i6
    generalize (List.range k).flatMap (fun eleID =>
        ((List.range 4).filter (fun faceId =>
          decide ((lebVolume.neighborsArray.getD eleID default).at faceId = UINT32_MAX))).map
            (fun faceId => (eleID, faceId))) = pk at hp i2 i3 i4 i5 i6
    obtain ⟨gk, ck⟩ := sk
    simp only at i1 i2 i4 i5 i6
    have hfl : ((List.range 4).filter (fun faceId =>
        decide ((lebVolume.neighborsArray.getD k default).at faceId = UINT32_MAX))).length ≤ 4 :=
      le_trans (List.length_filter_le _ _) (by simp)
    obtain ⟨s1, s2, s3, s4, s5⟩ := logFaces_spec pos k (by omega) (List.range 4)
      (fun f hf => List.mem_range.mp hf) gk ck (by
        rw [i2, List.length_range]; omega)
    rw [i1, hnb k (by omega)] at s2 s3 s4 s5
    subst hst; subst hp
    refine ⟨s1.trans i1, ?_, ?_, ?_, ?_, ?_⟩
    · rw [s2, i2, List.length_append, List.length_map]
    · rw [List.length_append, List.length_map]; omega
    · rw [s3, i4, List.map_append, List.map_map]
      rfl
    · rw [s4, i5, List.length_append, List.length_map, List.range_add, List.map_append,
        List.map_map, i2]
      rfl
    · rw [s5, i6, List.flatMap_append, List.flatMap_map]

/-- C22: the list of the boundary faces.  For a mesh whose count satisfies
`12 * totalNumElements <= 2 ^ 32` (so that the 32-bit face counter and the position indices do
not wrap), `convert_to_leb_volume_to_gpu` on an empty packed volume lists in
`outsideElements` the owning elements of the pairs (element, face) whose neighbor slot is
`UINT32_MAX`, in increasing element order and then face order; the triangle `k` of
`rtasIndexArray` is `(3 k, 3 k + 1, 3 k + 2)`; `rtasPositionArray` holds, pair after pair, the
three vertices of the face in the order of `g_TriangleIndices`; and
`|rtasPositionArray| = 3 |rtasIndexArray| = 3 |outsideElements|`. -/
theorem C22_boundary_faces (ops : PackingOps) (lebVolume : LEBVolume)
    (gridVolume : GridVolume) (fitParam : FittingParameters) (maxDepth : Nat)
    (hn : 12 * lebVolume.totalNumElements ≤ 2 ^ 32) :
    (convert_to_leb_volume_to_gpu ops lebVolume gridVolume fitParam maxDepth
      emptyVolumeGPU).1.outsideElements = (outsidePairs lebVolume).map Prod.fst ∧
    (convert_to_leb_volume_to_gpu ops lebVolume gridVolume fitParam maxDepth
      emptyVolumeGPU).1.rtasIndexArray
        = (List.range (outsidePairs lebVolume).length).map triangleOf ∧
    (convert_to_leb_volume_to_gpu ops lebVolume gridVolume fitParam maxDepth
      emptyVolumeGPU).1.rtasPositionArray
        = (outsidePairs lebVolume).flatMap (fun p =>
            facePositions (evaluate_positions lebVolume) p.1 p.2) ∧
    (convert_to_leb_volume_to_gpu ops lebVolume gridVolume fitParam maxDepth
      emptyVolumeGPU).1.rtasPositionArray.length
        = 3 * (convert_to_leb_volume_to_gpu ops lebVolume gridVolume fitParam maxDepth
            emptyVolumeGPU).1.rtasIndexArray.length ∧
    (convert_to_leb_volume_to_gpu ops lebVolume gridVolume fitParam maxDepth
      emptyVolumeGPU).1.rtasIndexArray.length
        = (convert_to_leb_volume_to_gpu ops lebVolume gridVolume fitParam maxDepth
            emptyVolumeGPU).1.outsideElements.length := by
  have h31 : lebVolume.totalNumElements < 2 ^ 31 := by omega
  obtain ⟨p1, p2, p3, p4, p5⟩ := packLoop_spec ops lebVolume gridVolume maxDepth
    (evaluate_positions lebVolume)
    { emptyVolumeGPU with
      frustumCull := fitParam.frustumCull
      cameraPosition := fitParam.cameraPosition
      vpMat := fitParam.viewProjectionMatrix
      scale := gridVolume.scale
      positionArray := evaluate_positions lebVolume
      tetraData := resize emptyVolumeGPU.tetraData lebVolume.totalNumElements
      centerArray := resize emptyVolumeGPU.centerArray lebVolume.totalNumElements
      densityArray := resize emptyVolumeGPU.densityArray lebVolume.totalNumElements }
    lebVolume.totalNumElements (by simp only [length_resize]; exact le_refl _)
  obtain ⟨l1, l2, l3, l4, l5, l6⟩ := logLoop_spec lebVolume (evaluate_positions lebVolume) _ hn
    p2 p3 p4 p5 lebVolume.totalNumElements (le_refl _) _ rfl _ rfl
  have e1 : (convert_to_leb_volume_to_gpu ops lebVolume gridVolume fitParam maxDepth
      emptyVolumeGPU).1.outsideElements = (outsidePairs lebVolume).map Prod.fst := by
    unfold convert_to_leb_volume_to_gpu outsidePairs
    simp only [if_pos h31]
    exact l4
  have e2 : (convert_to_leb_volume_to_gpu ops lebVolume gridVolume fitParam maxDepth
      emptyVolumeGPU).1.rtasIndexArray
        = (List.range (outsidePairs lebVolume).length).map triangleOf := by
    unfold convert_to_leb_volume_to_gpu outsidePairs
    simp only [if_pos h31]
    exact l5
  have e3 : (convert_to_leb_volume_to_gpu ops lebVolume gridVolume fitParam maxDepth
      emptyVolumeGPU).1.rtasPositionArray
        = (outsidePairs lebVolume).flatMap (fun p =>
            facePositions (evaluate_positions lebVolume) p.1 p.2) := by
    unfold convert_to_leb_volume_to_gpu outsidePairs
    simp only [if_pos h31]
    exact l6
  refine ⟨e1, e2, e3, ?_, ?_⟩
  · rw [e3, e2, List.length_map, List.length_range]
    generalize outsidePairs lebVolume = l
    induction l with
    | nil => rfl
    | cons p l ih =>
      rw [List.flatMap_cons, List.length_append, ih, List.length_cons]
      simp only [facePositions, List.length_cons, List.length_nil]
      omega
  · rw [e2, e1, List.length_map, List.length_range, List.length_map]

/-- Witness of C22 at a mesh of one element without neighbors: its four faces are listed. -/
theorem C22_boundary_faces_witness :
    (convert_to_leb_volume_to_gpu sampleOps loneVolume sampleGrid defaultParameters 7
      emptyVolumeGPU).1.outsideElements = (outsidePairs loneVolume).map Prod.fst ∧
    (convert_to_leb_volume_to_gpu sampleOps loneVolume sampleGrid defaultParameters 7
      emptyVolumeGPU).1.rtasIndexArray
        = (List.range (outsidePairs loneVolume).length).map triangleOf ∧
    (convert_to_leb_volume_to_gpu sampleOps loneVolume sampleGrid defaultParameters 7
      emptyVolumeGPU).1.rtasPositionArray
        = (outsidePairs loneVolume).flatMap (fun p =>
            facePositions (evaluate_positions loneVolume) p.1 p.2) ∧
    (convert_to_leb_volume_to_gpu sampleOps loneVolume sampleGrid defaultParameters 7
      emptyVolumeGPU).1.rtasPositionArray.length
        = 3 * (convert_to_leb_volume_to_gpu sampleOps loneVolume sampleGrid defaultParameters 7
            emptyVolumeGPU).1.rtasIndexArray.length ∧
    (convert_to_leb_volume_to_gpu sampleOps loneVolume sampleGrid defaultParameters 7
      emptyVolumeGPU).1.rtasIndexArray.length
        = (convert_to_leb_volume_to_gpu sampleOps loneVolume sampleGrid defaultParameters 7
            emptyVolumeGPU).1.outsideElements.length :=
  C22_boundary_faces sampleOps loneVolume sampleGrid defaultParameters 7 (by decide)

/-! ## The root tetrahedra -/

set_option maxRecDepth 1000000 in
/-- C25: the 24 root tetrahedra of `g_CubeType0Vertices`.  All their vertices lie in
`[-0.5, 0.5]^3`; the determinant of `(p1 - p0, p2 - p0, p3 - p0)` is `-1/4` for each of
them, so they all have the same orientation; each has the volume `1/24`; and the volumes sum
to 1, the volume of the cube. -/
theorem C25_root_volumes :
    (∀ t, t < 24 → inCube (rootTetra t).p0 ∧ inCube (rootTetra t).p1 ∧
      inCube (rootTetra t).p2 ∧ inCube (rootTetra t).p3) ∧
    (∀ t, t < 24 → orientation (rootTetra t) = -1 / 4) ∧
    (∀ t, t < 24 → tetraVolume (rootTetra t) = 1 / 24) ∧
    ((List.range 24).map (fun t => tetraVolume (rootTetra t))).sum = 1 := by
  decide!

/-! ## The sample points of the density -/

/-- The three compare-and-swap steps sort their three values. -/
theorem sortThree_sorted (r1 r2 r3 : ℚ) :
    (sortThree r1 r2 r3).1 ≤ (sortThree r1 r2 r3).2.1 ∧
    (sortThree r1 r2 r3).2.1 ≤ (sortThree r1 r2 r3).2.2 ∧
    ((sortThree r1 r2 r3).1 = r1 ∨ (sortThree r1 r2 r3).1 = r2
      ∨ (sortThree r1 r2 r3).1 = r3) ∧
    ((sortThree r1 r2 r3).2.2 = r1 ∨ (sortThree r1 r2 r3).2.2 = r2
      ∨ (sortThree r1 r2 r3).2.2 = r3) := by
  unfold sortThree
  simp only
  split_ifs <;> simp only [] <;> refine ⟨?_, ?_, ?_, ?_⟩ <;>
    first | linarith | simp

/-- The entries of `g_randValues` that are read lie in `[0, 1]`. -/
theorem randValues_unit : ∀ i, i < 192 →
    0 ≤ g_randValues.getD i 0 ∧ g_randValues.getD i 0 ≤ 1 := by decide!

/-- The loop of `precompute_barycentrics` after `n` rounds: the table keeps its 256 entries and
holds the four weights of every sample below `n`. -/
theorem barycentrics_loop (w : Nat → List ℚ) : ∀ n, n ≤ 64 →
    ((List.range n).foldl (fun g_barycentrics sampleIdx =>
      (((g_barycentrics.set (4 * sampleIdx) ((w sampleIdx).getD 0 0)).set (4 * sampleIdx + 1)
        ((w sampleIdx).getD 1 0)).set (4 * sampleIdx + 2) ((w sampleIdx).getD 2 0)).set
        (4 * sampleIdx + 3) ((w sampleIdx).getD 3 0)) (List.replicate (64 * 4) (0 : ℚ))).length
      = 256 ∧
    ∀ i, i < n → ∀ k, k < 4 →
      ((List.range n).foldl (fun g_barycentrics sampleIdx =>
        (((g_barycentrics.set (4 * sampleIdx) ((w sampleIdx).getD 0 0)).set (4 * sampleIdx + 1)
          ((w sampleIdx).getD 1 0)).set (4 * sampleIdx + 2) ((w sampleIdx).getD 2 0)).set
          (4 * sampleIdx + 3) ((w sampleIdx).getD 3 0)) (List.replicate (64 * 4) (0 : ℚ))).getD
        (4 * i + k) 0 = (w i).getD k 0 := by
  intro n
  induction n with
  | zero =>
    intro _
    exact ⟨by rw [List.range_zero, List.foldl_nil, List.length_replicate],
      fun i hi => absurd hi (Nat.not_lt_zero i)⟩
  | succ n ih =>
    intro hn
    obtain ⟨hlen, hget⟩ := ih (by omega)
    rw [foldl_range_succ]
    generalize (List.range n).foldl _ _ = tab at hlen hget ⊢
    refine ⟨by simp only [List.length_set]; exact hlen, ?_⟩
    intro i hi k hk
    by_cases hin : i < n
    · rw [getD_set_ne _ _ _ _ _ (by omega), getD_set_ne _ _ _ _ _ (by omega),
        getD_set_ne _ _ _ _ _ (by omega), getD_set_ne _ _ _ _ _ (by omega)]
      exact hget i hin k hk
    · have hi' : i = n := by omega
      subst hi'
      obtain rfl | rfl | rfl | rfl : k = 0 ∨ k = 1 ∨ k = 2 ∨ k = 3 := by omega
      · rw [getD_set_ne _ _ _ _ _ (by omega), getD_set_ne _ _ _ _ _ (by omega),
          getD_set_ne _ _ _ _ _ (by omega)]
        exact getD_set_eq _ _ _ _ (by omega)
      · rw [getD_set_ne _ _ _ _ _ (by omega), getD_set_ne _ _ _ _ _ (by omega),
          getD_set_eq _ _ _ _ (by simp only [List.length_set]; omega)]
      · rw [getD_set_ne _ _ _ _ _ (by omega),
          getD_set_eq _ _ _ _ (by simp only [List.length_set]; omega)]
      · rw [getD_set_eq _ _ _ _ (by simp only [List.length_set]; omega)]

/-- The table of `precompute_barycentrics` holds, for the sample `sampleIdx`, the four weights
of its three random values. -/
theorem barycentrics_table : ∀ sampleIdx, sampleIdx < 64 →
    [precompute_barycentrics.getD (4 * sampleIdx) 0,
     precompute_barycentrics.getD (4 * sampleIdx + 1) 0,
     precompute_barycentrics.getD (4 * sampleIdx + 2) 0,
     precompute_barycentrics.getD (4 * sampleIdx + 3) 0] =
    sampleWeights (g_randValues.getD (3 * sampleIdx) 0)
      (g_randValues.getD (3 * sampleIdx + 1) 0) (g_randValues.getD (3 * sampleIdx + 2) 0) := by
  intro i hi
  have h := (barycentrics_loop (fun sampleIdx =>
    sampleWeights (g_randValues.getD (3 * sampleIdx) 0)
      (g_randValues.getD (3 * sampleIdx + 1) 0) (g_randValues.getD (3 * sampleIdx + 2) 0))
    64 (le_refl 64)).2 i hi
  have h0 := h 0 (by omega)
  have h1 := h 1 (by omega)
  have h2 := h 2 (by omega)
  have h3 := h 3 (by omega)
  rw [Nat.add_zero] at h0
  unfold precompute_barycentrics g_MaxNumSamples
  simp only at h0 h1 h2 h3 ⊢
  rw [h0, h1, h2, h3]
  rfl

/-- C27: the round trip of the serialization.  When each pair of helpers of
`tools/stream.h` reads back what it wrote, `import_leb_volume_gpu` applied to the bytes of
`export_leb_volume_gpu(v)` yields `v`, whatever the packed volume it is applied to held
before: the import reads the eleven fields in the order in which the export writes them. -/
theorem C27_serialization_round_trip {β : Type} (ops : StreamOps β) (h : ops.Lawful)
    (v target : LEBVolumeGPU) :
    import_leb_volume_gpu ops (export_leb_volume_gpu ops v) target = v := by
  obtain ⟨h1, h2, h3, h4, h5, h6, h7, h8⟩ := h
  unfold import_leb_volume_gpu export_leb_volume_gpu
  simp only [List.nil_append, List.append_assoc]
  rw [h1, h2, h3, h2, h4, h5, h6, h7, h5, h8]
  have h9 := h5 v.positionArray []
  rw [List.append_nil] at h9
  simp only [h9]

theorem chunkOps_lawful : chunkOps.Lawful :=
  ⟨fun _ _ => rfl, fun _ _ => rfl, fun _ _ => rfl, fun _ _ => rfl, fun _ _ => rfl,
    fun _ _ => rfl, fun _ _ => rfl, fun _ _ => rfl⟩

/-- Witness of C27 at the packed volume of a mesh of one element, with a stream of whole
values. -/
theorem C27_serialization_round_trip_witness :
    import_leb_volume_gpu chunkOps (export_leb_volume_gpu chunkOps samplePacked) emptyVolumeGPU
      = samplePacked :=
  C27_serialization_round_trip chunkOps chunkOps_lawful samplePacked emptyVolumeGPU

/-! ## The children of a tetrahedron -/

theorem float3_ext (a b : float3) (h1 : a.x = b.x) (h2 : a.y = b.y) (h3 : a.z = b.z) : a = b := by
  cases a; cases b; simp only [float3.mk.injEq]; exact ⟨h1, h2, h3⟩

/-- The children of a tetrahedron, vertex by vertex, for the four types and the two bits. -/
theorem splitChild_eq (T : Tetrahedron) :
    splitChild 0 0 T = ⟨T.p1, midpoint3 T.p2 T.p3, T.p2, T.p0⟩ ∧
    splitChild 0 1 T = ⟨T.p1, midpoint3 T.p2 T.p3, T.p0, T.p3⟩ ∧
    splitChild 3 0 T = ⟨T.p1, midpoint3 T.p2 T.p3, T.p2, T.p0⟩ ∧
    splitChild 3 1 T = ⟨T.p1, midpoint3 T.p2 T.p3, T.p0, T.p3⟩ ∧
    splitChild 1 0 T = ⟨T.p1, midpoint3 T.p2 T.p3, T.p2, T.p0⟩ ∧
    splitChild 1 1 T = ⟨T.p0, midpoint3 T.p2 T.p3, T.p3, T.p1⟩ ∧
    splitChild 2 0 T = ⟨T.p0, midpoint3 T.p2 T.p3, T.p1, T.p2⟩ ∧
    splitChild 2 1 T = ⟨T.p1, midpoint3 T.p2 T.p3, T.p0, T.p3⟩ := by
  refine ⟨?_, ?_, ?_, ?_, ?_, ?_, ?_, ?_⟩ <;>
  · simp only [splitChild, decodeVertices, leb__SplittingMatrix, applyMatrix,
      leb__Matrix4x4Product, productRow, leb__DotProduct, leb__TransposeMatrix4x4,
      leb__IdentityMatrix4x4, splitMatrix03, splitMatrix1, splitMatrix2, midpoint3,
      Tetrahedron.mk.injEq]
    norm_num
    repeat' constructor
    all_goals ring

/-! ## Links and patches on the vector of neighbors -/

theorem length_linkStep (na : List uint4) (l : Link) : (linkStep na l).length = na.length := by
  simp [linkStep]

theorem length_foldl_linkStep (links : List Link) (na : List uint4) :
    (links.foldl linkStep na).length = na.length := by
  induction links generalizing na with
  | nil => rfl
  | cons p ps ih => rw [List.foldl_cons, ih, length_linkStep]

theorem getD_linkStep_other (na : List uint4) (l : Link) (e : Nat) (h1 : e ≠ l.member)
    (h2 : e ≠ l.slot) : (linkStep na l).getD e default = na.getD e default := by
  unfold linkStep
  rw [getD_set_ne _ _ _ _ _ (Ne.symm h2), getD_set_ne _ _ _ _ _ (Ne.symm h1)]

theorem getD_foldl_linkStep_other (links : List Link) (na : List uint4) (e : Nat)
    (he : ∀ l ∈ links, e ≠ l.member ∧ e ≠ l.slot) :
    (links.foldl linkStep na).getD e default = na.getD e default := by
  induction links generalizing na with
  | nil => rfl
  | cons p ps ih =>
    rw [List.foldl_cons, ih _ (fun q hq => he q (List.mem_cons_of_mem p hq)),
      getD_linkStep_other _ _ _ (he p (List.mem_cons_self p ps)).1
        (he p (List.mem_cons_self p ps)).2]

/-- Along well-formed pairs every member and every slot ends with the tuple of its link. -/
theorem getD_foldl_linkStep (count : Nat) (links : List Link) (na : List uint4)
    (hok : PairsOK count na.length (links.map Link.pair)) :
    ∀ l ∈ links, (links.foldl linkStep na).getD l.member default = l.ni ∧
      (links.foldl linkStep na).getD l.slot default = l.ns := by
  induction links generalizing na with
  | nil => intro p hp; cases hp
  | cons q qs ih =>
    intro p hp
    rw [List.map_cons] at hok
    have hq1 := hok.member_lt q.pair (List.mem_cons_self _ _)
    have hq2 := hok.slot_ge q.pair (List.mem_cons_self _ _)
    have hq3 := hok.slot_lt q.pair (List.mem_cons_self _ _)
    have hne : ∀ r ∈ qs, r.member ≠ q.member ∧ r.member ≠ q.slot ∧ r.slot ≠ q.member ∧
        r.slot ≠ q.slot := fun r hr => hok.head_fst_ne r.pair (List.mem_map.2 ⟨r, hr, rfl⟩)
    simp only [Link.pair] at hq1 hq2 hq3
    rw [List.foldl_cons]
    rcases List.mem_cons.1 hp with rfl | hp
    · rw [getD_foldl_linkStep_other qs _ p.member
          (fun r hr => ⟨(hne r hr).1.symm, (hne r hr).2.2.1.symm⟩),
        getD_foldl_linkStep_other qs _ p.slot
          (fun r hr => ⟨(hne r hr).2.1.symm, (hne r hr).2.2.2.symm⟩)]
      unfold linkStep
      rw [getD_set_ne _ _ _ _ _ (by omega), getD_set_eq _ _ _ _ (by omega),
        getD_set_eq _ _ _ _ (by simpa using hq3)]
      exact ⟨rfl, rfl⟩
    · have htail : PairsOK count (linkStep na q).length (qs.map Link.pair) := by
        rw [length_linkStep]; exact hok.tail
      exact ih _ htail p hp

theorem patchTuple_slot (n : uint4) (o r k : Nat) :
    (patchTuple n o r).at k = if n.at k = o then r else n.at k := by
  obtain ⟨x, y, z, w⟩ := n
  simp only [patchTuple, uint4.at]
  by_cases h0 : k = 0
  · subst h0; simp only [if_true]; split_ifs <;> rfl
  by_cases h1 : k = 1
  · subst h1; simp only [if_true, if_false, Nat.one_ne_zero]; split_ifs <;> rfl
  by_cases h2 : k = 2
  · subst h2; simp only [if_true, if_false, OfNat.ofNat_ne_zero, OfNat.ofNat_ne_one]
    split_ifs <;> rfl
  · simp only [h0, h1, h2, if_false]; split_ifs <;> rfl

theorem length_patchStep (na : List uint4) (p : Nat × Nat × Nat) :
    (patchStep na p).length = na.length := by
  unfold patchStep; split <;> simp

theorem length_foldl_patchStep (ps : List (Nat × Nat × Nat)) (na : List uint4) :
    (ps.foldl patchStep na).length = na.length := by
  induction ps generalizing na with
  | nil => rfl
  | cons p ps ih => rw [List.foldl_cons, ih, length_patchStep]

theorem getD_foldl_patchStep_other (ps : List (Nat × Nat × Nat)) (na : List uint4) (e : Nat)
    (he : ∀ p ∈ ps, p.1 = UINT32_MAX ∨ p.1 ≠ e) :
    (ps.foldl patchStep na).getD e default = na.getD e default := by
  induction ps generalizing na with
  | nil => rfl
  | cons p ps ih =>
    rw [List.foldl_cons, ih _ (fun q hq => he q (List.mem_cons_of_mem p hq))]
    unfold patchStep
    split
    · rename_i hp
      rcases he p (List.mem_cons_self p ps) with h | h
      · exact absurd h hp
      · exact getD_set_ne _ _ _ _ _ h
    · rfl

/-- The tuple of an element after the patches, component by component. -/
theorem getD_foldl_patchStep (ps : List (Nat × Nat × Nat)) (na : List uint4) (y k : Nat)
    (hy : y < na.length) :
    ((ps.foldl patchStep na).getD y default).at k =
      patchComp ps y ((na.getD y default).at k) := by
  induction ps generalizing na with
  | nil => rfl
  | cons p ps ih =>
    rw [List.foldl_cons, ih _ (by rw [length_patchStep]; exact hy)]
    unfold patchComp
    rw [List.foldl_cons]
    congr 1
    unfold patchStep
    by_cases hp : p.1 ≠ UINT32_MAX
    · rw [if_pos hp]
      by_cases hpy : p.1 = y
      · rw [hpy, getD_set_eq _ _ _ _ hy, patchTuple_slot]
        by_cases hc : (na.getD y default).at k = p.2.1
        · rw [if_pos hc, if_pos ⟨by rw [← hpy]; exact hp, rfl, hc⟩]
        · rw [if_neg hc, if_neg (fun h => hc h.2.2)]
      · rw [getD_set_ne _ _ _ _ _ hpy, if_neg (fun h => hpy h.2.1)]
    · rw [if_neg hp, if_neg (fun h => hp h.1)]

theorem patchComp_cons (p : Nat × Nat × Nat) (ps : List (Nat × Nat × Nat)) (y c : Nat) :
    patchComp (p :: ps) y c =
      patchComp ps y (if p.1 ≠ UINT32_MAX ∧ p.1 = y ∧ c = p.2.1 then p.2.2 else c) := rfl

/-- A component that no patch of the element looks for stays. -/
theorem patchComp_fix (ps : List (Nat × Nat × Nat)) (y c : Nat)
    (h : ∀ p ∈ ps, ¬ (p.1 ≠ UINT32_MAX ∧ p.1 = y ∧ c = p.2.1)) : patchComp ps y c = c := by
  induction ps with
  | nil => rfl
  | cons p ps ih =>
    rw [patchComp_cons, if_neg (h p (List.mem_cons_self p ps))]
    exact ih (fun q hq => h q (List.mem_cons_of_mem p hq))

/-- A component ends as it was or as the slot of a patch. -/
theorem patchComp_range (ps : List (Nat × Nat × Nat)) (y c : Nat) :
    patchComp ps y c = c ∨ ∃ p ∈ ps, patchComp ps y c = p.2.2 := by
  induction ps generalizing c with
  | nil => exact Or.inl rfl
  | cons p ps ih =>
    rw [patchComp_cons]
    by_cases hc : p.1 ≠ UINT32_MAX ∧ p.1 = y ∧ c = p.2.1
    · rw [if_pos hc]
      rcases ih p.2.2 with h | ⟨q, hq, h⟩
      · exact Or.inr ⟨p, List.mem_cons_self p ps, h⟩
      · exact Or.inr ⟨q, List.mem_cons_of_mem p hq, h⟩
    · rw [if_neg hc]
      rcases ih c with h | ⟨q, hq, h⟩
      · exact Or.inl h
      · exact Or.inr ⟨q, List.mem_cons_of_mem p hq, h⟩

/-- The component that held a member ends as its slot in the tuple of the patched element. -/
theorem patchComp_member (count : Nat) (ps : List (Nat × Nat × Nat))
    (hnd : (ps.map (fun p => p.2.1)).Nodup)
    (hlt : ∀ p ∈ ps, p.2.1 < count ∧ count ≤ p.2.2) :
    ∀ p ∈ ps, p.1 ≠ UINT32_MAX → patchComp ps p.1 p.2.1 = p.2.2 := by
  induction ps with
  | nil => intro p hp; cases hp
  | cons q qs ih =>
    intro p hp hne
    rw [List.map_cons, List.nodup_cons] at hnd
    rw [patchComp_cons]
    rcases List.mem_cons.1 hp with rfl | hp
    · rw [if_pos ⟨hne, rfl, rfl⟩]
      apply patchComp_fix
      intro r hr hc
      have h1 := (hlt r (List.mem_cons_of_mem _ hr)).1
      have h2 := (hlt p (List.mem_cons_self _ _)).2
      omega
    · have hq : p.2.1 ≠ q.2.1 := by
        intro he
        exact hnd.1 (List.mem_map.2 ⟨p, hp, he⟩)
      rw [if_neg (fun h => hq h.2.2)]
      exact ih hnd.2 (fun r hr => hlt r (List.mem_cons_of_mem _ hr)) p hp hne
/-- From the vector of neighbors after a split, written as links and patches, to its outcome
on the tuples. -/
theorem links_outcome (v v' : LEBVolume) (links : List Link) (n : Nat)
    (hlen : v.neighborsArray.length = v.totalNumElements)
    (hna : v'.neighborsArray =
      splitNeighbors (resize v.neighborsArray (v.totalNumElements + n)) links)
    (hok : PairsOK v.totalNumElements (v.totalNumElements + n) (links.map Link.pair))
    (hlink : ∀ l ∈ links, l.ni.w = (neighborsOf v l.member).x ∧
      l.ns.w = (neighborsOf v l.member).y)
    (hout : OutwardOK v (links.map Link.pair)) :
    NeighborOutcome v v' (links.map Link.pair) ∧
    ((∀ l ∈ links, LinkOK v l) → TwinSlots v v' (links.map Link.pair)) := by
  have hmem : ∀ l ∈ links, l.member < v.totalNumElements ∧ v.totalNumElements ≤ l.slot ∧
      l.slot < v.totalNumElements + n := fun l hl =>
    ⟨hok.member_lt l.pair (List.mem_map.2 ⟨l, hl, rfl⟩),
     hok.slot_ge l.pair (List.mem_map.2 ⟨l, hl, rfl⟩),
     hok.slot_lt l.pair (List.mem_map.2 ⟨l, hl, rfl⟩)⟩
  have hinj : ∀ l ∈ links, ∀ l' ∈ links, l'.member = l.member → l' = l := by
    intro l hl l' hl' he
    have hnd := hok.members_nodup
    rw [List.map_map] at hnd
    exact List.inj_on_of_nodup_map hnd hl' hl he
  have hok0 : PairsOK v.totalNumElements
      (resize v.neighborsArray (v.totalNumElements + n)).length (links.map Link.pair) := by
    rw [length_resize]; exact hok
  have F1 := getD_foldl_linkStep v.totalNumElements links _ hok0
  have hy : ∀ l ∈ links, l.ns.w = UINT32_MAX ∨
      (l.ns.w < v.totalNumElements ∧ ∀ l' ∈ links, l.ns.w ≠ l'.member) := by
    intro l hl
    rw [(hlink l hl).2]
    rcases (hout l.pair (List.mem_map.2 ⟨l, hl, rfl⟩)).1 with h | ⟨h1, h2⟩
    · exact Or.inl h
    · exact Or.inr ⟨h1, fun l' hl' => h2 l'.pair (List.mem_map.2 ⟨l', hl', rfl⟩)⟩
  have hkeep : ∀ e, (∀ l ∈ links, l.ns.w = UINT32_MAX ∨ l.ns.w ≠ e) →
      neighborsOf v' e = (links.foldl linkStep
        (resize v.neighborsArray (v.totalNumElements + n))).getD e default := by
    intro e he
    unfold neighborsOf
    rw [hna]
    unfold splitNeighbors
    apply getD_foldl_patchStep_other
    intro p hp
    obtain ⟨l, hl, rfl⟩ := List.mem_map.1 hp
    exact he l hl
  have hmember : ∀ l ∈ links, neighborsOf v' l.member = l.ni := by
    intro l hl
    rw [hkeep, (F1 l hl).1]
    intro l' hl'
    rcases hy l' hl' with h | ⟨_, h⟩
    · exact Or.inl h
    · exact Or.inr (h l hl)
  have hslot : ∀ l ∈ links, neighborsOf v' l.slot = l.ns := by
    intro l hl
    rw [hkeep, (F1 l hl).2]
    intro l' hl'
    rcases hy l' hl' with h | ⟨h, _⟩
    · exact Or.inl h
    · have := (hmem l hl).2.1
      exact Or.inr (by omega)
  have hpnd : ((links.map Link.patch).map (fun p => p.2.1)).Nodup := by
    have hnd := hok.members_nodup
    rw [List.map_map] at hnd ⊢
    exact hnd
  have hplt : ∀ p ∈ links.map Link.patch, p.2.1 < v.totalNumElements ∧
      v.totalNumElements ≤ p.2.2 := by
    intro p hp
    obtain ⟨l, hl, rfl⟩ := List.mem_map.1 hp
    exact ⟨(hmem l hl).1, (hmem l hl).2.1⟩
  have hother : ∀ e k, e < v.totalNumElements → (∀ l ∈ links, e ≠ l.member) →
      (neighborsOf v' e).at k = patchComp (links.map Link.patch) e ((neighborsOf v e).at k) := by
    intro e k he hne
    unfold neighborsOf
    rw [hna]
    unfold splitNeighbors
    rw [getD_foldl_patchStep _ _ _ _ (by rw [length_foldl_linkStep, length_resize]; omega),
      getD_foldl_linkStep_other _ _ _ (fun l hl => ⟨hne l hl, by
        have := (hmem l hl).2.1
        omega⟩),
      getD_resize _ _ _ _ (by omega) (by omega)]
  constructor
  · intro p hp
    obtain ⟨l, hl, rfl⟩ := List.mem_map.1 hp
    obtain ⟨k1, k2⟩ := hlink l hl
    obtain ⟨o1, o2⟩ := hout l.pair (List.mem_map.2 ⟨l, hl, rfl⟩)
    simp only [Link.pair] at o1 o2 ⊢
    refine ⟨by rw [hmember l hl, k1], by rw [hslot l hl, k2], ?_, ?_⟩
    · intro hne
      rcases o1 with h | ⟨h1, h2⟩
      · exact absurd h hne
      have h2' : ∀ l' ∈ links, (neighborsOf v l.member).y ≠ l'.member :=
        fun l' hl' => h2 l'.pair (List.mem_map.2 ⟨l', hl', rfl⟩)
      have hpm := patchComp_member v.totalNumElements _ hpnd hplt l.patch
        (List.mem_map.2 ⟨l, hl, rfl⟩) (by simp only [Link.patch]; rw [k2]; exact hne)
      simp only [Link.patch] at hpm
      rw [k2] at hpm
      constructor
      · intro k hk
        rw [hother _ k h1 h2', hk]
        exact hpm
      · intro k hk
        rw [hother _ k h1 h2'] at hk
        rcases patchComp_range (links.map Link.patch) (neighborsOf v l.member).y
          ((neighborsOf v (neighborsOf v l.member).y).at k) with h | ⟨q, hq, h⟩
        · rw [h] at hk
          rw [hk, hpm] at h
          have := hmem l hl
          omega
        · rw [h] at hk
          have h1 := (hplt q hq).2
          have := hmem l hl
          omega
    · intro hne k hk
      rcases o2 with h | ⟨h1, h2, h3⟩
      · exact absurd h hne
      have h2' : ∀ l' ∈ links, (neighborsOf v l.member).x ≠ l'.member :=
        fun l' hl' => h2 l'.pair (List.mem_map.2 ⟨l', hl', rfl⟩)
      rw [hother _ k h1 h2', hk]
      apply patchComp_fix
      intro q hq hc
      obtain ⟨l', hl', rfl⟩ := List.mem_map.1 hq
      simp only [Link.patch] at hc
      have := hinj l hl l' hl' hc.2.2.symm
      subst this
      rw [k2] at hc
      exact h3 hc.2.1.symm
  · intro hlink' p hp
    obtain ⟨l, hl, rfl⟩ := List.mem_map.1 hp
    obtain ⟨-, -, k3, k4⟩ := hlink' l hl
    simp only [Link.pair]
    exact ⟨by rw [hmember l hl, k3], by rw [hslot l hl, k4]⟩

/-! ## The vector of neighbors through the statements of a split -/

@[simp] theorem flagModified_neighborsArray (v : LEBVolume) (i : Nat) :
    (flagModified v i).neighborsArray = v.neighborsArray := rfl

@[simp] theorem copyModif_neighborsArray (v : LEBVolume) (s i : Nat) :
    (copyModif v s i).neighborsArray = v.neighborsArray := rfl

@[simp] theorem splitHeapID_neighborsArray (v : LEBVolume) (i s : Nat) :
    (splitHeapID v i s).neighborsArray = v.neighborsArray := rfl

@[simp] theorem setTypes_neighborsArray (v : LEBVolume) (i s a b : Nat) :
    (setTypes v i s a b).neighborsArray = v.neighborsArray := rfl

@[simp] theorem allocate_neighborsArray (v : LEBVolume) (n : Nat) :
    (allocate_new_elements v n).1.neighborsArray =
      resize v.neighborsArray ((v.totalNumElements + n) % 2 ^ 32) := rfl

@[simp] theorem setNeighbors_neighborsArray (v : LEBVolume) (i s : Nat) (a b : uint4) :
    (setNeighbors v i s a b).neighborsArray = linkStep v.neighborsArray (Link.mk i s a b) := rfl

@[simp] theorem patchOutward_neighborsArray (v : LEBVolume) (nI : uint4) (i s : Nat) :
    (patchOutward v nI i s).neighborsArray = patchStep v.neighborsArray (nI.y, i, s) := by
  unfold patchOutward patchStep
  split <;> rfl

@[simp] theorem linkEven_neighborsArray (v : LEBVolume) (i s : Nat) (nI : uint4)
    (a b sa sb : Nat) :
    (linkEven v i s nI a b sa sb).neighborsArray =
      linkStep v.neighborsArray (evenLink (typeOf v i) i s nI a b sa sb) := by
  unfold linkEven evenLink
  split <;> rfl

@[simp] theorem linkOdd_neighborsArray (v : LEBVolume) (rev : Bool) (i s : Nat) (nI : uint4)
    (p n sp sn : Nat) :
    (linkOdd v rev i s nI p n sp sn).neighborsArray =
      linkStep v.neighborsArray (oddLink (typeOf v i) rev i s nI p n sp sn) := by
  unfold linkOdd oddLink
  split <;> split <;> rfl

theorem neighborsOf_resize (v : LEBVolume) (w : LEBVolume) (n i : Nat)
    (hw : w.neighborsArray = resize v.neighborsArray n)
    (hlen : v.neighborsArray.length ≤ n) (hi : i < v.neighborsArray.length) :
    neighborsOf w i = neighborsOf v i := by
  unfold neighborsOf
  rw [hw, getD_resize _ _ _ _ hlen hi]

theorem typeOf_resize (v : LEBVolume) (w : LEBVolume) (n i : Nat)
    (hw : w.typeArray = resize v.typeArray n)
    (hlen : v.typeArray.length ≤ n) (hi : i < v.typeArray.length) :
    typeOf w i = typeOf v i := by
  unfold typeOf
  rw [hw, getD_resize _ _ _ _ hlen hi]

theorem links0_pairs (v : LEBVolume) (t : Nat) :
    (links0 v t).map Link.pair = (ring0 v t).zip
      ((List.range 8).map (fun k => v.totalNumElements + k)) := by
  simp only [links0, ring0, List.map, Link.pair, List.range, List.range.loop, List.zip,
    List.zipWith, Nat.add_zero]

theorem links0_ok (v : LEBVolume) (t : Nat) (h : ∀ i ∈ ring0 v t, typeOf v i = 0) :
    ∀ l ∈ links0 v t, LinkOK v l := by
  simp only [ring0, List.mem_cons, List.mem_singleton, List.not_mem_nil, or_false,
    forall_eq_or_imp, forall_eq] at h
  obtain ⟨a0, a1, a2, a3, a4, a5, a6, a7⟩ := h
  intro l hl
  simp only [links0, List.mem_cons, List.mem_singleton, List.not_mem_nil, or_false] at hl
  rcases hl with rfl | rfl | rfl | rfl | rfl | rfl | rfl | rfl
  · exact ⟨rfl, rfl, by simp only [a0]; rfl, by simp only [a0]; rfl⟩
  · exact ⟨rfl, rfl, by simp only [a1]; rfl, by simp only [a1]; rfl⟩
  · exact ⟨rfl, rfl, by simp only [a2]; rfl, by simp only [a2]; rfl⟩
  · exact ⟨rfl, rfl, by simp only [a3]; rfl, by simp only [a3]; rfl⟩
  · exact ⟨rfl, rfl, by simp only [a4]; rfl, by simp only [a4]; rfl⟩
  · exact ⟨rfl, rfl, by simp only [a5]; rfl, by simp only [a5]; rfl⟩
  · exact ⟨rfl, rfl, by simp only [a6]; rfl, by simp only [a6]; rfl⟩
  · exact ⟨rfl, rfl, by simp only [a7]; rfl, by simp only [a7]; rfl⟩

/-- The vector of neighbors after a complete split of type 0, and the asserted types. -/
theorem diamond_split0_links (v v' : LEBVolume) (t : Nat) (h : diamond_split0 v t = .ok v')
    (hlen : v.neighborsArray.length = v.totalNumElements)
    (hw : v.totalNumElements + 8 < 2 ^ 32)
    (hlt : ∀ i ∈ ring0 v t, i < v.totalNumElements) :
    v'.neighborsArray =
      splitNeighbors (resize v.neighborsArray (v.totalNumElements + 8)) (links0 v t) ∧
    ∀ i ∈ ring0 v t, typeOf v i = 0 := by
  unfold diamond_split0 at h
  simp only [bind_assoc, assert_bind_ok, pure_bind] at h
  obtain ⟨-, a0, a1, a2, a3, a4, a5, a6, a7, h⟩ := h
  simp only [pure, Except.pure, Except.ok.injEq] at h
  simp only [beq_iff_eq] at a0 a1 a2 a3 a4 a5 a6 a7
  refine ⟨?_, ?_⟩
  swap
  · simp only [ring0, List.mem_cons, List.mem_singleton, List.not_mem_nil, or_false,
      forall_eq_or_imp, forall_eq]
    exact ⟨a0, a1, a2, a3, a4, a5, a6, a7⟩
  subst h
  have e8 : (v.totalNumElements + 8) % 2 ^ 32 = v.totalNumElements + 8 := Nat.mod_eq_of_lt hw
  have s1 := nextSlot_eq v.totalNumElements (by omega)
  have s2 := nextSlot_eq (v.totalNumElements + 1) (by omega)
  have s3 := nextSlot_eq (v.totalNumElements + 2) (by omega)
  have s4 := nextSlot_eq (v.totalNumElements + 3) (by omega)
  have s5 := nextSlot_eq (v.totalNumElements + 4) (by omega)
  have s6 := nextSlot_eq (v.totalNumElements + 5) (by omega)
  have s7 := nextSlot_eq (v.totalNumElements + 6) (by omega)
  simp only [ring0, List.mem_cons, List.mem_singleton, List.not_mem_nil, or_false,
    forall_eq_or_imp, forall_eq] at hlt
  obtain ⟨m0, m1, m2, m3, m4, m5, m6, m7⟩ := hlt
  have hr : ∀ i, i < v.totalNumElements →
      (resize v.neighborsArray (v.totalNumElements + 8)).getD i default =
        v.neighborsArray.getD i default := fun i hi =>
    getD_resize _ _ _ _ (by omega) (by omega)
  simp only [neighborsOf] at m0 m1 m2 m3 m4 m5 m6 m7
  simp only [allocate_snd, s1, s2, s3, s4, s5, s6, s7, patchOutward_neighborsArray,
    setNeighbors_neighborsArray, neighborsOf, setTypes_neighborsArray,
    splitHeapID_neighborsArray, copyModif_neighborsArray,
    flagModified_neighborsArray, allocate_neighborsArray, e8, links0, splitNeighbors,
    hr _ m0, hr _ m1, hr _ m2, hr _ m3, hr _ m4, hr _ m5, hr _ m6, hr _ m7,
    List.map, List.foldl, Link.patch]

theorem links3_pairs (v : LEBVolume) (t : Nat) :
    (links3 v t).map Link.pair = (ring3 v t).zip
      ((List.range 4).map (fun k => v.totalNumElements + k)) := by
  simp only [links3, ring3, List.map, Link.pair, List.range, List.range.loop, List.zip,
    List.zipWith, Nat.add_zero]

theorem links3_ok (v : LEBVolume) (t : Nat) (h : ∀ i ∈ ring3 v t, typeOf v i = 3) :
    ∀ l ∈ links3 v t, LinkOK v l := by
  simp only [ring3, List.mem_cons, List.mem_singleton, List.not_mem_nil, or_false,
    forall_eq_or_imp, forall_eq] at h
  obtain ⟨a0, a1, a2, a3⟩ := h
  intro l hl
  simp only [links3, List.mem_cons, List.mem_singleton, List.not_mem_nil, or_false] at hl
  rcases hl with rfl | rfl | rfl | rfl
  · exact ⟨rfl, rfl, by simp only [a0]; rfl, by simp only [a0]; rfl⟩
  · exact ⟨rfl, rfl, by simp only [a1]; rfl, by simp only [a1]; rfl⟩
  · exact ⟨rfl, rfl, by simp only [a2]; rfl, by simp only [a2]; rfl⟩
  · exact ⟨rfl, rfl, by simp only [a3]; rfl, by simp only [a3]; rfl⟩

/-- The vector of neighbors after a complete split of type 3, and the asserted types. -/
theorem diamond_split3_links (v v' : LEBVolume) (t : Nat) (h : diamond_split3 v t = .ok v')
    (hlen : v.neighborsArray.length = v.totalNumElements)
    (hw : v.totalNumElements + 8 < 2 ^ 32)
    (hlt : ∀ i ∈ ring3 v t, i < v.totalNumElements) :
    v'.neighborsArray =
      splitNeighbors (resize v.neighborsArray (v.totalNumElements + 4)) (links3 v t) ∧
    ∀ i ∈ ring3 v t, typeOf v i = 3 := by
  unfold diamond_split3 at h
  simp only [bind_assoc, assert_bind_ok, pure_bind] at h
  obtain ⟨a0, a1, a2, a3, h⟩ := h
  simp only [pure, Except.pure, Except.ok.injEq] at h
  simp only [beq_iff_eq] at a0 a1 a2 a3
  refine ⟨?_, ?_⟩
  swap
  · simp only [ring3, List.mem_cons, List.mem_singleton, List.not_mem_nil, or_false,
      forall_eq_or_imp, forall_eq]
    exact ⟨a0, a1, a2, a3⟩
  subst h
  have e8 : (v.totalNumElements + 4) % 2 ^ 32 = v.totalNumElements + 4 :=
    Nat.mod_eq_of_lt (by omega)
  have s1 := nextSlot_eq v.totalNumElements (by omega)
  have s2 := nextSlot_eq (v.totalNumElements + 1) (by omega)
  have s3 := nextSlot_eq (v.totalNumElements + 2) (by omega)
  simp only [ring3, List.mem_cons, List.mem_singleton, List.not_mem_nil, or_false,
    forall_eq_or_imp, forall_eq] at hlt
  obtain ⟨m0, m1, m2, m3⟩ := hlt
  have hr : ∀ i, i < v.totalNumElements →
      (resize v.neighborsArray (v.totalNumElements + 4)).getD i default =
        v.neighborsArray.getD i default := fun i hi =>
    getD_resize _ _ _ _ (by omega) (by omega)
  simp only [neighborsOf] at m0 m1 m2 m3
  simp only [allocate_snd, s1, s2, s3, patchOutward_neighborsArray,
    setNeighbors_neighborsArray, neighborsOf, setTypes_neighborsArray,
    splitHeapID_neighborsArray, copyModif_neighborsArray,
    flagModified_neighborsArray, allocate_neighborsArray, e8, links3, splitNeighbors,
    hr _ m0, hr _ m1, hr _ m2, hr _ m3, List.map, List.foldl, Link.patch]

theorem evenLink_member (ty i s : Nat) (nI : uint4) (a b sa sb : Nat) :
    (evenLink ty i s nI a b sa sb).member = i ∧ (evenLink ty i s nI a b sa sb).slot = s ∧
    (evenLink ty i s nI a b sa sb).ns.w = nI.y := by
  unfold evenLink; split <;> exact ⟨rfl, rfl, rfl⟩

theorem oddLink_member (ty : Nat) (rev : Bool) (i s : Nat) (nI : uint4) (p n sp sn : Nat) :
    (oddLink ty rev i s nI p n sp sn).member = i ∧ (oddLink ty rev i s nI p n sp sn).slot = s ∧
    (oddLink ty rev i s nI p n sp sn).ns.w = nI.y := by
  unfold oddLink; split <;> split <;> exact ⟨rfl, rfl, rfl⟩

theorem evenLink_ok (v : LEBVolume) (i s a b sa sb : Nat)
    (h : typeOf v i = 1 ∨ typeOf v i = 2) :
    LinkOK v (evenLink (typeOf v i) i s (neighborsOf v i) a b sa sb) := by
  unfold LinkOK
  rw [(evenLink_member _ _ _ _ _ _ _ _).1, (evenLink_member _ _ _ _ _ _ _ _).2.1]
  unfold evenLink
  rcases h with h | h <;> rw [h] <;> exact ⟨rfl, rfl, rfl, rfl⟩

theorem oddLink_ok (v : LEBVolume) (rev : Bool) (i s p n sp sn : Nat)
    (h : typeOf v i = 1 ∨ typeOf v i = 2) :
    LinkOK v (oddLink (typeOf v i) rev i s (neighborsOf v i) p n sp sn) := by
  unfold LinkOK
  rw [(oddLink_member _ _ _ _ _ _ _ _ _).1, (oddLink_member _ _ _ _ _ _ _ _ _).2.1]
  unfold oddLink
  cases rev <;> rcases h with h | h <;> rw [h] <;> exact ⟨rfl, rfl, rfl, rfl⟩

theorem links12_pairs (v : LEBVolume) (t : Nat) :
    (links12 v t).map Link.pair = (ring12 v t).zip
      ((List.range 6).map (fun k => v.totalNumElements + k)) := by
  simp only [links12, ring12, List.map, Link.pair, List.range, List.range.loop, List.zip,
    List.zipWith, Nat.add_zero, (evenLink_member _ _ _ _ _ _ _ _).1,
    (evenLink_member _ _ _ _ _ _ _ _).2.1, (oddLink_member _ _ _ _ _ _ _ _ _).1,
    (oddLink_member _ _ _ _ _ _ _ _ _).2.1]

theorem links12_ok (v : LEBVolume) (t : Nat)
    (h : ∀ i ∈ ring12 v t, typeOf v i = 1 ∨ typeOf v i = 2) :
    ∀ l ∈ links12 v t, LinkOK v l := by
  simp only [ring12, List.mem_cons, List.mem_singleton, List.not_mem_nil, or_false,
    forall_eq_or_imp, forall_eq] at h
  obtain ⟨a0, a1, a2, a3, a4, a5⟩ := h
  intro l hl
  simp only [links12, List.mem_cons, List.mem_singleton, List.not_mem_nil, or_false] at hl
  rcases hl with rfl | rfl | rfl | rfl | rfl | rfl
  · exact evenLink_ok v _ _ _ _ _ _ a0
  · exact oddLink_ok v _ _ _ _ _ _ _ a1
  · exact evenLink_ok v _ _ _ _ _ _ a2
  · exact oddLink_ok v _ _ _ _ _ _ _ a3
  · exact evenLink_ok v _ _ _ _ _ _ a4
  · exact oddLink_ok v _ _ _ _ _ _ _ a5

/-- The vector of neighbors after a complete split of type 1 or 2, and the asserted types. -/
theorem diamond_split12_links (v v' : LEBVolume) (t : Nat) (h : diamond_split12 v t = .ok v')
    (hlen : v.neighborsArray.length = v.totalNumElements)
    (hlen2 : v.typeArray.length = v.totalNumElements)
    (hw : v.totalNumElements + 8 < 2 ^ 32)
    (hlt : ∀ i ∈ ring12 v t, i < v.totalNumElements) :
    v'.neighborsArray =
      splitNeighbors (resize v.neighborsArray (v.totalNumElements + 6)) (links12 v t) ∧
    ∀ i ∈ ring12 v t, typeOf v i = 1 ∨ typeOf v i = 2 := by
  unfold diamond_split12 at h
  simp only [bind_assoc, assert_bind_ok, pure_bind] at h
  obtain ⟨-, a0, a1, a2, a3, a4, a5, h⟩ := h
  simp only [pure, Except.pure, Except.ok.injEq] at h
  simp only [Bool.or_eq_true, beq_iff_eq] at a0 a1 a2 a3 a4 a5
  refine ⟨?_, ?_⟩
  swap
  · simp only [ring12, List.mem_cons, List.mem_singleton, List.not_mem_nil, or_false,
      forall_eq_or_imp, forall_eq]
    exact ⟨a0, a1, a2, a3, a4, a5⟩
  subst h
  have e8 : (v.totalNumElements + 6) % 2 ^ 32 = v.totalNumElements + 6 :=
    Nat.mod_eq_of_lt (by omega)
  have s1 := nextSlot_eq v.totalNumElements (by omega)
  have s2 := nextSlot_eq (v.totalNumElements + 1) (by omega)
  have s3 := nextSlot_eq (v.totalNumElements + 2) (by omega)
  have s4 := nextSlot_eq (v.totalNumElements + 3) (by omega)
  have s5 := nextSlot_eq (v.totalNumElements + 4) (by omega)
  simp only [ring12, List.mem_cons, List.mem_singleton, List.not_mem_nil, or_false,
    forall_eq_or_imp, forall_eq] at hlt
  obtain ⟨m0, m1, m2, m3, m4, m5⟩ := hlt
  have hr : ∀ i, i < v.totalNumElements →
      (resize v.neighborsArray (v.totalNumElements + 6)).getD i default =
        v.neighborsArray.getD i default := fun i hi =>
    getD_resize _ _ _ _ (by omega) (by omega)
  have ht : ∀ i, i < v.totalNumElements →
      (resize v.typeArray (v.totalNumElements + 6)).getD i 0 = v.typeArray.getD i 0 :=
    fun i hi => getD_resize _ _ _ _ (by omega) (by omega)
  simp only [neighborsOf, ringNext] at m0 m1 m2 m3 m4 m5
  simp only [allocate_snd, s1, s2, s3, s4, s5, patchOutward_neighborsArray,
    linkEven_neighborsArray, linkOdd_neighborsArray, neighborsOf, ringNext, typeOf,
    setTypes_neighborsArray, linkEven_typeArray, linkOdd_typeArray,
    splitHeapID_neighborsArray, copyModif_neighborsArray,
    flagModified_neighborsArray, allocate_neighborsArray,
    splitHeapID_typeArray, copyModif_typeArray,
    flagModified_typeArray, allocate_typeArray, e8, links12, splitNeighbors,
    hr _ m0, hr _ m1, hr _ m2, hr _ m3, hr _ m4, hr _ m5,
    ht _ m0, ht _ m1, ht _ m2, ht _ m3, ht _ m4, ht _ m5,
    List.map, List.foldl, Link.patch, (evenLink_member _ _ _ _ _ _ _ _).1,
    (evenLink_member _ _ _ _ _ _ _ _).2.1, (oddLink_member _ _ _ _ _ _ _ _ _).1,
    (oddLink_member _ _ _ _ _ _ _ _ _).2.1, (evenLink_member _ _ _ _ _ _ _ _).2.2,
    (oddLink_member _ _ _ _ _ _ _ _ _).2.2]

/-! ## The vector of neighbors through the incomplete split -/

theorem collectLeft_neighbors (v : LEBVolume) (left : Nat) (st0 : Arms) (n0 : Nat)
    (hlen : v.neighborsArray.length = v.totalNumElements)
    (h0 : st0.volume.totalNumElements = v.totalNumElements + 1 + n0 ∧
      st0.volume.neighborsArray = resize v.neighborsArray (v.totalNumElements + 1 + n0))
    (n : Nat) (hw : v.totalNumElements + 1 + n0 + n < 2 ^ 32) :
    (collectLeft left n st0).volume.totalNumElements = v.totalNumElements + 1 + (n0 + n) ∧
    (collectLeft left n st0).volume.neighborsArray =
      resize v.neighborsArray (v.totalNumElements + 1 + (n0 + n)) := by
  induction n with
  | zero => exact h0
  | succ n ih =>
    obtain ⟨i1, i2⟩ := ih (by omega)
    have hstep : collectLeft left (n + 1) st0 =
        collectLeftStep left (collectLeft left n st0) n := by
      unfold collectLeft
      rw [foldl_range_succ]
    have hm : (v.totalNumElements + 1 + (n0 + n) + 1) % 2 ^ 32 =
        v.totalNumElements + 1 + (n0 + (n + 1)) := by
      rw [Nat.mod_eq_of_lt (by omega)]; omega
    rw [hstep]
    unfold collectLeftStep
    simp only [allocate_totalNumElements, allocate_neighborsArray, i1, i2, hm]
    exact ⟨trivial, resize_resize _ _ _ (by omega) (by omega)⟩

theorem collectRight_neighbors (v : LEBVolume) (left : Nat) (st0 : Arms) (n0 : Nat)
    (hlen : v.neighborsArray.length = v.totalNumElements)
    (h0 : st0.volume.totalNumElements = v.totalNumElements + 1 + n0 ∧
      st0.volume.neighborsArray = resize v.neighborsArray (v.totalNumElements + 1 + n0))
    (n : Nat) (hw : v.totalNumElements + 1 + n0 + n < 2 ^ 32) :
    (collectRight left n st0).volume.totalNumElements = v.totalNumElements + 1 + (n0 + n) ∧
    (collectRight left n st0).volume.neighborsArray =
      resize v.neighborsArray (v.totalNumElements + 1 + (n0 + n)) := by
  induction n with
  | zero => exact h0
  | succ n ih =>
    obtain ⟨i1, i2⟩ := ih (by omega)
    have hstep : collectRight left (n + 1) st0 =
        collectRightStep left (collectRight left n st0) n := by
      unfold collectRight
      rw [foldl_range_succ]
    have hm : (v.totalNumElements + 1 + (n0 + n) + 1) % 2 ^ 32 =
        v.totalNumElements + 1 + (n0 + (n + 1)) := by
      rw [Nat.mod_eq_of_lt (by omega)]; omega
    rw [hstep]
    unfold collectRightStep
    simp only [allocate_totalNumElements, allocate_neighborsArray, i1, i2, hm]
    exact ⟨trivial, resize_resize _ _ _ (by omega) (by omega)⟩

/-- After the two collecting loops the vector of neighbors is the former one, resized. -/
theorem collectArms_neighbors (v : LEBVolume) (t r l ringSize : Nat)
    (hlen : v.neighborsArray.length = v.totalNumElements)
    (hw : v.totalNumElements + 1 + l + r < 2 ^ 32) :
    (collectArms v t r l ringSize).volume.neighborsArray =
      resize v.neighborsArray (v.totalNumElements + (1 + l + r)) := by
  unfold collectArms
  have hm : (v.totalNumElements + 1) % 2 ^ 32 = v.totalNumElements + 1 :=
    Nat.mod_eq_of_lt (by omega)
  have h1 := collectLeft_neighbors v l
    ⟨(allocate_new_elements v 1).1, (List.replicate ringSize UINT32_MAX).set l t,
      (List.replicate ringSize UINT32_MAX).set l (allocate_new_elements v 1).2, true⟩ 0 hlen
    (by simp only [allocate_totalNumElements, allocate_neighborsArray, hm, Nat.add_zero]
        exact ⟨trivial, trivial⟩) l (by omega)
  have h2 := collectRight_neighbors v l
    { (collectLeft l l ⟨(allocate_new_elements v 1).1,
        (List.replicate ringSize UINT32_MAX).set l t,
        (List.replicate ringSize UINT32_MAX).set l (allocate_new_elements v 1).2, true⟩)
        with firstTwin := true } (0 + l) hlen h1 r (by omega)
  have e : v.totalNumElements + 1 + (0 + l + r) = v.totalNumElements + (1 + l + r) := by omega
  rw [e] at h2
  exact h2.2

theorem updateMembers_neighbors (vol : LEBVolume) (ind sl : List Nat) (n ti ts : Nat) :
    (updateMembers vol ind sl n ti ts).neighborsArray = vol.neighborsArray := by
  induction n with
  | zero => rfl
  | succ n ih =>
    unfold updateMembers at ih ⊢
    rw [foldl_range_succ]
    unfold updateMember
    simp only [copyModif_neighborsArray, flagModified_neighborsArray, setTypes_neighborsArray,
      splitHeapID_neighborsArray]
    exact ih

theorem twinAt_succ (b : Bool) (k : Nat) : twinAt b (k + 1) = !twinAt b k := by
  unfold twinAt
  rcases Nat.mod_two_eq_zero_or_one k with h | h
  · have h' : (k + 1) % 2 ≠ 0 := by omega
    rw [if_pos h, if_neg h']
  · have h' : (k + 1) % 2 = 0 := by omega
    have h'' : k % 2 ≠ 0 := by omega
    rw [if_neg h'', if_pos h', Bool.not_not]

theorem linkMember_neighbors (ind sl : List Nat) (na : List uint4) (rs : Nat)
    (st : LEBVolume × Bool) (e : Nat) :
    (linkMember ind sl na rs st e).1.neighborsArray =
      linkStep st.1.neighborsArray (memberLink ind sl na rs st.2 e) ∧
    (linkMember ind sl na rs st e).2 = !st.2 := by
  unfold linkMember memberLink
  simp only [copyModif_neighborsArray, flagModified_neighborsArray]
  split <;> exact ⟨rfl, trivial⟩

theorem linkMembers_neighbors (vol : LEBVolume) (ind sl : List Nat) (na : List uint4)
    (n rs : Nat) (b : Bool) :
    ((List.range n).foldl (linkMember ind sl na rs) (vol, b)).1.neighborsArray =
      ((List.range n).map (fun k => memberLink ind sl na rs (twinAt b k) k)).foldl linkStep
        vol.neighborsArray ∧
    ((List.range n).foldl (linkMember ind sl na rs) (vol, b)).2 = twinAt b n := by
  induction n with
  | zero => exact ⟨rfl, rfl⟩
  | succ n ih =>
    obtain ⟨i1, i2⟩ := ih
    rw [foldl_range_succ, map_range_succ, List.foldl_append]
    obtain ⟨h1, h2⟩ := linkMember_neighbors ind sl na rs
      ((List.range n).foldl (linkMember ind sl na rs) (vol, b)) n
    rw [h1, h2, i1, i2, twinAt_succ]
    exact ⟨rfl, rfl⟩

theorem patchMembers_neighbors (vol : LEBVolume) (ind sl : List Nat) (na : List uint4)
    (n : Nat) :
    (patchMembers vol ind sl na n).neighborsArray =
      ((List.range n).map (fun k =>
        ((na.getD k default).y, ind.getD k UINT32_MAX, sl.getD k UINT32_MAX))).foldl patchStep
        vol.neighborsArray := by
  induction n with
  | zero => rfl
  | succ n ih =>
    have hstep : patchMembers vol ind sl na (n + 1) =
        patchMember ind sl na (patchMembers vol ind sl na n) n := by
      unfold patchMembers
      rw [foldl_range_succ]
    rw [hstep, map_range_succ, List.foldl_append]
    unfold patchMember
    rw [patchOutward_neighborsArray, ih]
    rfl

theorem memberLink_fields (ind sl : List Nat) (na : List uint4) (rs : Nat) (b : Bool)
    (k : Nat) :
    (memberLink ind sl na rs b k).member = ind.getD k UINT32_MAX ∧
    (memberLink ind sl na rs b k).slot = sl.getD k UINT32_MAX ∧
    (memberLink ind sl na rs b k).ni.w = (na.getD k default).x ∧
    (memberLink ind sl na rs b k).ns.w = (na.getD k default).y ∧
    (memberLink ind sl na rs b k).ni.y = sl.getD k UINT32_MAX ∧
    (memberLink ind sl na rs b k).ns.x = ind.getD k UINT32_MAX := by
  unfold memberLink
  cases b <;> exact ⟨rfl, rfl, rfl, rfl, rfl, rfl⟩

/-- The vector of neighbors after the shared part of `diamond_split_incomplete`. -/
theorem splitIncompleteRing_neighbors (v : LEBVolume) (t r l rs ti ts : Nat)
    (hlen : v.neighborsArray.length = v.totalNumElements)
    (hw : v.totalNumElements + 1 + l + r < 2 ^ 32)
    (hlt : ∀ k, k < 1 + r + l →
      (collectArms v t r l rs).indices.getD k UINT32_MAX < v.totalNumElements) :
    (splitIncompleteRing v t r l rs ti ts).1.neighborsArray =
      splitNeighbors (resize v.neighborsArray (v.totalNumElements + (1 + l + r)))
        ((List.range (1 + r + l)).map (fun k =>
          memberLink (collectArms v t r l rs).indices (collectArms v t r l rs).slots
            ((List.range (1 + r + l)).map (fun eleIdx =>
              neighborsOf v ((collectArms v t r l rs).indices.getD eleIdx UINT32_MAX)))
            rs (twinAt (l % 2 == 0) k) k)) := by
  have hsize : (1 + r + l) % 2 ^ 32 = 1 + r + l := Nat.mod_eq_of_lt (by omega)
  have hna : (List.range (1 + r + l)).map (fun eleIdx =>
      neighborsOf (updateMembers (collectArms v t r l rs).volume
        (collectArms v t r l rs).indices (collectArms v t r l rs).slots (1 + r + l) ti ts)
        ((collectArms v t r l rs).indices.getD eleIdx UINT32_MAX)) =
      (List.range (1 + r + l)).map (fun eleIdx =>
        neighborsOf v ((collectArms v t r l rs).indices.getD eleIdx UINT32_MAX)) := by
    apply List.map_congr_left
    intro k hk
    apply neighborsOf_resize v _ (v.totalNumElements + (1 + l + r))
    · rw [updateMembers_neighbors, collectArms_neighbors v t r l rs hlen hw]
    · omega
    · rw [hlen]; exact hlt k (List.mem_range.1 hk)
  unfold splitIncompleteRing
  simp only [hsize]
  rw [hna, patchMembers_neighbors]
  unfold linkMembers
  rw [(linkMembers_neighbors _ _ _ _ _ _ _).1, updateMembers_neighbors,
    collectArms_neighbors v t r l rs hlen hw]
  unfold splitNeighbors
  rw [List.map_map]
  congr 1
  apply List.map_congr_left
  intro k _
  simp only [Function.comp, Link.patch]
  obtain ⟨f1, f2, -, f4, -, -⟩ := memberLink_fields (collectArms v t r l rs).indices
    (collectArms v t r l rs).slots
    ((List.range (1 + r + l)).map (fun eleIdx =>
      neighborsOf v ((collectArms v t r l rs).indices.getD eleIdx UINT32_MAX)))
    rs (twinAt (l % 2 == 0) k) k
  rw [f1, f2, f4]

/-! ## Both kinds of split: the neighbor tuples -/

theorem ring_pairs_ok (c : Nat) (members : List Nat) (pairs : List (Nat × Nat))
    (hp : pairs = members.zip ((List.range members.length).map (fun k => c + k)))
    (hnd : (pairs.map Prod.fst).Nodup) (hlt : ∀ p ∈ pairs, p.1 < c) :
    PairsOK c (c + members.length) pairs ∧ ∀ i ∈ members, i < c := by
  have hm := (zip_slots members c).1
  rw [← hp] at hm
  have hmem : ∀ i ∈ members, i < c := fun i hi => by
    rw [← hm] at hi
    obtain ⟨p, hp1, hp2⟩ := List.mem_map.1 hi
    rw [← hp2]; exact hlt p hp1
  have := zip_slots_ok members c (by rw [← hm]; exact hnd) hmem
  rw [← hp] at this
  exact ⟨this, hmem⟩

/-- The outcome of `diamond_split` on the neighbor tuples of a diamond of distinct elements
whose outward neighbors lie outside the diamond. -/
theorem diamond_split_neighbors (v v' : LEBVolume) (t : Nat) (h : diamond_split v t = .ok v')
    (hlen : v.neighborsArray.length = v.totalNumElements)
    (hlen2 : v.typeArray.length = v.totalNumElements)
    (hw : v.totalNumElements + 8 < 2 ^ 32)
    (hnd : ((completePairs v t).map Prod.fst).Nodup)
    (hlt : ∀ p ∈ completePairs v t, p.1 < v.totalNumElements)
    (hout : OutwardOK v (completePairs v t)) :
    NeighborOutcome v v' (completePairs v t) ∧ TwinSlots v v' (completePairs v t) := by
  unfold diamond_split at h
  simp only at h
  by_cases h0 : typeOf v t = 0
  · rw [if_pos h0] at h
    have hp : completePairs v t = (ring0 v t).zip
        ((List.range (ring0 v t).length).map (fun k => v.totalNumElements + k)) := by
      unfold completePairs
      simp only [h0, if_true]
    obtain ⟨hok, hmem⟩ := ring_pairs_ok _ _ _ hp hnd hlt
    obtain ⟨f1, f2⟩ := diamond_split0_links v v' t h hlen hw hmem
    have hl : (links0 v t).map Link.pair = completePairs v t := by
      rw [links0_pairs, hp]; rfl
    rw [← hl] at hok hout ⊢
    obtain ⟨o1, o2⟩ := links_outcome v v' _ 8 hlen f1 hok
      (fun l hl => ⟨(links0_ok v t f2 l hl).1, (links0_ok v t f2 l hl).2.1⟩) hout
    exact ⟨o1, o2 (links0_ok v t f2)⟩
  · rw [if_neg h0] at h
    by_cases h12 : typeOf v t = 1 ∨ typeOf v t = 2
    · rw [if_pos h12] at h
      have hp : completePairs v t = (ring12 v t).zip
          ((List.range (ring12 v t).length).map (fun k => v.totalNumElements + k)) := by
        unfold completePairs
        simp only [h0, h12, if_true, if_false]
      obtain ⟨hok, hmem⟩ := ring_pairs_ok _ _ _ hp hnd hlt
      obtain ⟨f1, f2⟩ := diamond_split12_links v v' t h hlen hlen2 hw hmem
      have hl : (links12 v t).map Link.pair = completePairs v t := by
        rw [links12_pairs, hp]; rfl
      rw [← hl] at hok hout ⊢
      obtain ⟨o1, o2⟩ := links_outcome v v' _ 6 hlen f1 hok
        (fun l hl => ⟨(links12_ok v t f2 l hl).1, (links12_ok v t f2 l hl).2.1⟩) hout
      exact ⟨o1, o2 (links12_ok v t f2)⟩
    · rw [if_neg h12] at h
      by_cases h3 : typeOf v t = 3
      · rw [if_pos h3] at h
        have hp : completePairs v t = (ring3 v t).zip
            ((List.range (ring3 v t).length).map (fun k => v.totalNumElements + k)) := by
          unfold completePairs
          rw [h3]
          rfl
        obtain ⟨hok, hmem⟩ := ring_pairs_ok _ _ _ hp hnd hlt
        obtain ⟨f1, f2⟩ := diamond_split3_links v v' t h hlen hw hmem
        have hl : (links3 v t).map Link.pair = completePairs v t := by
          rw [links3_pairs, hp]; rfl
        rw [← hl] at hok hout ⊢
        obtain ⟨o1, o2⟩ := links_outcome v v' _ 4 hlen f1 hok
          (fun l hl => ⟨(links3_ok v t f2 l hl).1, (links3_ok v t f2 l hl).2.1⟩) hout
        exact ⟨o1, o2 (links3_ok v t f2)⟩
      · have hp : completePairs v t = [] := by
          unfold completePairs
          simp only [h0, h12, h3, if_false]
          rfl
        rw [hp]
        exact ⟨fun p hp => absurd hp (List.not_mem_nil p),
          fun p hp => absurd hp (List.not_mem_nil p)⟩

/-- The outcome of `diamond_split_incomplete` on the neighbor tuples of a diamond of distinct
elements that have the type of the target and whose outward neighbors lie outside the
diamond. -/
theorem diamond_split_incomplete_neighbors (v v' : LEBVolume) (t r l : Nat)
    (h : diamond_split_incomplete v t r l = .ok v')
    (h03 : typeOf v t = 0 ∨ typeOf v t = 3)
    (hlen0 : v.heapIDArray.length = v.totalNumElements)
    (hlen2 : v.typeArray.length = v.totalNumElements)
    (hlen : v.neighborsArray.length = v.totalNumElements)
    (hw : v.totalNumElements + 1 + l + r < 2 ^ 32)
    (hfit : 1 + r + l ≤ ringSizeOf (typeOf v t))
    (hnd : ((incompletePairs v t r l).map Prod.fst).Nodup)
    (hlt : ∀ p ∈ incompletePairs v t r l, p.1 < v.totalNumElements)
    (hout : OutwardOK v (incompletePairs v t r l)) :
    NeighborOutcome v v' (incompletePairs v t r l) ∧
    ((∀ p ∈ incompletePairs v t r l, typeOf v p.1 = typeOf v t) →
      TwinSlots v v' (incompletePairs v t r l)) := by
  have hok := incompletePairs_ok v t r l hlen0 hlen2 hw hfit hnd hlt
  have hl : (linksIncomplete v t r l).map Link.pair = incompletePairs v t r l := by
    unfold linksIncomplete incompletePairs
    rw [List.map_map]
    apply List.map_congr_left
    intro k _
    simp only [Function.comp, Link.pair]
    rw [(memberLink_fields _ _ _ _ _ _).1, (memberLink_fields _ _ _ _ _ _).2.1]
  have hmem : ∀ k, k < 1 + r + l →
      (collectArms v t r l (ringSizeOf (typeOf v t))).indices.getD k UINT32_MAX <
        v.totalNumElements := by
    intro k hk
    exact hlt (_, (collectArms v t r l (ringSizeOf (typeOf v t))).slots.getD k UINT32_MAX)
      (List.mem_map.2 ⟨k, List.mem_range.2 hk, rfl⟩)
  have hlinks : (∀ p ∈ incompletePairs v t r l, typeOf v p.1 = typeOf v t) →
      ∀ link ∈ linksIncomplete v t r l, LinkOK v link := by
    intro hty link hlink
    have hpair : link.pair ∈ incompletePairs v t r l := by
      rw [← hl]; exact List.mem_map.2 ⟨link, hlink, rfl⟩
    have htype := hty _ hpair
    simp only [Link.pair] at htype
    unfold linksIncomplete at hlink
    obtain ⟨k, hk, rfl⟩ := List.mem_map.1 hlink
    have hk' := List.mem_range.1 hk
    obtain ⟨f1, f2, f3, f4, f5, f6⟩ := memberLink_fields
      (collectArms v t r l (ringSizeOf (typeOf v t))).indices
      (collectArms v t r l (ringSizeOf (typeOf v t))).slots
      ((List.range (1 + r + l)).map (fun eleIdx =>
        neighborsOf v ((collectArms v t r l (ringSizeOf (typeOf v t))).indices.getD eleIdx
          UINT32_MAX)))
      (ringSizeOf (typeOf v t)) (twinAt (l % 2 == 0) k) k
    have hget : ((List.range (1 + r + l)).map (fun eleIdx =>
        neighborsOf v ((collectArms v t r l (ringSizeOf (typeOf v t))).indices.getD eleIdx
          UINT32_MAX))).getD k default =
        neighborsOf v ((collectArms v t r l (ringSizeOf (typeOf v t))).indices.getD k
          UINT32_MAX) := by
      rw [List.getD_eq_getElem?_getD, List.getElem?_map, List.getElem?_range hk']
      rfl
    rw [hget] at f3 f4
    have hs0 : specTwinSlot (typeOf v t) 0 = 1 := by
      rcases h03 with e | e <;> rw [e] <;> rfl
    have hs1 : specTwinSlot (typeOf v t) 1 = 0 := by
      rcases h03 with e | e <;> rw [e] <;> rfl
    unfold LinkOK
    rw [htype, hs0, hs1, f1, f2, f3, f4]
    exact ⟨rfl, rfl, f5, f6⟩
  have hna : v'.neighborsArray =
      splitNeighbors (resize v.neighborsArray (v.totalNumElements + (1 + l + r)))
        (linksIncomplete v t r l) := by
    unfold diamond_split_incomplete at h
    simp only at h
    rcases h03 with h0 | h3
    · rw [if_pos h0] at h
      simp only [pure, Except.pure, Except.ok.injEq] at h
      subst h
      have := splitIncompleteRing_neighbors v t r l 8 1 2 hlen hw
        (by rw [h0] at hmem; exact hmem)
      rw [this]
      unfold linksIncomplete
      rw [h0]
      rfl
    · rw [if_neg (by omega), if_neg (by omega), if_pos h3] at h
      simp only [pure, Except.pure, Except.ok.injEq] at h
      subst h
      have := splitIncompleteRing_neighbors v t r l 4 0 0 hlen hw
        (by rw [h3] at hmem; exact hmem)
      simp only
      rw [this]
      unfold linksIncomplete
      rw [h3]
      rfl
  have hws : ∀ link ∈ linksIncomplete v t r l,
      link.ni.w = (neighborsOf v link.member).x ∧ link.ns.w = (neighborsOf v link.member).y := by
    intro link hlink
    unfold linksIncomplete at hlink
    obtain ⟨k, hk, rfl⟩ := List.mem_map.1 hlink
    have hk' := List.mem_range.1 hk
    obtain ⟨f1, f2, f3, f4, f5, f6⟩ := memberLink_fields
      (collectArms v t r l (ringSizeOf (typeOf v t))).indices
      (collectArms v t r l (ringSizeOf (typeOf v t))).slots
      ((List.range (1 + r + l)).map (fun eleIdx =>
        neighborsOf v ((collectArms v t r l (ringSizeOf (typeOf v t))).indices.getD eleIdx
          UINT32_MAX)))
      (ringSizeOf (typeOf v t)) (twinAt (l % 2 == 0) k) k
    have hget : ((List.range (1 + r + l)).map (fun eleIdx =>
        neighborsOf v ((collectArms v t r l (ringSizeOf (typeOf v t))).indices.getD eleIdx
          UINT32_MAX))).getD k default =
        neighborsOf v ((collectArms v t r l (ringSizeOf (typeOf v t))).indices.getD k
          UINT32_MAX) := by
      rw [List.getD_eq_getElem?_getD, List.getElem?_map, List.getElem?_range hk']
      rfl
    rw [hget] at f3 f4
    rw [f1, f3, f4]
    exact ⟨rfl, rfl⟩
  rw [← hl] at hok hout ⊢
  obtain ⟨o1, o2⟩ := links_outcome v v' _ (1 + l + r) hlen hna hok hws hout
  refine ⟨o1, fun hty => o2 (hlinks ?_)⟩
  rw [← hl]
  exact hty

/-! ## The claims on the neighbor tuples of a split -/

theorem perm3 {α : Type} (a b c : α) :
    [a, c, b].Perm [a, b, c] ∧ [b, a, c].Perm [a, b, c] ∧ [b, c, a].Perm [a, b, c] ∧
    [c, a, b].Perm [a, b, c] ∧ [c, b, a].Perm [a, b, c] :=
  ⟨List.Perm.cons a (List.Perm.swap b c []),
   List.Perm.swap a b [c],
   List.Perm.trans (List.Perm.cons b (List.Perm.swap a c [])) (List.Perm.swap a b [c]),
   List.Perm.trans (List.Perm.swap a c [b]) (List.Perm.cons a (List.Perm.swap b c [])),
   List.Perm.trans (List.Perm.cons c (List.Perm.swap a b []))
     (List.Perm.trans (List.Perm.swap a c [b]) (List.Perm.cons a (List.Perm.swap b c [])))⟩

theorem inherited_of_outcome (v v' : LEBVolume) (pairs : List (Nat × Nat))
    (h : NeighborOutcome v v' pairs) : InheritedSlots v v' pairs :=
  fun p hp => ⟨(h p hp).1, (h p hp).2.1⟩

/-- C28.  Outward neighbors are inherited and patched.  For `diamond_split` (any type) and for
`diamond_split_incomplete` (types 0 and 3; the other types abort), on a mesh whose vectors hold
one entry per element, whose diamond consists of distinct elements and whose outward neighbors
lie outside the diamond (`OutwardOK`): for every member `e` with pre-split tuple
`(x0, y0, _, _)` and twin `t`, `neighborsArray[e].w = x0` and `neighborsArray[t].w = y0`; if
`y0` is not none, every component of `neighborsArray[y0]` that held `e` holds `t` afterwards and
none holds `e`; if `x0` is not none, every component of `neighborsArray[x0]` that held `e` still
holds it (see `NeighborOutcome`). -/
theorem C28_outward_neighbors :
    (∀ (v v' : LEBVolume) (t : Nat), diamond_split v t = .ok v' →
      v.neighborsArray.length = v.totalNumElements →
      v.typeArray.length = v.totalNumElements →
      v.totalNumElements + 8 < 2 ^ 32 →
      ((completePairs v t).map Prod.fst).Nodup →
      (∀ p ∈ completePairs v t, p.1 < v.totalNumElements) →
      OutwardOK v (completePairs v t) →
      NeighborOutcome v v' (completePairs v t)) ∧
    (∀ (v v' : LEBVolume) (t rightElements leftElements : Nat),
      diamond_split_incomplete v t rightElements leftElements = .ok v' →
      typeOf v t = 0 ∨ typeOf v t = 3 →
      v.heapIDArray.length = v.totalNumElements →
      v.typeArray.length = v.totalNumElements →
      v.neighborsArray.length = v.totalNumElements →
      v.totalNumElements + 1 + leftElements + rightElements < 2 ^ 32 →
      1 + rightElements + leftElements ≤ ringSizeOf (typeOf v t) →
      ((incompletePairs v t rightElements leftElements).map Prod.fst).Nodup →
      (∀ p ∈ incompletePairs v t rightElements leftElements, p.1 < v.totalNumElements) →
      OutwardOK v (incompletePairs v t rightElements leftElements) →
      NeighborOutcome v v' (incompletePairs v t rightElements leftElements)) :=
  ⟨fun v v' t h hlen hlen2 hw hnd hlt hout =>
    (diamond_split_neighbors v v' t h hlen hlen2 hw hnd hlt hout).1,
   fun v v' t r l h h03 hlen0 hlen2 hlen hw hfit hnd hlt hout =>
    (diamond_split_incomplete_neighbors v v' t r l h h03 hlen0 hlen2 hlen hw hfit hnd hlt
      hout).1⟩

set_option maxRecDepth 1000000 in
/-- Witness of C28 at the complete diamond around the element 0 of `completeSample` and at the
incomplete diamond around the root element 0. -/
theorem C28_outward_neighbors_witness :
    NeighborOutcome completeSample completeSampleSplit (completePairs completeSample 0) ∧
    NeighborOutcome rootVolumeExplicit incompleteSampleSplit
      (incompletePairs rootVolumeExplicit 0 0 1) :=
  ⟨C28_outward_neighbors.1 completeSample completeSampleSplit 0 (by decide!) (by decide!)
      (by decide!) (by decide!) (by decide!) (by decide!) (by decide!),
   C28_outward_neighbors.2 rootVolumeExplicit incompleteSampleSplit 0 0 1 (by decide!)
      (by decide!) (by decide!) (by decide!) (by decide!) (by decide!) (by decide!)
      (by decide!) (by decide!) (by decide!)⟩

/-- C30.  The slots written by a split agree with the geometry of the splitting matrices.
Geometry: for every tetrahedron, type `t <= 3` and bit `b <= 1`, the child
`leb__SplittingMatrix(t, b)` applied to the four vertices has the midpoint of `p2` and `p3` as
its vertex 1, its face 3 has the vertices of the face `b` of the parent, and its face
`specTwinSlot t b` has the vertices `p0`, `p1` and the midpoint, which is the face the two
children share; faces are those of `evaluate_face_centers`.  Code: after `diamond_split` and
after `diamond_split_incomplete` (types 0 and 3), on a diamond of distinct elements whose
outward neighbors lie outside it, every member holds its twin and every twin its member in the
component `specTwinSlot` of the pre-split type of the member (bit 0 for the member, bit 1 for
the twin), and the component 3 of the member and of the twin hold what the components 0 and 1
of the member held. -/
theorem C30_slots_match_geometry :
    (∀ (T : Tetrahedron) (t b : Nat), t ≤ 3 → b ≤ 1 →
      (splitChild t b T).p1 = midpoint3 T.p2 T.p3 ∧
      (faceVertices (splitChild t b T) 3).Perm (faceVertices T b) ∧
      (faceVertices (splitChild t b T) (specTwinSlot t b)).Perm
        [T.p0, T.p1, midpoint3 T.p2 T.p3]) ∧
    (∀ (v v' : LEBVolume) (t : Nat), diamond_split v t = .ok v' →
      v.neighborsArray.length = v.totalNumElements →
      v.typeArray.length = v.totalNumElements →
      v.totalNumElements + 8 < 2 ^ 32 →
      ((completePairs v t).map Prod.fst).Nodup →
      (∀ p ∈ completePairs v t, p.1 < v.totalNumElements) →
      OutwardOK v (completePairs v t) →
      TwinSlots v v' (completePairs v t) ∧ InheritedSlots v v' (completePairs v t)) ∧
    (∀ (v v' : LEBVolume) (t rightElements leftElements : Nat),
      diamond_split_incomplete v t rightElements leftElements = .ok v' →
      typeOf v t = 0 ∨ typeOf v t = 3 →
      v.heapIDArray.length = v.totalNumElements →
      v.typeArray.length = v.totalNumElements →
      v.neighborsArray.length = v.totalNumElements →
      v.totalNumElements + 1 + leftElements + rightElements < 2 ^ 32 →
      1 + rightElements + leftElements ≤ ringSizeOf (typeOf v t) →
      ((incompletePairs v t rightElements leftElements).map Prod.fst).Nodup →
      (∀ p ∈ incompletePairs v t rightElements leftElements, p.1 < v.totalNumElements) →
      (∀ p ∈ incompletePairs v t rightElements leftElements, typeOf v p.1 = typeOf v t) →
      OutwardOK v (incompletePairs v t rightElements leftElements) →
      TwinSlots v v' (incompletePairs v t rightElements leftElements) ∧
      InheritedSlots v v' (incompletePairs v t rightElements leftElements)) := by
  refine ⟨?_, ?_, ?_⟩
  · intro T t b ht hb
    obtain ⟨c00, c01, c30, c31, c10, c11, c20, c21⟩ := splitChild_eq T
    obtain ⟨q1, q2, q3, q4, q5⟩ := perm3 T.p0 T.p1 T.p2
    obtain ⟨r1, r2, r3, r4, r5⟩ := perm3 T.p0 T.p3 T.p1
    obtain ⟨s1, s2, s3, s4, s5⟩ := perm3 T.p0 T.p1 (midpoint3 T.p2 T.p3)
    interval_cases t <;> interval_cases b
    · rw [c00]; exact ⟨rfl, q3, s2⟩
    · rw [c01]; exact ⟨rfl, r4, s3⟩
    · rw [c10]; exact ⟨rfl, q3, s2⟩
    · rw [c11]; exact ⟨rfl, List.Perm.refl _, List.Perm.refl _⟩
    · rw [c20]; exact ⟨rfl, List.Perm.refl _, s1⟩
    · rw [c21]; exact ⟨rfl, r4, s3⟩
    · rw [c30]; exact ⟨rfl, q3, s2⟩
    · rw [c31]; exact ⟨rfl, r4, s3⟩
  · intro v v' t h hlen hlen2 hw hnd hlt hout
    obtain ⟨o1, o2⟩ := diamond_split_neighbors v v' t h hlen hlen2 hw hnd hlt hout
    exact ⟨o2, inherited_of_outcome v v' _ o1⟩
  · intro v v' t r l h h03 hlen0 hlen2 hlen hw hfit hnd hlt hty hout
    obtain ⟨o1, o2⟩ := diamond_split_incomplete_neighbors v v' t r l h h03 hlen0 hlen2 hlen hw
      hfit hnd hlt hout
    exact ⟨o2 hty, inherited_of_outcome v v' _ o1⟩

set_option maxRecDepth 1000000 in
/-- Witness of C30 at the child of bit 1 of the root tetrahedron 0 read as a tetrahedron of
type 1, at the complete diamond around the element 0 of `completeSample` and at the incomplete
diamond around the root element 0. -/
theorem C30_slots_match_geometry_witness :
    ((splitChild 1 1 (rootTetra 0)).p1 = midpoint3 (rootTetra 0).p2 (rootTetra 0).p3 ∧
      (faceVertices (splitChild 1 1 (rootTetra 0)) 3).Perm (faceVertices (rootTetra 0) 1) ∧
      (faceVertices (splitChild 1 1 (rootTetra 0)) (specTwinSlot 1 1)).Perm
        [(rootTetra 0).p0, (rootTetra 0).p1, midpoint3 (rootTetra 0).p2 (rootTetra 0).p3]) ∧
    (TwinSlots completeSample completeSampleSplit (completePairs completeSample 0) ∧
      InheritedSlots completeSample completeSampleSplit (completePairs completeSample 0)) ∧
    (TwinSlots rootVolumeExplicit incompleteSampleSplit
        (incompletePairs rootVolumeExplicit 0 0 1) ∧
      InheritedSlots rootVolumeExplicit incompleteSampleSplit
        (incompletePairs rootVolumeExplicit 0 0 1)) :=
  ⟨C30_slots_match_geometry.1 (rootTetra 0) 1 1 (by decide) (by decide),
   C30_slots_match_geometry.2.1 completeSample completeSampleSplit 0 (by decide!) (by decide!)
      (by decide!) (by decide!) (by decide!) (by decide!) (by decide!),
   C30_slots_match_geometry.2.2 rootVolumeExplicit incompleteSampleSplit 0 0 1 (by decide!)
      (by decide!) (by decide!) (by decide!) (by decide!) (by decide!) (by decide!)
      (by decide!) (by decide!) (by decide!) (by decide!)⟩

/-! ## The fitting when the depth ceiling is at most the depth of the root elements -/

/-- The body of the classifying loop on an element of depth 5 that still carries the flags
`ELEMENT_INCLUDED | ELEMENT_INVALID_CACHE`, when `maxDepth` is at most 5: the element is left
as it is, whatever the cache and the parameters are. -/
theorem classify_step_ceiling (keep : FittingParameters → GridVolume → Tetrahedron → Bool)
    (gridVolume : GridVolume) (cache : HeuristicCache) (params : FittingParameters)
    (maxDepth : Nat) (v w : LEBVolume) (k : Nat) (hmax : maxDepth ≤ 5)
    (hv : Fittable v) (hk : k < v.totalNumElements) (hw : Classified v k w) :
    Classified v (k + 1) (classifyElement keep gridVolume cache params maxDepth w k) := by
  obtain ⟨-, -, -, -, hroot⟩ := hv
  obtain ⟨hdepth, -⟩ := hroot k hk
  have hm : w.modifArray.getD k 0 = 3 := hw.pending k (le_refl _) hk
  have hset : ∀ (a : Nat) (j : Nat), j ≠ k →
      (w.modifArray.set k a).getD j 0 = w.modifArray.getD j 0 :=
    fun a j hj => getD_set_ne _ _ _ _ _ (fun e => hj e.symm)
  unfold classifyElement
  have hb1 : ¬ ((3 : Nat) &&& 1 = 0) := by decide
  have hb2 : (3 : Nat) &&& 2 = 2 := by decide
  simp only [hm, ELEMENT_INCLUDED, ELEMENT_INVALID_CACHE, ELEMENT_REQUESTED, if_neg hb1,
    if_pos hb2]
  have hd : (w.depthArray.set k (find_msb_64 (w.heapIDArray.getD k 0) % 2 ^ 8)).getD k 0 = 5 := by
    rw [getD_set_eq _ _ _ _ (by rw [hw.depthLen]; exact hk), hw.heap]
    exact hdepth
  have hmk : (w.modifArray.set k (3 &&& (255 - 2))).getD k 0 = 1 := by
    rw [getD_set_eq _ _ _ _ (by rw [hw.modifLen]; exact hk)]
    rfl
  rw [hd]
  have hmax' : 5 ≥ maxDepth := hmax
  rw [if_pos hmax']
  refine ⟨hw.total, hw.heap, hw.type, hw.neighbors, hw.points, hw.baseTypes, hw.minDepth,
    by simp only [List.length_set]; exact hw.modifLen,
    by simp only [List.length_set]; exact hw.depthLen,
    by simp only [List.length_set]; exact hw.tetraLen, ?_, ?_⟩
  · intro j hj1 hj2
    show (w.modifArray.set k (3 &&& (255 - 2))).getD j 0 = 3
    rw [hset _ j (by omega)]
    exact hw.pending j (by omega) hj2
  · intro j hj
    show (w.modifArray.set k (3 &&& (255 - 2))).getD j 0 &&& 4 = 0
    by_cases hjk : j = k
    · subst hjk; rw [hmk]; rfl
    · rw [hset _ j hjk]
      exact hw.settled j (by omega)

theorem classify_all_ceiling (keep : FittingParameters → GridVolume → Tetrahedron → Bool)
    (gridVolume : GridVolume) (cache : HeuristicCache) (params : FittingParameters)
    (maxDepth : Nat) (v w : LEBVolume) (hmax : maxDepth ≤ 5)
    (hv : Fittable v) (hw : Classified v 0 w) :
    ∀ n, n ≤ v.totalNumElements →
      Classified v n ((List.range n).foldl
        (classifyElement keep gridVolume cache params maxDepth) w) := by
  intro n
  induction n with
  | zero => intro _; exact hw
  | succ n ih =>
    intro hn
    rw [foldl_range_succ]
    exact classify_step_ceiling keep gridVolume cache params maxDepth v _ n hmax hv
      (by omega) (ih (by omega))

/-- The rounds of the fitting of a mesh of elements of depth 5 under a ceiling of at most 5:
one round, no split. -/
theorem fit_ceiling (log2f : ℚ → ℚ)
    (keep : FittingParameters → GridVolume → Tetrahedron → Bool) (fuel : Nat)
    (v : LEBVolume) (gridVolume : GridVolume) (cache : HeuristicCache)
    (params : FittingParameters) (hv : Fittable v)
    (hmax : ((truncate (log2f gridVolume.resolution.x * 3 + 6)).toNat % 2 ^ 32 + 2 ^ 32 - 2)
      % 2 ^ 32 ≤ 5) :
    ∃ w, fit_volume_to_grid log2f keep (fuel + 1) v gridVolume cache params
        = .ok (w, ((truncate (log2f gridVolume.resolution.x * 3 + 6)).toNat % 2 ^ 32
          + 2 ^ 32 - 2) % 2 ^ 32) ∧
      w.totalNumElements = v.totalNumElements ∧ w.heapIDArray = v.heapIDArray ∧
      w.typeArray = v.typeArray ∧ w.neighborsArray = v.neighborsArray := by
  have h31 := hv.1
  have h0 := flagAll_ok v hv.2.1 hv.2.2.1 hv.2.2.2.1
  generalize hv0 : (List.range v.totalNumElements).foldl (fun (volume : LEBVolume) eleIdx =>
    { volume with modifArray := volume.modifArray.set eleIdx 3 }) v = v0 at h0
  have hcl := classify_all_ceiling keep gridVolume cache params
    (((truncate (log2f gridVolume.resolution.x * 3 + 6)).toNat % 2 ^ 32 + 2 ^ 32 - 2) % 2 ^ 32)
    v v0 hmax hv h0 v.totalNumElements (le_refl _)
  generalize hw : (List.range v.totalNumElements).foldl (classifyElement keep gridVolume cache
    params (((truncate (log2f gridVolume.resolution.x * 3 + 6)).toNat % 2 ^ 32 + 2 ^ 32 - 2)
      % 2 ^ 32)) v0 = w at hcl
  have hsplit := splitLoop_none (fuel + 1) w 0 (List.range v.totalNumElements)
    (fun e he => hcl.settled e (List.mem_range.1 he))
  refine ⟨w, ?_, hcl.total, hcl.heap, hcl.type, hcl.neighbors⟩
  unfold fit_volume_to_grid
  have hflags : ELEMENT_INCLUDED ||| ELEMENT_INVALID_CACHE = 3 := rfl
  simp only [hflags, hv0]
  unfold fitRounds
  simp only [h0.total, if_pos h31, hw, hsplit, bind, Except.bind, pure, Except.pure, if_true]

theorem ceiling_one (log2f : ℚ → ℚ) (gridVolume : GridVolume)
    (hR : gridVolume.resolution.x = 1) (hlog : log2f 1 = 0) :
    ((truncate (log2f gridVolume.resolution.x * 3 + 6)).toNat % 2 ^ 32 + 2 ^ 32 - 2)
      % 2 ^ 32 = 4 := by
  rw [hR, Nat.cast_one, hlog]
  have h : truncate (0 * 3 + 6) = 6 := by
    unfold truncate
    norm_num
  rw [h]
  rfl

set_option maxRecDepth 1000000 in
theorem root_depths : ∀ e, e < 24 → leb__FindMSB (rootVolume.heapIDArray.getD e 0) = 5 := by
  rw [rootVolume_eq]
  decide!

theorem ceiling_unit :
    ((truncate (zeroLog unitGrid.resolution.x * 3 + 6)).toNat % 2 ^ 32 + 2 ^ 32 - 2)
      % 2 ^ 32 = 4 :=
  ceiling_one zeroLog unitGrid rfl rfl

theorem decodeVertices_id (T : Tetrahedron) :
    decodeVertices leb__IdentityMatrix4x4 T.p0 T.p1 T.p2 T.p3 = T := by
  obtain ⟨⟨a0, a1, a2⟩, ⟨b0, b1, b2⟩, ⟨c0, c1, c2⟩, ⟨d0, d1, d2⟩⟩ := T
  simp [decodeVertices, applyMatrix, leb__DotProduct, leb__IdentityMatrix4x4]

theorem decodeVertices_product (a b : float4x4) (p0 p1 p2 p3 : float3) :
    decodeVertices (leb__Matrix4x4Product a b) p0 p1 p2 p3 =
      decodeVertices a (decodeVertices b p0 p1 p2 p3).p0 (decodeVertices b p0 p1 p2 p3).p1
        (decodeVertices b p0 p1 p2 p3).p2 (decodeVertices b p0 p1 p2 p3).p3 := by
  simp only [decodeVertices, applyMatrix, leb__Matrix4x4Product, productRow, leb__DotProduct,
    leb__TransposeMatrix4x4, Tetrahedron.mk.injEq, float3.mk.injEq]
  refine ⟨⟨?_, ?_, ?_⟩, ⟨?_, ?_, ?_⟩, ⟨?_, ?_, ?_⟩, ⟨?_, ?_, ?_⟩⟩ <;> ring

/-- The edges of a child depend on the edges of the parent only. -/
theorem edges_child (T : Tetrahedron) (t b : Nat) (ht : t ≤ 3) (hb : b ≤ 1) :
    edgesOf (splitChild t b T) = edgesOf (splitChild t b (tetraOf (edgesOf T))) := by
  obtain ⟨c00, c01, c30, c31, c10, c11, c20, c21⟩ := splitChild_eq T
  obtain ⟨d00, d01, d30, d31, d10, d11, d20, d21⟩ := splitChild_eq (tetraOf (edgesOf T))
  interval_cases t <;> interval_cases b <;>
  · first
      | rw [c00, d00] | rw [c01, d01] | rw [c10, d10] | rw [c11, d11]
      | rw [c20, d20] | rw [c21, d21] | rw [c30, d30] | rw [c31, d31]
    simp only [edgesOf, tetraOf, midpoint3, float3.sub, Edges.mk.injEq, float3.mk.injEq]
    refine ⟨⟨?_, ?_, ?_⟩, ⟨?_, ?_, ?_⟩, ⟨?_, ?_, ?_⟩⟩ <;> ring

/-- The edges of a child scale with the edges of the parent. -/
theorem child_scale (E : Edges) (s : ℚ) (t b : Nat) (ht : t ≤ 3) (hb : b ≤ 1) :
    edgesOf (splitChild t b (tetraOf (E.scale s))) =
      (edgesOf (splitChild t b (tetraOf E))).scale s := by
  obtain ⟨c00, c01, c30, c31, c10, c11, c20, c21⟩ := splitChild_eq (tetraOf (E.scale s))
  obtain ⟨d00, d01, d30, d31, d10, d11, d20, d21⟩ := splitChild_eq (tetraOf E)
  interval_cases t <;> interval_cases b <;>
  · first
      | rw [c00, d00] | rw [c01, d01] | rw [c10, d10] | rw [c11, d11]
      | rw [c20, d20] | rw [c21, d21] | rw [c30, d30] | rw [c31, d31]
    simp only [edgesOf, tetraOf, midpoint3, float3.sub, float3.mulScalar, Edges.scale,
      Edges.mk.injEq, float3.mk.injEq]
    refine ⟨⟨?_, ?_, ?_⟩, ⟨?_, ?_, ?_⟩, ⟨?_, ?_, ?_⟩⟩ <;> ring

theorem scale_scale (E : Edges) (a b : ℚ) : (E.scale a).scale b = E.scale (b * a) := by
  simp only [Edges.scale, float3.mulScalar, Edges.mk.injEq, float3.mk.injEq]
  refine ⟨⟨?_, ?_, ?_⟩, ⟨?_, ?_, ?_⟩, ⟨?_, ?_, ?_⟩⟩ <;> ring

set_option maxRecDepth 1000000 in
/-- The children of the shapes of a type are shapes of the type of the child. -/
theorem table_closed : ∀ t ∈ [0, 1, 2, 3], ∀ b ∈ [0, 1], ∀ E ∈ shapeTable t,
    ∃ E' ∈ shapeTable (nextType t b),
      edgesOf (splitChild t b (tetraOf E)) = E'.scale (scaleOf t) := by
  intro t ht b hb
  simp only [List.mem_cons, List.mem_singleton, List.not_mem_nil, or_false] at ht hb
  rcases ht with rfl | rfl | rfl | rfl <;> rcases hb with rfl | rfl <;> decide!

theorem nextType_le (t b : Nat) (ht : t ≤ 3) : nextType t b ≤ 3 := by
  unfold nextType
  split_ifs <;> omega

theorem scaleOf_ne (t : Nat) : scaleOf t ≠ 0 := by
  unfold scaleOf
  split_ifs <;> norm_num

/-- The child of a tetrahedron that has a shape of its type has a shape of the type of the
child. -/
theorem similar_child (s : ℚ) (t b : Nat) (T : Tetrahedron) (ht : t ≤ 3) (hb : b ≤ 1)
    (h : Similar s t T) : Similar (s * scaleOf t) (nextType t b) (splitChild t b T) := by
  obtain ⟨E, hE, he⟩ := h
  obtain ⟨E', hE', he'⟩ := table_closed t (by interval_cases t <;> simp) b
    (by interval_cases b <;> simp) E hE
  refine ⟨E', hE', ?_⟩
  rw [edges_child T t b ht hb, he, child_scale E s t b ht hb, he', scale_scale]

/-- The tetrahedron decoded along the `n` low bits of a heapID from a tetrahedron that has a
shape of its type has a shape of the type reached. -/
theorem decode_similar (h : Nat) : ∀ (n t : Nat) (s : ℚ) (T : Tetrahedron), t ≤ 3 → s ≠ 0 →
    Similar s t T →
    ∃ s', s' ≠ 0 ∧ Similar s' (typeLoop h n t)
      (decodeVertices (decodeLoop h n t leb__IdentityMatrix4x4) T.p0 T.p1 T.p2 T.p3) := by
  intro n
  induction n with
  | zero =>
    intro t s T _ hs hT
    refine ⟨s, hs, ?_⟩
    simp only [decodeLoop, typeLoop]
    rw [decodeVertices_id]
    exact hT
  | succ n ih =>
    intro t s T ht hs hT
    have hb : leb__GetBitValue h n ≤ 1 := by
      rcases getBit_le_one h n with e | e <;> omega
    have hchild := similar_child s t (leb__GetBitValue h n) T ht hb hT
    obtain ⟨s', hs', hsim⟩ := ih (nextType t (leb__GetBitValue h n))
      (s * scaleOf t) (splitChild t (leb__GetBitValue h n) T)
      (nextType_le t _ ht) (mul_ne_zero hs (scaleOf_ne t)) hchild
    refine ⟨s', hs', ?_⟩
    simp only [decodeLoop, typeLoop]
    rw [decodeLoop_product, decodeVertices_product]
    exact hsim

set_option maxRecDepth 1000000 in
/-- The 24 root tetrahedra have shapes of the type 0, at the scale one half. -/
theorem roots_similar : ∀ r, r < 24 → Similar (1 / 2) 0 (rootTetra r) := by
  decide!

set_option maxRecDepth 1000000 in
theorem table_aligned_chunk : ∀ t ∈ [0, 1, 2, 3], ∀ q, q < 2 →
    ∀ E ∈ ((shapeTable t).drop (12 * q)).take 12, ∀ f ∈ [0, 1, 2, 3],
    Aligned (faceNormal (tetraOf E) f) := by
  intro t ht q hq
  simp only [List.mem_cons, List.mem_singleton, List.not_mem_nil, or_false] at ht
  rcases ht with rfl | rfl | rfl | rfl <;> interval_cases q <;> decide!

/-- The four normals of every shape are aligned with a canonical direction. -/
theorem table_aligned : ∀ t ∈ [0, 1, 2, 3], ∀ E ∈ shapeTable t, ∀ f ∈ [0, 1, 2, 3],
    Aligned (faceNormal (tetraOf E) f) := by
  intro t ht
  refine forall_mem_of_chunks _ (shapeTable t) 12 2 ?_ (table_aligned_chunk t ht)
  simp only [List.mem_cons, List.mem_singleton, List.not_mem_nil, or_false] at ht
  rcases ht with rfl | rfl | rfl | rfl <;> decide

/-- The normals of a tetrahedron are those of its shape, scaled by the square of the scale. -/
theorem faceNormal_similar (T : Tetrahedron) (E : Edges) (s : ℚ) (f : Nat) (hf : f < 4)
    (h : edgesOf T = E.scale s) :
    faceNormal T f = (faceNormal (tetraOf E) f).mulScalar (s * s) := by
  obtain ⟨⟨a0, a1, a2⟩, ⟨b0, b1, b2⟩, ⟨c0, c1, c2⟩, ⟨d0, d1, d2⟩⟩ := T
  obtain ⟨⟨x0, x1, x2⟩, ⟨y0, y1, y2⟩, ⟨z0, z1, z2⟩⟩ := E
  simp only [edgesOf, Edges.scale, float3.sub, float3.mulScalar, Edges.mk.injEq,
    float3.mk.injEq] at h
  obtain ⟨⟨h1, h2, h3⟩, ⟨h4, h5, h6⟩, ⟨h7, h8, h9⟩⟩ := h
  have e1 : b0 = a0 + x0 * s := by linarith
  have e2 : b1 = a1 + x1 * s := by linarith
  have e3 : b2 = a2 + x2 * s := by linarith
  have e4 : c0 = a0 + y0 * s := by linarith
  have e5 : c1 = a1 + y1 * s := by linarith
  have e6 : c2 = a2 + y2 * s := by linarith
  have e7 : d0 = a0 + z0 * s := by linarith
  have e8 : d1 = a1 + z1 * s := by linarith
  have e9 : d2 = a2 + z2 * s := by linarith
  subst e1 e2 e3 e4 e5 e6 e7 e8 e9
  interval_cases f <;>
  · simp only [faceNormal, g_TriangleIndices, List.getD_cons_zero, List.getD_cons_succ,
      Tetrahedron.p, planeNormal, tetraOf, float3.mulScalar, float3.mk.injEq]
    norm_num
    refine ⟨?_, ?_, ?_⟩ <;> ring

theorem aligned_scale (n : float3) (c : ℚ) (hc : c ≠ 0) (h : Aligned n) :
    Aligned (n.mulScalar c) := by
  obtain ⟨hn, j, hj, h1, h2, h3⟩ := h
  refine ⟨?_, j, hj, ?_, ?_, ?_⟩
  · intro he
    apply hn
    obtain ⟨x, y, z⟩ := n
    simp only [float3.mulScalar, float3.mk.injEq] at he ⊢
    obtain ⟨e1, e2, e3⟩ := he
    refine ⟨?_, ?_, ?_⟩
    · rcases mul_eq_zero.1 e1 with e | e
      · exact e
      · exact absurd e hc
    · rcases mul_eq_zero.1 e2 with e | e
      · exact e
      · exact absurd e hc
    · rcases mul_eq_zero.1 e3 with e | e
      · exact e
      · exact absurd e hc
  · simp only [float3.mulScalar]; linear_combination c * h1
  · simp only [float3.mulScalar]; linear_combination c * h2
  · simp only [float3.mulScalar]; linear_combination c * h3

/-! ## The classifying loop of the packing finds a direction -/

set_option maxRecDepth 1000000 in
theorem directions_unit : ∀ j, j < 9 → 1 ≤ (g_Directions.getD j default).lengthSq := by
  decide!

theorem directionDot_opposite (j : Nat) (hj : j < 9) (u : float3) :
    directionDot (j + 9) u = - directionDot j u := by
  unfold directionDot
  rw [directions_opposite j hj]
  simp only [float3.mulScalar]
  ring

/-- A vector of length at least `sqrt 0.99` that is parallel to a base direction has a dot
product above 0.99 with that direction or with its opposite. -/
theorem parallel_hit (u : float3) (j : Nat) (hj : j < 9)
    (hpar : Parallel u (g_Directions.getD j default)) (hlen : 99 / 100 ≤ u.lengthSq) :
    directionDot j u > 99 / 100 ∨ directionDot (j + 9) u > 99 / 100 := by
  rw [directionDot_opposite j hj]
  have hd := directions_unit j hj
  obtain ⟨h1, h2, h3⟩ := hpar
  unfold directionDot
  generalize g_Directions.getD j default = d at hd h1 h2 h3 ⊢
  have key : (d.x * u.x + d.y * u.y + d.z * u.z) ^ 2 = u.lengthSq * d.lengthSq := by
    unfold float3.lengthSq
    linear_combination (-(u.y * d.z - u.z * d.y)) * h1 - (u.z * d.x - u.x * d.z) * h2
      - (u.x * d.y - u.y * d.x) * h3
  have hu : 0 ≤ u.lengthSq := by unfold float3.lengthSq; positivity
  have hsq : 99 / 100 ≤ (d.x * u.x + d.y * u.y + d.z * u.z) ^ 2 := by
    rw [key]
    nlinarith
  generalize d.x * u.x + d.y * u.y + d.z * u.z = D at hsq ⊢
  by_cases hD : 0 ≤ D
  · left
    nlinarith
  · right
    nlinarith

/-- When some direction has a dot product above 0.99 with the normal, the loop stops at such
a direction. -/
theorem classifyPlane_hit (u : float3) (h : ∃ i, i < 18 ∧ directionDot i u > 99 / 100) :
    classifyPlane u < 18 ∧ directionDot (classifyPlane u) u > 99 / 100 := by
  obtain ⟨i, hi, hdot⟩ := h
  unfold classifyPlane
  have hsome : ((List.range 18).find? (fun plIdx =>
      decide ((g_Directions.getD plIdx default).x * u.x
        + (g_Directions.getD plIdx default).y * u.y
        + (g_Directions.getD plIdx default).z * u.z > 99 / 100))).isSome := by
    rw [List.find?_isSome]
    exact ⟨i, List.mem_range.2 hi, by simpa [directionDot] using hdot⟩
  obtain ⟨k, hk⟩ := Option.isSome_iff_exists.1 hsome
  rw [hk]
  have hmem := List.mem_of_find?_eq_some hk
  have hp := List.find?_some hk
  simp only [Option.getD_some]
  exact ⟨List.mem_range.1 hmem, by simpa [directionDot] using hp⟩

theorem typeLoop_le (h : Nat) : ∀ (n t : Nat), t ≤ 3 → typeLoop h n t ≤ 3 := by
  intro n
  induction n with
  | zero => intro t ht; exact ht
  | succ n ih =>
    intro t ht
    simp only [typeLoop]
    exact ih _ (nextType_le t _ ht)

set_option maxRecDepth 1000000 in
theorem root_base : rootVolume.basePoints = g_CubeType0Vertices ∧
    ∀ r, r < 24 → rootVolume.baseTypes.getD r 0 = 0 := by
  rw [rootVolume_eq]
  exact ⟨rfl, by decide!⟩

theorem parallel_scale (n d : float3) (k : ℚ) (h : Parallel n d) :
    Parallel (n.mulScalar k) d := by
  obtain ⟨h1, h2, h3⟩ := h
  refine ⟨?_, ?_, ?_⟩
  · simp only [float3.mulScalar]; linear_combination k * h1
  · simp only [float3.mulScalar]; linear_combination k * h2
  · simp only [float3.mulScalar]; linear_combination k * h3

theorem eval_root (heapID : Nat) (hroot : primitiveID heapID 5 < 24) :
    evaluate_tetrahedron heapID 5 rootVolume.basePoints rootVolume.baseTypes =
      decodeVertices (decodeLoop (subHeapID heapID 5) (leb__FindMSB (subHeapID heapID 5)) 0
        leb__IdentityMatrix4x4) (rootTetra (primitiveID heapID 5)).p0
        (rootTetra (primitiveID heapID 5)).p1 (rootTetra (primitiveID heapID 5)).p2
        (rootTetra (primitiveID heapID 5)).p3 := by
  obtain ⟨hpoints, htypes⟩ := root_base
  unfold evaluate_tetrahedron leb__DecodeTransformationMatrix rootTetra
  simp only [hpoints, htypes _ hroot]

/-- Every tetrahedron of the hierarchy of the root mesh has a shape of some type. -/
theorem hierarchy_similar (heapID : Nat) (hroot : primitiveID heapID 5 < 24) :
    ∃ s t, s ≠ 0 ∧ t ≤ 3 ∧
      Similar s t (evaluate_tetrahedron heapID 5 rootVolume.basePoints rootVolume.baseTypes) := by
  have hsim := decode_similar (subHeapID heapID 5) (leb__FindMSB (subHeapID heapID 5)) 0
    (1 / 2) (rootTetra (primitiveID heapID 5)) (by omega) (by norm_num)
    (roots_similar _ hroot)
  obtain ⟨s, hs, h⟩ := hsim
  refine ⟨s, typeLoop (subHeapID heapID 5) (leb__FindMSB (subHeapID heapID 5)) 0, hs,
    typeLoop_le _ _ _ (by omega), ?_⟩
  rw [eval_root heapID hroot]
  exact h

/-- C23.  Every face of every tetrahedron of the hierarchy is aligned with a canonical
direction.  For every heapID that descends from one of the 24 roots (`primitiveID < 24`), at
any depth, and each of the four faces: the normal that `evaluate_plane_equation` computes for
the tetrahedron of `evaluate_tetrahedron` (the cross product of two edges of the face, in
exact arithmetic) is not zero and is parallel to one of the 9 base directions of
`g_Directions`; and for every positive multiple of that normal whose squared length is at
least 0.99 (the normalised normal, up to the rounding of `normalize`), the classifying loop of
the packing stops at a direction whose dot product with it is above 0.99, so it does not fall
back to its default. -/
theorem C23_faces_aligned (heapID f : Nat) (hroot : primitiveID heapID 5 < 24) (hf : f < 4) :
    Aligned (faceNormal
      (evaluate_tetrahedron heapID 5 rootVolume.basePoints rootVolume.baseTypes) f) ∧
    ∀ k : ℚ, 0 < k →
      99 / 100 ≤ ((faceNormal (evaluate_tetrahedron heapID 5 rootVolume.basePoints
        rootVolume.baseTypes) f).mulScalar k).lengthSq →
      classifyPlane ((faceNormal (evaluate_tetrahedron heapID 5 rootVolume.basePoints
        rootVolume.baseTypes) f).mulScalar k) < 18 ∧
      directionDot
        (classifyPlane ((faceNormal (evaluate_tetrahedron heapID 5 rootVolume.basePoints
          rootVolume.baseTypes) f).mulScalar k))
        ((faceNormal (evaluate_tetrahedron heapID 5 rootVolume.basePoints
          rootVolume.baseTypes) f).mulScalar k) > 99 / 100 := by
  obtain ⟨s, t, hs, ht, E, hE, he⟩ := hierarchy_similar heapID hroot
  have hn := faceNormal_similar _ E s f hf he
  have hal : Aligned (faceNormal
      (evaluate_tetrahedron heapID 5 rootVolume.basePoints rootVolume.baseTypes) f) := by
    rw [hn]
    exact aligned_scale _ _ (mul_ne_zero hs hs)
      (table_aligned t (by interval_cases t <;> simp) E hE f (by interval_cases f <;> simp))
  refine ⟨hal, ?_⟩
  intro k _ hlen
  obtain ⟨-, j, hj, hpar⟩ := hal
  apply classifyPlane_hit
  rcases parallel_hit _ j hj (parallel_scale _ _ k hpar) hlen with h | h
  · exact ⟨j, by omega, h⟩
  · exact ⟨j + 9, by omega, h⟩

set_option maxRecDepth 1000000 in
/-- Witness of C23 at the heapID 65, the child of bit 1 of the root 0, and its face 2. -/
theorem C23_faces_aligned_witness :
    Aligned (faceNormal
      (evaluate_tetrahedron 65 5 rootVolume.basePoints rootVolume.baseTypes) 2) ∧
    ∀ k : ℚ, 0 < k →
      99 / 100 ≤ ((faceNormal (evaluate_tetrahedron 65 5 rootVolume.basePoints
        rootVolume.baseTypes) 2).mulScalar k).lengthSq →
      classifyPlane ((faceNormal (evaluate_tetrahedron 65 5 rootVolume.basePoints
        rootVolume.baseTypes) 2).mulScalar k) < 18 ∧
      directionDot
        (classifyPlane ((faceNormal (evaluate_tetrahedron 65 5 rootVolume.basePoints
          rootVolume.baseTypes) 2).mulScalar k))
        ((faceNormal (evaluate_tetrahedron 65 5 rootVolume.basePoints
          rootVolume.baseTypes) 2).mulScalar k) > 99 / 100 :=
  C23_faces_aligned 65 2 (by decide!) (by decide)

/-! ## The heapID of a member beyond the depth 63 -/

/-- The heapIDs after `diamond_split`, on 64 bits, without a bound on the heapID of the
member. -/
theorem diamond_split_heap_mod (v v' : LEBVolume) (t : Nat) (h : diamond_split v t = .ok v')
    (hlen : v.heapIDArray.length = v.totalNumElements)
    (hw : v.totalNumElements + 8 < 2 ^ 32)
    (hnd : ((completePairs v t).map Prod.fst).Nodup)
    (hlt : ∀ p ∈ completePairs v t, p.1 < v.totalNumElements) :
    ∀ p ∈ completePairs v t, heapOf v' p.1 = heapOf v p.1 * 2 % 2 ^ 64 ∧
        heapOf v' p.2 = (heapOf v p.1 * 2 % 2 ^ 64 + 1) % 2 ^ 64 := by
  have key : ∀ (n : Nat) (members : List Nat),
      completePairs v t = members.zip
        ((List.range members.length).map (fun k => v.totalNumElements + k)) →
      members.length = n →
      v'.heapIDArray = (completePairs v t).foldl heapStep
        (resize v.heapIDArray (v.totalNumElements + n)) →
      ∀ p ∈ completePairs v t, heapOf v' p.1 = heapOf v p.1 * 2 % 2 ^ 64 ∧
        heapOf v' p.2 = (heapOf v p.1 * 2 % 2 ^ 64 + 1) % 2 ^ 64 := by
    intro n members hp hn hheap p hpm
    obtain ⟨hok, -⟩ := ring_pairs_ok _ _ _ hp hnd hlt
    rw [hn] at hok
    have hokh : PairsOK v.totalNumElements
        (resize v.heapIDArray (v.totalNumElements + n)).length (completePairs v t) := by
      rw [length_resize]; exact hok
    have := getD_foldl_heapStep v.totalNumElements _ _ hokh p hpm
    rw [getD_resize _ _ _ _ (by omega) (by rw [hlen]; exact hok.member_lt p hpm)] at this
    unfold heapOf
    rw [hheap]
    exact this
  unfold diamond_split at h
  simp only at h
  by_cases h0 : typeOf v t = 0
  · rw [if_pos h0] at h
    obtain ⟨-, f2, -, -⟩ := diamond_split0_fields v v' t h h0 hw
    exact key 8 (ring0 v t) (by unfold completePairs; simp only [h0, if_true]) rfl f2
  · rw [if_neg h0] at h
    by_cases h12 : typeOf v t = 1 ∨ typeOf v t = 2
    · rw [if_pos h12] at h
      obtain ⟨-, f2, -, -⟩ := diamond_split12_fields v v' t h h12 hw
      exact key 6 (ring12 v t)
        (by unfold completePairs; simp only [h0, h12, if_true, if_false]) rfl f2
    · rw [if_neg h12] at h
      by_cases h3 : typeOf v t = 3
      · rw [if_pos h3] at h
        obtain ⟨-, f2, -, -⟩ := diamond_split3_fields v v' t h h3 hw
        exact key 4 (ring3 v t) (by unfold completePairs; rw [h3]; rfl) rfl f2
      · intro p hp
        have hnil : completePairs v t = [] := by
          unfold completePairs
          simp only [h0, h12, h3, if_false]
          rfl
        rw [hnil] at hp
        cases hp

theorem mask_shift (k : Nat) (hk : k ≤ 64) : (2 ^ 64 - 1) >>> (64 - k) = 2 ^ k - 1 := by
  rw [Nat.shiftRight_eq_div_pow]
  have h : (2 : Nat) ^ 64 = 2 ^ k * 2 ^ (64 - k) := by
    rw [← pow_add]; congr 1; omega
  have hp : 0 < 2 ^ (64 - k) := Nat.two_pow_pos _
  have hq : 0 < 2 ^ k := Nat.two_pow_pos _
  rw [h]
  apply Nat.div_eq_of_lt_le
  · have : (2 ^ k - 1) * 2 ^ (64 - k) + 2 ^ (64 - k) = 2 ^ k * 2 ^ (64 - k) := by
      rw [Nat.sub_mul, one_mul]
      have := Nat.le_mul_of_pos_left (2 ^ (64 - k)) hq
      omega
    omega
  · have : (2 ^ k - 1 + 1) * 2 ^ (64 - k) = 2 ^ k * 2 ^ (64 - k) := by
      congr 1; omega
    omega

/-- The depth, the root and the path of the heapID `(32 + r) * 2 ^ k + j`. -/
theorem root_path (r k j : Nat) (hr : r < 32) (hk : k ≤ 58) (hj : j < 2 ^ k) :
    (32 + r) * 2 ^ k + j < 2 ^ 64 ∧
    leb__FindMSB ((32 + r) * 2 ^ k + j) = 5 + k ∧
    primitiveID ((32 + r) * 2 ^ k + j) 5 = r ∧
    subHeapID ((32 + r) * 2 ^ k + j) 5 = 2 ^ k + j := by
  have hq : 0 < 2 ^ k := Nat.two_pow_pos _
  have h58 : 2 ^ k ≤ 2 ^ 58 := Nat.pow_le_pow_right (by decide) hk
  have hlt : (32 + r) * 2 ^ k + j < 2 ^ 64 := by
    have : (32 + r) * 2 ^ k ≤ 63 * 2 ^ k := Nat.mul_le_mul_right _ (by omega)
    omega
  have hlog : leb__FindMSB ((32 + r) * 2 ^ k + j) = 5 + k := by
    rw [findMSB_eq_log2 _ (by
      have : 1 * 2 ^ k ≤ (32 + r) * 2 ^ k := Nat.mul_le_mul_right _ (by omega)
      omega) hlt]
    apply log2_unique
    · have : 32 * 2 ^ k ≤ (32 + r) * 2 ^ k := Nat.mul_le_mul_right _ (by omega)
      have e : 2 ^ (5 + k) = 32 * 2 ^ k := by rw [pow_add]; norm_num
      omega
    · have : (32 + r) * 2 ^ k ≤ 63 * 2 ^ k := Nat.mul_le_mul_right _ (by omega)
      have e : 2 ^ (5 + k + 1) = 64 * 2 ^ k := by
        rw [pow_succ, pow_add]; norm_num; ring
      omega
  have hsub : (5 + k + 2 ^ 32 - 5) % 2 ^ 32 = k := by omega
  have hdiv : ((32 + r) * 2 ^ k + j) / 2 ^ k = 32 + r := by
    rw [Nat.add_comm, Nat.add_mul_div_right _ _ hq, Nat.div_eq_of_lt hj]; omega
  have hmod : ((32 + r) * 2 ^ k + j) % 2 ^ k = j := by
    rw [Nat.add_comm, Nat.add_mul_mod_self_right, Nat.mod_eq_of_lt hj]
  refine ⟨hlt, hlog, ?_, ?_⟩
  · unfold primitiveID
    simp only [hlog, hsub, Nat.shiftRight_eq_div_pow, hdiv]
    norm_num [Nat.shiftLeft_eq]
    omega
  · unfold subHeapID
    simp only [hlog, hsub]
    have hb : (1 <<< k) % 2 ^ 64 = 2 ^ k := by
      rw [Nat.shiftLeft_eq, one_mul]
      exact Nat.mod_eq_of_lt (by omega)
    rw [hb]
    by_cases h0 : k = 0
    · subst h0
      simp at hj
      subst hj
      simp
    · rw [if_pos h0, mask_shift k (by omega), Nat.and_comm, Nat.and_pow_two_sub_one_eq_mod, hmod,
        Nat.mod_eq_of_lt (show j + 2 ^ k < 2 ^ 64 by omega)]
      omega

/-- C34: for every root `r < 24`, depth `k <= 58` below the root and path `j < 2 ^ k`, the
heapID `(32 + r) * 2 ^ k + j` with `minDepth = 5` has the depth `5 + k`, the `primitiveID` is
`r`, so the indices `4 r .. 4 r + 3` of the base points and the index `r` of the base types are
in range for the root mesh, and the `subHeapID` is `2 ^ k + j`; for `k = 0` the `subHeapID`
is 1.  Both overloads of `evaluate_tetrahedron` then decode the path `2 ^ k + j` from the
vertices and the type of the root `r`. -/
theorem C34_root_and_path (r k j : Nat) (hr : r < 24) (hk : k ≤ 58) (hj : j < 2 ^ k) :
    leb__FindMSB ((32 + r) * 2 ^ k + j) = 5 + k ∧
    primitiveID ((32 + r) * 2 ^ k + j) 5 = r ∧
    subHeapID ((32 + r) * 2 ^ k + j) 5 = 2 ^ k + j ∧
    (k = 0 → subHeapID ((32 + r) * 2 ^ k + j) 5 = 1) ∧
    4 * primitiveID ((32 + r) * 2 ^ k + j) 5 + 3 < rootVolume.basePoints.length ∧
    primitiveID ((32 + r) * 2 ^ k + j) 5 < rootVolume.baseTypes.length ∧
    (∀ (basePoints : List float3) (baseTypes : List Nat),
      evaluate_tetrahedron ((32 + r) * 2 ^ k + j) 5 basePoints baseTypes =
        decodeVertices (leb__DecodeTransformationMatrix (2 ^ k + j) (baseTypes.getD r 0))
          (basePoints.getD (4 * r) default) (basePoints.getD (4 * r + 1) default)
          (basePoints.getD (4 * r + 2) default) (basePoints.getD (4 * r + 3) default)) ∧
    (∀ (basePoints : List float3) (baseTypes : List Nat) (cache : List float4x4),
      evaluate_tetrahedron_cached ((32 + r) * 2 ^ k + j) 5 basePoints baseTypes cache =
        decodeVertices (leb__DecodeTransformationMatrixCached (2 ^ k + j) (baseTypes.getD r 0)
          cache)
          (basePoints.getD (4 * r) default) (basePoints.getD (4 * r + 1) default)
          (basePoints.getD (4 * r + 2) default) (basePoints.getD (4 * r + 3) default)) := by
  obtain ⟨-, h1, h2, h3⟩ := root_path r k j (by omega) hk hj
  have hlen : rootVolume.basePoints.length = 96 ∧ rootVolume.baseTypes.length = 24 := by
    rw [rootVolume_eq]; decide
  refine ⟨h1, h2, h3, ?_, ?_, ?_, ?_, ?_⟩
  · intro h0
    subst h0
    simp at hj
    rw [h3, hj]
    rfl
  · rw [h2, hlen.1]; omega
  · rw [h2, hlen.2]; exact hr
  · intro basePoints baseTypes
    unfold evaluate_tetrahedron
    simp only [h2, h3]
  · intro basePoints baseTypes cache
    unfold evaluate_tetrahedron_cached
    simp only [h2, h3]

/-- Witness of C34 on the heapID `(32 + 23) * 2 ^ 58 + 5` of the deepest level. -/
theorem C34_root_and_path_witness :
    primitiveID ((32 + 23) * 2 ^ 58 + 5) 5 = 23 ∧
    subHeapID ((32 + 23) * 2 ^ 58 + 5) 5 = 2 ^ 58 + 5 :=
  have h := C34_root_and_path 23 58 5 (by decide) (by decide) (by decide)
  ⟨h.2.1, h.2.2.1⟩

/-! ## Culling by pixel size needs culling by frustum -/

/-- Without frustum culling `should_subdivide_element` reads only the two thresholds of the
parameters. -/
theorem should_subdivide_no_cull (keep : FittingParameters → GridVolume → Tetrahedron → Bool)
    (volume : LEBVolume) (eleIdx depth : Nat) (gridVolume : GridVolume)
    (gridCache : HeuristicCache) (p q : FittingParameters)
    (hp : p.frustumCull = false) (hq : q.frustumCull = false)
    (hr : p.ratioThreshold = q.ratioThreshold) (hm : p.minThreshold = q.minThreshold) :
    should_subdivide_element keep volume eleIdx depth gridVolume gridCache p =
      should_subdivide_element keep volume eleIdx depth gridVolume gridCache q := by
  unfold should_subdivide_element
  simp only [hp, hq, hr, hm, Bool.false_and]

theorem classifyElement_no_cull (keep : FittingParameters → GridVolume → Tetrahedron → Bool)
    (gridVolume : GridVolume) (gridCache : HeuristicCache) (p q : FittingParameters)
    (hp : p.frustumCull = false) (hq : q.frustumCull = false)
    (hr : p.ratioThreshold = q.ratioThreshold) (hm : p.minThreshold = q.minThreshold)
    (maxDepth : Nat) :
    classifyElement keep gridVolume gridCache p maxDepth =
      classifyElement keep gridVolume gridCache q maxDepth := by
  funext v e
  unfold classifyElement
  simp only [should_subdivide_no_cull keep _ _ _ gridVolume gridCache p q hp hq hr hm]

theorem fitRounds_no_cull (keep : FittingParameters → GridVolume → Tetrahedron → Bool)
    (gridVolume : GridVolume) (gridCache : HeuristicCache) (p q : FittingParameters)
    (hp : p.frustumCull = false) (hq : q.frustumCull = false)
    (hr : p.ratioThreshold = q.ratioThreshold) (hm : p.minThreshold = q.minThreshold)
    (maxDepth : Nat) : ∀ (fuel : Nat) (v : LEBVolume),
    fitRounds keep gridVolume gridCache p maxDepth fuel v =
      fitRounds keep gridVolume gridCache q maxDepth fuel v := by
  intro fuel
  induction fuel with
  | zero => intro v; rfl
  | succ n ih =>
    intro v
    unfold fitRounds
    simp only [classifyElement_no_cull keep gridVolume gridCache p q hp hq hr hm maxDepth, ih]

/-- C39: pixel culling has no effect without frustum culling.  When `frustumCull` is false in
two parameter sets that have the same `ratioThreshold` and `minThreshold`, so that they differ
at most in `pixelCull`, `cameraPosition`, `viewProjectionMatrix`, `screenSize` and `pixelSize`,
`should_subdivide_element` returns the same value for both on every element, and
`fit_volume_to_grid` returns the same mesh and the same `maxDepth` (or stops the same way)
for both. -/
theorem C39_pixel_cull_needs_frustum_cull (log2f : ℚ → ℚ)
    (keep : FittingParameters → GridVolume → Tetrahedron → Bool) (fuel : Nat)
    (lebVolume : LEBVolume) (gridVolume : GridVolume) (heuristicCache : HeuristicCache)
    (p q : FittingParameters)
    (hp : p.frustumCull = false) (hq : q.frustumCull = false)
    (hr : p.ratioThreshold = q.ratioThreshold) (hm : p.minThreshold = q.minThreshold) :
    (∀ (volume : LEBVolume) (eleIdx depth : Nat),
      should_subdivide_element keep volume eleIdx depth gridVolume heuristicCache p =
        should_subdivide_element keep volume eleIdx depth gridVolume heuristicCache q) ∧
    fit_volume_to_grid log2f keep fuel lebVolume gridVolume heuristicCache p =
      fit_volume_to_grid log2f keep fuel lebVolume gridVolume heuristicCache q := by
  refine ⟨fun volume eleIdx depth =>
    should_subdivide_no_cull keep volume eleIdx depth gridVolume heuristicCache p q hp hq hr hm,
    ?_⟩
  unfold fit_volume_to_grid
  simp only [fitRounds_no_cull keep gridVolume heuristicCache p q hp hq hr hm]

/-- Witness of C39 on the default parameters and a set that switches the culling by pixel
size on and changes the camera, the matrix, the screen and the pixel size. -/
theorem C39_pixel_cull_needs_frustum_cull_witness :
    defaultParameters.frustumCull = false ∧ pixelParameters.frustumCull = false ∧
    defaultParameters.pixelCull ≠ pixelParameters.pixelCull ∧
    ((∀ (volume : LEBVolume) (eleIdx depth : Nat),
      should_subdivide_element rejectAll volume eleIdx depth unitGrid unitCache
          defaultParameters =
        should_subdivide_element rejectAll volume eleIdx depth unitGrid unitCache
          pixelParameters) ∧
    fit_volume_to_grid zeroLog rejectAll 8 rootVolumeExplicit unitGrid unitCache
        defaultParameters =
      fit_volume_to_grid zeroLog rejectAll 8 rootVolumeExplicit unitGrid unitCache
        pixelParameters) :=
  ⟨rfl, rfl, by decide,
    C39_pixel_cull_needs_frustum_cull zeroLog rejectAll 8 rootVolumeExplicit unitGrid unitCache
      defaultParameters pixelParameters rfl rfl rfl rfl⟩

/-! ## The numbering of the faces -/

/-- The packed plane `f` of an element is computed from the three vertices that
`g_TriangleIndices` names for the face `f`. -/
theorem packElement_planes (ops : PackingOps) (lebVolume : LEBVolume) (gridVolume : GridVolume)
    (maxDepth : Nat) (pos : List float3) (g : LEBVolumeGPU) (e f : Nat)
    (he : e < g.tetraData.length) (hf : f < 4) :
    ((packElement ops lebVolume gridVolume maxDepth pos g e).tetraData.getD e
        default).compressedEquations.at f = packedPlane ops (positionsTetra pos e) f := by
  unfold packElement packedPlane positionsTetra
  simp only
  rw [getD_set_eq _ _ _ _ he]
  have hr : List.range 4 = [0, 1, 2, 3] := rfl
  rw [hr]
  interval_cases f <;> simp [List.foldl, uint4.setAt, uint4.at]

/-- The slot `f` of the neighbors that `evaluate_neighbors` finds for an element is searched
with the entry `4 * currentID + f` of the face centres. -/
theorem matchNeighbors_at (faceCenters : List float3) (count currentID f : Nat) (hf : f < 4) :
    (matchNeighbors faceCenters count currentID).at f =
      (closestFace faceCenters count currentID
        (faceCenters.getD (4 * currentID + f) default)).2 := by
  unfold matchNeighbors
  have hr : List.range 4 = [0, 1, 2, 3] := rfl
  rw [hr]
  interval_cases f <;> simp [List.foldl, uint4.setAt, uint4.at]

theorem length_flatten_four {α : Type} (g : Nat → List α) (hlen : ∀ i, (g i).length = 4)
    (n : Nat) : ((List.range n).map g).flatten.length = 4 * n := by
  induction n with
  | zero => rfl
  | succ n ih =>
    rw [List.range_succ, List.map_append, List.flatten_append, List.length_append, ih]
    simp [hlen]
    omega

theorem getD_flatten_four {α : Type} (g : Nat → List α) (hlen : ∀ i, (g i).length = 4)
    (d : α) (n e f : Nat) (he : e < n) (hf : f < 4) :
    ((List.range n).map g).flatten.getD (4 * e + f) d = (g e).getD f d := by
  induction n with
  | zero => omega
  | succ n ih =>
    rw [List.range_succ, List.map_append, List.flatten_append]
    have hl := length_flatten_four g hlen n
    by_cases hen : e < n
    · rw [List.getD_append _ _ _ _ (by rw [hl]; omega)]
      exact ih hen
    · have : e = n := by omega
      subst this
      rw [List.getD_append_right _ _ _ _ (by rw [hl]; omega), hl]
      simp

/-- The entry `4 e + f` of the vector of `evaluate_face_centers` is the centroid `f` of the
tetrahedron of the element `e`. -/
theorem evaluate_face_centers_at (lebVolume : LEBVolume) (e f : Nat)
    (he : e < lebVolume.totalNumElements) (hf : f < 4)
    (hheap : lebVolume.heapIDArray.getD e 0 ≠ 0) :
    (evaluate_face_centers lebVolume).getD (4 * e + f) default =
      (faceCentersOf (evaluate_tetrahedron (lebVolume.heapIDArray.getD e 0)
        lebVolume.minimalDepth lebVolume.basePoints lebVolume.baseTypes)).getD f default := by
  unfold evaluate_face_centers
  rw [getD_flatten_four _ _ _ _ _ _ he hf]
  · simp only [hheap, if_false]
  · intro i
    simp only
    split_ifs <;> rfl

/-- C38: the packer and the mesh number the faces alike.  For every face `f` in `0..3`, the
vertex indices of `g_TriangleIndices[f]` are, as a set, those that the specification names,
`{0,1,2}`, `{0,1,3}`, `{1,2,3}`, `{0,2,3}`; the centroid that `evaluate_face_centers` stores
for the face `f` of an element is the centroid of these three vertices; the neighbor slot `f`
that `evaluate_neighbors` fills is the element found across that centroid; and the compressed
equation `f` that the packer stores is computed from the same three vertices. -/
theorem C38_same_face_numbering (f : Nat) (hf : f < 4) :
    List.Perm [(g_TriangleIndices.getD f default).x, (g_TriangleIndices.getD f default).y,
      (g_TriangleIndices.getD f default).z] (specFaceIndices.getD f []) ∧
    (∀ tetra : Tetrahedron, (faceCentersOf tetra).getD f default =
      centroid3 (tetra.p (g_TriangleIndices.getD f default).x)
        (tetra.p (g_TriangleIndices.getD f default).y)
        (tetra.p (g_TriangleIndices.getD f default).z)) ∧
    (∀ (lebVolume : LEBVolume) (e : Nat), e < lebVolume.totalNumElements →
      lebVolume.heapIDArray.getD e 0 ≠ 0 →
      (evaluate_face_centers lebVolume).getD (4 * e + f) default =
        (faceCentersOf (evaluate_tetrahedron (lebVolume.heapIDArray.getD e 0)
          lebVolume.minimalDepth lebVolume.basePoints lebVolume.baseTypes)).getD f default) ∧
    (∀ (faceCenters : List float3) (count currentID : Nat),
      (matchNeighbors faceCenters count currentID).at f =
        (closestFace faceCenters count currentID
          (faceCenters.getD (4 * currentID + f) default)).2) ∧
    (∀ (ops : PackingOps) (lebVolume : LEBVolume) (gridVolume : GridVolume) (maxDepth : Nat)
      (pos : List float3) (g : LEBVolumeGPU) (e : Nat), e < g.tetraData.length →
      ((packElement ops lebVolume gridVolume maxDepth pos g e).tetraData.getD e
          default).compressedEquations.at f = packedPlane ops (positionsTetra pos e) f ∧
      ((packElement ops lebVolume gridVolume maxDepth pos g e).tetraData.getD e
          default).neighbors = lebVolume.neighborsArray.getD e default) := by
  refine ⟨?_, ?_, ?_, ?_, ?_⟩
  · interval_cases f <;> decide
  · intro tetra
    interval_cases f <;>
      simp [faceCentersOf, centroid3, g_TriangleIndices, Tetrahedron.p, float3.add,
        float3.divScalar] <;>
      refine ⟨?_, ?_, ?_⟩ <;> ring
  · intro lebVolume e he hheap
    exact evaluate_face_centers_at lebVolume e f he hf hheap
  · intro faceCenters count currentID
    exact matchNeighbors_at faceCenters count currentID f hf
  · intro ops lebVolume gridVolume maxDepth pos g e he
    exact ⟨packElement_planes ops lebVolume gridVolume maxDepth pos g e f he hf,
      (packElement_spec ops lebVolume gridVolume maxDepth pos g e he).2.1⟩

/-- Witness of C38 at the face 1, whose vertices are listed as `3, 1, 0` by the packer and as
`0, 3, 1` by the face centres. -/
theorem C38_same_face_numbering_witness :
    List.Perm [(g_TriangleIndices.getD 1 default).x, (g_TriangleIndices.getD 1 default).y,
      (g_TriangleIndices.getD 1 default).z] (specFaceIndices.getD 1 []) :=
  (C38_same_face_numbering 1 (by decide)).1

/-! ## The tetrahedra of the hierarchy: inside the cube, halved by each bisection -/

/-- One step of the decoding loop is the child for the bit read. -/
theorem decode_succ (h n t : Nat) (T : Tetrahedron) :
    decodeVertices (decodeLoop h (n + 1) t leb__IdentityMatrix4x4) T.p0 T.p1 T.p2 T.p3 =
      decodeVertices (decodeLoop h n (nextType t (leb__GetBitValue h n)) leb__IdentityMatrix4x4)
        (splitChild t (leb__GetBitValue h n) T).p0 (splitChild t (leb__GetBitValue h n) T).p1
        (splitChild t (leb__GetBitValue h n) T).p2 (splitChild t (leb__GetBitValue h n) T).p3 := by
  simp only [decodeLoop]
  rw [decodeLoop_product, decodeVertices_product]
  rfl

/-- A property of tetrahedra that every child keeps holds along the decoding loop. -/
theorem decode_keeps (P : Tetrahedron → Prop)
    (hchild : ∀ (t b : Nat) (T : Tetrahedron), t ≤ 3 → b ≤ 1 → P T → P (splitChild t b T))
    (h : Nat) : ∀ (n t : Nat) (T : Tetrahedron), t ≤ 3 → P T →
      P (decodeVertices (decodeLoop h n t leb__IdentityMatrix4x4) T.p0 T.p1 T.p2 T.p3) := by
  intro n
  induction n with
  | zero =>
    intro t T _ hT
    simp only [decodeLoop]
    rw [decodeVertices_id]
    exact hT
  | succ n ih =>
    intro t T ht hT
    have hb : leb__GetBitValue h n ≤ 1 := by
      rcases getBit_le_one h n with e | e <;> omega
    rw [decode_succ]
    exact ih _ _ (nextType_le t _ ht) (hchild t _ T ht hb hT)

theorem convex_bound (w0 w1 w2 w3 a0 a1 a2 a3 : ℚ) (h0 : 0 ≤ w0) (h1 : 0 ≤ w1) (h2 : 0 ≤ w2)
    (h3 : 0 ≤ w3) (hs : w0 + w1 + w2 + w3 = 1)
    (b0 : -1 / 2 ≤ a0 ∧ a0 ≤ 1 / 2) (b1 : -1 / 2 ≤ a1 ∧ a1 ≤ 1 / 2)
    (b2 : -1 / 2 ≤ a2 ∧ a2 ≤ 1 / 2) (b3 : -1 / 2 ≤ a3 ∧ a3 ≤ 1 / 2) :
    -1 / 2 ≤ (((0 + w0 * a0) + w1 * a1) + w2 * a2) + w3 * a3 ∧
    (((0 + w0 * a0) + w1 * a1) + w2 * a2) + w3 * a3 ≤ 1 / 2 := by
  constructor
  · nlinarith [mul_nonneg h0 (sub_nonneg.2 b0.1), mul_nonneg h1 (sub_nonneg.2 b1.1),
      mul_nonneg h2 (sub_nonneg.2 b2.1), mul_nonneg h3 (sub_nonneg.2 b3.1)]
  · nlinarith [mul_nonneg h0 (sub_nonneg.2 b0.2), mul_nonneg h1 (sub_nonneg.2 b1.2),
      mul_nonneg h2 (sub_nonneg.2 b2.2), mul_nonneg h3 (sub_nonneg.2 b3.2)]

/-- A matrix whose rows are convex combinations maps points of the cube to points of the
cube. -/
theorem stochastic_inCube (m : float4x4) (hm : Stochastic m) (T : Tetrahedron)
    (hT : T.InCube) : (decodeVertices m T.p0 T.p1 T.p2 T.p3).InCube := by
  obtain ⟨⟨a0, a1, a2, a3, as⟩, ⟨b0, b1, b2, b3, bs⟩, ⟨c0, c1, c2, c3, cs⟩,
    ⟨d0, d1, d2, d3, ds⟩⟩ := hm
  obtain ⟨⟨x0, y0, z0⟩, ⟨x1, y1, z1⟩, ⟨x2, y2, z2⟩, ⟨x3, y3, z3⟩⟩ := hT
  simp only [Tetrahedron.InCube, inCube, decodeVertices, applyMatrix, leb__DotProduct]
  exact ⟨⟨convex_bound _ _ _ _ _ _ _ _ a0 a1 a2 a3 as x0 x1 x2 x3,
      convex_bound _ _ _ _ _ _ _ _ a0 a1 a2 a3 as y0 y1 y2 y3,
      convex_bound _ _ _ _ _ _ _ _ a0 a1 a2 a3 as z0 z1 z2 z3⟩,
    ⟨convex_bound _ _ _ _ _ _ _ _ b0 b1 b2 b3 bs x0 x1 x2 x3,
      convex_bound _ _ _ _ _ _ _ _ b0 b1 b2 b3 bs y0 y1 y2 y3,
      convex_bound _ _ _ _ _ _ _ _ b0 b1 b2 b3 bs z0 z1 z2 z3⟩,
    ⟨convex_bound _ _ _ _ _ _ _ _ c0 c1 c2 c3 cs x0 x1 x2 x3,
      convex_bound _ _ _ _ _ _ _ _ c0 c1 c2 c3 cs y0 y1 y2 y3,
      convex_bound _ _ _ _ _ _ _ _ c0 c1 c2 c3 cs z0 z1 z2 z3⟩,
    ⟨convex_bound _ _ _ _ _ _ _ _ d0 d1 d2 d3 ds x0 x1 x2 x3,
      convex_bound _ _ _ _ _ _ _ _ d0 d1 d2 d3 ds y0 y1 y2 y3,
      convex_bound _ _ _ _ _ _ _ _ d0 d1 d2 d3 ds z0 z1 z2 z3⟩⟩

/-- The matrix that `leb__SplittingMatrix` multiplies in has rows that are convex
combinations, and its determinant is one half. -/
theorem splitting_facts (t b : Nat) (ht : t ≤ 3) (hb : b ≤ 1) :
    Stochastic (leb__SplittingMatrix leb__IdentityMatrix4x4 b t) ∧
    det4 (leb__SplittingMatrix leb__IdentityMatrix4x4 b t) = 1 / 2 := by
  interval_cases t <;> interval_cases b <;>
  · simp only [leb__SplittingMatrix, leb__Matrix4x4Product, productRow, leb__DotProduct,
      leb__TransposeMatrix4x4, leb__IdentityMatrix4x4, splitMatrix03, splitMatrix1,
      splitMatrix2, Stochastic, float4.Convex, det4, det3]
    norm_num

/-- The determinant of the edges of the image of a tetrahedron under a matrix whose rows sum
to 1 is the determinant of the matrix times the determinant of the edges of the
tetrahedron. -/
theorem orientation_decode (m : float4x4) (T : Tetrahedron)
    (h0 : m.r0.x + m.r0.y + m.r0.z + m.r0.w = 1) (h1 : m.r1.x + m.r1.y + m.r1.z + m.r1.w = 1)
    (h2 : m.r2.x + m.r2.y + m.r2.z + m.r2.w = 1) (h3 : m.r3.x + m.r3.y + m.r3.z + m.r3.w = 1) :
    orientation (decodeVertices m T.p0 T.p1 T.p2 T.p3) = det4 m * orientation T := by
  obtain ⟨⟨a0, a1, a2, a3⟩, ⟨b0, b1, b2, b3⟩, ⟨c0, c1, c2, c3⟩, ⟨d0, d1, d2, d3⟩⟩ := m
  obtain ⟨⟨x0, y0, z0⟩, ⟨x1, y1, z1⟩, ⟨x2, y2, z2⟩, ⟨x3, y3, z3⟩⟩ := T
  simp only at h0 h1 h2 h3
  have e0 : a3 = 1 - a0 - a1 - a2 := by linarith
  have e1 : b3 = 1 - b0 - b1 - b2 := by linarith
  have e2 : c3 = 1 - c0 - c1 - c2 := by linarith
  have e3 : d3 = 1 - d0 - d1 - d2 := by linarith
  subst e0 e1 e2 e3
  simp only [orientation, det3, det4, decodeVertices, applyMatrix, leb__DotProduct, float3.sub]
  ring

/-- The two overloads of `evaluate_tetrahedron` agree on an element whose root has the base
type 0. -/
theorem evaluate_cached_eq (heapID minDepth : Nat) (basePoints : List float3)
    (baseTypes : List Nat) (hbase : baseTypes.getD (primitiveID heapID minDepth) 0 = 0) :
    evaluate_tetrahedron_cached heapID minDepth basePoints baseTypes Leb3DCache =
      evaluate_tetrahedron heapID minDepth basePoints baseTypes := by
  unfold evaluate_tetrahedron_cached evaluate_tetrahedron
  simp only [hbase]
  have hlt : subHeapID heapID minDepth < 2 ^ 64 := by
    unfold subHeapID
    exact Nat.mod_lt _ (by norm_num)
  rcases Nat.eq_zero_or_pos (subHeapID heapID minDepth) with h0 | hpos
  · rw [h0, decode_cached_zero]
  · rw [decode_cached_eq _ _ hpos hlt]

theorem child_inCube (t b : Nat) (T : Tetrahedron) (ht : t ≤ 3) (hb : b ≤ 1) (hT : T.InCube) :
    (splitChild t b T).InCube :=
  stochastic_inCube _ (splitting_facts t b ht hb).1 T hT

theorem child_orientation (t b : Nat) (T : Tetrahedron) (ht : t ≤ 3) (hb : b ≤ 1) :
    orientation (splitChild t b T) = orientation T / 2 := by
  obtain ⟨⟨⟨-, -, -, -, s0⟩, ⟨-, -, -, -, s1⟩, ⟨-, -, -, -, s2⟩, ⟨-, -, -, -, s3⟩⟩, hdet⟩ :=
    splitting_facts t b ht hb
  unfold splitChild
  rw [orientation_decode _ T s0 s1 s2 s3, hdet]
  ring

/-- Along `n` bits of a heapID the determinant of the edges is halved `n` times. -/
theorem decode_orientation (h : Nat) : ∀ (n t : Nat) (T : Tetrahedron), t ≤ 3 →
    orientation (decodeVertices (decodeLoop h n t leb__IdentityMatrix4x4) T.p0 T.p1 T.p2 T.p3) =
      orientation T / 2 ^ n := by
  intro n
  induction n with
  | zero =>
    intro t T _
    simp only [decodeLoop]
    rw [decodeVertices_id]
    simp
  | succ n ih =>
    intro t T ht
    have hb : leb__GetBitValue h n ≤ 1 := by
      rcases getBit_le_one h n with e | e <;> omega
    rw [decode_succ, ih _ _ (nextType_le t _ ht), child_orientation t _ T ht hb, pow_succ]
    field_simp
    left
    ring

set_option maxRecDepth 1000000 in
/-- The 24 root tetrahedra lie in the cube and have the same determinant of edges. -/
theorem roots_facts : ∀ r, r < 24 → (rootTetra r).InCube ∧ orientation (rootTetra r) = -1 / 4 := by
  decide!

theorem center_inCube (T : Tetrahedron) (hT : T.InCube) : inCube T.center := by
  obtain ⟨⟨x0, y0, z0⟩, ⟨x1, y1, z1⟩, ⟨x2, y2, z2⟩, ⟨x3, y3, z3⟩⟩ := hT
  simp only [Tetrahedron.center, inCube, float3.add, float3.mulScalar]
  refine ⟨⟨?_, ?_⟩, ⟨?_, ?_⟩, ⟨?_, ?_⟩⟩ <;> linarith [x0.1, x0.2, x1.1, x1.2, x2.1, x2.2, x3.1,
    x3.2, y0.1, y0.2, y1.1, y1.2, y2.1, y2.2, y3.1, y3.2, z0.1, z0.2, z1.1, z1.2, z2.1, z2.2,
    z3.1, z3.2]

theorem findMSB_path (k j : Nat) (hk : k ≤ 63) (hj : j < 2 ^ k) :
    leb__FindMSB (2 ^ k + j) = k := by
  have h63 : 2 ^ k ≤ 2 ^ 63 := Nat.pow_le_pow_right (by decide) hk
  have hq : 0 < 2 ^ k := Nat.two_pow_pos _
  rw [findMSB_eq_log2 _ (by omega) (by omega)]
  exact log2_unique _ _ (by omega) (by rw [pow_succ]; omega)

/-- C37: every tetrahedron of the hierarchy stays inside the cube.  Each matrix that
`leb__SplittingMatrix` multiplies in (types 0 to 3, bits 0 and 1) has no negative entry and
rows that sum to 1; a matrix with such rows maps four points of `[-0.5, 0.5]^3` to four
points of `[-0.5, 0.5]^3`, every image being a convex combination; hence for every heapID
that descends from one of the 24 roots (`primitiveID < 24`) the four vertices that either
overload of `evaluate_tetrahedron` returns on the root mesh lie in `[-0.5, 0.5]^3`, and so
does the centre `(p0 + p1 + p2 + p3) / 4` passed to `sample_cache`. -/
theorem C37_inside_cube (heapID : Nat) (hroot : primitiveID heapID 5 < 24) :
    (∀ t b, t ≤ 3 → b ≤ 1 → Stochastic (leb__SplittingMatrix leb__IdentityMatrix4x4 b t)) ∧
    (∀ (m : float4x4) (T : Tetrahedron), Stochastic m → T.InCube →
      (decodeVertices m T.p0 T.p1 T.p2 T.p3).InCube) ∧
    (evaluate_tetrahedron heapID 5 rootVolume.basePoints rootVolume.baseTypes).InCube ∧
    inCube (evaluate_tetrahedron heapID 5 rootVolume.basePoints rootVolume.baseTypes).center ∧
    evaluate_tetrahedron_cached heapID 5 rootVolume.basePoints rootVolume.baseTypes Leb3DCache =
      evaluate_tetrahedron heapID 5 rootVolume.basePoints rootVolume.baseTypes := by
  have hin : (evaluate_tetrahedron heapID 5 rootVolume.basePoints
      rootVolume.baseTypes).InCube := by
    rw [eval_root heapID hroot]
    exact decode_keeps Tetrahedron.InCube child_inCube _ _ 0 _ (by omega)
      (roots_facts _ hroot).1
  exact ⟨fun t b ht hb => (splitting_facts t b ht hb).1,
    fun m T hm hT => stochastic_inCube m hm T hT, hin, center_inCube _ hin,
    evaluate_cached_eq _ _ _ _ (root_base.2 _ hroot)⟩

set_option maxRecDepth 1000000 in
/-- Witness of C37 at the heapID 65, a child of the root 0. -/
theorem C37_inside_cube_witness :
    primitiveID 65 5 < 24 ∧
    (evaluate_tetrahedron 65 5 rootVolume.basePoints rootVolume.baseTypes).InCube :=
  ⟨by decide!, (C37_inside_cube 65 (by decide!)).2.2.1⟩

theorem dot_sq_le (a b : float3) :
    (a.x * b.x + a.y * b.y + a.z * b.z) ^ 2 ≤ a.lengthSq * b.lengthSq := by
  unfold float3.lengthSq
  nlinarith [sq_nonneg (a.x * b.y - a.y * b.x), sq_nonneg (a.y * b.z - a.z * b.y),
    sq_nonneg (a.z * b.x - a.x * b.z)]

theorem lengthSq_nonneg (a : float3) : 0 ≤ a.lengthSq := by
  unfold float3.lengthSq
  nlinarith [mul_self_nonneg a.x, mul_self_nonneg a.y, mul_self_nonneg a.z]

set_option maxRecDepth 1000000 in
/-- Two distinct directions of the table are far apart: the squared length of their sum is at
most 3.5, where 4 is the value for two equal unit vectors. -/
theorem directions_apart : ∀ i, i < 18 → ∀ j, j < 18 → i ≠ j →
    ((g_Directions.getD i default).add (g_Directions.getD j default)).lengthSq ≤ 7 / 2 := by
  decide!

/-- At most one direction has a dot product above 0.99 with a vector of squared length at
most 1.01. -/
theorem direction_unique (n : float3) (hn : n.lengthSq ≤ 101 / 100) (i j : Nat)
    (hi : i < 18) (hj : j < 18) (hdi : directionDot i n > 99 / 100)
    (hdj : directionDot j n > 99 / 100) : i = j := by
  by_contra hne
  have h1 := directions_apart i hi j hj hne
  have h2 := dot_sq_le ((g_Directions.getD i default).add (g_Directions.getD j default)) n
  have h3 : ((g_Directions.getD i default).add (g_Directions.getD j default)).x * n.x
      + ((g_Directions.getD i default).add (g_Directions.getD j default)).y * n.y
      + ((g_Directions.getD i default).add (g_Directions.getD j default)).z * n.z
      = directionDot i n + directionDot j n := by
    unfold directionDot float3.add
    ring
  rw [h3] at h2
  have h4 := lengthSq_nonneg n
  have h5 := lengthSq_nonneg ((g_Directions.getD i default).add (g_Directions.getD j default))
  have h6 : ((g_Directions.getD i default).add (g_Directions.getD j default)).lengthSq
      * n.lengthSq ≤ 7 / 2 * (101 / 100) := mul_le_mul h1 hn h4 (by norm_num)
  nlinarith

/-- C35: the first match of the packer is the maximal dot product.  For every vector `n` of
squared length at most 1.01, in particular for every unit vector, at most one of the 18
entries of `g_Directions` has a dot product with `n` above 0.99; hence, whenever some entry
exceeds the threshold, the loop that stops at the first such entry returns an index below 18
whose dot product exceeds the threshold and is strictly greater than the dot product of every
other entry. -/
theorem C35_first_match_is_maximal (n : float3) (hn : n.lengthSq ≤ 101 / 100) :
    (∀ i j, i < 18 → j < 18 → directionDot i n > 99 / 100 → directionDot j n > 99 / 100 →
      i = j) ∧
    ((∃ i, i < 18 ∧ directionDot i n > 99 / 100) →
      classifyPlane n < 18 ∧ directionDot (classifyPlane n) n > 99 / 100 ∧
      ∀ j, j < 18 → j ≠ classifyPlane n → directionDot j n < directionDot (classifyPlane n) n) := by
  refine ⟨fun i j hi hj hdi hdj => direction_unique n hn i j hi hj hdi hdj, ?_⟩
  intro h
  obtain ⟨hlt, hdot⟩ := classifyPlane_hit n h
  refine ⟨hlt, hdot, ?_⟩
  intro j hj hne
  by_contra hge
  have hj99 : directionDot j n > 99 / 100 := by
    have := not_lt.1 hge
    linarith
  exact hne (direction_unique n hn j _ hj hlt hj99 hdot)

set_option maxRecDepth 1000000 in
/-- Witness of C35 at the unit vector `(0, 0, 1)`, which only the last direction matches. -/
theorem C35_first_match_is_maximal_witness :
    (⟨0, 0, 1⟩ : float3).lengthSq ≤ 101 / 100 ∧ classifyPlane ⟨0, 0, 1⟩ = 17 ∧
    ∀ j, j < 18 → j ≠ classifyPlane ⟨0, 0, 1⟩ →
      directionDot j ⟨0, 0, 1⟩ < directionDot (classifyPlane ⟨0, 0, 1⟩) ⟨0, 0, 1⟩ :=
  ⟨by decide!, by decide!,
    ((C35_first_match_is_maximal ⟨0, 0, 1⟩ (by decide!)).2 ⟨17, by decide!⟩).2.2⟩

/-! ## The leaves of the forest and the depth 63 -/

/-- The two children of a heapID below the depth 63 descend from the same root and share its
weight. -/
theorem children_forest (p : Nat) (h1 : 32 ≤ p) (h2 : p < 2 ^ 63) :
    rootPrefix (2 * p) = rootPrefix p ∧ rootPrefix (2 * p + 1) = rootPrefix p ∧
    leafWeight (2 * p) + leafWeight (2 * p + 1) = leafWeight p := by
  obtain ⟨e1, e2⟩ := findMSB_double p (by omega) h2
  have hd : 5 ≤ leb__FindMSB p := by
    rw [findMSB_eq_log2 p (by omega) (by omega)]
    exact (Nat.le_log2 (by omega)).2 (by norm_num; omega)
  have hs : leb__FindMSB p + 1 - 5 = (leb__FindMSB p - 5) + 1 := by omega
  refine ⟨?_, ?_, ?_⟩
  · unfold rootPrefix
    rw [e1, hs, Nat.shiftRight_eq_div_pow, Nat.shiftRight_eq_div_pow, pow_succ,
      Nat.mul_comm (2 ^ _) 2, ← Nat.div_div_eq_div_mul]
    congr 1
    omega
  · unfold rootPrefix
    rw [e2, hs, Nat.shiftRight_eq_div_pow, Nat.shiftRight_eq_div_pow, pow_succ,
      Nat.mul_comm (2 ^ _) 2, ← Nat.div_div_eq_div_mul]
    congr 1
    omega
  · unfold leafWeight
    rw [e1, e2]
    have : (5 : ℤ) - ((leb__FindMSB p + 1 : ℕ) : ℤ) = ((5 : ℤ) - (leb__FindMSB p : ℤ)) - 1 := by
      push_cast; ring
    rw [this, zpow_sub_one₀ (by norm_num)]
    ring

theorem flag_or (x : Nat) : ((x &&& (255 - ELEMENT_REQUESTED)) ||| ELEMENT_INVALID_CACHE)
    &&& ELEMENT_INVALID_CACHE = ELEMENT_INVALID_CACHE := by
  apply Nat.eq_of_testBit_eq
  intro i
  simp only [Nat.testBit_and, Nat.testBit_or]
  cases (Nat.testBit ELEMENT_INVALID_CACHE i) <;> simp

theorem length_flagStep (m : List Nat) (i : Nat) : (flagStep m i).length = m.length := by
  unfold flagStep; simp only [List.length_set]

theorem length_copyStep (m : List Nat) (p : Nat × Nat) : (copyStep m p).length = m.length := by
  unfold copyStep; simp only [List.length_set]

theorem length_foldl_flagStep (l : List Nat) (m : List Nat) :
    (l.foldl flagStep m).length = m.length := by
  induction l generalizing m with
  | nil => rfl
  | cons i l ih => rw [List.foldl_cons, ih, length_flagStep]

theorem length_foldl_copyStep (l : List (Nat × Nat)) (m : List Nat) :
    (l.foldl copyStep m).length = m.length := by
  induction l generalizing m with
  | nil => rfl
  | cons i l ih => rw [List.foldl_cons, ih, length_copyStep]

theorem flagAt_flagStep_self (m : List Nat) (i : Nat) (hi : i < m.length) :
    FlagAt (flagStep m i) i := by
  unfold FlagAt flagStep
  rw [getD_set_eq _ _ _ _ hi]
  exact flag_or _

theorem flagAt_flagStep_keep (m : List Nat) (i e : Nat) (h : FlagAt m e) :
    FlagAt (flagStep m i) e := by
  by_cases hie : i = e
  · subst hie
    by_cases hi : i < m.length
    · exact flagAt_flagStep_self m i hi
    · unfold FlagAt flagStep
      rw [List.set_eq_of_length_le (by omega)]
      exact h
  · unfold FlagAt flagStep
    rw [getD_set_ne _ _ _ _ _ hie]
    exact h

theorem getD_flagStep_other (m : List Nat) (i e : Nat) (h : e ≠ i) :
    (flagStep m i).getD e 0 = m.getD e 0 := by
  unfold flagStep
  rw [getD_set_ne _ _ _ _ _ (Ne.symm h)]

theorem getD_copyStep_other (m : List Nat) (p : Nat × Nat) (e : Nat) (h : e ≠ p.2) :
    (copyStep m p).getD e 0 = m.getD e 0 := by
  unfold copyStep
  rw [getD_set_ne _ _ _ _ _ (Ne.symm h)]

/-- A copy from a flagged member keeps every flag that is set, and sets the flag of the
slot. -/
theorem flagAt_copyStep (m : List Nat) (p : Nat × Nat) (hp : FlagAt m p.1) :
    (∀ e, FlagAt m e → FlagAt (copyStep m p) e) ∧
    (p.2 < m.length → FlagAt (copyStep m p) p.2) := by
  constructor
  · intro e he
    by_cases hes : p.2 = e
    · by_cases hl : p.2 < m.length
      · unfold FlagAt copyStep
        rw [← hes, getD_set_eq _ _ _ _ hl]
        exact hp
      · unfold FlagAt copyStep
        rw [List.set_eq_of_length_le (by omega)]
        exact he
    · unfold FlagAt
      rw [getD_copyStep_other _ _ _ (Ne.symm hes)]
      exact he
  · intro hl
    unfold FlagAt copyStep
    rw [getD_set_eq _ _ _ _ hl]
    exact hp

theorem flagAt_foldl_flagStep (l : List Nat) (m : List Nat) :
    (∀ e, FlagAt m e → FlagAt (l.foldl flagStep m) e) ∧
    (∀ i ∈ l, i < m.length → FlagAt (l.foldl flagStep m) i) := by
  induction l generalizing m with
  | nil => exact ⟨fun e he => he, fun i hi => absurd hi (List.not_mem_nil i)⟩
  | cons j l ih =>
    obtain ⟨ih1, ih2⟩ := ih (flagStep m j)
    refine ⟨fun e he => ih1 e (flagAt_flagStep_keep m j e he), ?_⟩
    intro i hi hlt
    rw [List.foldl_cons]
    rcases List.mem_cons.1 hi with e | hmem
    · subst e
      exact ih1 i (flagAt_flagStep_self m i hlt)
    · exact ih2 i hmem (by rw [length_flagStep]; exact hlt)

theorem getD_foldl_flagStep_other (l : List Nat) (m : List Nat) (e : Nat) (h : e ∉ l) :
    (l.foldl flagStep m).getD e 0 = m.getD e 0 := by
  induction l generalizing m with
  | nil => rfl
  | cons j l ih =>
    rw [List.foldl_cons, ih _ (fun hm => h (List.mem_cons_of_mem j hm)),
      getD_flagStep_other _ _ _ (fun he => h (by rw [he]; exact List.mem_cons_self j l))]

theorem getD_foldl_copyStep_other (l : List (Nat × Nat)) (m : List Nat) (e : Nat)
    (h : ∀ p ∈ l, e ≠ p.2) : (l.foldl copyStep m).getD e 0 = m.getD e 0 := by
  induction l generalizing m with
  | nil => rfl
  | cons j l ih =>
    rw [List.foldl_cons, ih _ (fun p hp => h p (List.mem_cons_of_mem j hp)),
      getD_copyStep_other _ _ _ (h j (List.mem_cons_self j l))]

/-- Copies from flagged members keep every flag that is set and set the flags of the slots. -/
theorem flagAt_foldl_copyStep (l : List (Nat × Nat)) (m : List Nat)
    (hsrc : ∀ p ∈ l, FlagAt m p.1) :
    (∀ e, FlagAt m e → FlagAt (l.foldl copyStep m) e) ∧
    (∀ p ∈ l, p.2 < m.length → FlagAt (l.foldl copyStep m) p.2) := by
  induction l generalizing m with
  | nil => exact ⟨fun e he => he, fun i hi => absurd hi (List.not_mem_nil i)⟩
  | cons q l ih =>
    obtain ⟨k1, k2⟩ := flagAt_copyStep m q (hsrc q (List.mem_cons_self q l))
    obtain ⟨ih1, ih2⟩ := ih (copyStep m q)
      (fun p hp => k1 _ (hsrc p (List.mem_cons_of_mem q hp)))
    refine ⟨fun e he => ih1 e (k1 e he), ?_⟩
    intro p hp hlt
    rw [List.foldl_cons]
    rcases List.mem_cons.1 hp with e | hmem
    · subst e
      exact ih1 _ (k2 hlt)
    · exact ih2 p hmem (by rw [length_copyStep]; exact hlt)

/-- The flags after a complete split, where every member is flagged and then every slot gets
the flags of its member: members and slots are flagged, the other entries are as before. -/
theorem complete_flags (pairs : List (Nat × Nat)) (m : List Nat)
    (hlt : ∀ p ∈ pairs, p.1 < m.length) :
    (∀ p ∈ pairs, FlagAt (pairs.foldl copyStep ((pairs.map Prod.fst).foldl flagStep m)) p.1 ∧
      (p.2 < m.length →
        FlagAt (pairs.foldl copyStep ((pairs.map Prod.fst).foldl flagStep m)) p.2)) ∧
    (∀ e, (∀ p ∈ pairs, e ≠ p.1 ∧ e ≠ p.2) →
      (pairs.foldl copyStep ((pairs.map Prod.fst).foldl flagStep m)).getD e 0 = m.getD e 0) := by
  obtain ⟨-, f2⟩ := flagAt_foldl_flagStep (pairs.map Prod.fst) m
  have hsrc : ∀ p ∈ pairs, FlagAt ((pairs.map Prod.fst).foldl flagStep m) p.1 :=
    fun p hp => f2 p.1 (List.mem_map_of_mem _ hp) (hlt p hp)
  obtain ⟨c1, c2⟩ := flagAt_foldl_copyStep pairs _ hsrc
  refine ⟨fun p hp => ⟨c1 _ (hsrc p hp), fun h2 => c2 p hp
    (by rw [length_foldl_flagStep]; exact h2)⟩, ?_⟩
  intro e he
  rw [getD_foldl_copyStep_other _ _ _ (fun p hp => (he p hp).2),
    getD_foldl_flagStep_other _ _ _ (fun hm => by
      obtain ⟨p, hp, hpe⟩ := List.mem_map.1 hm
      exact (he p hp).1 hpe.symm)]

theorem length_updStep (m : List Nat) (p : Nat × Nat) : (updStep m p).length = m.length := by
  unfold updStep
  rw [length_copyStep, length_flagStep]

theorem length_foldl_updStep (l : List (Nat × Nat)) (m : List Nat) :
    (l.foldl updStep m).length = m.length := by
  induction l generalizing m with
  | nil => rfl
  | cons i l ih => rw [List.foldl_cons, ih, length_updStep]

/-- The flags after a loop of an incomplete split, where each member in turn is flagged and
its slot gets its flags: the flags that were set stay set, members and slots are flagged, the
other entries are as before. -/
theorem incomplete_flags (pairs : List (Nat × Nat)) (m : List Nat)
    (hlt : ∀ p ∈ pairs, p.1 < m.length) :
    (∀ e, FlagAt m e → FlagAt (pairs.foldl updStep m) e) ∧
    (∀ p ∈ pairs, FlagAt (pairs.foldl updStep m) p.1 ∧
      (p.2 < m.length → FlagAt (pairs.foldl updStep m) p.2)) ∧
    (∀ e, (∀ p ∈ pairs, e ≠ p.1 ∧ e ≠ p.2) → (pairs.foldl updStep m).getD e 0 = m.getD e 0) := by
  induction pairs generalizing m with
  | nil =>
    exact ⟨fun e he => he, fun p hp => absurd hp (List.not_mem_nil p), fun e _ => rfl⟩
  | cons q l ih =>
    have hq := hlt q (List.mem_cons_self q l)
    have hself := flagAt_flagStep_self m q.1 hq
    obtain ⟨k1, k2⟩ := flagAt_copyStep (flagStep m q.1) q hself
    have hlen : (updStep m q).length = m.length := length_updStep m q
    obtain ⟨ih1, ih2, ih3⟩ := ih (updStep m q)
      (fun p hp => by rw [hlen]; exact hlt p (List.mem_cons_of_mem q hp))
    refine ⟨fun e he => ih1 e (k1 e (flagAt_flagStep_keep m q.1 e he)), ?_, ?_⟩
    · intro p hp
      rw [List.foldl_cons]
      rcases List.mem_cons.1 hp with e | hmem
      · subst e
        exact ⟨ih1 _ (k1 _ hself), fun h2 => ih1 _ (k2 (by rw [length_flagStep]; exact h2))⟩
      · obtain ⟨a, b⟩ := ih2 p hmem
        exact ⟨a, fun h2 => b (by rw [hlen]; exact h2)⟩
    · intro e he
      rw [List.foldl_cons, ih3 e (fun p hp => he p (List.mem_cons_of_mem q hp))]
      unfold updStep
      rw [getD_copyStep_other _ _ _ (he q (List.mem_cons_self q l)).2,
        getD_flagStep_other _ _ _ (he q (List.mem_cons_self q l)).1]

/-! ## What each statement of a split does to the caches -/

@[simp] theorem flagModified_view (v : LEBVolume) (i : Nat) :
    cacheView (flagModified v i) = (cacheView v).mapModif (fun m => flagStep m i) := rfl

@[simp] theorem copyModif_view (v : LEBVolume) (s i : Nat) :
    cacheView (copyModif v s i) = (cacheView v).mapModif (fun m => copyStep m (i, s)) := rfl

@[simp] theorem splitHeapID_view (v : LEBVolume) (i s : Nat) :
    cacheView (splitHeapID v i s) = cacheView v := rfl

@[simp] theorem setTypes_view (v : LEBVolume) (i s a b : Nat) :
    cacheView (setTypes v i s a b) = cacheView v := rfl

@[simp] theorem setNeighbors_view (v : LEBVolume) (i s : Nat) (a b : uint4) :
    cacheView (setNeighbors v i s a b) = cacheView v := rfl

@[simp] theorem patch_neighbor_view (v : LEBVolume) (t o n : Nat) :
    cacheView (patch_neighbor v t o n) = cacheView v := rfl

@[simp] theorem patchOutward_view (v : LEBVolume) (nI : uint4) (i s : Nat) :
    cacheView (patchOutward v nI i s) = cacheView v := by
  unfold patchOutward; split <;> rfl

@[simp] theorem linkEven_view (v : LEBVolume) (i s : Nat) (nI : uint4) (a b sa sb : Nat) :
    cacheView (linkEven v i s nI a b sa sb) = cacheView v := by
  unfold linkEven; split <;> rfl

@[simp] theorem linkOdd_view (v : LEBVolume) (rev : Bool) (i s : Nat) (nI : uint4)
    (a b sa sb : Nat) : cacheView (linkOdd v rev i s nI a b sa sb) = cacheView v := by
  unfold linkOdd; split <;> split <;> rfl

@[simp] theorem allocate_view (v : LEBVolume) (n : Nat) :
    cacheView (allocate_new_elements v n).1 =
      (cacheView v).grow ((v.totalNumElements + n) % 2 ^ 32) := rfl

theorem mapModif_mapModif (c : CacheView) (f g : List Nat → List Nat) :
    (c.mapModif f).mapModif g = c.mapModif (fun m => g (f m)) := rfl

@[simp] theorem diamonds_view (v : LEBVolume) (d : List Diamond) :
    cacheView { v with diamonds := d } = cacheView v := rfl

theorem diamond_split0_view (v v' : LEBVolume) (t : Nat) (h : diamond_split0 v t = .ok v')
    (h0 : typeOf v t = 0) (hw : v.totalNumElements + 8 < 2 ^ 32) :
    cacheView v' = completeView v t 8 := by
  unfold diamond_split0 at h
  simp only [bind_assoc, assert_bind_ok, pure_bind] at h
  obtain ⟨-, a0, a1, a2, a3, a4, a5, a6, a7, h⟩ := h
  simp only [pure, Except.pure, Except.ok.injEq] at h
  subst h
  have e8 : (v.totalNumElements + 8) % 2 ^ 32 = v.totalNumElements + 8 := Nat.mod_eq_of_lt hw
  have s1 := nextSlot_eq v.totalNumElements (by omega)
  have s2 := nextSlot_eq (v.totalNumElements + 1) (by omega)
  have s3 := nextSlot_eq (v.totalNumElements + 2) (by omega)
  have s4 := nextSlot_eq (v.totalNumElements + 3) (by omega)
  have s5 := nextSlot_eq (v.totalNumElements + 4) (by omega)
  have s6 := nextSlot_eq (v.totalNumElements + 5) (by omega)
  have s7 := nextSlot_eq (v.totalNumElements + 6) (by omega)
  simp only [allocate_snd, s1, s2, s3, s4, s5, s6, s7]
  simp only [diamonds_view, patchOutward_view, setNeighbors_view, setTypes_view,
    splitHeapID_view, copyModif_view, flagModified_view, allocate_view, e8]
  have hp : completePairs v t = (ring0 v t).zip
      ((List.range 8).map (fun k => v.totalNumElements + k)) := by
    unfold completePairs
    simp only [h0, if_true]
    rfl
  unfold completeView
  rw [hp]
  simp only [mapModif_mapModif, ring0, List.range, List.range.loop, List.map, List.zip,
    List.zipWith, List.foldl, Nat.add_zero]

theorem diamond_split3_view (v v' : LEBVolume) (t : Nat) (h : diamond_split3 v t = .ok v')
    (h3 : typeOf v t = 3) (hw : v.totalNumElements + 8 < 2 ^ 32) :
    cacheView v' = completeView v t 4 := by
  unfold diamond_split3 at h
  simp only [bind_assoc, assert_bind_ok, pure_bind] at h
  obtain ⟨a0, a1, a2, a3, h⟩ := h
  simp only [pure, Except.pure, Except.ok.injEq] at h
  subst h
  have e4 : (v.totalNumElements + 4) % 2 ^ 32 = v.totalNumElements + 4 :=
    Nat.mod_eq_of_lt (by omega)
  have s1 := nextSlot_eq v.totalNumElements (by omega)
  have s2 := nextSlot_eq (v.totalNumElements + 1) (by omega)
  have s3 := nextSlot_eq (v.totalNumElements + 2) (by omega)
  simp only [allocate_snd, s1, s2, s3]
  simp only [diamonds_view, patchOutward_view, setNeighbors_view, setTypes_view,
    splitHeapID_view, copyModif_view, flagModified_view, allocate_view, e4]
  have hp : completePairs v t = (ring3 v t).zip
      ((List.range 4).map (fun k => v.totalNumElements + k)) := by
    unfold completePairs
    rw [h3]
    rfl
  unfold completeView
  rw [hp]
  simp only [mapModif_mapModif, ring3, List.range, List.range.loop, List.map, List.zip,
    List.zipWith, List.foldl, Nat.add_zero]

theorem diamond_split12_view (v v' : LEBVolume) (t : Nat) (h : diamond_split12 v t = .ok v')
    (h12 : typeOf v t = 1 ∨ typeOf v t = 2) (hw : v.totalNumElements + 8 < 2 ^ 32) :
    cacheView v' = completeView v t 6 := by
  unfold diamond_split12 at h
  simp only [bind_assoc, assert_bind_ok, pure_bind] at h
  obtain ⟨-, a0, a1, a2, a3, a4, a5, h⟩ := h
  simp only [pure, Except.pure, Except.ok.injEq] at h
  subst h
  have e6 : (v.totalNumElements + 6) % 2 ^ 32 = v.totalNumElements + 6 :=
    Nat.mod_eq_of_lt (by omega)
  have s1 := nextSlot_eq v.totalNumElements (by omega)
  have s2 := nextSlot_eq (v.totalNumElements + 1) (by omega)
  have s3 := nextSlot_eq (v.totalNumElements + 2) (by omega)
  have s4 := nextSlot_eq (v.totalNumElements + 3) (by omega)
  have s5 := nextSlot_eq (v.totalNumElements + 4) (by omega)
  simp only [allocate_snd, s1, s2, s3, s4, s5]
  simp only [diamonds_view, patchOutward_view, linkEven_view, linkOdd_view, setTypes_view,
    splitHeapID_view, copyModif_view, flagModified_view, allocate_view, e6]
  have hp : completePairs v t = (ring12 v t).zip
      ((List.range 6).map (fun k => v.totalNumElements + k)) := by
    unfold completePairs
    have hne : typeOf v t ≠ 0 := by omega
    simp only [hne, h12, if_true, if_false]
    rfl
  unfold completeView
  rw [hp]
  simp only [mapModif_mapModif, ring12, List.range, List.range.loop, List.map, List.zip,
    List.zipWith, List.foldl, Nat.add_zero]

/-! ## No cache is stale after a split -/

theorem getD_resize_lt {α : Type} [Inhabited α] (l : List α) (n e : Nat) (he : e < n) :
    (resize l n).getD e default = l.getD e default := by
  unfold resize
  simp only [List.getD_eq_getElem?_getD]
  by_cases hl : e < l.length
  · rw [List.getElem?_append_left (by rw [List.length_take]; omega),
      List.getElem?_take_of_lt he]
  · rw [List.getElem?_append_right (by rw [List.length_take]; omega),
      List.getElem?_replicate, List.getElem?_eq_none (by omega)]
    split <;> rfl

theorem zip_slots_cover (members : List Nat) (c : Nat) :
    (∀ e, c ≤ e → e < c + members.length →
      ∃ p ∈ members.zip ((List.range members.length).map (fun k => c + k)), p.2 = e) ∧
    (∀ p ∈ members.zip ((List.range members.length).map (fun k => c + k)),
      p.2 < c + members.length) := by
  obtain ⟨-, h2⟩ := zip_slots members c
  constructor
  · intro e h1 hlt
    have hmem : e ∈ (members.zip ((List.range members.length).map (fun k => c + k))).map
        Prod.snd := by
      rw [h2]
      exact List.mem_map.2 ⟨e - c, List.mem_range.2 (by omega), by omega⟩
    obtain ⟨p, hp, hpe⟩ := List.mem_map.1 hmem
    exact ⟨p, hp, hpe⟩
  · intro p hp
    have : p.2 ∈ (members.zip ((List.range members.length).map (fun k => c + k))).map
        Prod.snd := List.mem_map.2 ⟨p, hp, rfl⟩
    rw [h2] at this
    obtain ⟨k, hk, hke⟩ := List.mem_map.1 this
    have := List.mem_range.1 hk
    omega

/-- A split that grows the three vectors of the caches, flags its members and their slots
and changes no other flag and no other heapID leaves no stale cache. -/
theorem notStale_split (v v' : LEBVolume) (pairs : List (Nat × Nat)) (n : Nat)
    (f : List Nat → List Nat)
    (hview : cacheView v' = ((cacheView v).grow (v.totalNumElements + n)).mapModif f)
    (hflen : ∀ m, (f m).length = m.length)
    (hflag : ∀ m, (∀ p ∈ pairs, p.1 < m.length) →
      (∀ p ∈ pairs, FlagAt (f m) p.1 ∧ (p.2 < m.length → FlagAt (f m) p.2)) ∧
      (∀ e, (∀ p ∈ pairs, e ≠ p.1 ∧ e ≠ p.2) → (f m).getD e 0 = m.getD e 0))
    (htotal : v'.totalNumElements = v.totalNumElements + n)
    (hheap : v'.heapIDArray =
      pairs.foldl heapStep (resize v.heapIDArray (v.totalNumElements + n)))
    (hslots : ∀ e, v.totalNumElements ≤ e → e < v.totalNumElements + n →
      ∃ p ∈ pairs, p.2 = e)
    (hslot_lt : ∀ p ∈ pairs, p.2 < v.totalNumElements + n)
    (hlt : ∀ p ∈ pairs, p.1 < v.totalNumElements)
    (hs : NotStale v) :
    NotStale v' ∧ CacheShape v' ∧ v'.baseTypes = v.baseTypes ∧
    ∀ p ∈ pairs, Flagged v' p.1 ∧ Flagged v' p.2 := by
  have hmod : v'.modifArray = f (resize v.modifArray (v.totalNumElements + n)) :=
    congrArg CacheView.modif hview
  have hdepth : v'.depthArray = resize v.depthArray (v.totalNumElements + n) :=
    congrArg CacheView.depth hview
  have htetra : v'.tetraCacheArray = resize v.tetraCacheArray (v.totalNumElements + n) :=
    congrArg CacheView.tetra hview
  have hpts : v'.basePoints = v.basePoints := congrArg CacheView.basePoints hview
  have htys : v'.baseTypes = v.baseTypes := congrArg CacheView.baseTypes hview
  have hmin : v'.minimalDepth = v.minimalDepth := congrArg CacheView.minimalDepth hview
  obtain ⟨hfl, hoth⟩ := hflag (resize v.modifArray (v.totalNumElements + n))
    (fun p hp => by rw [length_resize]; have := hlt p hp; omega)
  have hflagged : ∀ p ∈ pairs, Flagged v' p.1 ∧ Flagged v' p.2 := by
    intro p hp
    obtain ⟨a, b⟩ := hfl p hp
    unfold Flagged
    rw [hmod]
    exact ⟨a, b (by rw [length_resize]; exact hslot_lt p hp)⟩
  refine ⟨?_, ⟨by rw [hmod, hflen, length_resize, htotal],
    by rw [hdepth, length_resize, htotal], by rw [htetra, length_resize, htotal]⟩, htys,
    hflagged⟩
  intro e he hnf
  rw [htotal] at he
  have hout : ∀ p ∈ pairs, e ≠ p.1 ∧ e ≠ p.2 := by
    intro p hp
    constructor
    · intro h1
      exact hnf (by rw [h1]; exact (hflagged p hp).1)
    · intro h2
      exact hnf (by rw [h2]; exact (hflagged p hp).2)
  have hold : e < v.totalNumElements := by
    by_contra hge
    obtain ⟨p, hp, hpe⟩ := hslots e (by omega) he
    exact (hout p hp).2 hpe.symm
  have hm : v'.modifArray.getD e 0 = v.modifArray.getD e 0 := by
    rw [hmod, hoth e hout]
    exact getD_resize_lt v.modifArray _ e he
  have hh : heapOf v' e = heapOf v e := by
    unfold heapOf
    rw [hheap, getD_foldl_heapStep_other _ _ _ hout]
    exact getD_resize_lt v.heapIDArray _ e he
  have hnf' : ¬ Flagged v e := by
    unfold Flagged at hnf ⊢
    rw [← hm]
    exact hnf
  obtain ⟨c1, c2⟩ := hs e hold hnf'
  unfold CacheValid
  rw [hh, hpts, htys, hmin, htetra, hdepth, getD_resize_lt v.tetraCacheArray _ e he]
  refine ⟨c1, ?_⟩
  rw [← c2]
  exact getD_resize_lt v.depthArray _ e he

theorem complete_slots (v : LEBVolume) (t : Nat) (members : List Nat)
    (hp : completePairs v t = members.zip
      ((List.range members.length).map (fun k => v.totalNumElements + k))) :
    (∀ e, v.totalNumElements ≤ e → e < v.totalNumElements + members.length →
      ∃ p ∈ completePairs v t, p.2 = e) ∧
    (∀ p ∈ completePairs v t, p.2 < v.totalNumElements + members.length) := by
  rw [hp]
  exact zip_slots_cover members v.totalNumElements

/-- After `diamond_split` on a diamond whose members are elements of the mesh, every member
and every twin carries the flag `ELEMENT_INVALID_CACHE`, and no cache is stale. -/
theorem diamond_split_caches (v v' : LEBVolume) (t : Nat) (h : diamond_split v t = .ok v')
    (hw : v.totalNumElements + 8 < 2 ^ 32)
    (hlt : ∀ p ∈ completePairs v t, p.1 < v.totalNumElements)
    (hshape : CacheShape v) (hs : NotStale v) :
    NotStale v' ∧ CacheShape v' ∧ v'.baseTypes = v.baseTypes ∧
    ∀ p ∈ completePairs v t, Flagged v' p.1 ∧ Flagged v' p.2 := by
  have hflen : ∀ m, ((completePairs v t).foldl copyStep
      (((completePairs v t).map Prod.fst).foldl flagStep m)).length = m.length := by
    intro m
    rw [length_foldl_copyStep, length_foldl_flagStep]
  unfold diamond_split at h
  simp only at h
  by_cases h0 : typeOf v t = 0
  · rw [if_pos h0] at h
    obtain ⟨f1, f2, -, -⟩ := diamond_split0_fields v v' t h h0 hw
    obtain ⟨c1, c2⟩ := complete_slots v t (ring0 v t)
      (by unfold completePairs; simp only [h0, if_true])
    exact notStale_split v v' _ 8 _ (diamond_split0_view v v' t h h0 hw) hflen
      (fun m hm => complete_flags _ m hm) f1 f2 c1 c2 hlt hs
  · rw [if_neg h0] at h
    by_cases h12 : typeOf v t = 1 ∨ typeOf v t = 2
    · rw [if_pos h12] at h
      obtain ⟨f1, f2, -, -⟩ := diamond_split12_fields v v' t h h12 hw
      obtain ⟨c1, c2⟩ := complete_slots v t (ring12 v t)
        (by unfold completePairs; simp only [h0, h12, if_true, if_false])
      exact notStale_split v v' _ 6 _ (diamond_split12_view v v' t h h12 hw) hflen
        (fun m hm => complete_flags _ m hm) f1 f2 c1 c2 hlt hs
    · rw [if_neg h12] at h
      by_cases h3 : typeOf v t = 3
      · rw [if_pos h3] at h
        obtain ⟨f1, f2, -, -⟩ := diamond_split3_fields v v' t h h3 hw
        obtain ⟨c1, c2⟩ := complete_slots v t (ring3 v t)
          (by unfold completePairs; rw [h3]; rfl)
        exact notStale_split v v' _ 4 _ (diamond_split3_view v v' t h h3 hw) hflen
          (fun m hm => complete_flags _ m hm) f1 f2 c1 c2 hlt hs
      · rw [if_neg h3] at h
        simp only [pure, Except.pure, Except.ok.injEq] at h
        subst h
        have hnil : completePairs v t = [] := by
          unfold completePairs
          simp only [h0, h12, h3, if_false]
          rfl
        rw [hnil]
        exact ⟨hs, hshape, rfl, fun p hp => absurd hp (List.not_mem_nil p)⟩

/-! ## The caches along the incomplete split -/

theorem grow_grow (c : CacheView) (a b : Nat) (h1 : c.modif.length ≤ a) (h2 : c.depth.length ≤ a)
    (h3 : c.tetra.length ≤ a) (hab : a ≤ b) : (c.grow a).grow b = c.grow b := by
  unfold CacheView.grow
  simp only [resize_resize _ _ _ h1 hab, resize_resize _ _ _ h2 hab, resize_resize _ _ _ h3 hab]

theorem armsView_alloc {v : LEBVolume} {n : Nat} {st : Arms} (h : ArmsView v n st)
    (indices slots : List Nat) (b : Bool) (hshape : CacheShape v)
    (hw : v.totalNumElements + 1 + n + 1 < 2 ^ 32) :
    ArmsView v (n + 1)
      { volume := (allocate_new_elements st.volume 1).1, indices := indices,
        slots := slots, firstTwin := b } := by
  have hm : (v.totalNumElements + 1 + n + 1) % 2 ^ 32 = v.totalNumElements + 1 + (n + 1) := by
    rw [Nat.mod_eq_of_lt hw]; omega
  obtain ⟨s1, s2, s3⟩ := hshape
  refine ⟨?_, ?_⟩
  · simp only [allocate_totalNumElements, h.1, hm]
  · simp only [allocate_view, h.1, h.2, hm]
    exact grow_grow _ _ _ (by show v.modifArray.length ≤ _; omega)
      (by show v.depthArray.length ≤ _; omega) (by show v.tetraCacheArray.length ≤ _; omega)
      (by omega)

theorem collectLeft_view (v : LEBVolume) (left : Nat) (st0 : Arms) (n0 : Nat)
    (hshape : CacheShape v) (h0 : ArmsView v n0 st0) (n : Nat)
    (hw : v.totalNumElements + 1 + n0 + n < 2 ^ 32) :
    ArmsView v (n0 + n) (collectLeft left n st0) := by
  induction n with
  | zero => exact h0
  | succ n ih =>
    unfold collectLeft
    rw [foldl_range_succ]
    exact armsView_alloc (ih (by omega)) _ _ _ hshape (by omega)

theorem collectRight_view (v : LEBVolume) (left : Nat) (st0 : Arms) (n0 : Nat)
    (hshape : CacheShape v) (h0 : ArmsView v n0 st0) (n : Nat)
    (hw : v.totalNumElements + 1 + n0 + n < 2 ^ 32) :
    ArmsView v (n0 + n) (collectRight left n st0) := by
  induction n with
  | zero => exact h0
  | succ n ih =>
    unfold collectRight
    rw [foldl_range_succ]
    exact armsView_alloc (ih (by omega)) _ _ _ hshape (by omega)

theorem collectArms_view (v : LEBVolume) (t r l ringSize : Nat) (hshape : CacheShape v)
    (hw : v.totalNumElements + 1 + l + r < 2 ^ 32) :
    ArmsView v (l + r) (collectArms v t r l ringSize) := by
  unfold collectArms
  have hm : (v.totalNumElements + 1) % 2 ^ 32 = v.totalNumElements + 1 :=
    Nat.mod_eq_of_lt (by omega)
  have h0 : ArmsView v 0
      ⟨(allocate_new_elements v 1).1,
        (List.replicate ringSize UINT32_MAX).set l t,
        (List.replicate ringSize UINT32_MAX).set l (allocate_new_elements v 1).2, true⟩ := by
    refine ⟨?_, ?_⟩
    · simp only [allocate_totalNumElements, hm, Nat.add_zero]
    · simp only [allocate_view, hm, Nat.add_zero]
  have h1 := collectLeft_view v l _ 0 hshape h0 l (by omega)
  have h1' : ArmsView v (0 + l)
      { (collectLeft l l ⟨(allocate_new_elements v 1).1,
        (List.replicate ringSize UINT32_MAX).set l t,
        (List.replicate ringSize UINT32_MAX).set l (allocate_new_elements v 1).2, true⟩)
        with firstTwin := true } := ⟨h1.1, h1.2⟩
  have h2 := collectRight_view v l _ (0 + l) hshape h1' r (by omega)
  simpa using h2

theorem updateMembers_view (vol : LEBVolume) (ind sl : List Nat) (n ti ts : Nat) :
    cacheView (updateMembers vol ind sl n ti ts) =
      (cacheView vol).mapModif (fun m =>
        ((List.range n).map (fun k => (ind.getD k UINT32_MAX, sl.getD k UINT32_MAX))).foldl
          updStep m) := by
  induction n with
  | zero => rfl
  | succ n ih =>
    have hstep : updateMembers vol ind sl (n + 1) ti ts =
        updateMember ind sl ti ts (updateMembers vol ind sl n ti ts) n := by
      unfold updateMembers
      rw [foldl_range_succ]
    rw [hstep, map_range_succ]
    unfold updateMember
    simp only [copyModif_view, flagModified_view, setTypes_view, splitHeapID_view, ih,
      mapModif_mapModif, List.foldl_append, List.foldl_cons, List.foldl_nil]
    rfl

theorem linkMember_view (ind sl : List Nat) (na : List uint4) (rs : Nat)
    (st : LEBVolume × Bool) (e : Nat) :
    cacheView (linkMember ind sl na rs st e).1 =
      (cacheView st.1).mapModif (fun m =>
        updStep m (ind.getD e UINT32_MAX, sl.getD e UINT32_MAX)) := by
  unfold linkMember
  simp only
  split <;> rfl

theorem linkMembers_view (vol : LEBVolume) (ind sl : List Nat) (na : List uint4)
    (n rs : Nat) (b : Bool) :
    cacheView (linkMembers vol ind sl na n rs b) =
      (cacheView vol).mapModif (fun m =>
        ((List.range n).map (fun k => (ind.getD k UINT32_MAX, sl.getD k UINT32_MAX))).foldl
          updStep m) := by
  unfold linkMembers
  induction n with
  | zero => rfl
  | succ n ih =>
    rw [foldl_range_succ, linkMember_view, ih, map_range_succ]
    simp only [mapModif_mapModif, List.foldl_append, List.foldl_cons, List.foldl_nil]

theorem patchMembers_view (vol : LEBVolume) (ind sl : List Nat) (na : List uint4) (n : Nat) :
    cacheView (patchMembers vol ind sl na n) = cacheView vol := by
  unfold patchMembers
  induction n with
  | zero => rfl
  | succ n ih =>
    rw [foldl_range_succ]
    unfold patchMember
    simp only [patchOutward_view]
    exact ih

/-- The caches after the shared part of `diamond_split_incomplete`: the three vectors grown
and the flags set along the members, once by the loop that updates the data and once by the
loop that links the members. -/
theorem splitIncompleteRing_view (v : LEBVolume) (t r l rs ti ts : Nat)
    (hshape : CacheShape v) (hw : v.totalNumElements + 1 + l + r < 2 ^ 32) :
    cacheView (splitIncompleteRing v t r l rs ti ts).1 =
      ((cacheView v).grow (v.totalNumElements + (1 + l + r))).mapModif (fun m =>
        ((List.range (1 + r + l)).map (fun k =>
          ((collectArms v t r l rs).indices.getD k UINT32_MAX,
           (collectArms v t r l rs).slots.getD k UINT32_MAX))).foldl updStep
        (((List.range (1 + r + l)).map (fun k =>
          ((collectArms v t r l rs).indices.getD k UINT32_MAX,
           (collectArms v t r l rs).slots.getD k UINT32_MAX))).foldl updStep m)) := by
  have hinv := collectArms_view v t r l rs hshape hw
  have hsize : (1 + r + l) % 2 ^ 32 = 1 + r + l := Nat.mod_eq_of_lt (by omega)
  have e1 : v.totalNumElements + 1 + (l + r) = v.totalNumElements + (1 + l + r) := by omega
  unfold splitIncompleteRing
  simp only [hsize]
  rw [patchMembers_view, linkMembers_view, updateMembers_view, hinv.2, e1]
  rfl

/-- The slots of the pairs of an incomplete diamond are the new elements. -/
theorem incomplete_slots (v : LEBVolume) (t r l : Nat)
    (hlen : v.heapIDArray.length = v.totalNumElements)
    (hlen2 : v.typeArray.length = v.totalNumElements)
    (hw : v.totalNumElements + 1 + l + r < 2 ^ 32)
    (hfit : 1 + r + l ≤ ringSizeOf (typeOf v t)) :
    (∀ e, v.totalNumElements ≤ e → e < v.totalNumElements + (1 + l + r) →
      ∃ p ∈ incompletePairs v t r l, p.2 = e) ∧
    (∀ p ∈ incompletePairs v t r l, p.2 < v.totalNumElements + (1 + l + r)) := by
  have hslots := collectArms_slots v t r l (ringSizeOf (typeOf v t)) hlen hlen2 hfit hw
  constructor
  · intro e h1 h2
    by_cases hk : e - v.totalNumElements ≤ l
    · refine ⟨_, List.mem_map.2 ⟨l - (e - v.totalNumElements), List.mem_range.2 (by omega), rfl⟩,
        ?_⟩
      simp only
      rw [hslots _ (by omega), if_pos (by omega)]
      omega
    · refine ⟨_, List.mem_map.2 ⟨e - v.totalNumElements, List.mem_range.2 (by omega), rfl⟩, ?_⟩
      simp only
      rw [hslots _ (by omega), if_neg hk]
      omega
  · intro p hp
    unfold incompletePairs at hp
    obtain ⟨k, hk, hke⟩ := List.mem_map.1 hp
    rw [← hke]
    simp only
    rw [hslots k (List.mem_range.1 hk)]
    have := List.mem_range.1 hk
    split <;> omega

/-- After `diamond_split_incomplete` on a diamond of type 0 or 3 whose members are elements of
the mesh, every member and every twin carries the flag `ELEMENT_INVALID_CACHE`, and no cache
is stale. -/
theorem diamond_split_incomplete_caches (v v' : LEBVolume) (t r l : Nat)
    (h : diamond_split_incomplete v t r l = .ok v')
    (h03 : typeOf v t = 0 ∨ typeOf v t = 3)
    (hlen : v.heapIDArray.length = v.totalNumElements)
    (hlen2 : v.typeArray.length = v.totalNumElements)
    (hw : v.totalNumElements + 1 + l + r < 2 ^ 32)
    (hfit : 1 + r + l ≤ ringSizeOf (typeOf v t))
    (hlt : ∀ p ∈ incompletePairs v t r l, p.1 < v.totalNumElements)
    (hshape : CacheShape v) (hs : NotStale v) :
    NotStale v' ∧ CacheShape v' ∧ v'.baseTypes = v.baseTypes ∧
    ∀ p ∈ incompletePairs v t r l, Flagged v' p.1 ∧ Flagged v' p.2 := by
  obtain ⟨f1, f2, -⟩ := diamond_split_incomplete_fields v v' t r l h h03 hlen hlen2 hw
  obtain ⟨c1, c2⟩ := incomplete_slots v t r l hlen hlen2 hw hfit
  have hview : cacheView v' = ((cacheView v).grow (v.totalNumElements + (1 + l + r))).mapModif
      (fun m => (incompletePairs v t r l).foldl updStep
        ((incompletePairs v t r l).foldl updStep m)) := by
    unfold diamond_split_incomplete at h
    simp only at h
    rcases h03 with h0 | h3
    · rw [if_pos h0] at h
      simp only [pure, Except.pure, Except.ok.injEq] at h
      subst h
      unfold incompletePairs
      rw [h0]
      exact splitIncompleteRing_view v t r l 8 1 2 hshape hw
    · rw [if_neg (by omega), if_neg (by omega), if_pos h3] at h
      simp only [pure, Except.pure, Except.ok.injEq] at h
      subst h
      unfold incompletePairs
      rw [h3]
      exact splitIncompleteRing_view v t r l 4 0 0 hshape hw
  refine notStale_split v v' _ (1 + l + r) _ hview ?_ ?_ f1 f2 c1 c2 hlt hs
  · intro m
    rw [length_foldl_updStep, length_foldl_updStep]
  · intro m hm
    obtain ⟨-, a2, a3⟩ := incomplete_flags (incompletePairs v t r l) m hm
    obtain ⟨b1, -, b3⟩ := incomplete_flags (incompletePairs v t r l)
      ((incompletePairs v t r l).foldl updStep m) (fun p hp => by
        rw [length_foldl_updStep]
        exact hm p hp)
    refine ⟨fun p hp => ⟨b1 _ (a2 p hp).1, fun h2 => b1 _ ((a2 p hp).2 h2)⟩, fun e he => ?_⟩
    exact (b3 e he).trans (a3 e he)

/-! ## The caches along the classifying loop and the final evaluation -/

theorem findMSBLoop_le (fuel x d : Nat) : leb__FindMSBLoop fuel x d ≤ d + fuel := by
  induction fuel generalizing x d with
  | zero => simp [leb__FindMSBLoop]
  | succ fuel ih =>
    unfold leb__FindMSBLoop
    split
    · have := ih (x >>> 1) (d + 1)
      omega
    · omega

theorem find_msb_byte (x : Nat) : find_msb_64 x % 2 ^ 8 = leb__FindMSB x := by
  unfold find_msb_64
  have := findMSBLoop_le 64 x 0
  unfold leb__FindMSB
  omega

theorem baseType_getD (v : LEBVolume) (h : BaseTypeZero v) (r : Nat) :
    v.baseTypes.getD r 0 = 0 := by
  rw [List.getD_eq_getElem?_getD]
  rcases hr : v.baseTypes[r]? with _ | x
  · rfl
  · exact h x (List.getElem?_mem hr)

/-- The caches that the classifying loop writes for an element are valid. -/
theorem refreshed_valid (v u : LEBVolume) (k : Nat) (hbase : BaseTypeZero v)
    (hk1 : k < v.depthArray.length) (hk2 : k < v.tetraCacheArray.length)
    (hheap : u.heapIDArray = v.heapIDArray) (hpts : u.basePoints = v.basePoints)
    (htys : u.baseTypes = v.baseTypes) (hmin : u.minimalDepth = v.minimalDepth)
    (hdepth : u.depthArray =
      v.depthArray.set k (find_msb_64 (v.heapIDArray.getD k 0) % 2 ^ 8))
    (htetra : u.tetraCacheArray = v.tetraCacheArray.set k
      (evaluate_tetrahedron_cached (v.heapIDArray.getD k 0) v.minimalDepth v.basePoints
        v.baseTypes Leb3DCache)) :
    CacheValid u k := by
  unfold CacheValid heapOf
  rw [hheap, hpts, htys, hmin, hdepth, htetra, getD_set_eq _ _ _ _ hk1,
    getD_set_eq _ _ _ _ hk2, find_msb_byte, evaluate_cached_eq _ _ _ _ (baseType_getD v hbase _)]
  exact ⟨rfl, rfl⟩

/-- The caches of an element that the classifying loop does not refresh stay as they are. -/
theorem untouched_valid (v u : LEBVolume) (k : Nat)
    (hheap : u.heapIDArray = v.heapIDArray) (hpts : u.basePoints = v.basePoints)
    (htys : u.baseTypes = v.baseTypes) (hmin : u.minimalDepth = v.minimalDepth)
    (hdepth : u.depthArray = v.depthArray) (htetra : u.tetraCacheArray = v.tetraCacheArray)
    (h : CacheValid v k) : CacheValid u k := by
  unfold CacheValid heapOf at h ⊢
  rw [hheap, hpts, htys, hmin, hdepth, htetra]
  exact h

/-- The body of the classifying loop leaves no stale cache. -/
theorem classifyElement_caches (keep : FittingParameters → GridVolume → Tetrahedron → Bool)
    (gridVolume : GridVolume) (cache : HeuristicCache) (params : FittingParameters)
    (maxDepth : Nat) (v : LEBVolume) (k : Nat) (hshape : CacheShape v)
    (hbase : BaseTypeZero v) (hs : NotStale v) :
    NotStale (classifyElement keep gridVolume cache params maxDepth v k) ∧
    CacheShape (classifyElement keep gridVolume cache params maxDepth v k) ∧
    BaseTypeZero (classifyElement keep gridVolume cache params maxDepth v k) := by
  have hframe := classify_frame keep gridVolume cache params maxDepth v k
  obtain ⟨s1, s2, s3⟩ := hshape
  refine ⟨?_, ⟨by rw [hframe.modifLen, hframe.total]; exact s1,
    by rw [hframe.depthLen, hframe.total]; exact s2,
    by rw [hframe.tetraLen, hframe.total]; exact s3⟩, ?_⟩
  swap
  · unfold BaseTypeZero
    rw [hframe.baseTypes]
    exact hbase
  intro e he hnf
  rw [hframe.total] at he
  by_cases hek : e = k
  · subst hek
    have hk1 : e < v.depthArray.length := by omega
    have hk2 : e < v.tetraCacheArray.length := by omega
    have hk3 : e < v.modifArray.length := by omega
    revert hnf
    unfold classifyElement
    dsimp only
    by_cases hinc : v.modifArray.getD e 0 &&& ELEMENT_INCLUDED = 0
    · rw [if_pos hinc]
      exact fun hnf => hs e he hnf
    · rw [if_neg hinc]
      by_cases hinv : v.modifArray.getD e 0 &&& ELEMENT_INVALID_CACHE = ELEMENT_INVALID_CACHE
      · simp only [hinv, if_true]
        intro _
        split_ifs <;> exact refreshed_valid v _ e hbase hk1 hk2 rfl rfl rfl rfl rfl rfl
      · simp only [hinv, if_false]
        intro _
        split_ifs <;> exact untouched_valid v _ e rfl rfl rfl rfl rfl rfl (hs e he hinv)
  · have hm := hframe.modif e hek
    have hnf' : ¬ Flagged v e := by
      unfold Flagged at hnf ⊢
      rw [← hm]; exact hnf
    obtain ⟨c1, c2⟩ := hs e he hnf'
    unfold CacheValid heapOf
    rw [hframe.heap, hframe.points, hframe.baseTypes, hframe.minDepth, hframe.tetra e hek,
      hframe.depth e hek]
    exact ⟨c1, c2⟩

/-- The loop that flags every element before the first round leaves no stale cache: every
element is flagged. -/
theorem flagAll_caches (v : LEBVolume) (hshape : CacheShape v) (hbase : BaseTypeZero v) :
    NotStale (flagAll v) ∧ CacheShape (flagAll v) ∧ BaseTypeZero (flagAll v) ∧
    ∀ e, e < v.totalNumElements → Flagged (flagAll v) e := by
  obtain ⟨s1, s2, s3⟩ := hshape
  have hfa : flagAll v = (List.range v.totalNumElements).foldl (fun volume eleIdx =>
      { volume with modifArray := volume.modifArray.set eleIdx 3 }) v := rfl
  have h := flagAll_ok v s1 s2 s3
  rw [← hfa] at h
  have hflag : ∀ e, e < v.totalNumElements → Flagged (flagAll v) e := by
    intro e he
    unfold Flagged
    rw [h.pending e (Nat.zero_le _) he]
    rfl
  have htotal : (flagAll v).totalNumElements = v.totalNumElements := h.total
  refine ⟨fun e he hnf => absurd (hflag e (by rw [← htotal]; exact he)) hnf,
    ⟨by rw [htotal]; exact h.modifLen, by rw [htotal]; exact h.depthLen,
      by rw [htotal]; exact h.tetraLen⟩, ?_, hflag⟩
  unfold BaseTypeZero
  rw [h.baseTypes]
  exact hbase

/-- The classifying loop of a round leaves no stale cache. -/
theorem classifyAll_caches (keep : FittingParameters → GridVolume → Tetrahedron → Bool)
    (gridVolume : GridVolume) (cache : HeuristicCache) (params : FittingParameters)
    (maxDepth : Nat) (v : LEBVolume) (hshape : CacheShape v) (hbase : BaseTypeZero v)
    (hs : NotStale v) :
    NotStale (classifyAll keep gridVolume cache params maxDepth v) ∧
    CacheShape (classifyAll keep gridVolume cache params maxDepth v) ∧
    BaseTypeZero (classifyAll keep gridVolume cache params maxDepth v) := by
  have key : ∀ (l : List Nat) (w : LEBVolume), NotStale w ∧ CacheShape w ∧ BaseTypeZero w →
      NotStale (l.foldl (classifyElement keep gridVolume cache params maxDepth) w) ∧
      CacheShape (l.foldl (classifyElement keep gridVolume cache params maxDepth) w) ∧
      BaseTypeZero (l.foldl (classifyElement keep gridVolume cache params maxDepth) w) := by
    intro l
    induction l with
    | nil => intro w hw; exact hw
    | cons k l ih =>
      intro w hw
      rw [List.foldl_cons]
      exact ih _ (classifyElement_caches keep gridVolume cache params maxDepth w k hw.2.1
        hw.2.2 hw.1)
  exact key _ v ⟨hs, hshape, hbase⟩

/-! ## The steps of a fitting -/

theorem splitLoop_preserves (P : LEBVolume → Prop)
    (hcomp : ∀ v v' t, diamond_split v t = .ok v' → P v → P v')
    (hinc : ∀ v v' t r l, diamond_split_incomplete v t r l = .ok v' → P v → P v')
    (fuel : Nat) : ∀ (l : List Nat) (st st' : LEBVolume × Nat),
      splitLoop fuel l st = .ok st' → P st.1 → P st'.1 := by
  intro l
  induction l with
  | nil =>
    intro st st' h hp
    simp only [splitLoop, pure, Except.pure, Except.ok.injEq] at h
    subst h; exact hp
  | cons e l ih =>
    intro st st' h hp
    unfold splitLoop at h
    cases hs : splitRequested fuel st e with
    | error x => simp [hs, bind, Except.bind] at h
    | ok st1 =>
      simp only [hs, bind, Except.bind] at h
      refine ih st1 st' h ?_
      unfold splitRequested at hs
      split at hs
      · cases hr : recursive_split_element fuel st.1 e with
        | error x => simp [hr, bind, Except.bind] at hs
        | ok w =>
          simp only [hr, bind, Except.bind, pure, Except.pure, Except.ok.injEq] at hs
          subst hs
          exact recursive_split_preserves P hcomp hinc fuel st.1 w e hr hp
      · simp only [pure, Except.pure, Except.ok.injEq] at hs
        subst hs; exact hp

theorem classifyAll_preserves (P : LEBVolume → Prop)
    (keep : FittingParameters → GridVolume → Tetrahedron → Bool)
    (gridVolume : GridVolume) (cache : HeuristicCache) (params : FittingParameters)
    (maxDepth : Nat)
    (hclass : ∀ w e, P w → P (classifyElement keep gridVolume cache params maxDepth w e))
    (v : LEBVolume) (hp : P v) : P (classifyAll keep gridVolume cache params maxDepth v) := by
  have key : ∀ (l : List Nat) (w : LEBVolume), P w →
      P (l.foldl (classifyElement keep gridVolume cache params maxDepth) w) := by
    intro l
    induction l with
    | nil => intro w hw; exact hw
    | cons k l ih =>
      intro w hw
      rw [List.foldl_cons]
      exact ih _ (hclass w k hw)
  exact key _ v hp

/-- A property of the mesh that the body of the classifying loop and both kinds of diamond
split keep is kept by the rounds of the fitting. -/
theorem fitRounds_preserves (P : LEBVolume → Prop)
    (keep : FittingParameters → GridVolume → Tetrahedron → Bool)
    (gridVolume : GridVolume) (cache : HeuristicCache) (params : FittingParameters)
    (maxDepth : Nat)
    (hclass : ∀ w e, P w → P (classifyElement keep gridVolume cache params maxDepth w e))
    (hcomp : ∀ v v' t, diamond_split v t = .ok v' → P v → P v')
    (hinc : ∀ v v' t r l, diamond_split_incomplete v t r l = .ok v' → P v → P v') :
    ∀ (fuel : Nat) (v v' : LEBVolume),
      fitRounds keep gridVolume cache params maxDepth fuel v = .ok v' → P v → P v' := by
  intro fuel
  induction fuel with
  | zero =>
    intro v v' h
    simp [fitRounds, throw, throwThe, MonadExceptOf.throw] at h
  | succ fuel ih =>
    intro v v' h hp
    rw [fitRounds_classify] at h
    cases hs : splitLoop (fuel + 1) (List.range v.totalNumElements)
        (classifyAll keep gridVolume cache params maxDepth v, 0) with
    | error x => simp [hs, Except.bind] at h
    | ok st =>
      simp only [hs, Except.bind] at h
      have hst := splitLoop_preserves P hcomp hinc (fuel + 1) _ _ st hs
        (classifyAll_preserves P keep gridVolume cache params maxDepth hclass v hp)
      split at h
      · simp only [pure, Except.pure, Except.ok.injEq] at h
        subst h; exact hst
      · exact ih st.1 v' h hst

/-- The mesh that `fit_volume_to_grid` returns is reached from the flagged mesh by bodies of
the classifying loop and by diamond splits only: a property that these steps keep holds for
it. -/
theorem fit_preserves (P : LEBVolume → Prop) (log2f : ℚ → ℚ)
    (keep : FittingParameters → GridVolume → Tetrahedron → Bool) (fuel : Nat)
    (v : LEBVolume) (gridVolume : GridVolume) (cache : HeuristicCache)
    (params : FittingParameters) (v' : LEBVolume) (d : Nat)
    (hclass : ∀ w e maxDepth, P w →
      P (classifyElement keep gridVolume cache params maxDepth w e))
    (hcomp : ∀ v v' t, diamond_split v t = .ok v' → P v → P v')
    (hinc : ∀ v v' t r l, diamond_split_incomplete v t r l = .ok v' → P v → P v')
    (hp : P (flagAll v))
    (h : fit_volume_to_grid log2f keep fuel v gridVolume cache params = .ok (v', d)) : P v' := by
  have h' : (fitRounds keep gridVolume cache params
      (((truncate (log2f gridVolume.resolution.x * 3 + 6)).toNat % 2 ^ 32 + 2 ^ 32 - 2) % 2 ^ 32)
      fuel (flagAll v) >>= fun w => (pure (w,
        ((truncate (log2f gridVolume.resolution.x * 3 + 6)).toNat % 2 ^ 32 + 2 ^ 32 - 2)
          % 2 ^ 32) : Except Fail (LEBVolume × Nat))) = .ok (v', d) := h
  cases hr : fitRounds keep gridVolume cache params
      (((truncate (log2f gridVolume.resolution.x * 3 + 6)).toNat % 2 ^ 32 + 2 ^ 32 - 2) % 2 ^ 32)
      fuel (flagAll v) with
  | error x =>
    rw [hr] at h'
    cases h'
  | ok w =>
    rw [hr] at h'
    simp only [bind, Except.bind, pure, Except.pure, Except.ok.injEq, Prod.mk.injEq] at h'
    obtain ⟨h1, -⟩ := h'
    subst h1
    exact fitRounds_preserves P keep gridVolume cache params _
      (fun w e => hclass w e _) hcomp hinc fuel _ _ hr hp

theorem length_writeTetra (vs : List float3) (e : Nat) (T : Tetrahedron) :
    (writeTetra vs e T).length = vs.length := by
  unfold writeTetra
  simp only [List.length_set]

theorem getD_writeTetra_self (vs : List float3) (e f : Nat) (T : Tetrahedron)
    (hlen : 4 * e + 3 < vs.length) (hf : f < 4) :
    (writeTetra vs e T).getD (4 * e + f) default = T.p f := by
  unfold writeTetra Tetrahedron.p
  interval_cases f
  · have h0 : 4 * e + 0 = 4 * e := rfl
    rw [getD_set_ne _ _ _ _ _ (by omega), getD_set_ne _ _ _ _ _ (by omega),
      getD_set_ne _ _ _ _ _ (by omega), h0, getD_set_eq _ _ _ _ (by omega)]
    rfl
  · rw [getD_set_ne _ _ _ _ _ (by omega), getD_set_ne _ _ _ _ _ (by omega),
      getD_set_eq _ _ _ _ (by rw [List.length_set]; omega)]
    rfl
  · rw [getD_set_ne _ _ _ _ _ (by omega),
      getD_set_eq _ _ _ _ (by simp only [List.length_set]; omega)]
    rfl
  · rw [getD_set_eq _ _ _ _ (by simp only [List.length_set]; omega)]
    rfl

theorem getD_writeTetra_other (vs : List float3) (e i : Nat) (T : Tetrahedron)
    (h : i < 4 * e ∨ 4 * e + 4 ≤ i) :
    (writeTetra vs e T).getD i default = vs.getD i default := by
  unfold writeTetra
  rw [getD_set_ne _ _ _ _ _ (by omega), getD_set_ne _ _ _ _ _ (by omega),
    getD_set_ne _ _ _ _ _ (by omega), getD_set_ne _ _ _ _ _ (by omega)]

/-- The loop of `evaluate_positions` over the first `n` elements writes the four vertices of
each of them. -/
theorem positions_loop (g : Nat → Tetrahedron) (vs : List float3) (n : Nat)
    (hlen : 4 * n ≤ vs.length) (e f : Nat) (he : e < n) (hf : f < 4) :
    ((List.range n).foldl (fun vertices elementID => writeTetra vertices elementID (g elementID))
      vs).getD (4 * e + f) default = (g e).p f := by
  induction n with
  | zero => omega
  | succ n ih =>
    rw [foldl_range_succ]
    have hl : ((List.range n).foldl (fun vertices elementID =>
        writeTetra vertices elementID (g elementID)) vs).length = vs.length := by
      clear ih he hlen
      induction n with
      | zero => rfl
      | succ n ih2 => rw [foldl_range_succ, length_writeTetra, ih2]
    by_cases hen : e < n
    · rw [getD_writeTetra_other _ _ _ _ (by omega)]
      exact ih (by omega) hen
    · have : e = n := by omega
      subst this
      exact getD_writeTetra_self _ _ _ _ (by rw [hl]; omega) hf

/-- The vector of `evaluate_positions` holds, for every element, the four vertices of the
tetrahedron re-evaluated from its heapID or read from its cache. -/
theorem evaluate_positions_at (v : LEBVolume) (hsmall : v.totalNumElements < 2 ^ 30)
    (e f : Nat) (he : e < v.totalNumElements) (hf : f < 4) :
    (evaluate_positions v).getD (4 * e + f) default = (positionsOf v e).p f := by
  unfold evaluate_positions
  have h31 : v.totalNumElements < 2 ^ 31 := by omega
  have hm : 4 * v.totalNumElements % 2 ^ 32 = 4 * v.totalNumElements :=
    Nat.mod_eq_of_lt (by omega)
  simp only [h31, if_true, hm]
  exact positions_loop (positionsOf v) _ _ (by rw [length_resize]) e f he hf

/-- On a mesh without a stale cache `evaluate_positions` returns the vertices of the
tetrahedron of the current heapID of every element. -/
theorem positions_true (v : LEBVolume) (hsmall : v.totalNumElements < 2 ^ 30)
    (hbase : BaseTypeZero v) (hs : NotStale v) (e f : Nat) (he : e < v.totalNumElements)
    (hf : f < 4) :
    (evaluate_positions v).getD (4 * e + f) default =
      (evaluate_tetrahedron (heapOf v e) v.minimalDepth v.basePoints v.baseTypes).p f := by
  rw [evaluate_positions_at v hsmall e f he hf]
  unfold positionsOf
  by_cases hfl : v.modifArray.getD e 0 &&& 2 = 2
  · rw [if_pos hfl, evaluate_cached_eq _ _ _ _ (baseType_getD v hbase _)]
    rfl
  · rw [if_neg hfl, (hs e he hfl).1]

end Leb3D
